import Mathlib

/-!
# Threefish-1024 kernel module (`threefish1024.c`)

A shallow embedding of the cipher core of `threefish1024.c` together with the
properties its specification states about it.  Machine words (`u64`) are natural
numbers and every wrapping operation carries its reduction modulo `2 ^ 64`
explicitly.  The bodies of `threefish_encrypt_1024` and `threefish_decrypt_1024`
are straight-line code over the sixteen locals `b0 .. b15`; they are embedded
block by block (one definition per group of eight MIX steps, in source order) as
functions on the record `State` of those locals.
-/

set_option linter.unusedVariables false

namespace Threefish1024

/-! ## Machine words -/

/-- Wrapping `u64` addition, the C expression `a + b` on `u64` operands. -/
def add64 (a b : Nat) : Nat := (a + b) % 2 ^ 64

/-- Wrapping `u64` subtraction, the C expression `a - b` on `u64` operands. -/
def sub64 (a b : Nat) : Nat := (a + (2 ^ 64 - b % 2 ^ 64)) % 2 ^ 64

/-- Modelled from the spec: `rol64` of `linux/bitops.h` (rotate-left of a 64-bit word), which the
source includes but does not define: `(word << (shift & 63)) | (word >> ((-shift) & 63))`,
truncated to 64 bits. -/
def rol64 (word shift : Nat) : Nat :=
  ((word <<< (shift % 64)) ||| (word >>> ((64 - shift % 64) % 64))) % 2 ^ 64

/-- Modelled from the spec: `ror64` of `linux/bitops.h` (rotate-right of a 64-bit word), which the
source includes but does not define: `(word >> (shift & 63)) | (word << ((-shift) & 63))`,
truncated to 64 bits. -/
def ror64 (word shift : Nat) : Nat :=
  ((word >>> (shift % 64)) ||| (word <<< ((64 - shift % 64) % 64))) % 2 ^ 64

/-- Byte order of the machine the module runs on. -/
inductive Host where
  | little
  | big
  deriving DecidableEq, Repr

/-- Reversal of the eight bytes of a 64-bit word. -/
def swab64 (x : Nat) : Nat :=
  (List.range 8).foldl (fun acc j => acc * 256 + (x / 256 ^ j) % 256) 0

/-- Modelled from the spec: the kernel macro `le64_to_cpu`, not defined in the source: the
identity on a little-endian host and the byte reversal on a big-endian one. -/
def le64_to_cpu (h : Host) (x : Nat) : Nat :=
  match h with
  | .little => x
  | .big => swab64 x

/-- Modelled from the spec: the kernel macro `cpu_to_le64`, not defined in the source: the
identity on a little-endian host and the byte reversal on a big-endian one. -/
def cpu_to_le64 (h : Host) (x : Nat) : Nat :=
  match h with
  | .little => x
  | .big => swab64 x

/-! ## Key context and key schedule -/

/-- The macro `KeyScheduleConst`. -/
def KeyScheduleConst : Nat := 0x1BD11BDAA9FC1A22

/-- The macro `SKEIN_MAX_STATE_WORDS`. -/
def SKEIN_MAX_STATE_WORDS : Nat := 16

/-- The C type `struct threefish_key`: the array `key` of `SKEIN_MAX_STATE_WORDS + 1` words. -/
structure threefish_key where
  key : List Nat
  deriving DecidableEq, Repr

/-- The loop `for (i = 0; i != 1024/64; ++i)` of `threefishSetKey1024`, entered with the loop
counter `i`, the local `parity` and the array `keyCtx->key`; the result is their value when the
loop is left.  The first argument bounds the number of times the loop condition is tested. -/
def threefishSetKey1024_loop (h : Host) (keyData : List Nat) :
    Nat → Nat → Nat → List Nat → Nat × Nat × List Nat
  | 0, i, parity, key => (i, parity, key)
  | n + 1, i, parity, key =>
    if i ≠ 1024 / 64 then
      threefishSetKey1024_loop h keyData n (i + 1)
        (parity ^^^ le64_to_cpu h (keyData.getD i 0))
        (key.set i (le64_to_cpu h (keyData.getD i 0)))
    else (i, parity, key)

/-- The C function `threefishSetKey1024`; the result is the context `*keyCtx` after the call.
The loop condition is tested 17 times: 16 iterations and the test that ends the loop. -/
def threefishSetKey1024 (h : Host) (keyCtx : threefish_key) (keyData : List Nat) :
    threefish_key :=
  let r := threefishSetKey1024_loop h keyData (1024 / 64 + 1) 0 KeyScheduleConst keyCtx.key
  ⟨r.2.2.set r.1 r.2.1⟩

/-! ## The block transforms -/

/-- The macro `t1`. -/
def t1 : Nat := 0x0000000000000000

/-- The macro `t2`, which expands to the parameter `t0`. -/
def t2 (t0 : Nat) : Nat := t0

/-- The sixteen locals `b0 .. b15` of `threefish_encrypt_1024` and `threefish_decrypt_1024`. -/
structure State where
  b0 : Nat
  b1 : Nat
  b2 : Nat
  b3 : Nat
  b4 : Nat
  b5 : Nat
  b6 : Nat
  b7 : Nat
  b8 : Nat
  b9 : Nat
  b10 : Nat
  b11 : Nat
  b12 : Nat
  b13 : Nat
  b14 : Nat
  b15 : Nat
  deriving DecidableEq, Repr

/-- Lines 114-144 of `threefish_encrypt_1024`: the addition of subkey 0 fused with the eight MIX steps of round 0. -/
def enc_round_0 (k : Nat → Nat) (t0 : Nat) : State → State
  | ⟨b0, b1, b2, b3, b4, b5, b6, b7, b8, b9, b10, b11, b12, b13, b14, b15⟩ =>
    let b1 := add64 b1 (k 1); let b0 := add64 b0 (add64 b1 (k 0)); let b1 := rol64 b1 24 ^^^ b0
    let b3 := add64 b3 (k 3); let b2 := add64 b2 (add64 b3 (k 2)); let b3 := rol64 b3 13 ^^^ b2
    let b5 := add64 b5 (k 5); let b4 := add64 b4 (add64 b5 (k 4)); let b5 := rol64 b5 8 ^^^ b4
    let b7 := add64 b7 (k 7); let b6 := add64 b6 (add64 b7 (k 6)); let b7 := rol64 b7 47 ^^^ b6
    let b9 := add64 b9 (k 9); let b8 := add64 b8 (add64 b9 (k 8)); let b9 := rol64 b9 8 ^^^ b8
    let b11 := add64 b11 (k 11); let b10 := add64 b10 (add64 b11 (k 10)); let b11 := rol64 b11 17 ^^^ b10
    let b13 := add64 b13 (add64 (k 13) t0); let b12 := add64 b12 (add64 b13 (k 12)); let b13 := rol64 b13 22 ^^^ b12
    let b15 := add64 b15 (k 15); let b14 := add64 b14 (add64 (add64 b15 (k 14)) t1); let b15 := rol64 b15 37 ^^^ b14
    ⟨b0, b1, b2, b3, b4, b5, b6, b7, b8, b9, b10, b11, b12, b13, b14, b15⟩

/-- Lines 146-168 of `threefish_encrypt_1024`: the eight MIX steps of round 1. -/
def enc_round_1 (k : Nat → Nat) (t0 : Nat) : State → State
  | ⟨b0, b1, b2, b3, b4, b5, b6, b7, b8, b9, b10, b11, b12, b13, b14, b15⟩ =>
    let b0 := add64 b0 b9; let b9 := rol64 b9 38 ^^^ b0
    let b2 := add64 b2 b13; let b13 := rol64 b13 19 ^^^ b2
    let b6 := add64 b6 b11; let b11 := rol64 b11 10 ^^^ b6
    let b4 := add64 b4 b15; let b15 := rol64 b15 55 ^^^ b4
    let b10 := add64 b10 b7; let b7 := rol64 b7 49 ^^^ b10
    let b12 := add64 b12 b3; let b3 := rol64 b3 18 ^^^ b12
    let b14 := add64 b14 b5; let b5 := rol64 b5 23 ^^^ b14
    let b8 := add64 b8 b1; let b1 := rol64 b1 52 ^^^ b8
    ⟨b0, b1, b2, b3, b4, b5, b6, b7, b8, b9, b10, b11, b12, b13, b14, b15⟩

/-- Lines 170-192 of `threefish_encrypt_1024`: the eight MIX steps of round 2. -/
def enc_round_2 (k : Nat → Nat) (t0 : Nat) : State → State
  | ⟨b0, b1, b2, b3, b4, b5, b6, b7, b8, b9, b10, b11, b12, b13, b14, b15⟩ =>
    let b0 := add64 b0 b7; let b7 := rol64 b7 33 ^^^ b0
    let b2 := add64 b2 b5; let b5 := rol64 b5 4 ^^^ b2
    let b4 := add64 b4 b3; let b3 := rol64 b3 51 ^^^ b4
    let b6 := add64 b6 b1; let b1 := rol64 b1 13 ^^^ b6
    let b12 := add64 b12 b15; let b15 := rol64 b15 34 ^^^ b12
    let b14 := add64 b14 b13; let b13 := rol64 b13 41 ^^^ b14
    let b8 := add64 b8 b11; let b11 := rol64 b11 59 ^^^ b8
    let b10 := add64 b10 b9; let b9 := rol64 b9 17 ^^^ b10
    ⟨b0, b1, b2, b3, b4, b5, b6, b7, b8, b9, b10, b11, b12, b13, b14, b15⟩

/-- Lines 194-216 of `threefish_encrypt_1024`: the eight MIX steps of round 3. -/
def enc_round_3 (k : Nat → Nat) (t0 : Nat) : State → State
  | ⟨b0, b1, b2, b3, b4, b5, b6, b7, b8, b9, b10, b11, b12, b13, b14, b15⟩ =>
    let b0 := add64 b0 b15; let b15 := rol64 b15 5 ^^^ b0
    let b2 := add64 b2 b11; let b11 := rol64 b11 20 ^^^ b2
    let b6 := add64 b6 b13; let b13 := rol64 b13 48 ^^^ b6
    let b4 := add64 b4 b9; let b9 := rol64 b9 41 ^^^ b4
    let b14 := add64 b14 b1; let b1 := rol64 b1 47 ^^^ b14
    let b8 := add64 b8 b5; let b5 := rol64 b5 28 ^^^ b8
    let b10 := add64 b10 b3; let b3 := rol64 b3 16 ^^^ b10
    let b12 := add64 b12 b7; let b7 := rol64 b7 25 ^^^ b12
    ⟨b0, b1, b2, b3, b4, b5, b6, b7, b8, b9, b10, b11, b12, b13, b14, b15⟩

/-- Lines 218-248 of `threefish_encrypt_1024`: the addition of subkey 1 fused with the eight MIX steps of round 4. -/
def enc_round_4 (k : Nat → Nat) (t0 : Nat) : State → State
  | ⟨b0, b1, b2, b3, b4, b5, b6, b7, b8, b9, b10, b11, b12, b13, b14, b15⟩ =>
    let b1 := add64 b1 (k 2); let b0 := add64 b0 (add64 b1 (k 1)); let b1 := rol64 b1 41 ^^^ b0
    let b3 := add64 b3 (k 4); let b2 := add64 b2 (add64 b3 (k 3)); let b3 := rol64 b3 9 ^^^ b2
    let b5 := add64 b5 (k 6); let b4 := add64 b4 (add64 b5 (k 5)); let b5 := rol64 b5 37 ^^^ b4
    let b7 := add64 b7 (k 8); let b6 := add64 b6 (add64 b7 (k 7)); let b7 := rol64 b7 31 ^^^ b6
    let b9 := add64 b9 (k 10); let b8 := add64 b8 (add64 b9 (k 9)); let b9 := rol64 b9 12 ^^^ b8
    let b11 := add64 b11 (k 12); let b10 := add64 b10 (add64 b11 (k 11)); let b11 := rol64 b11 47 ^^^ b10
    let b13 := add64 b13 (add64 (k 14) t1); let b12 := add64 b12 (add64 b13 (k 13)); let b13 := rol64 b13 44 ^^^ b12
    let b15 := add64 b15 (add64 (k 16) 1); let b14 := add64 b14 (add64 (add64 b15 (k 15)) (t2 t0)); let b15 := rol64 b15 30 ^^^ b14
    ⟨b0, b1, b2, b3, b4, b5, b6, b7, b8, b9, b10, b11, b12, b13, b14, b15⟩

/-- Lines 250-272 of `threefish_encrypt_1024`: the eight MIX steps of round 5. -/
def enc_round_5 (k : Nat → Nat) (t0 : Nat) : State → State
  | ⟨b0, b1, b2, b3, b4, b5, b6, b7, b8, b9, b10, b11, b12, b13, b14, b15⟩ =>
    let b0 := add64 b0 b9; let b9 := rol64 b9 16 ^^^ b0
    let b2 := add64 b2 b13; let b13 := rol64 b13 34 ^^^ b2
    let b6 := add64 b6 b11; let b11 := rol64 b11 56 ^^^ b6
    let b4 := add64 b4 b15; let b15 := rol64 b15 51 ^^^ b4
    let b10 := add64 b10 b7; let b7 := rol64 b7 4 ^^^ b10
    let b12 := add64 b12 b3; let b3 := rol64 b3 53 ^^^ b12
    let b14 := add64 b14 b5; let b5 := rol64 b5 42 ^^^ b14
    let b8 := add64 b8 b1; let b1 := rol64 b1 41 ^^^ b8
    ⟨b0, b1, b2, b3, b4, b5, b6, b7, b8, b9, b10, b11, b12, b13, b14, b15⟩

/-- Lines 274-296 of `threefish_encrypt_1024`: the eight MIX steps of round 6. -/
def enc_round_6 (k : Nat → Nat) (t0 : Nat) : State → State
  | ⟨b0, b1, b2, b3, b4, b5, b6, b7, b8, b9, b10, b11, b12, b13, b14, b15⟩ =>
    let b0 := add64 b0 b7; let b7 := rol64 b7 31 ^^^ b0
    let b2 := add64 b2 b5; let b5 := rol64 b5 44 ^^^ b2
    let b4 := add64 b4 b3; let b3 := rol64 b3 47 ^^^ b4
    let b6 := add64 b6 b1; let b1 := rol64 b1 46 ^^^ b6
    let b12 := add64 b12 b15; let b15 := rol64 b15 19 ^^^ b12
    let b14 := add64 b14 b13; let b13 := rol64 b13 42 ^^^ b14
    let b8 := add64 b8 b11; let b11 := rol64 b11 44 ^^^ b8
    let b10 := add64 b10 b9; let b9 := rol64 b9 25 ^^^ b10
    ⟨b0, b1, b2, b3, b4, b5, b6, b7, b8, b9, b10, b11, b12, b13, b14, b15⟩

/-- Lines 298-320 of `threefish_encrypt_1024`: the eight MIX steps of round 7. -/
def enc_round_7 (k : Nat → Nat) (t0 : Nat) : State → State
  | ⟨b0, b1, b2, b3, b4, b5, b6, b7, b8, b9, b10, b11, b12, b13, b14, b15⟩ =>
    let b0 := add64 b0 b15; let b15 := rol64 b15 9 ^^^ b0
    let b2 := add64 b2 b11; let b11 := rol64 b11 48 ^^^ b2
    let b6 := add64 b6 b13; let b13 := rol64 b13 35 ^^^ b6
    let b4 := add64 b4 b9; let b9 := rol64 b9 52 ^^^ b4
    let b14 := add64 b14 b1; let b1 := rol64 b1 23 ^^^ b14
    let b8 := add64 b8 b5; let b5 := rol64 b5 31 ^^^ b8
    let b10 := add64 b10 b3; let b3 := rol64 b3 37 ^^^ b10
    let b12 := add64 b12 b7; let b7 := rol64 b7 20 ^^^ b12
    ⟨b0, b1, b2, b3, b4, b5, b6, b7, b8, b9, b10, b11, b12, b13, b14, b15⟩

/-- Lines 322-352 of `threefish_encrypt_1024`: the addition of subkey 2 fused with the eight MIX steps of round 8. -/
def enc_round_8 (k : Nat → Nat) (t0 : Nat) : State → State
  | ⟨b0, b1, b2, b3, b4, b5, b6, b7, b8, b9, b10, b11, b12, b13, b14, b15⟩ =>
    let b1 := add64 b1 (k 3); let b0 := add64 b0 (add64 b1 (k 2)); let b1 := rol64 b1 24 ^^^ b0
    let b3 := add64 b3 (k 5); let b2 := add64 b2 (add64 b3 (k 4)); let b3 := rol64 b3 13 ^^^ b2
    let b5 := add64 b5 (k 7); let b4 := add64 b4 (add64 b5 (k 6)); let b5 := rol64 b5 8 ^^^ b4
    let b7 := add64 b7 (k 9); let b6 := add64 b6 (add64 b7 (k 8)); let b7 := rol64 b7 47 ^^^ b6
    let b9 := add64 b9 (k 11); let b8 := add64 b8 (add64 b9 (k 10)); let b9 := rol64 b9 8 ^^^ b8
    let b11 := add64 b11 (k 13); let b10 := add64 b10 (add64 b11 (k 12)); let b11 := rol64 b11 17 ^^^ b10
    let b13 := add64 b13 (add64 (k 15) (t2 t0)); let b12 := add64 b12 (add64 b13 (k 14)); let b13 := rol64 b13 22 ^^^ b12
    let b15 := add64 b15 (add64 (k 0) 2); let b14 := add64 b14 (add64 (add64 b15 (k 16)) t0); let b15 := rol64 b15 37 ^^^ b14
    ⟨b0, b1, b2, b3, b4, b5, b6, b7, b8, b9, b10, b11, b12, b13, b14, b15⟩

/-- Lines 354-376 of `threefish_encrypt_1024`: the eight MIX steps of round 9. -/
def enc_round_9 (k : Nat → Nat) (t0 : Nat) : State → State
  | ⟨b0, b1, b2, b3, b4, b5, b6, b7, b8, b9, b10, b11, b12, b13, b14, b15⟩ =>
    let b0 := add64 b0 b9; let b9 := rol64 b9 38 ^^^ b0
    let b2 := add64 b2 b13; let b13 := rol64 b13 19 ^^^ b2
    let b6 := add64 b6 b11; let b11 := rol64 b11 10 ^^^ b6
    let b4 := add64 b4 b15; let b15 := rol64 b15 55 ^^^ b4
    let b10 := add64 b10 b7; let b7 := rol64 b7 49 ^^^ b10
    let b12 := add64 b12 b3; let b3 := rol64 b3 18 ^^^ b12
    let b14 := add64 b14 b5; let b5 := rol64 b5 23 ^^^ b14
    let b8 := add64 b8 b1; let b1 := rol64 b1 52 ^^^ b8
    ⟨b0, b1, b2, b3, b4, b5, b6, b7, b8, b9, b10, b11, b12, b13, b14, b15⟩

/-- Lines 378-400 of `threefish_encrypt_1024`: the eight MIX steps of round 10. -/
def enc_round_10 (k : Nat → Nat) (t0 : Nat) : State → State
  | ⟨b0, b1, b2, b3, b4, b5, b6, b7, b8, b9, b10, b11, b12, b13, b14, b15⟩ =>
    let b0 := add64 b0 b7; let b7 := rol64 b7 33 ^^^ b0
    let b2 := add64 b2 b5; let b5 := rol64 b5 4 ^^^ b2
    let b4 := add64 b4 b3; let b3 := rol64 b3 51 ^^^ b4
    let b6 := add64 b6 b1; let b1 := rol64 b1 13 ^^^ b6
    let b12 := add64 b12 b15; let b15 := rol64 b15 34 ^^^ b12
    let b14 := add64 b14 b13; let b13 := rol64 b13 41 ^^^ b14
    let b8 := add64 b8 b11; let b11 := rol64 b11 59 ^^^ b8
    let b10 := add64 b10 b9; let b9 := rol64 b9 17 ^^^ b10
    ⟨b0, b1, b2, b3, b4, b5, b6, b7, b8, b9, b10, b11, b12, b13, b14, b15⟩

/-- Lines 402-424 of `threefish_encrypt_1024`: the eight MIX steps of round 11. -/
def enc_round_11 (k : Nat → Nat) (t0 : Nat) : State → State
  | ⟨b0, b1, b2, b3, b4, b5, b6, b7, b8, b9, b10, b11, b12, b13, b14, b15⟩ =>
    let b0 := add64 b0 b15; let b15 := rol64 b15 5 ^^^ b0
    let b2 := add64 b2 b11; let b11 := rol64 b11 20 ^^^ b2
    let b6 := add64 b6 b13; let b13 := rol64 b13 48 ^^^ b6
    let b4 := add64 b4 b9; let b9 := rol64 b9 41 ^^^ b4
    let b14 := add64 b14 b1; let b1 := rol64 b1 47 ^^^ b14
    let b8 := add64 b8 b5; let b5 := rol64 b5 28 ^^^ b8
    let b10 := add64 b10 b3; let b3 := rol64 b3 16 ^^^ b10
    let b12 := add64 b12 b7; let b7 := rol64 b7 25 ^^^ b12
    ⟨b0, b1, b2, b3, b4, b5, b6, b7, b8, b9, b10, b11, b12, b13, b14, b15⟩

/-- Lines 426-456 of `threefish_encrypt_1024`: the addition of subkey 3 fused with the eight MIX steps of round 12. -/
def enc_round_12 (k : Nat → Nat) (t0 : Nat) : State → State
  | ⟨b0, b1, b2, b3, b4, b5, b6, b7, b8, b9, b10, b11, b12, b13, b14, b15⟩ =>
    let b1 := add64 b1 (k 4); let b0 := add64 b0 (add64 b1 (k 3)); let b1 := rol64 b1 41 ^^^ b0
    let b3 := add64 b3 (k 6); let b2 := add64 b2 (add64 b3 (k 5)); let b3 := rol64 b3 9 ^^^ b2
    let b5 := add64 b5 (k 8); let b4 := add64 b4 (add64 b5 (k 7)); let b5 := rol64 b5 37 ^^^ b4
    let b7 := add64 b7 (k 10); let b6 := add64 b6 (add64 b7 (k 9)); let b7 := rol64 b7 31 ^^^ b6
    let b9 := add64 b9 (k 12); let b8 := add64 b8 (add64 b9 (k 11)); let b9 := rol64 b9 12 ^^^ b8
    let b11 := add64 b11 (k 14); let b10 := add64 b10 (add64 b11 (k 13)); let b11 := rol64 b11 47 ^^^ b10
    let b13 := add64 b13 (add64 (k 16) t0); let b12 := add64 b12 (add64 b13 (k 15)); let b13 := rol64 b13 44 ^^^ b12
    let b15 := add64 b15 (add64 (k 1) 3); let b14 := add64 b14 (add64 (add64 b15 (k 0)) t1); let b15 := rol64 b15 30 ^^^ b14
    ⟨b0, b1, b2, b3, b4, b5, b6, b7, b8, b9, b10, b11, b12, b13, b14, b15⟩

/-- Lines 458-480 of `threefish_encrypt_1024`: the eight MIX steps of round 13. -/
def enc_round_13 (k : Nat → Nat) (t0 : Nat) : State → State
  | ⟨b0, b1, b2, b3, b4, b5, b6, b7, b8, b9, b10, b11, b12, b13, b14, b15⟩ =>
    let b0 := add64 b0 b9; let b9 := rol64 b9 16 ^^^ b0
    let b2 := add64 b2 b13; let b13 := rol64 b13 34 ^^^ b2
    let b6 := add64 b6 b11; let b11 := rol64 b11 56 ^^^ b6
    let b4 := add64 b4 b15; let b15 := rol64 b15 51 ^^^ b4
    let b10 := add64 b10 b7; let b7 := rol64 b7 4 ^^^ b10
    let b12 := add64 b12 b3; let b3 := rol64 b3 53 ^^^ b12
    let b14 := add64 b14 b5; let b5 := rol64 b5 42 ^^^ b14
    let b8 := add64 b8 b1; let b1 := rol64 b1 41 ^^^ b8
    ⟨b0, b1, b2, b3, b4, b5, b6, b7, b8, b9, b10, b11, b12, b13, b14, b15⟩

/-- Lines 482-504 of `threefish_encrypt_1024`: the eight MIX steps of round 14. -/
def enc_round_14 (k : Nat → Nat) (t0 : Nat) : State → State
  | ⟨b0, b1, b2, b3, b4, b5, b6, b7, b8, b9, b10, b11, b12, b13, b14, b15⟩ =>
    let b0 := add64 b0 b7; let b7 := rol64 b7 31 ^^^ b0
    let b2 := add64 b2 b5; let b5 := rol64 b5 44 ^^^ b2
    let b4 := add64 b4 b3; let b3 := rol64 b3 47 ^^^ b4
    let b6 := add64 b6 b1; let b1 := rol64 b1 46 ^^^ b6
    let b12 := add64 b12 b15; let b15 := rol64 b15 19 ^^^ b12
    let b14 := add64 b14 b13; let b13 := rol64 b13 42 ^^^ b14
    let b8 := add64 b8 b11; let b11 := rol64 b11 44 ^^^ b8
    let b10 := add64 b10 b9; let b9 := rol64 b9 25 ^^^ b10
    ⟨b0, b1, b2, b3, b4, b5, b6, b7, b8, b9, b10, b11, b12, b13, b14, b15⟩

/-- Lines 506-528 of `threefish_encrypt_1024`: the eight MIX steps of round 15. -/
def enc_round_15 (k : Nat → Nat) (t0 : Nat) : State → State
  | ⟨b0, b1, b2, b3, b4, b5, b6, b7, b8, b9, b10, b11, b12, b13, b14, b15⟩ =>
    let b0 := add64 b0 b15; let b15 := rol64 b15 9 ^^^ b0
    let b2 := add64 b2 b11; let b11 := rol64 b11 48 ^^^ b2
    let b6 := add64 b6 b13; let b13 := rol64 b13 35 ^^^ b6
    let b4 := add64 b4 b9; let b9 := rol64 b9 52 ^^^ b4
    let b14 := add64 b14 b1; let b1 := rol64 b1 23 ^^^ b14
    let b8 := add64 b8 b5; let b5 := rol64 b5 31 ^^^ b8
    let b10 := add64 b10 b3; let b3 := rol64 b3 37 ^^^ b10
    let b12 := add64 b12 b7; let b7 := rol64 b7 20 ^^^ b12
    ⟨b0, b1, b2, b3, b4, b5, b6, b7, b8, b9, b10, b11, b12, b13, b14, b15⟩

/-- Lines 530-560 of `threefish_encrypt_1024`: the addition of subkey 4 fused with the eight MIX steps of round 16. -/
def enc_round_16 (k : Nat → Nat) (t0 : Nat) : State → State
  | ⟨b0, b1, b2, b3, b4, b5, b6, b7, b8, b9, b10, b11, b12, b13, b14, b15⟩ =>
    let b1 := add64 b1 (k 5); let b0 := add64 b0 (add64 b1 (k 4)); let b1 := rol64 b1 24 ^^^ b0
    let b3 := add64 b3 (k 7); let b2 := add64 b2 (add64 b3 (k 6)); let b3 := rol64 b3 13 ^^^ b2
    let b5 := add64 b5 (k 9); let b4 := add64 b4 (add64 b5 (k 8)); let b5 := rol64 b5 8 ^^^ b4
    let b7 := add64 b7 (k 11); let b6 := add64 b6 (add64 b7 (k 10)); let b7 := rol64 b7 47 ^^^ b6
    let b9 := add64 b9 (k 13); let b8 := add64 b8 (add64 b9 (k 12)); let b9 := rol64 b9 8 ^^^ b8
    let b11 := add64 b11 (k 15); let b10 := add64 b10 (add64 b11 (k 14)); let b11 := rol64 b11 17 ^^^ b10
    let b13 := add64 b13 (add64 (k 0) t1); let b12 := add64 b12 (add64 b13 (k 16)); let b13 := rol64 b13 22 ^^^ b12
    let b15 := add64 b15 (add64 (k 2) 4); let b14 := add64 b14 (add64 (add64 b15 (k 1)) (t2 t0)); let b15 := rol64 b15 37 ^^^ b14
    ⟨b0, b1, b2, b3, b4, b5, b6, b7, b8, b9, b10, b11, b12, b13, b14, b15⟩

/-- Lines 562-584 of `threefish_encrypt_1024`: the eight MIX steps of round 17. -/
def enc_round_17 (k : Nat → Nat) (t0 : Nat) : State → State
  | ⟨b0, b1, b2, b3, b4, b5, b6, b7, b8, b9, b10, b11, b12, b13, b14, b15⟩ =>
    let b0 := add64 b0 b9; let b9 := rol64 b9 38 ^^^ b0
    let b2 := add64 b2 b13; let b13 := rol64 b13 19 ^^^ b2
    let b6 := add64 b6 b11; let b11 := rol64 b11 10 ^^^ b6
    let b4 := add64 b4 b15; let b15 := rol64 b15 55 ^^^ b4
    let b10 := add64 b10 b7; let b7 := rol64 b7 49 ^^^ b10
    let b12 := add64 b12 b3; let b3 := rol64 b3 18 ^^^ b12
    let b14 := add64 b14 b5; let b5 := rol64 b5 23 ^^^ b14
    let b8 := add64 b8 b1; let b1 := rol64 b1 52 ^^^ b8
    ⟨b0, b1, b2, b3, b4, b5, b6, b7, b8, b9, b10, b11, b12, b13, b14, b15⟩

/-- Lines 586-608 of `threefish_encrypt_1024`: the eight MIX steps of round 18. -/
def enc_round_18 (k : Nat → Nat) (t0 : Nat) : State → State
  | ⟨b0, b1, b2, b3, b4, b5, b6, b7, b8, b9, b10, b11, b12, b13, b14, b15⟩ =>
    let b0 := add64 b0 b7; let b7 := rol64 b7 33 ^^^ b0
    let b2 := add64 b2 b5; let b5 := rol64 b5 4 ^^^ b2
    let b4 := add64 b4 b3; let b3 := rol64 b3 51 ^^^ b4
    let b6 := add64 b6 b1; let b1 := rol64 b1 13 ^^^ b6
    let b12 := add64 b12 b15; let b15 := rol64 b15 34 ^^^ b12
    let b14 := add64 b14 b13; let b13 := rol64 b13 41 ^^^ b14
    let b8 := add64 b8 b11; let b11 := rol64 b11 59 ^^^ b8
    let b10 := add64 b10 b9; let b9 := rol64 b9 17 ^^^ b10
    ⟨b0, b1, b2, b3, b4, b5, b6, b7, b8, b9, b10, b11, b12, b13, b14, b15⟩

/-- Lines 610-632 of `threefish_encrypt_1024`: the eight MIX steps of round 19. -/
def enc_round_19 (k : Nat → Nat) (t0 : Nat) : State → State
  | ⟨b0, b1, b2, b3, b4, b5, b6, b7, b8, b9, b10, b11, b12, b13, b14, b15⟩ =>
    let b0 := add64 b0 b15; let b15 := rol64 b15 5 ^^^ b0
    let b2 := add64 b2 b11; let b11 := rol64 b11 20 ^^^ b2
    let b6 := add64 b6 b13; let b13 := rol64 b13 48 ^^^ b6
    let b4 := add64 b4 b9; let b9 := rol64 b9 41 ^^^ b4
    let b14 := add64 b14 b1; let b1 := rol64 b1 47 ^^^ b14
    let b8 := add64 b8 b5; let b5 := rol64 b5 28 ^^^ b8
    let b10 := add64 b10 b3; let b3 := rol64 b3 16 ^^^ b10
    let b12 := add64 b12 b7; let b7 := rol64 b7 25 ^^^ b12
    ⟨b0, b1, b2, b3, b4, b5, b6, b7, b8, b9, b10, b11, b12, b13, b14, b15⟩

/-- Lines 634-664 of `threefish_encrypt_1024`: the addition of subkey 5 fused with the eight MIX steps of round 20. -/
def enc_round_20 (k : Nat → Nat) (t0 : Nat) : State → State
  | ⟨b0, b1, b2, b3, b4, b5, b6, b7, b8, b9, b10, b11, b12, b13, b14, b15⟩ =>
    let b1 := add64 b1 (k 6); let b0 := add64 b0 (add64 b1 (k 5)); let b1 := rol64 b1 41 ^^^ b0
    let b3 := add64 b3 (k 8); let b2 := add64 b2 (add64 b3 (k 7)); let b3 := rol64 b3 9 ^^^ b2
    let b5 := add64 b5 (k 10); let b4 := add64 b4 (add64 b5 (k 9)); let b5 := rol64 b5 37 ^^^ b4
    let b7 := add64 b7 (k 12); let b6 := add64 b6 (add64 b7 (k 11)); let b7 := rol64 b7 31 ^^^ b6
    let b9 := add64 b9 (k 14); let b8 := add64 b8 (add64 b9 (k 13)); let b9 := rol64 b9 12 ^^^ b8
    let b11 := add64 b11 (k 16); let b10 := add64 b10 (add64 b11 (k 15)); let b11 := rol64 b11 47 ^^^ b10
    let b13 := add64 b13 (add64 (k 1) (t2 t0)); let b12 := add64 b12 (add64 b13 (k 0)); let b13 := rol64 b13 44 ^^^ b12
    let b15 := add64 b15 (add64 (k 3) 5); let b14 := add64 b14 (add64 (add64 b15 (k 2)) t0); let b15 := rol64 b15 30 ^^^ b14
    ⟨b0, b1, b2, b3, b4, b5, b6, b7, b8, b9, b10, b11, b12, b13, b14, b15⟩

/-- Lines 666-688 of `threefish_encrypt_1024`: the eight MIX steps of round 21. -/
def enc_round_21 (k : Nat → Nat) (t0 : Nat) : State → State
  | ⟨b0, b1, b2, b3, b4, b5, b6, b7, b8, b9, b10, b11, b12, b13, b14, b15⟩ =>
    let b0 := add64 b0 b9; let b9 := rol64 b9 16 ^^^ b0
    let b2 := add64 b2 b13; let b13 := rol64 b13 34 ^^^ b2
    let b6 := add64 b6 b11; let b11 := rol64 b11 56 ^^^ b6
    let b4 := add64 b4 b15; let b15 := rol64 b15 51 ^^^ b4
    let b10 := add64 b10 b7; let b7 := rol64 b7 4 ^^^ b10
    let b12 := add64 b12 b3; let b3 := rol64 b3 53 ^^^ b12
    let b14 := add64 b14 b5; let b5 := rol64 b5 42 ^^^ b14
    let b8 := add64 b8 b1; let b1 := rol64 b1 41 ^^^ b8
    ⟨b0, b1, b2, b3, b4, b5, b6, b7, b8, b9, b10, b11, b12, b13, b14, b15⟩

/-- Lines 690-712 of `threefish_encrypt_1024`: the eight MIX steps of round 22. -/
def enc_round_22 (k : Nat → Nat) (t0 : Nat) : State → State
  | ⟨b0, b1, b2, b3, b4, b5, b6, b7, b8, b9, b10, b11, b12, b13, b14, b15⟩ =>
    let b0 := add64 b0 b7; let b7 := rol64 b7 31 ^^^ b0
    let b2 := add64 b2 b5; let b5 := rol64 b5 44 ^^^ b2
    let b4 := add64 b4 b3; let b3 := rol64 b3 47 ^^^ b4
    let b6 := add64 b6 b1; let b1 := rol64 b1 46 ^^^ b6
    let b12 := add64 b12 b15; let b15 := rol64 b15 19 ^^^ b12
    let b14 := add64 b14 b13; let b13 := rol64 b13 42 ^^^ b14
    let b8 := add64 b8 b11; let b11 := rol64 b11 44 ^^^ b8
    let b10 := add64 b10 b9; let b9 := rol64 b9 25 ^^^ b10
    ⟨b0, b1, b2, b3, b4, b5, b6, b7, b8, b9, b10, b11, b12, b13, b14, b15⟩

/-- Lines 714-736 of `threefish_encrypt_1024`: the eight MIX steps of round 23. -/
def enc_round_23 (k : Nat → Nat) (t0 : Nat) : State → State
  | ⟨b0, b1, b2, b3, b4, b5, b6, b7, b8, b9, b10, b11, b12, b13, b14, b15⟩ =>
    let b0 := add64 b0 b15; let b15 := rol64 b15 9 ^^^ b0
    let b2 := add64 b2 b11; let b11 := rol64 b11 48 ^^^ b2
    let b6 := add64 b6 b13; let b13 := rol64 b13 35 ^^^ b6
    let b4 := add64 b4 b9; let b9 := rol64 b9 52 ^^^ b4
    let b14 := add64 b14 b1; let b1 := rol64 b1 23 ^^^ b14
    let b8 := add64 b8 b5; let b5 := rol64 b5 31 ^^^ b8
    let b10 := add64 b10 b3; let b3 := rol64 b3 37 ^^^ b10
    let b12 := add64 b12 b7; let b7 := rol64 b7 20 ^^^ b12
    ⟨b0, b1, b2, b3, b4, b5, b6, b7, b8, b9, b10, b11, b12, b13, b14, b15⟩

/-- Lines 738-768 of `threefish_encrypt_1024`: the addition of subkey 6 fused with the eight MIX steps of round 24. -/
def enc_round_24 (k : Nat → Nat) (t0 : Nat) : State → State
  | ⟨b0, b1, b2, b3, b4, b5, b6, b7, b8, b9, b10, b11, b12, b13, b14, b15⟩ =>
    let b1 := add64 b1 (k 7); let b0 := add64 b0 (add64 b1 (k 6)); let b1 := rol64 b1 24 ^^^ b0
    let b3 := add64 b3 (k 9); let b2 := add64 b2 (add64 b3 (k 8)); let b3 := rol64 b3 13 ^^^ b2
    let b5 := add64 b5 (k 11); let b4 := add64 b4 (add64 b5 (k 10)); let b5 := rol64 b5 8 ^^^ b4
    let b7 := add64 b7 (k 13); let b6 := add64 b6 (add64 b7 (k 12)); let b7 := rol64 b7 47 ^^^ b6
    let b9 := add64 b9 (k 15); let b8 := add64 b8 (add64 b9 (k 14)); let b9 := rol64 b9 8 ^^^ b8
    let b11 := add64 b11 (k 0); let b10 := add64 b10 (add64 b11 (k 16)); let b11 := rol64 b11 17 ^^^ b10
    let b13 := add64 b13 (add64 (k 2) t0); let b12 := add64 b12 (add64 b13 (k 1)); let b13 := rol64 b13 22 ^^^ b12
    let b15 := add64 b15 (add64 (k 4) 6); let b14 := add64 b14 (add64 (add64 b15 (k 3)) t1); let b15 := rol64 b15 37 ^^^ b14
    ⟨b0, b1, b2, b3, b4, b5, b6, b7, b8, b9, b10, b11, b12, b13, b14, b15⟩

/-- Lines 770-792 of `threefish_encrypt_1024`: the eight MIX steps of round 25. -/
def enc_round_25 (k : Nat → Nat) (t0 : Nat) : State → State
  | ⟨b0, b1, b2, b3, b4, b5, b6, b7, b8, b9, b10, b11, b12, b13, b14, b15⟩ =>
    let b0 := add64 b0 b9; let b9 := rol64 b9 38 ^^^ b0
    let b2 := add64 b2 b13; let b13 := rol64 b13 19 ^^^ b2
    let b6 := add64 b6 b11; let b11 := rol64 b11 10 ^^^ b6
    let b4 := add64 b4 b15; let b15 := rol64 b15 55 ^^^ b4
    let b10 := add64 b10 b7; let b7 := rol64 b7 49 ^^^ b10
    let b12 := add64 b12 b3; let b3 := rol64 b3 18 ^^^ b12
    let b14 := add64 b14 b5; let b5 := rol64 b5 23 ^^^ b14
    let b8 := add64 b8 b1; let b1 := rol64 b1 52 ^^^ b8
    ⟨b0, b1, b2, b3, b4, b5, b6, b7, b8, b9, b10, b11, b12, b13, b14, b15⟩

/-- Lines 794-816 of `threefish_encrypt_1024`: the eight MIX steps of round 26. -/
def enc_round_26 (k : Nat → Nat) (t0 : Nat) : State → State
  | ⟨b0, b1, b2, b3, b4, b5, b6, b7, b8, b9, b10, b11, b12, b13, b14, b15⟩ =>
    let b0 := add64 b0 b7; let b7 := rol64 b7 33 ^^^ b0
    let b2 := add64 b2 b5; let b5 := rol64 b5 4 ^^^ b2
    let b4 := add64 b4 b3; let b3 := rol64 b3 51 ^^^ b4
    let b6 := add64 b6 b1; let b1 := rol64 b1 13 ^^^ b6
    let b12 := add64 b12 b15; let b15 := rol64 b15 34 ^^^ b12
    let b14 := add64 b14 b13; let b13 := rol64 b13 41 ^^^ b14
    let b8 := add64 b8 b11; let b11 := rol64 b11 59 ^^^ b8
    let b10 := add64 b10 b9; let b9 := rol64 b9 17 ^^^ b10
    ⟨b0, b1, b2, b3, b4, b5, b6, b7, b8, b9, b10, b11, b12, b13, b14, b15⟩

/-- Lines 818-840 of `threefish_encrypt_1024`: the eight MIX steps of round 27. -/
def enc_round_27 (k : Nat → Nat) (t0 : Nat) : State → State
  | ⟨b0, b1, b2, b3, b4, b5, b6, b7, b8, b9, b10, b11, b12, b13, b14, b15⟩ =>
    let b0 := add64 b0 b15; let b15 := rol64 b15 5 ^^^ b0
    let b2 := add64 b2 b11; let b11 := rol64 b11 20 ^^^ b2
    let b6 := add64 b6 b13; let b13 := rol64 b13 48 ^^^ b6
    let b4 := add64 b4 b9; let b9 := rol64 b9 41 ^^^ b4
    let b14 := add64 b14 b1; let b1 := rol64 b1 47 ^^^ b14
    let b8 := add64 b8 b5; let b5 := rol64 b5 28 ^^^ b8
    let b10 := add64 b10 b3; let b3 := rol64 b3 16 ^^^ b10
    let b12 := add64 b12 b7; let b7 := rol64 b7 25 ^^^ b12
    ⟨b0, b1, b2, b3, b4, b5, b6, b7, b8, b9, b10, b11, b12, b13, b14, b15⟩

/-- Lines 842-872 of `threefish_encrypt_1024`: the addition of subkey 7 fused with the eight MIX steps of round 28. -/
def enc_round_28 (k : Nat → Nat) (t0 : Nat) : State → State
  | ⟨b0, b1, b2, b3, b4, b5, b6, b7, b8, b9, b10, b11, b12, b13, b14, b15⟩ =>
    let b1 := add64 b1 (k 8); let b0 := add64 b0 (add64 b1 (k 7)); let b1 := rol64 b1 41 ^^^ b0
    let b3 := add64 b3 (k 10); let b2 := add64 b2 (add64 b3 (k 9)); let b3 := rol64 b3 9 ^^^ b2
    let b5 := add64 b5 (k 12); let b4 := add64 b4 (add64 b5 (k 11)); let b5 := rol64 b5 37 ^^^ b4
    let b7 := add64 b7 (k 14); let b6 := add64 b6 (add64 b7 (k 13)); let b7 := rol64 b7 31 ^^^ b6
    let b9 := add64 b9 (k 16); let b8 := add64 b8 (add64 b9 (k 15)); let b9 := rol64 b9 12 ^^^ b8
    let b11 := add64 b11 (k 1); let b10 := add64 b10 (add64 b11 (k 0)); let b11 := rol64 b11 47 ^^^ b10
    let b13 := add64 b13 (add64 (k 3) t1); let b12 := add64 b12 (add64 b13 (k 2)); let b13 := rol64 b13 44 ^^^ b12
    let b15 := add64 b15 (add64 (k 5) 7); let b14 := add64 b14 (add64 (add64 b15 (k 4)) (t2 t0)); let b15 := rol64 b15 30 ^^^ b14
    ⟨b0, b1, b2, b3, b4, b5, b6, b7, b8, b9, b10, b11, b12, b13, b14, b15⟩

/-- Lines 874-896 of `threefish_encrypt_1024`: the eight MIX steps of round 29. -/
def enc_round_29 (k : Nat → Nat) (t0 : Nat) : State → State
  | ⟨b0, b1, b2, b3, b4, b5, b6, b7, b8, b9, b10, b11, b12, b13, b14, b15⟩ =>
    let b0 := add64 b0 b9; let b9 := rol64 b9 16 ^^^ b0
    let b2 := add64 b2 b13; let b13 := rol64 b13 34 ^^^ b2
    let b6 := add64 b6 b11; let b11 := rol64 b11 56 ^^^ b6
    let b4 := add64 b4 b15; let b15 := rol64 b15 51 ^^^ b4
    let b10 := add64 b10 b7; let b7 := rol64 b7 4 ^^^ b10
    let b12 := add64 b12 b3; let b3 := rol64 b3 53 ^^^ b12
    let b14 := add64 b14 b5; let b5 := rol64 b5 42 ^^^ b14
    let b8 := add64 b8 b1; let b1 := rol64 b1 41 ^^^ b8
    ⟨b0, b1, b2, b3, b4, b5, b6, b7, b8, b9, b10, b11, b12, b13, b14, b15⟩

/-- Lines 898-920 of `threefish_encrypt_1024`: the eight MIX steps of round 30. -/
def enc_round_30 (k : Nat → Nat) (t0 : Nat) : State → State
  | ⟨b0, b1, b2, b3, b4, b5, b6, b7, b8, b9, b10, b11, b12, b13, b14, b15⟩ =>
    let b0 := add64 b0 b7; let b7 := rol64 b7 31 ^^^ b0
    let b2 := add64 b2 b5; let b5 := rol64 b5 44 ^^^ b2
    let b4 := add64 b4 b3; let b3 := rol64 b3 47 ^^^ b4
    let b6 := add64 b6 b1; let b1 := rol64 b1 46 ^^^ b6
    let b12 := add64 b12 b15; let b15 := rol64 b15 19 ^^^ b12
    let b14 := add64 b14 b13; let b13 := rol64 b13 42 ^^^ b14
    let b8 := add64 b8 b11; let b11 := rol64 b11 44 ^^^ b8
    let b10 := add64 b10 b9; let b9 := rol64 b9 25 ^^^ b10
    ⟨b0, b1, b2, b3, b4, b5, b6, b7, b8, b9, b10, b11, b12, b13, b14, b15⟩

/-- Lines 922-944 of `threefish_encrypt_1024`: the eight MIX steps of round 31. -/
def enc_round_31 (k : Nat → Nat) (t0 : Nat) : State → State
  | ⟨b0, b1, b2, b3, b4, b5, b6, b7, b8, b9, b10, b11, b12, b13, b14, b15⟩ =>
    let b0 := add64 b0 b15; let b15 := rol64 b15 9 ^^^ b0
    let b2 := add64 b2 b11; let b11 := rol64 b11 48 ^^^ b2
    let b6 := add64 b6 b13; let b13 := rol64 b13 35 ^^^ b6
    let b4 := add64 b4 b9; let b9 := rol64 b9 52 ^^^ b4
    let b14 := add64 b14 b1; let b1 := rol64 b1 23 ^^^ b14
    let b8 := add64 b8 b5; let b5 := rol64 b5 31 ^^^ b8
    let b10 := add64 b10 b3; let b3 := rol64 b3 37 ^^^ b10
    let b12 := add64 b12 b7; let b7 := rol64 b7 20 ^^^ b12
    ⟨b0, b1, b2, b3, b4, b5, b6, b7, b8, b9, b10, b11, b12, b13, b14, b15⟩

/-- Lines 946-976 of `threefish_encrypt_1024`: the addition of subkey 8 fused with the eight MIX steps of round 32. -/
def enc_round_32 (k : Nat → Nat) (t0 : Nat) : State → State
  | ⟨b0, b1, b2, b3, b4, b5, b6, b7, b8, b9, b10, b11, b12, b13, b14, b15⟩ =>
    let b1 := add64 b1 (k 9); let b0 := add64 b0 (add64 b1 (k 8)); let b1 := rol64 b1 24 ^^^ b0
    let b3 := add64 b3 (k 11); let b2 := add64 b2 (add64 b3 (k 10)); let b3 := rol64 b3 13 ^^^ b2
    let b5 := add64 b5 (k 13); let b4 := add64 b4 (add64 b5 (k 12)); let b5 := rol64 b5 8 ^^^ b4
    let b7 := add64 b7 (k 15); let b6 := add64 b6 (add64 b7 (k 14)); let b7 := rol64 b7 47 ^^^ b6
    let b9 := add64 b9 (k 0); let b8 := add64 b8 (add64 b9 (k 16)); let b9 := rol64 b9 8 ^^^ b8
    let b11 := add64 b11 (k 2); let b10 := add64 b10 (add64 b11 (k 1)); let b11 := rol64 b11 17 ^^^ b10
    let b13 := add64 b13 (add64 (k 4) (t2 t0)); let b12 := add64 b12 (add64 b13 (k 3)); let b13 := rol64 b13 22 ^^^ b12
    let b15 := add64 b15 (add64 (k 6) 8); let b14 := add64 b14 (add64 (add64 b15 (k 5)) t0); let b15 := rol64 b15 37 ^^^ b14
    ⟨b0, b1, b2, b3, b4, b5, b6, b7, b8, b9, b10, b11, b12, b13, b14, b15⟩

/-- Lines 978-1000 of `threefish_encrypt_1024`: the eight MIX steps of round 33. -/
def enc_round_33 (k : Nat → Nat) (t0 : Nat) : State → State
  | ⟨b0, b1, b2, b3, b4, b5, b6, b7, b8, b9, b10, b11, b12, b13, b14, b15⟩ =>
    let b0 := add64 b0 b9; let b9 := rol64 b9 38 ^^^ b0
    let b2 := add64 b2 b13; let b13 := rol64 b13 19 ^^^ b2
    let b6 := add64 b6 b11; let b11 := rol64 b11 10 ^^^ b6
    let b4 := add64 b4 b15; let b15 := rol64 b15 55 ^^^ b4
    let b10 := add64 b10 b7; let b7 := rol64 b7 49 ^^^ b10
    let b12 := add64 b12 b3; let b3 := rol64 b3 18 ^^^ b12
    let b14 := add64 b14 b5; let b5 := rol64 b5 23 ^^^ b14
    let b8 := add64 b8 b1; let b1 := rol64 b1 52 ^^^ b8
    ⟨b0, b1, b2, b3, b4, b5, b6, b7, b8, b9, b10, b11, b12, b13, b14, b15⟩

/-- Lines 1002-1024 of `threefish_encrypt_1024`: the eight MIX steps of round 34. -/
def enc_round_34 (k : Nat → Nat) (t0 : Nat) : State → State
  | ⟨b0, b1, b2, b3, b4, b5, b6, b7, b8, b9, b10, b11, b12, b13, b14, b15⟩ =>
    let b0 := add64 b0 b7; let b7 := rol64 b7 33 ^^^ b0
    let b2 := add64 b2 b5; let b5 := rol64 b5 4 ^^^ b2
    let b4 := add64 b4 b3; let b3 := rol64 b3 51 ^^^ b4
    let b6 := add64 b6 b1; let b1 := rol64 b1 13 ^^^ b6
    let b12 := add64 b12 b15; let b15 := rol64 b15 34 ^^^ b12
    let b14 := add64 b14 b13; let b13 := rol64 b13 41 ^^^ b14
    let b8 := add64 b8 b11; let b11 := rol64 b11 59 ^^^ b8
    let b10 := add64 b10 b9; let b9 := rol64 b9 17 ^^^ b10
    ⟨b0, b1, b2, b3, b4, b5, b6, b7, b8, b9, b10, b11, b12, b13, b14, b15⟩

/-- Lines 1026-1048 of `threefish_encrypt_1024`: the eight MIX steps of round 35. -/
def enc_round_35 (k : Nat → Nat) (t0 : Nat) : State → State
  | ⟨b0, b1, b2, b3, b4, b5, b6, b7, b8, b9, b10, b11, b12, b13, b14, b15⟩ =>
    let b0 := add64 b0 b15; let b15 := rol64 b15 5 ^^^ b0
    let b2 := add64 b2 b11; let b11 := rol64 b11 20 ^^^ b2
    let b6 := add64 b6 b13; let b13 := rol64 b13 48 ^^^ b6
    let b4 := add64 b4 b9; let b9 := rol64 b9 41 ^^^ b4
    let b14 := add64 b14 b1; let b1 := rol64 b1 47 ^^^ b14
    let b8 := add64 b8 b5; let b5 := rol64 b5 28 ^^^ b8
    let b10 := add64 b10 b3; let b3 := rol64 b3 16 ^^^ b10
    let b12 := add64 b12 b7; let b7 := rol64 b7 25 ^^^ b12
    ⟨b0, b1, b2, b3, b4, b5, b6, b7, b8, b9, b10, b11, b12, b13, b14, b15⟩

/-- Lines 1050-1080 of `threefish_encrypt_1024`: the addition of subkey 9 fused with the eight MIX steps of round 36. -/
def enc_round_36 (k : Nat → Nat) (t0 : Nat) : State → State
  | ⟨b0, b1, b2, b3, b4, b5, b6, b7, b8, b9, b10, b11, b12, b13, b14, b15⟩ =>
    let b1 := add64 b1 (k 10); let b0 := add64 b0 (add64 b1 (k 9)); let b1 := rol64 b1 41 ^^^ b0
    let b3 := add64 b3 (k 12); let b2 := add64 b2 (add64 b3 (k 11)); let b3 := rol64 b3 9 ^^^ b2
    let b5 := add64 b5 (k 14); let b4 := add64 b4 (add64 b5 (k 13)); let b5 := rol64 b5 37 ^^^ b4
    let b7 := add64 b7 (k 16); let b6 := add64 b6 (add64 b7 (k 15)); let b7 := rol64 b7 31 ^^^ b6
    let b9 := add64 b9 (k 1); let b8 := add64 b8 (add64 b9 (k 0)); let b9 := rol64 b9 12 ^^^ b8
    let b11 := add64 b11 (k 3); let b10 := add64 b10 (add64 b11 (k 2)); let b11 := rol64 b11 47 ^^^ b10
    let b13 := add64 b13 (add64 (k 5) t0); let b12 := add64 b12 (add64 b13 (k 4)); let b13 := rol64 b13 44 ^^^ b12
    let b15 := add64 b15 (add64 (k 7) 9); let b14 := add64 b14 (add64 (add64 b15 (k 6)) t1); let b15 := rol64 b15 30 ^^^ b14
    ⟨b0, b1, b2, b3, b4, b5, b6, b7, b8, b9, b10, b11, b12, b13, b14, b15⟩

/-- Lines 1082-1104 of `threefish_encrypt_1024`: the eight MIX steps of round 37. -/
def enc_round_37 (k : Nat → Nat) (t0 : Nat) : State → State
  | ⟨b0, b1, b2, b3, b4, b5, b6, b7, b8, b9, b10, b11, b12, b13, b14, b15⟩ =>
    let b0 := add64 b0 b9; let b9 := rol64 b9 16 ^^^ b0
    let b2 := add64 b2 b13; let b13 := rol64 b13 34 ^^^ b2
    let b6 := add64 b6 b11; let b11 := rol64 b11 56 ^^^ b6
    let b4 := add64 b4 b15; let b15 := rol64 b15 51 ^^^ b4
    let b10 := add64 b10 b7; let b7 := rol64 b7 4 ^^^ b10
    let b12 := add64 b12 b3; let b3 := rol64 b3 53 ^^^ b12
    let b14 := add64 b14 b5; let b5 := rol64 b5 42 ^^^ b14
    let b8 := add64 b8 b1; let b1 := rol64 b1 41 ^^^ b8
    ⟨b0, b1, b2, b3, b4, b5, b6, b7, b8, b9, b10, b11, b12, b13, b14, b15⟩

/-- Lines 1106-1128 of `threefish_encrypt_1024`: the eight MIX steps of round 38. -/
def enc_round_38 (k : Nat → Nat) (t0 : Nat) : State → State
  | ⟨b0, b1, b2, b3, b4, b5, b6, b7, b8, b9, b10, b11, b12, b13, b14, b15⟩ =>
    let b0 := add64 b0 b7; let b7 := rol64 b7 31 ^^^ b0
    let b2 := add64 b2 b5; let b5 := rol64 b5 44 ^^^ b2
    let b4 := add64 b4 b3; let b3 := rol64 b3 47 ^^^ b4
    let b6 := add64 b6 b1; let b1 := rol64 b1 46 ^^^ b6
    let b12 := add64 b12 b15; let b15 := rol64 b15 19 ^^^ b12
    let b14 := add64 b14 b13; let b13 := rol64 b13 42 ^^^ b14
    let b8 := add64 b8 b11; let b11 := rol64 b11 44 ^^^ b8
    let b10 := add64 b10 b9; let b9 := rol64 b9 25 ^^^ b10
    ⟨b0, b1, b2, b3, b4, b5, b6, b7, b8, b9, b10, b11, b12, b13, b14, b15⟩

/-- Lines 1130-1152 of `threefish_encrypt_1024`: the eight MIX steps of round 39. -/
def enc_round_39 (k : Nat → Nat) (t0 : Nat) : State → State
  | ⟨b0, b1, b2, b3, b4, b5, b6, b7, b8, b9, b10, b11, b12, b13, b14, b15⟩ =>
    let b0 := add64 b0 b15; let b15 := rol64 b15 9 ^^^ b0
    let b2 := add64 b2 b11; let b11 := rol64 b11 48 ^^^ b2
    let b6 := add64 b6 b13; let b13 := rol64 b13 35 ^^^ b6
    let b4 := add64 b4 b9; let b9 := rol64 b9 52 ^^^ b4
    let b14 := add64 b14 b1; let b1 := rol64 b1 23 ^^^ b14
    let b8 := add64 b8 b5; let b5 := rol64 b5 31 ^^^ b8
    let b10 := add64 b10 b3; let b3 := rol64 b3 37 ^^^ b10
    let b12 := add64 b12 b7; let b7 := rol64 b7 20 ^^^ b12
    ⟨b0, b1, b2, b3, b4, b5, b6, b7, b8, b9, b10, b11, b12, b13, b14, b15⟩

/-- Lines 1154-1184 of `threefish_encrypt_1024`: the addition of subkey 10 fused with the eight MIX steps of round 40. -/
def enc_round_40 (k : Nat → Nat) (t0 : Nat) : State → State
  | ⟨b0, b1, b2, b3, b4, b5, b6, b7, b8, b9, b10, b11, b12, b13, b14, b15⟩ =>
    let b1 := add64 b1 (k 11); let b0 := add64 b0 (add64 b1 (k 10)); let b1 := rol64 b1 24 ^^^ b0
    let b3 := add64 b3 (k 13); let b2 := add64 b2 (add64 b3 (k 12)); let b3 := rol64 b3 13 ^^^ b2
    let b5 := add64 b5 (k 15); let b4 := add64 b4 (add64 b5 (k 14)); let b5 := rol64 b5 8 ^^^ b4
    let b7 := add64 b7 (k 0); let b6 := add64 b6 (add64 b7 (k 16)); let b7 := rol64 b7 47 ^^^ b6
    let b9 := add64 b9 (k 2); let b8 := add64 b8 (add64 b9 (k 1)); let b9 := rol64 b9 8 ^^^ b8
    let b11 := add64 b11 (k 4); let b10 := add64 b10 (add64 b11 (k 3)); let b11 := rol64 b11 17 ^^^ b10
    let b13 := add64 b13 (add64 (k 6) t1); let b12 := add64 b12 (add64 b13 (k 5)); let b13 := rol64 b13 22 ^^^ b12
    let b15 := add64 b15 (add64 (k 8) 10); let b14 := add64 b14 (add64 (add64 b15 (k 7)) (t2 t0)); let b15 := rol64 b15 37 ^^^ b14
    ⟨b0, b1, b2, b3, b4, b5, b6, b7, b8, b9, b10, b11, b12, b13, b14, b15⟩

/-- Lines 1186-1208 of `threefish_encrypt_1024`: the eight MIX steps of round 41. -/
def enc_round_41 (k : Nat → Nat) (t0 : Nat) : State → State
  | ⟨b0, b1, b2, b3, b4, b5, b6, b7, b8, b9, b10, b11, b12, b13, b14, b15⟩ =>
    let b0 := add64 b0 b9; let b9 := rol64 b9 38 ^^^ b0
    let b2 := add64 b2 b13; let b13 := rol64 b13 19 ^^^ b2
    let b6 := add64 b6 b11; let b11 := rol64 b11 10 ^^^ b6
    let b4 := add64 b4 b15; let b15 := rol64 b15 55 ^^^ b4
    let b10 := add64 b10 b7; let b7 := rol64 b7 49 ^^^ b10
    let b12 := add64 b12 b3; let b3 := rol64 b3 18 ^^^ b12
    let b14 := add64 b14 b5; let b5 := rol64 b5 23 ^^^ b14
    let b8 := add64 b8 b1; let b1 := rol64 b1 52 ^^^ b8
    ⟨b0, b1, b2, b3, b4, b5, b6, b7, b8, b9, b10, b11, b12, b13, b14, b15⟩

/-- Lines 1210-1232 of `threefish_encrypt_1024`: the eight MIX steps of round 42. -/
def enc_round_42 (k : Nat → Nat) (t0 : Nat) : State → State
  | ⟨b0, b1, b2, b3, b4, b5, b6, b7, b8, b9, b10, b11, b12, b13, b14, b15⟩ =>
    let b0 := add64 b0 b7; let b7 := rol64 b7 33 ^^^ b0
    let b2 := add64 b2 b5; let b5 := rol64 b5 4 ^^^ b2
    let b4 := add64 b4 b3; let b3 := rol64 b3 51 ^^^ b4
    let b6 := add64 b6 b1; let b1 := rol64 b1 13 ^^^ b6
    let b12 := add64 b12 b15; let b15 := rol64 b15 34 ^^^ b12
    let b14 := add64 b14 b13; let b13 := rol64 b13 41 ^^^ b14
    let b8 := add64 b8 b11; let b11 := rol64 b11 59 ^^^ b8
    let b10 := add64 b10 b9; let b9 := rol64 b9 17 ^^^ b10
    ⟨b0, b1, b2, b3, b4, b5, b6, b7, b8, b9, b10, b11, b12, b13, b14, b15⟩

/-- Lines 1234-1256 of `threefish_encrypt_1024`: the eight MIX steps of round 43. -/
def enc_round_43 (k : Nat → Nat) (t0 : Nat) : State → State
  | ⟨b0, b1, b2, b3, b4, b5, b6, b7, b8, b9, b10, b11, b12, b13, b14, b15⟩ =>
    let b0 := add64 b0 b15; let b15 := rol64 b15 5 ^^^ b0
    let b2 := add64 b2 b11; let b11 := rol64 b11 20 ^^^ b2
    let b6 := add64 b6 b13; let b13 := rol64 b13 48 ^^^ b6
    let b4 := add64 b4 b9; let b9 := rol64 b9 41 ^^^ b4
    let b14 := add64 b14 b1; let b1 := rol64 b1 47 ^^^ b14
    let b8 := add64 b8 b5; let b5 := rol64 b5 28 ^^^ b8
    let b10 := add64 b10 b3; let b3 := rol64 b3 16 ^^^ b10
    let b12 := add64 b12 b7; let b7 := rol64 b7 25 ^^^ b12
    ⟨b0, b1, b2, b3, b4, b5, b6, b7, b8, b9, b10, b11, b12, b13, b14, b15⟩

/-- Lines 1258-1288 of `threefish_encrypt_1024`: the addition of subkey 11 fused with the eight MIX steps of round 44. -/
def enc_round_44 (k : Nat → Nat) (t0 : Nat) : State → State
  | ⟨b0, b1, b2, b3, b4, b5, b6, b7, b8, b9, b10, b11, b12, b13, b14, b15⟩ =>
    let b1 := add64 b1 (k 12); let b0 := add64 b0 (add64 b1 (k 11)); let b1 := rol64 b1 41 ^^^ b0
    let b3 := add64 b3 (k 14); let b2 := add64 b2 (add64 b3 (k 13)); let b3 := rol64 b3 9 ^^^ b2
    let b5 := add64 b5 (k 16); let b4 := add64 b4 (add64 b5 (k 15)); let b5 := rol64 b5 37 ^^^ b4
    let b7 := add64 b7 (k 1); let b6 := add64 b6 (add64 b7 (k 0)); let b7 := rol64 b7 31 ^^^ b6
    let b9 := add64 b9 (k 3); let b8 := add64 b8 (add64 b9 (k 2)); let b9 := rol64 b9 12 ^^^ b8
    let b11 := add64 b11 (k 5); let b10 := add64 b10 (add64 b11 (k 4)); let b11 := rol64 b11 47 ^^^ b10
    let b13 := add64 b13 (add64 (k 7) (t2 t0)); let b12 := add64 b12 (add64 b13 (k 6)); let b13 := rol64 b13 44 ^^^ b12
    let b15 := add64 b15 (add64 (k 9) 11); let b14 := add64 b14 (add64 (add64 b15 (k 8)) t0); let b15 := rol64 b15 30 ^^^ b14
    ⟨b0, b1, b2, b3, b4, b5, b6, b7, b8, b9, b10, b11, b12, b13, b14, b15⟩

/-- Lines 1290-1312 of `threefish_encrypt_1024`: the eight MIX steps of round 45. -/
def enc_round_45 (k : Nat → Nat) (t0 : Nat) : State → State
  | ⟨b0, b1, b2, b3, b4, b5, b6, b7, b8, b9, b10, b11, b12, b13, b14, b15⟩ =>
    let b0 := add64 b0 b9; let b9 := rol64 b9 16 ^^^ b0
    let b2 := add64 b2 b13; let b13 := rol64 b13 34 ^^^ b2
    let b6 := add64 b6 b11; let b11 := rol64 b11 56 ^^^ b6
    let b4 := add64 b4 b15; let b15 := rol64 b15 51 ^^^ b4
    let b10 := add64 b10 b7; let b7 := rol64 b7 4 ^^^ b10
    let b12 := add64 b12 b3; let b3 := rol64 b3 53 ^^^ b12
    let b14 := add64 b14 b5; let b5 := rol64 b5 42 ^^^ b14
    let b8 := add64 b8 b1; let b1 := rol64 b1 41 ^^^ b8
    ⟨b0, b1, b2, b3, b4, b5, b6, b7, b8, b9, b10, b11, b12, b13, b14, b15⟩

/-- Lines 1314-1336 of `threefish_encrypt_1024`: the eight MIX steps of round 46. -/
def enc_round_46 (k : Nat → Nat) (t0 : Nat) : State → State
  | ⟨b0, b1, b2, b3, b4, b5, b6, b7, b8, b9, b10, b11, b12, b13, b14, b15⟩ =>
    let b0 := add64 b0 b7; let b7 := rol64 b7 31 ^^^ b0
    let b2 := add64 b2 b5; let b5 := rol64 b5 44 ^^^ b2
    let b4 := add64 b4 b3; let b3 := rol64 b3 47 ^^^ b4
    let b6 := add64 b6 b1; let b1 := rol64 b1 46 ^^^ b6
    let b12 := add64 b12 b15; let b15 := rol64 b15 19 ^^^ b12
    let b14 := add64 b14 b13; let b13 := rol64 b13 42 ^^^ b14
    let b8 := add64 b8 b11; let b11 := rol64 b11 44 ^^^ b8
    let b10 := add64 b10 b9; let b9 := rol64 b9 25 ^^^ b10
    ⟨b0, b1, b2, b3, b4, b5, b6, b7, b8, b9, b10, b11, b12, b13, b14, b15⟩

/-- Lines 1338-1360 of `threefish_encrypt_1024`: the eight MIX steps of round 47. -/
def enc_round_47 (k : Nat → Nat) (t0 : Nat) : State → State
  | ⟨b0, b1, b2, b3, b4, b5, b6, b7, b8, b9, b10, b11, b12, b13, b14, b15⟩ =>
    let b0 := add64 b0 b15; let b15 := rol64 b15 9 ^^^ b0
    let b2 := add64 b2 b11; let b11 := rol64 b11 48 ^^^ b2
    let b6 := add64 b6 b13; let b13 := rol64 b13 35 ^^^ b6
    let b4 := add64 b4 b9; let b9 := rol64 b9 52 ^^^ b4
    let b14 := add64 b14 b1; let b1 := rol64 b1 23 ^^^ b14
    let b8 := add64 b8 b5; let b5 := rol64 b5 31 ^^^ b8
    let b10 := add64 b10 b3; let b3 := rol64 b3 37 ^^^ b10
    let b12 := add64 b12 b7; let b7 := rol64 b7 20 ^^^ b12
    ⟨b0, b1, b2, b3, b4, b5, b6, b7, b8, b9, b10, b11, b12, b13, b14, b15⟩

/-- Lines 1362-1392 of `threefish_encrypt_1024`: the addition of subkey 12 fused with the eight MIX steps of round 48. -/
def enc_round_48 (k : Nat → Nat) (t0 : Nat) : State → State
  | ⟨b0, b1, b2, b3, b4, b5, b6, b7, b8, b9, b10, b11, b12, b13, b14, b15⟩ =>
    let b1 := add64 b1 (k 13); let b0 := add64 b0 (add64 b1 (k 12)); let b1 := rol64 b1 24 ^^^ b0
    let b3 := add64 b3 (k 15); let b2 := add64 b2 (add64 b3 (k 14)); let b3 := rol64 b3 13 ^^^ b2
    let b5 := add64 b5 (k 0); let b4 := add64 b4 (add64 b5 (k 16)); let b5 := rol64 b5 8 ^^^ b4
    let b7 := add64 b7 (k 2); let b6 := add64 b6 (add64 b7 (k 1)); let b7 := rol64 b7 47 ^^^ b6
    let b9 := add64 b9 (k 4); let b8 := add64 b8 (add64 b9 (k 3)); let b9 := rol64 b9 8 ^^^ b8
    let b11 := add64 b11 (k 6); let b10 := add64 b10 (add64 b11 (k 5)); let b11 := rol64 b11 17 ^^^ b10
    let b13 := add64 b13 (add64 (k 8) t0); let b12 := add64 b12 (add64 b13 (k 7)); let b13 := rol64 b13 22 ^^^ b12
    let b15 := add64 b15 (add64 (k 10) 12); let b14 := add64 b14 (add64 (add64 b15 (k 9)) t1); let b15 := rol64 b15 37 ^^^ b14
    ⟨b0, b1, b2, b3, b4, b5, b6, b7, b8, b9, b10, b11, b12, b13, b14, b15⟩

/-- Lines 1394-1416 of `threefish_encrypt_1024`: the eight MIX steps of round 49. -/
def enc_round_49 (k : Nat → Nat) (t0 : Nat) : State → State
  | ⟨b0, b1, b2, b3, b4, b5, b6, b7, b8, b9, b10, b11, b12, b13, b14, b15⟩ =>
    let b0 := add64 b0 b9; let b9 := rol64 b9 38 ^^^ b0
    let b2 := add64 b2 b13; let b13 := rol64 b13 19 ^^^ b2
    let b6 := add64 b6 b11; let b11 := rol64 b11 10 ^^^ b6
    let b4 := add64 b4 b15; let b15 := rol64 b15 55 ^^^ b4
    let b10 := add64 b10 b7; let b7 := rol64 b7 49 ^^^ b10
    let b12 := add64 b12 b3; let b3 := rol64 b3 18 ^^^ b12
    let b14 := add64 b14 b5; let b5 := rol64 b5 23 ^^^ b14
    let b8 := add64 b8 b1; let b1 := rol64 b1 52 ^^^ b8
    ⟨b0, b1, b2, b3, b4, b5, b6, b7, b8, b9, b10, b11, b12, b13, b14, b15⟩

/-- Lines 1418-1440 of `threefish_encrypt_1024`: the eight MIX steps of round 50. -/
def enc_round_50 (k : Nat → Nat) (t0 : Nat) : State → State
  | ⟨b0, b1, b2, b3, b4, b5, b6, b7, b8, b9, b10, b11, b12, b13, b14, b15⟩ =>
    let b0 := add64 b0 b7; let b7 := rol64 b7 33 ^^^ b0
    let b2 := add64 b2 b5; let b5 := rol64 b5 4 ^^^ b2
    let b4 := add64 b4 b3; let b3 := rol64 b3 51 ^^^ b4
    let b6 := add64 b6 b1; let b1 := rol64 b1 13 ^^^ b6
    let b12 := add64 b12 b15; let b15 := rol64 b15 34 ^^^ b12
    let b14 := add64 b14 b13; let b13 := rol64 b13 41 ^^^ b14
    let b8 := add64 b8 b11; let b11 := rol64 b11 59 ^^^ b8
    let b10 := add64 b10 b9; let b9 := rol64 b9 17 ^^^ b10
    ⟨b0, b1, b2, b3, b4, b5, b6, b7, b8, b9, b10, b11, b12, b13, b14, b15⟩

/-- Lines 1442-1464 of `threefish_encrypt_1024`: the eight MIX steps of round 51. -/
def enc_round_51 (k : Nat → Nat) (t0 : Nat) : State → State
  | ⟨b0, b1, b2, b3, b4, b5, b6, b7, b8, b9, b10, b11, b12, b13, b14, b15⟩ =>
    let b0 := add64 b0 b15; let b15 := rol64 b15 5 ^^^ b0
    let b2 := add64 b2 b11; let b11 := rol64 b11 20 ^^^ b2
    let b6 := add64 b6 b13; let b13 := rol64 b13 48 ^^^ b6
    let b4 := add64 b4 b9; let b9 := rol64 b9 41 ^^^ b4
    let b14 := add64 b14 b1; let b1 := rol64 b1 47 ^^^ b14
    let b8 := add64 b8 b5; let b5 := rol64 b5 28 ^^^ b8
    let b10 := add64 b10 b3; let b3 := rol64 b3 16 ^^^ b10
    let b12 := add64 b12 b7; let b7 := rol64 b7 25 ^^^ b12
    ⟨b0, b1, b2, b3, b4, b5, b6, b7, b8, b9, b10, b11, b12, b13, b14, b15⟩

/-- Lines 1466-1496 of `threefish_encrypt_1024`: the addition of subkey 13 fused with the eight MIX steps of round 52. -/
def enc_round_52 (k : Nat → Nat) (t0 : Nat) : State → State
  | ⟨b0, b1, b2, b3, b4, b5, b6, b7, b8, b9, b10, b11, b12, b13, b14, b15⟩ =>
    let b1 := add64 b1 (k 14); let b0 := add64 b0 (add64 b1 (k 13)); let b1 := rol64 b1 41 ^^^ b0
    let b3 := add64 b3 (k 16); let b2 := add64 b2 (add64 b3 (k 15)); let b3 := rol64 b3 9 ^^^ b2
    let b5 := add64 b5 (k 1); let b4 := add64 b4 (add64 b5 (k 0)); let b5 := rol64 b5 37 ^^^ b4
    let b7 := add64 b7 (k 3); let b6 := add64 b6 (add64 b7 (k 2)); let b7 := rol64 b7 31 ^^^ b6
    let b9 := add64 b9 (k 5); let b8 := add64 b8 (add64 b9 (k 4)); let b9 := rol64 b9 12 ^^^ b8
    let b11 := add64 b11 (k 7); let b10 := add64 b10 (add64 b11 (k 6)); let b11 := rol64 b11 47 ^^^ b10
    let b13 := add64 b13 (add64 (k 9) t1); let b12 := add64 b12 (add64 b13 (k 8)); let b13 := rol64 b13 44 ^^^ b12
    let b15 := add64 b15 (add64 (k 11) 13); let b14 := add64 b14 (add64 (add64 b15 (k 10)) (t2 t0)); let b15 := rol64 b15 30 ^^^ b14
    ⟨b0, b1, b2, b3, b4, b5, b6, b7, b8, b9, b10, b11, b12, b13, b14, b15⟩

/-- Lines 1498-1520 of `threefish_encrypt_1024`: the eight MIX steps of round 53. -/
def enc_round_53 (k : Nat → Nat) (t0 : Nat) : State → State
  | ⟨b0, b1, b2, b3, b4, b5, b6, b7, b8, b9, b10, b11, b12, b13, b14, b15⟩ =>
    let b0 := add64 b0 b9; let b9 := rol64 b9 16 ^^^ b0
    let b2 := add64 b2 b13; let b13 := rol64 b13 34 ^^^ b2
    let b6 := add64 b6 b11; let b11 := rol64 b11 56 ^^^ b6
    let b4 := add64 b4 b15; let b15 := rol64 b15 51 ^^^ b4
    let b10 := add64 b10 b7; let b7 := rol64 b7 4 ^^^ b10
    let b12 := add64 b12 b3; let b3 := rol64 b3 53 ^^^ b12
    let b14 := add64 b14 b5; let b5 := rol64 b5 42 ^^^ b14
    let b8 := add64 b8 b1; let b1 := rol64 b1 41 ^^^ b8
    ⟨b0, b1, b2, b3, b4, b5, b6, b7, b8, b9, b10, b11, b12, b13, b14, b15⟩

/-- Lines 1522-1544 of `threefish_encrypt_1024`: the eight MIX steps of round 54. -/
def enc_round_54 (k : Nat → Nat) (t0 : Nat) : State → State
  | ⟨b0, b1, b2, b3, b4, b5, b6, b7, b8, b9, b10, b11, b12, b13, b14, b15⟩ =>
    let b0 := add64 b0 b7; let b7 := rol64 b7 31 ^^^ b0
    let b2 := add64 b2 b5; let b5 := rol64 b5 44 ^^^ b2
    let b4 := add64 b4 b3; let b3 := rol64 b3 47 ^^^ b4
    let b6 := add64 b6 b1; let b1 := rol64 b1 46 ^^^ b6
    let b12 := add64 b12 b15; let b15 := rol64 b15 19 ^^^ b12
    let b14 := add64 b14 b13; let b13 := rol64 b13 42 ^^^ b14
    let b8 := add64 b8 b11; let b11 := rol64 b11 44 ^^^ b8
    let b10 := add64 b10 b9; let b9 := rol64 b9 25 ^^^ b10
    ⟨b0, b1, b2, b3, b4, b5, b6, b7, b8, b9, b10, b11, b12, b13, b14, b15⟩

/-- Lines 1546-1568 of `threefish_encrypt_1024`: the eight MIX steps of round 55. -/
def enc_round_55 (k : Nat → Nat) (t0 : Nat) : State → State
  | ⟨b0, b1, b2, b3, b4, b5, b6, b7, b8, b9, b10, b11, b12, b13, b14, b15⟩ =>
    let b0 := add64 b0 b15; let b15 := rol64 b15 9 ^^^ b0
    let b2 := add64 b2 b11; let b11 := rol64 b11 48 ^^^ b2
    let b6 := add64 b6 b13; let b13 := rol64 b13 35 ^^^ b6
    let b4 := add64 b4 b9; let b9 := rol64 b9 52 ^^^ b4
    let b14 := add64 b14 b1; let b1 := rol64 b1 23 ^^^ b14
    let b8 := add64 b8 b5; let b5 := rol64 b5 31 ^^^ b8
    let b10 := add64 b10 b3; let b3 := rol64 b3 37 ^^^ b10
    let b12 := add64 b12 b7; let b7 := rol64 b7 20 ^^^ b12
    ⟨b0, b1, b2, b3, b4, b5, b6, b7, b8, b9, b10, b11, b12, b13, b14, b15⟩

/-- Lines 1570-1600 of `threefish_encrypt_1024`: the addition of subkey 14 fused with the eight MIX steps of round 56. -/
def enc_round_56 (k : Nat → Nat) (t0 : Nat) : State → State
  | ⟨b0, b1, b2, b3, b4, b5, b6, b7, b8, b9, b10, b11, b12, b13, b14, b15⟩ =>
    let b1 := add64 b1 (k 15); let b0 := add64 b0 (add64 b1 (k 14)); let b1 := rol64 b1 24 ^^^ b0
    let b3 := add64 b3 (k 0); let b2 := add64 b2 (add64 b3 (k 16)); let b3 := rol64 b3 13 ^^^ b2
    let b5 := add64 b5 (k 2); let b4 := add64 b4 (add64 b5 (k 1)); let b5 := rol64 b5 8 ^^^ b4
    let b7 := add64 b7 (k 4); let b6 := add64 b6 (add64 b7 (k 3)); let b7 := rol64 b7 47 ^^^ b6
    let b9 := add64 b9 (k 6); let b8 := add64 b8 (add64 b9 (k 5)); let b9 := rol64 b9 8 ^^^ b8
    let b11 := add64 b11 (k 8); let b10 := add64 b10 (add64 b11 (k 7)); let b11 := rol64 b11 17 ^^^ b10
    let b13 := add64 b13 (add64 (k 10) (t2 t0)); let b12 := add64 b12 (add64 b13 (k 9)); let b13 := rol64 b13 22 ^^^ b12
    let b15 := add64 b15 (add64 (k 12) 14); let b14 := add64 b14 (add64 (add64 b15 (k 11)) t0); let b15 := rol64 b15 37 ^^^ b14
    ⟨b0, b1, b2, b3, b4, b5, b6, b7, b8, b9, b10, b11, b12, b13, b14, b15⟩

/-- Lines 1602-1624 of `threefish_encrypt_1024`: the eight MIX steps of round 57. -/
def enc_round_57 (k : Nat → Nat) (t0 : Nat) : State → State
  | ⟨b0, b1, b2, b3, b4, b5, b6, b7, b8, b9, b10, b11, b12, b13, b14, b15⟩ =>
    let b0 := add64 b0 b9; let b9 := rol64 b9 38 ^^^ b0
    let b2 := add64 b2 b13; let b13 := rol64 b13 19 ^^^ b2
    let b6 := add64 b6 b11; let b11 := rol64 b11 10 ^^^ b6
    let b4 := add64 b4 b15; let b15 := rol64 b15 55 ^^^ b4
    let b10 := add64 b10 b7; let b7 := rol64 b7 49 ^^^ b10
    let b12 := add64 b12 b3; let b3 := rol64 b3 18 ^^^ b12
    let b14 := add64 b14 b5; let b5 := rol64 b5 23 ^^^ b14
    let b8 := add64 b8 b1; let b1 := rol64 b1 52 ^^^ b8
    ⟨b0, b1, b2, b3, b4, b5, b6, b7, b8, b9, b10, b11, b12, b13, b14, b15⟩

/-- Lines 1626-1648 of `threefish_encrypt_1024`: the eight MIX steps of round 58. -/
def enc_round_58 (k : Nat → Nat) (t0 : Nat) : State → State
  | ⟨b0, b1, b2, b3, b4, b5, b6, b7, b8, b9, b10, b11, b12, b13, b14, b15⟩ =>
    let b0 := add64 b0 b7; let b7 := rol64 b7 33 ^^^ b0
    let b2 := add64 b2 b5; let b5 := rol64 b5 4 ^^^ b2
    let b4 := add64 b4 b3; let b3 := rol64 b3 51 ^^^ b4
    let b6 := add64 b6 b1; let b1 := rol64 b1 13 ^^^ b6
    let b12 := add64 b12 b15; let b15 := rol64 b15 34 ^^^ b12
    let b14 := add64 b14 b13; let b13 := rol64 b13 41 ^^^ b14
    let b8 := add64 b8 b11; let b11 := rol64 b11 59 ^^^ b8
    let b10 := add64 b10 b9; let b9 := rol64 b9 17 ^^^ b10
    ⟨b0, b1, b2, b3, b4, b5, b6, b7, b8, b9, b10, b11, b12, b13, b14, b15⟩

/-- Lines 1650-1672 of `threefish_encrypt_1024`: the eight MIX steps of round 59. -/
def enc_round_59 (k : Nat → Nat) (t0 : Nat) : State → State
  | ⟨b0, b1, b2, b3, b4, b5, b6, b7, b8, b9, b10, b11, b12, b13, b14, b15⟩ =>
    let b0 := add64 b0 b15; let b15 := rol64 b15 5 ^^^ b0
    let b2 := add64 b2 b11; let b11 := rol64 b11 20 ^^^ b2
    let b6 := add64 b6 b13; let b13 := rol64 b13 48 ^^^ b6
    let b4 := add64 b4 b9; let b9 := rol64 b9 41 ^^^ b4
    let b14 := add64 b14 b1; let b1 := rol64 b1 47 ^^^ b14
    let b8 := add64 b8 b5; let b5 := rol64 b5 28 ^^^ b8
    let b10 := add64 b10 b3; let b3 := rol64 b3 16 ^^^ b10
    let b12 := add64 b12 b7; let b7 := rol64 b7 25 ^^^ b12
    ⟨b0, b1, b2, b3, b4, b5, b6, b7, b8, b9, b10, b11, b12, b13, b14, b15⟩

/-- Lines 1674-1704 of `threefish_encrypt_1024`: the addition of subkey 15 fused with the eight MIX steps of round 60. -/
def enc_round_60 (k : Nat → Nat) (t0 : Nat) : State → State
  | ⟨b0, b1, b2, b3, b4, b5, b6, b7, b8, b9, b10, b11, b12, b13, b14, b15⟩ =>
    let b1 := add64 b1 (k 16); let b0 := add64 b0 (add64 b1 (k 15)); let b1 := rol64 b1 41 ^^^ b0
    let b3 := add64 b3 (k 1); let b2 := add64 b2 (add64 b3 (k 0)); let b3 := rol64 b3 9 ^^^ b2
    let b5 := add64 b5 (k 3); let b4 := add64 b4 (add64 b5 (k 2)); let b5 := rol64 b5 37 ^^^ b4
    let b7 := add64 b7 (k 5); let b6 := add64 b6 (add64 b7 (k 4)); let b7 := rol64 b7 31 ^^^ b6
    let b9 := add64 b9 (k 7); let b8 := add64 b8 (add64 b9 (k 6)); let b9 := rol64 b9 12 ^^^ b8
    let b11 := add64 b11 (k 9); let b10 := add64 b10 (add64 b11 (k 8)); let b11 := rol64 b11 47 ^^^ b10
    let b13 := add64 b13 (add64 (k 11) t0); let b12 := add64 b12 (add64 b13 (k 10)); let b13 := rol64 b13 44 ^^^ b12
    let b15 := add64 b15 (add64 (k 13) 15); let b14 := add64 b14 (add64 (add64 b15 (k 12)) t1); let b15 := rol64 b15 30 ^^^ b14
    ⟨b0, b1, b2, b3, b4, b5, b6, b7, b8, b9, b10, b11, b12, b13, b14, b15⟩

/-- Lines 1706-1728 of `threefish_encrypt_1024`: the eight MIX steps of round 61. -/
def enc_round_61 (k : Nat → Nat) (t0 : Nat) : State → State
  | ⟨b0, b1, b2, b3, b4, b5, b6, b7, b8, b9, b10, b11, b12, b13, b14, b15⟩ =>
    let b0 := add64 b0 b9; let b9 := rol64 b9 16 ^^^ b0
    let b2 := add64 b2 b13; let b13 := rol64 b13 34 ^^^ b2
    let b6 := add64 b6 b11; let b11 := rol64 b11 56 ^^^ b6
    let b4 := add64 b4 b15; let b15 := rol64 b15 51 ^^^ b4
    let b10 := add64 b10 b7; let b7 := rol64 b7 4 ^^^ b10
    let b12 := add64 b12 b3; let b3 := rol64 b3 53 ^^^ b12
    let b14 := add64 b14 b5; let b5 := rol64 b5 42 ^^^ b14
    let b8 := add64 b8 b1; let b1 := rol64 b1 41 ^^^ b8
    ⟨b0, b1, b2, b3, b4, b5, b6, b7, b8, b9, b10, b11, b12, b13, b14, b15⟩

/-- Lines 1730-1752 of `threefish_encrypt_1024`: the eight MIX steps of round 62. -/
def enc_round_62 (k : Nat → Nat) (t0 : Nat) : State → State
  | ⟨b0, b1, b2, b3, b4, b5, b6, b7, b8, b9, b10, b11, b12, b13, b14, b15⟩ =>
    let b0 := add64 b0 b7; let b7 := rol64 b7 31 ^^^ b0
    let b2 := add64 b2 b5; let b5 := rol64 b5 44 ^^^ b2
    let b4 := add64 b4 b3; let b3 := rol64 b3 47 ^^^ b4
    let b6 := add64 b6 b1; let b1 := rol64 b1 46 ^^^ b6
    let b12 := add64 b12 b15; let b15 := rol64 b15 19 ^^^ b12
    let b14 := add64 b14 b13; let b13 := rol64 b13 42 ^^^ b14
    let b8 := add64 b8 b11; let b11 := rol64 b11 44 ^^^ b8
    let b10 := add64 b10 b9; let b9 := rol64 b9 25 ^^^ b10
    ⟨b0, b1, b2, b3, b4, b5, b6, b7, b8, b9, b10, b11, b12, b13, b14, b15⟩

/-- Lines 1754-1776 of `threefish_encrypt_1024`: the eight MIX steps of round 63. -/
def enc_round_63 (k : Nat → Nat) (t0 : Nat) : State → State
  | ⟨b0, b1, b2, b3, b4, b5, b6, b7, b8, b9, b10, b11, b12, b13, b14, b15⟩ =>
    let b0 := add64 b0 b15; let b15 := rol64 b15 9 ^^^ b0
    let b2 := add64 b2 b11; let b11 := rol64 b11 48 ^^^ b2
    let b6 := add64 b6 b13; let b13 := rol64 b13 35 ^^^ b6
    let b4 := add64 b4 b9; let b9 := rol64 b9 52 ^^^ b4
    let b14 := add64 b14 b1; let b1 := rol64 b1 23 ^^^ b14
    let b8 := add64 b8 b5; let b5 := rol64 b5 31 ^^^ b8
    let b10 := add64 b10 b3; let b3 := rol64 b3 37 ^^^ b10
    let b12 := add64 b12 b7; let b7 := rol64 b7 20 ^^^ b12
    ⟨b0, b1, b2, b3, b4, b5, b6, b7, b8, b9, b10, b11, b12, b13, b14, b15⟩

/-- Lines 1778-1808 of `threefish_encrypt_1024`: the addition of subkey 16 fused with the eight MIX steps of round 64. -/
def enc_round_64 (k : Nat → Nat) (t0 : Nat) : State → State
  | ⟨b0, b1, b2, b3, b4, b5, b6, b7, b8, b9, b10, b11, b12, b13, b14, b15⟩ =>
    let b1 := add64 b1 (k 0); let b0 := add64 b0 (add64 b1 (k 16)); let b1 := rol64 b1 24 ^^^ b0
    let b3 := add64 b3 (k 2); let b2 := add64 b2 (add64 b3 (k 1)); let b3 := rol64 b3 13 ^^^ b2
    let b5 := add64 b5 (k 4); let b4 := add64 b4 (add64 b5 (k 3)); let b5 := rol64 b5 8 ^^^ b4
    let b7 := add64 b7 (k 6); let b6 := add64 b6 (add64 b7 (k 5)); let b7 := rol64 b7 47 ^^^ b6
    let b9 := add64 b9 (k 8); let b8 := add64 b8 (add64 b9 (k 7)); let b9 := rol64 b9 8 ^^^ b8
    let b11 := add64 b11 (k 10); let b10 := add64 b10 (add64 b11 (k 9)); let b11 := rol64 b11 17 ^^^ b10
    let b13 := add64 b13 (add64 (k 12) t1); let b12 := add64 b12 (add64 b13 (k 11)); let b13 := rol64 b13 22 ^^^ b12
    let b15 := add64 b15 (add64 (k 14) 16); let b14 := add64 b14 (add64 (add64 b15 (k 13)) (t2 t0)); let b15 := rol64 b15 37 ^^^ b14
    ⟨b0, b1, b2, b3, b4, b5, b6, b7, b8, b9, b10, b11, b12, b13, b14, b15⟩

/-- Lines 1810-1832 of `threefish_encrypt_1024`: the eight MIX steps of round 65. -/
def enc_round_65 (k : Nat → Nat) (t0 : Nat) : State → State
  | ⟨b0, b1, b2, b3, b4, b5, b6, b7, b8, b9, b10, b11, b12, b13, b14, b15⟩ =>
    let b0 := add64 b0 b9; let b9 := rol64 b9 38 ^^^ b0
    let b2 := add64 b2 b13; let b13 := rol64 b13 19 ^^^ b2
    let b6 := add64 b6 b11; let b11 := rol64 b11 10 ^^^ b6
    let b4 := add64 b4 b15; let b15 := rol64 b15 55 ^^^ b4
    let b10 := add64 b10 b7; let b7 := rol64 b7 49 ^^^ b10
    let b12 := add64 b12 b3; let b3 := rol64 b3 18 ^^^ b12
    let b14 := add64 b14 b5; let b5 := rol64 b5 23 ^^^ b14
    let b8 := add64 b8 b1; let b1 := rol64 b1 52 ^^^ b8
    ⟨b0, b1, b2, b3, b4, b5, b6, b7, b8, b9, b10, b11, b12, b13, b14, b15⟩

/-- Lines 1834-1856 of `threefish_encrypt_1024`: the eight MIX steps of round 66. -/
def enc_round_66 (k : Nat → Nat) (t0 : Nat) : State → State
  | ⟨b0, b1, b2, b3, b4, b5, b6, b7, b8, b9, b10, b11, b12, b13, b14, b15⟩ =>
    let b0 := add64 b0 b7; let b7 := rol64 b7 33 ^^^ b0
    let b2 := add64 b2 b5; let b5 := rol64 b5 4 ^^^ b2
    let b4 := add64 b4 b3; let b3 := rol64 b3 51 ^^^ b4
    let b6 := add64 b6 b1; let b1 := rol64 b1 13 ^^^ b6
    let b12 := add64 b12 b15; let b15 := rol64 b15 34 ^^^ b12
    let b14 := add64 b14 b13; let b13 := rol64 b13 41 ^^^ b14
    let b8 := add64 b8 b11; let b11 := rol64 b11 59 ^^^ b8
    let b10 := add64 b10 b9; let b9 := rol64 b9 17 ^^^ b10
    ⟨b0, b1, b2, b3, b4, b5, b6, b7, b8, b9, b10, b11, b12, b13, b14, b15⟩

/-- Lines 1858-1880 of `threefish_encrypt_1024`: the eight MIX steps of round 67. -/
def enc_round_67 (k : Nat → Nat) (t0 : Nat) : State → State
  | ⟨b0, b1, b2, b3, b4, b5, b6, b7, b8, b9, b10, b11, b12, b13, b14, b15⟩ =>
    let b0 := add64 b0 b15; let b15 := rol64 b15 5 ^^^ b0
    let b2 := add64 b2 b11; let b11 := rol64 b11 20 ^^^ b2
    let b6 := add64 b6 b13; let b13 := rol64 b13 48 ^^^ b6
    let b4 := add64 b4 b9; let b9 := rol64 b9 41 ^^^ b4
    let b14 := add64 b14 b1; let b1 := rol64 b1 47 ^^^ b14
    let b8 := add64 b8 b5; let b5 := rol64 b5 28 ^^^ b8
    let b10 := add64 b10 b3; let b3 := rol64 b3 16 ^^^ b10
    let b12 := add64 b12 b7; let b7 := rol64 b7 25 ^^^ b12
    ⟨b0, b1, b2, b3, b4, b5, b6, b7, b8, b9, b10, b11, b12, b13, b14, b15⟩

/-- Lines 1882-1912 of `threefish_encrypt_1024`: the addition of subkey 17 fused with the eight MIX steps of round 68. -/
def enc_round_68 (k : Nat → Nat) (t0 : Nat) : State → State
  | ⟨b0, b1, b2, b3, b4, b5, b6, b7, b8, b9, b10, b11, b12, b13, b14, b15⟩ =>
    let b1 := add64 b1 (k 1); let b0 := add64 b0 (add64 b1 (k 0)); let b1 := rol64 b1 41 ^^^ b0
    let b3 := add64 b3 (k 3); let b2 := add64 b2 (add64 b3 (k 2)); let b3 := rol64 b3 9 ^^^ b2
    let b5 := add64 b5 (k 5); let b4 := add64 b4 (add64 b5 (k 4)); let b5 := rol64 b5 37 ^^^ b4
    let b7 := add64 b7 (k 7); let b6 := add64 b6 (add64 b7 (k 6)); let b7 := rol64 b7 31 ^^^ b6
    let b9 := add64 b9 (k 9); let b8 := add64 b8 (add64 b9 (k 8)); let b9 := rol64 b9 12 ^^^ b8
    let b11 := add64 b11 (k 11); let b10 := add64 b10 (add64 b11 (k 10)); let b11 := rol64 b11 47 ^^^ b10
    let b13 := add64 b13 (add64 (k 13) (t2 t0)); let b12 := add64 b12 (add64 b13 (k 12)); let b13 := rol64 b13 44 ^^^ b12
    let b15 := add64 b15 (add64 (k 15) 17); let b14 := add64 b14 (add64 (add64 b15 (k 14)) t0); let b15 := rol64 b15 30 ^^^ b14
    ⟨b0, b1, b2, b3, b4, b5, b6, b7, b8, b9, b10, b11, b12, b13, b14, b15⟩

/-- Lines 1914-1936 of `threefish_encrypt_1024`: the eight MIX steps of round 69. -/
def enc_round_69 (k : Nat → Nat) (t0 : Nat) : State → State
  | ⟨b0, b1, b2, b3, b4, b5, b6, b7, b8, b9, b10, b11, b12, b13, b14, b15⟩ =>
    let b0 := add64 b0 b9; let b9 := rol64 b9 16 ^^^ b0
    let b2 := add64 b2 b13; let b13 := rol64 b13 34 ^^^ b2
    let b6 := add64 b6 b11; let b11 := rol64 b11 56 ^^^ b6
    let b4 := add64 b4 b15; let b15 := rol64 b15 51 ^^^ b4
    let b10 := add64 b10 b7; let b7 := rol64 b7 4 ^^^ b10
    let b12 := add64 b12 b3; let b3 := rol64 b3 53 ^^^ b12
    let b14 := add64 b14 b5; let b5 := rol64 b5 42 ^^^ b14
    let b8 := add64 b8 b1; let b1 := rol64 b1 41 ^^^ b8
    ⟨b0, b1, b2, b3, b4, b5, b6, b7, b8, b9, b10, b11, b12, b13, b14, b15⟩

/-- Lines 1938-1960 of `threefish_encrypt_1024`: the eight MIX steps of round 70. -/
def enc_round_70 (k : Nat → Nat) (t0 : Nat) : State → State
  | ⟨b0, b1, b2, b3, b4, b5, b6, b7, b8, b9, b10, b11, b12, b13, b14, b15⟩ =>
    let b0 := add64 b0 b7; let b7 := rol64 b7 31 ^^^ b0
    let b2 := add64 b2 b5; let b5 := rol64 b5 44 ^^^ b2
    let b4 := add64 b4 b3; let b3 := rol64 b3 47 ^^^ b4
    let b6 := add64 b6 b1; let b1 := rol64 b1 46 ^^^ b6
    let b12 := add64 b12 b15; let b15 := rol64 b15 19 ^^^ b12
    let b14 := add64 b14 b13; let b13 := rol64 b13 42 ^^^ b14
    let b8 := add64 b8 b11; let b11 := rol64 b11 44 ^^^ b8
    let b10 := add64 b10 b9; let b9 := rol64 b9 25 ^^^ b10
    ⟨b0, b1, b2, b3, b4, b5, b6, b7, b8, b9, b10, b11, b12, b13, b14, b15⟩

/-- Lines 1962-1984 of `threefish_encrypt_1024`: the eight MIX steps of round 71. -/
def enc_round_71 (k : Nat → Nat) (t0 : Nat) : State → State
  | ⟨b0, b1, b2, b3, b4, b5, b6, b7, b8, b9, b10, b11, b12, b13, b14, b15⟩ =>
    let b0 := add64 b0 b15; let b15 := rol64 b15 9 ^^^ b0
    let b2 := add64 b2 b11; let b11 := rol64 b11 48 ^^^ b2
    let b6 := add64 b6 b13; let b13 := rol64 b13 35 ^^^ b6
    let b4 := add64 b4 b9; let b9 := rol64 b9 52 ^^^ b4
    let b14 := add64 b14 b1; let b1 := rol64 b1 23 ^^^ b14
    let b8 := add64 b8 b5; let b5 := rol64 b5 31 ^^^ b8
    let b10 := add64 b10 b3; let b3 := rol64 b3 37 ^^^ b10
    let b12 := add64 b12 b7; let b7 := rol64 b7 20 ^^^ b12
    ⟨b0, b1, b2, b3, b4, b5, b6, b7, b8, b9, b10, b11, b12, b13, b14, b15⟩

/-- Lines 1986-2016 of `threefish_encrypt_1024`: the addition of subkey 18 fused with the eight MIX steps of round 72. -/
def enc_round_72 (k : Nat → Nat) (t0 : Nat) : State → State
  | ⟨b0, b1, b2, b3, b4, b5, b6, b7, b8, b9, b10, b11, b12, b13, b14, b15⟩ =>
    let b1 := add64 b1 (k 2); let b0 := add64 b0 (add64 b1 (k 1)); let b1 := rol64 b1 24 ^^^ b0
    let b3 := add64 b3 (k 4); let b2 := add64 b2 (add64 b3 (k 3)); let b3 := rol64 b3 13 ^^^ b2
    let b5 := add64 b5 (k 6); let b4 := add64 b4 (add64 b5 (k 5)); let b5 := rol64 b5 8 ^^^ b4
    let b7 := add64 b7 (k 8); let b6 := add64 b6 (add64 b7 (k 7)); let b7 := rol64 b7 47 ^^^ b6
    let b9 := add64 b9 (k 10); let b8 := add64 b8 (add64 b9 (k 9)); let b9 := rol64 b9 8 ^^^ b8
    let b11 := add64 b11 (k 12); let b10 := add64 b10 (add64 b11 (k 11)); let b11 := rol64 b11 17 ^^^ b10
    let b13 := add64 b13 (add64 (k 14) t0); let b12 := add64 b12 (add64 b13 (k 13)); let b13 := rol64 b13 22 ^^^ b12
    let b15 := add64 b15 (add64 (k 16) 18); let b14 := add64 b14 (add64 (add64 b15 (k 15)) t1); let b15 := rol64 b15 37 ^^^ b14
    ⟨b0, b1, b2, b3, b4, b5, b6, b7, b8, b9, b10, b11, b12, b13, b14, b15⟩

/-- Lines 2018-2040 of `threefish_encrypt_1024`: the eight MIX steps of round 73. -/
def enc_round_73 (k : Nat → Nat) (t0 : Nat) : State → State
  | ⟨b0, b1, b2, b3, b4, b5, b6, b7, b8, b9, b10, b11, b12, b13, b14, b15⟩ =>
    let b0 := add64 b0 b9; let b9 := rol64 b9 38 ^^^ b0
    let b2 := add64 b2 b13; let b13 := rol64 b13 19 ^^^ b2
    let b6 := add64 b6 b11; let b11 := rol64 b11 10 ^^^ b6
    let b4 := add64 b4 b15; let b15 := rol64 b15 55 ^^^ b4
    let b10 := add64 b10 b7; let b7 := rol64 b7 49 ^^^ b10
    let b12 := add64 b12 b3; let b3 := rol64 b3 18 ^^^ b12
    let b14 := add64 b14 b5; let b5 := rol64 b5 23 ^^^ b14
    let b8 := add64 b8 b1; let b1 := rol64 b1 52 ^^^ b8
    ⟨b0, b1, b2, b3, b4, b5, b6, b7, b8, b9, b10, b11, b12, b13, b14, b15⟩

/-- Lines 2042-2064 of `threefish_encrypt_1024`: the eight MIX steps of round 74. -/
def enc_round_74 (k : Nat → Nat) (t0 : Nat) : State → State
  | ⟨b0, b1, b2, b3, b4, b5, b6, b7, b8, b9, b10, b11, b12, b13, b14, b15⟩ =>
    let b0 := add64 b0 b7; let b7 := rol64 b7 33 ^^^ b0
    let b2 := add64 b2 b5; let b5 := rol64 b5 4 ^^^ b2
    let b4 := add64 b4 b3; let b3 := rol64 b3 51 ^^^ b4
    let b6 := add64 b6 b1; let b1 := rol64 b1 13 ^^^ b6
    let b12 := add64 b12 b15; let b15 := rol64 b15 34 ^^^ b12
    let b14 := add64 b14 b13; let b13 := rol64 b13 41 ^^^ b14
    let b8 := add64 b8 b11; let b11 := rol64 b11 59 ^^^ b8
    let b10 := add64 b10 b9; let b9 := rol64 b9 17 ^^^ b10
    ⟨b0, b1, b2, b3, b4, b5, b6, b7, b8, b9, b10, b11, b12, b13, b14, b15⟩

/-- Lines 2066-2088 of `threefish_encrypt_1024`: the eight MIX steps of round 75. -/
def enc_round_75 (k : Nat → Nat) (t0 : Nat) : State → State
  | ⟨b0, b1, b2, b3, b4, b5, b6, b7, b8, b9, b10, b11, b12, b13, b14, b15⟩ =>
    let b0 := add64 b0 b15; let b15 := rol64 b15 5 ^^^ b0
    let b2 := add64 b2 b11; let b11 := rol64 b11 20 ^^^ b2
    let b6 := add64 b6 b13; let b13 := rol64 b13 48 ^^^ b6
    let b4 := add64 b4 b9; let b9 := rol64 b9 41 ^^^ b4
    let b14 := add64 b14 b1; let b1 := rol64 b1 47 ^^^ b14
    let b8 := add64 b8 b5; let b5 := rol64 b5 28 ^^^ b8
    let b10 := add64 b10 b3; let b3 := rol64 b3 16 ^^^ b10
    let b12 := add64 b12 b7; let b7 := rol64 b7 25 ^^^ b12
    ⟨b0, b1, b2, b3, b4, b5, b6, b7, b8, b9, b10, b11, b12, b13, b14, b15⟩

/-- Lines 2090-2120 of `threefish_encrypt_1024`: the addition of subkey 19 fused with the eight MIX steps of round 76. -/
def enc_round_76 (k : Nat → Nat) (t0 : Nat) : State → State
  | ⟨b0, b1, b2, b3, b4, b5, b6, b7, b8, b9, b10, b11, b12, b13, b14, b15⟩ =>
    let b1 := add64 b1 (k 3); let b0 := add64 b0 (add64 b1 (k 2)); let b1 := rol64 b1 41 ^^^ b0
    let b3 := add64 b3 (k 5); let b2 := add64 b2 (add64 b3 (k 4)); let b3 := rol64 b3 9 ^^^ b2
    let b5 := add64 b5 (k 7); let b4 := add64 b4 (add64 b5 (k 6)); let b5 := rol64 b5 37 ^^^ b4
    let b7 := add64 b7 (k 9); let b6 := add64 b6 (add64 b7 (k 8)); let b7 := rol64 b7 31 ^^^ b6
    let b9 := add64 b9 (k 11); let b8 := add64 b8 (add64 b9 (k 10)); let b9 := rol64 b9 12 ^^^ b8
    let b11 := add64 b11 (k 13); let b10 := add64 b10 (add64 b11 (k 12)); let b11 := rol64 b11 47 ^^^ b10
    let b13 := add64 b13 (add64 (k 15) t1); let b12 := add64 b12 (add64 b13 (k 14)); let b13 := rol64 b13 44 ^^^ b12
    let b15 := add64 b15 (add64 (k 0) 19); let b14 := add64 b14 (add64 (add64 b15 (k 16)) (t2 t0)); let b15 := rol64 b15 30 ^^^ b14
    ⟨b0, b1, b2, b3, b4, b5, b6, b7, b8, b9, b10, b11, b12, b13, b14, b15⟩

/-- Lines 2122-2144 of `threefish_encrypt_1024`: the eight MIX steps of round 77. -/
def enc_round_77 (k : Nat → Nat) (t0 : Nat) : State → State
  | ⟨b0, b1, b2, b3, b4, b5, b6, b7, b8, b9, b10, b11, b12, b13, b14, b15⟩ =>
    let b0 := add64 b0 b9; let b9 := rol64 b9 16 ^^^ b0
    let b2 := add64 b2 b13; let b13 := rol64 b13 34 ^^^ b2
    let b6 := add64 b6 b11; let b11 := rol64 b11 56 ^^^ b6
    let b4 := add64 b4 b15; let b15 := rol64 b15 51 ^^^ b4
    let b10 := add64 b10 b7; let b7 := rol64 b7 4 ^^^ b10
    let b12 := add64 b12 b3; let b3 := rol64 b3 53 ^^^ b12
    let b14 := add64 b14 b5; let b5 := rol64 b5 42 ^^^ b14
    let b8 := add64 b8 b1; let b1 := rol64 b1 41 ^^^ b8
    ⟨b0, b1, b2, b3, b4, b5, b6, b7, b8, b9, b10, b11, b12, b13, b14, b15⟩

/-- Lines 2146-2168 of `threefish_encrypt_1024`: the eight MIX steps of round 78. -/
def enc_round_78 (k : Nat → Nat) (t0 : Nat) : State → State
  | ⟨b0, b1, b2, b3, b4, b5, b6, b7, b8, b9, b10, b11, b12, b13, b14, b15⟩ =>
    let b0 := add64 b0 b7; let b7 := rol64 b7 31 ^^^ b0
    let b2 := add64 b2 b5; let b5 := rol64 b5 44 ^^^ b2
    let b4 := add64 b4 b3; let b3 := rol64 b3 47 ^^^ b4
    let b6 := add64 b6 b1; let b1 := rol64 b1 46 ^^^ b6
    let b12 := add64 b12 b15; let b15 := rol64 b15 19 ^^^ b12
    let b14 := add64 b14 b13; let b13 := rol64 b13 42 ^^^ b14
    let b8 := add64 b8 b11; let b11 := rol64 b11 44 ^^^ b8
    let b10 := add64 b10 b9; let b9 := rol64 b9 25 ^^^ b10
    ⟨b0, b1, b2, b3, b4, b5, b6, b7, b8, b9, b10, b11, b12, b13, b14, b15⟩

/-- Lines 2170-2192 of `threefish_encrypt_1024`: the eight MIX steps of round 79. -/
def enc_round_79 (k : Nat → Nat) (t0 : Nat) : State → State
  | ⟨b0, b1, b2, b3, b4, b5, b6, b7, b8, b9, b10, b11, b12, b13, b14, b15⟩ =>
    let b0 := add64 b0 b15; let b15 := rol64 b15 9 ^^^ b0
    let b2 := add64 b2 b11; let b11 := rol64 b11 48 ^^^ b2
    let b6 := add64 b6 b13; let b13 := rol64 b13 35 ^^^ b6
    let b4 := add64 b4 b9; let b9 := rol64 b9 52 ^^^ b4
    let b14 := add64 b14 b1; let b1 := rol64 b1 23 ^^^ b14
    let b8 := add64 b8 b5; let b5 := rol64 b5 31 ^^^ b8
    let b10 := add64 b10 b3; let b3 := rol64 b3 37 ^^^ b10
    let b12 := add64 b12 b7; let b7 := rol64 b7 20 ^^^ b12
    ⟨b0, b1, b2, b3, b4, b5, b6, b7, b8, b9, b10, b11, b12, b13, b14, b15⟩

/-- Lines 2194-2209 of `threefish_encrypt_1024`: the sums stored into `output[0..15]`, before `cpu_to_le64`. -/
def enc_output (k : Nat → Nat) (t0 : Nat) : State → State
  | ⟨b0, b1, b2, b3, b4, b5, b6, b7, b8, b9, b10, b11, b12, b13, b14, b15⟩ =>
    ⟨add64 b0 (k 3),
     add64 b1 (k 4),
     add64 b2 (k 5),
     add64 b3 (k 6),
     add64 b4 (k 7),
     add64 b5 (k 8),
     add64 b6 (k 9),
     add64 b7 (k 10),
     add64 b8 (k 11),
     add64 b9 (k 12),
     add64 b10 (k 13),
     add64 b11 (k 14),
     add64 b12 (k 15),
     add64 (add64 b13 (k 16)) (t2 t0),
     add64 (add64 b14 (k 0)) t0,
     add64 (add64 b15 (k 1)) 20⟩

/-- Lines 2238-2253 of `threefish_decrypt_1024`: the subtraction of subkey 20. -/
def dec_subkey_20 (k : Nat → Nat) (t0 : Nat) : State → State
  | ⟨b0, b1, b2, b3, b4, b5, b6, b7, b8, b9, b10, b11, b12, b13, b14, b15⟩ =>
    let b0 := sub64 b0 (k 3); let b1 := sub64 b1 (k 4); let b2 := sub64 b2 (k 5); let b3 := sub64 b3 (k 6)
    let b4 := sub64 b4 (k 7); let b5 := sub64 b5 (k 8); let b6 := sub64 b6 (k 9); let b7 := sub64 b7 (k 10)
    let b8 := sub64 b8 (k 11); let b9 := sub64 b9 (k 12); let b10 := sub64 b10 (k 13); let b11 := sub64 b11 (k 14)
    let b12 := sub64 b12 (k 15); let b13 := sub64 b13 (add64 (k 16) (t2 t0)); let b14 := sub64 b14 (add64 (k 0) t0); let b15 := sub64 b15 (add64 (k 1) 20)
    ⟨b0, b1, b2, b3, b4, b5, b6, b7, b8, b9, b10, b11, b12, b13, b14, b15⟩

/-- Lines 2254-2284 of `threefish_decrypt_1024`: the eight inverse MIX steps of round 79. -/
def dec_round_79 (k : Nat → Nat) (t0 : Nat) : State → State
  | ⟨b0, b1, b2, b3, b4, b5, b6, b7, b8, b9, b10, b11, b12, b13, b14, b15⟩ =>
    let tmp := b7 ^^^ b12; let b7 := ror64 tmp 20; let b12 := sub64 b12 b7
    let tmp := b3 ^^^ b10; let b3 := ror64 tmp 37; let b10 := sub64 b10 b3
    let tmp := b5 ^^^ b8; let b5 := ror64 tmp 31; let b8 := sub64 b8 b5
    let tmp := b1 ^^^ b14; let b1 := ror64 tmp 23; let b14 := sub64 b14 b1
    let tmp := b9 ^^^ b4; let b9 := ror64 tmp 52; let b4 := sub64 b4 b9
    let tmp := b13 ^^^ b6; let b13 := ror64 tmp 35; let b6 := sub64 b6 b13
    let tmp := b11 ^^^ b2; let b11 := ror64 tmp 48; let b2 := sub64 b2 b11
    let tmp := b15 ^^^ b0; let b15 := ror64 tmp 9; let b0 := sub64 b0 b15
    ⟨b0, b1, b2, b3, b4, b5, b6, b7, b8, b9, b10, b11, b12, b13, b14, b15⟩

/-- Lines 2286-2316 of `threefish_decrypt_1024`: the eight inverse MIX steps of round 78. -/
def dec_round_78 (k : Nat → Nat) (t0 : Nat) : State → State
  | ⟨b0, b1, b2, b3, b4, b5, b6, b7, b8, b9, b10, b11, b12, b13, b14, b15⟩ =>
    let tmp := b9 ^^^ b10; let b9 := ror64 tmp 25; let b10 := sub64 b10 b9
    let tmp := b11 ^^^ b8; let b11 := ror64 tmp 44; let b8 := sub64 b8 b11
    let tmp := b13 ^^^ b14; let b13 := ror64 tmp 42; let b14 := sub64 b14 b13
    let tmp := b15 ^^^ b12; let b15 := ror64 tmp 19; let b12 := sub64 b12 b15
    let tmp := b1 ^^^ b6; let b1 := ror64 tmp 46; let b6 := sub64 b6 b1
    let tmp := b3 ^^^ b4; let b3 := ror64 tmp 47; let b4 := sub64 b4 b3
    let tmp := b5 ^^^ b2; let b5 := ror64 tmp 44; let b2 := sub64 b2 b5
    let tmp := b7 ^^^ b0; let b7 := ror64 tmp 31; let b0 := sub64 b0 b7
    ⟨b0, b1, b2, b3, b4, b5, b6, b7, b8, b9, b10, b11, b12, b13, b14, b15⟩

/-- Lines 2318-2348 of `threefish_decrypt_1024`: the eight inverse MIX steps of round 77. -/
def dec_round_77 (k : Nat → Nat) (t0 : Nat) : State → State
  | ⟨b0, b1, b2, b3, b4, b5, b6, b7, b8, b9, b10, b11, b12, b13, b14, b15⟩ =>
    let tmp := b1 ^^^ b8; let b1 := ror64 tmp 41; let b8 := sub64 b8 b1
    let tmp := b5 ^^^ b14; let b5 := ror64 tmp 42; let b14 := sub64 b14 b5
    let tmp := b3 ^^^ b12; let b3 := ror64 tmp 53; let b12 := sub64 b12 b3
    let tmp := b7 ^^^ b10; let b7 := ror64 tmp 4; let b10 := sub64 b10 b7
    let tmp := b15 ^^^ b4; let b15 := ror64 tmp 51; let b4 := sub64 b4 b15
    let tmp := b11 ^^^ b6; let b11 := ror64 tmp 56; let b6 := sub64 b6 b11
    let tmp := b13 ^^^ b2; let b13 := ror64 tmp 34; let b2 := sub64 b2 b13
    let tmp := b9 ^^^ b0; let b9 := ror64 tmp 16; let b0 := sub64 b0 b9
    ⟨b0, b1, b2, b3, b4, b5, b6, b7, b8, b9, b10, b11, b12, b13, b14, b15⟩

/-- Lines 2350-2388 of `threefish_decrypt_1024`: the eight inverse MIX steps of round 76 fused with the subtraction of subkey 19. -/
def dec_round_76 (k : Nat → Nat) (t0 : Nat) : State → State
  | ⟨b0, b1, b2, b3, b4, b5, b6, b7, b8, b9, b10, b11, b12, b13, b14, b15⟩ =>
    let tmp := b15 ^^^ b14; let b15 := ror64 tmp 30; let b14 := sub64 b14 (add64 (add64 b15 (k 16)) (t2 t0)); let b15 := sub64 b15 (add64 (k 0) 19)
    let tmp := b13 ^^^ b12; let b13 := ror64 tmp 44; let b12 := sub64 b12 (add64 b13 (k 14)); let b13 := sub64 b13 (add64 (k 15) t1)
    let tmp := b11 ^^^ b10; let b11 := ror64 tmp 47; let b10 := sub64 b10 (add64 b11 (k 12)); let b11 := sub64 b11 (k 13)
    let tmp := b9 ^^^ b8; let b9 := ror64 tmp 12; let b8 := sub64 b8 (add64 b9 (k 10)); let b9 := sub64 b9 (k 11)
    let tmp := b7 ^^^ b6; let b7 := ror64 tmp 31; let b6 := sub64 b6 (add64 b7 (k 8)); let b7 := sub64 b7 (k 9)
    let tmp := b5 ^^^ b4; let b5 := ror64 tmp 37; let b4 := sub64 b4 (add64 b5 (k 6)); let b5 := sub64 b5 (k 7)
    let tmp := b3 ^^^ b2; let b3 := ror64 tmp 9; let b2 := sub64 b2 (add64 b3 (k 4)); let b3 := sub64 b3 (k 5)
    let tmp := b1 ^^^ b0; let b1 := ror64 tmp 41; let b0 := sub64 b0 (add64 b1 (k 2)); let b1 := sub64 b1 (k 3)
    ⟨b0, b1, b2, b3, b4, b5, b6, b7, b8, b9, b10, b11, b12, b13, b14, b15⟩

/-- Lines 2390-2420 of `threefish_decrypt_1024`: the eight inverse MIX steps of round 75. -/
def dec_round_75 (k : Nat → Nat) (t0 : Nat) : State → State
  | ⟨b0, b1, b2, b3, b4, b5, b6, b7, b8, b9, b10, b11, b12, b13, b14, b15⟩ =>
    let tmp := b7 ^^^ b12; let b7 := ror64 tmp 25; let b12 := sub64 b12 b7
    let tmp := b3 ^^^ b10; let b3 := ror64 tmp 16; let b10 := sub64 b10 b3
    let tmp := b5 ^^^ b8; let b5 := ror64 tmp 28; let b8 := sub64 b8 b5
    let tmp := b1 ^^^ b14; let b1 := ror64 tmp 47; let b14 := sub64 b14 b1
    let tmp := b9 ^^^ b4; let b9 := ror64 tmp 41; let b4 := sub64 b4 b9
    let tmp := b13 ^^^ b6; let b13 := ror64 tmp 48; let b6 := sub64 b6 b13
    let tmp := b11 ^^^ b2; let b11 := ror64 tmp 20; let b2 := sub64 b2 b11
    let tmp := b15 ^^^ b0; let b15 := ror64 tmp 5; let b0 := sub64 b0 b15
    ⟨b0, b1, b2, b3, b4, b5, b6, b7, b8, b9, b10, b11, b12, b13, b14, b15⟩

/-- Lines 2422-2452 of `threefish_decrypt_1024`: the eight inverse MIX steps of round 74. -/
def dec_round_74 (k : Nat → Nat) (t0 : Nat) : State → State
  | ⟨b0, b1, b2, b3, b4, b5, b6, b7, b8, b9, b10, b11, b12, b13, b14, b15⟩ =>
    let tmp := b9 ^^^ b10; let b9 := ror64 tmp 17; let b10 := sub64 b10 b9
    let tmp := b11 ^^^ b8; let b11 := ror64 tmp 59; let b8 := sub64 b8 b11
    let tmp := b13 ^^^ b14; let b13 := ror64 tmp 41; let b14 := sub64 b14 b13
    let tmp := b15 ^^^ b12; let b15 := ror64 tmp 34; let b12 := sub64 b12 b15
    let tmp := b1 ^^^ b6; let b1 := ror64 tmp 13; let b6 := sub64 b6 b1
    let tmp := b3 ^^^ b4; let b3 := ror64 tmp 51; let b4 := sub64 b4 b3
    let tmp := b5 ^^^ b2; let b5 := ror64 tmp 4; let b2 := sub64 b2 b5
    let tmp := b7 ^^^ b0; let b7 := ror64 tmp 33; let b0 := sub64 b0 b7
    ⟨b0, b1, b2, b3, b4, b5, b6, b7, b8, b9, b10, b11, b12, b13, b14, b15⟩

/-- Lines 2454-2484 of `threefish_decrypt_1024`: the eight inverse MIX steps of round 73. -/
def dec_round_73 (k : Nat → Nat) (t0 : Nat) : State → State
  | ⟨b0, b1, b2, b3, b4, b5, b6, b7, b8, b9, b10, b11, b12, b13, b14, b15⟩ =>
    let tmp := b1 ^^^ b8; let b1 := ror64 tmp 52; let b8 := sub64 b8 b1
    let tmp := b5 ^^^ b14; let b5 := ror64 tmp 23; let b14 := sub64 b14 b5
    let tmp := b3 ^^^ b12; let b3 := ror64 tmp 18; let b12 := sub64 b12 b3
    let tmp := b7 ^^^ b10; let b7 := ror64 tmp 49; let b10 := sub64 b10 b7
    let tmp := b15 ^^^ b4; let b15 := ror64 tmp 55; let b4 := sub64 b4 b15
    let tmp := b11 ^^^ b6; let b11 := ror64 tmp 10; let b6 := sub64 b6 b11
    let tmp := b13 ^^^ b2; let b13 := ror64 tmp 19; let b2 := sub64 b2 b13
    let tmp := b9 ^^^ b0; let b9 := ror64 tmp 38; let b0 := sub64 b0 b9
    ⟨b0, b1, b2, b3, b4, b5, b6, b7, b8, b9, b10, b11, b12, b13, b14, b15⟩

/-- Lines 2486-2524 of `threefish_decrypt_1024`: the eight inverse MIX steps of round 72 fused with the subtraction of subkey 18. -/
def dec_round_72 (k : Nat → Nat) (t0 : Nat) : State → State
  | ⟨b0, b1, b2, b3, b4, b5, b6, b7, b8, b9, b10, b11, b12, b13, b14, b15⟩ =>
    let tmp := b15 ^^^ b14; let b15 := ror64 tmp 37; let b14 := sub64 b14 (add64 (add64 b15 (k 15)) t1); let b15 := sub64 b15 (add64 (k 16) 18)
    let tmp := b13 ^^^ b12; let b13 := ror64 tmp 22; let b12 := sub64 b12 (add64 b13 (k 13)); let b13 := sub64 b13 (add64 (k 14) t0)
    let tmp := b11 ^^^ b10; let b11 := ror64 tmp 17; let b10 := sub64 b10 (add64 b11 (k 11)); let b11 := sub64 b11 (k 12)
    let tmp := b9 ^^^ b8; let b9 := ror64 tmp 8; let b8 := sub64 b8 (add64 b9 (k 9)); let b9 := sub64 b9 (k 10)
    let tmp := b7 ^^^ b6; let b7 := ror64 tmp 47; let b6 := sub64 b6 (add64 b7 (k 7)); let b7 := sub64 b7 (k 8)
    let tmp := b5 ^^^ b4; let b5 := ror64 tmp 8; let b4 := sub64 b4 (add64 b5 (k 5)); let b5 := sub64 b5 (k 6)
    let tmp := b3 ^^^ b2; let b3 := ror64 tmp 13; let b2 := sub64 b2 (add64 b3 (k 3)); let b3 := sub64 b3 (k 4)
    let tmp := b1 ^^^ b0; let b1 := ror64 tmp 24; let b0 := sub64 b0 (add64 b1 (k 1)); let b1 := sub64 b1 (k 2)
    ⟨b0, b1, b2, b3, b4, b5, b6, b7, b8, b9, b10, b11, b12, b13, b14, b15⟩

/-- Lines 2526-2556 of `threefish_decrypt_1024`: the eight inverse MIX steps of round 71. -/
def dec_round_71 (k : Nat → Nat) (t0 : Nat) : State → State
  | ⟨b0, b1, b2, b3, b4, b5, b6, b7, b8, b9, b10, b11, b12, b13, b14, b15⟩ =>
    let tmp := b7 ^^^ b12; let b7 := ror64 tmp 20; let b12 := sub64 b12 b7
    let tmp := b3 ^^^ b10; let b3 := ror64 tmp 37; let b10 := sub64 b10 b3
    let tmp := b5 ^^^ b8; let b5 := ror64 tmp 31; let b8 := sub64 b8 b5
    let tmp := b1 ^^^ b14; let b1 := ror64 tmp 23; let b14 := sub64 b14 b1
    let tmp := b9 ^^^ b4; let b9 := ror64 tmp 52; let b4 := sub64 b4 b9
    let tmp := b13 ^^^ b6; let b13 := ror64 tmp 35; let b6 := sub64 b6 b13
    let tmp := b11 ^^^ b2; let b11 := ror64 tmp 48; let b2 := sub64 b2 b11
    let tmp := b15 ^^^ b0; let b15 := ror64 tmp 9; let b0 := sub64 b0 b15
    ⟨b0, b1, b2, b3, b4, b5, b6, b7, b8, b9, b10, b11, b12, b13, b14, b15⟩

/-- Lines 2558-2588 of `threefish_decrypt_1024`: the eight inverse MIX steps of round 70. -/
def dec_round_70 (k : Nat → Nat) (t0 : Nat) : State → State
  | ⟨b0, b1, b2, b3, b4, b5, b6, b7, b8, b9, b10, b11, b12, b13, b14, b15⟩ =>
    let tmp := b9 ^^^ b10; let b9 := ror64 tmp 25; let b10 := sub64 b10 b9
    let tmp := b11 ^^^ b8; let b11 := ror64 tmp 44; let b8 := sub64 b8 b11
    let tmp := b13 ^^^ b14; let b13 := ror64 tmp 42; let b14 := sub64 b14 b13
    let tmp := b15 ^^^ b12; let b15 := ror64 tmp 19; let b12 := sub64 b12 b15
    let tmp := b1 ^^^ b6; let b1 := ror64 tmp 46; let b6 := sub64 b6 b1
    let tmp := b3 ^^^ b4; let b3 := ror64 tmp 47; let b4 := sub64 b4 b3
    let tmp := b5 ^^^ b2; let b5 := ror64 tmp 44; let b2 := sub64 b2 b5
    let tmp := b7 ^^^ b0; let b7 := ror64 tmp 31; let b0 := sub64 b0 b7
    ⟨b0, b1, b2, b3, b4, b5, b6, b7, b8, b9, b10, b11, b12, b13, b14, b15⟩

/-- Lines 2590-2620 of `threefish_decrypt_1024`: the eight inverse MIX steps of round 69. -/
def dec_round_69 (k : Nat → Nat) (t0 : Nat) : State → State
  | ⟨b0, b1, b2, b3, b4, b5, b6, b7, b8, b9, b10, b11, b12, b13, b14, b15⟩ =>
    let tmp := b1 ^^^ b8; let b1 := ror64 tmp 41; let b8 := sub64 b8 b1
    let tmp := b5 ^^^ b14; let b5 := ror64 tmp 42; let b14 := sub64 b14 b5
    let tmp := b3 ^^^ b12; let b3 := ror64 tmp 53; let b12 := sub64 b12 b3
    let tmp := b7 ^^^ b10; let b7 := ror64 tmp 4; let b10 := sub64 b10 b7
    let tmp := b15 ^^^ b4; let b15 := ror64 tmp 51; let b4 := sub64 b4 b15
    let tmp := b11 ^^^ b6; let b11 := ror64 tmp 56; let b6 := sub64 b6 b11
    let tmp := b13 ^^^ b2; let b13 := ror64 tmp 34; let b2 := sub64 b2 b13
    let tmp := b9 ^^^ b0; let b9 := ror64 tmp 16; let b0 := sub64 b0 b9
    ⟨b0, b1, b2, b3, b4, b5, b6, b7, b8, b9, b10, b11, b12, b13, b14, b15⟩

/-- Lines 2622-2660 of `threefish_decrypt_1024`: the eight inverse MIX steps of round 68 fused with the subtraction of subkey 17. -/
def dec_round_68 (k : Nat → Nat) (t0 : Nat) : State → State
  | ⟨b0, b1, b2, b3, b4, b5, b6, b7, b8, b9, b10, b11, b12, b13, b14, b15⟩ =>
    let tmp := b15 ^^^ b14; let b15 := ror64 tmp 30; let b14 := sub64 b14 (add64 (add64 b15 (k 14)) t0); let b15 := sub64 b15 (add64 (k 15) 17)
    let tmp := b13 ^^^ b12; let b13 := ror64 tmp 44; let b12 := sub64 b12 (add64 b13 (k 12)); let b13 := sub64 b13 (add64 (k 13) (t2 t0))
    let tmp := b11 ^^^ b10; let b11 := ror64 tmp 47; let b10 := sub64 b10 (add64 b11 (k 10)); let b11 := sub64 b11 (k 11)
    let tmp := b9 ^^^ b8; let b9 := ror64 tmp 12; let b8 := sub64 b8 (add64 b9 (k 8)); let b9 := sub64 b9 (k 9)
    let tmp := b7 ^^^ b6; let b7 := ror64 tmp 31; let b6 := sub64 b6 (add64 b7 (k 6)); let b7 := sub64 b7 (k 7)
    let tmp := b5 ^^^ b4; let b5 := ror64 tmp 37; let b4 := sub64 b4 (add64 b5 (k 4)); let b5 := sub64 b5 (k 5)
    let tmp := b3 ^^^ b2; let b3 := ror64 tmp 9; let b2 := sub64 b2 (add64 b3 (k 2)); let b3 := sub64 b3 (k 3)
    let tmp := b1 ^^^ b0; let b1 := ror64 tmp 41; let b0 := sub64 b0 (add64 b1 (k 0)); let b1 := sub64 b1 (k 1)
    ⟨b0, b1, b2, b3, b4, b5, b6, b7, b8, b9, b10, b11, b12, b13, b14, b15⟩

/-- Lines 2662-2692 of `threefish_decrypt_1024`: the eight inverse MIX steps of round 67. -/
def dec_round_67 (k : Nat → Nat) (t0 : Nat) : State → State
  | ⟨b0, b1, b2, b3, b4, b5, b6, b7, b8, b9, b10, b11, b12, b13, b14, b15⟩ =>
    let tmp := b7 ^^^ b12; let b7 := ror64 tmp 25; let b12 := sub64 b12 b7
    let tmp := b3 ^^^ b10; let b3 := ror64 tmp 16; let b10 := sub64 b10 b3
    let tmp := b5 ^^^ b8; let b5 := ror64 tmp 28; let b8 := sub64 b8 b5
    let tmp := b1 ^^^ b14; let b1 := ror64 tmp 47; let b14 := sub64 b14 b1
    let tmp := b9 ^^^ b4; let b9 := ror64 tmp 41; let b4 := sub64 b4 b9
    let tmp := b13 ^^^ b6; let b13 := ror64 tmp 48; let b6 := sub64 b6 b13
    let tmp := b11 ^^^ b2; let b11 := ror64 tmp 20; let b2 := sub64 b2 b11
    let tmp := b15 ^^^ b0; let b15 := ror64 tmp 5; let b0 := sub64 b0 b15
    ⟨b0, b1, b2, b3, b4, b5, b6, b7, b8, b9, b10, b11, b12, b13, b14, b15⟩

/-- Lines 2694-2724 of `threefish_decrypt_1024`: the eight inverse MIX steps of round 66. -/
def dec_round_66 (k : Nat → Nat) (t0 : Nat) : State → State
  | ⟨b0, b1, b2, b3, b4, b5, b6, b7, b8, b9, b10, b11, b12, b13, b14, b15⟩ =>
    let tmp := b9 ^^^ b10; let b9 := ror64 tmp 17; let b10 := sub64 b10 b9
    let tmp := b11 ^^^ b8; let b11 := ror64 tmp 59; let b8 := sub64 b8 b11
    let tmp := b13 ^^^ b14; let b13 := ror64 tmp 41; let b14 := sub64 b14 b13
    let tmp := b15 ^^^ b12; let b15 := ror64 tmp 34; let b12 := sub64 b12 b15
    let tmp := b1 ^^^ b6; let b1 := ror64 tmp 13; let b6 := sub64 b6 b1
    let tmp := b3 ^^^ b4; let b3 := ror64 tmp 51; let b4 := sub64 b4 b3
    let tmp := b5 ^^^ b2; let b5 := ror64 tmp 4; let b2 := sub64 b2 b5
    let tmp := b7 ^^^ b0; let b7 := ror64 tmp 33; let b0 := sub64 b0 b7
    ⟨b0, b1, b2, b3, b4, b5, b6, b7, b8, b9, b10, b11, b12, b13, b14, b15⟩

/-- Lines 2726-2756 of `threefish_decrypt_1024`: the eight inverse MIX steps of round 65. -/
def dec_round_65 (k : Nat → Nat) (t0 : Nat) : State → State
  | ⟨b0, b1, b2, b3, b4, b5, b6, b7, b8, b9, b10, b11, b12, b13, b14, b15⟩ =>
    let tmp := b1 ^^^ b8; let b1 := ror64 tmp 52; let b8 := sub64 b8 b1
    let tmp := b5 ^^^ b14; let b5 := ror64 tmp 23; let b14 := sub64 b14 b5
    let tmp := b3 ^^^ b12; let b3 := ror64 tmp 18; let b12 := sub64 b12 b3
    let tmp := b7 ^^^ b10; let b7 := ror64 tmp 49; let b10 := sub64 b10 b7
    let tmp := b15 ^^^ b4; let b15 := ror64 tmp 55; let b4 := sub64 b4 b15
    let tmp := b11 ^^^ b6; let b11 := ror64 tmp 10; let b6 := sub64 b6 b11
    let tmp := b13 ^^^ b2; let b13 := ror64 tmp 19; let b2 := sub64 b2 b13
    let tmp := b9 ^^^ b0; let b9 := ror64 tmp 38; let b0 := sub64 b0 b9
    ⟨b0, b1, b2, b3, b4, b5, b6, b7, b8, b9, b10, b11, b12, b13, b14, b15⟩

/-- Lines 2758-2796 of `threefish_decrypt_1024`: the eight inverse MIX steps of round 64 fused with the subtraction of subkey 16. -/
def dec_round_64 (k : Nat → Nat) (t0 : Nat) : State → State
  | ⟨b0, b1, b2, b3, b4, b5, b6, b7, b8, b9, b10, b11, b12, b13, b14, b15⟩ =>
    let tmp := b15 ^^^ b14; let b15 := ror64 tmp 37; let b14 := sub64 b14 (add64 (add64 b15 (k 13)) (t2 t0)); let b15 := sub64 b15 (add64 (k 14) 16)
    let tmp := b13 ^^^ b12; let b13 := ror64 tmp 22; let b12 := sub64 b12 (add64 b13 (k 11)); let b13 := sub64 b13 (add64 (k 12) t1)
    let tmp := b11 ^^^ b10; let b11 := ror64 tmp 17; let b10 := sub64 b10 (add64 b11 (k 9)); let b11 := sub64 b11 (k 10)
    let tmp := b9 ^^^ b8; let b9 := ror64 tmp 8; let b8 := sub64 b8 (add64 b9 (k 7)); let b9 := sub64 b9 (k 8)
    let tmp := b7 ^^^ b6; let b7 := ror64 tmp 47; let b6 := sub64 b6 (add64 b7 (k 5)); let b7 := sub64 b7 (k 6)
    let tmp := b5 ^^^ b4; let b5 := ror64 tmp 8; let b4 := sub64 b4 (add64 b5 (k 3)); let b5 := sub64 b5 (k 4)
    let tmp := b3 ^^^ b2; let b3 := ror64 tmp 13; let b2 := sub64 b2 (add64 b3 (k 1)); let b3 := sub64 b3 (k 2)
    let tmp := b1 ^^^ b0; let b1 := ror64 tmp 24; let b0 := sub64 b0 (add64 b1 (k 16)); let b1 := sub64 b1 (k 0)
    ⟨b0, b1, b2, b3, b4, b5, b6, b7, b8, b9, b10, b11, b12, b13, b14, b15⟩

/-- Lines 2798-2828 of `threefish_decrypt_1024`: the eight inverse MIX steps of round 63. -/
def dec_round_63 (k : Nat → Nat) (t0 : Nat) : State → State
  | ⟨b0, b1, b2, b3, b4, b5, b6, b7, b8, b9, b10, b11, b12, b13, b14, b15⟩ =>
    let tmp := b7 ^^^ b12; let b7 := ror64 tmp 20; let b12 := sub64 b12 b7
    let tmp := b3 ^^^ b10; let b3 := ror64 tmp 37; let b10 := sub64 b10 b3
    let tmp := b5 ^^^ b8; let b5 := ror64 tmp 31; let b8 := sub64 b8 b5
    let tmp := b1 ^^^ b14; let b1 := ror64 tmp 23; let b14 := sub64 b14 b1
    let tmp := b9 ^^^ b4; let b9 := ror64 tmp 52; let b4 := sub64 b4 b9
    let tmp := b13 ^^^ b6; let b13 := ror64 tmp 35; let b6 := sub64 b6 b13
    let tmp := b11 ^^^ b2; let b11 := ror64 tmp 48; let b2 := sub64 b2 b11
    let tmp := b15 ^^^ b0; let b15 := ror64 tmp 9; let b0 := sub64 b0 b15
    ⟨b0, b1, b2, b3, b4, b5, b6, b7, b8, b9, b10, b11, b12, b13, b14, b15⟩

/-- Lines 2830-2860 of `threefish_decrypt_1024`: the eight inverse MIX steps of round 62. -/
def dec_round_62 (k : Nat → Nat) (t0 : Nat) : State → State
  | ⟨b0, b1, b2, b3, b4, b5, b6, b7, b8, b9, b10, b11, b12, b13, b14, b15⟩ =>
    let tmp := b9 ^^^ b10; let b9 := ror64 tmp 25; let b10 := sub64 b10 b9
    let tmp := b11 ^^^ b8; let b11 := ror64 tmp 44; let b8 := sub64 b8 b11
    let tmp := b13 ^^^ b14; let b13 := ror64 tmp 42; let b14 := sub64 b14 b13
    let tmp := b15 ^^^ b12; let b15 := ror64 tmp 19; let b12 := sub64 b12 b15
    let tmp := b1 ^^^ b6; let b1 := ror64 tmp 46; let b6 := sub64 b6 b1
    let tmp := b3 ^^^ b4; let b3 := ror64 tmp 47; let b4 := sub64 b4 b3
    let tmp := b5 ^^^ b2; let b5 := ror64 tmp 44; let b2 := sub64 b2 b5
    let tmp := b7 ^^^ b0; let b7 := ror64 tmp 31; let b0 := sub64 b0 b7
    ⟨b0, b1, b2, b3, b4, b5, b6, b7, b8, b9, b10, b11, b12, b13, b14, b15⟩

/-- Lines 2862-2892 of `threefish_decrypt_1024`: the eight inverse MIX steps of round 61. -/
def dec_round_61 (k : Nat → Nat) (t0 : Nat) : State → State
  | ⟨b0, b1, b2, b3, b4, b5, b6, b7, b8, b9, b10, b11, b12, b13, b14, b15⟩ =>
    let tmp := b1 ^^^ b8; let b1 := ror64 tmp 41; let b8 := sub64 b8 b1
    let tmp := b5 ^^^ b14; let b5 := ror64 tmp 42; let b14 := sub64 b14 b5
    let tmp := b3 ^^^ b12; let b3 := ror64 tmp 53; let b12 := sub64 b12 b3
    let tmp := b7 ^^^ b10; let b7 := ror64 tmp 4; let b10 := sub64 b10 b7
    let tmp := b15 ^^^ b4; let b15 := ror64 tmp 51; let b4 := sub64 b4 b15
    let tmp := b11 ^^^ b6; let b11 := ror64 tmp 56; let b6 := sub64 b6 b11
    let tmp := b13 ^^^ b2; let b13 := ror64 tmp 34; let b2 := sub64 b2 b13
    let tmp := b9 ^^^ b0; let b9 := ror64 tmp 16; let b0 := sub64 b0 b9
    ⟨b0, b1, b2, b3, b4, b5, b6, b7, b8, b9, b10, b11, b12, b13, b14, b15⟩

/-- Lines 2894-2932 of `threefish_decrypt_1024`: the eight inverse MIX steps of round 60 fused with the subtraction of subkey 15. -/
def dec_round_60 (k : Nat → Nat) (t0 : Nat) : State → State
  | ⟨b0, b1, b2, b3, b4, b5, b6, b7, b8, b9, b10, b11, b12, b13, b14, b15⟩ =>
    let tmp := b15 ^^^ b14; let b15 := ror64 tmp 30; let b14 := sub64 b14 (add64 (add64 b15 (k 12)) t1); let b15 := sub64 b15 (add64 (k 13) 15)
    let tmp := b13 ^^^ b12; let b13 := ror64 tmp 44; let b12 := sub64 b12 (add64 b13 (k 10)); let b13 := sub64 b13 (add64 (k 11) t0)
    let tmp := b11 ^^^ b10; let b11 := ror64 tmp 47; let b10 := sub64 b10 (add64 b11 (k 8)); let b11 := sub64 b11 (k 9)
    let tmp := b9 ^^^ b8; let b9 := ror64 tmp 12; let b8 := sub64 b8 (add64 b9 (k 6)); let b9 := sub64 b9 (k 7)
    let tmp := b7 ^^^ b6; let b7 := ror64 tmp 31; let b6 := sub64 b6 (add64 b7 (k 4)); let b7 := sub64 b7 (k 5)
    let tmp := b5 ^^^ b4; let b5 := ror64 tmp 37; let b4 := sub64 b4 (add64 b5 (k 2)); let b5 := sub64 b5 (k 3)
    let tmp := b3 ^^^ b2; let b3 := ror64 tmp 9; let b2 := sub64 b2 (add64 b3 (k 0)); let b3 := sub64 b3 (k 1)
    let tmp := b1 ^^^ b0; let b1 := ror64 tmp 41; let b0 := sub64 b0 (add64 b1 (k 15)); let b1 := sub64 b1 (k 16)
    ⟨b0, b1, b2, b3, b4, b5, b6, b7, b8, b9, b10, b11, b12, b13, b14, b15⟩

/-- Lines 2934-2964 of `threefish_decrypt_1024`: the eight inverse MIX steps of round 59. -/
def dec_round_59 (k : Nat → Nat) (t0 : Nat) : State → State
  | ⟨b0, b1, b2, b3, b4, b5, b6, b7, b8, b9, b10, b11, b12, b13, b14, b15⟩ =>
    let tmp := b7 ^^^ b12; let b7 := ror64 tmp 25; let b12 := sub64 b12 b7
    let tmp := b3 ^^^ b10; let b3 := ror64 tmp 16; let b10 := sub64 b10 b3
    let tmp := b5 ^^^ b8; let b5 := ror64 tmp 28; let b8 := sub64 b8 b5
    let tmp := b1 ^^^ b14; let b1 := ror64 tmp 47; let b14 := sub64 b14 b1
    let tmp := b9 ^^^ b4; let b9 := ror64 tmp 41; let b4 := sub64 b4 b9
    let tmp := b13 ^^^ b6; let b13 := ror64 tmp 48; let b6 := sub64 b6 b13
    let tmp := b11 ^^^ b2; let b11 := ror64 tmp 20; let b2 := sub64 b2 b11
    let tmp := b15 ^^^ b0; let b15 := ror64 tmp 5; let b0 := sub64 b0 b15
    ⟨b0, b1, b2, b3, b4, b5, b6, b7, b8, b9, b10, b11, b12, b13, b14, b15⟩

/-- Lines 2966-2996 of `threefish_decrypt_1024`: the eight inverse MIX steps of round 58. -/
def dec_round_58 (k : Nat → Nat) (t0 : Nat) : State → State
  | ⟨b0, b1, b2, b3, b4, b5, b6, b7, b8, b9, b10, b11, b12, b13, b14, b15⟩ =>
    let tmp := b9 ^^^ b10; let b9 := ror64 tmp 17; let b10 := sub64 b10 b9
    let tmp := b11 ^^^ b8; let b11 := ror64 tmp 59; let b8 := sub64 b8 b11
    let tmp := b13 ^^^ b14; let b13 := ror64 tmp 41; let b14 := sub64 b14 b13
    let tmp := b15 ^^^ b12; let b15 := ror64 tmp 34; let b12 := sub64 b12 b15
    let tmp := b1 ^^^ b6; let b1 := ror64 tmp 13; let b6 := sub64 b6 b1
    let tmp := b3 ^^^ b4; let b3 := ror64 tmp 51; let b4 := sub64 b4 b3
    let tmp := b5 ^^^ b2; let b5 := ror64 tmp 4; let b2 := sub64 b2 b5
    let tmp := b7 ^^^ b0; let b7 := ror64 tmp 33; let b0 := sub64 b0 b7
    ⟨b0, b1, b2, b3, b4, b5, b6, b7, b8, b9, b10, b11, b12, b13, b14, b15⟩

/-- Lines 2998-3028 of `threefish_decrypt_1024`: the eight inverse MIX steps of round 57. -/
def dec_round_57 (k : Nat → Nat) (t0 : Nat) : State → State
  | ⟨b0, b1, b2, b3, b4, b5, b6, b7, b8, b9, b10, b11, b12, b13, b14, b15⟩ =>
    let tmp := b1 ^^^ b8; let b1 := ror64 tmp 52; let b8 := sub64 b8 b1
    let tmp := b5 ^^^ b14; let b5 := ror64 tmp 23; let b14 := sub64 b14 b5
    let tmp := b3 ^^^ b12; let b3 := ror64 tmp 18; let b12 := sub64 b12 b3
    let tmp := b7 ^^^ b10; let b7 := ror64 tmp 49; let b10 := sub64 b10 b7
    let tmp := b15 ^^^ b4; let b15 := ror64 tmp 55; let b4 := sub64 b4 b15
    let tmp := b11 ^^^ b6; let b11 := ror64 tmp 10; let b6 := sub64 b6 b11
    let tmp := b13 ^^^ b2; let b13 := ror64 tmp 19; let b2 := sub64 b2 b13
    let tmp := b9 ^^^ b0; let b9 := ror64 tmp 38; let b0 := sub64 b0 b9
    ⟨b0, b1, b2, b3, b4, b5, b6, b7, b8, b9, b10, b11, b12, b13, b14, b15⟩

/-- Lines 3030-3068 of `threefish_decrypt_1024`: the eight inverse MIX steps of round 56 fused with the subtraction of subkey 14. -/
def dec_round_56 (k : Nat → Nat) (t0 : Nat) : State → State
  | ⟨b0, b1, b2, b3, b4, b5, b6, b7, b8, b9, b10, b11, b12, b13, b14, b15⟩ =>
    let tmp := b15 ^^^ b14; let b15 := ror64 tmp 37; let b14 := sub64 b14 (add64 (add64 b15 (k 11)) t0); let b15 := sub64 b15 (add64 (k 12) 14)
    let tmp := b13 ^^^ b12; let b13 := ror64 tmp 22; let b12 := sub64 b12 (add64 b13 (k 9)); let b13 := sub64 b13 (add64 (k 10) (t2 t0))
    let tmp := b11 ^^^ b10; let b11 := ror64 tmp 17; let b10 := sub64 b10 (add64 b11 (k 7)); let b11 := sub64 b11 (k 8)
    let tmp := b9 ^^^ b8; let b9 := ror64 tmp 8; let b8 := sub64 b8 (add64 b9 (k 5)); let b9 := sub64 b9 (k 6)
    let tmp := b7 ^^^ b6; let b7 := ror64 tmp 47; let b6 := sub64 b6 (add64 b7 (k 3)); let b7 := sub64 b7 (k 4)
    let tmp := b5 ^^^ b4; let b5 := ror64 tmp 8; let b4 := sub64 b4 (add64 b5 (k 1)); let b5 := sub64 b5 (k 2)
    let tmp := b3 ^^^ b2; let b3 := ror64 tmp 13; let b2 := sub64 b2 (add64 b3 (k 16)); let b3 := sub64 b3 (k 0)
    let tmp := b1 ^^^ b0; let b1 := ror64 tmp 24; let b0 := sub64 b0 (add64 b1 (k 14)); let b1 := sub64 b1 (k 15)
    ⟨b0, b1, b2, b3, b4, b5, b6, b7, b8, b9, b10, b11, b12, b13, b14, b15⟩

/-- Lines 3070-3100 of `threefish_decrypt_1024`: the eight inverse MIX steps of round 55. -/
def dec_round_55 (k : Nat → Nat) (t0 : Nat) : State → State
  | ⟨b0, b1, b2, b3, b4, b5, b6, b7, b8, b9, b10, b11, b12, b13, b14, b15⟩ =>
    let tmp := b7 ^^^ b12; let b7 := ror64 tmp 20; let b12 := sub64 b12 b7
    let tmp := b3 ^^^ b10; let b3 := ror64 tmp 37; let b10 := sub64 b10 b3
    let tmp := b5 ^^^ b8; let b5 := ror64 tmp 31; let b8 := sub64 b8 b5
    let tmp := b1 ^^^ b14; let b1 := ror64 tmp 23; let b14 := sub64 b14 b1
    let tmp := b9 ^^^ b4; let b9 := ror64 tmp 52; let b4 := sub64 b4 b9
    let tmp := b13 ^^^ b6; let b13 := ror64 tmp 35; let b6 := sub64 b6 b13
    let tmp := b11 ^^^ b2; let b11 := ror64 tmp 48; let b2 := sub64 b2 b11
    let tmp := b15 ^^^ b0; let b15 := ror64 tmp 9; let b0 := sub64 b0 b15
    ⟨b0, b1, b2, b3, b4, b5, b6, b7, b8, b9, b10, b11, b12, b13, b14, b15⟩

/-- Lines 3102-3132 of `threefish_decrypt_1024`: the eight inverse MIX steps of round 54. -/
def dec_round_54 (k : Nat → Nat) (t0 : Nat) : State → State
  | ⟨b0, b1, b2, b3, b4, b5, b6, b7, b8, b9, b10, b11, b12, b13, b14, b15⟩ =>
    let tmp := b9 ^^^ b10; let b9 := ror64 tmp 25; let b10 := sub64 b10 b9
    let tmp := b11 ^^^ b8; let b11 := ror64 tmp 44; let b8 := sub64 b8 b11
    let tmp := b13 ^^^ b14; let b13 := ror64 tmp 42; let b14 := sub64 b14 b13
    let tmp := b15 ^^^ b12; let b15 := ror64 tmp 19; let b12 := sub64 b12 b15
    let tmp := b1 ^^^ b6; let b1 := ror64 tmp 46; let b6 := sub64 b6 b1
    let tmp := b3 ^^^ b4; let b3 := ror64 tmp 47; let b4 := sub64 b4 b3
    let tmp := b5 ^^^ b2; let b5 := ror64 tmp 44; let b2 := sub64 b2 b5
    let tmp := b7 ^^^ b0; let b7 := ror64 tmp 31; let b0 := sub64 b0 b7
    ⟨b0, b1, b2, b3, b4, b5, b6, b7, b8, b9, b10, b11, b12, b13, b14, b15⟩

/-- Lines 3134-3164 of `threefish_decrypt_1024`: the eight inverse MIX steps of round 53. -/
def dec_round_53 (k : Nat → Nat) (t0 : Nat) : State → State
  | ⟨b0, b1, b2, b3, b4, b5, b6, b7, b8, b9, b10, b11, b12, b13, b14, b15⟩ =>
    let tmp := b1 ^^^ b8; let b1 := ror64 tmp 41; let b8 := sub64 b8 b1
    let tmp := b5 ^^^ b14; let b5 := ror64 tmp 42; let b14 := sub64 b14 b5
    let tmp := b3 ^^^ b12; let b3 := ror64 tmp 53; let b12 := sub64 b12 b3
    let tmp := b7 ^^^ b10; let b7 := ror64 tmp 4; let b10 := sub64 b10 b7
    let tmp := b15 ^^^ b4; let b15 := ror64 tmp 51; let b4 := sub64 b4 b15
    let tmp := b11 ^^^ b6; let b11 := ror64 tmp 56; let b6 := sub64 b6 b11
    let tmp := b13 ^^^ b2; let b13 := ror64 tmp 34; let b2 := sub64 b2 b13
    let tmp := b9 ^^^ b0; let b9 := ror64 tmp 16; let b0 := sub64 b0 b9
    ⟨b0, b1, b2, b3, b4, b5, b6, b7, b8, b9, b10, b11, b12, b13, b14, b15⟩

/-- Lines 3166-3204 of `threefish_decrypt_1024`: the eight inverse MIX steps of round 52 fused with the subtraction of subkey 13. -/
def dec_round_52 (k : Nat → Nat) (t0 : Nat) : State → State
  | ⟨b0, b1, b2, b3, b4, b5, b6, b7, b8, b9, b10, b11, b12, b13, b14, b15⟩ =>
    let tmp := b15 ^^^ b14; let b15 := ror64 tmp 30; let b14 := sub64 b14 (add64 (add64 b15 (k 10)) (t2 t0)); let b15 := sub64 b15 (add64 (k 11) 13)
    let tmp := b13 ^^^ b12; let b13 := ror64 tmp 44; let b12 := sub64 b12 (add64 b13 (k 8)); let b13 := sub64 b13 (add64 (k 9) t1)
    let tmp := b11 ^^^ b10; let b11 := ror64 tmp 47; let b10 := sub64 b10 (add64 b11 (k 6)); let b11 := sub64 b11 (k 7)
    let tmp := b9 ^^^ b8; let b9 := ror64 tmp 12; let b8 := sub64 b8 (add64 b9 (k 4)); let b9 := sub64 b9 (k 5)
    let tmp := b7 ^^^ b6; let b7 := ror64 tmp 31; let b6 := sub64 b6 (add64 b7 (k 2)); let b7 := sub64 b7 (k 3)
    let tmp := b5 ^^^ b4; let b5 := ror64 tmp 37; let b4 := sub64 b4 (add64 b5 (k 0)); let b5 := sub64 b5 (k 1)
    let tmp := b3 ^^^ b2; let b3 := ror64 tmp 9; let b2 := sub64 b2 (add64 b3 (k 15)); let b3 := sub64 b3 (k 16)
    let tmp := b1 ^^^ b0; let b1 := ror64 tmp 41; let b0 := sub64 b0 (add64 b1 (k 13)); let b1 := sub64 b1 (k 14)
    ⟨b0, b1, b2, b3, b4, b5, b6, b7, b8, b9, b10, b11, b12, b13, b14, b15⟩

/-- Lines 3206-3236 of `threefish_decrypt_1024`: the eight inverse MIX steps of round 51. -/
def dec_round_51 (k : Nat → Nat) (t0 : Nat) : State → State
  | ⟨b0, b1, b2, b3, b4, b5, b6, b7, b8, b9, b10, b11, b12, b13, b14, b15⟩ =>
    let tmp := b7 ^^^ b12; let b7 := ror64 tmp 25; let b12 := sub64 b12 b7
    let tmp := b3 ^^^ b10; let b3 := ror64 tmp 16; let b10 := sub64 b10 b3
    let tmp := b5 ^^^ b8; let b5 := ror64 tmp 28; let b8 := sub64 b8 b5
    let tmp := b1 ^^^ b14; let b1 := ror64 tmp 47; let b14 := sub64 b14 b1
    let tmp := b9 ^^^ b4; let b9 := ror64 tmp 41; let b4 := sub64 b4 b9
    let tmp := b13 ^^^ b6; let b13 := ror64 tmp 48; let b6 := sub64 b6 b13
    let tmp := b11 ^^^ b2; let b11 := ror64 tmp 20; let b2 := sub64 b2 b11
    let tmp := b15 ^^^ b0; let b15 := ror64 tmp 5; let b0 := sub64 b0 b15
    ⟨b0, b1, b2, b3, b4, b5, b6, b7, b8, b9, b10, b11, b12, b13, b14, b15⟩

/-- Lines 3238-3268 of `threefish_decrypt_1024`: the eight inverse MIX steps of round 50. -/
def dec_round_50 (k : Nat → Nat) (t0 : Nat) : State → State
  | ⟨b0, b1, b2, b3, b4, b5, b6, b7, b8, b9, b10, b11, b12, b13, b14, b15⟩ =>
    let tmp := b9 ^^^ b10; let b9 := ror64 tmp 17; let b10 := sub64 b10 b9
    let tmp := b11 ^^^ b8; let b11 := ror64 tmp 59; let b8 := sub64 b8 b11
    let tmp := b13 ^^^ b14; let b13 := ror64 tmp 41; let b14 := sub64 b14 b13
    let tmp := b15 ^^^ b12; let b15 := ror64 tmp 34; let b12 := sub64 b12 b15
    let tmp := b1 ^^^ b6; let b1 := ror64 tmp 13; let b6 := sub64 b6 b1
    let tmp := b3 ^^^ b4; let b3 := ror64 tmp 51; let b4 := sub64 b4 b3
    let tmp := b5 ^^^ b2; let b5 := ror64 tmp 4; let b2 := sub64 b2 b5
    let tmp := b7 ^^^ b0; let b7 := ror64 tmp 33; let b0 := sub64 b0 b7
    ⟨b0, b1, b2, b3, b4, b5, b6, b7, b8, b9, b10, b11, b12, b13, b14, b15⟩

/-- Lines 3270-3300 of `threefish_decrypt_1024`: the eight inverse MIX steps of round 49. -/
def dec_round_49 (k : Nat → Nat) (t0 : Nat) : State → State
  | ⟨b0, b1, b2, b3, b4, b5, b6, b7, b8, b9, b10, b11, b12, b13, b14, b15⟩ =>
    let tmp := b1 ^^^ b8; let b1 := ror64 tmp 52; let b8 := sub64 b8 b1
    let tmp := b5 ^^^ b14; let b5 := ror64 tmp 23; let b14 := sub64 b14 b5
    let tmp := b3 ^^^ b12; let b3 := ror64 tmp 18; let b12 := sub64 b12 b3
    let tmp := b7 ^^^ b10; let b7 := ror64 tmp 49; let b10 := sub64 b10 b7
    let tmp := b15 ^^^ b4; let b15 := ror64 tmp 55; let b4 := sub64 b4 b15
    let tmp := b11 ^^^ b6; let b11 := ror64 tmp 10; let b6 := sub64 b6 b11
    let tmp := b13 ^^^ b2; let b13 := ror64 tmp 19; let b2 := sub64 b2 b13
    let tmp := b9 ^^^ b0; let b9 := ror64 tmp 38; let b0 := sub64 b0 b9
    ⟨b0, b1, b2, b3, b4, b5, b6, b7, b8, b9, b10, b11, b12, b13, b14, b15⟩

/-- Lines 3302-3340 of `threefish_decrypt_1024`: the eight inverse MIX steps of round 48 fused with the subtraction of subkey 12. -/
def dec_round_48 (k : Nat → Nat) (t0 : Nat) : State → State
  | ⟨b0, b1, b2, b3, b4, b5, b6, b7, b8, b9, b10, b11, b12, b13, b14, b15⟩ =>
    let tmp := b15 ^^^ b14; let b15 := ror64 tmp 37; let b14 := sub64 b14 (add64 (add64 b15 (k 9)) t1); let b15 := sub64 b15 (add64 (k 10) 12)
    let tmp := b13 ^^^ b12; let b13 := ror64 tmp 22; let b12 := sub64 b12 (add64 b13 (k 7)); let b13 := sub64 b13 (add64 (k 8) t0)
    let tmp := b11 ^^^ b10; let b11 := ror64 tmp 17; let b10 := sub64 b10 (add64 b11 (k 5)); let b11 := sub64 b11 (k 6)
    let tmp := b9 ^^^ b8; let b9 := ror64 tmp 8; let b8 := sub64 b8 (add64 b9 (k 3)); let b9 := sub64 b9 (k 4)
    let tmp := b7 ^^^ b6; let b7 := ror64 tmp 47; let b6 := sub64 b6 (add64 b7 (k 1)); let b7 := sub64 b7 (k 2)
    let tmp := b5 ^^^ b4; let b5 := ror64 tmp 8; let b4 := sub64 b4 (add64 b5 (k 16)); let b5 := sub64 b5 (k 0)
    let tmp := b3 ^^^ b2; let b3 := ror64 tmp 13; let b2 := sub64 b2 (add64 b3 (k 14)); let b3 := sub64 b3 (k 15)
    let tmp := b1 ^^^ b0; let b1 := ror64 tmp 24; let b0 := sub64 b0 (add64 b1 (k 12)); let b1 := sub64 b1 (k 13)
    ⟨b0, b1, b2, b3, b4, b5, b6, b7, b8, b9, b10, b11, b12, b13, b14, b15⟩

/-- Lines 3342-3372 of `threefish_decrypt_1024`: the eight inverse MIX steps of round 47. -/
def dec_round_47 (k : Nat → Nat) (t0 : Nat) : State → State
  | ⟨b0, b1, b2, b3, b4, b5, b6, b7, b8, b9, b10, b11, b12, b13, b14, b15⟩ =>
    let tmp := b7 ^^^ b12; let b7 := ror64 tmp 20; let b12 := sub64 b12 b7
    let tmp := b3 ^^^ b10; let b3 := ror64 tmp 37; let b10 := sub64 b10 b3
    let tmp := b5 ^^^ b8; let b5 := ror64 tmp 31; let b8 := sub64 b8 b5
    let tmp := b1 ^^^ b14; let b1 := ror64 tmp 23; let b14 := sub64 b14 b1
    let tmp := b9 ^^^ b4; let b9 := ror64 tmp 52; let b4 := sub64 b4 b9
    let tmp := b13 ^^^ b6; let b13 := ror64 tmp 35; let b6 := sub64 b6 b13
    let tmp := b11 ^^^ b2; let b11 := ror64 tmp 48; let b2 := sub64 b2 b11
    let tmp := b15 ^^^ b0; let b15 := ror64 tmp 9; let b0 := sub64 b0 b15
    ⟨b0, b1, b2, b3, b4, b5, b6, b7, b8, b9, b10, b11, b12, b13, b14, b15⟩

/-- Lines 3374-3404 of `threefish_decrypt_1024`: the eight inverse MIX steps of round 46. -/
def dec_round_46 (k : Nat → Nat) (t0 : Nat) : State → State
  | ⟨b0, b1, b2, b3, b4, b5, b6, b7, b8, b9, b10, b11, b12, b13, b14, b15⟩ =>
    let tmp := b9 ^^^ b10; let b9 := ror64 tmp 25; let b10 := sub64 b10 b9
    let tmp := b11 ^^^ b8; let b11 := ror64 tmp 44; let b8 := sub64 b8 b11
    let tmp := b13 ^^^ b14; let b13 := ror64 tmp 42; let b14 := sub64 b14 b13
    let tmp := b15 ^^^ b12; let b15 := ror64 tmp 19; let b12 := sub64 b12 b15
    let tmp := b1 ^^^ b6; let b1 := ror64 tmp 46; let b6 := sub64 b6 b1
    let tmp := b3 ^^^ b4; let b3 := ror64 tmp 47; let b4 := sub64 b4 b3
    let tmp := b5 ^^^ b2; let b5 := ror64 tmp 44; let b2 := sub64 b2 b5
    let tmp := b7 ^^^ b0; let b7 := ror64 tmp 31; let b0 := sub64 b0 b7
    ⟨b0, b1, b2, b3, b4, b5, b6, b7, b8, b9, b10, b11, b12, b13, b14, b15⟩

/-- Lines 3406-3436 of `threefish_decrypt_1024`: the eight inverse MIX steps of round 45. -/
def dec_round_45 (k : Nat → Nat) (t0 : Nat) : State → State
  | ⟨b0, b1, b2, b3, b4, b5, b6, b7, b8, b9, b10, b11, b12, b13, b14, b15⟩ =>
    let tmp := b1 ^^^ b8; let b1 := ror64 tmp 41; let b8 := sub64 b8 b1
    let tmp := b5 ^^^ b14; let b5 := ror64 tmp 42; let b14 := sub64 b14 b5
    let tmp := b3 ^^^ b12; let b3 := ror64 tmp 53; let b12 := sub64 b12 b3
    let tmp := b7 ^^^ b10; let b7 := ror64 tmp 4; let b10 := sub64 b10 b7
    let tmp := b15 ^^^ b4; let b15 := ror64 tmp 51; let b4 := sub64 b4 b15
    let tmp := b11 ^^^ b6; let b11 := ror64 tmp 56; let b6 := sub64 b6 b11
    let tmp := b13 ^^^ b2; let b13 := ror64 tmp 34; let b2 := sub64 b2 b13
    let tmp := b9 ^^^ b0; let b9 := ror64 tmp 16; let b0 := sub64 b0 b9
    ⟨b0, b1, b2, b3, b4, b5, b6, b7, b8, b9, b10, b11, b12, b13, b14, b15⟩

/-- Lines 3438-3476 of `threefish_decrypt_1024`: the eight inverse MIX steps of round 44 fused with the subtraction of subkey 11. -/
def dec_round_44 (k : Nat → Nat) (t0 : Nat) : State → State
  | ⟨b0, b1, b2, b3, b4, b5, b6, b7, b8, b9, b10, b11, b12, b13, b14, b15⟩ =>
    let tmp := b15 ^^^ b14; let b15 := ror64 tmp 30; let b14 := sub64 b14 (add64 (add64 b15 (k 8)) t0); let b15 := sub64 b15 (add64 (k 9) 11)
    let tmp := b13 ^^^ b12; let b13 := ror64 tmp 44; let b12 := sub64 b12 (add64 b13 (k 6)); let b13 := sub64 b13 (add64 (k 7) (t2 t0))
    let tmp := b11 ^^^ b10; let b11 := ror64 tmp 47; let b10 := sub64 b10 (add64 b11 (k 4)); let b11 := sub64 b11 (k 5)
    let tmp := b9 ^^^ b8; let b9 := ror64 tmp 12; let b8 := sub64 b8 (add64 b9 (k 2)); let b9 := sub64 b9 (k 3)
    let tmp := b7 ^^^ b6; let b7 := ror64 tmp 31; let b6 := sub64 b6 (add64 b7 (k 0)); let b7 := sub64 b7 (k 1)
    let tmp := b5 ^^^ b4; let b5 := ror64 tmp 37; let b4 := sub64 b4 (add64 b5 (k 15)); let b5 := sub64 b5 (k 16)
    let tmp := b3 ^^^ b2; let b3 := ror64 tmp 9; let b2 := sub64 b2 (add64 b3 (k 13)); let b3 := sub64 b3 (k 14)
    let tmp := b1 ^^^ b0; let b1 := ror64 tmp 41; let b0 := sub64 b0 (add64 b1 (k 11)); let b1 := sub64 b1 (k 12)
    ⟨b0, b1, b2, b3, b4, b5, b6, b7, b8, b9, b10, b11, b12, b13, b14, b15⟩

/-- Lines 3478-3508 of `threefish_decrypt_1024`: the eight inverse MIX steps of round 43. -/
def dec_round_43 (k : Nat → Nat) (t0 : Nat) : State → State
  | ⟨b0, b1, b2, b3, b4, b5, b6, b7, b8, b9, b10, b11, b12, b13, b14, b15⟩ =>
    let tmp := b7 ^^^ b12; let b7 := ror64 tmp 25; let b12 := sub64 b12 b7
    let tmp := b3 ^^^ b10; let b3 := ror64 tmp 16; let b10 := sub64 b10 b3
    let tmp := b5 ^^^ b8; let b5 := ror64 tmp 28; let b8 := sub64 b8 b5
    let tmp := b1 ^^^ b14; let b1 := ror64 tmp 47; let b14 := sub64 b14 b1
    let tmp := b9 ^^^ b4; let b9 := ror64 tmp 41; let b4 := sub64 b4 b9
    let tmp := b13 ^^^ b6; let b13 := ror64 tmp 48; let b6 := sub64 b6 b13
    let tmp := b11 ^^^ b2; let b11 := ror64 tmp 20; let b2 := sub64 b2 b11
    let tmp := b15 ^^^ b0; let b15 := ror64 tmp 5; let b0 := sub64 b0 b15
    ⟨b0, b1, b2, b3, b4, b5, b6, b7, b8, b9, b10, b11, b12, b13, b14, b15⟩

/-- Lines 3510-3540 of `threefish_decrypt_1024`: the eight inverse MIX steps of round 42. -/
def dec_round_42 (k : Nat → Nat) (t0 : Nat) : State → State
  | ⟨b0, b1, b2, b3, b4, b5, b6, b7, b8, b9, b10, b11, b12, b13, b14, b15⟩ =>
    let tmp := b9 ^^^ b10; let b9 := ror64 tmp 17; let b10 := sub64 b10 b9
    let tmp := b11 ^^^ b8; let b11 := ror64 tmp 59; let b8 := sub64 b8 b11
    let tmp := b13 ^^^ b14; let b13 := ror64 tmp 41; let b14 := sub64 b14 b13
    let tmp := b15 ^^^ b12; let b15 := ror64 tmp 34; let b12 := sub64 b12 b15
    let tmp := b1 ^^^ b6; let b1 := ror64 tmp 13; let b6 := sub64 b6 b1
    let tmp := b3 ^^^ b4; let b3 := ror64 tmp 51; let b4 := sub64 b4 b3
    let tmp := b5 ^^^ b2; let b5 := ror64 tmp 4; let b2 := sub64 b2 b5
    let tmp := b7 ^^^ b0; let b7 := ror64 tmp 33; let b0 := sub64 b0 b7
    ⟨b0, b1, b2, b3, b4, b5, b6, b7, b8, b9, b10, b11, b12, b13, b14, b15⟩

/-- Lines 3542-3572 of `threefish_decrypt_1024`: the eight inverse MIX steps of round 41. -/
def dec_round_41 (k : Nat → Nat) (t0 : Nat) : State → State
  | ⟨b0, b1, b2, b3, b4, b5, b6, b7, b8, b9, b10, b11, b12, b13, b14, b15⟩ =>
    let tmp := b1 ^^^ b8; let b1 := ror64 tmp 52; let b8 := sub64 b8 b1
    let tmp := b5 ^^^ b14; let b5 := ror64 tmp 23; let b14 := sub64 b14 b5
    let tmp := b3 ^^^ b12; let b3 := ror64 tmp 18; let b12 := sub64 b12 b3
    let tmp := b7 ^^^ b10; let b7 := ror64 tmp 49; let b10 := sub64 b10 b7
    let tmp := b15 ^^^ b4; let b15 := ror64 tmp 55; let b4 := sub64 b4 b15
    let tmp := b11 ^^^ b6; let b11 := ror64 tmp 10; let b6 := sub64 b6 b11
    let tmp := b13 ^^^ b2; let b13 := ror64 tmp 19; let b2 := sub64 b2 b13
    let tmp := b9 ^^^ b0; let b9 := ror64 tmp 38; let b0 := sub64 b0 b9
    ⟨b0, b1, b2, b3, b4, b5, b6, b7, b8, b9, b10, b11, b12, b13, b14, b15⟩

/-- Lines 3574-3612 of `threefish_decrypt_1024`: the eight inverse MIX steps of round 40 fused with the subtraction of subkey 10. -/
def dec_round_40 (k : Nat → Nat) (t0 : Nat) : State → State
  | ⟨b0, b1, b2, b3, b4, b5, b6, b7, b8, b9, b10, b11, b12, b13, b14, b15⟩ =>
    let tmp := b15 ^^^ b14; let b15 := ror64 tmp 37; let b14 := sub64 b14 (add64 (add64 b15 (k 7)) (t2 t0)); let b15 := sub64 b15 (add64 (k 8) 10)
    let tmp := b13 ^^^ b12; let b13 := ror64 tmp 22; let b12 := sub64 b12 (add64 b13 (k 5)); let b13 := sub64 b13 (add64 (k 6) t1)
    let tmp := b11 ^^^ b10; let b11 := ror64 tmp 17; let b10 := sub64 b10 (add64 b11 (k 3)); let b11 := sub64 b11 (k 4)
    let tmp := b9 ^^^ b8; let b9 := ror64 tmp 8; let b8 := sub64 b8 (add64 b9 (k 1)); let b9 := sub64 b9 (k 2)
    let tmp := b7 ^^^ b6; let b7 := ror64 tmp 47; let b6 := sub64 b6 (add64 b7 (k 16)); let b7 := sub64 b7 (k 0)
    let tmp := b5 ^^^ b4; let b5 := ror64 tmp 8; let b4 := sub64 b4 (add64 b5 (k 14)); let b5 := sub64 b5 (k 15)
    let tmp := b3 ^^^ b2; let b3 := ror64 tmp 13; let b2 := sub64 b2 (add64 b3 (k 12)); let b3 := sub64 b3 (k 13)
    let tmp := b1 ^^^ b0; let b1 := ror64 tmp 24; let b0 := sub64 b0 (add64 b1 (k 10)); let b1 := sub64 b1 (k 11)
    ⟨b0, b1, b2, b3, b4, b5, b6, b7, b8, b9, b10, b11, b12, b13, b14, b15⟩

/-- Lines 3614-3644 of `threefish_decrypt_1024`: the eight inverse MIX steps of round 39. -/
def dec_round_39 (k : Nat → Nat) (t0 : Nat) : State → State
  | ⟨b0, b1, b2, b3, b4, b5, b6, b7, b8, b9, b10, b11, b12, b13, b14, b15⟩ =>
    let tmp := b7 ^^^ b12; let b7 := ror64 tmp 20; let b12 := sub64 b12 b7
    let tmp := b3 ^^^ b10; let b3 := ror64 tmp 37; let b10 := sub64 b10 b3
    let tmp := b5 ^^^ b8; let b5 := ror64 tmp 31; let b8 := sub64 b8 b5
    let tmp := b1 ^^^ b14; let b1 := ror64 tmp 23; let b14 := sub64 b14 b1
    let tmp := b9 ^^^ b4; let b9 := ror64 tmp 52; let b4 := sub64 b4 b9
    let tmp := b13 ^^^ b6; let b13 := ror64 tmp 35; let b6 := sub64 b6 b13
    let tmp := b11 ^^^ b2; let b11 := ror64 tmp 48; let b2 := sub64 b2 b11
    let tmp := b15 ^^^ b0; let b15 := ror64 tmp 9; let b0 := sub64 b0 b15
    ⟨b0, b1, b2, b3, b4, b5, b6, b7, b8, b9, b10, b11, b12, b13, b14, b15⟩

/-- Lines 3646-3676 of `threefish_decrypt_1024`: the eight inverse MIX steps of round 38. -/
def dec_round_38 (k : Nat → Nat) (t0 : Nat) : State → State
  | ⟨b0, b1, b2, b3, b4, b5, b6, b7, b8, b9, b10, b11, b12, b13, b14, b15⟩ =>
    let tmp := b9 ^^^ b10; let b9 := ror64 tmp 25; let b10 := sub64 b10 b9
    let tmp := b11 ^^^ b8; let b11 := ror64 tmp 44; let b8 := sub64 b8 b11
    let tmp := b13 ^^^ b14; let b13 := ror64 tmp 42; let b14 := sub64 b14 b13
    let tmp := b15 ^^^ b12; let b15 := ror64 tmp 19; let b12 := sub64 b12 b15
    let tmp := b1 ^^^ b6; let b1 := ror64 tmp 46; let b6 := sub64 b6 b1
    let tmp := b3 ^^^ b4; let b3 := ror64 tmp 47; let b4 := sub64 b4 b3
    let tmp := b5 ^^^ b2; let b5 := ror64 tmp 44; let b2 := sub64 b2 b5
    let tmp := b7 ^^^ b0; let b7 := ror64 tmp 31; let b0 := sub64 b0 b7
    ⟨b0, b1, b2, b3, b4, b5, b6, b7, b8, b9, b10, b11, b12, b13, b14, b15⟩

/-- Lines 3678-3708 of `threefish_decrypt_1024`: the eight inverse MIX steps of round 37. -/
def dec_round_37 (k : Nat → Nat) (t0 : Nat) : State → State
  | ⟨b0, b1, b2, b3, b4, b5, b6, b7, b8, b9, b10, b11, b12, b13, b14, b15⟩ =>
    let tmp := b1 ^^^ b8; let b1 := ror64 tmp 41; let b8 := sub64 b8 b1
    let tmp := b5 ^^^ b14; let b5 := ror64 tmp 42; let b14 := sub64 b14 b5
    let tmp := b3 ^^^ b12; let b3 := ror64 tmp 53; let b12 := sub64 b12 b3
    let tmp := b7 ^^^ b10; let b7 := ror64 tmp 4; let b10 := sub64 b10 b7
    let tmp := b15 ^^^ b4; let b15 := ror64 tmp 51; let b4 := sub64 b4 b15
    let tmp := b11 ^^^ b6; let b11 := ror64 tmp 56; let b6 := sub64 b6 b11
    let tmp := b13 ^^^ b2; let b13 := ror64 tmp 34; let b2 := sub64 b2 b13
    let tmp := b9 ^^^ b0; let b9 := ror64 tmp 16; let b0 := sub64 b0 b9
    ⟨b0, b1, b2, b3, b4, b5, b6, b7, b8, b9, b10, b11, b12, b13, b14, b15⟩

/-- Lines 3710-3748 of `threefish_decrypt_1024`: the eight inverse MIX steps of round 36 fused with the subtraction of subkey 9. -/
def dec_round_36 (k : Nat → Nat) (t0 : Nat) : State → State
  | ⟨b0, b1, b2, b3, b4, b5, b6, b7, b8, b9, b10, b11, b12, b13, b14, b15⟩ =>
    let tmp := b15 ^^^ b14; let b15 := ror64 tmp 30; let b14 := sub64 b14 (add64 (add64 b15 (k 6)) t1); let b15 := sub64 b15 (add64 (k 7) 9)
    let tmp := b13 ^^^ b12; let b13 := ror64 tmp 44; let b12 := sub64 b12 (add64 b13 (k 4)); let b13 := sub64 b13 (add64 (k 5) t0)
    let tmp := b11 ^^^ b10; let b11 := ror64 tmp 47; let b10 := sub64 b10 (add64 b11 (k 2)); let b11 := sub64 b11 (k 3)
    let tmp := b9 ^^^ b8; let b9 := ror64 tmp 12; let b8 := sub64 b8 (add64 b9 (k 0)); let b9 := sub64 b9 (k 1)
    let tmp := b7 ^^^ b6; let b7 := ror64 tmp 31; let b6 := sub64 b6 (add64 b7 (k 15)); let b7 := sub64 b7 (k 16)
    let tmp := b5 ^^^ b4; let b5 := ror64 tmp 37; let b4 := sub64 b4 (add64 b5 (k 13)); let b5 := sub64 b5 (k 14)
    let tmp := b3 ^^^ b2; let b3 := ror64 tmp 9; let b2 := sub64 b2 (add64 b3 (k 11)); let b3 := sub64 b3 (k 12)
    let tmp := b1 ^^^ b0; let b1 := ror64 tmp 41; let b0 := sub64 b0 (add64 b1 (k 9)); let b1 := sub64 b1 (k 10)
    ⟨b0, b1, b2, b3, b4, b5, b6, b7, b8, b9, b10, b11, b12, b13, b14, b15⟩

/-- Lines 3750-3780 of `threefish_decrypt_1024`: the eight inverse MIX steps of round 35. -/
def dec_round_35 (k : Nat → Nat) (t0 : Nat) : State → State
  | ⟨b0, b1, b2, b3, b4, b5, b6, b7, b8, b9, b10, b11, b12, b13, b14, b15⟩ =>
    let tmp := b7 ^^^ b12; let b7 := ror64 tmp 25; let b12 := sub64 b12 b7
    let tmp := b3 ^^^ b10; let b3 := ror64 tmp 16; let b10 := sub64 b10 b3
    let tmp := b5 ^^^ b8; let b5 := ror64 tmp 28; let b8 := sub64 b8 b5
    let tmp := b1 ^^^ b14; let b1 := ror64 tmp 47; let b14 := sub64 b14 b1
    let tmp := b9 ^^^ b4; let b9 := ror64 tmp 41; let b4 := sub64 b4 b9
    let tmp := b13 ^^^ b6; let b13 := ror64 tmp 48; let b6 := sub64 b6 b13
    let tmp := b11 ^^^ b2; let b11 := ror64 tmp 20; let b2 := sub64 b2 b11
    let tmp := b15 ^^^ b0; let b15 := ror64 tmp 5; let b0 := sub64 b0 b15
    ⟨b0, b1, b2, b3, b4, b5, b6, b7, b8, b9, b10, b11, b12, b13, b14, b15⟩

/-- Lines 3782-3812 of `threefish_decrypt_1024`: the eight inverse MIX steps of round 34. -/
def dec_round_34 (k : Nat → Nat) (t0 : Nat) : State → State
  | ⟨b0, b1, b2, b3, b4, b5, b6, b7, b8, b9, b10, b11, b12, b13, b14, b15⟩ =>
    let tmp := b9 ^^^ b10; let b9 := ror64 tmp 17; let b10 := sub64 b10 b9
    let tmp := b11 ^^^ b8; let b11 := ror64 tmp 59; let b8 := sub64 b8 b11
    let tmp := b13 ^^^ b14; let b13 := ror64 tmp 41; let b14 := sub64 b14 b13
    let tmp := b15 ^^^ b12; let b15 := ror64 tmp 34; let b12 := sub64 b12 b15
    let tmp := b1 ^^^ b6; let b1 := ror64 tmp 13; let b6 := sub64 b6 b1
    let tmp := b3 ^^^ b4; let b3 := ror64 tmp 51; let b4 := sub64 b4 b3
    let tmp := b5 ^^^ b2; let b5 := ror64 tmp 4; let b2 := sub64 b2 b5
    let tmp := b7 ^^^ b0; let b7 := ror64 tmp 33; let b0 := sub64 b0 b7
    ⟨b0, b1, b2, b3, b4, b5, b6, b7, b8, b9, b10, b11, b12, b13, b14, b15⟩

/-- Lines 3814-3844 of `threefish_decrypt_1024`: the eight inverse MIX steps of round 33. -/
def dec_round_33 (k : Nat → Nat) (t0 : Nat) : State → State
  | ⟨b0, b1, b2, b3, b4, b5, b6, b7, b8, b9, b10, b11, b12, b13, b14, b15⟩ =>
    let tmp := b1 ^^^ b8; let b1 := ror64 tmp 52; let b8 := sub64 b8 b1
    let tmp := b5 ^^^ b14; let b5 := ror64 tmp 23; let b14 := sub64 b14 b5
    let tmp := b3 ^^^ b12; let b3 := ror64 tmp 18; let b12 := sub64 b12 b3
    let tmp := b7 ^^^ b10; let b7 := ror64 tmp 49; let b10 := sub64 b10 b7
    let tmp := b15 ^^^ b4; let b15 := ror64 tmp 55; let b4 := sub64 b4 b15
    let tmp := b11 ^^^ b6; let b11 := ror64 tmp 10; let b6 := sub64 b6 b11
    let tmp := b13 ^^^ b2; let b13 := ror64 tmp 19; let b2 := sub64 b2 b13
    let tmp := b9 ^^^ b0; let b9 := ror64 tmp 38; let b0 := sub64 b0 b9
    ⟨b0, b1, b2, b3, b4, b5, b6, b7, b8, b9, b10, b11, b12, b13, b14, b15⟩

/-- Lines 3846-3884 of `threefish_decrypt_1024`: the eight inverse MIX steps of round 32 fused with the subtraction of subkey 8. -/
def dec_round_32 (k : Nat → Nat) (t0 : Nat) : State → State
  | ⟨b0, b1, b2, b3, b4, b5, b6, b7, b8, b9, b10, b11, b12, b13, b14, b15⟩ =>
    let tmp := b15 ^^^ b14; let b15 := ror64 tmp 37; let b14 := sub64 b14 (add64 (add64 b15 (k 5)) t0); let b15 := sub64 b15 (add64 (k 6) 8)
    let tmp := b13 ^^^ b12; let b13 := ror64 tmp 22; let b12 := sub64 b12 (add64 b13 (k 3)); let b13 := sub64 b13 (add64 (k 4) (t2 t0))
    let tmp := b11 ^^^ b10; let b11 := ror64 tmp 17; let b10 := sub64 b10 (add64 b11 (k 1)); let b11 := sub64 b11 (k 2)
    let tmp := b9 ^^^ b8; let b9 := ror64 tmp 8; let b8 := sub64 b8 (add64 b9 (k 16)); let b9 := sub64 b9 (k 0)
    let tmp := b7 ^^^ b6; let b7 := ror64 tmp 47; let b6 := sub64 b6 (add64 b7 (k 14)); let b7 := sub64 b7 (k 15)
    let tmp := b5 ^^^ b4; let b5 := ror64 tmp 8; let b4 := sub64 b4 (add64 b5 (k 12)); let b5 := sub64 b5 (k 13)
    let tmp := b3 ^^^ b2; let b3 := ror64 tmp 13; let b2 := sub64 b2 (add64 b3 (k 10)); let b3 := sub64 b3 (k 11)
    let tmp := b1 ^^^ b0; let b1 := ror64 tmp 24; let b0 := sub64 b0 (add64 b1 (k 8)); let b1 := sub64 b1 (k 9)
    ⟨b0, b1, b2, b3, b4, b5, b6, b7, b8, b9, b10, b11, b12, b13, b14, b15⟩

/-- Lines 3886-3916 of `threefish_decrypt_1024`: the eight inverse MIX steps of round 31. -/
def dec_round_31 (k : Nat → Nat) (t0 : Nat) : State → State
  | ⟨b0, b1, b2, b3, b4, b5, b6, b7, b8, b9, b10, b11, b12, b13, b14, b15⟩ =>
    let tmp := b7 ^^^ b12; let b7 := ror64 tmp 20; let b12 := sub64 b12 b7
    let tmp := b3 ^^^ b10; let b3 := ror64 tmp 37; let b10 := sub64 b10 b3
    let tmp := b5 ^^^ b8; let b5 := ror64 tmp 31; let b8 := sub64 b8 b5
    let tmp := b1 ^^^ b14; let b1 := ror64 tmp 23; let b14 := sub64 b14 b1
    let tmp := b9 ^^^ b4; let b9 := ror64 tmp 52; let b4 := sub64 b4 b9
    let tmp := b13 ^^^ b6; let b13 := ror64 tmp 35; let b6 := sub64 b6 b13
    let tmp := b11 ^^^ b2; let b11 := ror64 tmp 48; let b2 := sub64 b2 b11
    let tmp := b15 ^^^ b0; let b15 := ror64 tmp 9; let b0 := sub64 b0 b15
    ⟨b0, b1, b2, b3, b4, b5, b6, b7, b8, b9, b10, b11, b12, b13, b14, b15⟩

/-- Lines 3918-3948 of `threefish_decrypt_1024`: the eight inverse MIX steps of round 30. -/
def dec_round_30 (k : Nat → Nat) (t0 : Nat) : State → State
  | ⟨b0, b1, b2, b3, b4, b5, b6, b7, b8, b9, b10, b11, b12, b13, b14, b15⟩ =>
    let tmp := b9 ^^^ b10; let b9 := ror64 tmp 25; let b10 := sub64 b10 b9
    let tmp := b11 ^^^ b8; let b11 := ror64 tmp 44; let b8 := sub64 b8 b11
    let tmp := b13 ^^^ b14; let b13 := ror64 tmp 42; let b14 := sub64 b14 b13
    let tmp := b15 ^^^ b12; let b15 := ror64 tmp 19; let b12 := sub64 b12 b15
    let tmp := b1 ^^^ b6; let b1 := ror64 tmp 46; let b6 := sub64 b6 b1
    let tmp := b3 ^^^ b4; let b3 := ror64 tmp 47; let b4 := sub64 b4 b3
    let tmp := b5 ^^^ b2; let b5 := ror64 tmp 44; let b2 := sub64 b2 b5
    let tmp := b7 ^^^ b0; let b7 := ror64 tmp 31; let b0 := sub64 b0 b7
    ⟨b0, b1, b2, b3, b4, b5, b6, b7, b8, b9, b10, b11, b12, b13, b14, b15⟩

/-- Lines 3950-3980 of `threefish_decrypt_1024`: the eight inverse MIX steps of round 29. -/
def dec_round_29 (k : Nat → Nat) (t0 : Nat) : State → State
  | ⟨b0, b1, b2, b3, b4, b5, b6, b7, b8, b9, b10, b11, b12, b13, b14, b15⟩ =>
    let tmp := b1 ^^^ b8; let b1 := ror64 tmp 41; let b8 := sub64 b8 b1
    let tmp := b5 ^^^ b14; let b5 := ror64 tmp 42; let b14 := sub64 b14 b5
    let tmp := b3 ^^^ b12; let b3 := ror64 tmp 53; let b12 := sub64 b12 b3
    let tmp := b7 ^^^ b10; let b7 := ror64 tmp 4; let b10 := sub64 b10 b7
    let tmp := b15 ^^^ b4; let b15 := ror64 tmp 51; let b4 := sub64 b4 b15
    let tmp := b11 ^^^ b6; let b11 := ror64 tmp 56; let b6 := sub64 b6 b11
    let tmp := b13 ^^^ b2; let b13 := ror64 tmp 34; let b2 := sub64 b2 b13
    let tmp := b9 ^^^ b0; let b9 := ror64 tmp 16; let b0 := sub64 b0 b9
    ⟨b0, b1, b2, b3, b4, b5, b6, b7, b8, b9, b10, b11, b12, b13, b14, b15⟩

/-- Lines 3982-4020 of `threefish_decrypt_1024`: the eight inverse MIX steps of round 28 fused with the subtraction of subkey 7. -/
def dec_round_28 (k : Nat → Nat) (t0 : Nat) : State → State
  | ⟨b0, b1, b2, b3, b4, b5, b6, b7, b8, b9, b10, b11, b12, b13, b14, b15⟩ =>
    let tmp := b15 ^^^ b14; let b15 := ror64 tmp 30; let b14 := sub64 b14 (add64 (add64 b15 (k 4)) (t2 t0)); let b15 := sub64 b15 (add64 (k 5) 7)
    let tmp := b13 ^^^ b12; let b13 := ror64 tmp 44; let b12 := sub64 b12 (add64 b13 (k 2)); let b13 := sub64 b13 (add64 (k 3) t1)
    let tmp := b11 ^^^ b10; let b11 := ror64 tmp 47; let b10 := sub64 b10 (add64 b11 (k 0)); let b11 := sub64 b11 (k 1)
    let tmp := b9 ^^^ b8; let b9 := ror64 tmp 12; let b8 := sub64 b8 (add64 b9 (k 15)); let b9 := sub64 b9 (k 16)
    let tmp := b7 ^^^ b6; let b7 := ror64 tmp 31; let b6 := sub64 b6 (add64 b7 (k 13)); let b7 := sub64 b7 (k 14)
    let tmp := b5 ^^^ b4; let b5 := ror64 tmp 37; let b4 := sub64 b4 (add64 b5 (k 11)); let b5 := sub64 b5 (k 12)
    let tmp := b3 ^^^ b2; let b3 := ror64 tmp 9; let b2 := sub64 b2 (add64 b3 (k 9)); let b3 := sub64 b3 (k 10)
    let tmp := b1 ^^^ b0; let b1 := ror64 tmp 41; let b0 := sub64 b0 (add64 b1 (k 7)); let b1 := sub64 b1 (k 8)
    ⟨b0, b1, b2, b3, b4, b5, b6, b7, b8, b9, b10, b11, b12, b13, b14, b15⟩

/-- Lines 4022-4052 of `threefish_decrypt_1024`: the eight inverse MIX steps of round 27. -/
def dec_round_27 (k : Nat → Nat) (t0 : Nat) : State → State
  | ⟨b0, b1, b2, b3, b4, b5, b6, b7, b8, b9, b10, b11, b12, b13, b14, b15⟩ =>
    let tmp := b7 ^^^ b12; let b7 := ror64 tmp 25; let b12 := sub64 b12 b7
    let tmp := b3 ^^^ b10; let b3 := ror64 tmp 16; let b10 := sub64 b10 b3
    let tmp := b5 ^^^ b8; let b5 := ror64 tmp 28; let b8 := sub64 b8 b5
    let tmp := b1 ^^^ b14; let b1 := ror64 tmp 47; let b14 := sub64 b14 b1
    let tmp := b9 ^^^ b4; let b9 := ror64 tmp 41; let b4 := sub64 b4 b9
    let tmp := b13 ^^^ b6; let b13 := ror64 tmp 48; let b6 := sub64 b6 b13
    let tmp := b11 ^^^ b2; let b11 := ror64 tmp 20; let b2 := sub64 b2 b11
    let tmp := b15 ^^^ b0; let b15 := ror64 tmp 5; let b0 := sub64 b0 b15
    ⟨b0, b1, b2, b3, b4, b5, b6, b7, b8, b9, b10, b11, b12, b13, b14, b15⟩

/-- Lines 4054-4084 of `threefish_decrypt_1024`: the eight inverse MIX steps of round 26. -/
def dec_round_26 (k : Nat → Nat) (t0 : Nat) : State → State
  | ⟨b0, b1, b2, b3, b4, b5, b6, b7, b8, b9, b10, b11, b12, b13, b14, b15⟩ =>
    let tmp := b9 ^^^ b10; let b9 := ror64 tmp 17; let b10 := sub64 b10 b9
    let tmp := b11 ^^^ b8; let b11 := ror64 tmp 59; let b8 := sub64 b8 b11
    let tmp := b13 ^^^ b14; let b13 := ror64 tmp 41; let b14 := sub64 b14 b13
    let tmp := b15 ^^^ b12; let b15 := ror64 tmp 34; let b12 := sub64 b12 b15
    let tmp := b1 ^^^ b6; let b1 := ror64 tmp 13; let b6 := sub64 b6 b1
    let tmp := b3 ^^^ b4; let b3 := ror64 tmp 51; let b4 := sub64 b4 b3
    let tmp := b5 ^^^ b2; let b5 := ror64 tmp 4; let b2 := sub64 b2 b5
    let tmp := b7 ^^^ b0; let b7 := ror64 tmp 33; let b0 := sub64 b0 b7
    ⟨b0, b1, b2, b3, b4, b5, b6, b7, b8, b9, b10, b11, b12, b13, b14, b15⟩

/-- Lines 4086-4116 of `threefish_decrypt_1024`: the eight inverse MIX steps of round 25. -/
def dec_round_25 (k : Nat → Nat) (t0 : Nat) : State → State
  | ⟨b0, b1, b2, b3, b4, b5, b6, b7, b8, b9, b10, b11, b12, b13, b14, b15⟩ =>
    let tmp := b1 ^^^ b8; let b1 := ror64 tmp 52; let b8 := sub64 b8 b1
    let tmp := b5 ^^^ b14; let b5 := ror64 tmp 23; let b14 := sub64 b14 b5
    let tmp := b3 ^^^ b12; let b3 := ror64 tmp 18; let b12 := sub64 b12 b3
    let tmp := b7 ^^^ b10; let b7 := ror64 tmp 49; let b10 := sub64 b10 b7
    let tmp := b15 ^^^ b4; let b15 := ror64 tmp 55; let b4 := sub64 b4 b15
    let tmp := b11 ^^^ b6; let b11 := ror64 tmp 10; let b6 := sub64 b6 b11
    let tmp := b13 ^^^ b2; let b13 := ror64 tmp 19; let b2 := sub64 b2 b13
    let tmp := b9 ^^^ b0; let b9 := ror64 tmp 38; let b0 := sub64 b0 b9
    ⟨b0, b1, b2, b3, b4, b5, b6, b7, b8, b9, b10, b11, b12, b13, b14, b15⟩

/-- Lines 4118-4156 of `threefish_decrypt_1024`: the eight inverse MIX steps of round 24 fused with the subtraction of subkey 6. -/
def dec_round_24 (k : Nat → Nat) (t0 : Nat) : State → State
  | ⟨b0, b1, b2, b3, b4, b5, b6, b7, b8, b9, b10, b11, b12, b13, b14, b15⟩ =>
    let tmp := b15 ^^^ b14; let b15 := ror64 tmp 37; let b14 := sub64 b14 (add64 (add64 b15 (k 3)) t1); let b15 := sub64 b15 (add64 (k 4) 6)
    let tmp := b13 ^^^ b12; let b13 := ror64 tmp 22; let b12 := sub64 b12 (add64 b13 (k 1)); let b13 := sub64 b13 (add64 (k 2) t0)
    let tmp := b11 ^^^ b10; let b11 := ror64 tmp 17; let b10 := sub64 b10 (add64 b11 (k 16)); let b11 := sub64 b11 (k 0)
    let tmp := b9 ^^^ b8; let b9 := ror64 tmp 8; let b8 := sub64 b8 (add64 b9 (k 14)); let b9 := sub64 b9 (k 15)
    let tmp := b7 ^^^ b6; let b7 := ror64 tmp 47; let b6 := sub64 b6 (add64 b7 (k 12)); let b7 := sub64 b7 (k 13)
    let tmp := b5 ^^^ b4; let b5 := ror64 tmp 8; let b4 := sub64 b4 (add64 b5 (k 10)); let b5 := sub64 b5 (k 11)
    let tmp := b3 ^^^ b2; let b3 := ror64 tmp 13; let b2 := sub64 b2 (add64 b3 (k 8)); let b3 := sub64 b3 (k 9)
    let tmp := b1 ^^^ b0; let b1 := ror64 tmp 24; let b0 := sub64 b0 (add64 b1 (k 6)); let b1 := sub64 b1 (k 7)
    ⟨b0, b1, b2, b3, b4, b5, b6, b7, b8, b9, b10, b11, b12, b13, b14, b15⟩

/-- Lines 4158-4188 of `threefish_decrypt_1024`: the eight inverse MIX steps of round 23. -/
def dec_round_23 (k : Nat → Nat) (t0 : Nat) : State → State
  | ⟨b0, b1, b2, b3, b4, b5, b6, b7, b8, b9, b10, b11, b12, b13, b14, b15⟩ =>
    let tmp := b7 ^^^ b12; let b7 := ror64 tmp 20; let b12 := sub64 b12 b7
    let tmp := b3 ^^^ b10; let b3 := ror64 tmp 37; let b10 := sub64 b10 b3
    let tmp := b5 ^^^ b8; let b5 := ror64 tmp 31; let b8 := sub64 b8 b5
    let tmp := b1 ^^^ b14; let b1 := ror64 tmp 23; let b14 := sub64 b14 b1
    let tmp := b9 ^^^ b4; let b9 := ror64 tmp 52; let b4 := sub64 b4 b9
    let tmp := b13 ^^^ b6; let b13 := ror64 tmp 35; let b6 := sub64 b6 b13
    let tmp := b11 ^^^ b2; let b11 := ror64 tmp 48; let b2 := sub64 b2 b11
    let tmp := b15 ^^^ b0; let b15 := ror64 tmp 9; let b0 := sub64 b0 b15
    ⟨b0, b1, b2, b3, b4, b5, b6, b7, b8, b9, b10, b11, b12, b13, b14, b15⟩

/-- Lines 4190-4220 of `threefish_decrypt_1024`: the eight inverse MIX steps of round 22. -/
def dec_round_22 (k : Nat → Nat) (t0 : Nat) : State → State
  | ⟨b0, b1, b2, b3, b4, b5, b6, b7, b8, b9, b10, b11, b12, b13, b14, b15⟩ =>
    let tmp := b9 ^^^ b10; let b9 := ror64 tmp 25; let b10 := sub64 b10 b9
    let tmp := b11 ^^^ b8; let b11 := ror64 tmp 44; let b8 := sub64 b8 b11
    let tmp := b13 ^^^ b14; let b13 := ror64 tmp 42; let b14 := sub64 b14 b13
    let tmp := b15 ^^^ b12; let b15 := ror64 tmp 19; let b12 := sub64 b12 b15
    let tmp := b1 ^^^ b6; let b1 := ror64 tmp 46; let b6 := sub64 b6 b1
    let tmp := b3 ^^^ b4; let b3 := ror64 tmp 47; let b4 := sub64 b4 b3
    let tmp := b5 ^^^ b2; let b5 := ror64 tmp 44; let b2 := sub64 b2 b5
    let tmp := b7 ^^^ b0; let b7 := ror64 tmp 31; let b0 := sub64 b0 b7
    ⟨b0, b1, b2, b3, b4, b5, b6, b7, b8, b9, b10, b11, b12, b13, b14, b15⟩

/-- Lines 4222-4252 of `threefish_decrypt_1024`: the eight inverse MIX steps of round 21. -/
def dec_round_21 (k : Nat → Nat) (t0 : Nat) : State → State
  | ⟨b0, b1, b2, b3, b4, b5, b6, b7, b8, b9, b10, b11, b12, b13, b14, b15⟩ =>
    let tmp := b1 ^^^ b8; let b1 := ror64 tmp 41; let b8 := sub64 b8 b1
    let tmp := b5 ^^^ b14; let b5 := ror64 tmp 42; let b14 := sub64 b14 b5
    let tmp := b3 ^^^ b12; let b3 := ror64 tmp 53; let b12 := sub64 b12 b3
    let tmp := b7 ^^^ b10; let b7 := ror64 tmp 4; let b10 := sub64 b10 b7
    let tmp := b15 ^^^ b4; let b15 := ror64 tmp 51; let b4 := sub64 b4 b15
    let tmp := b11 ^^^ b6; let b11 := ror64 tmp 56; let b6 := sub64 b6 b11
    let tmp := b13 ^^^ b2; let b13 := ror64 tmp 34; let b2 := sub64 b2 b13
    let tmp := b9 ^^^ b0; let b9 := ror64 tmp 16; let b0 := sub64 b0 b9
    ⟨b0, b1, b2, b3, b4, b5, b6, b7, b8, b9, b10, b11, b12, b13, b14, b15⟩

/-- Lines 4254-4292 of `threefish_decrypt_1024`: the eight inverse MIX steps of round 20 fused with the subtraction of subkey 5. -/
def dec_round_20 (k : Nat → Nat) (t0 : Nat) : State → State
  | ⟨b0, b1, b2, b3, b4, b5, b6, b7, b8, b9, b10, b11, b12, b13, b14, b15⟩ =>
    let tmp := b15 ^^^ b14; let b15 := ror64 tmp 30; let b14 := sub64 b14 (add64 (add64 b15 (k 2)) t0); let b15 := sub64 b15 (add64 (k 3) 5)
    let tmp := b13 ^^^ b12; let b13 := ror64 tmp 44; let b12 := sub64 b12 (add64 b13 (k 0)); let b13 := sub64 b13 (add64 (k 1) (t2 t0))
    let tmp := b11 ^^^ b10; let b11 := ror64 tmp 47; let b10 := sub64 b10 (add64 b11 (k 15)); let b11 := sub64 b11 (k 16)
    let tmp := b9 ^^^ b8; let b9 := ror64 tmp 12; let b8 := sub64 b8 (add64 b9 (k 13)); let b9 := sub64 b9 (k 14)
    let tmp := b7 ^^^ b6; let b7 := ror64 tmp 31; let b6 := sub64 b6 (add64 b7 (k 11)); let b7 := sub64 b7 (k 12)
    let tmp := b5 ^^^ b4; let b5 := ror64 tmp 37; let b4 := sub64 b4 (add64 b5 (k 9)); let b5 := sub64 b5 (k 10)
    let tmp := b3 ^^^ b2; let b3 := ror64 tmp 9; let b2 := sub64 b2 (add64 b3 (k 7)); let b3 := sub64 b3 (k 8)
    let tmp := b1 ^^^ b0; let b1 := ror64 tmp 41; let b0 := sub64 b0 (add64 b1 (k 5)); let b1 := sub64 b1 (k 6)
    ⟨b0, b1, b2, b3, b4, b5, b6, b7, b8, b9, b10, b11, b12, b13, b14, b15⟩

/-- Lines 4294-4324 of `threefish_decrypt_1024`: the eight inverse MIX steps of round 19. -/
def dec_round_19 (k : Nat → Nat) (t0 : Nat) : State → State
  | ⟨b0, b1, b2, b3, b4, b5, b6, b7, b8, b9, b10, b11, b12, b13, b14, b15⟩ =>
    let tmp := b7 ^^^ b12; let b7 := ror64 tmp 25; let b12 := sub64 b12 b7
    let tmp := b3 ^^^ b10; let b3 := ror64 tmp 16; let b10 := sub64 b10 b3
    let tmp := b5 ^^^ b8; let b5 := ror64 tmp 28; let b8 := sub64 b8 b5
    let tmp := b1 ^^^ b14; let b1 := ror64 tmp 47; let b14 := sub64 b14 b1
    let tmp := b9 ^^^ b4; let b9 := ror64 tmp 41; let b4 := sub64 b4 b9
    let tmp := b13 ^^^ b6; let b13 := ror64 tmp 48; let b6 := sub64 b6 b13
    let tmp := b11 ^^^ b2; let b11 := ror64 tmp 20; let b2 := sub64 b2 b11
    let tmp := b15 ^^^ b0; let b15 := ror64 tmp 5; let b0 := sub64 b0 b15
    ⟨b0, b1, b2, b3, b4, b5, b6, b7, b8, b9, b10, b11, b12, b13, b14, b15⟩

/-- Lines 4326-4356 of `threefish_decrypt_1024`: the eight inverse MIX steps of round 18. -/
def dec_round_18 (k : Nat → Nat) (t0 : Nat) : State → State
  | ⟨b0, b1, b2, b3, b4, b5, b6, b7, b8, b9, b10, b11, b12, b13, b14, b15⟩ =>
    let tmp := b9 ^^^ b10; let b9 := ror64 tmp 17; let b10 := sub64 b10 b9
    let tmp := b11 ^^^ b8; let b11 := ror64 tmp 59; let b8 := sub64 b8 b11
    let tmp := b13 ^^^ b14; let b13 := ror64 tmp 41; let b14 := sub64 b14 b13
    let tmp := b15 ^^^ b12; let b15 := ror64 tmp 34; let b12 := sub64 b12 b15
    let tmp := b1 ^^^ b6; let b1 := ror64 tmp 13; let b6 := sub64 b6 b1
    let tmp := b3 ^^^ b4; let b3 := ror64 tmp 51; let b4 := sub64 b4 b3
    let tmp := b5 ^^^ b2; let b5 := ror64 tmp 4; let b2 := sub64 b2 b5
    let tmp := b7 ^^^ b0; let b7 := ror64 tmp 33; let b0 := sub64 b0 b7
    ⟨b0, b1, b2, b3, b4, b5, b6, b7, b8, b9, b10, b11, b12, b13, b14, b15⟩

/-- Lines 4358-4388 of `threefish_decrypt_1024`: the eight inverse MIX steps of round 17. -/
def dec_round_17 (k : Nat → Nat) (t0 : Nat) : State → State
  | ⟨b0, b1, b2, b3, b4, b5, b6, b7, b8, b9, b10, b11, b12, b13, b14, b15⟩ =>
    let tmp := b1 ^^^ b8; let b1 := ror64 tmp 52; let b8 := sub64 b8 b1
    let tmp := b5 ^^^ b14; let b5 := ror64 tmp 23; let b14 := sub64 b14 b5
    let tmp := b3 ^^^ b12; let b3 := ror64 tmp 18; let b12 := sub64 b12 b3
    let tmp := b7 ^^^ b10; let b7 := ror64 tmp 49; let b10 := sub64 b10 b7
    let tmp := b15 ^^^ b4; let b15 := ror64 tmp 55; let b4 := sub64 b4 b15
    let tmp := b11 ^^^ b6; let b11 := ror64 tmp 10; let b6 := sub64 b6 b11
    let tmp := b13 ^^^ b2; let b13 := ror64 tmp 19; let b2 := sub64 b2 b13
    let tmp := b9 ^^^ b0; let b9 := ror64 tmp 38; let b0 := sub64 b0 b9
    ⟨b0, b1, b2, b3, b4, b5, b6, b7, b8, b9, b10, b11, b12, b13, b14, b15⟩

/-- Lines 4390-4428 of `threefish_decrypt_1024`: the eight inverse MIX steps of round 16 fused with the subtraction of subkey 4. -/
def dec_round_16 (k : Nat → Nat) (t0 : Nat) : State → State
  | ⟨b0, b1, b2, b3, b4, b5, b6, b7, b8, b9, b10, b11, b12, b13, b14, b15⟩ =>
    let tmp := b15 ^^^ b14; let b15 := ror64 tmp 37; let b14 := sub64 b14 (add64 (add64 b15 (k 1)) (t2 t0)); let b15 := sub64 b15 (add64 (k 2) 4)
    let tmp := b13 ^^^ b12; let b13 := ror64 tmp 22; let b12 := sub64 b12 (add64 b13 (k 16)); let b13 := sub64 b13 (add64 (k 0) t1)
    let tmp := b11 ^^^ b10; let b11 := ror64 tmp 17; let b10 := sub64 b10 (add64 b11 (k 14)); let b11 := sub64 b11 (k 15)
    let tmp := b9 ^^^ b8; let b9 := ror64 tmp 8; let b8 := sub64 b8 (add64 b9 (k 12)); let b9 := sub64 b9 (k 13)
    let tmp := b7 ^^^ b6; let b7 := ror64 tmp 47; let b6 := sub64 b6 (add64 b7 (k 10)); let b7 := sub64 b7 (k 11)
    let tmp := b5 ^^^ b4; let b5 := ror64 tmp 8; let b4 := sub64 b4 (add64 b5 (k 8)); let b5 := sub64 b5 (k 9)
    let tmp := b3 ^^^ b2; let b3 := ror64 tmp 13; let b2 := sub64 b2 (add64 b3 (k 6)); let b3 := sub64 b3 (k 7)
    let tmp := b1 ^^^ b0; let b1 := ror64 tmp 24; let b0 := sub64 b0 (add64 b1 (k 4)); let b1 := sub64 b1 (k 5)
    ⟨b0, b1, b2, b3, b4, b5, b6, b7, b8, b9, b10, b11, b12, b13, b14, b15⟩

/-- Lines 4430-4460 of `threefish_decrypt_1024`: the eight inverse MIX steps of round 15. -/
def dec_round_15 (k : Nat → Nat) (t0 : Nat) : State → State
  | ⟨b0, b1, b2, b3, b4, b5, b6, b7, b8, b9, b10, b11, b12, b13, b14, b15⟩ =>
    let tmp := b7 ^^^ b12; let b7 := ror64 tmp 20; let b12 := sub64 b12 b7
    let tmp := b3 ^^^ b10; let b3 := ror64 tmp 37; let b10 := sub64 b10 b3
    let tmp := b5 ^^^ b8; let b5 := ror64 tmp 31; let b8 := sub64 b8 b5
    let tmp := b1 ^^^ b14; let b1 := ror64 tmp 23; let b14 := sub64 b14 b1
    let tmp := b9 ^^^ b4; let b9 := ror64 tmp 52; let b4 := sub64 b4 b9
    let tmp := b13 ^^^ b6; let b13 := ror64 tmp 35; let b6 := sub64 b6 b13
    let tmp := b11 ^^^ b2; let b11 := ror64 tmp 48; let b2 := sub64 b2 b11
    let tmp := b15 ^^^ b0; let b15 := ror64 tmp 9; let b0 := sub64 b0 b15
    ⟨b0, b1, b2, b3, b4, b5, b6, b7, b8, b9, b10, b11, b12, b13, b14, b15⟩

/-- Lines 4462-4492 of `threefish_decrypt_1024`: the eight inverse MIX steps of round 14. -/
def dec_round_14 (k : Nat → Nat) (t0 : Nat) : State → State
  | ⟨b0, b1, b2, b3, b4, b5, b6, b7, b8, b9, b10, b11, b12, b13, b14, b15⟩ =>
    let tmp := b9 ^^^ b10; let b9 := ror64 tmp 25; let b10 := sub64 b10 b9
    let tmp := b11 ^^^ b8; let b11 := ror64 tmp 44; let b8 := sub64 b8 b11
    let tmp := b13 ^^^ b14; let b13 := ror64 tmp 42; let b14 := sub64 b14 b13
    let tmp := b15 ^^^ b12; let b15 := ror64 tmp 19; let b12 := sub64 b12 b15
    let tmp := b1 ^^^ b6; let b1 := ror64 tmp 46; let b6 := sub64 b6 b1
    let tmp := b3 ^^^ b4; let b3 := ror64 tmp 47; let b4 := sub64 b4 b3
    let tmp := b5 ^^^ b2; let b5 := ror64 tmp 44; let b2 := sub64 b2 b5
    let tmp := b7 ^^^ b0; let b7 := ror64 tmp 31; let b0 := sub64 b0 b7
    ⟨b0, b1, b2, b3, b4, b5, b6, b7, b8, b9, b10, b11, b12, b13, b14, b15⟩

/-- Lines 4494-4524 of `threefish_decrypt_1024`: the eight inverse MIX steps of round 13. -/
def dec_round_13 (k : Nat → Nat) (t0 : Nat) : State → State
  | ⟨b0, b1, b2, b3, b4, b5, b6, b7, b8, b9, b10, b11, b12, b13, b14, b15⟩ =>
    let tmp := b1 ^^^ b8; let b1 := ror64 tmp 41; let b8 := sub64 b8 b1
    let tmp := b5 ^^^ b14; let b5 := ror64 tmp 42; let b14 := sub64 b14 b5
    let tmp := b3 ^^^ b12; let b3 := ror64 tmp 53; let b12 := sub64 b12 b3
    let tmp := b7 ^^^ b10; let b7 := ror64 tmp 4; let b10 := sub64 b10 b7
    let tmp := b15 ^^^ b4; let b15 := ror64 tmp 51; let b4 := sub64 b4 b15
    let tmp := b11 ^^^ b6; let b11 := ror64 tmp 56; let b6 := sub64 b6 b11
    let tmp := b13 ^^^ b2; let b13 := ror64 tmp 34; let b2 := sub64 b2 b13
    let tmp := b9 ^^^ b0; let b9 := ror64 tmp 16; let b0 := sub64 b0 b9
    ⟨b0, b1, b2, b3, b4, b5, b6, b7, b8, b9, b10, b11, b12, b13, b14, b15⟩

/-- Lines 4526-4564 of `threefish_decrypt_1024`: the eight inverse MIX steps of round 12 fused with the subtraction of subkey 3. -/
def dec_round_12 (k : Nat → Nat) (t0 : Nat) : State → State
  | ⟨b0, b1, b2, b3, b4, b5, b6, b7, b8, b9, b10, b11, b12, b13, b14, b15⟩ =>
    let tmp := b15 ^^^ b14; let b15 := ror64 tmp 30; let b14 := sub64 b14 (add64 (add64 b15 (k 0)) t1); let b15 := sub64 b15 (add64 (k 1) 3)
    let tmp := b13 ^^^ b12; let b13 := ror64 tmp 44; let b12 := sub64 b12 (add64 b13 (k 15)); let b13 := sub64 b13 (add64 (k 16) t0)
    let tmp := b11 ^^^ b10; let b11 := ror64 tmp 47; let b10 := sub64 b10 (add64 b11 (k 13)); let b11 := sub64 b11 (k 14)
    let tmp := b9 ^^^ b8; let b9 := ror64 tmp 12; let b8 := sub64 b8 (add64 b9 (k 11)); let b9 := sub64 b9 (k 12)
    let tmp := b7 ^^^ b6; let b7 := ror64 tmp 31; let b6 := sub64 b6 (add64 b7 (k 9)); let b7 := sub64 b7 (k 10)
    let tmp := b5 ^^^ b4; let b5 := ror64 tmp 37; let b4 := sub64 b4 (add64 b5 (k 7)); let b5 := sub64 b5 (k 8)
    let tmp := b3 ^^^ b2; let b3 := ror64 tmp 9; let b2 := sub64 b2 (add64 b3 (k 5)); let b3 := sub64 b3 (k 6)
    let tmp := b1 ^^^ b0; let b1 := ror64 tmp 41; let b0 := sub64 b0 (add64 b1 (k 3)); let b1 := sub64 b1 (k 4)
    ⟨b0, b1, b2, b3, b4, b5, b6, b7, b8, b9, b10, b11, b12, b13, b14, b15⟩

/-- Lines 4566-4596 of `threefish_decrypt_1024`: the eight inverse MIX steps of round 11. -/
def dec_round_11 (k : Nat → Nat) (t0 : Nat) : State → State
  | ⟨b0, b1, b2, b3, b4, b5, b6, b7, b8, b9, b10, b11, b12, b13, b14, b15⟩ =>
    let tmp := b7 ^^^ b12; let b7 := ror64 tmp 25; let b12 := sub64 b12 b7
    let tmp := b3 ^^^ b10; let b3 := ror64 tmp 16; let b10 := sub64 b10 b3
    let tmp := b5 ^^^ b8; let b5 := ror64 tmp 28; let b8 := sub64 b8 b5
    let tmp := b1 ^^^ b14; let b1 := ror64 tmp 47; let b14 := sub64 b14 b1
    let tmp := b9 ^^^ b4; let b9 := ror64 tmp 41; let b4 := sub64 b4 b9
    let tmp := b13 ^^^ b6; let b13 := ror64 tmp 48; let b6 := sub64 b6 b13
    let tmp := b11 ^^^ b2; let b11 := ror64 tmp 20; let b2 := sub64 b2 b11
    let tmp := b15 ^^^ b0; let b15 := ror64 tmp 5; let b0 := sub64 b0 b15
    ⟨b0, b1, b2, b3, b4, b5, b6, b7, b8, b9, b10, b11, b12, b13, b14, b15⟩

/-- Lines 4598-4628 of `threefish_decrypt_1024`: the eight inverse MIX steps of round 10. -/
def dec_round_10 (k : Nat → Nat) (t0 : Nat) : State → State
  | ⟨b0, b1, b2, b3, b4, b5, b6, b7, b8, b9, b10, b11, b12, b13, b14, b15⟩ =>
    let tmp := b9 ^^^ b10; let b9 := ror64 tmp 17; let b10 := sub64 b10 b9
    let tmp := b11 ^^^ b8; let b11 := ror64 tmp 59; let b8 := sub64 b8 b11
    let tmp := b13 ^^^ b14; let b13 := ror64 tmp 41; let b14 := sub64 b14 b13
    let tmp := b15 ^^^ b12; let b15 := ror64 tmp 34; let b12 := sub64 b12 b15
    let tmp := b1 ^^^ b6; let b1 := ror64 tmp 13; let b6 := sub64 b6 b1
    let tmp := b3 ^^^ b4; let b3 := ror64 tmp 51; let b4 := sub64 b4 b3
    let tmp := b5 ^^^ b2; let b5 := ror64 tmp 4; let b2 := sub64 b2 b5
    let tmp := b7 ^^^ b0; let b7 := ror64 tmp 33; let b0 := sub64 b0 b7
    ⟨b0, b1, b2, b3, b4, b5, b6, b7, b8, b9, b10, b11, b12, b13, b14, b15⟩

/-- Lines 4630-4660 of `threefish_decrypt_1024`: the eight inverse MIX steps of round 9. -/
def dec_round_9 (k : Nat → Nat) (t0 : Nat) : State → State
  | ⟨b0, b1, b2, b3, b4, b5, b6, b7, b8, b9, b10, b11, b12, b13, b14, b15⟩ =>
    let tmp := b1 ^^^ b8; let b1 := ror64 tmp 52; let b8 := sub64 b8 b1
    let tmp := b5 ^^^ b14; let b5 := ror64 tmp 23; let b14 := sub64 b14 b5
    let tmp := b3 ^^^ b12; let b3 := ror64 tmp 18; let b12 := sub64 b12 b3
    let tmp := b7 ^^^ b10; let b7 := ror64 tmp 49; let b10 := sub64 b10 b7
    let tmp := b15 ^^^ b4; let b15 := ror64 tmp 55; let b4 := sub64 b4 b15
    let tmp := b11 ^^^ b6; let b11 := ror64 tmp 10; let b6 := sub64 b6 b11
    let tmp := b13 ^^^ b2; let b13 := ror64 tmp 19; let b2 := sub64 b2 b13
    let tmp := b9 ^^^ b0; let b9 := ror64 tmp 38; let b0 := sub64 b0 b9
    ⟨b0, b1, b2, b3, b4, b5, b6, b7, b8, b9, b10, b11, b12, b13, b14, b15⟩

/-- Lines 4662-4700 of `threefish_decrypt_1024`: the eight inverse MIX steps of round 8 fused with the subtraction of subkey 2. -/
def dec_round_8 (k : Nat → Nat) (t0 : Nat) : State → State
  | ⟨b0, b1, b2, b3, b4, b5, b6, b7, b8, b9, b10, b11, b12, b13, b14, b15⟩ =>
    let tmp := b15 ^^^ b14; let b15 := ror64 tmp 37; let b14 := sub64 b14 (add64 (add64 b15 (k 16)) t0); let b15 := sub64 b15 (add64 (k 0) 2)
    let tmp := b13 ^^^ b12; let b13 := ror64 tmp 22; let b12 := sub64 b12 (add64 b13 (k 14)); let b13 := sub64 b13 (add64 (k 15) (t2 t0))
    let tmp := b11 ^^^ b10; let b11 := ror64 tmp 17; let b10 := sub64 b10 (add64 b11 (k 12)); let b11 := sub64 b11 (k 13)
    let tmp := b9 ^^^ b8; let b9 := ror64 tmp 8; let b8 := sub64 b8 (add64 b9 (k 10)); let b9 := sub64 b9 (k 11)
    let tmp := b7 ^^^ b6; let b7 := ror64 tmp 47; let b6 := sub64 b6 (add64 b7 (k 8)); let b7 := sub64 b7 (k 9)
    let tmp := b5 ^^^ b4; let b5 := ror64 tmp 8; let b4 := sub64 b4 (add64 b5 (k 6)); let b5 := sub64 b5 (k 7)
    let tmp := b3 ^^^ b2; let b3 := ror64 tmp 13; let b2 := sub64 b2 (add64 b3 (k 4)); let b3 := sub64 b3 (k 5)
    let tmp := b1 ^^^ b0; let b1 := ror64 tmp 24; let b0 := sub64 b0 (add64 b1 (k 2)); let b1 := sub64 b1 (k 3)
    ⟨b0, b1, b2, b3, b4, b5, b6, b7, b8, b9, b10, b11, b12, b13, b14, b15⟩

/-- Lines 4702-4732 of `threefish_decrypt_1024`: the eight inverse MIX steps of round 7. -/
def dec_round_7 (k : Nat → Nat) (t0 : Nat) : State → State
  | ⟨b0, b1, b2, b3, b4, b5, b6, b7, b8, b9, b10, b11, b12, b13, b14, b15⟩ =>
    let tmp := b7 ^^^ b12; let b7 := ror64 tmp 20; let b12 := sub64 b12 b7
    let tmp := b3 ^^^ b10; let b3 := ror64 tmp 37; let b10 := sub64 b10 b3
    let tmp := b5 ^^^ b8; let b5 := ror64 tmp 31; let b8 := sub64 b8 b5
    let tmp := b1 ^^^ b14; let b1 := ror64 tmp 23; let b14 := sub64 b14 b1
    let tmp := b9 ^^^ b4; let b9 := ror64 tmp 52; let b4 := sub64 b4 b9
    let tmp := b13 ^^^ b6; let b13 := ror64 tmp 35; let b6 := sub64 b6 b13
    let tmp := b11 ^^^ b2; let b11 := ror64 tmp 48; let b2 := sub64 b2 b11
    let tmp := b15 ^^^ b0; let b15 := ror64 tmp 9; let b0 := sub64 b0 b15
    ⟨b0, b1, b2, b3, b4, b5, b6, b7, b8, b9, b10, b11, b12, b13, b14, b15⟩

/-- Lines 4734-4764 of `threefish_decrypt_1024`: the eight inverse MIX steps of round 6. -/
def dec_round_6 (k : Nat → Nat) (t0 : Nat) : State → State
  | ⟨b0, b1, b2, b3, b4, b5, b6, b7, b8, b9, b10, b11, b12, b13, b14, b15⟩ =>
    let tmp := b9 ^^^ b10; let b9 := ror64 tmp 25; let b10 := sub64 b10 b9
    let tmp := b11 ^^^ b8; let b11 := ror64 tmp 44; let b8 := sub64 b8 b11
    let tmp := b13 ^^^ b14; let b13 := ror64 tmp 42; let b14 := sub64 b14 b13
    let tmp := b15 ^^^ b12; let b15 := ror64 tmp 19; let b12 := sub64 b12 b15
    let tmp := b1 ^^^ b6; let b1 := ror64 tmp 46; let b6 := sub64 b6 b1
    let tmp := b3 ^^^ b4; let b3 := ror64 tmp 47; let b4 := sub64 b4 b3
    let tmp := b5 ^^^ b2; let b5 := ror64 tmp 44; let b2 := sub64 b2 b5
    let tmp := b7 ^^^ b0; let b7 := ror64 tmp 31; let b0 := sub64 b0 b7
    ⟨b0, b1, b2, b3, b4, b5, b6, b7, b8, b9, b10, b11, b12, b13, b14, b15⟩

/-- Lines 4766-4796 of `threefish_decrypt_1024`: the eight inverse MIX steps of round 5. -/
def dec_round_5 (k : Nat → Nat) (t0 : Nat) : State → State
  | ⟨b0, b1, b2, b3, b4, b5, b6, b7, b8, b9, b10, b11, b12, b13, b14, b15⟩ =>
    let tmp := b1 ^^^ b8; let b1 := ror64 tmp 41; let b8 := sub64 b8 b1
    let tmp := b5 ^^^ b14; let b5 := ror64 tmp 42; let b14 := sub64 b14 b5
    let tmp := b3 ^^^ b12; let b3 := ror64 tmp 53; let b12 := sub64 b12 b3
    let tmp := b7 ^^^ b10; let b7 := ror64 tmp 4; let b10 := sub64 b10 b7
    let tmp := b15 ^^^ b4; let b15 := ror64 tmp 51; let b4 := sub64 b4 b15
    let tmp := b11 ^^^ b6; let b11 := ror64 tmp 56; let b6 := sub64 b6 b11
    let tmp := b13 ^^^ b2; let b13 := ror64 tmp 34; let b2 := sub64 b2 b13
    let tmp := b9 ^^^ b0; let b9 := ror64 tmp 16; let b0 := sub64 b0 b9
    ⟨b0, b1, b2, b3, b4, b5, b6, b7, b8, b9, b10, b11, b12, b13, b14, b15⟩

/-- Lines 4798-4836 of `threefish_decrypt_1024`: the eight inverse MIX steps of round 4 fused with the subtraction of subkey 1. -/
def dec_round_4 (k : Nat → Nat) (t0 : Nat) : State → State
  | ⟨b0, b1, b2, b3, b4, b5, b6, b7, b8, b9, b10, b11, b12, b13, b14, b15⟩ =>
    let tmp := b15 ^^^ b14; let b15 := ror64 tmp 30; let b14 := sub64 b14 (add64 (add64 b15 (k 15)) (t2 t0)); let b15 := sub64 b15 (add64 (k 16) 1)
    let tmp := b13 ^^^ b12; let b13 := ror64 tmp 44; let b12 := sub64 b12 (add64 b13 (k 13)); let b13 := sub64 b13 (add64 (k 14) t1)
    let tmp := b11 ^^^ b10; let b11 := ror64 tmp 47; let b10 := sub64 b10 (add64 b11 (k 11)); let b11 := sub64 b11 (k 12)
    let tmp := b9 ^^^ b8; let b9 := ror64 tmp 12; let b8 := sub64 b8 (add64 b9 (k 9)); let b9 := sub64 b9 (k 10)
    let tmp := b7 ^^^ b6; let b7 := ror64 tmp 31; let b6 := sub64 b6 (add64 b7 (k 7)); let b7 := sub64 b7 (k 8)
    let tmp := b5 ^^^ b4; let b5 := ror64 tmp 37; let b4 := sub64 b4 (add64 b5 (k 5)); let b5 := sub64 b5 (k 6)
    let tmp := b3 ^^^ b2; let b3 := ror64 tmp 9; let b2 := sub64 b2 (add64 b3 (k 3)); let b3 := sub64 b3 (k 4)
    let tmp := b1 ^^^ b0; let b1 := ror64 tmp 41; let b0 := sub64 b0 (add64 b1 (k 1)); let b1 := sub64 b1 (k 2)
    ⟨b0, b1, b2, b3, b4, b5, b6, b7, b8, b9, b10, b11, b12, b13, b14, b15⟩

/-- Lines 4838-4868 of `threefish_decrypt_1024`: the eight inverse MIX steps of round 3. -/
def dec_round_3 (k : Nat → Nat) (t0 : Nat) : State → State
  | ⟨b0, b1, b2, b3, b4, b5, b6, b7, b8, b9, b10, b11, b12, b13, b14, b15⟩ =>
    let tmp := b7 ^^^ b12; let b7 := ror64 tmp 25; let b12 := sub64 b12 b7
    let tmp := b3 ^^^ b10; let b3 := ror64 tmp 16; let b10 := sub64 b10 b3
    let tmp := b5 ^^^ b8; let b5 := ror64 tmp 28; let b8 := sub64 b8 b5
    let tmp := b1 ^^^ b14; let b1 := ror64 tmp 47; let b14 := sub64 b14 b1
    let tmp := b9 ^^^ b4; let b9 := ror64 tmp 41; let b4 := sub64 b4 b9
    let tmp := b13 ^^^ b6; let b13 := ror64 tmp 48; let b6 := sub64 b6 b13
    let tmp := b11 ^^^ b2; let b11 := ror64 tmp 20; let b2 := sub64 b2 b11
    let tmp := b15 ^^^ b0; let b15 := ror64 tmp 5; let b0 := sub64 b0 b15
    ⟨b0, b1, b2, b3, b4, b5, b6, b7, b8, b9, b10, b11, b12, b13, b14, b15⟩

/-- Lines 4870-4900 of `threefish_decrypt_1024`: the eight inverse MIX steps of round 2. -/
def dec_round_2 (k : Nat → Nat) (t0 : Nat) : State → State
  | ⟨b0, b1, b2, b3, b4, b5, b6, b7, b8, b9, b10, b11, b12, b13, b14, b15⟩ =>
    let tmp := b9 ^^^ b10; let b9 := ror64 tmp 17; let b10 := sub64 b10 b9
    let tmp := b11 ^^^ b8; let b11 := ror64 tmp 59; let b8 := sub64 b8 b11
    let tmp := b13 ^^^ b14; let b13 := ror64 tmp 41; let b14 := sub64 b14 b13
    let tmp := b15 ^^^ b12; let b15 := ror64 tmp 34; let b12 := sub64 b12 b15
    let tmp := b1 ^^^ b6; let b1 := ror64 tmp 13; let b6 := sub64 b6 b1
    let tmp := b3 ^^^ b4; let b3 := ror64 tmp 51; let b4 := sub64 b4 b3
    let tmp := b5 ^^^ b2; let b5 := ror64 tmp 4; let b2 := sub64 b2 b5
    let tmp := b7 ^^^ b0; let b7 := ror64 tmp 33; let b0 := sub64 b0 b7
    ⟨b0, b1, b2, b3, b4, b5, b6, b7, b8, b9, b10, b11, b12, b13, b14, b15⟩

/-- Lines 4902-4932 of `threefish_decrypt_1024`: the eight inverse MIX steps of round 1. -/
def dec_round_1 (k : Nat → Nat) (t0 : Nat) : State → State
  | ⟨b0, b1, b2, b3, b4, b5, b6, b7, b8, b9, b10, b11, b12, b13, b14, b15⟩ =>
    let tmp := b1 ^^^ b8; let b1 := ror64 tmp 52; let b8 := sub64 b8 b1
    let tmp := b5 ^^^ b14; let b5 := ror64 tmp 23; let b14 := sub64 b14 b5
    let tmp := b3 ^^^ b12; let b3 := ror64 tmp 18; let b12 := sub64 b12 b3
    let tmp := b7 ^^^ b10; let b7 := ror64 tmp 49; let b10 := sub64 b10 b7
    let tmp := b15 ^^^ b4; let b15 := ror64 tmp 55; let b4 := sub64 b4 b15
    let tmp := b11 ^^^ b6; let b11 := ror64 tmp 10; let b6 := sub64 b6 b11
    let tmp := b13 ^^^ b2; let b13 := ror64 tmp 19; let b2 := sub64 b2 b13
    let tmp := b9 ^^^ b0; let b9 := ror64 tmp 38; let b0 := sub64 b0 b9
    ⟨b0, b1, b2, b3, b4, b5, b6, b7, b8, b9, b10, b11, b12, b13, b14, b15⟩

/-- Lines 4934-4972 of `threefish_decrypt_1024`: the eight inverse MIX steps of round 0 fused with the subtraction of subkey 0. -/
def dec_round_0 (k : Nat → Nat) (t0 : Nat) : State → State
  | ⟨b0, b1, b2, b3, b4, b5, b6, b7, b8, b9, b10, b11, b12, b13, b14, b15⟩ =>
    let tmp := b15 ^^^ b14; let b15 := ror64 tmp 37; let b14 := sub64 b14 (add64 (add64 b15 (k 14)) t1); let b15 := sub64 b15 (k 15)
    let tmp := b13 ^^^ b12; let b13 := ror64 tmp 22; let b12 := sub64 b12 (add64 b13 (k 12)); let b13 := sub64 b13 (add64 (k 13) t0)
    let tmp := b11 ^^^ b10; let b11 := ror64 tmp 17; let b10 := sub64 b10 (add64 b11 (k 10)); let b11 := sub64 b11 (k 11)
    let tmp := b9 ^^^ b8; let b9 := ror64 tmp 8; let b8 := sub64 b8 (add64 b9 (k 8)); let b9 := sub64 b9 (k 9)
    let tmp := b7 ^^^ b6; let b7 := ror64 tmp 47; let b6 := sub64 b6 (add64 b7 (k 6)); let b7 := sub64 b7 (k 7)
    let tmp := b5 ^^^ b4; let b5 := ror64 tmp 8; let b4 := sub64 b4 (add64 b5 (k 4)); let b5 := sub64 b5 (k 5)
    let tmp := b3 ^^^ b2; let b3 := ror64 tmp 13; let b2 := sub64 b2 (add64 b3 (k 2)); let b3 := sub64 b3 (k 3)
    let tmp := b1 ^^^ b0; let b1 := ror64 tmp 24; let b0 := sub64 b0 (add64 b1 (k 0)); let b1 := sub64 b1 (k 1)
    ⟨b0, b1, b2, b3, b4, b5, b6, b7, b8, b9, b10, b11, b12, b13, b14, b15⟩

/-- The locals `k0 .. k16`: `k i` is the value loaded from `key_ctx->key[i]`. -/
def load_key (key_ctx : threefish_key) : Nat → Nat := fun i => key_ctx.key.getD i 0

/-- The sixteen words `input[0] .. input[15]` as read into the locals. -/
def load_block (input : List Nat) : State :=
  ⟨input.getD 0 0, input.getD 1 0, input.getD 2 0, input.getD 3 0,
   input.getD 4 0, input.getD 5 0, input.getD 6 0, input.getD 7 0,
   input.getD 8 0, input.getD 9 0, input.getD 10 0, input.getD 11 0,
   input.getD 12 0, input.getD 13 0, input.getD 14 0, input.getD 15 0⟩

/-- The sixteen words written to `output[0] .. output[15]`. -/
def store_block : State → List Nat
  | ⟨b0, b1, b2, b3, b4, b5, b6, b7, b8, b9, b10, b11, b12, b13, b14, b15⟩ =>
    [b0, b1, b2, b3, b4, b5, b6, b7, b8, b9, b10, b11, b12, b13, b14, b15]

/-- Application of a word conversion to each of the sixteen locals. -/
def State.map (f : Nat → Nat) : State → State
  | ⟨b0, b1, b2, b3, b4, b5, b6, b7, b8, b9, b10, b11, b12, b13, b14, b15⟩ =>
    ⟨f b0, f b1, f b2, f b3, f b4, f b5, f b6, f b7, f b8, f b9, f b10, f b11, f b12, f b13,
     f b14, f b15⟩

/-- The straight-line body of `threefish_encrypt_1024` between the loads and the stores (lines 112-2192): rounds 0 to 79 in source order. -/
def enc_rounds (k : Nat → Nat) (t0 : Nat) (s : State) : State :=
  let s := enc_round_0 k t0 s
  let s := enc_round_1 k t0 s
  let s := enc_round_2 k t0 s
  let s := enc_round_3 k t0 s
  let s := enc_round_4 k t0 s
  let s := enc_round_5 k t0 s
  let s := enc_round_6 k t0 s
  let s := enc_round_7 k t0 s
  let s := enc_round_8 k t0 s
  let s := enc_round_9 k t0 s
  let s := enc_round_10 k t0 s
  let s := enc_round_11 k t0 s
  let s := enc_round_12 k t0 s
  let s := enc_round_13 k t0 s
  let s := enc_round_14 k t0 s
  let s := enc_round_15 k t0 s
  let s := enc_round_16 k t0 s
  let s := enc_round_17 k t0 s
  let s := enc_round_18 k t0 s
  let s := enc_round_19 k t0 s
  let s := enc_round_20 k t0 s
  let s := enc_round_21 k t0 s
  let s := enc_round_22 k t0 s
  let s := enc_round_23 k t0 s
  let s := enc_round_24 k t0 s
  let s := enc_round_25 k t0 s
  let s := enc_round_26 k t0 s
  let s := enc_round_27 k t0 s
  let s := enc_round_28 k t0 s
  let s := enc_round_29 k t0 s
  let s := enc_round_30 k t0 s
  let s := enc_round_31 k t0 s
  let s := enc_round_32 k t0 s
  let s := enc_round_33 k t0 s
  let s := enc_round_34 k t0 s
  let s := enc_round_35 k t0 s
  let s := enc_round_36 k t0 s
  let s := enc_round_37 k t0 s
  let s := enc_round_38 k t0 s
  let s := enc_round_39 k t0 s
  let s := enc_round_40 k t0 s
  let s := enc_round_41 k t0 s
  let s := enc_round_42 k t0 s
  let s := enc_round_43 k t0 s
  let s := enc_round_44 k t0 s
  let s := enc_round_45 k t0 s
  let s := enc_round_46 k t0 s
  let s := enc_round_47 k t0 s
  let s := enc_round_48 k t0 s
  let s := enc_round_49 k t0 s
  let s := enc_round_50 k t0 s
  let s := enc_round_51 k t0 s
  let s := enc_round_52 k t0 s
  let s := enc_round_53 k t0 s
  let s := enc_round_54 k t0 s
  let s := enc_round_55 k t0 s
  let s := enc_round_56 k t0 s
  let s := enc_round_57 k t0 s
  let s := enc_round_58 k t0 s
  let s := enc_round_59 k t0 s
  let s := enc_round_60 k t0 s
  let s := enc_round_61 k t0 s
  let s := enc_round_62 k t0 s
  let s := enc_round_63 k t0 s
  let s := enc_round_64 k t0 s
  let s := enc_round_65 k t0 s
  let s := enc_round_66 k t0 s
  let s := enc_round_67 k t0 s
  let s := enc_round_68 k t0 s
  let s := enc_round_69 k t0 s
  let s := enc_round_70 k t0 s
  let s := enc_round_71 k t0 s
  let s := enc_round_72 k t0 s
  let s := enc_round_73 k t0 s
  let s := enc_round_74 k t0 s
  let s := enc_round_75 k t0 s
  let s := enc_round_76 k t0 s
  let s := enc_round_77 k t0 s
  let s := enc_round_78 k t0 s
  let s := enc_round_79 k t0 s
  s

/-- The C function `threefish_encrypt_1024` on a host `h`; the result is `output[0..15]`. -/
def threefish_encrypt_1024 (h : Host) (key_ctx : threefish_key) (input : List Nat) (t0 : Nat) :
    List Nat :=
  let b := State.map (le64_to_cpu h) (load_block input)
  let k := load_key key_ctx
  let b := enc_rounds k t0 b
  store_block (State.map (cpu_to_le64 h) (enc_output k t0 b))

/-- The straight-line body of `threefish_decrypt_1024` between the loads and the stores (lines 2238-4972): the subtraction of subkey 20, then rounds 79 down to 0 in source order. -/
def dec_rounds (k : Nat → Nat) (t0 : Nat) (s : State) : State :=
  let s := dec_subkey_20 k t0 s
  let s := dec_round_79 k t0 s
  let s := dec_round_78 k t0 s
  let s := dec_round_77 k t0 s
  let s := dec_round_76 k t0 s
  let s := dec_round_75 k t0 s
  let s := dec_round_74 k t0 s
  let s := dec_round_73 k t0 s
  let s := dec_round_72 k t0 s
  let s := dec_round_71 k t0 s
  let s := dec_round_70 k t0 s
  let s := dec_round_69 k t0 s
  let s := dec_round_68 k t0 s
  let s := dec_round_67 k t0 s
  let s := dec_round_66 k t0 s
  let s := dec_round_65 k t0 s
  let s := dec_round_64 k t0 s
  let s := dec_round_63 k t0 s
  let s := dec_round_62 k t0 s
  let s := dec_round_61 k t0 s
  let s := dec_round_60 k t0 s
  let s := dec_round_59 k t0 s
  let s := dec_round_58 k t0 s
  let s := dec_round_57 k t0 s
  let s := dec_round_56 k t0 s
  let s := dec_round_55 k t0 s
  let s := dec_round_54 k t0 s
  let s := dec_round_53 k t0 s
  let s := dec_round_52 k t0 s
  let s := dec_round_51 k t0 s
  let s := dec_round_50 k t0 s
  let s := dec_round_49 k t0 s
  let s := dec_round_48 k t0 s
  let s := dec_round_47 k t0 s
  let s := dec_round_46 k t0 s
  let s := dec_round_45 k t0 s
  let s := dec_round_44 k t0 s
  let s := dec_round_43 k t0 s
  let s := dec_round_42 k t0 s
  let s := dec_round_41 k t0 s
  let s := dec_round_40 k t0 s
  let s := dec_round_39 k t0 s
  let s := dec_round_38 k t0 s
  let s := dec_round_37 k t0 s
  let s := dec_round_36 k t0 s
  let s := dec_round_35 k t0 s
  let s := dec_round_34 k t0 s
  let s := dec_round_33 k t0 s
  let s := dec_round_32 k t0 s
  let s := dec_round_31 k t0 s
  let s := dec_round_30 k t0 s
  let s := dec_round_29 k t0 s
  let s := dec_round_28 k t0 s
  let s := dec_round_27 k t0 s
  let s := dec_round_26 k t0 s
  let s := dec_round_25 k t0 s
  let s := dec_round_24 k t0 s
  let s := dec_round_23 k t0 s
  let s := dec_round_22 k t0 s
  let s := dec_round_21 k t0 s
  let s := dec_round_20 k t0 s
  let s := dec_round_19 k t0 s
  let s := dec_round_18 k t0 s
  let s := dec_round_17 k t0 s
  let s := dec_round_16 k t0 s
  let s := dec_round_15 k t0 s
  let s := dec_round_14 k t0 s
  let s := dec_round_13 k t0 s
  let s := dec_round_12 k t0 s
  let s := dec_round_11 k t0 s
  let s := dec_round_10 k t0 s
  let s := dec_round_9 k t0 s
  let s := dec_round_8 k t0 s
  let s := dec_round_7 k t0 s
  let s := dec_round_6 k t0 s
  let s := dec_round_5 k t0 s
  let s := dec_round_4 k t0 s
  let s := dec_round_3 k t0 s
  let s := dec_round_2 k t0 s
  let s := dec_round_1 k t0 s
  let s := dec_round_0 k t0 s
  s

/-- The C function `threefish_decrypt_1024`; the result is `output[0..15]`.  The source applies no byte-order conversion here, so the host does not enter. -/
def threefish_decrypt_1024 (key_ctx : threefish_key) (input : List Nat) (t0 : Nat) : List Nat :=
  let b := load_block input
  let k := load_key key_ctx
  let b := dec_rounds k t0 b
  store_block b

/-! ## The table-driven reference cipher -/

/-- The rotation constants of Threefish-1024, one row per round number modulo 8, one entry per
MIX position. -/
def R_1024 : List (List Nat) :=
  [[24, 13, 8, 47, 8, 17, 22, 37],
   [38, 19, 10, 55, 49, 18, 23, 52],
   [33, 4, 51, 13, 34, 41, 59, 17],
   [5, 20, 48, 41, 47, 28, 16, 25],
   [41, 9, 37, 31, 12, 47, 44, 30],
   [16, 34, 56, 51, 4, 53, 42, 41],
   [31, 44, 47, 46, 19, 42, 44, 25],
   [9, 48, 35, 52, 23, 31, 37, 20]]

/-- The word permutation of Threefish-1024: word `i` of the permuted state is word `PI_1024[i]`
of the state before. -/
def PI_1024 : List Nat := [0, 9, 2, 13, 6, 11, 4, 15, 10, 7, 12, 3, 14, 5, 8, 1]

/-- The three tweak words `(t0, 0, t0)`. -/
def ref_tweak (t0 : Nat) : List Nat := [t0, 0, t0]

/-- The rotation amount of MIX position `j` in round `d`. -/
def ref_rot (d j : Nat) : Nat := (R_1024.getD (d % 8) []).getD j 0

/-- Word `i` of subkey `s`: `K[(s + i) mod 17]`, plus a tweak word for words 13 and 14 and the
step number for word 15. -/
def ref_subkey (K : List Nat) (t0 s i : Nat) : Nat :=
  if i = 13 then add64 (K.getD ((s + i) % 17) 0) ((ref_tweak t0).getD (s % 3) 0)
  else if i = 14 then add64 (K.getD ((s + i) % 17) 0) ((ref_tweak t0).getD ((s + 1) % 3) 0)
  else if i = 15 then add64 (K.getD ((s + i) % 17) 0) s
  else K.getD ((s + i) % 17) 0

/-- Addition of subkey `s` to the sixteen state words. -/
def ref_add_subkey (K : List Nat) (t0 s : Nat) (v : List Nat) : List Nat :=
  (List.range 16).map fun i => add64 (v.getD i 0) (ref_subkey K t0 s i)

/-- The MIX function with rotation `r`: `(a, b)` becomes `(a + b, rol(b, r) XOR (a + b))`. -/
def ref_mix (r a b : Nat) : Nat × Nat := (add64 a b, rol64 b r ^^^ add64 a b)

/-- The eight MIX functions of round `d`, applied to the word pairs `(2j, 2j + 1)`. -/
def ref_mix_layer (d : Nat) (v : List Nat) : List Nat :=
  (List.range 16).map fun i =>
    let m := ref_mix (ref_rot d (i / 2)) (v.getD (2 * (i / 2)) 0) (v.getD (2 * (i / 2) + 1) 0)
    if i % 2 = 0 then m.1 else m.2

/-- The word permutation applied to a state. -/
def ref_permute (v : List Nat) : List Nat := PI_1024.map fun j => v.getD j 0

/-- Round `d` of the reference cipher: subkey `d / 4` is added first when `d` is a multiple of
4, then the MIX layer and the word permutation follow. -/
def ref_round (K : List Nat) (t0 d : Nat) (v : List Nat) : List Nat :=
  ref_permute (ref_mix_layer d (if d % 4 = 0 then ref_add_subkey K t0 (d / 4) v else v))

/-- The reference with `rounds` rounds (a multiple of 4): the rounds in order, then the final
subkey `rounds / 4`. -/
def ref_encrypt_rounds (rounds : Nat) (K : List Nat) (t0 : Nat) (b : List Nat) : List Nat :=
  ref_add_subkey K t0 (rounds / 4) ((List.range rounds).foldl (fun v d => ref_round K t0 d v) b)

/-- Reference Threefish-1024 encryption: 80 rounds, subkeys 0 to 19 before rounds 0, 4, .., 76
and subkey 20 at the end. -/
def ref_encrypt (K : List Nat) (t0 : Nat) (b : List Nat) : List Nat :=
  ref_encrypt_rounds 80 K t0 b

/-- The state words in the order the reference holds them after `m` rounds: the unrolled code
leaves the permutation to the naming of its locals. -/
def ref_view (m : Nat) (s : State) : List Nat := Nat.iterate ref_permute m (store_block s)

/-! ## The table-driven reference inverse -/

/-- The inverse of `PI_1024`: word `PI_1024[i]` of the unpermuted state is word `i` of the state
before. -/
def PI_1024_inv : List Nat := (List.range 16).map fun j => PI_1024.indexOf j

/-- Subtraction of subkey `s` from the sixteen state words. -/
def ref_sub_subkey (K : List Nat) (t0 s : Nat) (v : List Nat) : List Nat :=
  (List.range 16).map fun i => sub64 (v.getD i 0) (ref_subkey K t0 s i)

/-- The inverse MIX function with rotation `r`: `b_pre = ror(b XOR a, r)`, `a_pre = a - b_pre`;
the result is `(a_pre, b_pre)`. -/
def ref_unmix (r a b : Nat) : Nat × Nat := (sub64 a (ror64 (b ^^^ a) r), ror64 (b ^^^ a) r)

/-- The eight inverse MIX functions of round `d`, applied to the word pairs `(2j, 2j + 1)`. -/
def ref_unmix_layer (d : Nat) (v : List Nat) : List Nat :=
  (List.range 16).map fun i =>
    let m := ref_unmix (ref_rot d (i / 2)) (v.getD (2 * (i / 2)) 0) (v.getD (2 * (i / 2) + 1) 0)
    if i % 2 = 0 then m.1 else m.2

/-- The inverse word permutation applied to a state. -/
def ref_unpermute (v : List Nat) : List Nat := PI_1024_inv.map fun j => v.getD j 0

/-- The inverse of round `d` of the reference cipher: the inverse permutation, the inverse MIX
layer, then the subtraction of subkey `d / 4` when `d` is a multiple of 4. -/
def ref_round_inv (K : List Nat) (t0 d : Nat) (v : List Nat) : List Nat :=
  let u := ref_unmix_layer d (ref_unpermute v)
  if d % 4 = 0 then ref_sub_subkey K t0 (d / 4) u else u

/-- Reference Threefish-1024 decryption: subkey 20 is subtracted, then the rounds are inverted
from round 79 down to round 0. -/
def ref_decrypt (K : List Nat) (t0 : Nat) (c : List Nat) : List Nat :=
  (List.range 80).foldl (fun v n => ref_round_inv K t0 (79 - n) v) (ref_sub_subkey K t0 20 c)
/-- Every local holds a 64-bit value. -/
def State.wf (s : State) : Prop :=
  s.b0 < 2 ^ 64 ∧ s.b1 < 2 ^ 64 ∧ s.b2 < 2 ^ 64 ∧ s.b3 < 2 ^ 64 ∧ s.b4 < 2 ^ 64 ∧
  s.b5 < 2 ^ 64 ∧ s.b6 < 2 ^ 64 ∧ s.b7 < 2 ^ 64 ∧ s.b8 < 2 ^ 64 ∧ s.b9 < 2 ^ 64 ∧
  s.b10 < 2 ^ 64 ∧ s.b11 < 2 ^ 64 ∧ s.b12 < 2 ^ 64 ∧ s.b13 < 2 ^ 64 ∧ s.b14 < 2 ^ 64 ∧
  s.b15 < 2 ^ 64

/-! ## The single-block key-set entry point -/

/-- Modelled from the spec: the errno value `EINVAL` of the kernel headers, which the source
includes but does not define. -/
def EINVAL : Int := 22

/-- Modelled from the spec: the flag `CRYPTO_TFM_RES_BAD_KEY_LEN` of `linux/crypto.h`, which the
source includes but does not define. -/
def CRYPTO_TFM_RES_BAD_KEY_LEN : Nat := 0x00200000

/-- The part of `struct crypto_tfm` the module touches: the flag word `crt_flags` and the
context area returned by `crypto_tfm_ctx`, which holds the `struct threefish_key`. -/
structure crypto_tfm where
  crt_flags : Nat
  ctx : threefish_key
  deriving DecidableEq, Repr

/-- The eight bytes of a 64-bit word, least significant first. -/
def le_bytes (w : Nat) : List Nat := (List.range 8).map fun j => w / 256 ^ j % 256

/-- The value of a byte string read least significant byte first. -/
def le_value (bs : List Nat) : Nat := bs.foldr (fun b acc => b + 256 * acc) 0

/-- The bytes a `u64` occupies in memory on host `h`, lowest address first. -/
def u64_bytes (h : Host) (w : Nat) : List Nat :=
  match h with
  | .little => le_bytes w
  | .big => (le_bytes w).reverse

/-- The word `((u64 *)p)[i]` read on host `h` from the byte array `p`. -/
def load_u64 (h : Host) (p : List Nat) (i : Nat) : Nat :=
  match h with
  | .little => le_value ((List.range 8).map fun j => p.getD (8 * i + j) 0)
  | .big => le_value ((List.range 8).map fun j => p.getD (8 * i + j) 0).reverse

/-- The C function `cia_threefish1024_setkey`: the returned `int` and the transform object
after the call.  `key` is the byte array the pointer `key` refers to. -/
def cia_threefish1024_setkey (h : Host) (tfm : crypto_tfm) (key : List Nat) (key_len : Nat) :
    Int × crypto_tfm :=
  if key_len ≠ 128 then
    (-EINVAL, { tfm with crt_flags := tfm.crt_flags ||| CRYPTO_TFM_RES_BAD_KEY_LEN })
  else
    (0, { tfm with
            ctx := threefishSetKey1024 h tfm.ctx ((List.range 16).map fun i => load_u64 h key i) })

/-! ## Concrete inputs -/

/-- The all-zero 1024-bit key as sixteen words. -/
def zero_key : List Nat := List.replicate 16 0

/-- The all-zero 1024-bit block as sixteen words. -/
def zero_block : List Nat := List.replicate 16 0

/-- A key context before any key has been set. -/
def blank_ctx : threefish_key := ⟨List.replicate 17 0⟩

/-- The key context of the all-zero key. -/
def zero_key_ctx : threefish_key := ⟨List.replicate 16 0 ++ [KeyScheduleConst]⟩

/-- A block of sixteen distinct words, the last one with all 64 bits set. -/
def sample_block : List Nat :=
  [1, 2, 3, 4, 5, 6, 7, 8, 9, 10, 11, 12, 13, 14, 15, 0xFFFFFFFFFFFFFFFF]

/-- A key of sixteen distinct words. -/
def sample_key : List Nat :=
  [0x1011121314151617, 0x18191A1B1C1D1E1F, 0x2021222324252627, 0x28292A2B2C2D2E2F,
   0x3031323334353637, 0x38393A3B3C3D3E3F, 0x4041424344454647, 0x48494A4B4C4D4E4F,
   0x5051525354555657, 0x58595A5B5C5D5E5F, 0x6061626364656667, 0x68696A6B6C6D6E6F,
   0x7071727374757677, 0x78797A7B7C7D7E7F, 0x8081828384858687, 0x88898A8B8C8D8E8F]

/-- The published Threefish-1024 ciphertext for the all-zero key, tweak and plaintext. -/
def kat_zero_bytes : List Nat :=
  [0xF0, 0x5C, 0x3D, 0x0A, 0x3D, 0x05, 0xB3, 0x04, 0xF7, 0x85, 0xDD, 0xC7, 0xD1, 0xE0, 0x36, 0x01,
   0x5C, 0x8A, 0xA7, 0x6E, 0x2F, 0x21, 0x7B, 0x06, 0xC6, 0xE1, 0x54, 0x4C, 0x0B, 0xC1, 0xA9, 0x0D,
   0xF0, 0xAC, 0xCB, 0x94, 0x73, 0xC2, 0x4E, 0x0F, 0xD5, 0x4F, 0xEA, 0x68, 0x05, 0x7F, 0x43, 0x32,
   0x9C, 0xB4, 0x54, 0x76, 0x1D, 0x6D, 0xF5, 0xCF, 0x7B, 0x2E, 0x9B, 0x36, 0x14, 0xFB, 0xD5, 0xA2,
   0x0B, 0x2E, 0x47, 0x60, 0xB4, 0x06, 0x03, 0x54, 0x0D, 0x82, 0xEA, 0xBC, 0x54, 0x82, 0xC1, 0x71,
   0xC8, 0x32, 0xAF, 0xBE, 0x68, 0x40, 0x6B, 0xC3, 0x95, 0x00, 0x36, 0x7A, 0x59, 0x29, 0x43, 0xFA,
   0x9A, 0x5B, 0x4A, 0x43, 0x28, 0x6C, 0xA3, 0xC4, 0xCF, 0x46, 0x10, 0x4B, 0x44, 0x31, 0x43, 0xD5,
   0x60, 0xA4, 0xB2, 0x30, 0x48, 0x83, 0x11, 0xDF, 0x4F, 0xEE, 0xF7, 0xE1, 0xDF, 0xE8, 0x39, 0x1E]


/-! ## Blocks -/

/-- A block: sixteen 64-bit words. -/
def is_block (b : List Nat) : Prop := b.length = 16 ∧ ∀ w ∈ b, w < 2 ^ 64


/-! ## The blocks of the unrolled code as a table -/

/-- The eighty blocks of eight MIX steps of `threefish_encrypt_1024`, in source order: entry `d`
is round `d`. -/
def enc_round_blocks : List ((Nat → Nat) → Nat → State → State) :=
  [enc_round_0, enc_round_1, enc_round_2, enc_round_3, enc_round_4, enc_round_5, enc_round_6,
  enc_round_7, enc_round_8, enc_round_9, enc_round_10, enc_round_11, enc_round_12, enc_round_13,
  enc_round_14, enc_round_15, enc_round_16, enc_round_17, enc_round_18, enc_round_19,
  enc_round_20, enc_round_21, enc_round_22, enc_round_23, enc_round_24, enc_round_25,
  enc_round_26, enc_round_27, enc_round_28, enc_round_29, enc_round_30, enc_round_31,
  enc_round_32, enc_round_33, enc_round_34, enc_round_35, enc_round_36, enc_round_37,
  enc_round_38, enc_round_39, enc_round_40, enc_round_41, enc_round_42, enc_round_43,
  enc_round_44, enc_round_45, enc_round_46, enc_round_47, enc_round_48, enc_round_49,
  enc_round_50, enc_round_51, enc_round_52, enc_round_53, enc_round_54, enc_round_55,
  enc_round_56, enc_round_57, enc_round_58, enc_round_59, enc_round_60, enc_round_61,
  enc_round_62, enc_round_63, enc_round_64, enc_round_65, enc_round_66, enc_round_67,
  enc_round_68, enc_round_69, enc_round_70, enc_round_71, enc_round_72, enc_round_73,
  enc_round_74, enc_round_75, enc_round_76, enc_round_77, enc_round_78, enc_round_79]

/-- The eighty blocks of eight inverse MIX steps of `threefish_decrypt_1024`: entry `d` is the
block that inverts round `d` (the source has them in the order 79 down to 0). -/
def dec_round_blocks : List ((Nat → Nat) → Nat → State → State) :=
  [dec_round_0, dec_round_1, dec_round_2, dec_round_3, dec_round_4, dec_round_5, dec_round_6,
  dec_round_7, dec_round_8, dec_round_9, dec_round_10, dec_round_11, dec_round_12, dec_round_13,
  dec_round_14, dec_round_15, dec_round_16, dec_round_17, dec_round_18, dec_round_19,
  dec_round_20, dec_round_21, dec_round_22, dec_round_23, dec_round_24, dec_round_25,
  dec_round_26, dec_round_27, dec_round_28, dec_round_29, dec_round_30, dec_round_31,
  dec_round_32, dec_round_33, dec_round_34, dec_round_35, dec_round_36, dec_round_37,
  dec_round_38, dec_round_39, dec_round_40, dec_round_41, dec_round_42, dec_round_43,
  dec_round_44, dec_round_45, dec_round_46, dec_round_47, dec_round_48, dec_round_49,
  dec_round_50, dec_round_51, dec_round_52, dec_round_53, dec_round_54, dec_round_55,
  dec_round_56, dec_round_57, dec_round_58, dec_round_59, dec_round_60, dec_round_61,
  dec_round_62, dec_round_63, dec_round_64, dec_round_65, dec_round_66, dec_round_67,
  dec_round_68, dec_round_69, dec_round_70, dec_round_71, dec_round_72, dec_round_73,
  dec_round_74, dec_round_75, dec_round_76, dec_round_77, dec_round_78, dec_round_79]

/-- Round `d` of `threefish_encrypt_1024` (the identity for `d` past 79). -/
def enc_round (d : Nat) : (Nat → Nat) → Nat → State → State :=
  enc_round_blocks.getD d (fun _ _ s => s)

/-- The block of `threefish_decrypt_1024` that inverts round `d` (the identity for `d` past
79). -/
def dec_round (d : Nat) : (Nat → Nat) → Nat → State → State :=
  dec_round_blocks.getD d (fun _ _ s => s)

/-- The local `b i` of a state (0 for `i` past 15). -/
def State.get (s : State) (i : Nat) : Nat := (store_block s).getD i 0

/-- The state with the local `b i` replaced by `x` (unchanged for `i` past 15). -/
def State.set (s : State) (i : Nat) (x : Nat) : State := load_block ((store_block s).set i x)

/-- The word pairs of the eight MIX steps of a round of `threefish_encrypt_1024`, in source
order: the index of the sum word (`b0` in `b0 += b9`) and of the rotated word (`b9` in
`b9 = rol64(b9, 38) ^ b0`).  The pairs repeat every four rounds. -/
def enc_mix_pairs (d : Nat) : List (Nat × Nat) :=
  [[(0, 1), (2, 3), (4, 5), (6, 7), (8, 9), (10, 11), (12, 13), (14, 15)],
   [(0, 9), (2, 13), (6, 11), (4, 15), (10, 7), (12, 3), (14, 5), (8, 1)],
   [(0, 7), (2, 5), (4, 3), (6, 1), (12, 15), (14, 13), (8, 11), (10, 9)],
   [(0, 15), (2, 11), (6, 13), (4, 9), (14, 1), (8, 5), (10, 3), (12, 7)]].getD (d % 4) []

/-- The part of a state transformer `F` that concerns the word pair `p`: the two words of the
pair are replaced by what `F` computes for them from the current state, the other fourteen
words are kept.  For `F` a round and `p` one of its pairs this is the MIX step on `p`. -/
def mix_on (F : State → State) (p : Nat × Nat) (s : State) : State :=
  (s.set p.1 ((F s).get p.1)).set p.2 ((F s).get p.2)


/-! ## Blocks in memory -/

/-- The sixteen words `p[0] .. p[15]` of the word array `mem`, the pointer `p` being a word
offset into it. -/
def read_block (mem : List Nat) (p : Nat) : List Nat :=
  (List.range 16).map fun i => mem.getD (p + i) 0

/-- The word array `mem` after the stores `p[i] = out[i]`, made for the indices `i` of `order`
one after the other. -/
def write_block (order : List Nat) (mem : List Nat) (p : Nat) (out : List Nat) : List Nat :=
  order.foldl (fun m i => m.set (p + i) (out.getD i 0)) mem

/-- The order of the stores at the end of `threefish_encrypt_1024` (lines 2194-2209):
`output[0]` first, `output[15]` last. -/
def enc_store_order : List Nat := [0, 1, 2, 3, 4, 5, 6, 7, 8, 9, 10, 11, 12, 13, 14, 15]

/-- The order of the stores at the end of `threefish_decrypt_1024` (lines 4974-4989):
`output[15]` first, `output[0]` last. -/
def dec_store_order : List Nat := [15, 14, 13, 12, 11, 10, 9, 8, 7, 6, 5, 4, 3, 2, 1, 0]

/-- The call `threefish_encrypt_1024(key_ctx, input, output, t0)` as a memory effect: `input`
is the word offset `inp` into `in_mem`, `output` the word offset `outp` into `out_mem`, and the
result is `out_mem` after the call.  The sixteen loads are the initialisers of the locals, so
they all come before the first store; a call whose output is the storage of its input is the
call with `out_mem = in_mem`. -/
def threefish_encrypt_1024_at (h : Host) (key_ctx : threefish_key) (in_mem : List Nat)
    (inp : Nat) (out_mem : List Nat) (outp : Nat) (t0 : Nat) : List Nat :=
  write_block enc_store_order out_mem outp
    (threefish_encrypt_1024 h key_ctx (read_block in_mem inp) t0)

/-- The call `threefish_decrypt_1024(key_ctx, input, output, t0)` as a memory effect, read as
`threefish_encrypt_1024_at`. -/
def threefish_decrypt_1024_at (key_ctx : threefish_key) (in_mem : List Nat) (inp : Nat)
    (out_mem : List Nat) (outp : Nat) (t0 : Nat) : List Nat :=
  write_block dec_store_order out_mem outp
    (threefish_decrypt_1024 key_ctx (read_block in_mem inp) t0)

/-! ## The stream layer -/

/-- Modelled from the spec: the kernel macro `be64_to_cpu`, not defined in the source: the
byte reversal on a little-endian host and the identity on a big-endian one. -/
def be64_to_cpu (h : Host) (x : Nat) : Nat :=
  match h with
  | .little => swab64 x
  | .big => x

/-- Modelled from the spec: the kernel macro `cpu_to_be64`, not defined in the source: the
byte reversal on a little-endian host and the identity on a big-endian one. -/
def cpu_to_be64 (h : Host) (x : Nat) : Nat :=
  match h with
  | .little => swab64 x
  | .big => x

/-- Wrapping `unsigned int` subtraction, the C expression `a - b` on 32-bit operands. -/
def sub32 (a b : Nat) : Nat := (a + (2 ^ 32 - b % 2 ^ 32)) % 2 ^ 32

/-- The value of a byte string read most significant byte first. -/
def be_value (bs : List Nat) : Nat := bs.foldl (fun acc b => acc * 256 + b) 0

/-- The eight bytes of a 64-bit word, most significant first. -/
def be_bytes (w : Nat) : List Nat := (le_bytes w).reverse

/-- The part of `struct blkcipher_walk` the module touches: the byte count `nbytes`, the word
arrays at `src.virt.addr` and at `dst.virt.addr`, and the bytes at `iv`. -/
structure blkcipher_walk where
  nbytes : Nat
  src : List Nat
  dst : List Nat
  iv : List Nat
  deriving DecidableEq, Repr

/-- The locals `nbytes`, `src`, `dst` and `tweak` of `__threefish1024_encrypt` and
`__threefish1024_decrypt` (the pointers as word offsets from their initial value), together
with the destination array. -/
structure walk_locals where
  nbytes : Nat
  src : Nat
  dst : Nat
  tweak : Nat
  dst_mem : List Nat
  deriving DecidableEq, Repr

/-- The body of the loop of `__threefish1024_encrypt`:
`threefish_encrypt_1024(ctx, src, dst, tweak++); src += 16; dst += 16; nbytes -= bsize;`. -/
def encrypt_walk_body (h : Host) (ctx : threefish_key) (src_mem : List Nat) (bsize : Nat)
    (st : walk_locals) : walk_locals :=
  { dst_mem := threefish_encrypt_1024_at h ctx src_mem st.src st.dst_mem st.dst st.tweak
    tweak := add64 st.tweak 1
    src := st.src + 16
    dst := st.dst + 16
    nbytes := sub32 st.nbytes bsize }

/-- The body of the loop of `__threefish1024_decrypt`:
`threefish_decrypt_1024(ctx, src, dst, tweak++); src += 16; dst += 16; nbytes -= bsize;`. -/
def decrypt_walk_body (ctx : threefish_key) (src_mem : List Nat) (bsize : Nat)
    (st : walk_locals) : walk_locals :=
  { dst_mem := threefish_decrypt_1024_at ctx src_mem st.src st.dst_mem st.dst st.tweak
    tweak := add64 st.tweak 1
    src := st.src + 16
    dst := st.dst + 16
    nbytes := sub32 st.nbytes bsize }

/-- The loop `while (nbytes >= bsize) { body }` of `__threefish1024_encrypt` and of
`__threefish1024_decrypt`; the first argument bounds the number of times the loop condition
is tested. -/
def walk_loop (body : walk_locals → walk_locals) (bsize : Nat) :
    Nat → walk_locals → walk_locals
  | 0, st => st
  | fuel + 1, st => if st.nbytes ≥ bsize then walk_loop body bsize fuel (body st) else st

/-- The C function `__threefish1024_encrypt`: the returned `unsigned int` and the walk after
the call.  `ctx` is the context `crypto_blkcipher_ctx(desc->tfm)`.  Each pass of the loop
lowers `nbytes`, so the loop condition is tested at most `nbytes + 1` times. -/
def __threefish1024_encrypt (h : Host) (ctx : threefish_key) (walk : blkcipher_walk) :
    Nat × blkcipher_walk :=
  let bsize := 128
  let nbytes := walk.nbytes
  let tweak := be64_to_cpu h (load_u64 h walk.iv 0)
  let st := walk_loop (encrypt_walk_body h ctx walk.src bsize) bsize (nbytes + 1)
    ⟨nbytes, 0, 0, tweak, walk.dst⟩
  (st.nbytes,
    { walk with dst := st.dst_mem, iv := u64_bytes h (cpu_to_be64 h st.tweak) ++ walk.iv.drop 8 })

/-- The C function `__threefish1024_decrypt`: the returned `unsigned int` and the walk after
the call, read as `__threefish1024_encrypt`. -/
def __threefish1024_decrypt (h : Host) (ctx : threefish_key) (walk : blkcipher_walk) :
    Nat × blkcipher_walk :=
  let bsize := 128
  let nbytes := walk.nbytes
  let tweak := be64_to_cpu h (load_u64 h walk.iv 0)
  let st := walk_loop (decrypt_walk_body ctx walk.src bsize) bsize (nbytes + 1)
    ⟨nbytes, 0, 0, tweak, walk.dst⟩
  (st.nbytes,
    { walk with dst := st.dst_mem, iv := u64_bytes h (cpu_to_be64 h st.tweak) ++ walk.iv.drop 8 })

/-- The C function `cia_threefish1024_encrypt` as a memory effect: `in` is the word offset
`inp` into `in_mem`, `out` the word offset `outp` into `out_mem` (both seen through the cast to
`u64 *`); the result is `out_mem` after the call. -/
def cia_threefish1024_encrypt (h : Host) (tfm : crypto_tfm) (out_mem : List Nat) (outp : Nat)
    (in_mem : List Nat) (inp : Nat) : List Nat :=
  threefish_encrypt_1024_at h tfm.ctx in_mem inp out_mem outp 0

/-- The C function `cia_threefish1024_decrypt` as a memory effect, read as
`cia_threefish1024_encrypt`. -/
def cia_threefish1024_decrypt (tfm : crypto_tfm) (out_mem : List Nat) (outp : Nat)
    (in_mem : List Nat) (inp : Nat) : List Nat :=
  threefish_decrypt_1024_at tfm.ctx in_mem inp out_mem outp 0

/-- The ciphertext blocks a walk over `n` blocks of `src` produces with the block function `f`
and the starting counter `v`: block `j` is `f` of source block `j` and `(v + j) mod 2 ^ 64`. -/
def stream_blocks (f : List Nat → Nat → List Nat) (src : List Nat) (v n : Nat) :
    List (List Nat) :=
  (List.range n).map fun j => f (read_block src (16 * j)) ((v + j) % 2 ^ 64)

/-- The body of the loops of `__threefish1024_encrypt` and `__threefish1024_decrypt` for a block
function `f` whose stores are made in the order `order`. -/
def walk_body (order : List Nat) (f : List Nat → Nat → List Nat) (src_mem : List Nat)
    (bsize : Nat) (st : walk_locals) : walk_locals :=
  { dst_mem := write_block order st.dst_mem st.dst (f (read_block src_mem st.src) st.tweak)
    tweak := add64 st.tweak 1
    src := st.src + 16
    dst := st.dst + 16
    nbytes := sub32 st.nbytes bsize }

/-- A stored counter: eight bytes. -/
def is_iv (iv : List Nat) : Prop := iv.length = 8 ∧ ∀ b ∈ iv, b < 256

/-- The locals of `__threefish1024_encrypt` when the loop condition is tested for the
`(j + 1)`-th time, that is after `j` passes through the body; its `tweak` is the counter the
next call of `threefish_encrypt_1024` gets. -/
def encrypt_walk_locals (h : Host) (ctx : threefish_key) (walk : blkcipher_walk) (j : Nat) :
    walk_locals :=
  Nat.iterate (encrypt_walk_body h ctx walk.src 128) j
    ⟨walk.nbytes, 0, 0, be64_to_cpu h (load_u64 h walk.iv 0), walk.dst⟩

/-- The locals of `__threefish1024_decrypt` after `j` passes through the body of its loop. -/
def decrypt_walk_locals (h : Host) (ctx : threefish_key) (walk : blkcipher_walk) (j : Nat) :
    walk_locals :=
  Nat.iterate (decrypt_walk_body ctx walk.src 128) j
    ⟨walk.nbytes, 0, 0, be64_to_cpu h (load_u64 h walk.iv 0), walk.dst⟩

/-- Word `i` of a byte string read as little-endian 64-bit words: the sum over `j` in `0..7`
of `key[8 i + j] * 256 ^ j`. -/
def key_word (key : List Nat) (i : Nat) : Nat :=
  ((List.range 8).map fun j => key.getD (8 * i + j) 0 * 256 ^ j).sum

/-- A walk over two blocks and 44 more bytes, with the stored counter `2 ^ 64 - 1`. -/
def sample_walk : blkcipher_walk :=
  { nbytes := 300
    src := sample_block ++ sample_key
    dst := List.replicate 40 0
    iv := [0xFF, 0xFF, 0xFF, 0xFF, 0xFF, 0xFF, 0xFF, 0xFF] }

/-- A key of 128 bytes: the bytes `0, 1, .., 127`. -/
def sample_key_bytes : List Nat := List.range 128

/-! ## The MIX steps of a round -/

/-- The eight MIX steps of round `d` of `threefish_encrypt_1024`, in source order: the word pair
of `enc_mix_pairs` together with the rotation amount of its `rol64` call (38 in
`b9 = rol64(b9, 38) ^ b0`).  The amounts repeat every eight rounds and are the rows of
`R_1024`. -/
def enc_mix_steps (d : Nat) : List ((Nat × Nat) × Nat) :=
  (enc_mix_pairs d).zip (R_1024.getD (d % 8) [])

/-- One MIX step on the word pair `p` with rotation `r`, the statement pair
`b0 += b9; b9 = rol64(b9, 38) ^ b0;` of the source for `p = (0, 9)` and `r = 38`: the sum word
`p.1` gets the sum of the two words, the rotated word `p.2` gets its rotation XOR-ed with the
new sum word. -/
def mix_step (r : Nat) (p : Nat × Nat) (s : State) : State :=
  (s.set p.1 (add64 (s.get p.1) (s.get p.2))).set p.2
    (rol64 (s.get p.2) r ^^^ add64 (s.get p.1) (s.get p.2))

/-- The state the eight MIX steps of round `d` start from: the locals themselves, and in the
rounds `d = 4 s` the locals with subkey `s` added, which the source fuses into the MIX
statements (`b1 += k1; b0 += b1 + k0; b1 = rol64(b1, 24) ^ b0;`). -/
def enc_mix_input (K : threefish_key) (t0 d : Nat) (s : State) : State :=
  if d % 4 = 0 then load_block (ref_add_subkey K.key t0 (d / 4) (store_block s)) else s


/-! # Proofs -/

/-! ## Machine words -/

theorem add64_lt (a b : Nat) : add64 a b < 2 ^ 64 := Nat.mod_lt _ (by decide)
theorem sub64_lt (a b : Nat) : sub64 a b < 2 ^ 64 := Nat.mod_lt _ (by decide)
theorem rol64_lt (w s : Nat) : rol64 w s < 2 ^ 64 := Nat.mod_lt _ (by decide)
theorem ror64_lt (w s : Nat) : ror64 w s < 2 ^ 64 := Nat.mod_lt _ (by decide)
theorem xor_lt64 {a b : Nat} (ha : a < 2 ^ 64) (hb : b < 2 ^ 64) : a ^^^ b < 2 ^ 64 :=
  Nat.xor_lt_two_pow ha hb

theorem sub64_add64 (a b : Nat) (h : a < 2 ^ 64) : sub64 (add64 a b) b = a := by
  unfold sub64 add64; omega
theorem add64_sub64 (a b : Nat) (h : a < 2 ^ 64) : add64 (sub64 a b) b = a := by
  unfold sub64 add64; omega
theorem xor_xor_cancel (a b : Nat) : (a ^^^ b) ^^^ b = a := by
  rw [Nat.xor_assoc, Nat.xor_self, Nat.xor_zero]

theorem testBit_of_lt64 {w : Nat} (hw : w < 2 ^ 64) {i : Nat} (hi : 64 ≤ i) :
    w.testBit i = false :=
  Nat.testBit_lt_two_pow (lt_of_lt_of_le hw (Nat.pow_le_pow_right (by decide) hi))

theorem testBit_rol64 (w s i : Nat) (hw : w < 2 ^ 64) (hs : s < 64) :
    (rol64 w s).testBit i = (decide (i < 64) && w.testBit ((i + 64 - s) % 64)) := by
  unfold rol64
  rw [Nat.testBit_mod_two_pow, Nat.testBit_or, Nat.testBit_shiftLeft, Nat.testBit_shiftRight,
    Nat.mod_eq_of_lt hs]
  by_cases hi : i < 64
  · by_cases h0 : s = 0
    · subst h0; simp [hi, Nat.mod_eq_of_lt hi]
    · have e1 : (64 - s) % 64 = 64 - s := Nat.mod_eq_of_lt (by omega)
      rw [e1]
      by_cases hge : s ≤ i
      · have e2 : (i + 64 - s) % 64 = i - s := by omega
        have e3 : w.testBit (64 - s + i) = false := testBit_of_lt64 hw (by omega)
        simp [hi, hge, e2, e3]
      · have e2 : (i + 64 - s) % 64 = 64 - s + i := by omega
        simp [hi, hge, e2]
  · simp [hi]

theorem testBit_ror64 (w s i : Nat) (hw : w < 2 ^ 64) (hs : s < 64) :
    (ror64 w s).testBit i = (decide (i < 64) && w.testBit ((i + s) % 64)) := by
  unfold ror64
  rw [Nat.testBit_mod_two_pow, Nat.testBit_or, Nat.testBit_shiftLeft, Nat.testBit_shiftRight,
    Nat.mod_eq_of_lt hs]
  by_cases hi : i < 64
  · by_cases h0 : s = 0
    · subst h0; simp [hi, Nat.mod_eq_of_lt hi]
    · have e1 : (64 - s) % 64 = 64 - s := Nat.mod_eq_of_lt (by omega)
      rw [e1]
      by_cases hge : 64 - s ≤ i
      · have e2 : (i + s) % 64 = i - (64 - s) := by omega
        have e3 : w.testBit (s + i) = false := testBit_of_lt64 hw (by omega)
        simp [hi, hge, e2, e3]
      · have e2 : (i + s) % 64 = s + i := by omega
        simp [hi, hge, e2]
  · simp [hi]

theorem ror64_rol64 (w s : Nat) (hw : w < 2 ^ 64) (hs : s < 64) : ror64 (rol64 w s) s = w := by
  apply Nat.eq_of_testBit_eq
  intro i
  rw [testBit_ror64 _ _ _ (rol64_lt w s) hs, testBit_rol64 _ _ _ hw hs]
  by_cases hi : i < 64
  · have e : ((i + s) % 64 + 64 - s) % 64 = i := by omega
    have h2 : (i + s) % 64 < 64 := Nat.mod_lt _ (by decide)
    simp [hi, h2, e]
  · simp [hi, testBit_of_lt64 hw (Nat.le_of_not_lt hi)]

theorem rol64_ror64 (w s : Nat) (hw : w < 2 ^ 64) (hs : s < 64) : rol64 (ror64 w s) s = w := by
  apply Nat.eq_of_testBit_eq
  intro i
  rw [testBit_rol64 _ _ _ (ror64_lt w s) hs, testBit_ror64 _ _ _ hw hs]
  by_cases hi : i < 64
  · have e : ((i + 64 - s) % 64 + s) % 64 = i := by omega
    have h2 : (i + 64 - s) % 64 < 64 := Nat.mod_lt _ (by decide)
    simp [hi, h2, e]
  · simp [hi, testBit_of_lt64 hw (Nat.le_of_not_lt hi)]

theorem rol64_xor_lt (w r a b : Nat) : rol64 w r ^^^ add64 a b < 2 ^ 64 :=
  xor_lt64 (rol64_lt w r) (add64_lt a b)

theorem ror64_rol64_xor (w s a : Nat) (hw : w < 2 ^ 64) (hs : s < 64) :
    ror64 ((rol64 w s ^^^ a) ^^^ a) s = w := by
  rw [xor_xor_cancel, ror64_rol64 w s hw hs]

/-! ## The reference on explicit states -/

theorem ref_mix_layer_cons (d a0 a1 a2 a3 a4 a5 a6 a7 a8 a9 a10 a11 a12 a13 a14 a15 : Nat) :
    ref_mix_layer d [a0, a1, a2, a3, a4, a5, a6, a7, a8, a9, a10, a11, a12, a13, a14, a15] =
      [add64 a0 a1, rol64 a1 (ref_rot d 0) ^^^ add64 a0 a1,
       add64 a2 a3, rol64 a3 (ref_rot d 1) ^^^ add64 a2 a3,
       add64 a4 a5, rol64 a5 (ref_rot d 2) ^^^ add64 a4 a5,
       add64 a6 a7, rol64 a7 (ref_rot d 3) ^^^ add64 a6 a7,
       add64 a8 a9, rol64 a9 (ref_rot d 4) ^^^ add64 a8 a9,
       add64 a10 a11, rol64 a11 (ref_rot d 5) ^^^ add64 a10 a11,
       add64 a12 a13, rol64 a13 (ref_rot d 6) ^^^ add64 a12 a13,
       add64 a14 a15, rol64 a15 (ref_rot d 7) ^^^ add64 a14 a15] := rfl

theorem ref_permute_cons (a0 a1 a2 a3 a4 a5 a6 a7 a8 a9 a10 a11 a12 a13 a14 a15 : Nat) :
    ref_permute [a0, a1, a2, a3, a4, a5, a6, a7, a8, a9, a10, a11, a12, a13, a14, a15] =
      [a0, a9, a2, a13, a6, a11, a4, a15, a10, a7, a12, a3, a14, a5, a8, a1] := rfl

theorem ref_add_subkey_cons (K : List Nat) (t0 s a0 a1 a2 a3 a4 a5 a6 a7 a8 a9 a10 a11 a12 a13 a14 a15 : Nat) :
    ref_add_subkey K t0 s [a0, a1, a2, a3, a4, a5, a6, a7, a8, a9, a10, a11, a12, a13, a14, a15] =
      [add64 a0 (K.getD ((s + 0) % 17) 0), add64 a1 (K.getD ((s + 1) % 17) 0),
       add64 a2 (K.getD ((s + 2) % 17) 0), add64 a3 (K.getD ((s + 3) % 17) 0),
       add64 a4 (K.getD ((s + 4) % 17) 0), add64 a5 (K.getD ((s + 5) % 17) 0),
       add64 a6 (K.getD ((s + 6) % 17) 0), add64 a7 (K.getD ((s + 7) % 17) 0),
       add64 a8 (K.getD ((s + 8) % 17) 0), add64 a9 (K.getD ((s + 9) % 17) 0),
       add64 a10 (K.getD ((s + 10) % 17) 0), add64 a11 (K.getD ((s + 11) % 17) 0),
       add64 a12 (K.getD ((s + 12) % 17) 0),
       add64 a13 (add64 (K.getD ((s + 13) % 17) 0) ((ref_tweak t0).getD (s % 3) 0)),
       add64 a14 (add64 (K.getD ((s + 14) % 17) 0) ((ref_tweak t0).getD ((s + 1) % 3) 0)),
       add64 a15 (add64 (K.getD ((s + 15) % 17) 0) s)] := rfl

theorem add64_fuse (a b ka kb : Nat) :
    add64 a (add64 (add64 b kb) ka) = add64 (add64 a ka) (add64 b kb) := by
  unfold add64; omega

theorem add64_fuse_tweak (a b ka kb t : Nat) :
    add64 a (add64 (add64 (add64 b kb) ka) t) = add64 (add64 a (add64 ka t)) (add64 b kb) := by
  unfold add64; omega

theorem add64_add64_zero (a k : Nat) : add64 a (add64 k 0) = add64 a k := by
  unfold add64; omega

theorem ref_unmix_layer_cons (d a0 a1 a2 a3 a4 a5 a6 a7 a8 a9 a10 a11 a12 a13 a14 a15 : Nat) :
    ref_unmix_layer d [a0, a1, a2, a3, a4, a5, a6, a7, a8, a9, a10, a11, a12, a13, a14, a15] =
      [sub64 a0 (ror64 (a1 ^^^ a0) (ref_rot d 0)), ror64 (a1 ^^^ a0) (ref_rot d 0),
       sub64 a2 (ror64 (a3 ^^^ a2) (ref_rot d 1)), ror64 (a3 ^^^ a2) (ref_rot d 1),
       sub64 a4 (ror64 (a5 ^^^ a4) (ref_rot d 2)), ror64 (a5 ^^^ a4) (ref_rot d 2),
       sub64 a6 (ror64 (a7 ^^^ a6) (ref_rot d 3)), ror64 (a7 ^^^ a6) (ref_rot d 3),
       sub64 a8 (ror64 (a9 ^^^ a8) (ref_rot d 4)), ror64 (a9 ^^^ a8) (ref_rot d 4),
       sub64 a10 (ror64 (a11 ^^^ a10) (ref_rot d 5)), ror64 (a11 ^^^ a10) (ref_rot d 5),
       sub64 a12 (ror64 (a13 ^^^ a12) (ref_rot d 6)), ror64 (a13 ^^^ a12) (ref_rot d 6),
       sub64 a14 (ror64 (a15 ^^^ a14) (ref_rot d 7)), ror64 (a15 ^^^ a14) (ref_rot d 7)] := rfl

theorem ref_unpermute_cons (a0 a1 a2 a3 a4 a5 a6 a7 a8 a9 a10 a11 a12 a13 a14 a15 : Nat) :
    ref_unpermute [a0, a9, a2, a13, a6, a11, a4, a15, a10, a7, a12, a3, a14, a5, a8, a1] =
      [a0, a1, a2, a3, a4, a5, a6, a7, a8, a9, a10, a11, a12, a13, a14, a15] := rfl

theorem ref_sub_subkey_cons (K : List Nat) (t0 s a0 a1 a2 a3 a4 a5 a6 a7 a8 a9 a10 a11 a12 a13 a14 a15 : Nat) :
    ref_sub_subkey K t0 s [a0, a1, a2, a3, a4, a5, a6, a7, a8, a9, a10, a11, a12, a13, a14, a15] =
      [sub64 a0 (K.getD ((s + 0) % 17) 0), sub64 a1 (K.getD ((s + 1) % 17) 0),
       sub64 a2 (K.getD ((s + 2) % 17) 0), sub64 a3 (K.getD ((s + 3) % 17) 0),
       sub64 a4 (K.getD ((s + 4) % 17) 0), sub64 a5 (K.getD ((s + 5) % 17) 0),
       sub64 a6 (K.getD ((s + 6) % 17) 0), sub64 a7 (K.getD ((s + 7) % 17) 0),
       sub64 a8 (K.getD ((s + 8) % 17) 0), sub64 a9 (K.getD ((s + 9) % 17) 0),
       sub64 a10 (K.getD ((s + 10) % 17) 0), sub64 a11 (K.getD ((s + 11) % 17) 0),
       sub64 a12 (K.getD ((s + 12) % 17) 0),
       sub64 a13 (add64 (K.getD ((s + 13) % 17) 0) ((ref_tweak t0).getD (s % 3) 0)),
       sub64 a14 (add64 (K.getD ((s + 14) % 17) 0) ((ref_tweak t0).getD ((s + 1) % 3) 0)),
       sub64 a15 (add64 (K.getD ((s + 15) % 17) 0) s)] := rfl

theorem sub64_fuse (a b k : Nat) : sub64 a (add64 b k) = sub64 (sub64 a b) k := by
  unfold sub64 add64; omega

theorem sub64_sub64_zero (a b : Nat) : sub64 (sub64 a b) 0 = sub64 a b := by
  unfold sub64; omega

theorem add64_assoc (a b c : Nat) : add64 (add64 a b) c = add64 a (add64 b c) := by
  unfold add64; omega

/-! ## Each block of the unrolled code keeps the locals in 64 bits -/

theorem enc_round_0_wf (k : Nat → Nat) (t0 : Nat) (s : State) : (enc_round_0 k t0 s).wf := by
  rcases s with ⟨b0, b1, b2, b3, b4, b5, b6, b7, b8, b9, b10, b11, b12, b13, b14, b15⟩
  simp only [State.wf, enc_round_0, add64_lt, rol64_xor_lt, and_self]

theorem enc_round_1_wf (k : Nat → Nat) (t0 : Nat) (s : State) : (enc_round_1 k t0 s).wf := by
  rcases s with ⟨b0, b1, b2, b3, b4, b5, b6, b7, b8, b9, b10, b11, b12, b13, b14, b15⟩
  simp only [State.wf, enc_round_1, add64_lt, rol64_xor_lt, and_self]

theorem enc_round_2_wf (k : Nat → Nat) (t0 : Nat) (s : State) : (enc_round_2 k t0 s).wf := by
  rcases s with ⟨b0, b1, b2, b3, b4, b5, b6, b7, b8, b9, b10, b11, b12, b13, b14, b15⟩
  simp only [State.wf, enc_round_2, add64_lt, rol64_xor_lt, and_self]

theorem enc_round_3_wf (k : Nat → Nat) (t0 : Nat) (s : State) : (enc_round_3 k t0 s).wf := by
  rcases s with ⟨b0, b1, b2, b3, b4, b5, b6, b7, b8, b9, b10, b11, b12, b13, b14, b15⟩
  simp only [State.wf, enc_round_3, add64_lt, rol64_xor_lt, and_self]

theorem enc_round_4_wf (k : Nat → Nat) (t0 : Nat) (s : State) : (enc_round_4 k t0 s).wf := by
  rcases s with ⟨b0, b1, b2, b3, b4, b5, b6, b7, b8, b9, b10, b11, b12, b13, b14, b15⟩
  simp only [State.wf, enc_round_4, add64_lt, rol64_xor_lt, and_self]

theorem enc_round_5_wf (k : Nat → Nat) (t0 : Nat) (s : State) : (enc_round_5 k t0 s).wf := by
  rcases s with ⟨b0, b1, b2, b3, b4, b5, b6, b7, b8, b9, b10, b11, b12, b13, b14, b15⟩
  simp only [State.wf, enc_round_5, add64_lt, rol64_xor_lt, and_self]

theorem enc_round_6_wf (k : Nat → Nat) (t0 : Nat) (s : State) : (enc_round_6 k t0 s).wf := by
  rcases s with ⟨b0, b1, b2, b3, b4, b5, b6, b7, b8, b9, b10, b11, b12, b13, b14, b15⟩
  simp only [State.wf, enc_round_6, add64_lt, rol64_xor_lt, and_self]

theorem enc_round_7_wf (k : Nat → Nat) (t0 : Nat) (s : State) : (enc_round_7 k t0 s).wf := by
  rcases s with ⟨b0, b1, b2, b3, b4, b5, b6, b7, b8, b9, b10, b11, b12, b13, b14, b15⟩
  simp only [State.wf, enc_round_7, add64_lt, rol64_xor_lt, and_self]

theorem enc_round_8_wf (k : Nat → Nat) (t0 : Nat) (s : State) : (enc_round_8 k t0 s).wf := by
  rcases s with ⟨b0, b1, b2, b3, b4, b5, b6, b7, b8, b9, b10, b11, b12, b13, b14, b15⟩
  simp only [State.wf, enc_round_8, add64_lt, rol64_xor_lt, and_self]

theorem enc_round_9_wf (k : Nat → Nat) (t0 : Nat) (s : State) : (enc_round_9 k t0 s).wf := by
  rcases s with ⟨b0, b1, b2, b3, b4, b5, b6, b7, b8, b9, b10, b11, b12, b13, b14, b15⟩
  simp only [State.wf, enc_round_9, add64_lt, rol64_xor_lt, and_self]

theorem enc_round_10_wf (k : Nat → Nat) (t0 : Nat) (s : State) : (enc_round_10 k t0 s).wf := by
  rcases s with ⟨b0, b1, b2, b3, b4, b5, b6, b7, b8, b9, b10, b11, b12, b13, b14, b15⟩
  simp only [State.wf, enc_round_10, add64_lt, rol64_xor_lt, and_self]

theorem enc_round_11_wf (k : Nat → Nat) (t0 : Nat) (s : State) : (enc_round_11 k t0 s).wf := by
  rcases s with ⟨b0, b1, b2, b3, b4, b5, b6, b7, b8, b9, b10, b11, b12, b13, b14, b15⟩
  simp only [State.wf, enc_round_11, add64_lt, rol64_xor_lt, and_self]

theorem enc_round_12_wf (k : Nat → Nat) (t0 : Nat) (s : State) : (enc_round_12 k t0 s).wf := by
  rcases s with ⟨b0, b1, b2, b3, b4, b5, b6, b7, b8, b9, b10, b11, b12, b13, b14, b15⟩
  simp only [State.wf, enc_round_12, add64_lt, rol64_xor_lt, and_self]

theorem enc_round_13_wf (k : Nat → Nat) (t0 : Nat) (s : State) : (enc_round_13 k t0 s).wf := by
  rcases s with ⟨b0, b1, b2, b3, b4, b5, b6, b7, b8, b9, b10, b11, b12, b13, b14, b15⟩
  simp only [State.wf, enc_round_13, add64_lt, rol64_xor_lt, and_self]

theorem enc_round_14_wf (k : Nat → Nat) (t0 : Nat) (s : State) : (enc_round_14 k t0 s).wf := by
  rcases s with ⟨b0, b1, b2, b3, b4, b5, b6, b7, b8, b9, b10, b11, b12, b13, b14, b15⟩
  simp only [State.wf, enc_round_14, add64_lt, rol64_xor_lt, and_self]

theorem enc_round_15_wf (k : Nat → Nat) (t0 : Nat) (s : State) : (enc_round_15 k t0 s).wf := by
  rcases s with ⟨b0, b1, b2, b3, b4, b5, b6, b7, b8, b9, b10, b11, b12, b13, b14, b15⟩
  simp only [State.wf, enc_round_15, add64_lt, rol64_xor_lt, and_self]

theorem enc_round_16_wf (k : Nat → Nat) (t0 : Nat) (s : State) : (enc_round_16 k t0 s).wf := by
  rcases s with ⟨b0, b1, b2, b3, b4, b5, b6, b7, b8, b9, b10, b11, b12, b13, b14, b15⟩
  simp only [State.wf, enc_round_16, add64_lt, rol64_xor_lt, and_self]

theorem enc_round_17_wf (k : Nat → Nat) (t0 : Nat) (s : State) : (enc_round_17 k t0 s).wf := by
  rcases s with ⟨b0, b1, b2, b3, b4, b5, b6, b7, b8, b9, b10, b11, b12, b13, b14, b15⟩
  simp only [State.wf, enc_round_17, add64_lt, rol64_xor_lt, and_self]

theorem enc_round_18_wf (k : Nat → Nat) (t0 : Nat) (s : State) : (enc_round_18 k t0 s).wf := by
  rcases s with ⟨b0, b1, b2, b3, b4, b5, b6, b7, b8, b9, b10, b11, b12, b13, b14, b15⟩
  simp only [State.wf, enc_round_18, add64_lt, rol64_xor_lt, and_self]

theorem enc_round_19_wf (k : Nat → Nat) (t0 : Nat) (s : State) : (enc_round_19 k t0 s).wf := by
  rcases s with ⟨b0, b1, b2, b3, b4, b5, b6, b7, b8, b9, b10, b11, b12, b13, b14, b15⟩
  simp only [State.wf, enc_round_19, add64_lt, rol64_xor_lt, and_self]

theorem enc_round_20_wf (k : Nat → Nat) (t0 : Nat) (s : State) : (enc_round_20 k t0 s).wf := by
  rcases s with ⟨b0, b1, b2, b3, b4, b5, b6, b7, b8, b9, b10, b11, b12, b13, b14, b15⟩
  simp only [State.wf, enc_round_20, add64_lt, rol64_xor_lt, and_self]

theorem enc_round_21_wf (k : Nat → Nat) (t0 : Nat) (s : State) : (enc_round_21 k t0 s).wf := by
  rcases s with ⟨b0, b1, b2, b3, b4, b5, b6, b7, b8, b9, b10, b11, b12, b13, b14, b15⟩
  simp only [State.wf, enc_round_21, add64_lt, rol64_xor_lt, and_self]

theorem enc_round_22_wf (k : Nat → Nat) (t0 : Nat) (s : State) : (enc_round_22 k t0 s).wf := by
  rcases s with ⟨b0, b1, b2, b3, b4, b5, b6, b7, b8, b9, b10, b11, b12, b13, b14, b15⟩
  simp only [State.wf, enc_round_22, add64_lt, rol64_xor_lt, and_self]

theorem enc_round_23_wf (k : Nat → Nat) (t0 : Nat) (s : State) : (enc_round_23 k t0 s).wf := by
  rcases s with ⟨b0, b1, b2, b3, b4, b5, b6, b7, b8, b9, b10, b11, b12, b13, b14, b15⟩
  simp only [State.wf, enc_round_23, add64_lt, rol64_xor_lt, and_self]

theorem enc_round_24_wf (k : Nat → Nat) (t0 : Nat) (s : State) : (enc_round_24 k t0 s).wf := by
  rcases s with ⟨b0, b1, b2, b3, b4, b5, b6, b7, b8, b9, b10, b11, b12, b13, b14, b15⟩
  simp only [State.wf, enc_round_24, add64_lt, rol64_xor_lt, and_self]

theorem enc_round_25_wf (k : Nat → Nat) (t0 : Nat) (s : State) : (enc_round_25 k t0 s).wf := by
  rcases s with ⟨b0, b1, b2, b3, b4, b5, b6, b7, b8, b9, b10, b11, b12, b13, b14, b15⟩
  simp only [State.wf, enc_round_25, add64_lt, rol64_xor_lt, and_self]

theorem enc_round_26_wf (k : Nat → Nat) (t0 : Nat) (s : State) : (enc_round_26 k t0 s).wf := by
  rcases s with ⟨b0, b1, b2, b3, b4, b5, b6, b7, b8, b9, b10, b11, b12, b13, b14, b15⟩
  simp only [State.wf, enc_round_26, add64_lt, rol64_xor_lt, and_self]

theorem enc_round_27_wf (k : Nat → Nat) (t0 : Nat) (s : State) : (enc_round_27 k t0 s).wf := by
  rcases s with ⟨b0, b1, b2, b3, b4, b5, b6, b7, b8, b9, b10, b11, b12, b13, b14, b15⟩
  simp only [State.wf, enc_round_27, add64_lt, rol64_xor_lt, and_self]

theorem enc_round_28_wf (k : Nat → Nat) (t0 : Nat) (s : State) : (enc_round_28 k t0 s).wf := by
  rcases s with ⟨b0, b1, b2, b3, b4, b5, b6, b7, b8, b9, b10, b11, b12, b13, b14, b15⟩
  simp only [State.wf, enc_round_28, add64_lt, rol64_xor_lt, and_self]

theorem enc_round_29_wf (k : Nat → Nat) (t0 : Nat) (s : State) : (enc_round_29 k t0 s).wf := by
  rcases s with ⟨b0, b1, b2, b3, b4, b5, b6, b7, b8, b9, b10, b11, b12, b13, b14, b15⟩
  simp only [State.wf, enc_round_29, add64_lt, rol64_xor_lt, and_self]

theorem enc_round_30_wf (k : Nat → Nat) (t0 : Nat) (s : State) : (enc_round_30 k t0 s).wf := by
  rcases s with ⟨b0, b1, b2, b3, b4, b5, b6, b7, b8, b9, b10, b11, b12, b13, b14, b15⟩
  simp only [State.wf, enc_round_30, add64_lt, rol64_xor_lt, and_self]

theorem enc_round_31_wf (k : Nat → Nat) (t0 : Nat) (s : State) : (enc_round_31 k t0 s).wf := by
  rcases s with ⟨b0, b1, b2, b3, b4, b5, b6, b7, b8, b9, b10, b11, b12, b13, b14, b15⟩
  simp only [State.wf, enc_round_31, add64_lt, rol64_xor_lt, and_self]

theorem enc_round_32_wf (k : Nat → Nat) (t0 : Nat) (s : State) : (enc_round_32 k t0 s).wf := by
  rcases s with ⟨b0, b1, b2, b3, b4, b5, b6, b7, b8, b9, b10, b11, b12, b13, b14, b15⟩
  simp only [State.wf, enc_round_32, add64_lt, rol64_xor_lt, and_self]

theorem enc_round_33_wf (k : Nat → Nat) (t0 : Nat) (s : State) : (enc_round_33 k t0 s).wf := by
  rcases s with ⟨b0, b1, b2, b3, b4, b5, b6, b7, b8, b9, b10, b11, b12, b13, b14, b15⟩
  simp only [State.wf, enc_round_33, add64_lt, rol64_xor_lt, and_self]

theorem enc_round_34_wf (k : Nat → Nat) (t0 : Nat) (s : State) : (enc_round_34 k t0 s).wf := by
  rcases s with ⟨b0, b1, b2, b3, b4, b5, b6, b7, b8, b9, b10, b11, b12, b13, b14, b15⟩
  simp only [State.wf, enc_round_34, add64_lt, rol64_xor_lt, and_self]

theorem enc_round_35_wf (k : Nat → Nat) (t0 : Nat) (s : State) : (enc_round_35 k t0 s).wf := by
  rcases s with ⟨b0, b1, b2, b3, b4, b5, b6, b7, b8, b9, b10, b11, b12, b13, b14, b15⟩
  simp only [State.wf, enc_round_35, add64_lt, rol64_xor_lt, and_self]

theorem enc_round_36_wf (k : Nat → Nat) (t0 : Nat) (s : State) : (enc_round_36 k t0 s).wf := by
  rcases s with ⟨b0, b1, b2, b3, b4, b5, b6, b7, b8, b9, b10, b11, b12, b13, b14, b15⟩
  simp only [State.wf, enc_round_36, add64_lt, rol64_xor_lt, and_self]

theorem enc_round_37_wf (k : Nat → Nat) (t0 : Nat) (s : State) : (enc_round_37 k t0 s).wf := by
  rcases s with ⟨b0, b1, b2, b3, b4, b5, b6, b7, b8, b9, b10, b11, b12, b13, b14, b15⟩
  simp only [State.wf, enc_round_37, add64_lt, rol64_xor_lt, and_self]

theorem enc_round_38_wf (k : Nat → Nat) (t0 : Nat) (s : State) : (enc_round_38 k t0 s).wf := by
  rcases s with ⟨b0, b1, b2, b3, b4, b5, b6, b7, b8, b9, b10, b11, b12, b13, b14, b15⟩
  simp only [State.wf, enc_round_38, add64_lt, rol64_xor_lt, and_self]

theorem enc_round_39_wf (k : Nat → Nat) (t0 : Nat) (s : State) : (enc_round_39 k t0 s).wf := by
  rcases s with ⟨b0, b1, b2, b3, b4, b5, b6, b7, b8, b9, b10, b11, b12, b13, b14, b15⟩
  simp only [State.wf, enc_round_39, add64_lt, rol64_xor_lt, and_self]

theorem enc_round_40_wf (k : Nat → Nat) (t0 : Nat) (s : State) : (enc_round_40 k t0 s).wf := by
  rcases s with ⟨b0, b1, b2, b3, b4, b5, b6, b7, b8, b9, b10, b11, b12, b13, b14, b15⟩
  simp only [State.wf, enc_round_40, add64_lt, rol64_xor_lt, and_self]

theorem enc_round_41_wf (k : Nat → Nat) (t0 : Nat) (s : State) : (enc_round_41 k t0 s).wf := by
  rcases s with ⟨b0, b1, b2, b3, b4, b5, b6, b7, b8, b9, b10, b11, b12, b13, b14, b15⟩
  simp only [State.wf, enc_round_41, add64_lt, rol64_xor_lt, and_self]

theorem enc_round_42_wf (k : Nat → Nat) (t0 : Nat) (s : State) : (enc_round_42 k t0 s).wf := by
  rcases s with ⟨b0, b1, b2, b3, b4, b5, b6, b7, b8, b9, b10, b11, b12, b13, b14, b15⟩
  simp only [State.wf, enc_round_42, add64_lt, rol64_xor_lt, and_self]

theorem enc_round_43_wf (k : Nat → Nat) (t0 : Nat) (s : State) : (enc_round_43 k t0 s).wf := by
  rcases s with ⟨b0, b1, b2, b3, b4, b5, b6, b7, b8, b9, b10, b11, b12, b13, b14, b15⟩
  simp only [State.wf, enc_round_43, add64_lt, rol64_xor_lt, and_self]

theorem enc_round_44_wf (k : Nat → Nat) (t0 : Nat) (s : State) : (enc_round_44 k t0 s).wf := by
  rcases s with ⟨b0, b1, b2, b3, b4, b5, b6, b7, b8, b9, b10, b11, b12, b13, b14, b15⟩
  simp only [State.wf, enc_round_44, add64_lt, rol64_xor_lt, and_self]

theorem enc_round_45_wf (k : Nat → Nat) (t0 : Nat) (s : State) : (enc_round_45 k t0 s).wf := by
  rcases s with ⟨b0, b1, b2, b3, b4, b5, b6, b7, b8, b9, b10, b11, b12, b13, b14, b15⟩
  simp only [State.wf, enc_round_45, add64_lt, rol64_xor_lt, and_self]

theorem enc_round_46_wf (k : Nat → Nat) (t0 : Nat) (s : State) : (enc_round_46 k t0 s).wf := by
  rcases s with ⟨b0, b1, b2, b3, b4, b5, b6, b7, b8, b9, b10, b11, b12, b13, b14, b15⟩
  simp only [State.wf, enc_round_46, add64_lt, rol64_xor_lt, and_self]

theorem enc_round_47_wf (k : Nat → Nat) (t0 : Nat) (s : State) : (enc_round_47 k t0 s).wf := by
  rcases s with ⟨b0, b1, b2, b3, b4, b5, b6, b7, b8, b9, b10, b11, b12, b13, b14, b15⟩
  simp only [State.wf, enc_round_47, add64_lt, rol64_xor_lt, and_self]

theorem enc_round_48_wf (k : Nat → Nat) (t0 : Nat) (s : State) : (enc_round_48 k t0 s).wf := by
  rcases s with ⟨b0, b1, b2, b3, b4, b5, b6, b7, b8, b9, b10, b11, b12, b13, b14, b15⟩
  simp only [State.wf, enc_round_48, add64_lt, rol64_xor_lt, and_self]

theorem enc_round_49_wf (k : Nat → Nat) (t0 : Nat) (s : State) : (enc_round_49 k t0 s).wf := by
  rcases s with ⟨b0, b1, b2, b3, b4, b5, b6, b7, b8, b9, b10, b11, b12, b13, b14, b15⟩
  simp only [State.wf, enc_round_49, add64_lt, rol64_xor_lt, and_self]

theorem enc_round_50_wf (k : Nat → Nat) (t0 : Nat) (s : State) : (enc_round_50 k t0 s).wf := by
  rcases s with ⟨b0, b1, b2, b3, b4, b5, b6, b7, b8, b9, b10, b11, b12, b13, b14, b15⟩
  simp only [State.wf, enc_round_50, add64_lt, rol64_xor_lt, and_self]

theorem enc_round_51_wf (k : Nat → Nat) (t0 : Nat) (s : State) : (enc_round_51 k t0 s).wf := by
  rcases s with ⟨b0, b1, b2, b3, b4, b5, b6, b7, b8, b9, b10, b11, b12, b13, b14, b15⟩
  simp only [State.wf, enc_round_51, add64_lt, rol64_xor_lt, and_self]

theorem enc_round_52_wf (k : Nat → Nat) (t0 : Nat) (s : State) : (enc_round_52 k t0 s).wf := by
  rcases s with ⟨b0, b1, b2, b3, b4, b5, b6, b7, b8, b9, b10, b11, b12, b13, b14, b15⟩
  simp only [State.wf, enc_round_52, add64_lt, rol64_xor_lt, and_self]

theorem enc_round_53_wf (k : Nat → Nat) (t0 : Nat) (s : State) : (enc_round_53 k t0 s).wf := by
  rcases s with ⟨b0, b1, b2, b3, b4, b5, b6, b7, b8, b9, b10, b11, b12, b13, b14, b15⟩
  simp only [State.wf, enc_round_53, add64_lt, rol64_xor_lt, and_self]

theorem enc_round_54_wf (k : Nat → Nat) (t0 : Nat) (s : State) : (enc_round_54 k t0 s).wf := by
  rcases s with ⟨b0, b1, b2, b3, b4, b5, b6, b7, b8, b9, b10, b11, b12, b13, b14, b15⟩
  simp only [State.wf, enc_round_54, add64_lt, rol64_xor_lt, and_self]

theorem enc_round_55_wf (k : Nat → Nat) (t0 : Nat) (s : State) : (enc_round_55 k t0 s).wf := by
  rcases s with ⟨b0, b1, b2, b3, b4, b5, b6, b7, b8, b9, b10, b11, b12, b13, b14, b15⟩
  simp only [State.wf, enc_round_55, add64_lt, rol64_xor_lt, and_self]

theorem enc_round_56_wf (k : Nat → Nat) (t0 : Nat) (s : State) : (enc_round_56 k t0 s).wf := by
  rcases s with ⟨b0, b1, b2, b3, b4, b5, b6, b7, b8, b9, b10, b11, b12, b13, b14, b15⟩
  simp only [State.wf, enc_round_56, add64_lt, rol64_xor_lt, and_self]

theorem enc_round_57_wf (k : Nat → Nat) (t0 : Nat) (s : State) : (enc_round_57 k t0 s).wf := by
  rcases s with ⟨b0, b1, b2, b3, b4, b5, b6, b7, b8, b9, b10, b11, b12, b13, b14, b15⟩
  simp only [State.wf, enc_round_57, add64_lt, rol64_xor_lt, and_self]

theorem enc_round_58_wf (k : Nat → Nat) (t0 : Nat) (s : State) : (enc_round_58 k t0 s).wf := by
  rcases s with ⟨b0, b1, b2, b3, b4, b5, b6, b7, b8, b9, b10, b11, b12, b13, b14, b15⟩
  simp only [State.wf, enc_round_58, add64_lt, rol64_xor_lt, and_self]

theorem enc_round_59_wf (k : Nat → Nat) (t0 : Nat) (s : State) : (enc_round_59 k t0 s).wf := by
  rcases s with ⟨b0, b1, b2, b3, b4, b5, b6, b7, b8, b9, b10, b11, b12, b13, b14, b15⟩
  simp only [State.wf, enc_round_59, add64_lt, rol64_xor_lt, and_self]

theorem enc_round_60_wf (k : Nat → Nat) (t0 : Nat) (s : State) : (enc_round_60 k t0 s).wf := by
  rcases s with ⟨b0, b1, b2, b3, b4, b5, b6, b7, b8, b9, b10, b11, b12, b13, b14, b15⟩
  simp only [State.wf, enc_round_60, add64_lt, rol64_xor_lt, and_self]

theorem enc_round_61_wf (k : Nat → Nat) (t0 : Nat) (s : State) : (enc_round_61 k t0 s).wf := by
  rcases s with ⟨b0, b1, b2, b3, b4, b5, b6, b7, b8, b9, b10, b11, b12, b13, b14, b15⟩
  simp only [State.wf, enc_round_61, add64_lt, rol64_xor_lt, and_self]

theorem enc_round_62_wf (k : Nat → Nat) (t0 : Nat) (s : State) : (enc_round_62 k t0 s).wf := by
  rcases s with ⟨b0, b1, b2, b3, b4, b5, b6, b7, b8, b9, b10, b11, b12, b13, b14, b15⟩
  simp only [State.wf, enc_round_62, add64_lt, rol64_xor_lt, and_self]

theorem enc_round_63_wf (k : Nat → Nat) (t0 : Nat) (s : State) : (enc_round_63 k t0 s).wf := by
  rcases s with ⟨b0, b1, b2, b3, b4, b5, b6, b7, b8, b9, b10, b11, b12, b13, b14, b15⟩
  simp only [State.wf, enc_round_63, add64_lt, rol64_xor_lt, and_self]

theorem enc_round_64_wf (k : Nat → Nat) (t0 : Nat) (s : State) : (enc_round_64 k t0 s).wf := by
  rcases s with ⟨b0, b1, b2, b3, b4, b5, b6, b7, b8, b9, b10, b11, b12, b13, b14, b15⟩
  simp only [State.wf, enc_round_64, add64_lt, rol64_xor_lt, and_self]

theorem enc_round_65_wf (k : Nat → Nat) (t0 : Nat) (s : State) : (enc_round_65 k t0 s).wf := by
  rcases s with ⟨b0, b1, b2, b3, b4, b5, b6, b7, b8, b9, b10, b11, b12, b13, b14, b15⟩
  simp only [State.wf, enc_round_65, add64_lt, rol64_xor_lt, and_self]

theorem enc_round_66_wf (k : Nat → Nat) (t0 : Nat) (s : State) : (enc_round_66 k t0 s).wf := by
  rcases s with ⟨b0, b1, b2, b3, b4, b5, b6, b7, b8, b9, b10, b11, b12, b13, b14, b15⟩
  simp only [State.wf, enc_round_66, add64_lt, rol64_xor_lt, and_self]

theorem enc_round_67_wf (k : Nat → Nat) (t0 : Nat) (s : State) : (enc_round_67 k t0 s).wf := by
  rcases s with ⟨b0, b1, b2, b3, b4, b5, b6, b7, b8, b9, b10, b11, b12, b13, b14, b15⟩
  simp only [State.wf, enc_round_67, add64_lt, rol64_xor_lt, and_self]

theorem enc_round_68_wf (k : Nat → Nat) (t0 : Nat) (s : State) : (enc_round_68 k t0 s).wf := by
  rcases s with ⟨b0, b1, b2, b3, b4, b5, b6, b7, b8, b9, b10, b11, b12, b13, b14, b15⟩
  simp only [State.wf, enc_round_68, add64_lt, rol64_xor_lt, and_self]

theorem enc_round_69_wf (k : Nat → Nat) (t0 : Nat) (s : State) : (enc_round_69 k t0 s).wf := by
  rcases s with ⟨b0, b1, b2, b3, b4, b5, b6, b7, b8, b9, b10, b11, b12, b13, b14, b15⟩
  simp only [State.wf, enc_round_69, add64_lt, rol64_xor_lt, and_self]

theorem enc_round_70_wf (k : Nat → Nat) (t0 : Nat) (s : State) : (enc_round_70 k t0 s).wf := by
  rcases s with ⟨b0, b1, b2, b3, b4, b5, b6, b7, b8, b9, b10, b11, b12, b13, b14, b15⟩
  simp only [State.wf, enc_round_70, add64_lt, rol64_xor_lt, and_self]

theorem enc_round_71_wf (k : Nat → Nat) (t0 : Nat) (s : State) : (enc_round_71 k t0 s).wf := by
  rcases s with ⟨b0, b1, b2, b3, b4, b5, b6, b7, b8, b9, b10, b11, b12, b13, b14, b15⟩
  simp only [State.wf, enc_round_71, add64_lt, rol64_xor_lt, and_self]

theorem enc_round_72_wf (k : Nat → Nat) (t0 : Nat) (s : State) : (enc_round_72 k t0 s).wf := by
  rcases s with ⟨b0, b1, b2, b3, b4, b5, b6, b7, b8, b9, b10, b11, b12, b13, b14, b15⟩
  simp only [State.wf, enc_round_72, add64_lt, rol64_xor_lt, and_self]

theorem enc_round_73_wf (k : Nat → Nat) (t0 : Nat) (s : State) : (enc_round_73 k t0 s).wf := by
  rcases s with ⟨b0, b1, b2, b3, b4, b5, b6, b7, b8, b9, b10, b11, b12, b13, b14, b15⟩
  simp only [State.wf, enc_round_73, add64_lt, rol64_xor_lt, and_self]

theorem enc_round_74_wf (k : Nat → Nat) (t0 : Nat) (s : State) : (enc_round_74 k t0 s).wf := by
  rcases s with ⟨b0, b1, b2, b3, b4, b5, b6, b7, b8, b9, b10, b11, b12, b13, b14, b15⟩
  simp only [State.wf, enc_round_74, add64_lt, rol64_xor_lt, and_self]

theorem enc_round_75_wf (k : Nat → Nat) (t0 : Nat) (s : State) : (enc_round_75 k t0 s).wf := by
  rcases s with ⟨b0, b1, b2, b3, b4, b5, b6, b7, b8, b9, b10, b11, b12, b13, b14, b15⟩
  simp only [State.wf, enc_round_75, add64_lt, rol64_xor_lt, and_self]

theorem enc_round_76_wf (k : Nat → Nat) (t0 : Nat) (s : State) : (enc_round_76 k t0 s).wf := by
  rcases s with ⟨b0, b1, b2, b3, b4, b5, b6, b7, b8, b9, b10, b11, b12, b13, b14, b15⟩
  simp only [State.wf, enc_round_76, add64_lt, rol64_xor_lt, and_self]

theorem enc_round_77_wf (k : Nat → Nat) (t0 : Nat) (s : State) : (enc_round_77 k t0 s).wf := by
  rcases s with ⟨b0, b1, b2, b3, b4, b5, b6, b7, b8, b9, b10, b11, b12, b13, b14, b15⟩
  simp only [State.wf, enc_round_77, add64_lt, rol64_xor_lt, and_self]

theorem enc_round_78_wf (k : Nat → Nat) (t0 : Nat) (s : State) : (enc_round_78 k t0 s).wf := by
  rcases s with ⟨b0, b1, b2, b3, b4, b5, b6, b7, b8, b9, b10, b11, b12, b13, b14, b15⟩
  simp only [State.wf, enc_round_78, add64_lt, rol64_xor_lt, and_self]

theorem enc_round_79_wf (k : Nat → Nat) (t0 : Nat) (s : State) : (enc_round_79 k t0 s).wf := by
  rcases s with ⟨b0, b1, b2, b3, b4, b5, b6, b7, b8, b9, b10, b11, b12, b13, b14, b15⟩
  simp only [State.wf, enc_round_79, add64_lt, rol64_xor_lt, and_self]

theorem dec_subkey_20_wf (k : Nat → Nat) (t0 : Nat) (s : State) : (dec_subkey_20 k t0 s).wf := by
  rcases s with ⟨b0, b1, b2, b3, b4, b5, b6, b7, b8, b9, b10, b11, b12, b13, b14, b15⟩
  simp only [State.wf, dec_subkey_20, sub64_lt, and_self]

theorem enc_output_wf (k : Nat → Nat) (t0 : Nat) (s : State) : (enc_output k t0 s).wf := by
  rcases s with ⟨b0, b1, b2, b3, b4, b5, b6, b7, b8, b9, b10, b11, b12, b13, b14, b15⟩
  simp only [State.wf, enc_output, add64_lt, and_self]

theorem dec_round_79_wf (k : Nat → Nat) (t0 : Nat) (s : State) : (dec_round_79 k t0 s).wf := by
  rcases s with ⟨b0, b1, b2, b3, b4, b5, b6, b7, b8, b9, b10, b11, b12, b13, b14, b15⟩
  simp only [State.wf, dec_round_79, sub64_lt, ror64_lt, and_self]

theorem dec_round_78_wf (k : Nat → Nat) (t0 : Nat) (s : State) : (dec_round_78 k t0 s).wf := by
  rcases s with ⟨b0, b1, b2, b3, b4, b5, b6, b7, b8, b9, b10, b11, b12, b13, b14, b15⟩
  simp only [State.wf, dec_round_78, sub64_lt, ror64_lt, and_self]

theorem dec_round_77_wf (k : Nat → Nat) (t0 : Nat) (s : State) : (dec_round_77 k t0 s).wf := by
  rcases s with ⟨b0, b1, b2, b3, b4, b5, b6, b7, b8, b9, b10, b11, b12, b13, b14, b15⟩
  simp only [State.wf, dec_round_77, sub64_lt, ror64_lt, and_self]

theorem dec_round_76_wf (k : Nat → Nat) (t0 : Nat) (s : State) : (dec_round_76 k t0 s).wf := by
  rcases s with ⟨b0, b1, b2, b3, b4, b5, b6, b7, b8, b9, b10, b11, b12, b13, b14, b15⟩
  simp only [State.wf, dec_round_76, sub64_lt, ror64_lt, and_self]

theorem dec_round_75_wf (k : Nat → Nat) (t0 : Nat) (s : State) : (dec_round_75 k t0 s).wf := by
  rcases s with ⟨b0, b1, b2, b3, b4, b5, b6, b7, b8, b9, b10, b11, b12, b13, b14, b15⟩
  simp only [State.wf, dec_round_75, sub64_lt, ror64_lt, and_self]

theorem dec_round_74_wf (k : Nat → Nat) (t0 : Nat) (s : State) : (dec_round_74 k t0 s).wf := by
  rcases s with ⟨b0, b1, b2, b3, b4, b5, b6, b7, b8, b9, b10, b11, b12, b13, b14, b15⟩
  simp only [State.wf, dec_round_74, sub64_lt, ror64_lt, and_self]

theorem dec_round_73_wf (k : Nat → Nat) (t0 : Nat) (s : State) : (dec_round_73 k t0 s).wf := by
  rcases s with ⟨b0, b1, b2, b3, b4, b5, b6, b7, b8, b9, b10, b11, b12, b13, b14, b15⟩
  simp only [State.wf, dec_round_73, sub64_lt, ror64_lt, and_self]

theorem dec_round_72_wf (k : Nat → Nat) (t0 : Nat) (s : State) : (dec_round_72 k t0 s).wf := by
  rcases s with ⟨b0, b1, b2, b3, b4, b5, b6, b7, b8, b9, b10, b11, b12, b13, b14, b15⟩
  simp only [State.wf, dec_round_72, sub64_lt, ror64_lt, and_self]

theorem dec_round_71_wf (k : Nat → Nat) (t0 : Nat) (s : State) : (dec_round_71 k t0 s).wf := by
  rcases s with ⟨b0, b1, b2, b3, b4, b5, b6, b7, b8, b9, b10, b11, b12, b13, b14, b15⟩
  simp only [State.wf, dec_round_71, sub64_lt, ror64_lt, and_self]

theorem dec_round_70_wf (k : Nat → Nat) (t0 : Nat) (s : State) : (dec_round_70 k t0 s).wf := by
  rcases s with ⟨b0, b1, b2, b3, b4, b5, b6, b7, b8, b9, b10, b11, b12, b13, b14, b15⟩
  simp only [State.wf, dec_round_70, sub64_lt, ror64_lt, and_self]

theorem dec_round_69_wf (k : Nat → Nat) (t0 : Nat) (s : State) : (dec_round_69 k t0 s).wf := by
  rcases s with ⟨b0, b1, b2, b3, b4, b5, b6, b7, b8, b9, b10, b11, b12, b13, b14, b15⟩
  simp only [State.wf, dec_round_69, sub64_lt, ror64_lt, and_self]

theorem dec_round_68_wf (k : Nat → Nat) (t0 : Nat) (s : State) : (dec_round_68 k t0 s).wf := by
  rcases s with ⟨b0, b1, b2, b3, b4, b5, b6, b7, b8, b9, b10, b11, b12, b13, b14, b15⟩
  simp only [State.wf, dec_round_68, sub64_lt, ror64_lt, and_self]

theorem dec_round_67_wf (k : Nat → Nat) (t0 : Nat) (s : State) : (dec_round_67 k t0 s).wf := by
  rcases s with ⟨b0, b1, b2, b3, b4, b5, b6, b7, b8, b9, b10, b11, b12, b13, b14, b15⟩
  simp only [State.wf, dec_round_67, sub64_lt, ror64_lt, and_self]

theorem dec_round_66_wf (k : Nat → Nat) (t0 : Nat) (s : State) : (dec_round_66 k t0 s).wf := by
  rcases s with ⟨b0, b1, b2, b3, b4, b5, b6, b7, b8, b9, b10, b11, b12, b13, b14, b15⟩
  simp only [State.wf, dec_round_66, sub64_lt, ror64_lt, and_self]

theorem dec_round_65_wf (k : Nat → Nat) (t0 : Nat) (s : State) : (dec_round_65 k t0 s).wf := by
  rcases s with ⟨b0, b1, b2, b3, b4, b5, b6, b7, b8, b9, b10, b11, b12, b13, b14, b15⟩
  simp only [State.wf, dec_round_65, sub64_lt, ror64_lt, and_self]

theorem dec_round_64_wf (k : Nat → Nat) (t0 : Nat) (s : State) : (dec_round_64 k t0 s).wf := by
  rcases s with ⟨b0, b1, b2, b3, b4, b5, b6, b7, b8, b9, b10, b11, b12, b13, b14, b15⟩
  simp only [State.wf, dec_round_64, sub64_lt, ror64_lt, and_self]

theorem dec_round_63_wf (k : Nat → Nat) (t0 : Nat) (s : State) : (dec_round_63 k t0 s).wf := by
  rcases s with ⟨b0, b1, b2, b3, b4, b5, b6, b7, b8, b9, b10, b11, b12, b13, b14, b15⟩
  simp only [State.wf, dec_round_63, sub64_lt, ror64_lt, and_self]

theorem dec_round_62_wf (k : Nat → Nat) (t0 : Nat) (s : State) : (dec_round_62 k t0 s).wf := by
  rcases s with ⟨b0, b1, b2, b3, b4, b5, b6, b7, b8, b9, b10, b11, b12, b13, b14, b15⟩
  simp only [State.wf, dec_round_62, sub64_lt, ror64_lt, and_self]

theorem dec_round_61_wf (k : Nat → Nat) (t0 : Nat) (s : State) : (dec_round_61 k t0 s).wf := by
  rcases s with ⟨b0, b1, b2, b3, b4, b5, b6, b7, b8, b9, b10, b11, b12, b13, b14, b15⟩
  simp only [State.wf, dec_round_61, sub64_lt, ror64_lt, and_self]

theorem dec_round_60_wf (k : Nat → Nat) (t0 : Nat) (s : State) : (dec_round_60 k t0 s).wf := by
  rcases s with ⟨b0, b1, b2, b3, b4, b5, b6, b7, b8, b9, b10, b11, b12, b13, b14, b15⟩
  simp only [State.wf, dec_round_60, sub64_lt, ror64_lt, and_self]

theorem dec_round_59_wf (k : Nat → Nat) (t0 : Nat) (s : State) : (dec_round_59 k t0 s).wf := by
  rcases s with ⟨b0, b1, b2, b3, b4, b5, b6, b7, b8, b9, b10, b11, b12, b13, b14, b15⟩
  simp only [State.wf, dec_round_59, sub64_lt, ror64_lt, and_self]

theorem dec_round_58_wf (k : Nat → Nat) (t0 : Nat) (s : State) : (dec_round_58 k t0 s).wf := by
  rcases s with ⟨b0, b1, b2, b3, b4, b5, b6, b7, b8, b9, b10, b11, b12, b13, b14, b15⟩
  simp only [State.wf, dec_round_58, sub64_lt, ror64_lt, and_self]

theorem dec_round_57_wf (k : Nat → Nat) (t0 : Nat) (s : State) : (dec_round_57 k t0 s).wf := by
  rcases s with ⟨b0, b1, b2, b3, b4, b5, b6, b7, b8, b9, b10, b11, b12, b13, b14, b15⟩
  simp only [State.wf, dec_round_57, sub64_lt, ror64_lt, and_self]

theorem dec_round_56_wf (k : Nat → Nat) (t0 : Nat) (s : State) : (dec_round_56 k t0 s).wf := by
  rcases s with ⟨b0, b1, b2, b3, b4, b5, b6, b7, b8, b9, b10, b11, b12, b13, b14, b15⟩
  simp only [State.wf, dec_round_56, sub64_lt, ror64_lt, and_self]

theorem dec_round_55_wf (k : Nat → Nat) (t0 : Nat) (s : State) : (dec_round_55 k t0 s).wf := by
  rcases s with ⟨b0, b1, b2, b3, b4, b5, b6, b7, b8, b9, b10, b11, b12, b13, b14, b15⟩
  simp only [State.wf, dec_round_55, sub64_lt, ror64_lt, and_self]

theorem dec_round_54_wf (k : Nat → Nat) (t0 : Nat) (s : State) : (dec_round_54 k t0 s).wf := by
  rcases s with ⟨b0, b1, b2, b3, b4, b5, b6, b7, b8, b9, b10, b11, b12, b13, b14, b15⟩
  simp only [State.wf, dec_round_54, sub64_lt, ror64_lt, and_self]

theorem dec_round_53_wf (k : Nat → Nat) (t0 : Nat) (s : State) : (dec_round_53 k t0 s).wf := by
  rcases s with ⟨b0, b1, b2, b3, b4, b5, b6, b7, b8, b9, b10, b11, b12, b13, b14, b15⟩
  simp only [State.wf, dec_round_53, sub64_lt, ror64_lt, and_self]

theorem dec_round_52_wf (k : Nat → Nat) (t0 : Nat) (s : State) : (dec_round_52 k t0 s).wf := by
  rcases s with ⟨b0, b1, b2, b3, b4, b5, b6, b7, b8, b9, b10, b11, b12, b13, b14, b15⟩
  simp only [State.wf, dec_round_52, sub64_lt, ror64_lt, and_self]

theorem dec_round_51_wf (k : Nat → Nat) (t0 : Nat) (s : State) : (dec_round_51 k t0 s).wf := by
  rcases s with ⟨b0, b1, b2, b3, b4, b5, b6, b7, b8, b9, b10, b11, b12, b13, b14, b15⟩
  simp only [State.wf, dec_round_51, sub64_lt, ror64_lt, and_self]

theorem dec_round_50_wf (k : Nat → Nat) (t0 : Nat) (s : State) : (dec_round_50 k t0 s).wf := by
  rcases s with ⟨b0, b1, b2, b3, b4, b5, b6, b7, b8, b9, b10, b11, b12, b13, b14, b15⟩
  simp only [State.wf, dec_round_50, sub64_lt, ror64_lt, and_self]

theorem dec_round_49_wf (k : Nat → Nat) (t0 : Nat) (s : State) : (dec_round_49 k t0 s).wf := by
  rcases s with ⟨b0, b1, b2, b3, b4, b5, b6, b7, b8, b9, b10, b11, b12, b13, b14, b15⟩
  simp only [State.wf, dec_round_49, sub64_lt, ror64_lt, and_self]

theorem dec_round_48_wf (k : Nat → Nat) (t0 : Nat) (s : State) : (dec_round_48 k t0 s).wf := by
  rcases s with ⟨b0, b1, b2, b3, b4, b5, b6, b7, b8, b9, b10, b11, b12, b13, b14, b15⟩
  simp only [State.wf, dec_round_48, sub64_lt, ror64_lt, and_self]

theorem dec_round_47_wf (k : Nat → Nat) (t0 : Nat) (s : State) : (dec_round_47 k t0 s).wf := by
  rcases s with ⟨b0, b1, b2, b3, b4, b5, b6, b7, b8, b9, b10, b11, b12, b13, b14, b15⟩
  simp only [State.wf, dec_round_47, sub64_lt, ror64_lt, and_self]

theorem dec_round_46_wf (k : Nat → Nat) (t0 : Nat) (s : State) : (dec_round_46 k t0 s).wf := by
  rcases s with ⟨b0, b1, b2, b3, b4, b5, b6, b7, b8, b9, b10, b11, b12, b13, b14, b15⟩
  simp only [State.wf, dec_round_46, sub64_lt, ror64_lt, and_self]

theorem dec_round_45_wf (k : Nat → Nat) (t0 : Nat) (s : State) : (dec_round_45 k t0 s).wf := by
  rcases s with ⟨b0, b1, b2, b3, b4, b5, b6, b7, b8, b9, b10, b11, b12, b13, b14, b15⟩
  simp only [State.wf, dec_round_45, sub64_lt, ror64_lt, and_self]

theorem dec_round_44_wf (k : Nat → Nat) (t0 : Nat) (s : State) : (dec_round_44 k t0 s).wf := by
  rcases s with ⟨b0, b1, b2, b3, b4, b5, b6, b7, b8, b9, b10, b11, b12, b13, b14, b15⟩
  simp only [State.wf, dec_round_44, sub64_lt, ror64_lt, and_self]

theorem dec_round_43_wf (k : Nat → Nat) (t0 : Nat) (s : State) : (dec_round_43 k t0 s).wf := by
  rcases s with ⟨b0, b1, b2, b3, b4, b5, b6, b7, b8, b9, b10, b11, b12, b13, b14, b15⟩
  simp only [State.wf, dec_round_43, sub64_lt, ror64_lt, and_self]

theorem dec_round_42_wf (k : Nat → Nat) (t0 : Nat) (s : State) : (dec_round_42 k t0 s).wf := by
  rcases s with ⟨b0, b1, b2, b3, b4, b5, b6, b7, b8, b9, b10, b11, b12, b13, b14, b15⟩
  simp only [State.wf, dec_round_42, sub64_lt, ror64_lt, and_self]

theorem dec_round_41_wf (k : Nat → Nat) (t0 : Nat) (s : State) : (dec_round_41 k t0 s).wf := by
  rcases s with ⟨b0, b1, b2, b3, b4, b5, b6, b7, b8, b9, b10, b11, b12, b13, b14, b15⟩
  simp only [State.wf, dec_round_41, sub64_lt, ror64_lt, and_self]

theorem dec_round_40_wf (k : Nat → Nat) (t0 : Nat) (s : State) : (dec_round_40 k t0 s).wf := by
  rcases s with ⟨b0, b1, b2, b3, b4, b5, b6, b7, b8, b9, b10, b11, b12, b13, b14, b15⟩
  simp only [State.wf, dec_round_40, sub64_lt, ror64_lt, and_self]

theorem dec_round_39_wf (k : Nat → Nat) (t0 : Nat) (s : State) : (dec_round_39 k t0 s).wf := by
  rcases s with ⟨b0, b1, b2, b3, b4, b5, b6, b7, b8, b9, b10, b11, b12, b13, b14, b15⟩
  simp only [State.wf, dec_round_39, sub64_lt, ror64_lt, and_self]

theorem dec_round_38_wf (k : Nat → Nat) (t0 : Nat) (s : State) : (dec_round_38 k t0 s).wf := by
  rcases s with ⟨b0, b1, b2, b3, b4, b5, b6, b7, b8, b9, b10, b11, b12, b13, b14, b15⟩
  simp only [State.wf, dec_round_38, sub64_lt, ror64_lt, and_self]

theorem dec_round_37_wf (k : Nat → Nat) (t0 : Nat) (s : State) : (dec_round_37 k t0 s).wf := by
  rcases s with ⟨b0, b1, b2, b3, b4, b5, b6, b7, b8, b9, b10, b11, b12, b13, b14, b15⟩
  simp only [State.wf, dec_round_37, sub64_lt, ror64_lt, and_self]

theorem dec_round_36_wf (k : Nat → Nat) (t0 : Nat) (s : State) : (dec_round_36 k t0 s).wf := by
  rcases s with ⟨b0, b1, b2, b3, b4, b5, b6, b7, b8, b9, b10, b11, b12, b13, b14, b15⟩
  simp only [State.wf, dec_round_36, sub64_lt, ror64_lt, and_self]

theorem dec_round_35_wf (k : Nat → Nat) (t0 : Nat) (s : State) : (dec_round_35 k t0 s).wf := by
  rcases s with ⟨b0, b1, b2, b3, b4, b5, b6, b7, b8, b9, b10, b11, b12, b13, b14, b15⟩
  simp only [State.wf, dec_round_35, sub64_lt, ror64_lt, and_self]

theorem dec_round_34_wf (k : Nat → Nat) (t0 : Nat) (s : State) : (dec_round_34 k t0 s).wf := by
  rcases s with ⟨b0, b1, b2, b3, b4, b5, b6, b7, b8, b9, b10, b11, b12, b13, b14, b15⟩
  simp only [State.wf, dec_round_34, sub64_lt, ror64_lt, and_self]

theorem dec_round_33_wf (k : Nat → Nat) (t0 : Nat) (s : State) : (dec_round_33 k t0 s).wf := by
  rcases s with ⟨b0, b1, b2, b3, b4, b5, b6, b7, b8, b9, b10, b11, b12, b13, b14, b15⟩
  simp only [State.wf, dec_round_33, sub64_lt, ror64_lt, and_self]

theorem dec_round_32_wf (k : Nat → Nat) (t0 : Nat) (s : State) : (dec_round_32 k t0 s).wf := by
  rcases s with ⟨b0, b1, b2, b3, b4, b5, b6, b7, b8, b9, b10, b11, b12, b13, b14, b15⟩
  simp only [State.wf, dec_round_32, sub64_lt, ror64_lt, and_self]

theorem dec_round_31_wf (k : Nat → Nat) (t0 : Nat) (s : State) : (dec_round_31 k t0 s).wf := by
  rcases s with ⟨b0, b1, b2, b3, b4, b5, b6, b7, b8, b9, b10, b11, b12, b13, b14, b15⟩
  simp only [State.wf, dec_round_31, sub64_lt, ror64_lt, and_self]

theorem dec_round_30_wf (k : Nat → Nat) (t0 : Nat) (s : State) : (dec_round_30 k t0 s).wf := by
  rcases s with ⟨b0, b1, b2, b3, b4, b5, b6, b7, b8, b9, b10, b11, b12, b13, b14, b15⟩
  simp only [State.wf, dec_round_30, sub64_lt, ror64_lt, and_self]

theorem dec_round_29_wf (k : Nat → Nat) (t0 : Nat) (s : State) : (dec_round_29 k t0 s).wf := by
  rcases s with ⟨b0, b1, b2, b3, b4, b5, b6, b7, b8, b9, b10, b11, b12, b13, b14, b15⟩
  simp only [State.wf, dec_round_29, sub64_lt, ror64_lt, and_self]

theorem dec_round_28_wf (k : Nat → Nat) (t0 : Nat) (s : State) : (dec_round_28 k t0 s).wf := by
  rcases s with ⟨b0, b1, b2, b3, b4, b5, b6, b7, b8, b9, b10, b11, b12, b13, b14, b15⟩
  simp only [State.wf, dec_round_28, sub64_lt, ror64_lt, and_self]

theorem dec_round_27_wf (k : Nat → Nat) (t0 : Nat) (s : State) : (dec_round_27 k t0 s).wf := by
  rcases s with ⟨b0, b1, b2, b3, b4, b5, b6, b7, b8, b9, b10, b11, b12, b13, b14, b15⟩
  simp only [State.wf, dec_round_27, sub64_lt, ror64_lt, and_self]

theorem dec_round_26_wf (k : Nat → Nat) (t0 : Nat) (s : State) : (dec_round_26 k t0 s).wf := by
  rcases s with ⟨b0, b1, b2, b3, b4, b5, b6, b7, b8, b9, b10, b11, b12, b13, b14, b15⟩
  simp only [State.wf, dec_round_26, sub64_lt, ror64_lt, and_self]

theorem dec_round_25_wf (k : Nat → Nat) (t0 : Nat) (s : State) : (dec_round_25 k t0 s).wf := by
  rcases s with ⟨b0, b1, b2, b3, b4, b5, b6, b7, b8, b9, b10, b11, b12, b13, b14, b15⟩
  simp only [State.wf, dec_round_25, sub64_lt, ror64_lt, and_self]

theorem dec_round_24_wf (k : Nat → Nat) (t0 : Nat) (s : State) : (dec_round_24 k t0 s).wf := by
  rcases s with ⟨b0, b1, b2, b3, b4, b5, b6, b7, b8, b9, b10, b11, b12, b13, b14, b15⟩
  simp only [State.wf, dec_round_24, sub64_lt, ror64_lt, and_self]

theorem dec_round_23_wf (k : Nat → Nat) (t0 : Nat) (s : State) : (dec_round_23 k t0 s).wf := by
  rcases s with ⟨b0, b1, b2, b3, b4, b5, b6, b7, b8, b9, b10, b11, b12, b13, b14, b15⟩
  simp only [State.wf, dec_round_23, sub64_lt, ror64_lt, and_self]

theorem dec_round_22_wf (k : Nat → Nat) (t0 : Nat) (s : State) : (dec_round_22 k t0 s).wf := by
  rcases s with ⟨b0, b1, b2, b3, b4, b5, b6, b7, b8, b9, b10, b11, b12, b13, b14, b15⟩
  simp only [State.wf, dec_round_22, sub64_lt, ror64_lt, and_self]

theorem dec_round_21_wf (k : Nat → Nat) (t0 : Nat) (s : State) : (dec_round_21 k t0 s).wf := by
  rcases s with ⟨b0, b1, b2, b3, b4, b5, b6, b7, b8, b9, b10, b11, b12, b13, b14, b15⟩
  simp only [State.wf, dec_round_21, sub64_lt, ror64_lt, and_self]

theorem dec_round_20_wf (k : Nat → Nat) (t0 : Nat) (s : State) : (dec_round_20 k t0 s).wf := by
  rcases s with ⟨b0, b1, b2, b3, b4, b5, b6, b7, b8, b9, b10, b11, b12, b13, b14, b15⟩
  simp only [State.wf, dec_round_20, sub64_lt, ror64_lt, and_self]

theorem dec_round_19_wf (k : Nat → Nat) (t0 : Nat) (s : State) : (dec_round_19 k t0 s).wf := by
  rcases s with ⟨b0, b1, b2, b3, b4, b5, b6, b7, b8, b9, b10, b11, b12, b13, b14, b15⟩
  simp only [State.wf, dec_round_19, sub64_lt, ror64_lt, and_self]

theorem dec_round_18_wf (k : Nat → Nat) (t0 : Nat) (s : State) : (dec_round_18 k t0 s).wf := by
  rcases s with ⟨b0, b1, b2, b3, b4, b5, b6, b7, b8, b9, b10, b11, b12, b13, b14, b15⟩
  simp only [State.wf, dec_round_18, sub64_lt, ror64_lt, and_self]

theorem dec_round_17_wf (k : Nat → Nat) (t0 : Nat) (s : State) : (dec_round_17 k t0 s).wf := by
  rcases s with ⟨b0, b1, b2, b3, b4, b5, b6, b7, b8, b9, b10, b11, b12, b13, b14, b15⟩
  simp only [State.wf, dec_round_17, sub64_lt, ror64_lt, and_self]

theorem dec_round_16_wf (k : Nat → Nat) (t0 : Nat) (s : State) : (dec_round_16 k t0 s).wf := by
  rcases s with ⟨b0, b1, b2, b3, b4, b5, b6, b7, b8, b9, b10, b11, b12, b13, b14, b15⟩
  simp only [State.wf, dec_round_16, sub64_lt, ror64_lt, and_self]

theorem dec_round_15_wf (k : Nat → Nat) (t0 : Nat) (s : State) : (dec_round_15 k t0 s).wf := by
  rcases s with ⟨b0, b1, b2, b3, b4, b5, b6, b7, b8, b9, b10, b11, b12, b13, b14, b15⟩
  simp only [State.wf, dec_round_15, sub64_lt, ror64_lt, and_self]

theorem dec_round_14_wf (k : Nat → Nat) (t0 : Nat) (s : State) : (dec_round_14 k t0 s).wf := by
  rcases s with ⟨b0, b1, b2, b3, b4, b5, b6, b7, b8, b9, b10, b11, b12, b13, b14, b15⟩
  simp only [State.wf, dec_round_14, sub64_lt, ror64_lt, and_self]

theorem dec_round_13_wf (k : Nat → Nat) (t0 : Nat) (s : State) : (dec_round_13 k t0 s).wf := by
  rcases s with ⟨b0, b1, b2, b3, b4, b5, b6, b7, b8, b9, b10, b11, b12, b13, b14, b15⟩
  simp only [State.wf, dec_round_13, sub64_lt, ror64_lt, and_self]

theorem dec_round_12_wf (k : Nat → Nat) (t0 : Nat) (s : State) : (dec_round_12 k t0 s).wf := by
  rcases s with ⟨b0, b1, b2, b3, b4, b5, b6, b7, b8, b9, b10, b11, b12, b13, b14, b15⟩
  simp only [State.wf, dec_round_12, sub64_lt, ror64_lt, and_self]

theorem dec_round_11_wf (k : Nat → Nat) (t0 : Nat) (s : State) : (dec_round_11 k t0 s).wf := by
  rcases s with ⟨b0, b1, b2, b3, b4, b5, b6, b7, b8, b9, b10, b11, b12, b13, b14, b15⟩
  simp only [State.wf, dec_round_11, sub64_lt, ror64_lt, and_self]

theorem dec_round_10_wf (k : Nat → Nat) (t0 : Nat) (s : State) : (dec_round_10 k t0 s).wf := by
  rcases s with ⟨b0, b1, b2, b3, b4, b5, b6, b7, b8, b9, b10, b11, b12, b13, b14, b15⟩
  simp only [State.wf, dec_round_10, sub64_lt, ror64_lt, and_self]

theorem dec_round_9_wf (k : Nat → Nat) (t0 : Nat) (s : State) : (dec_round_9 k t0 s).wf := by
  rcases s with ⟨b0, b1, b2, b3, b4, b5, b6, b7, b8, b9, b10, b11, b12, b13, b14, b15⟩
  simp only [State.wf, dec_round_9, sub64_lt, ror64_lt, and_self]

theorem dec_round_8_wf (k : Nat → Nat) (t0 : Nat) (s : State) : (dec_round_8 k t0 s).wf := by
  rcases s with ⟨b0, b1, b2, b3, b4, b5, b6, b7, b8, b9, b10, b11, b12, b13, b14, b15⟩
  simp only [State.wf, dec_round_8, sub64_lt, ror64_lt, and_self]

theorem dec_round_7_wf (k : Nat → Nat) (t0 : Nat) (s : State) : (dec_round_7 k t0 s).wf := by
  rcases s with ⟨b0, b1, b2, b3, b4, b5, b6, b7, b8, b9, b10, b11, b12, b13, b14, b15⟩
  simp only [State.wf, dec_round_7, sub64_lt, ror64_lt, and_self]

theorem dec_round_6_wf (k : Nat → Nat) (t0 : Nat) (s : State) : (dec_round_6 k t0 s).wf := by
  rcases s with ⟨b0, b1, b2, b3, b4, b5, b6, b7, b8, b9, b10, b11, b12, b13, b14, b15⟩
  simp only [State.wf, dec_round_6, sub64_lt, ror64_lt, and_self]

theorem dec_round_5_wf (k : Nat → Nat) (t0 : Nat) (s : State) : (dec_round_5 k t0 s).wf := by
  rcases s with ⟨b0, b1, b2, b3, b4, b5, b6, b7, b8, b9, b10, b11, b12, b13, b14, b15⟩
  simp only [State.wf, dec_round_5, sub64_lt, ror64_lt, and_self]

theorem dec_round_4_wf (k : Nat → Nat) (t0 : Nat) (s : State) : (dec_round_4 k t0 s).wf := by
  rcases s with ⟨b0, b1, b2, b3, b4, b5, b6, b7, b8, b9, b10, b11, b12, b13, b14, b15⟩
  simp only [State.wf, dec_round_4, sub64_lt, ror64_lt, and_self]

theorem dec_round_3_wf (k : Nat → Nat) (t0 : Nat) (s : State) : (dec_round_3 k t0 s).wf := by
  rcases s with ⟨b0, b1, b2, b3, b4, b5, b6, b7, b8, b9, b10, b11, b12, b13, b14, b15⟩
  simp only [State.wf, dec_round_3, sub64_lt, ror64_lt, and_self]

theorem dec_round_2_wf (k : Nat → Nat) (t0 : Nat) (s : State) : (dec_round_2 k t0 s).wf := by
  rcases s with ⟨b0, b1, b2, b3, b4, b5, b6, b7, b8, b9, b10, b11, b12, b13, b14, b15⟩
  simp only [State.wf, dec_round_2, sub64_lt, ror64_lt, and_self]

theorem dec_round_1_wf (k : Nat → Nat) (t0 : Nat) (s : State) : (dec_round_1 k t0 s).wf := by
  rcases s with ⟨b0, b1, b2, b3, b4, b5, b6, b7, b8, b9, b10, b11, b12, b13, b14, b15⟩
  simp only [State.wf, dec_round_1, sub64_lt, ror64_lt, and_self]

theorem dec_round_0_wf (k : Nat → Nat) (t0 : Nat) (s : State) : (dec_round_0 k t0 s).wf := by
  rcases s with ⟨b0, b1, b2, b3, b4, b5, b6, b7, b8, b9, b10, b11, b12, b13, b14, b15⟩
  simp only [State.wf, dec_round_0, sub64_lt, ror64_lt, and_self]

/-! ## Each block of the decryption undoes the matching block of the encryption -/

theorem dec_enc_round_0 (k : Nat → Nat) (t0 : Nat) (s : State) (h : s.wf) :
    dec_round_0 k t0 (enc_round_0 k t0 s) = s := by
  rcases s with ⟨b0, b1, b2, b3, b4, b5, b6, b7, b8, b9, b10, b11, b12, b13, b14, b15⟩
  rcases h with ⟨h0, h1, h2, h3, h4, h5, h6, h7, h8, h9, h10, h11, h12, h13, h14, h15⟩
  simp (disch := first | assumption | exact add64_lt _ _ | decide) only [dec_round_0,
    enc_round_0, ror64_rol64_xor, sub64_add64]

theorem dec_enc_round_1 (k : Nat → Nat) (t0 : Nat) (s : State) (h : s.wf) :
    dec_round_1 k t0 (enc_round_1 k t0 s) = s := by
  rcases s with ⟨b0, b1, b2, b3, b4, b5, b6, b7, b8, b9, b10, b11, b12, b13, b14, b15⟩
  rcases h with ⟨h0, h1, h2, h3, h4, h5, h6, h7, h8, h9, h10, h11, h12, h13, h14, h15⟩
  simp (disch := first | assumption | exact add64_lt _ _ | decide) only [dec_round_1,
    enc_round_1, ror64_rol64_xor, sub64_add64]

theorem dec_enc_round_2 (k : Nat → Nat) (t0 : Nat) (s : State) (h : s.wf) :
    dec_round_2 k t0 (enc_round_2 k t0 s) = s := by
  rcases s with ⟨b0, b1, b2, b3, b4, b5, b6, b7, b8, b9, b10, b11, b12, b13, b14, b15⟩
  rcases h with ⟨h0, h1, h2, h3, h4, h5, h6, h7, h8, h9, h10, h11, h12, h13, h14, h15⟩
  simp (disch := first | assumption | exact add64_lt _ _ | decide) only [dec_round_2,
    enc_round_2, ror64_rol64_xor, sub64_add64]

theorem dec_enc_round_3 (k : Nat → Nat) (t0 : Nat) (s : State) (h : s.wf) :
    dec_round_3 k t0 (enc_round_3 k t0 s) = s := by
  rcases s with ⟨b0, b1, b2, b3, b4, b5, b6, b7, b8, b9, b10, b11, b12, b13, b14, b15⟩
  rcases h with ⟨h0, h1, h2, h3, h4, h5, h6, h7, h8, h9, h10, h11, h12, h13, h14, h15⟩
  simp (disch := first | assumption | exact add64_lt _ _ | decide) only [dec_round_3,
    enc_round_3, ror64_rol64_xor, sub64_add64]

theorem dec_enc_round_4 (k : Nat → Nat) (t0 : Nat) (s : State) (h : s.wf) :
    dec_round_4 k t0 (enc_round_4 k t0 s) = s := by
  rcases s with ⟨b0, b1, b2, b3, b4, b5, b6, b7, b8, b9, b10, b11, b12, b13, b14, b15⟩
  rcases h with ⟨h0, h1, h2, h3, h4, h5, h6, h7, h8, h9, h10, h11, h12, h13, h14, h15⟩
  simp (disch := first | assumption | exact add64_lt _ _ | decide) only [dec_round_4,
    enc_round_4, ror64_rol64_xor, sub64_add64]

theorem dec_enc_round_5 (k : Nat → Nat) (t0 : Nat) (s : State) (h : s.wf) :
    dec_round_5 k t0 (enc_round_5 k t0 s) = s := by
  rcases s with ⟨b0, b1, b2, b3, b4, b5, b6, b7, b8, b9, b10, b11, b12, b13, b14, b15⟩
  rcases h with ⟨h0, h1, h2, h3, h4, h5, h6, h7, h8, h9, h10, h11, h12, h13, h14, h15⟩
  simp (disch := first | assumption | exact add64_lt _ _ | decide) only [dec_round_5,
    enc_round_5, ror64_rol64_xor, sub64_add64]

theorem dec_enc_round_6 (k : Nat → Nat) (t0 : Nat) (s : State) (h : s.wf) :
    dec_round_6 k t0 (enc_round_6 k t0 s) = s := by
  rcases s with ⟨b0, b1, b2, b3, b4, b5, b6, b7, b8, b9, b10, b11, b12, b13, b14, b15⟩
  rcases h with ⟨h0, h1, h2, h3, h4, h5, h6, h7, h8, h9, h10, h11, h12, h13, h14, h15⟩
  simp (disch := first | assumption | exact add64_lt _ _ | decide) only [dec_round_6,
    enc_round_6, ror64_rol64_xor, sub64_add64]

theorem dec_enc_round_7 (k : Nat → Nat) (t0 : Nat) (s : State) (h : s.wf) :
    dec_round_7 k t0 (enc_round_7 k t0 s) = s := by
  rcases s with ⟨b0, b1, b2, b3, b4, b5, b6, b7, b8, b9, b10, b11, b12, b13, b14, b15⟩
  rcases h with ⟨h0, h1, h2, h3, h4, h5, h6, h7, h8, h9, h10, h11, h12, h13, h14, h15⟩
  simp (disch := first | assumption | exact add64_lt _ _ | decide) only [dec_round_7,
    enc_round_7, ror64_rol64_xor, sub64_add64]

theorem dec_enc_round_8 (k : Nat → Nat) (t0 : Nat) (s : State) (h : s.wf) :
    dec_round_8 k t0 (enc_round_8 k t0 s) = s := by
  rcases s with ⟨b0, b1, b2, b3, b4, b5, b6, b7, b8, b9, b10, b11, b12, b13, b14, b15⟩
  rcases h with ⟨h0, h1, h2, h3, h4, h5, h6, h7, h8, h9, h10, h11, h12, h13, h14, h15⟩
  simp (disch := first | assumption | exact add64_lt _ _ | decide) only [dec_round_8,
    enc_round_8, ror64_rol64_xor, sub64_add64]

theorem dec_enc_round_9 (k : Nat → Nat) (t0 : Nat) (s : State) (h : s.wf) :
    dec_round_9 k t0 (enc_round_9 k t0 s) = s := by
  rcases s with ⟨b0, b1, b2, b3, b4, b5, b6, b7, b8, b9, b10, b11, b12, b13, b14, b15⟩
  rcases h with ⟨h0, h1, h2, h3, h4, h5, h6, h7, h8, h9, h10, h11, h12, h13, h14, h15⟩
  simp (disch := first | assumption | exact add64_lt _ _ | decide) only [dec_round_9,
    enc_round_9, ror64_rol64_xor, sub64_add64]

theorem dec_enc_round_10 (k : Nat → Nat) (t0 : Nat) (s : State) (h : s.wf) :
    dec_round_10 k t0 (enc_round_10 k t0 s) = s := by
  rcases s with ⟨b0, b1, b2, b3, b4, b5, b6, b7, b8, b9, b10, b11, b12, b13, b14, b15⟩
  rcases h with ⟨h0, h1, h2, h3, h4, h5, h6, h7, h8, h9, h10, h11, h12, h13, h14, h15⟩
  simp (disch := first | assumption | exact add64_lt _ _ | decide) only [dec_round_10,
    enc_round_10, ror64_rol64_xor, sub64_add64]

theorem dec_enc_round_11 (k : Nat → Nat) (t0 : Nat) (s : State) (h : s.wf) :
    dec_round_11 k t0 (enc_round_11 k t0 s) = s := by
  rcases s with ⟨b0, b1, b2, b3, b4, b5, b6, b7, b8, b9, b10, b11, b12, b13, b14, b15⟩
  rcases h with ⟨h0, h1, h2, h3, h4, h5, h6, h7, h8, h9, h10, h11, h12, h13, h14, h15⟩
  simp (disch := first | assumption | exact add64_lt _ _ | decide) only [dec_round_11,
    enc_round_11, ror64_rol64_xor, sub64_add64]

theorem dec_enc_round_12 (k : Nat → Nat) (t0 : Nat) (s : State) (h : s.wf) :
    dec_round_12 k t0 (enc_round_12 k t0 s) = s := by
  rcases s with ⟨b0, b1, b2, b3, b4, b5, b6, b7, b8, b9, b10, b11, b12, b13, b14, b15⟩
  rcases h with ⟨h0, h1, h2, h3, h4, h5, h6, h7, h8, h9, h10, h11, h12, h13, h14, h15⟩
  simp (disch := first | assumption | exact add64_lt _ _ | decide) only [dec_round_12,
    enc_round_12, ror64_rol64_xor, sub64_add64]

theorem dec_enc_round_13 (k : Nat → Nat) (t0 : Nat) (s : State) (h : s.wf) :
    dec_round_13 k t0 (enc_round_13 k t0 s) = s := by
  rcases s with ⟨b0, b1, b2, b3, b4, b5, b6, b7, b8, b9, b10, b11, b12, b13, b14, b15⟩
  rcases h with ⟨h0, h1, h2, h3, h4, h5, h6, h7, h8, h9, h10, h11, h12, h13, h14, h15⟩
  simp (disch := first | assumption | exact add64_lt _ _ | decide) only [dec_round_13,
    enc_round_13, ror64_rol64_xor, sub64_add64]

theorem dec_enc_round_14 (k : Nat → Nat) (t0 : Nat) (s : State) (h : s.wf) :
    dec_round_14 k t0 (enc_round_14 k t0 s) = s := by
  rcases s with ⟨b0, b1, b2, b3, b4, b5, b6, b7, b8, b9, b10, b11, b12, b13, b14, b15⟩
  rcases h with ⟨h0, h1, h2, h3, h4, h5, h6, h7, h8, h9, h10, h11, h12, h13, h14, h15⟩
  simp (disch := first | assumption | exact add64_lt _ _ | decide) only [dec_round_14,
    enc_round_14, ror64_rol64_xor, sub64_add64]

theorem dec_enc_round_15 (k : Nat → Nat) (t0 : Nat) (s : State) (h : s.wf) :
    dec_round_15 k t0 (enc_round_15 k t0 s) = s := by
  rcases s with ⟨b0, b1, b2, b3, b4, b5, b6, b7, b8, b9, b10, b11, b12, b13, b14, b15⟩
  rcases h with ⟨h0, h1, h2, h3, h4, h5, h6, h7, h8, h9, h10, h11, h12, h13, h14, h15⟩
  simp (disch := first | assumption | exact add64_lt _ _ | decide) only [dec_round_15,
    enc_round_15, ror64_rol64_xor, sub64_add64]

theorem dec_enc_round_16 (k : Nat → Nat) (t0 : Nat) (s : State) (h : s.wf) :
    dec_round_16 k t0 (enc_round_16 k t0 s) = s := by
  rcases s with ⟨b0, b1, b2, b3, b4, b5, b6, b7, b8, b9, b10, b11, b12, b13, b14, b15⟩
  rcases h with ⟨h0, h1, h2, h3, h4, h5, h6, h7, h8, h9, h10, h11, h12, h13, h14, h15⟩
  simp (disch := first | assumption | exact add64_lt _ _ | decide) only [dec_round_16,
    enc_round_16, ror64_rol64_xor, sub64_add64]

theorem dec_enc_round_17 (k : Nat → Nat) (t0 : Nat) (s : State) (h : s.wf) :
    dec_round_17 k t0 (enc_round_17 k t0 s) = s := by
  rcases s with ⟨b0, b1, b2, b3, b4, b5, b6, b7, b8, b9, b10, b11, b12, b13, b14, b15⟩
  rcases h with ⟨h0, h1, h2, h3, h4, h5, h6, h7, h8, h9, h10, h11, h12, h13, h14, h15⟩
  simp (disch := first | assumption | exact add64_lt _ _ | decide) only [dec_round_17,
    enc_round_17, ror64_rol64_xor, sub64_add64]

theorem dec_enc_round_18 (k : Nat → Nat) (t0 : Nat) (s : State) (h : s.wf) :
    dec_round_18 k t0 (enc_round_18 k t0 s) = s := by
  rcases s with ⟨b0, b1, b2, b3, b4, b5, b6, b7, b8, b9, b10, b11, b12, b13, b14, b15⟩
  rcases h with ⟨h0, h1, h2, h3, h4, h5, h6, h7, h8, h9, h10, h11, h12, h13, h14, h15⟩
  simp (disch := first | assumption | exact add64_lt _ _ | decide) only [dec_round_18,
    enc_round_18, ror64_rol64_xor, sub64_add64]

theorem dec_enc_round_19 (k : Nat → Nat) (t0 : Nat) (s : State) (h : s.wf) :
    dec_round_19 k t0 (enc_round_19 k t0 s) = s := by
  rcases s with ⟨b0, b1, b2, b3, b4, b5, b6, b7, b8, b9, b10, b11, b12, b13, b14, b15⟩
  rcases h with ⟨h0, h1, h2, h3, h4, h5, h6, h7, h8, h9, h10, h11, h12, h13, h14, h15⟩
  simp (disch := first | assumption | exact add64_lt _ _ | decide) only [dec_round_19,
    enc_round_19, ror64_rol64_xor, sub64_add64]

theorem dec_enc_round_20 (k : Nat → Nat) (t0 : Nat) (s : State) (h : s.wf) :
    dec_round_20 k t0 (enc_round_20 k t0 s) = s := by
  rcases s with ⟨b0, b1, b2, b3, b4, b5, b6, b7, b8, b9, b10, b11, b12, b13, b14, b15⟩
  rcases h with ⟨h0, h1, h2, h3, h4, h5, h6, h7, h8, h9, h10, h11, h12, h13, h14, h15⟩
  simp (disch := first | assumption | exact add64_lt _ _ | decide) only [dec_round_20,
    enc_round_20, ror64_rol64_xor, sub64_add64]

theorem dec_enc_round_21 (k : Nat → Nat) (t0 : Nat) (s : State) (h : s.wf) :
    dec_round_21 k t0 (enc_round_21 k t0 s) = s := by
  rcases s with ⟨b0, b1, b2, b3, b4, b5, b6, b7, b8, b9, b10, b11, b12, b13, b14, b15⟩
  rcases h with ⟨h0, h1, h2, h3, h4, h5, h6, h7, h8, h9, h10, h11, h12, h13, h14, h15⟩
  simp (disch := first | assumption | exact add64_lt _ _ | decide) only [dec_round_21,
    enc_round_21, ror64_rol64_xor, sub64_add64]

theorem dec_enc_round_22 (k : Nat → Nat) (t0 : Nat) (s : State) (h : s.wf) :
    dec_round_22 k t0 (enc_round_22 k t0 s) = s := by
  rcases s with ⟨b0, b1, b2, b3, b4, b5, b6, b7, b8, b9, b10, b11, b12, b13, b14, b15⟩
  rcases h with ⟨h0, h1, h2, h3, h4, h5, h6, h7, h8, h9, h10, h11, h12, h13, h14, h15⟩
  simp (disch := first | assumption | exact add64_lt _ _ | decide) only [dec_round_22,
    enc_round_22, ror64_rol64_xor, sub64_add64]

theorem dec_enc_round_23 (k : Nat → Nat) (t0 : Nat) (s : State) (h : s.wf) :
    dec_round_23 k t0 (enc_round_23 k t0 s) = s := by
  rcases s with ⟨b0, b1, b2, b3, b4, b5, b6, b7, b8, b9, b10, b11, b12, b13, b14, b15⟩
  rcases h with ⟨h0, h1, h2, h3, h4, h5, h6, h7, h8, h9, h10, h11, h12, h13, h14, h15⟩
  simp (disch := first | assumption | exact add64_lt _ _ | decide) only [dec_round_23,
    enc_round_23, ror64_rol64_xor, sub64_add64]

theorem dec_enc_round_24 (k : Nat → Nat) (t0 : Nat) (s : State) (h : s.wf) :
    dec_round_24 k t0 (enc_round_24 k t0 s) = s := by
  rcases s with ⟨b0, b1, b2, b3, b4, b5, b6, b7, b8, b9, b10, b11, b12, b13, b14, b15⟩
  rcases h with ⟨h0, h1, h2, h3, h4, h5, h6, h7, h8, h9, h10, h11, h12, h13, h14, h15⟩
  simp (disch := first | assumption | exact add64_lt _ _ | decide) only [dec_round_24,
    enc_round_24, ror64_rol64_xor, sub64_add64]

theorem dec_enc_round_25 (k : Nat → Nat) (t0 : Nat) (s : State) (h : s.wf) :
    dec_round_25 k t0 (enc_round_25 k t0 s) = s := by
  rcases s with ⟨b0, b1, b2, b3, b4, b5, b6, b7, b8, b9, b10, b11, b12, b13, b14, b15⟩
  rcases h with ⟨h0, h1, h2, h3, h4, h5, h6, h7, h8, h9, h10, h11, h12, h13, h14, h15⟩
  simp (disch := first | assumption | exact add64_lt _ _ | decide) only [dec_round_25,
    enc_round_25, ror64_rol64_xor, sub64_add64]

theorem dec_enc_round_26 (k : Nat → Nat) (t0 : Nat) (s : State) (h : s.wf) :
    dec_round_26 k t0 (enc_round_26 k t0 s) = s := by
  rcases s with ⟨b0, b1, b2, b3, b4, b5, b6, b7, b8, b9, b10, b11, b12, b13, b14, b15⟩
  rcases h with ⟨h0, h1, h2, h3, h4, h5, h6, h7, h8, h9, h10, h11, h12, h13, h14, h15⟩
  simp (disch := first | assumption | exact add64_lt _ _ | decide) only [dec_round_26,
    enc_round_26, ror64_rol64_xor, sub64_add64]

theorem dec_enc_round_27 (k : Nat → Nat) (t0 : Nat) (s : State) (h : s.wf) :
    dec_round_27 k t0 (enc_round_27 k t0 s) = s := by
  rcases s with ⟨b0, b1, b2, b3, b4, b5, b6, b7, b8, b9, b10, b11, b12, b13, b14, b15⟩
  rcases h with ⟨h0, h1, h2, h3, h4, h5, h6, h7, h8, h9, h10, h11, h12, h13, h14, h15⟩
  simp (disch := first | assumption | exact add64_lt _ _ | decide) only [dec_round_27,
    enc_round_27, ror64_rol64_xor, sub64_add64]

theorem dec_enc_round_28 (k : Nat → Nat) (t0 : Nat) (s : State) (h : s.wf) :
    dec_round_28 k t0 (enc_round_28 k t0 s) = s := by
  rcases s with ⟨b0, b1, b2, b3, b4, b5, b6, b7, b8, b9, b10, b11, b12, b13, b14, b15⟩
  rcases h with ⟨h0, h1, h2, h3, h4, h5, h6, h7, h8, h9, h10, h11, h12, h13, h14, h15⟩
  simp (disch := first | assumption | exact add64_lt _ _ | decide) only [dec_round_28,
    enc_round_28, ror64_rol64_xor, sub64_add64]

theorem dec_enc_round_29 (k : Nat → Nat) (t0 : Nat) (s : State) (h : s.wf) :
    dec_round_29 k t0 (enc_round_29 k t0 s) = s := by
  rcases s with ⟨b0, b1, b2, b3, b4, b5, b6, b7, b8, b9, b10, b11, b12, b13, b14, b15⟩
  rcases h with ⟨h0, h1, h2, h3, h4, h5, h6, h7, h8, h9, h10, h11, h12, h13, h14, h15⟩
  simp (disch := first | assumption | exact add64_lt _ _ | decide) only [dec_round_29,
    enc_round_29, ror64_rol64_xor, sub64_add64]

theorem dec_enc_round_30 (k : Nat → Nat) (t0 : Nat) (s : State) (h : s.wf) :
    dec_round_30 k t0 (enc_round_30 k t0 s) = s := by
  rcases s with ⟨b0, b1, b2, b3, b4, b5, b6, b7, b8, b9, b10, b11, b12, b13, b14, b15⟩
  rcases h with ⟨h0, h1, h2, h3, h4, h5, h6, h7, h8, h9, h10, h11, h12, h13, h14, h15⟩
  simp (disch := first | assumption | exact add64_lt _ _ | decide) only [dec_round_30,
    enc_round_30, ror64_rol64_xor, sub64_add64]

theorem dec_enc_round_31 (k : Nat → Nat) (t0 : Nat) (s : State) (h : s.wf) :
    dec_round_31 k t0 (enc_round_31 k t0 s) = s := by
  rcases s with ⟨b0, b1, b2, b3, b4, b5, b6, b7, b8, b9, b10, b11, b12, b13, b14, b15⟩
  rcases h with ⟨h0, h1, h2, h3, h4, h5, h6, h7, h8, h9, h10, h11, h12, h13, h14, h15⟩
  simp (disch := first | assumption | exact add64_lt _ _ | decide) only [dec_round_31,
    enc_round_31, ror64_rol64_xor, sub64_add64]

theorem dec_enc_round_32 (k : Nat → Nat) (t0 : Nat) (s : State) (h : s.wf) :
    dec_round_32 k t0 (enc_round_32 k t0 s) = s := by
  rcases s with ⟨b0, b1, b2, b3, b4, b5, b6, b7, b8, b9, b10, b11, b12, b13, b14, b15⟩
  rcases h with ⟨h0, h1, h2, h3, h4, h5, h6, h7, h8, h9, h10, h11, h12, h13, h14, h15⟩
  simp (disch := first | assumption | exact add64_lt _ _ | decide) only [dec_round_32,
    enc_round_32, ror64_rol64_xor, sub64_add64]

theorem dec_enc_round_33 (k : Nat → Nat) (t0 : Nat) (s : State) (h : s.wf) :
    dec_round_33 k t0 (enc_round_33 k t0 s) = s := by
  rcases s with ⟨b0, b1, b2, b3, b4, b5, b6, b7, b8, b9, b10, b11, b12, b13, b14, b15⟩
  rcases h with ⟨h0, h1, h2, h3, h4, h5, h6, h7, h8, h9, h10, h11, h12, h13, h14, h15⟩
  simp (disch := first | assumption | exact add64_lt _ _ | decide) only [dec_round_33,
    enc_round_33, ror64_rol64_xor, sub64_add64]

theorem dec_enc_round_34 (k : Nat → Nat) (t0 : Nat) (s : State) (h : s.wf) :
    dec_round_34 k t0 (enc_round_34 k t0 s) = s := by
  rcases s with ⟨b0, b1, b2, b3, b4, b5, b6, b7, b8, b9, b10, b11, b12, b13, b14, b15⟩
  rcases h with ⟨h0, h1, h2, h3, h4, h5, h6, h7, h8, h9, h10, h11, h12, h13, h14, h15⟩
  simp (disch := first | assumption | exact add64_lt _ _ | decide) only [dec_round_34,
    enc_round_34, ror64_rol64_xor, sub64_add64]

theorem dec_enc_round_35 (k : Nat → Nat) (t0 : Nat) (s : State) (h : s.wf) :
    dec_round_35 k t0 (enc_round_35 k t0 s) = s := by
  rcases s with ⟨b0, b1, b2, b3, b4, b5, b6, b7, b8, b9, b10, b11, b12, b13, b14, b15⟩
  rcases h with ⟨h0, h1, h2, h3, h4, h5, h6, h7, h8, h9, h10, h11, h12, h13, h14, h15⟩
  simp (disch := first | assumption | exact add64_lt _ _ | decide) only [dec_round_35,
    enc_round_35, ror64_rol64_xor, sub64_add64]

theorem dec_enc_round_36 (k : Nat → Nat) (t0 : Nat) (s : State) (h : s.wf) :
    dec_round_36 k t0 (enc_round_36 k t0 s) = s := by
  rcases s with ⟨b0, b1, b2, b3, b4, b5, b6, b7, b8, b9, b10, b11, b12, b13, b14, b15⟩
  rcases h with ⟨h0, h1, h2, h3, h4, h5, h6, h7, h8, h9, h10, h11, h12, h13, h14, h15⟩
  simp (disch := first | assumption | exact add64_lt _ _ | decide) only [dec_round_36,
    enc_round_36, ror64_rol64_xor, sub64_add64]

theorem dec_enc_round_37 (k : Nat → Nat) (t0 : Nat) (s : State) (h : s.wf) :
    dec_round_37 k t0 (enc_round_37 k t0 s) = s := by
  rcases s with ⟨b0, b1, b2, b3, b4, b5, b6, b7, b8, b9, b10, b11, b12, b13, b14, b15⟩
  rcases h with ⟨h0, h1, h2, h3, h4, h5, h6, h7, h8, h9, h10, h11, h12, h13, h14, h15⟩
  simp (disch := first | assumption | exact add64_lt _ _ | decide) only [dec_round_37,
    enc_round_37, ror64_rol64_xor, sub64_add64]

theorem dec_enc_round_38 (k : Nat → Nat) (t0 : Nat) (s : State) (h : s.wf) :
    dec_round_38 k t0 (enc_round_38 k t0 s) = s := by
  rcases s with ⟨b0, b1, b2, b3, b4, b5, b6, b7, b8, b9, b10, b11, b12, b13, b14, b15⟩
  rcases h with ⟨h0, h1, h2, h3, h4, h5, h6, h7, h8, h9, h10, h11, h12, h13, h14, h15⟩
  simp (disch := first | assumption | exact add64_lt _ _ | decide) only [dec_round_38,
    enc_round_38, ror64_rol64_xor, sub64_add64]

theorem dec_enc_round_39 (k : Nat → Nat) (t0 : Nat) (s : State) (h : s.wf) :
    dec_round_39 k t0 (enc_round_39 k t0 s) = s := by
  rcases s with ⟨b0, b1, b2, b3, b4, b5, b6, b7, b8, b9, b10, b11, b12, b13, b14, b15⟩
  rcases h with ⟨h0, h1, h2, h3, h4, h5, h6, h7, h8, h9, h10, h11, h12, h13, h14, h15⟩
  simp (disch := first | assumption | exact add64_lt _ _ | decide) only [dec_round_39,
    enc_round_39, ror64_rol64_xor, sub64_add64]

theorem dec_enc_round_40 (k : Nat → Nat) (t0 : Nat) (s : State) (h : s.wf) :
    dec_round_40 k t0 (enc_round_40 k t0 s) = s := by
  rcases s with ⟨b0, b1, b2, b3, b4, b5, b6, b7, b8, b9, b10, b11, b12, b13, b14, b15⟩
  rcases h with ⟨h0, h1, h2, h3, h4, h5, h6, h7, h8, h9, h10, h11, h12, h13, h14, h15⟩
  simp (disch := first | assumption | exact add64_lt _ _ | decide) only [dec_round_40,
    enc_round_40, ror64_rol64_xor, sub64_add64]

theorem dec_enc_round_41 (k : Nat → Nat) (t0 : Nat) (s : State) (h : s.wf) :
    dec_round_41 k t0 (enc_round_41 k t0 s) = s := by
  rcases s with ⟨b0, b1, b2, b3, b4, b5, b6, b7, b8, b9, b10, b11, b12, b13, b14, b15⟩
  rcases h with ⟨h0, h1, h2, h3, h4, h5, h6, h7, h8, h9, h10, h11, h12, h13, h14, h15⟩
  simp (disch := first | assumption | exact add64_lt _ _ | decide) only [dec_round_41,
    enc_round_41, ror64_rol64_xor, sub64_add64]

theorem dec_enc_round_42 (k : Nat → Nat) (t0 : Nat) (s : State) (h : s.wf) :
    dec_round_42 k t0 (enc_round_42 k t0 s) = s := by
  rcases s with ⟨b0, b1, b2, b3, b4, b5, b6, b7, b8, b9, b10, b11, b12, b13, b14, b15⟩
  rcases h with ⟨h0, h1, h2, h3, h4, h5, h6, h7, h8, h9, h10, h11, h12, h13, h14, h15⟩
  simp (disch := first | assumption | exact add64_lt _ _ | decide) only [dec_round_42,
    enc_round_42, ror64_rol64_xor, sub64_add64]

theorem dec_enc_round_43 (k : Nat → Nat) (t0 : Nat) (s : State) (h : s.wf) :
    dec_round_43 k t0 (enc_round_43 k t0 s) = s := by
  rcases s with ⟨b0, b1, b2, b3, b4, b5, b6, b7, b8, b9, b10, b11, b12, b13, b14, b15⟩
  rcases h with ⟨h0, h1, h2, h3, h4, h5, h6, h7, h8, h9, h10, h11, h12, h13, h14, h15⟩
  simp (disch := first | assumption | exact add64_lt _ _ | decide) only [dec_round_43,
    enc_round_43, ror64_rol64_xor, sub64_add64]

theorem dec_enc_round_44 (k : Nat → Nat) (t0 : Nat) (s : State) (h : s.wf) :
    dec_round_44 k t0 (enc_round_44 k t0 s) = s := by
  rcases s with ⟨b0, b1, b2, b3, b4, b5, b6, b7, b8, b9, b10, b11, b12, b13, b14, b15⟩
  rcases h with ⟨h0, h1, h2, h3, h4, h5, h6, h7, h8, h9, h10, h11, h12, h13, h14, h15⟩
  simp (disch := first | assumption | exact add64_lt _ _ | decide) only [dec_round_44,
    enc_round_44, ror64_rol64_xor, sub64_add64]

theorem dec_enc_round_45 (k : Nat → Nat) (t0 : Nat) (s : State) (h : s.wf) :
    dec_round_45 k t0 (enc_round_45 k t0 s) = s := by
  rcases s with ⟨b0, b1, b2, b3, b4, b5, b6, b7, b8, b9, b10, b11, b12, b13, b14, b15⟩
  rcases h with ⟨h0, h1, h2, h3, h4, h5, h6, h7, h8, h9, h10, h11, h12, h13, h14, h15⟩
  simp (disch := first | assumption | exact add64_lt _ _ | decide) only [dec_round_45,
    enc_round_45, ror64_rol64_xor, sub64_add64]

theorem dec_enc_round_46 (k : Nat → Nat) (t0 : Nat) (s : State) (h : s.wf) :
    dec_round_46 k t0 (enc_round_46 k t0 s) = s := by
  rcases s with ⟨b0, b1, b2, b3, b4, b5, b6, b7, b8, b9, b10, b11, b12, b13, b14, b15⟩
  rcases h with ⟨h0, h1, h2, h3, h4, h5, h6, h7, h8, h9, h10, h11, h12, h13, h14, h15⟩
  simp (disch := first | assumption | exact add64_lt _ _ | decide) only [dec_round_46,
    enc_round_46, ror64_rol64_xor, sub64_add64]

theorem dec_enc_round_47 (k : Nat → Nat) (t0 : Nat) (s : State) (h : s.wf) :
    dec_round_47 k t0 (enc_round_47 k t0 s) = s := by
  rcases s with ⟨b0, b1, b2, b3, b4, b5, b6, b7, b8, b9, b10, b11, b12, b13, b14, b15⟩
  rcases h with ⟨h0, h1, h2, h3, h4, h5, h6, h7, h8, h9, h10, h11, h12, h13, h14, h15⟩
  simp (disch := first | assumption | exact add64_lt _ _ | decide) only [dec_round_47,
    enc_round_47, ror64_rol64_xor, sub64_add64]

theorem dec_enc_round_48 (k : Nat → Nat) (t0 : Nat) (s : State) (h : s.wf) :
    dec_round_48 k t0 (enc_round_48 k t0 s) = s := by
  rcases s with ⟨b0, b1, b2, b3, b4, b5, b6, b7, b8, b9, b10, b11, b12, b13, b14, b15⟩
  rcases h with ⟨h0, h1, h2, h3, h4, h5, h6, h7, h8, h9, h10, h11, h12, h13, h14, h15⟩
  simp (disch := first | assumption | exact add64_lt _ _ | decide) only [dec_round_48,
    enc_round_48, ror64_rol64_xor, sub64_add64]

theorem dec_enc_round_49 (k : Nat → Nat) (t0 : Nat) (s : State) (h : s.wf) :
    dec_round_49 k t0 (enc_round_49 k t0 s) = s := by
  rcases s with ⟨b0, b1, b2, b3, b4, b5, b6, b7, b8, b9, b10, b11, b12, b13, b14, b15⟩
  rcases h with ⟨h0, h1, h2, h3, h4, h5, h6, h7, h8, h9, h10, h11, h12, h13, h14, h15⟩
  simp (disch := first | assumption | exact add64_lt _ _ | decide) only [dec_round_49,
    enc_round_49, ror64_rol64_xor, sub64_add64]

theorem dec_enc_round_50 (k : Nat → Nat) (t0 : Nat) (s : State) (h : s.wf) :
    dec_round_50 k t0 (enc_round_50 k t0 s) = s := by
  rcases s with ⟨b0, b1, b2, b3, b4, b5, b6, b7, b8, b9, b10, b11, b12, b13, b14, b15⟩
  rcases h with ⟨h0, h1, h2, h3, h4, h5, h6, h7, h8, h9, h10, h11, h12, h13, h14, h15⟩
  simp (disch := first | assumption | exact add64_lt _ _ | decide) only [dec_round_50,
    enc_round_50, ror64_rol64_xor, sub64_add64]

theorem dec_enc_round_51 (k : Nat → Nat) (t0 : Nat) (s : State) (h : s.wf) :
    dec_round_51 k t0 (enc_round_51 k t0 s) = s := by
  rcases s with ⟨b0, b1, b2, b3, b4, b5, b6, b7, b8, b9, b10, b11, b12, b13, b14, b15⟩
  rcases h with ⟨h0, h1, h2, h3, h4, h5, h6, h7, h8, h9, h10, h11, h12, h13, h14, h15⟩
  simp (disch := first | assumption | exact add64_lt _ _ | decide) only [dec_round_51,
    enc_round_51, ror64_rol64_xor, sub64_add64]

theorem dec_enc_round_52 (k : Nat → Nat) (t0 : Nat) (s : State) (h : s.wf) :
    dec_round_52 k t0 (enc_round_52 k t0 s) = s := by
  rcases s with ⟨b0, b1, b2, b3, b4, b5, b6, b7, b8, b9, b10, b11, b12, b13, b14, b15⟩
  rcases h with ⟨h0, h1, h2, h3, h4, h5, h6, h7, h8, h9, h10, h11, h12, h13, h14, h15⟩
  simp (disch := first | assumption | exact add64_lt _ _ | decide) only [dec_round_52,
    enc_round_52, ror64_rol64_xor, sub64_add64]

theorem dec_enc_round_53 (k : Nat → Nat) (t0 : Nat) (s : State) (h : s.wf) :
    dec_round_53 k t0 (enc_round_53 k t0 s) = s := by
  rcases s with ⟨b0, b1, b2, b3, b4, b5, b6, b7, b8, b9, b10, b11, b12, b13, b14, b15⟩
  rcases h with ⟨h0, h1, h2, h3, h4, h5, h6, h7, h8, h9, h10, h11, h12, h13, h14, h15⟩
  simp (disch := first | assumption | exact add64_lt _ _ | decide) only [dec_round_53,
    enc_round_53, ror64_rol64_xor, sub64_add64]

theorem dec_enc_round_54 (k : Nat → Nat) (t0 : Nat) (s : State) (h : s.wf) :
    dec_round_54 k t0 (enc_round_54 k t0 s) = s := by
  rcases s with ⟨b0, b1, b2, b3, b4, b5, b6, b7, b8, b9, b10, b11, b12, b13, b14, b15⟩
  rcases h with ⟨h0, h1, h2, h3, h4, h5, h6, h7, h8, h9, h10, h11, h12, h13, h14, h15⟩
  simp (disch := first | assumption | exact add64_lt _ _ | decide) only [dec_round_54,
    enc_round_54, ror64_rol64_xor, sub64_add64]

theorem dec_enc_round_55 (k : Nat → Nat) (t0 : Nat) (s : State) (h : s.wf) :
    dec_round_55 k t0 (enc_round_55 k t0 s) = s := by
  rcases s with ⟨b0, b1, b2, b3, b4, b5, b6, b7, b8, b9, b10, b11, b12, b13, b14, b15⟩
  rcases h with ⟨h0, h1, h2, h3, h4, h5, h6, h7, h8, h9, h10, h11, h12, h13, h14, h15⟩
  simp (disch := first | assumption | exact add64_lt _ _ | decide) only [dec_round_55,
    enc_round_55, ror64_rol64_xor, sub64_add64]

theorem dec_enc_round_56 (k : Nat → Nat) (t0 : Nat) (s : State) (h : s.wf) :
    dec_round_56 k t0 (enc_round_56 k t0 s) = s := by
  rcases s with ⟨b0, b1, b2, b3, b4, b5, b6, b7, b8, b9, b10, b11, b12, b13, b14, b15⟩
  rcases h with ⟨h0, h1, h2, h3, h4, h5, h6, h7, h8, h9, h10, h11, h12, h13, h14, h15⟩
  simp (disch := first | assumption | exact add64_lt _ _ | decide) only [dec_round_56,
    enc_round_56, ror64_rol64_xor, sub64_add64]

theorem dec_enc_round_57 (k : Nat → Nat) (t0 : Nat) (s : State) (h : s.wf) :
    dec_round_57 k t0 (enc_round_57 k t0 s) = s := by
  rcases s with ⟨b0, b1, b2, b3, b4, b5, b6, b7, b8, b9, b10, b11, b12, b13, b14, b15⟩
  rcases h with ⟨h0, h1, h2, h3, h4, h5, h6, h7, h8, h9, h10, h11, h12, h13, h14, h15⟩
  simp (disch := first | assumption | exact add64_lt _ _ | decide) only [dec_round_57,
    enc_round_57, ror64_rol64_xor, sub64_add64]

theorem dec_enc_round_58 (k : Nat → Nat) (t0 : Nat) (s : State) (h : s.wf) :
    dec_round_58 k t0 (enc_round_58 k t0 s) = s := by
  rcases s with ⟨b0, b1, b2, b3, b4, b5, b6, b7, b8, b9, b10, b11, b12, b13, b14, b15⟩
  rcases h with ⟨h0, h1, h2, h3, h4, h5, h6, h7, h8, h9, h10, h11, h12, h13, h14, h15⟩
  simp (disch := first | assumption | exact add64_lt _ _ | decide) only [dec_round_58,
    enc_round_58, ror64_rol64_xor, sub64_add64]

theorem dec_enc_round_59 (k : Nat → Nat) (t0 : Nat) (s : State) (h : s.wf) :
    dec_round_59 k t0 (enc_round_59 k t0 s) = s := by
  rcases s with ⟨b0, b1, b2, b3, b4, b5, b6, b7, b8, b9, b10, b11, b12, b13, b14, b15⟩
  rcases h with ⟨h0, h1, h2, h3, h4, h5, h6, h7, h8, h9, h10, h11, h12, h13, h14, h15⟩
  simp (disch := first | assumption | exact add64_lt _ _ | decide) only [dec_round_59,
    enc_round_59, ror64_rol64_xor, sub64_add64]

theorem dec_enc_round_60 (k : Nat → Nat) (t0 : Nat) (s : State) (h : s.wf) :
    dec_round_60 k t0 (enc_round_60 k t0 s) = s := by
  rcases s with ⟨b0, b1, b2, b3, b4, b5, b6, b7, b8, b9, b10, b11, b12, b13, b14, b15⟩
  rcases h with ⟨h0, h1, h2, h3, h4, h5, h6, h7, h8, h9, h10, h11, h12, h13, h14, h15⟩
  simp (disch := first | assumption | exact add64_lt _ _ | decide) only [dec_round_60,
    enc_round_60, ror64_rol64_xor, sub64_add64]

theorem dec_enc_round_61 (k : Nat → Nat) (t0 : Nat) (s : State) (h : s.wf) :
    dec_round_61 k t0 (enc_round_61 k t0 s) = s := by
  rcases s with ⟨b0, b1, b2, b3, b4, b5, b6, b7, b8, b9, b10, b11, b12, b13, b14, b15⟩
  rcases h with ⟨h0, h1, h2, h3, h4, h5, h6, h7, h8, h9, h10, h11, h12, h13, h14, h15⟩
  simp (disch := first | assumption | exact add64_lt _ _ | decide) only [dec_round_61,
    enc_round_61, ror64_rol64_xor, sub64_add64]

theorem dec_enc_round_62 (k : Nat → Nat) (t0 : Nat) (s : State) (h : s.wf) :
    dec_round_62 k t0 (enc_round_62 k t0 s) = s := by
  rcases s with ⟨b0, b1, b2, b3, b4, b5, b6, b7, b8, b9, b10, b11, b12, b13, b14, b15⟩
  rcases h with ⟨h0, h1, h2, h3, h4, h5, h6, h7, h8, h9, h10, h11, h12, h13, h14, h15⟩
  simp (disch := first | assumption | exact add64_lt _ _ | decide) only [dec_round_62,
    enc_round_62, ror64_rol64_xor, sub64_add64]

theorem dec_enc_round_63 (k : Nat → Nat) (t0 : Nat) (s : State) (h : s.wf) :
    dec_round_63 k t0 (enc_round_63 k t0 s) = s := by
  rcases s with ⟨b0, b1, b2, b3, b4, b5, b6, b7, b8, b9, b10, b11, b12, b13, b14, b15⟩
  rcases h with ⟨h0, h1, h2, h3, h4, h5, h6, h7, h8, h9, h10, h11, h12, h13, h14, h15⟩
  simp (disch := first | assumption | exact add64_lt _ _ | decide) only [dec_round_63,
    enc_round_63, ror64_rol64_xor, sub64_add64]

theorem dec_enc_round_64 (k : Nat → Nat) (t0 : Nat) (s : State) (h : s.wf) :
    dec_round_64 k t0 (enc_round_64 k t0 s) = s := by
  rcases s with ⟨b0, b1, b2, b3, b4, b5, b6, b7, b8, b9, b10, b11, b12, b13, b14, b15⟩
  rcases h with ⟨h0, h1, h2, h3, h4, h5, h6, h7, h8, h9, h10, h11, h12, h13, h14, h15⟩
  simp (disch := first | assumption | exact add64_lt _ _ | decide) only [dec_round_64,
    enc_round_64, ror64_rol64_xor, sub64_add64]

theorem dec_enc_round_65 (k : Nat → Nat) (t0 : Nat) (s : State) (h : s.wf) :
    dec_round_65 k t0 (enc_round_65 k t0 s) = s := by
  rcases s with ⟨b0, b1, b2, b3, b4, b5, b6, b7, b8, b9, b10, b11, b12, b13, b14, b15⟩
  rcases h with ⟨h0, h1, h2, h3, h4, h5, h6, h7, h8, h9, h10, h11, h12, h13, h14, h15⟩
  simp (disch := first | assumption | exact add64_lt _ _ | decide) only [dec_round_65,
    enc_round_65, ror64_rol64_xor, sub64_add64]

theorem dec_enc_round_66 (k : Nat → Nat) (t0 : Nat) (s : State) (h : s.wf) :
    dec_round_66 k t0 (enc_round_66 k t0 s) = s := by
  rcases s with ⟨b0, b1, b2, b3, b4, b5, b6, b7, b8, b9, b10, b11, b12, b13, b14, b15⟩
  rcases h with ⟨h0, h1, h2, h3, h4, h5, h6, h7, h8, h9, h10, h11, h12, h13, h14, h15⟩
  simp (disch := first | assumption | exact add64_lt _ _ | decide) only [dec_round_66,
    enc_round_66, ror64_rol64_xor, sub64_add64]

theorem dec_enc_round_67 (k : Nat → Nat) (t0 : Nat) (s : State) (h : s.wf) :
    dec_round_67 k t0 (enc_round_67 k t0 s) = s := by
  rcases s with ⟨b0, b1, b2, b3, b4, b5, b6, b7, b8, b9, b10, b11, b12, b13, b14, b15⟩
  rcases h with ⟨h0, h1, h2, h3, h4, h5, h6, h7, h8, h9, h10, h11, h12, h13, h14, h15⟩
  simp (disch := first | assumption | exact add64_lt _ _ | decide) only [dec_round_67,
    enc_round_67, ror64_rol64_xor, sub64_add64]

theorem dec_enc_round_68 (k : Nat → Nat) (t0 : Nat) (s : State) (h : s.wf) :
    dec_round_68 k t0 (enc_round_68 k t0 s) = s := by
  rcases s with ⟨b0, b1, b2, b3, b4, b5, b6, b7, b8, b9, b10, b11, b12, b13, b14, b15⟩
  rcases h with ⟨h0, h1, h2, h3, h4, h5, h6, h7, h8, h9, h10, h11, h12, h13, h14, h15⟩
  simp (disch := first | assumption | exact add64_lt _ _ | decide) only [dec_round_68,
    enc_round_68, ror64_rol64_xor, sub64_add64]

theorem dec_enc_round_69 (k : Nat → Nat) (t0 : Nat) (s : State) (h : s.wf) :
    dec_round_69 k t0 (enc_round_69 k t0 s) = s := by
  rcases s with ⟨b0, b1, b2, b3, b4, b5, b6, b7, b8, b9, b10, b11, b12, b13, b14, b15⟩
  rcases h with ⟨h0, h1, h2, h3, h4, h5, h6, h7, h8, h9, h10, h11, h12, h13, h14, h15⟩
  simp (disch := first | assumption | exact add64_lt _ _ | decide) only [dec_round_69,
    enc_round_69, ror64_rol64_xor, sub64_add64]

theorem dec_enc_round_70 (k : Nat → Nat) (t0 : Nat) (s : State) (h : s.wf) :
    dec_round_70 k t0 (enc_round_70 k t0 s) = s := by
  rcases s with ⟨b0, b1, b2, b3, b4, b5, b6, b7, b8, b9, b10, b11, b12, b13, b14, b15⟩
  rcases h with ⟨h0, h1, h2, h3, h4, h5, h6, h7, h8, h9, h10, h11, h12, h13, h14, h15⟩
  simp (disch := first | assumption | exact add64_lt _ _ | decide) only [dec_round_70,
    enc_round_70, ror64_rol64_xor, sub64_add64]

theorem dec_enc_round_71 (k : Nat → Nat) (t0 : Nat) (s : State) (h : s.wf) :
    dec_round_71 k t0 (enc_round_71 k t0 s) = s := by
  rcases s with ⟨b0, b1, b2, b3, b4, b5, b6, b7, b8, b9, b10, b11, b12, b13, b14, b15⟩
  rcases h with ⟨h0, h1, h2, h3, h4, h5, h6, h7, h8, h9, h10, h11, h12, h13, h14, h15⟩
  simp (disch := first | assumption | exact add64_lt _ _ | decide) only [dec_round_71,
    enc_round_71, ror64_rol64_xor, sub64_add64]

theorem dec_enc_round_72 (k : Nat → Nat) (t0 : Nat) (s : State) (h : s.wf) :
    dec_round_72 k t0 (enc_round_72 k t0 s) = s := by
  rcases s with ⟨b0, b1, b2, b3, b4, b5, b6, b7, b8, b9, b10, b11, b12, b13, b14, b15⟩
  rcases h with ⟨h0, h1, h2, h3, h4, h5, h6, h7, h8, h9, h10, h11, h12, h13, h14, h15⟩
  simp (disch := first | assumption | exact add64_lt _ _ | decide) only [dec_round_72,
    enc_round_72, ror64_rol64_xor, sub64_add64]

theorem dec_enc_round_73 (k : Nat → Nat) (t0 : Nat) (s : State) (h : s.wf) :
    dec_round_73 k t0 (enc_round_73 k t0 s) = s := by
  rcases s with ⟨b0, b1, b2, b3, b4, b5, b6, b7, b8, b9, b10, b11, b12, b13, b14, b15⟩
  rcases h with ⟨h0, h1, h2, h3, h4, h5, h6, h7, h8, h9, h10, h11, h12, h13, h14, h15⟩
  simp (disch := first | assumption | exact add64_lt _ _ | decide) only [dec_round_73,
    enc_round_73, ror64_rol64_xor, sub64_add64]

theorem dec_enc_round_74 (k : Nat → Nat) (t0 : Nat) (s : State) (h : s.wf) :
    dec_round_74 k t0 (enc_round_74 k t0 s) = s := by
  rcases s with ⟨b0, b1, b2, b3, b4, b5, b6, b7, b8, b9, b10, b11, b12, b13, b14, b15⟩
  rcases h with ⟨h0, h1, h2, h3, h4, h5, h6, h7, h8, h9, h10, h11, h12, h13, h14, h15⟩
  simp (disch := first | assumption | exact add64_lt _ _ | decide) only [dec_round_74,
    enc_round_74, ror64_rol64_xor, sub64_add64]

theorem dec_enc_round_75 (k : Nat → Nat) (t0 : Nat) (s : State) (h : s.wf) :
    dec_round_75 k t0 (enc_round_75 k t0 s) = s := by
  rcases s with ⟨b0, b1, b2, b3, b4, b5, b6, b7, b8, b9, b10, b11, b12, b13, b14, b15⟩
  rcases h with ⟨h0, h1, h2, h3, h4, h5, h6, h7, h8, h9, h10, h11, h12, h13, h14, h15⟩
  simp (disch := first | assumption | exact add64_lt _ _ | decide) only [dec_round_75,
    enc_round_75, ror64_rol64_xor, sub64_add64]

theorem dec_enc_round_76 (k : Nat → Nat) (t0 : Nat) (s : State) (h : s.wf) :
    dec_round_76 k t0 (enc_round_76 k t0 s) = s := by
  rcases s with ⟨b0, b1, b2, b3, b4, b5, b6, b7, b8, b9, b10, b11, b12, b13, b14, b15⟩
  rcases h with ⟨h0, h1, h2, h3, h4, h5, h6, h7, h8, h9, h10, h11, h12, h13, h14, h15⟩
  simp (disch := first | assumption | exact add64_lt _ _ | decide) only [dec_round_76,
    enc_round_76, ror64_rol64_xor, sub64_add64]

theorem dec_enc_round_77 (k : Nat → Nat) (t0 : Nat) (s : State) (h : s.wf) :
    dec_round_77 k t0 (enc_round_77 k t0 s) = s := by
  rcases s with ⟨b0, b1, b2, b3, b4, b5, b6, b7, b8, b9, b10, b11, b12, b13, b14, b15⟩
  rcases h with ⟨h0, h1, h2, h3, h4, h5, h6, h7, h8, h9, h10, h11, h12, h13, h14, h15⟩
  simp (disch := first | assumption | exact add64_lt _ _ | decide) only [dec_round_77,
    enc_round_77, ror64_rol64_xor, sub64_add64]

theorem dec_enc_round_78 (k : Nat → Nat) (t0 : Nat) (s : State) (h : s.wf) :
    dec_round_78 k t0 (enc_round_78 k t0 s) = s := by
  rcases s with ⟨b0, b1, b2, b3, b4, b5, b6, b7, b8, b9, b10, b11, b12, b13, b14, b15⟩
  rcases h with ⟨h0, h1, h2, h3, h4, h5, h6, h7, h8, h9, h10, h11, h12, h13, h14, h15⟩
  simp (disch := first | assumption | exact add64_lt _ _ | decide) only [dec_round_78,
    enc_round_78, ror64_rol64_xor, sub64_add64]

theorem dec_enc_round_79 (k : Nat → Nat) (t0 : Nat) (s : State) (h : s.wf) :
    dec_round_79 k t0 (enc_round_79 k t0 s) = s := by
  rcases s with ⟨b0, b1, b2, b3, b4, b5, b6, b7, b8, b9, b10, b11, b12, b13, b14, b15⟩
  rcases h with ⟨h0, h1, h2, h3, h4, h5, h6, h7, h8, h9, h10, h11, h12, h13, h14, h15⟩
  simp (disch := first | assumption | exact add64_lt _ _ | decide) only [dec_round_79,
    enc_round_79, ror64_rol64_xor, sub64_add64]

theorem dec_subkey_20_enc_output (k : Nat → Nat) (t0 : Nat) (s : State) (h : s.wf) :
    dec_subkey_20 k t0 (enc_output k t0 s) = s := by
  rcases s with ⟨b0, b1, b2, b3, b4, b5, b6, b7, b8, b9, b10, b11, b12, b13, b14, b15⟩
  rcases h with ⟨h0, h1, h2, h3, h4, h5, h6, h7, h8, h9, h10, h11, h12, h13, h14, h15⟩
  simp (disch := first | assumption | exact add64_lt _ _) only [dec_subkey_20, enc_output,
    sub64_add64, add64_assoc]

/-! ## Each block of the encryption undoes the matching block of the decryption -/

theorem enc_dec_round_0 (k : Nat → Nat) (t0 : Nat) (s : State) (h : s.wf) :
    enc_round_0 k t0 (dec_round_0 k t0 s) = s := by
  rcases s with ⟨b0, b1, b2, b3, b4, b5, b6, b7, b8, b9, b10, b11, b12, b13, b14, b15⟩
  rcases h with ⟨h0, h1, h2, h3, h4, h5, h6, h7, h8, h9, h10, h11, h12, h13, h14, h15⟩
  simp (disch := first | assumption | exact sub64_lt _ _ | exact ror64_lt _ _ |
    exact xor_lt64 (by assumption) (by assumption) | decide) only [dec_round_0, enc_round_0,
    add64_sub64, rol64_ror64, xor_xor_cancel]

theorem enc_dec_round_1 (k : Nat → Nat) (t0 : Nat) (s : State) (h : s.wf) :
    enc_round_1 k t0 (dec_round_1 k t0 s) = s := by
  rcases s with ⟨b0, b1, b2, b3, b4, b5, b6, b7, b8, b9, b10, b11, b12, b13, b14, b15⟩
  rcases h with ⟨h0, h1, h2, h3, h4, h5, h6, h7, h8, h9, h10, h11, h12, h13, h14, h15⟩
  simp (disch := first | assumption | exact sub64_lt _ _ | exact ror64_lt _ _ |
    exact xor_lt64 (by assumption) (by assumption) | decide) only [dec_round_1, enc_round_1,
    add64_sub64, rol64_ror64, xor_xor_cancel]

theorem enc_dec_round_2 (k : Nat → Nat) (t0 : Nat) (s : State) (h : s.wf) :
    enc_round_2 k t0 (dec_round_2 k t0 s) = s := by
  rcases s with ⟨b0, b1, b2, b3, b4, b5, b6, b7, b8, b9, b10, b11, b12, b13, b14, b15⟩
  rcases h with ⟨h0, h1, h2, h3, h4, h5, h6, h7, h8, h9, h10, h11, h12, h13, h14, h15⟩
  simp (disch := first | assumption | exact sub64_lt _ _ | exact ror64_lt _ _ |
    exact xor_lt64 (by assumption) (by assumption) | decide) only [dec_round_2, enc_round_2,
    add64_sub64, rol64_ror64, xor_xor_cancel]

theorem enc_dec_round_3 (k : Nat → Nat) (t0 : Nat) (s : State) (h : s.wf) :
    enc_round_3 k t0 (dec_round_3 k t0 s) = s := by
  rcases s with ⟨b0, b1, b2, b3, b4, b5, b6, b7, b8, b9, b10, b11, b12, b13, b14, b15⟩
  rcases h with ⟨h0, h1, h2, h3, h4, h5, h6, h7, h8, h9, h10, h11, h12, h13, h14, h15⟩
  simp (disch := first | assumption | exact sub64_lt _ _ | exact ror64_lt _ _ |
    exact xor_lt64 (by assumption) (by assumption) | decide) only [dec_round_3, enc_round_3,
    add64_sub64, rol64_ror64, xor_xor_cancel]

theorem enc_dec_round_4 (k : Nat → Nat) (t0 : Nat) (s : State) (h : s.wf) :
    enc_round_4 k t0 (dec_round_4 k t0 s) = s := by
  rcases s with ⟨b0, b1, b2, b3, b4, b5, b6, b7, b8, b9, b10, b11, b12, b13, b14, b15⟩
  rcases h with ⟨h0, h1, h2, h3, h4, h5, h6, h7, h8, h9, h10, h11, h12, h13, h14, h15⟩
  simp (disch := first | assumption | exact sub64_lt _ _ | exact ror64_lt _ _ |
    exact xor_lt64 (by assumption) (by assumption) | decide) only [dec_round_4, enc_round_4,
    add64_sub64, rol64_ror64, xor_xor_cancel]

theorem enc_dec_round_5 (k : Nat → Nat) (t0 : Nat) (s : State) (h : s.wf) :
    enc_round_5 k t0 (dec_round_5 k t0 s) = s := by
  rcases s with ⟨b0, b1, b2, b3, b4, b5, b6, b7, b8, b9, b10, b11, b12, b13, b14, b15⟩
  rcases h with ⟨h0, h1, h2, h3, h4, h5, h6, h7, h8, h9, h10, h11, h12, h13, h14, h15⟩
  simp (disch := first | assumption | exact sub64_lt _ _ | exact ror64_lt _ _ |
    exact xor_lt64 (by assumption) (by assumption) | decide) only [dec_round_5, enc_round_5,
    add64_sub64, rol64_ror64, xor_xor_cancel]

theorem enc_dec_round_6 (k : Nat → Nat) (t0 : Nat) (s : State) (h : s.wf) :
    enc_round_6 k t0 (dec_round_6 k t0 s) = s := by
  rcases s with ⟨b0, b1, b2, b3, b4, b5, b6, b7, b8, b9, b10, b11, b12, b13, b14, b15⟩
  rcases h with ⟨h0, h1, h2, h3, h4, h5, h6, h7, h8, h9, h10, h11, h12, h13, h14, h15⟩
  simp (disch := first | assumption | exact sub64_lt _ _ | exact ror64_lt _ _ |
    exact xor_lt64 (by assumption) (by assumption) | decide) only [dec_round_6, enc_round_6,
    add64_sub64, rol64_ror64, xor_xor_cancel]

theorem enc_dec_round_7 (k : Nat → Nat) (t0 : Nat) (s : State) (h : s.wf) :
    enc_round_7 k t0 (dec_round_7 k t0 s) = s := by
  rcases s with ⟨b0, b1, b2, b3, b4, b5, b6, b7, b8, b9, b10, b11, b12, b13, b14, b15⟩
  rcases h with ⟨h0, h1, h2, h3, h4, h5, h6, h7, h8, h9, h10, h11, h12, h13, h14, h15⟩
  simp (disch := first | assumption | exact sub64_lt _ _ | exact ror64_lt _ _ |
    exact xor_lt64 (by assumption) (by assumption) | decide) only [dec_round_7, enc_round_7,
    add64_sub64, rol64_ror64, xor_xor_cancel]

theorem enc_dec_round_8 (k : Nat → Nat) (t0 : Nat) (s : State) (h : s.wf) :
    enc_round_8 k t0 (dec_round_8 k t0 s) = s := by
  rcases s with ⟨b0, b1, b2, b3, b4, b5, b6, b7, b8, b9, b10, b11, b12, b13, b14, b15⟩
  rcases h with ⟨h0, h1, h2, h3, h4, h5, h6, h7, h8, h9, h10, h11, h12, h13, h14, h15⟩
  simp (disch := first | assumption | exact sub64_lt _ _ | exact ror64_lt _ _ |
    exact xor_lt64 (by assumption) (by assumption) | decide) only [dec_round_8, enc_round_8,
    add64_sub64, rol64_ror64, xor_xor_cancel]

theorem enc_dec_round_9 (k : Nat → Nat) (t0 : Nat) (s : State) (h : s.wf) :
    enc_round_9 k t0 (dec_round_9 k t0 s) = s := by
  rcases s with ⟨b0, b1, b2, b3, b4, b5, b6, b7, b8, b9, b10, b11, b12, b13, b14, b15⟩
  rcases h with ⟨h0, h1, h2, h3, h4, h5, h6, h7, h8, h9, h10, h11, h12, h13, h14, h15⟩
  simp (disch := first | assumption | exact sub64_lt _ _ | exact ror64_lt _ _ |
    exact xor_lt64 (by assumption) (by assumption) | decide) only [dec_round_9, enc_round_9,
    add64_sub64, rol64_ror64, xor_xor_cancel]

theorem enc_dec_round_10 (k : Nat → Nat) (t0 : Nat) (s : State) (h : s.wf) :
    enc_round_10 k t0 (dec_round_10 k t0 s) = s := by
  rcases s with ⟨b0, b1, b2, b3, b4, b5, b6, b7, b8, b9, b10, b11, b12, b13, b14, b15⟩
  rcases h with ⟨h0, h1, h2, h3, h4, h5, h6, h7, h8, h9, h10, h11, h12, h13, h14, h15⟩
  simp (disch := first | assumption | exact sub64_lt _ _ | exact ror64_lt _ _ |
    exact xor_lt64 (by assumption) (by assumption) | decide) only [dec_round_10, enc_round_10,
    add64_sub64, rol64_ror64, xor_xor_cancel]

theorem enc_dec_round_11 (k : Nat → Nat) (t0 : Nat) (s : State) (h : s.wf) :
    enc_round_11 k t0 (dec_round_11 k t0 s) = s := by
  rcases s with ⟨b0, b1, b2, b3, b4, b5, b6, b7, b8, b9, b10, b11, b12, b13, b14, b15⟩
  rcases h with ⟨h0, h1, h2, h3, h4, h5, h6, h7, h8, h9, h10, h11, h12, h13, h14, h15⟩
  simp (disch := first | assumption | exact sub64_lt _ _ | exact ror64_lt _ _ |
    exact xor_lt64 (by assumption) (by assumption) | decide) only [dec_round_11, enc_round_11,
    add64_sub64, rol64_ror64, xor_xor_cancel]

theorem enc_dec_round_12 (k : Nat → Nat) (t0 : Nat) (s : State) (h : s.wf) :
    enc_round_12 k t0 (dec_round_12 k t0 s) = s := by
  rcases s with ⟨b0, b1, b2, b3, b4, b5, b6, b7, b8, b9, b10, b11, b12, b13, b14, b15⟩
  rcases h with ⟨h0, h1, h2, h3, h4, h5, h6, h7, h8, h9, h10, h11, h12, h13, h14, h15⟩
  simp (disch := first | assumption | exact sub64_lt _ _ | exact ror64_lt _ _ |
    exact xor_lt64 (by assumption) (by assumption) | decide) only [dec_round_12, enc_round_12,
    add64_sub64, rol64_ror64, xor_xor_cancel]

theorem enc_dec_round_13 (k : Nat → Nat) (t0 : Nat) (s : State) (h : s.wf) :
    enc_round_13 k t0 (dec_round_13 k t0 s) = s := by
  rcases s with ⟨b0, b1, b2, b3, b4, b5, b6, b7, b8, b9, b10, b11, b12, b13, b14, b15⟩
  rcases h with ⟨h0, h1, h2, h3, h4, h5, h6, h7, h8, h9, h10, h11, h12, h13, h14, h15⟩
  simp (disch := first | assumption | exact sub64_lt _ _ | exact ror64_lt _ _ |
    exact xor_lt64 (by assumption) (by assumption) | decide) only [dec_round_13, enc_round_13,
    add64_sub64, rol64_ror64, xor_xor_cancel]

theorem enc_dec_round_14 (k : Nat → Nat) (t0 : Nat) (s : State) (h : s.wf) :
    enc_round_14 k t0 (dec_round_14 k t0 s) = s := by
  rcases s with ⟨b0, b1, b2, b3, b4, b5, b6, b7, b8, b9, b10, b11, b12, b13, b14, b15⟩
  rcases h with ⟨h0, h1, h2, h3, h4, h5, h6, h7, h8, h9, h10, h11, h12, h13, h14, h15⟩
  simp (disch := first | assumption | exact sub64_lt _ _ | exact ror64_lt _ _ |
    exact xor_lt64 (by assumption) (by assumption) | decide) only [dec_round_14, enc_round_14,
    add64_sub64, rol64_ror64, xor_xor_cancel]

theorem enc_dec_round_15 (k : Nat → Nat) (t0 : Nat) (s : State) (h : s.wf) :
    enc_round_15 k t0 (dec_round_15 k t0 s) = s := by
  rcases s with ⟨b0, b1, b2, b3, b4, b5, b6, b7, b8, b9, b10, b11, b12, b13, b14, b15⟩
  rcases h with ⟨h0, h1, h2, h3, h4, h5, h6, h7, h8, h9, h10, h11, h12, h13, h14, h15⟩
  simp (disch := first | assumption | exact sub64_lt _ _ | exact ror64_lt _ _ |
    exact xor_lt64 (by assumption) (by assumption) | decide) only [dec_round_15, enc_round_15,
    add64_sub64, rol64_ror64, xor_xor_cancel]

theorem enc_dec_round_16 (k : Nat → Nat) (t0 : Nat) (s : State) (h : s.wf) :
    enc_round_16 k t0 (dec_round_16 k t0 s) = s := by
  rcases s with ⟨b0, b1, b2, b3, b4, b5, b6, b7, b8, b9, b10, b11, b12, b13, b14, b15⟩
  rcases h with ⟨h0, h1, h2, h3, h4, h5, h6, h7, h8, h9, h10, h11, h12, h13, h14, h15⟩
  simp (disch := first | assumption | exact sub64_lt _ _ | exact ror64_lt _ _ |
    exact xor_lt64 (by assumption) (by assumption) | decide) only [dec_round_16, enc_round_16,
    add64_sub64, rol64_ror64, xor_xor_cancel]

theorem enc_dec_round_17 (k : Nat → Nat) (t0 : Nat) (s : State) (h : s.wf) :
    enc_round_17 k t0 (dec_round_17 k t0 s) = s := by
  rcases s with ⟨b0, b1, b2, b3, b4, b5, b6, b7, b8, b9, b10, b11, b12, b13, b14, b15⟩
  rcases h with ⟨h0, h1, h2, h3, h4, h5, h6, h7, h8, h9, h10, h11, h12, h13, h14, h15⟩
  simp (disch := first | assumption | exact sub64_lt _ _ | exact ror64_lt _ _ |
    exact xor_lt64 (by assumption) (by assumption) | decide) only [dec_round_17, enc_round_17,
    add64_sub64, rol64_ror64, xor_xor_cancel]

theorem enc_dec_round_18 (k : Nat → Nat) (t0 : Nat) (s : State) (h : s.wf) :
    enc_round_18 k t0 (dec_round_18 k t0 s) = s := by
  rcases s with ⟨b0, b1, b2, b3, b4, b5, b6, b7, b8, b9, b10, b11, b12, b13, b14, b15⟩
  rcases h with ⟨h0, h1, h2, h3, h4, h5, h6, h7, h8, h9, h10, h11, h12, h13, h14, h15⟩
  simp (disch := first | assumption | exact sub64_lt _ _ | exact ror64_lt _ _ |
    exact xor_lt64 (by assumption) (by assumption) | decide) only [dec_round_18, enc_round_18,
    add64_sub64, rol64_ror64, xor_xor_cancel]

theorem enc_dec_round_19 (k : Nat → Nat) (t0 : Nat) (s : State) (h : s.wf) :
    enc_round_19 k t0 (dec_round_19 k t0 s) = s := by
  rcases s with ⟨b0, b1, b2, b3, b4, b5, b6, b7, b8, b9, b10, b11, b12, b13, b14, b15⟩
  rcases h with ⟨h0, h1, h2, h3, h4, h5, h6, h7, h8, h9, h10, h11, h12, h13, h14, h15⟩
  simp (disch := first | assumption | exact sub64_lt _ _ | exact ror64_lt _ _ |
    exact xor_lt64 (by assumption) (by assumption) | decide) only [dec_round_19, enc_round_19,
    add64_sub64, rol64_ror64, xor_xor_cancel]

theorem enc_dec_round_20 (k : Nat → Nat) (t0 : Nat) (s : State) (h : s.wf) :
    enc_round_20 k t0 (dec_round_20 k t0 s) = s := by
  rcases s with ⟨b0, b1, b2, b3, b4, b5, b6, b7, b8, b9, b10, b11, b12, b13, b14, b15⟩
  rcases h with ⟨h0, h1, h2, h3, h4, h5, h6, h7, h8, h9, h10, h11, h12, h13, h14, h15⟩
  simp (disch := first | assumption | exact sub64_lt _ _ | exact ror64_lt _ _ |
    exact xor_lt64 (by assumption) (by assumption) | decide) only [dec_round_20, enc_round_20,
    add64_sub64, rol64_ror64, xor_xor_cancel]

theorem enc_dec_round_21 (k : Nat → Nat) (t0 : Nat) (s : State) (h : s.wf) :
    enc_round_21 k t0 (dec_round_21 k t0 s) = s := by
  rcases s with ⟨b0, b1, b2, b3, b4, b5, b6, b7, b8, b9, b10, b11, b12, b13, b14, b15⟩
  rcases h with ⟨h0, h1, h2, h3, h4, h5, h6, h7, h8, h9, h10, h11, h12, h13, h14, h15⟩
  simp (disch := first | assumption | exact sub64_lt _ _ | exact ror64_lt _ _ |
    exact xor_lt64 (by assumption) (by assumption) | decide) only [dec_round_21, enc_round_21,
    add64_sub64, rol64_ror64, xor_xor_cancel]

theorem enc_dec_round_22 (k : Nat → Nat) (t0 : Nat) (s : State) (h : s.wf) :
    enc_round_22 k t0 (dec_round_22 k t0 s) = s := by
  rcases s with ⟨b0, b1, b2, b3, b4, b5, b6, b7, b8, b9, b10, b11, b12, b13, b14, b15⟩
  rcases h with ⟨h0, h1, h2, h3, h4, h5, h6, h7, h8, h9, h10, h11, h12, h13, h14, h15⟩
  simp (disch := first | assumption | exact sub64_lt _ _ | exact ror64_lt _ _ |
    exact xor_lt64 (by assumption) (by assumption) | decide) only [dec_round_22, enc_round_22,
    add64_sub64, rol64_ror64, xor_xor_cancel]

theorem enc_dec_round_23 (k : Nat → Nat) (t0 : Nat) (s : State) (h : s.wf) :
    enc_round_23 k t0 (dec_round_23 k t0 s) = s := by
  rcases s with ⟨b0, b1, b2, b3, b4, b5, b6, b7, b8, b9, b10, b11, b12, b13, b14, b15⟩
  rcases h with ⟨h0, h1, h2, h3, h4, h5, h6, h7, h8, h9, h10, h11, h12, h13, h14, h15⟩
  simp (disch := first | assumption | exact sub64_lt _ _ | exact ror64_lt _ _ |
    exact xor_lt64 (by assumption) (by assumption) | decide) only [dec_round_23, enc_round_23,
    add64_sub64, rol64_ror64, xor_xor_cancel]

theorem enc_dec_round_24 (k : Nat → Nat) (t0 : Nat) (s : State) (h : s.wf) :
    enc_round_24 k t0 (dec_round_24 k t0 s) = s := by
  rcases s with ⟨b0, b1, b2, b3, b4, b5, b6, b7, b8, b9, b10, b11, b12, b13, b14, b15⟩
  rcases h with ⟨h0, h1, h2, h3, h4, h5, h6, h7, h8, h9, h10, h11, h12, h13, h14, h15⟩
  simp (disch := first | assumption | exact sub64_lt _ _ | exact ror64_lt _ _ |
    exact xor_lt64 (by assumption) (by assumption) | decide) only [dec_round_24, enc_round_24,
    add64_sub64, rol64_ror64, xor_xor_cancel]

theorem enc_dec_round_25 (k : Nat → Nat) (t0 : Nat) (s : State) (h : s.wf) :
    enc_round_25 k t0 (dec_round_25 k t0 s) = s := by
  rcases s with ⟨b0, b1, b2, b3, b4, b5, b6, b7, b8, b9, b10, b11, b12, b13, b14, b15⟩
  rcases h with ⟨h0, h1, h2, h3, h4, h5, h6, h7, h8, h9, h10, h11, h12, h13, h14, h15⟩
  simp (disch := first | assumption | exact sub64_lt _ _ | exact ror64_lt _ _ |
    exact xor_lt64 (by assumption) (by assumption) | decide) only [dec_round_25, enc_round_25,
    add64_sub64, rol64_ror64, xor_xor_cancel]

theorem enc_dec_round_26 (k : Nat → Nat) (t0 : Nat) (s : State) (h : s.wf) :
    enc_round_26 k t0 (dec_round_26 k t0 s) = s := by
  rcases s with ⟨b0, b1, b2, b3, b4, b5, b6, b7, b8, b9, b10, b11, b12, b13, b14, b15⟩
  rcases h with ⟨h0, h1, h2, h3, h4, h5, h6, h7, h8, h9, h10, h11, h12, h13, h14, h15⟩
  simp (disch := first | assumption | exact sub64_lt _ _ | exact ror64_lt _ _ |
    exact xor_lt64 (by assumption) (by assumption) | decide) only [dec_round_26, enc_round_26,
    add64_sub64, rol64_ror64, xor_xor_cancel]

theorem enc_dec_round_27 (k : Nat → Nat) (t0 : Nat) (s : State) (h : s.wf) :
    enc_round_27 k t0 (dec_round_27 k t0 s) = s := by
  rcases s with ⟨b0, b1, b2, b3, b4, b5, b6, b7, b8, b9, b10, b11, b12, b13, b14, b15⟩
  rcases h with ⟨h0, h1, h2, h3, h4, h5, h6, h7, h8, h9, h10, h11, h12, h13, h14, h15⟩
  simp (disch := first | assumption | exact sub64_lt _ _ | exact ror64_lt _ _ |
    exact xor_lt64 (by assumption) (by assumption) | decide) only [dec_round_27, enc_round_27,
    add64_sub64, rol64_ror64, xor_xor_cancel]

theorem enc_dec_round_28 (k : Nat → Nat) (t0 : Nat) (s : State) (h : s.wf) :
    enc_round_28 k t0 (dec_round_28 k t0 s) = s := by
  rcases s with ⟨b0, b1, b2, b3, b4, b5, b6, b7, b8, b9, b10, b11, b12, b13, b14, b15⟩
  rcases h with ⟨h0, h1, h2, h3, h4, h5, h6, h7, h8, h9, h10, h11, h12, h13, h14, h15⟩
  simp (disch := first | assumption | exact sub64_lt _ _ | exact ror64_lt _ _ |
    exact xor_lt64 (by assumption) (by assumption) | decide) only [dec_round_28, enc_round_28,
    add64_sub64, rol64_ror64, xor_xor_cancel]

theorem enc_dec_round_29 (k : Nat → Nat) (t0 : Nat) (s : State) (h : s.wf) :
    enc_round_29 k t0 (dec_round_29 k t0 s) = s := by
  rcases s with ⟨b0, b1, b2, b3, b4, b5, b6, b7, b8, b9, b10, b11, b12, b13, b14, b15⟩
  rcases h with ⟨h0, h1, h2, h3, h4, h5, h6, h7, h8, h9, h10, h11, h12, h13, h14, h15⟩
  simp (disch := first | assumption | exact sub64_lt _ _ | exact ror64_lt _ _ |
    exact xor_lt64 (by assumption) (by assumption) | decide) only [dec_round_29, enc_round_29,
    add64_sub64, rol64_ror64, xor_xor_cancel]

theorem enc_dec_round_30 (k : Nat → Nat) (t0 : Nat) (s : State) (h : s.wf) :
    enc_round_30 k t0 (dec_round_30 k t0 s) = s := by
  rcases s with ⟨b0, b1, b2, b3, b4, b5, b6, b7, b8, b9, b10, b11, b12, b13, b14, b15⟩
  rcases h with ⟨h0, h1, h2, h3, h4, h5, h6, h7, h8, h9, h10, h11, h12, h13, h14, h15⟩
  simp (disch := first | assumption | exact sub64_lt _ _ | exact ror64_lt _ _ |
    exact xor_lt64 (by assumption) (by assumption) | decide) only [dec_round_30, enc_round_30,
    add64_sub64, rol64_ror64, xor_xor_cancel]

theorem enc_dec_round_31 (k : Nat → Nat) (t0 : Nat) (s : State) (h : s.wf) :
    enc_round_31 k t0 (dec_round_31 k t0 s) = s := by
  rcases s with ⟨b0, b1, b2, b3, b4, b5, b6, b7, b8, b9, b10, b11, b12, b13, b14, b15⟩
  rcases h with ⟨h0, h1, h2, h3, h4, h5, h6, h7, h8, h9, h10, h11, h12, h13, h14, h15⟩
  simp (disch := first | assumption | exact sub64_lt _ _ | exact ror64_lt _ _ |
    exact xor_lt64 (by assumption) (by assumption) | decide) only [dec_round_31, enc_round_31,
    add64_sub64, rol64_ror64, xor_xor_cancel]

theorem enc_dec_round_32 (k : Nat → Nat) (t0 : Nat) (s : State) (h : s.wf) :
    enc_round_32 k t0 (dec_round_32 k t0 s) = s := by
  rcases s with ⟨b0, b1, b2, b3, b4, b5, b6, b7, b8, b9, b10, b11, b12, b13, b14, b15⟩
  rcases h with ⟨h0, h1, h2, h3, h4, h5, h6, h7, h8, h9, h10, h11, h12, h13, h14, h15⟩
  simp (disch := first | assumption | exact sub64_lt _ _ | exact ror64_lt _ _ |
    exact xor_lt64 (by assumption) (by assumption) | decide) only [dec_round_32, enc_round_32,
    add64_sub64, rol64_ror64, xor_xor_cancel]

theorem enc_dec_round_33 (k : Nat → Nat) (t0 : Nat) (s : State) (h : s.wf) :
    enc_round_33 k t0 (dec_round_33 k t0 s) = s := by
  rcases s with ⟨b0, b1, b2, b3, b4, b5, b6, b7, b8, b9, b10, b11, b12, b13, b14, b15⟩
  rcases h with ⟨h0, h1, h2, h3, h4, h5, h6, h7, h8, h9, h10, h11, h12, h13, h14, h15⟩
  simp (disch := first | assumption | exact sub64_lt _ _ | exact ror64_lt _ _ |
    exact xor_lt64 (by assumption) (by assumption) | decide) only [dec_round_33, enc_round_33,
    add64_sub64, rol64_ror64, xor_xor_cancel]

theorem enc_dec_round_34 (k : Nat → Nat) (t0 : Nat) (s : State) (h : s.wf) :
    enc_round_34 k t0 (dec_round_34 k t0 s) = s := by
  rcases s with ⟨b0, b1, b2, b3, b4, b5, b6, b7, b8, b9, b10, b11, b12, b13, b14, b15⟩
  rcases h with ⟨h0, h1, h2, h3, h4, h5, h6, h7, h8, h9, h10, h11, h12, h13, h14, h15⟩
  simp (disch := first | assumption | exact sub64_lt _ _ | exact ror64_lt _ _ |
    exact xor_lt64 (by assumption) (by assumption) | decide) only [dec_round_34, enc_round_34,
    add64_sub64, rol64_ror64, xor_xor_cancel]

theorem enc_dec_round_35 (k : Nat → Nat) (t0 : Nat) (s : State) (h : s.wf) :
    enc_round_35 k t0 (dec_round_35 k t0 s) = s := by
  rcases s with ⟨b0, b1, b2, b3, b4, b5, b6, b7, b8, b9, b10, b11, b12, b13, b14, b15⟩
  rcases h with ⟨h0, h1, h2, h3, h4, h5, h6, h7, h8, h9, h10, h11, h12, h13, h14, h15⟩
  simp (disch := first | assumption | exact sub64_lt _ _ | exact ror64_lt _ _ |
    exact xor_lt64 (by assumption) (by assumption) | decide) only [dec_round_35, enc_round_35,
    add64_sub64, rol64_ror64, xor_xor_cancel]

theorem enc_dec_round_36 (k : Nat → Nat) (t0 : Nat) (s : State) (h : s.wf) :
    enc_round_36 k t0 (dec_round_36 k t0 s) = s := by
  rcases s with ⟨b0, b1, b2, b3, b4, b5, b6, b7, b8, b9, b10, b11, b12, b13, b14, b15⟩
  rcases h with ⟨h0, h1, h2, h3, h4, h5, h6, h7, h8, h9, h10, h11, h12, h13, h14, h15⟩
  simp (disch := first | assumption | exact sub64_lt _ _ | exact ror64_lt _ _ |
    exact xor_lt64 (by assumption) (by assumption) | decide) only [dec_round_36, enc_round_36,
    add64_sub64, rol64_ror64, xor_xor_cancel]

theorem enc_dec_round_37 (k : Nat → Nat) (t0 : Nat) (s : State) (h : s.wf) :
    enc_round_37 k t0 (dec_round_37 k t0 s) = s := by
  rcases s with ⟨b0, b1, b2, b3, b4, b5, b6, b7, b8, b9, b10, b11, b12, b13, b14, b15⟩
  rcases h with ⟨h0, h1, h2, h3, h4, h5, h6, h7, h8, h9, h10, h11, h12, h13, h14, h15⟩
  simp (disch := first | assumption | exact sub64_lt _ _ | exact ror64_lt _ _ |
    exact xor_lt64 (by assumption) (by assumption) | decide) only [dec_round_37, enc_round_37,
    add64_sub64, rol64_ror64, xor_xor_cancel]

theorem enc_dec_round_38 (k : Nat → Nat) (t0 : Nat) (s : State) (h : s.wf) :
    enc_round_38 k t0 (dec_round_38 k t0 s) = s := by
  rcases s with ⟨b0, b1, b2, b3, b4, b5, b6, b7, b8, b9, b10, b11, b12, b13, b14, b15⟩
  rcases h with ⟨h0, h1, h2, h3, h4, h5, h6, h7, h8, h9, h10, h11, h12, h13, h14, h15⟩
  simp (disch := first | assumption | exact sub64_lt _ _ | exact ror64_lt _ _ |
    exact xor_lt64 (by assumption) (by assumption) | decide) only [dec_round_38, enc_round_38,
    add64_sub64, rol64_ror64, xor_xor_cancel]

theorem enc_dec_round_39 (k : Nat → Nat) (t0 : Nat) (s : State) (h : s.wf) :
    enc_round_39 k t0 (dec_round_39 k t0 s) = s := by
  rcases s with ⟨b0, b1, b2, b3, b4, b5, b6, b7, b8, b9, b10, b11, b12, b13, b14, b15⟩
  rcases h with ⟨h0, h1, h2, h3, h4, h5, h6, h7, h8, h9, h10, h11, h12, h13, h14, h15⟩
  simp (disch := first | assumption | exact sub64_lt _ _ | exact ror64_lt _ _ |
    exact xor_lt64 (by assumption) (by assumption) | decide) only [dec_round_39, enc_round_39,
    add64_sub64, rol64_ror64, xor_xor_cancel]

theorem enc_dec_round_40 (k : Nat → Nat) (t0 : Nat) (s : State) (h : s.wf) :
    enc_round_40 k t0 (dec_round_40 k t0 s) = s := by
  rcases s with ⟨b0, b1, b2, b3, b4, b5, b6, b7, b8, b9, b10, b11, b12, b13, b14, b15⟩
  rcases h with ⟨h0, h1, h2, h3, h4, h5, h6, h7, h8, h9, h10, h11, h12, h13, h14, h15⟩
  simp (disch := first | assumption | exact sub64_lt _ _ | exact ror64_lt _ _ |
    exact xor_lt64 (by assumption) (by assumption) | decide) only [dec_round_40, enc_round_40,
    add64_sub64, rol64_ror64, xor_xor_cancel]

theorem enc_dec_round_41 (k : Nat → Nat) (t0 : Nat) (s : State) (h : s.wf) :
    enc_round_41 k t0 (dec_round_41 k t0 s) = s := by
  rcases s with ⟨b0, b1, b2, b3, b4, b5, b6, b7, b8, b9, b10, b11, b12, b13, b14, b15⟩
  rcases h with ⟨h0, h1, h2, h3, h4, h5, h6, h7, h8, h9, h10, h11, h12, h13, h14, h15⟩
  simp (disch := first | assumption | exact sub64_lt _ _ | exact ror64_lt _ _ |
    exact xor_lt64 (by assumption) (by assumption) | decide) only [dec_round_41, enc_round_41,
    add64_sub64, rol64_ror64, xor_xor_cancel]

theorem enc_dec_round_42 (k : Nat → Nat) (t0 : Nat) (s : State) (h : s.wf) :
    enc_round_42 k t0 (dec_round_42 k t0 s) = s := by
  rcases s with ⟨b0, b1, b2, b3, b4, b5, b6, b7, b8, b9, b10, b11, b12, b13, b14, b15⟩
  rcases h with ⟨h0, h1, h2, h3, h4, h5, h6, h7, h8, h9, h10, h11, h12, h13, h14, h15⟩
  simp (disch := first | assumption | exact sub64_lt _ _ | exact ror64_lt _ _ |
    exact xor_lt64 (by assumption) (by assumption) | decide) only [dec_round_42, enc_round_42,
    add64_sub64, rol64_ror64, xor_xor_cancel]

theorem enc_dec_round_43 (k : Nat → Nat) (t0 : Nat) (s : State) (h : s.wf) :
    enc_round_43 k t0 (dec_round_43 k t0 s) = s := by
  rcases s with ⟨b0, b1, b2, b3, b4, b5, b6, b7, b8, b9, b10, b11, b12, b13, b14, b15⟩
  rcases h with ⟨h0, h1, h2, h3, h4, h5, h6, h7, h8, h9, h10, h11, h12, h13, h14, h15⟩
  simp (disch := first | assumption | exact sub64_lt _ _ | exact ror64_lt _ _ |
    exact xor_lt64 (by assumption) (by assumption) | decide) only [dec_round_43, enc_round_43,
    add64_sub64, rol64_ror64, xor_xor_cancel]

theorem enc_dec_round_44 (k : Nat → Nat) (t0 : Nat) (s : State) (h : s.wf) :
    enc_round_44 k t0 (dec_round_44 k t0 s) = s := by
  rcases s with ⟨b0, b1, b2, b3, b4, b5, b6, b7, b8, b9, b10, b11, b12, b13, b14, b15⟩
  rcases h with ⟨h0, h1, h2, h3, h4, h5, h6, h7, h8, h9, h10, h11, h12, h13, h14, h15⟩
  simp (disch := first | assumption | exact sub64_lt _ _ | exact ror64_lt _ _ |
    exact xor_lt64 (by assumption) (by assumption) | decide) only [dec_round_44, enc_round_44,
    add64_sub64, rol64_ror64, xor_xor_cancel]

theorem enc_dec_round_45 (k : Nat → Nat) (t0 : Nat) (s : State) (h : s.wf) :
    enc_round_45 k t0 (dec_round_45 k t0 s) = s := by
  rcases s with ⟨b0, b1, b2, b3, b4, b5, b6, b7, b8, b9, b10, b11, b12, b13, b14, b15⟩
  rcases h with ⟨h0, h1, h2, h3, h4, h5, h6, h7, h8, h9, h10, h11, h12, h13, h14, h15⟩
  simp (disch := first | assumption | exact sub64_lt _ _ | exact ror64_lt _ _ |
    exact xor_lt64 (by assumption) (by assumption) | decide) only [dec_round_45, enc_round_45,
    add64_sub64, rol64_ror64, xor_xor_cancel]

theorem enc_dec_round_46 (k : Nat → Nat) (t0 : Nat) (s : State) (h : s.wf) :
    enc_round_46 k t0 (dec_round_46 k t0 s) = s := by
  rcases s with ⟨b0, b1, b2, b3, b4, b5, b6, b7, b8, b9, b10, b11, b12, b13, b14, b15⟩
  rcases h with ⟨h0, h1, h2, h3, h4, h5, h6, h7, h8, h9, h10, h11, h12, h13, h14, h15⟩
  simp (disch := first | assumption | exact sub64_lt _ _ | exact ror64_lt _ _ |
    exact xor_lt64 (by assumption) (by assumption) | decide) only [dec_round_46, enc_round_46,
    add64_sub64, rol64_ror64, xor_xor_cancel]

theorem enc_dec_round_47 (k : Nat → Nat) (t0 : Nat) (s : State) (h : s.wf) :
    enc_round_47 k t0 (dec_round_47 k t0 s) = s := by
  rcases s with ⟨b0, b1, b2, b3, b4, b5, b6, b7, b8, b9, b10, b11, b12, b13, b14, b15⟩
  rcases h with ⟨h0, h1, h2, h3, h4, h5, h6, h7, h8, h9, h10, h11, h12, h13, h14, h15⟩
  simp (disch := first | assumption | exact sub64_lt _ _ | exact ror64_lt _ _ |
    exact xor_lt64 (by assumption) (by assumption) | decide) only [dec_round_47, enc_round_47,
    add64_sub64, rol64_ror64, xor_xor_cancel]

theorem enc_dec_round_48 (k : Nat → Nat) (t0 : Nat) (s : State) (h : s.wf) :
    enc_round_48 k t0 (dec_round_48 k t0 s) = s := by
  rcases s with ⟨b0, b1, b2, b3, b4, b5, b6, b7, b8, b9, b10, b11, b12, b13, b14, b15⟩
  rcases h with ⟨h0, h1, h2, h3, h4, h5, h6, h7, h8, h9, h10, h11, h12, h13, h14, h15⟩
  simp (disch := first | assumption | exact sub64_lt _ _ | exact ror64_lt _ _ |
    exact xor_lt64 (by assumption) (by assumption) | decide) only [dec_round_48, enc_round_48,
    add64_sub64, rol64_ror64, xor_xor_cancel]

theorem enc_dec_round_49 (k : Nat → Nat) (t0 : Nat) (s : State) (h : s.wf) :
    enc_round_49 k t0 (dec_round_49 k t0 s) = s := by
  rcases s with ⟨b0, b1, b2, b3, b4, b5, b6, b7, b8, b9, b10, b11, b12, b13, b14, b15⟩
  rcases h with ⟨h0, h1, h2, h3, h4, h5, h6, h7, h8, h9, h10, h11, h12, h13, h14, h15⟩
  simp (disch := first | assumption | exact sub64_lt _ _ | exact ror64_lt _ _ |
    exact xor_lt64 (by assumption) (by assumption) | decide) only [dec_round_49, enc_round_49,
    add64_sub64, rol64_ror64, xor_xor_cancel]

theorem enc_dec_round_50 (k : Nat → Nat) (t0 : Nat) (s : State) (h : s.wf) :
    enc_round_50 k t0 (dec_round_50 k t0 s) = s := by
  rcases s with ⟨b0, b1, b2, b3, b4, b5, b6, b7, b8, b9, b10, b11, b12, b13, b14, b15⟩
  rcases h with ⟨h0, h1, h2, h3, h4, h5, h6, h7, h8, h9, h10, h11, h12, h13, h14, h15⟩
  simp (disch := first | assumption | exact sub64_lt _ _ | exact ror64_lt _ _ |
    exact xor_lt64 (by assumption) (by assumption) | decide) only [dec_round_50, enc_round_50,
    add64_sub64, rol64_ror64, xor_xor_cancel]

theorem enc_dec_round_51 (k : Nat → Nat) (t0 : Nat) (s : State) (h : s.wf) :
    enc_round_51 k t0 (dec_round_51 k t0 s) = s := by
  rcases s with ⟨b0, b1, b2, b3, b4, b5, b6, b7, b8, b9, b10, b11, b12, b13, b14, b15⟩
  rcases h with ⟨h0, h1, h2, h3, h4, h5, h6, h7, h8, h9, h10, h11, h12, h13, h14, h15⟩
  simp (disch := first | assumption | exact sub64_lt _ _ | exact ror64_lt _ _ |
    exact xor_lt64 (by assumption) (by assumption) | decide) only [dec_round_51, enc_round_51,
    add64_sub64, rol64_ror64, xor_xor_cancel]

theorem enc_dec_round_52 (k : Nat → Nat) (t0 : Nat) (s : State) (h : s.wf) :
    enc_round_52 k t0 (dec_round_52 k t0 s) = s := by
  rcases s with ⟨b0, b1, b2, b3, b4, b5, b6, b7, b8, b9, b10, b11, b12, b13, b14, b15⟩
  rcases h with ⟨h0, h1, h2, h3, h4, h5, h6, h7, h8, h9, h10, h11, h12, h13, h14, h15⟩
  simp (disch := first | assumption | exact sub64_lt _ _ | exact ror64_lt _ _ |
    exact xor_lt64 (by assumption) (by assumption) | decide) only [dec_round_52, enc_round_52,
    add64_sub64, rol64_ror64, xor_xor_cancel]

theorem enc_dec_round_53 (k : Nat → Nat) (t0 : Nat) (s : State) (h : s.wf) :
    enc_round_53 k t0 (dec_round_53 k t0 s) = s := by
  rcases s with ⟨b0, b1, b2, b3, b4, b5, b6, b7, b8, b9, b10, b11, b12, b13, b14, b15⟩
  rcases h with ⟨h0, h1, h2, h3, h4, h5, h6, h7, h8, h9, h10, h11, h12, h13, h14, h15⟩
  simp (disch := first | assumption | exact sub64_lt _ _ | exact ror64_lt _ _ |
    exact xor_lt64 (by assumption) (by assumption) | decide) only [dec_round_53, enc_round_53,
    add64_sub64, rol64_ror64, xor_xor_cancel]

theorem enc_dec_round_54 (k : Nat → Nat) (t0 : Nat) (s : State) (h : s.wf) :
    enc_round_54 k t0 (dec_round_54 k t0 s) = s := by
  rcases s with ⟨b0, b1, b2, b3, b4, b5, b6, b7, b8, b9, b10, b11, b12, b13, b14, b15⟩
  rcases h with ⟨h0, h1, h2, h3, h4, h5, h6, h7, h8, h9, h10, h11, h12, h13, h14, h15⟩
  simp (disch := first | assumption | exact sub64_lt _ _ | exact ror64_lt _ _ |
    exact xor_lt64 (by assumption) (by assumption) | decide) only [dec_round_54, enc_round_54,
    add64_sub64, rol64_ror64, xor_xor_cancel]

theorem enc_dec_round_55 (k : Nat → Nat) (t0 : Nat) (s : State) (h : s.wf) :
    enc_round_55 k t0 (dec_round_55 k t0 s) = s := by
  rcases s with ⟨b0, b1, b2, b3, b4, b5, b6, b7, b8, b9, b10, b11, b12, b13, b14, b15⟩
  rcases h with ⟨h0, h1, h2, h3, h4, h5, h6, h7, h8, h9, h10, h11, h12, h13, h14, h15⟩
  simp (disch := first | assumption | exact sub64_lt _ _ | exact ror64_lt _ _ |
    exact xor_lt64 (by assumption) (by assumption) | decide) only [dec_round_55, enc_round_55,
    add64_sub64, rol64_ror64, xor_xor_cancel]

theorem enc_dec_round_56 (k : Nat → Nat) (t0 : Nat) (s : State) (h : s.wf) :
    enc_round_56 k t0 (dec_round_56 k t0 s) = s := by
  rcases s with ⟨b0, b1, b2, b3, b4, b5, b6, b7, b8, b9, b10, b11, b12, b13, b14, b15⟩
  rcases h with ⟨h0, h1, h2, h3, h4, h5, h6, h7, h8, h9, h10, h11, h12, h13, h14, h15⟩
  simp (disch := first | assumption | exact sub64_lt _ _ | exact ror64_lt _ _ |
    exact xor_lt64 (by assumption) (by assumption) | decide) only [dec_round_56, enc_round_56,
    add64_sub64, rol64_ror64, xor_xor_cancel]

theorem enc_dec_round_57 (k : Nat → Nat) (t0 : Nat) (s : State) (h : s.wf) :
    enc_round_57 k t0 (dec_round_57 k t0 s) = s := by
  rcases s with ⟨b0, b1, b2, b3, b4, b5, b6, b7, b8, b9, b10, b11, b12, b13, b14, b15⟩
  rcases h with ⟨h0, h1, h2, h3, h4, h5, h6, h7, h8, h9, h10, h11, h12, h13, h14, h15⟩
  simp (disch := first | assumption | exact sub64_lt _ _ | exact ror64_lt _ _ |
    exact xor_lt64 (by assumption) (by assumption) | decide) only [dec_round_57, enc_round_57,
    add64_sub64, rol64_ror64, xor_xor_cancel]

theorem enc_dec_round_58 (k : Nat → Nat) (t0 : Nat) (s : State) (h : s.wf) :
    enc_round_58 k t0 (dec_round_58 k t0 s) = s := by
  rcases s with ⟨b0, b1, b2, b3, b4, b5, b6, b7, b8, b9, b10, b11, b12, b13, b14, b15⟩
  rcases h with ⟨h0, h1, h2, h3, h4, h5, h6, h7, h8, h9, h10, h11, h12, h13, h14, h15⟩
  simp (disch := first | assumption | exact sub64_lt _ _ | exact ror64_lt _ _ |
    exact xor_lt64 (by assumption) (by assumption) | decide) only [dec_round_58, enc_round_58,
    add64_sub64, rol64_ror64, xor_xor_cancel]

theorem enc_dec_round_59 (k : Nat → Nat) (t0 : Nat) (s : State) (h : s.wf) :
    enc_round_59 k t0 (dec_round_59 k t0 s) = s := by
  rcases s with ⟨b0, b1, b2, b3, b4, b5, b6, b7, b8, b9, b10, b11, b12, b13, b14, b15⟩
  rcases h with ⟨h0, h1, h2, h3, h4, h5, h6, h7, h8, h9, h10, h11, h12, h13, h14, h15⟩
  simp (disch := first | assumption | exact sub64_lt _ _ | exact ror64_lt _ _ |
    exact xor_lt64 (by assumption) (by assumption) | decide) only [dec_round_59, enc_round_59,
    add64_sub64, rol64_ror64, xor_xor_cancel]

theorem enc_dec_round_60 (k : Nat → Nat) (t0 : Nat) (s : State) (h : s.wf) :
    enc_round_60 k t0 (dec_round_60 k t0 s) = s := by
  rcases s with ⟨b0, b1, b2, b3, b4, b5, b6, b7, b8, b9, b10, b11, b12, b13, b14, b15⟩
  rcases h with ⟨h0, h1, h2, h3, h4, h5, h6, h7, h8, h9, h10, h11, h12, h13, h14, h15⟩
  simp (disch := first | assumption | exact sub64_lt _ _ | exact ror64_lt _ _ |
    exact xor_lt64 (by assumption) (by assumption) | decide) only [dec_round_60, enc_round_60,
    add64_sub64, rol64_ror64, xor_xor_cancel]

theorem enc_dec_round_61 (k : Nat → Nat) (t0 : Nat) (s : State) (h : s.wf) :
    enc_round_61 k t0 (dec_round_61 k t0 s) = s := by
  rcases s with ⟨b0, b1, b2, b3, b4, b5, b6, b7, b8, b9, b10, b11, b12, b13, b14, b15⟩
  rcases h with ⟨h0, h1, h2, h3, h4, h5, h6, h7, h8, h9, h10, h11, h12, h13, h14, h15⟩
  simp (disch := first | assumption | exact sub64_lt _ _ | exact ror64_lt _ _ |
    exact xor_lt64 (by assumption) (by assumption) | decide) only [dec_round_61, enc_round_61,
    add64_sub64, rol64_ror64, xor_xor_cancel]

theorem enc_dec_round_62 (k : Nat → Nat) (t0 : Nat) (s : State) (h : s.wf) :
    enc_round_62 k t0 (dec_round_62 k t0 s) = s := by
  rcases s with ⟨b0, b1, b2, b3, b4, b5, b6, b7, b8, b9, b10, b11, b12, b13, b14, b15⟩
  rcases h with ⟨h0, h1, h2, h3, h4, h5, h6, h7, h8, h9, h10, h11, h12, h13, h14, h15⟩
  simp (disch := first | assumption | exact sub64_lt _ _ | exact ror64_lt _ _ |
    exact xor_lt64 (by assumption) (by assumption) | decide) only [dec_round_62, enc_round_62,
    add64_sub64, rol64_ror64, xor_xor_cancel]

theorem enc_dec_round_63 (k : Nat → Nat) (t0 : Nat) (s : State) (h : s.wf) :
    enc_round_63 k t0 (dec_round_63 k t0 s) = s := by
  rcases s with ⟨b0, b1, b2, b3, b4, b5, b6, b7, b8, b9, b10, b11, b12, b13, b14, b15⟩
  rcases h with ⟨h0, h1, h2, h3, h4, h5, h6, h7, h8, h9, h10, h11, h12, h13, h14, h15⟩
  simp (disch := first | assumption | exact sub64_lt _ _ | exact ror64_lt _ _ |
    exact xor_lt64 (by assumption) (by assumption) | decide) only [dec_round_63, enc_round_63,
    add64_sub64, rol64_ror64, xor_xor_cancel]

theorem enc_dec_round_64 (k : Nat → Nat) (t0 : Nat) (s : State) (h : s.wf) :
    enc_round_64 k t0 (dec_round_64 k t0 s) = s := by
  rcases s with ⟨b0, b1, b2, b3, b4, b5, b6, b7, b8, b9, b10, b11, b12, b13, b14, b15⟩
  rcases h with ⟨h0, h1, h2, h3, h4, h5, h6, h7, h8, h9, h10, h11, h12, h13, h14, h15⟩
  simp (disch := first | assumption | exact sub64_lt _ _ | exact ror64_lt _ _ |
    exact xor_lt64 (by assumption) (by assumption) | decide) only [dec_round_64, enc_round_64,
    add64_sub64, rol64_ror64, xor_xor_cancel]

theorem enc_dec_round_65 (k : Nat → Nat) (t0 : Nat) (s : State) (h : s.wf) :
    enc_round_65 k t0 (dec_round_65 k t0 s) = s := by
  rcases s with ⟨b0, b1, b2, b3, b4, b5, b6, b7, b8, b9, b10, b11, b12, b13, b14, b15⟩
  rcases h with ⟨h0, h1, h2, h3, h4, h5, h6, h7, h8, h9, h10, h11, h12, h13, h14, h15⟩
  simp (disch := first | assumption | exact sub64_lt _ _ | exact ror64_lt _ _ |
    exact xor_lt64 (by assumption) (by assumption) | decide) only [dec_round_65, enc_round_65,
    add64_sub64, rol64_ror64, xor_xor_cancel]

theorem enc_dec_round_66 (k : Nat → Nat) (t0 : Nat) (s : State) (h : s.wf) :
    enc_round_66 k t0 (dec_round_66 k t0 s) = s := by
  rcases s with ⟨b0, b1, b2, b3, b4, b5, b6, b7, b8, b9, b10, b11, b12, b13, b14, b15⟩
  rcases h with ⟨h0, h1, h2, h3, h4, h5, h6, h7, h8, h9, h10, h11, h12, h13, h14, h15⟩
  simp (disch := first | assumption | exact sub64_lt _ _ | exact ror64_lt _ _ |
    exact xor_lt64 (by assumption) (by assumption) | decide) only [dec_round_66, enc_round_66,
    add64_sub64, rol64_ror64, xor_xor_cancel]

theorem enc_dec_round_67 (k : Nat → Nat) (t0 : Nat) (s : State) (h : s.wf) :
    enc_round_67 k t0 (dec_round_67 k t0 s) = s := by
  rcases s with ⟨b0, b1, b2, b3, b4, b5, b6, b7, b8, b9, b10, b11, b12, b13, b14, b15⟩
  rcases h with ⟨h0, h1, h2, h3, h4, h5, h6, h7, h8, h9, h10, h11, h12, h13, h14, h15⟩
  simp (disch := first | assumption | exact sub64_lt _ _ | exact ror64_lt _ _ |
    exact xor_lt64 (by assumption) (by assumption) | decide) only [dec_round_67, enc_round_67,
    add64_sub64, rol64_ror64, xor_xor_cancel]

theorem enc_dec_round_68 (k : Nat → Nat) (t0 : Nat) (s : State) (h : s.wf) :
    enc_round_68 k t0 (dec_round_68 k t0 s) = s := by
  rcases s with ⟨b0, b1, b2, b3, b4, b5, b6, b7, b8, b9, b10, b11, b12, b13, b14, b15⟩
  rcases h with ⟨h0, h1, h2, h3, h4, h5, h6, h7, h8, h9, h10, h11, h12, h13, h14, h15⟩
  simp (disch := first | assumption | exact sub64_lt _ _ | exact ror64_lt _ _ |
    exact xor_lt64 (by assumption) (by assumption) | decide) only [dec_round_68, enc_round_68,
    add64_sub64, rol64_ror64, xor_xor_cancel]

theorem enc_dec_round_69 (k : Nat → Nat) (t0 : Nat) (s : State) (h : s.wf) :
    enc_round_69 k t0 (dec_round_69 k t0 s) = s := by
  rcases s with ⟨b0, b1, b2, b3, b4, b5, b6, b7, b8, b9, b10, b11, b12, b13, b14, b15⟩
  rcases h with ⟨h0, h1, h2, h3, h4, h5, h6, h7, h8, h9, h10, h11, h12, h13, h14, h15⟩
  simp (disch := first | assumption | exact sub64_lt _ _ | exact ror64_lt _ _ |
    exact xor_lt64 (by assumption) (by assumption) | decide) only [dec_round_69, enc_round_69,
    add64_sub64, rol64_ror64, xor_xor_cancel]

theorem enc_dec_round_70 (k : Nat → Nat) (t0 : Nat) (s : State) (h : s.wf) :
    enc_round_70 k t0 (dec_round_70 k t0 s) = s := by
  rcases s with ⟨b0, b1, b2, b3, b4, b5, b6, b7, b8, b9, b10, b11, b12, b13, b14, b15⟩
  rcases h with ⟨h0, h1, h2, h3, h4, h5, h6, h7, h8, h9, h10, h11, h12, h13, h14, h15⟩
  simp (disch := first | assumption | exact sub64_lt _ _ | exact ror64_lt _ _ |
    exact xor_lt64 (by assumption) (by assumption) | decide) only [dec_round_70, enc_round_70,
    add64_sub64, rol64_ror64, xor_xor_cancel]

theorem enc_dec_round_71 (k : Nat → Nat) (t0 : Nat) (s : State) (h : s.wf) :
    enc_round_71 k t0 (dec_round_71 k t0 s) = s := by
  rcases s with ⟨b0, b1, b2, b3, b4, b5, b6, b7, b8, b9, b10, b11, b12, b13, b14, b15⟩
  rcases h with ⟨h0, h1, h2, h3, h4, h5, h6, h7, h8, h9, h10, h11, h12, h13, h14, h15⟩
  simp (disch := first | assumption | exact sub64_lt _ _ | exact ror64_lt _ _ |
    exact xor_lt64 (by assumption) (by assumption) | decide) only [dec_round_71, enc_round_71,
    add64_sub64, rol64_ror64, xor_xor_cancel]

theorem enc_dec_round_72 (k : Nat → Nat) (t0 : Nat) (s : State) (h : s.wf) :
    enc_round_72 k t0 (dec_round_72 k t0 s) = s := by
  rcases s with ⟨b0, b1, b2, b3, b4, b5, b6, b7, b8, b9, b10, b11, b12, b13, b14, b15⟩
  rcases h with ⟨h0, h1, h2, h3, h4, h5, h6, h7, h8, h9, h10, h11, h12, h13, h14, h15⟩
  simp (disch := first | assumption | exact sub64_lt _ _ | exact ror64_lt _ _ |
    exact xor_lt64 (by assumption) (by assumption) | decide) only [dec_round_72, enc_round_72,
    add64_sub64, rol64_ror64, xor_xor_cancel]

theorem enc_dec_round_73 (k : Nat → Nat) (t0 : Nat) (s : State) (h : s.wf) :
    enc_round_73 k t0 (dec_round_73 k t0 s) = s := by
  rcases s with ⟨b0, b1, b2, b3, b4, b5, b6, b7, b8, b9, b10, b11, b12, b13, b14, b15⟩
  rcases h with ⟨h0, h1, h2, h3, h4, h5, h6, h7, h8, h9, h10, h11, h12, h13, h14, h15⟩
  simp (disch := first | assumption | exact sub64_lt _ _ | exact ror64_lt _ _ |
    exact xor_lt64 (by assumption) (by assumption) | decide) only [dec_round_73, enc_round_73,
    add64_sub64, rol64_ror64, xor_xor_cancel]

theorem enc_dec_round_74 (k : Nat → Nat) (t0 : Nat) (s : State) (h : s.wf) :
    enc_round_74 k t0 (dec_round_74 k t0 s) = s := by
  rcases s with ⟨b0, b1, b2, b3, b4, b5, b6, b7, b8, b9, b10, b11, b12, b13, b14, b15⟩
  rcases h with ⟨h0, h1, h2, h3, h4, h5, h6, h7, h8, h9, h10, h11, h12, h13, h14, h15⟩
  simp (disch := first | assumption | exact sub64_lt _ _ | exact ror64_lt _ _ |
    exact xor_lt64 (by assumption) (by assumption) | decide) only [dec_round_74, enc_round_74,
    add64_sub64, rol64_ror64, xor_xor_cancel]

theorem enc_dec_round_75 (k : Nat → Nat) (t0 : Nat) (s : State) (h : s.wf) :
    enc_round_75 k t0 (dec_round_75 k t0 s) = s := by
  rcases s with ⟨b0, b1, b2, b3, b4, b5, b6, b7, b8, b9, b10, b11, b12, b13, b14, b15⟩
  rcases h with ⟨h0, h1, h2, h3, h4, h5, h6, h7, h8, h9, h10, h11, h12, h13, h14, h15⟩
  simp (disch := first | assumption | exact sub64_lt _ _ | exact ror64_lt _ _ |
    exact xor_lt64 (by assumption) (by assumption) | decide) only [dec_round_75, enc_round_75,
    add64_sub64, rol64_ror64, xor_xor_cancel]

theorem enc_dec_round_76 (k : Nat → Nat) (t0 : Nat) (s : State) (h : s.wf) :
    enc_round_76 k t0 (dec_round_76 k t0 s) = s := by
  rcases s with ⟨b0, b1, b2, b3, b4, b5, b6, b7, b8, b9, b10, b11, b12, b13, b14, b15⟩
  rcases h with ⟨h0, h1, h2, h3, h4, h5, h6, h7, h8, h9, h10, h11, h12, h13, h14, h15⟩
  simp (disch := first | assumption | exact sub64_lt _ _ | exact ror64_lt _ _ |
    exact xor_lt64 (by assumption) (by assumption) | decide) only [dec_round_76, enc_round_76,
    add64_sub64, rol64_ror64, xor_xor_cancel]

theorem enc_dec_round_77 (k : Nat → Nat) (t0 : Nat) (s : State) (h : s.wf) :
    enc_round_77 k t0 (dec_round_77 k t0 s) = s := by
  rcases s with ⟨b0, b1, b2, b3, b4, b5, b6, b7, b8, b9, b10, b11, b12, b13, b14, b15⟩
  rcases h with ⟨h0, h1, h2, h3, h4, h5, h6, h7, h8, h9, h10, h11, h12, h13, h14, h15⟩
  simp (disch := first | assumption | exact sub64_lt _ _ | exact ror64_lt _ _ |
    exact xor_lt64 (by assumption) (by assumption) | decide) only [dec_round_77, enc_round_77,
    add64_sub64, rol64_ror64, xor_xor_cancel]

theorem enc_dec_round_78 (k : Nat → Nat) (t0 : Nat) (s : State) (h : s.wf) :
    enc_round_78 k t0 (dec_round_78 k t0 s) = s := by
  rcases s with ⟨b0, b1, b2, b3, b4, b5, b6, b7, b8, b9, b10, b11, b12, b13, b14, b15⟩
  rcases h with ⟨h0, h1, h2, h3, h4, h5, h6, h7, h8, h9, h10, h11, h12, h13, h14, h15⟩
  simp (disch := first | assumption | exact sub64_lt _ _ | exact ror64_lt _ _ |
    exact xor_lt64 (by assumption) (by assumption) | decide) only [dec_round_78, enc_round_78,
    add64_sub64, rol64_ror64, xor_xor_cancel]

theorem enc_dec_round_79 (k : Nat → Nat) (t0 : Nat) (s : State) (h : s.wf) :
    enc_round_79 k t0 (dec_round_79 k t0 s) = s := by
  rcases s with ⟨b0, b1, b2, b3, b4, b5, b6, b7, b8, b9, b10, b11, b12, b13, b14, b15⟩
  rcases h with ⟨h0, h1, h2, h3, h4, h5, h6, h7, h8, h9, h10, h11, h12, h13, h14, h15⟩
  simp (disch := first | assumption | exact sub64_lt _ _ | exact ror64_lt _ _ |
    exact xor_lt64 (by assumption) (by assumption) | decide) only [dec_round_79, enc_round_79,
    add64_sub64, rol64_ror64, xor_xor_cancel]

theorem enc_output_dec_subkey_20 (k : Nat → Nat) (t0 : Nat) (s : State) (h : s.wf) :
    enc_output k t0 (dec_subkey_20 k t0 s) = s := by
  rcases s with ⟨b0, b1, b2, b3, b4, b5, b6, b7, b8, b9, b10, b11, b12, b13, b14, b15⟩
  rcases h with ⟨h0, h1, h2, h3, h4, h5, h6, h7, h8, h9, h10, h11, h12, h13, h14, h15⟩
  simp (disch := first | assumption | exact sub64_lt _ _) only [dec_subkey_20, enc_output,
    add64_sub64, add64_assoc]

/-! ## Each block of the unrolled code is one round of the reference -/

theorem enc_ref_round_0 (K : threefish_key) (t0 : Nat) (s : State) :
    ref_round K.key t0 0 (ref_view 0 s) = ref_view 1 (enc_round_0 (load_key K) t0 s) := by
  rcases s with ⟨b0, b1, b2, b3, b4, b5, b6, b7, b8, b9, b10, b11, b12, b13, b14, b15⟩
  simp only [ref_round, ref_view, store_block, Nat.iterate, enc_round_0, load_key,
    ref_add_subkey_cons, ref_mix_layer_cons, ref_permute_cons, ref_tweak, t1, t2, ref_rot,
    R_1024, Nat.reduceMod, Nat.reduceDiv, Nat.reduceAdd, if_true, List.getD_cons_zero,
    List.getD_cons_succ, add64_add64_zero, add64_fuse_tweak]
  simp only [add64_fuse]

theorem enc_ref_round_1 (K : threefish_key) (t0 : Nat) (s : State) :
    ref_round K.key t0 1 (ref_view 1 s) = ref_view 2 (enc_round_1 (load_key K) t0 s) := by
  rfl

theorem enc_ref_round_2 (K : threefish_key) (t0 : Nat) (s : State) :
    ref_round K.key t0 2 (ref_view 2 s) = ref_view 3 (enc_round_2 (load_key K) t0 s) := by
  rfl

theorem enc_ref_round_3 (K : threefish_key) (t0 : Nat) (s : State) :
    ref_round K.key t0 3 (ref_view 3 s) = ref_view 0 (enc_round_3 (load_key K) t0 s) := by
  rfl

theorem enc_ref_round_4 (K : threefish_key) (t0 : Nat) (s : State) :
    ref_round K.key t0 4 (ref_view 0 s) = ref_view 1 (enc_round_4 (load_key K) t0 s) := by
  rcases s with ⟨b0, b1, b2, b3, b4, b5, b6, b7, b8, b9, b10, b11, b12, b13, b14, b15⟩
  simp only [ref_round, ref_view, store_block, Nat.iterate, enc_round_4, load_key,
    ref_add_subkey_cons, ref_mix_layer_cons, ref_permute_cons, ref_tweak, t1, t2, ref_rot,
    R_1024, Nat.reduceMod, Nat.reduceDiv, Nat.reduceAdd, if_true, List.getD_cons_zero,
    List.getD_cons_succ, add64_add64_zero, add64_fuse_tweak]
  simp only [add64_fuse]

theorem enc_ref_round_5 (K : threefish_key) (t0 : Nat) (s : State) :
    ref_round K.key t0 5 (ref_view 1 s) = ref_view 2 (enc_round_5 (load_key K) t0 s) := by
  rfl

theorem enc_ref_round_6 (K : threefish_key) (t0 : Nat) (s : State) :
    ref_round K.key t0 6 (ref_view 2 s) = ref_view 3 (enc_round_6 (load_key K) t0 s) := by
  rfl

theorem enc_ref_round_7 (K : threefish_key) (t0 : Nat) (s : State) :
    ref_round K.key t0 7 (ref_view 3 s) = ref_view 0 (enc_round_7 (load_key K) t0 s) := by
  rfl

theorem enc_ref_round_8 (K : threefish_key) (t0 : Nat) (s : State) :
    ref_round K.key t0 8 (ref_view 0 s) = ref_view 1 (enc_round_8 (load_key K) t0 s) := by
  rcases s with ⟨b0, b1, b2, b3, b4, b5, b6, b7, b8, b9, b10, b11, b12, b13, b14, b15⟩
  simp only [ref_round, ref_view, store_block, Nat.iterate, enc_round_8, load_key,
    ref_add_subkey_cons, ref_mix_layer_cons, ref_permute_cons, ref_tweak, t1, t2, ref_rot,
    R_1024, Nat.reduceMod, Nat.reduceDiv, Nat.reduceAdd, if_true, List.getD_cons_zero,
    List.getD_cons_succ, add64_add64_zero, add64_fuse_tweak]
  simp only [add64_fuse]

theorem enc_ref_round_9 (K : threefish_key) (t0 : Nat) (s : State) :
    ref_round K.key t0 9 (ref_view 1 s) = ref_view 2 (enc_round_9 (load_key K) t0 s) := by
  rfl

theorem enc_ref_round_10 (K : threefish_key) (t0 : Nat) (s : State) :
    ref_round K.key t0 10 (ref_view 2 s) = ref_view 3 (enc_round_10 (load_key K) t0 s) := by
  rfl

theorem enc_ref_round_11 (K : threefish_key) (t0 : Nat) (s : State) :
    ref_round K.key t0 11 (ref_view 3 s) = ref_view 0 (enc_round_11 (load_key K) t0 s) := by
  rfl

theorem enc_ref_round_12 (K : threefish_key) (t0 : Nat) (s : State) :
    ref_round K.key t0 12 (ref_view 0 s) = ref_view 1 (enc_round_12 (load_key K) t0 s) := by
  rcases s with ⟨b0, b1, b2, b3, b4, b5, b6, b7, b8, b9, b10, b11, b12, b13, b14, b15⟩
  simp only [ref_round, ref_view, store_block, Nat.iterate, enc_round_12, load_key,
    ref_add_subkey_cons, ref_mix_layer_cons, ref_permute_cons, ref_tweak, t1, t2, ref_rot,
    R_1024, Nat.reduceMod, Nat.reduceDiv, Nat.reduceAdd, if_true, List.getD_cons_zero,
    List.getD_cons_succ, add64_add64_zero, add64_fuse_tweak]
  simp only [add64_fuse]

theorem enc_ref_round_13 (K : threefish_key) (t0 : Nat) (s : State) :
    ref_round K.key t0 13 (ref_view 1 s) = ref_view 2 (enc_round_13 (load_key K) t0 s) := by
  rfl

theorem enc_ref_round_14 (K : threefish_key) (t0 : Nat) (s : State) :
    ref_round K.key t0 14 (ref_view 2 s) = ref_view 3 (enc_round_14 (load_key K) t0 s) := by
  rfl

theorem enc_ref_round_15 (K : threefish_key) (t0 : Nat) (s : State) :
    ref_round K.key t0 15 (ref_view 3 s) = ref_view 0 (enc_round_15 (load_key K) t0 s) := by
  rfl

theorem enc_ref_round_16 (K : threefish_key) (t0 : Nat) (s : State) :
    ref_round K.key t0 16 (ref_view 0 s) = ref_view 1 (enc_round_16 (load_key K) t0 s) := by
  rcases s with ⟨b0, b1, b2, b3, b4, b5, b6, b7, b8, b9, b10, b11, b12, b13, b14, b15⟩
  simp only [ref_round, ref_view, store_block, Nat.iterate, enc_round_16, load_key,
    ref_add_subkey_cons, ref_mix_layer_cons, ref_permute_cons, ref_tweak, t1, t2, ref_rot,
    R_1024, Nat.reduceMod, Nat.reduceDiv, Nat.reduceAdd, if_true, List.getD_cons_zero,
    List.getD_cons_succ, add64_add64_zero, add64_fuse_tweak]
  simp only [add64_fuse]

theorem enc_ref_round_17 (K : threefish_key) (t0 : Nat) (s : State) :
    ref_round K.key t0 17 (ref_view 1 s) = ref_view 2 (enc_round_17 (load_key K) t0 s) := by
  rfl

theorem enc_ref_round_18 (K : threefish_key) (t0 : Nat) (s : State) :
    ref_round K.key t0 18 (ref_view 2 s) = ref_view 3 (enc_round_18 (load_key K) t0 s) := by
  rfl

theorem enc_ref_round_19 (K : threefish_key) (t0 : Nat) (s : State) :
    ref_round K.key t0 19 (ref_view 3 s) = ref_view 0 (enc_round_19 (load_key K) t0 s) := by
  rfl

theorem enc_ref_round_20 (K : threefish_key) (t0 : Nat) (s : State) :
    ref_round K.key t0 20 (ref_view 0 s) = ref_view 1 (enc_round_20 (load_key K) t0 s) := by
  rcases s with ⟨b0, b1, b2, b3, b4, b5, b6, b7, b8, b9, b10, b11, b12, b13, b14, b15⟩
  simp only [ref_round, ref_view, store_block, Nat.iterate, enc_round_20, load_key,
    ref_add_subkey_cons, ref_mix_layer_cons, ref_permute_cons, ref_tweak, t1, t2, ref_rot,
    R_1024, Nat.reduceMod, Nat.reduceDiv, Nat.reduceAdd, if_true, List.getD_cons_zero,
    List.getD_cons_succ, add64_add64_zero, add64_fuse_tweak]
  simp only [add64_fuse]

theorem enc_ref_round_21 (K : threefish_key) (t0 : Nat) (s : State) :
    ref_round K.key t0 21 (ref_view 1 s) = ref_view 2 (enc_round_21 (load_key K) t0 s) := by
  rfl

theorem enc_ref_round_22 (K : threefish_key) (t0 : Nat) (s : State) :
    ref_round K.key t0 22 (ref_view 2 s) = ref_view 3 (enc_round_22 (load_key K) t0 s) := by
  rfl

theorem enc_ref_round_23 (K : threefish_key) (t0 : Nat) (s : State) :
    ref_round K.key t0 23 (ref_view 3 s) = ref_view 0 (enc_round_23 (load_key K) t0 s) := by
  rfl

theorem enc_ref_round_24 (K : threefish_key) (t0 : Nat) (s : State) :
    ref_round K.key t0 24 (ref_view 0 s) = ref_view 1 (enc_round_24 (load_key K) t0 s) := by
  rcases s with ⟨b0, b1, b2, b3, b4, b5, b6, b7, b8, b9, b10, b11, b12, b13, b14, b15⟩
  simp only [ref_round, ref_view, store_block, Nat.iterate, enc_round_24, load_key,
    ref_add_subkey_cons, ref_mix_layer_cons, ref_permute_cons, ref_tweak, t1, t2, ref_rot,
    R_1024, Nat.reduceMod, Nat.reduceDiv, Nat.reduceAdd, if_true, List.getD_cons_zero,
    List.getD_cons_succ, add64_add64_zero, add64_fuse_tweak]
  simp only [add64_fuse]

theorem enc_ref_round_25 (K : threefish_key) (t0 : Nat) (s : State) :
    ref_round K.key t0 25 (ref_view 1 s) = ref_view 2 (enc_round_25 (load_key K) t0 s) := by
  rfl

theorem enc_ref_round_26 (K : threefish_key) (t0 : Nat) (s : State) :
    ref_round K.key t0 26 (ref_view 2 s) = ref_view 3 (enc_round_26 (load_key K) t0 s) := by
  rfl

theorem enc_ref_round_27 (K : threefish_key) (t0 : Nat) (s : State) :
    ref_round K.key t0 27 (ref_view 3 s) = ref_view 0 (enc_round_27 (load_key K) t0 s) := by
  rfl

theorem enc_ref_round_28 (K : threefish_key) (t0 : Nat) (s : State) :
    ref_round K.key t0 28 (ref_view 0 s) = ref_view 1 (enc_round_28 (load_key K) t0 s) := by
  rcases s with ⟨b0, b1, b2, b3, b4, b5, b6, b7, b8, b9, b10, b11, b12, b13, b14, b15⟩
  simp only [ref_round, ref_view, store_block, Nat.iterate, enc_round_28, load_key,
    ref_add_subkey_cons, ref_mix_layer_cons, ref_permute_cons, ref_tweak, t1, t2, ref_rot,
    R_1024, Nat.reduceMod, Nat.reduceDiv, Nat.reduceAdd, if_true, List.getD_cons_zero,
    List.getD_cons_succ, add64_add64_zero, add64_fuse_tweak]
  simp only [add64_fuse]

theorem enc_ref_round_29 (K : threefish_key) (t0 : Nat) (s : State) :
    ref_round K.key t0 29 (ref_view 1 s) = ref_view 2 (enc_round_29 (load_key K) t0 s) := by
  rfl

theorem enc_ref_round_30 (K : threefish_key) (t0 : Nat) (s : State) :
    ref_round K.key t0 30 (ref_view 2 s) = ref_view 3 (enc_round_30 (load_key K) t0 s) := by
  rfl

theorem enc_ref_round_31 (K : threefish_key) (t0 : Nat) (s : State) :
    ref_round K.key t0 31 (ref_view 3 s) = ref_view 0 (enc_round_31 (load_key K) t0 s) := by
  rfl

theorem enc_ref_round_32 (K : threefish_key) (t0 : Nat) (s : State) :
    ref_round K.key t0 32 (ref_view 0 s) = ref_view 1 (enc_round_32 (load_key K) t0 s) := by
  rcases s with ⟨b0, b1, b2, b3, b4, b5, b6, b7, b8, b9, b10, b11, b12, b13, b14, b15⟩
  simp only [ref_round, ref_view, store_block, Nat.iterate, enc_round_32, load_key,
    ref_add_subkey_cons, ref_mix_layer_cons, ref_permute_cons, ref_tweak, t1, t2, ref_rot,
    R_1024, Nat.reduceMod, Nat.reduceDiv, Nat.reduceAdd, if_true, List.getD_cons_zero,
    List.getD_cons_succ, add64_add64_zero, add64_fuse_tweak]
  simp only [add64_fuse]

theorem enc_ref_round_33 (K : threefish_key) (t0 : Nat) (s : State) :
    ref_round K.key t0 33 (ref_view 1 s) = ref_view 2 (enc_round_33 (load_key K) t0 s) := by
  rfl

theorem enc_ref_round_34 (K : threefish_key) (t0 : Nat) (s : State) :
    ref_round K.key t0 34 (ref_view 2 s) = ref_view 3 (enc_round_34 (load_key K) t0 s) := by
  rfl

theorem enc_ref_round_35 (K : threefish_key) (t0 : Nat) (s : State) :
    ref_round K.key t0 35 (ref_view 3 s) = ref_view 0 (enc_round_35 (load_key K) t0 s) := by
  rfl

theorem enc_ref_round_36 (K : threefish_key) (t0 : Nat) (s : State) :
    ref_round K.key t0 36 (ref_view 0 s) = ref_view 1 (enc_round_36 (load_key K) t0 s) := by
  rcases s with ⟨b0, b1, b2, b3, b4, b5, b6, b7, b8, b9, b10, b11, b12, b13, b14, b15⟩
  simp only [ref_round, ref_view, store_block, Nat.iterate, enc_round_36, load_key,
    ref_add_subkey_cons, ref_mix_layer_cons, ref_permute_cons, ref_tweak, t1, t2, ref_rot,
    R_1024, Nat.reduceMod, Nat.reduceDiv, Nat.reduceAdd, if_true, List.getD_cons_zero,
    List.getD_cons_succ, add64_add64_zero, add64_fuse_tweak]
  simp only [add64_fuse]

theorem enc_ref_round_37 (K : threefish_key) (t0 : Nat) (s : State) :
    ref_round K.key t0 37 (ref_view 1 s) = ref_view 2 (enc_round_37 (load_key K) t0 s) := by
  rfl

theorem enc_ref_round_38 (K : threefish_key) (t0 : Nat) (s : State) :
    ref_round K.key t0 38 (ref_view 2 s) = ref_view 3 (enc_round_38 (load_key K) t0 s) := by
  rfl

theorem enc_ref_round_39 (K : threefish_key) (t0 : Nat) (s : State) :
    ref_round K.key t0 39 (ref_view 3 s) = ref_view 0 (enc_round_39 (load_key K) t0 s) := by
  rfl

theorem enc_ref_round_40 (K : threefish_key) (t0 : Nat) (s : State) :
    ref_round K.key t0 40 (ref_view 0 s) = ref_view 1 (enc_round_40 (load_key K) t0 s) := by
  rcases s with ⟨b0, b1, b2, b3, b4, b5, b6, b7, b8, b9, b10, b11, b12, b13, b14, b15⟩
  simp only [ref_round, ref_view, store_block, Nat.iterate, enc_round_40, load_key,
    ref_add_subkey_cons, ref_mix_layer_cons, ref_permute_cons, ref_tweak, t1, t2, ref_rot,
    R_1024, Nat.reduceMod, Nat.reduceDiv, Nat.reduceAdd, if_true, List.getD_cons_zero,
    List.getD_cons_succ, add64_add64_zero, add64_fuse_tweak]
  simp only [add64_fuse]

theorem enc_ref_round_41 (K : threefish_key) (t0 : Nat) (s : State) :
    ref_round K.key t0 41 (ref_view 1 s) = ref_view 2 (enc_round_41 (load_key K) t0 s) := by
  rfl

theorem enc_ref_round_42 (K : threefish_key) (t0 : Nat) (s : State) :
    ref_round K.key t0 42 (ref_view 2 s) = ref_view 3 (enc_round_42 (load_key K) t0 s) := by
  rfl

theorem enc_ref_round_43 (K : threefish_key) (t0 : Nat) (s : State) :
    ref_round K.key t0 43 (ref_view 3 s) = ref_view 0 (enc_round_43 (load_key K) t0 s) := by
  rfl

theorem enc_ref_round_44 (K : threefish_key) (t0 : Nat) (s : State) :
    ref_round K.key t0 44 (ref_view 0 s) = ref_view 1 (enc_round_44 (load_key K) t0 s) := by
  rcases s with ⟨b0, b1, b2, b3, b4, b5, b6, b7, b8, b9, b10, b11, b12, b13, b14, b15⟩
  simp only [ref_round, ref_view, store_block, Nat.iterate, enc_round_44, load_key,
    ref_add_subkey_cons, ref_mix_layer_cons, ref_permute_cons, ref_tweak, t1, t2, ref_rot,
    R_1024, Nat.reduceMod, Nat.reduceDiv, Nat.reduceAdd, if_true, List.getD_cons_zero,
    List.getD_cons_succ, add64_add64_zero, add64_fuse_tweak]
  simp only [add64_fuse]

theorem enc_ref_round_45 (K : threefish_key) (t0 : Nat) (s : State) :
    ref_round K.key t0 45 (ref_view 1 s) = ref_view 2 (enc_round_45 (load_key K) t0 s) := by
  rfl

theorem enc_ref_round_46 (K : threefish_key) (t0 : Nat) (s : State) :
    ref_round K.key t0 46 (ref_view 2 s) = ref_view 3 (enc_round_46 (load_key K) t0 s) := by
  rfl

theorem enc_ref_round_47 (K : threefish_key) (t0 : Nat) (s : State) :
    ref_round K.key t0 47 (ref_view 3 s) = ref_view 0 (enc_round_47 (load_key K) t0 s) := by
  rfl

theorem enc_ref_round_48 (K : threefish_key) (t0 : Nat) (s : State) :
    ref_round K.key t0 48 (ref_view 0 s) = ref_view 1 (enc_round_48 (load_key K) t0 s) := by
  rcases s with ⟨b0, b1, b2, b3, b4, b5, b6, b7, b8, b9, b10, b11, b12, b13, b14, b15⟩
  simp only [ref_round, ref_view, store_block, Nat.iterate, enc_round_48, load_key,
    ref_add_subkey_cons, ref_mix_layer_cons, ref_permute_cons, ref_tweak, t1, t2, ref_rot,
    R_1024, Nat.reduceMod, Nat.reduceDiv, Nat.reduceAdd, if_true, List.getD_cons_zero,
    List.getD_cons_succ, add64_add64_zero, add64_fuse_tweak]
  simp only [add64_fuse]

theorem enc_ref_round_49 (K : threefish_key) (t0 : Nat) (s : State) :
    ref_round K.key t0 49 (ref_view 1 s) = ref_view 2 (enc_round_49 (load_key K) t0 s) := by
  rfl

theorem enc_ref_round_50 (K : threefish_key) (t0 : Nat) (s : State) :
    ref_round K.key t0 50 (ref_view 2 s) = ref_view 3 (enc_round_50 (load_key K) t0 s) := by
  rfl

theorem enc_ref_round_51 (K : threefish_key) (t0 : Nat) (s : State) :
    ref_round K.key t0 51 (ref_view 3 s) = ref_view 0 (enc_round_51 (load_key K) t0 s) := by
  rfl

theorem enc_ref_round_52 (K : threefish_key) (t0 : Nat) (s : State) :
    ref_round K.key t0 52 (ref_view 0 s) = ref_view 1 (enc_round_52 (load_key K) t0 s) := by
  rcases s with ⟨b0, b1, b2, b3, b4, b5, b6, b7, b8, b9, b10, b11, b12, b13, b14, b15⟩
  simp only [ref_round, ref_view, store_block, Nat.iterate, enc_round_52, load_key,
    ref_add_subkey_cons, ref_mix_layer_cons, ref_permute_cons, ref_tweak, t1, t2, ref_rot,
    R_1024, Nat.reduceMod, Nat.reduceDiv, Nat.reduceAdd, if_true, List.getD_cons_zero,
    List.getD_cons_succ, add64_add64_zero, add64_fuse_tweak]
  simp only [add64_fuse]

theorem enc_ref_round_53 (K : threefish_key) (t0 : Nat) (s : State) :
    ref_round K.key t0 53 (ref_view 1 s) = ref_view 2 (enc_round_53 (load_key K) t0 s) := by
  rfl

theorem enc_ref_round_54 (K : threefish_key) (t0 : Nat) (s : State) :
    ref_round K.key t0 54 (ref_view 2 s) = ref_view 3 (enc_round_54 (load_key K) t0 s) := by
  rfl

theorem enc_ref_round_55 (K : threefish_key) (t0 : Nat) (s : State) :
    ref_round K.key t0 55 (ref_view 3 s) = ref_view 0 (enc_round_55 (load_key K) t0 s) := by
  rfl

theorem enc_ref_round_56 (K : threefish_key) (t0 : Nat) (s : State) :
    ref_round K.key t0 56 (ref_view 0 s) = ref_view 1 (enc_round_56 (load_key K) t0 s) := by
  rcases s with ⟨b0, b1, b2, b3, b4, b5, b6, b7, b8, b9, b10, b11, b12, b13, b14, b15⟩
  simp only [ref_round, ref_view, store_block, Nat.iterate, enc_round_56, load_key,
    ref_add_subkey_cons, ref_mix_layer_cons, ref_permute_cons, ref_tweak, t1, t2, ref_rot,
    R_1024, Nat.reduceMod, Nat.reduceDiv, Nat.reduceAdd, if_true, List.getD_cons_zero,
    List.getD_cons_succ, add64_add64_zero, add64_fuse_tweak]
  simp only [add64_fuse]

theorem enc_ref_round_57 (K : threefish_key) (t0 : Nat) (s : State) :
    ref_round K.key t0 57 (ref_view 1 s) = ref_view 2 (enc_round_57 (load_key K) t0 s) := by
  rfl

theorem enc_ref_round_58 (K : threefish_key) (t0 : Nat) (s : State) :
    ref_round K.key t0 58 (ref_view 2 s) = ref_view 3 (enc_round_58 (load_key K) t0 s) := by
  rfl

theorem enc_ref_round_59 (K : threefish_key) (t0 : Nat) (s : State) :
    ref_round K.key t0 59 (ref_view 3 s) = ref_view 0 (enc_round_59 (load_key K) t0 s) := by
  rfl

theorem enc_ref_round_60 (K : threefish_key) (t0 : Nat) (s : State) :
    ref_round K.key t0 60 (ref_view 0 s) = ref_view 1 (enc_round_60 (load_key K) t0 s) := by
  rcases s with ⟨b0, b1, b2, b3, b4, b5, b6, b7, b8, b9, b10, b11, b12, b13, b14, b15⟩
  simp only [ref_round, ref_view, store_block, Nat.iterate, enc_round_60, load_key,
    ref_add_subkey_cons, ref_mix_layer_cons, ref_permute_cons, ref_tweak, t1, t2, ref_rot,
    R_1024, Nat.reduceMod, Nat.reduceDiv, Nat.reduceAdd, if_true, List.getD_cons_zero,
    List.getD_cons_succ, add64_add64_zero, add64_fuse_tweak]
  simp only [add64_fuse]

theorem enc_ref_round_61 (K : threefish_key) (t0 : Nat) (s : State) :
    ref_round K.key t0 61 (ref_view 1 s) = ref_view 2 (enc_round_61 (load_key K) t0 s) := by
  rfl

theorem enc_ref_round_62 (K : threefish_key) (t0 : Nat) (s : State) :
    ref_round K.key t0 62 (ref_view 2 s) = ref_view 3 (enc_round_62 (load_key K) t0 s) := by
  rfl

theorem enc_ref_round_63 (K : threefish_key) (t0 : Nat) (s : State) :
    ref_round K.key t0 63 (ref_view 3 s) = ref_view 0 (enc_round_63 (load_key K) t0 s) := by
  rfl

theorem enc_ref_round_64 (K : threefish_key) (t0 : Nat) (s : State) :
    ref_round K.key t0 64 (ref_view 0 s) = ref_view 1 (enc_round_64 (load_key K) t0 s) := by
  rcases s with ⟨b0, b1, b2, b3, b4, b5, b6, b7, b8, b9, b10, b11, b12, b13, b14, b15⟩
  simp only [ref_round, ref_view, store_block, Nat.iterate, enc_round_64, load_key,
    ref_add_subkey_cons, ref_mix_layer_cons, ref_permute_cons, ref_tweak, t1, t2, ref_rot,
    R_1024, Nat.reduceMod, Nat.reduceDiv, Nat.reduceAdd, if_true, List.getD_cons_zero,
    List.getD_cons_succ, add64_add64_zero, add64_fuse_tweak]
  simp only [add64_fuse]

theorem enc_ref_round_65 (K : threefish_key) (t0 : Nat) (s : State) :
    ref_round K.key t0 65 (ref_view 1 s) = ref_view 2 (enc_round_65 (load_key K) t0 s) := by
  rfl

theorem enc_ref_round_66 (K : threefish_key) (t0 : Nat) (s : State) :
    ref_round K.key t0 66 (ref_view 2 s) = ref_view 3 (enc_round_66 (load_key K) t0 s) := by
  rfl

theorem enc_ref_round_67 (K : threefish_key) (t0 : Nat) (s : State) :
    ref_round K.key t0 67 (ref_view 3 s) = ref_view 0 (enc_round_67 (load_key K) t0 s) := by
  rfl

theorem enc_ref_round_68 (K : threefish_key) (t0 : Nat) (s : State) :
    ref_round K.key t0 68 (ref_view 0 s) = ref_view 1 (enc_round_68 (load_key K) t0 s) := by
  rcases s with ⟨b0, b1, b2, b3, b4, b5, b6, b7, b8, b9, b10, b11, b12, b13, b14, b15⟩
  simp only [ref_round, ref_view, store_block, Nat.iterate, enc_round_68, load_key,
    ref_add_subkey_cons, ref_mix_layer_cons, ref_permute_cons, ref_tweak, t1, t2, ref_rot,
    R_1024, Nat.reduceMod, Nat.reduceDiv, Nat.reduceAdd, if_true, List.getD_cons_zero,
    List.getD_cons_succ, add64_add64_zero, add64_fuse_tweak]
  simp only [add64_fuse]

theorem enc_ref_round_69 (K : threefish_key) (t0 : Nat) (s : State) :
    ref_round K.key t0 69 (ref_view 1 s) = ref_view 2 (enc_round_69 (load_key K) t0 s) := by
  rfl

theorem enc_ref_round_70 (K : threefish_key) (t0 : Nat) (s : State) :
    ref_round K.key t0 70 (ref_view 2 s) = ref_view 3 (enc_round_70 (load_key K) t0 s) := by
  rfl

theorem enc_ref_round_71 (K : threefish_key) (t0 : Nat) (s : State) :
    ref_round K.key t0 71 (ref_view 3 s) = ref_view 0 (enc_round_71 (load_key K) t0 s) := by
  rfl

theorem enc_ref_round_72 (K : threefish_key) (t0 : Nat) (s : State) :
    ref_round K.key t0 72 (ref_view 0 s) = ref_view 1 (enc_round_72 (load_key K) t0 s) := by
  rcases s with ⟨b0, b1, b2, b3, b4, b5, b6, b7, b8, b9, b10, b11, b12, b13, b14, b15⟩
  simp only [ref_round, ref_view, store_block, Nat.iterate, enc_round_72, load_key,
    ref_add_subkey_cons, ref_mix_layer_cons, ref_permute_cons, ref_tweak, t1, t2, ref_rot,
    R_1024, Nat.reduceMod, Nat.reduceDiv, Nat.reduceAdd, if_true, List.getD_cons_zero,
    List.getD_cons_succ, add64_add64_zero, add64_fuse_tweak]
  simp only [add64_fuse]

theorem enc_ref_round_73 (K : threefish_key) (t0 : Nat) (s : State) :
    ref_round K.key t0 73 (ref_view 1 s) = ref_view 2 (enc_round_73 (load_key K) t0 s) := by
  rfl

theorem enc_ref_round_74 (K : threefish_key) (t0 : Nat) (s : State) :
    ref_round K.key t0 74 (ref_view 2 s) = ref_view 3 (enc_round_74 (load_key K) t0 s) := by
  rfl

theorem enc_ref_round_75 (K : threefish_key) (t0 : Nat) (s : State) :
    ref_round K.key t0 75 (ref_view 3 s) = ref_view 0 (enc_round_75 (load_key K) t0 s) := by
  rfl

theorem enc_ref_round_76 (K : threefish_key) (t0 : Nat) (s : State) :
    ref_round K.key t0 76 (ref_view 0 s) = ref_view 1 (enc_round_76 (load_key K) t0 s) := by
  rcases s with ⟨b0, b1, b2, b3, b4, b5, b6, b7, b8, b9, b10, b11, b12, b13, b14, b15⟩
  simp only [ref_round, ref_view, store_block, Nat.iterate, enc_round_76, load_key,
    ref_add_subkey_cons, ref_mix_layer_cons, ref_permute_cons, ref_tweak, t1, t2, ref_rot,
    R_1024, Nat.reduceMod, Nat.reduceDiv, Nat.reduceAdd, if_true, List.getD_cons_zero,
    List.getD_cons_succ, add64_add64_zero, add64_fuse_tweak]
  simp only [add64_fuse]

theorem enc_ref_round_77 (K : threefish_key) (t0 : Nat) (s : State) :
    ref_round K.key t0 77 (ref_view 1 s) = ref_view 2 (enc_round_77 (load_key K) t0 s) := by
  rfl

theorem enc_ref_round_78 (K : threefish_key) (t0 : Nat) (s : State) :
    ref_round K.key t0 78 (ref_view 2 s) = ref_view 3 (enc_round_78 (load_key K) t0 s) := by
  rfl

theorem enc_ref_round_79 (K : threefish_key) (t0 : Nat) (s : State) :
    ref_round K.key t0 79 (ref_view 3 s) = ref_view 0 (enc_round_79 (load_key K) t0 s) := by
  rfl

theorem enc_ref_output (K : threefish_key) (t0 : Nat) (s : State) :
    ref_add_subkey K.key t0 20 (ref_view 0 s) = store_block (enc_output (load_key K) t0 s) := by
  rcases s with ⟨b0, b1, b2, b3, b4, b5, b6, b7, b8, b9, b10, b11, b12, b13, b14, b15⟩
  simp only [ref_view, store_block, Nat.iterate, enc_output, load_key, ref_add_subkey_cons,
    ref_tweak, t1, t2, Nat.reduceMod, Nat.reduceDiv, Nat.reduceAdd, List.getD_cons_zero,
    List.getD_cons_succ, add64_assoc]

theorem dec_ref_subkey_20 (K : threefish_key) (t0 : Nat) (s : State) :
    ref_sub_subkey K.key t0 20 (ref_view 0 s) = ref_view 0 (dec_subkey_20 (load_key K) t0 s) := by
  rfl

theorem dec_ref_round_79 (K : threefish_key) (t0 : Nat) (s : State) :
    ref_round_inv K.key t0 79 (ref_view 0 s) = ref_view 3 (dec_round_79 (load_key K) t0 s) := by
  rfl

theorem dec_ref_round_78 (K : threefish_key) (t0 : Nat) (s : State) :
    ref_round_inv K.key t0 78 (ref_view 3 s) = ref_view 2 (dec_round_78 (load_key K) t0 s) := by
  rfl

theorem dec_ref_round_77 (K : threefish_key) (t0 : Nat) (s : State) :
    ref_round_inv K.key t0 77 (ref_view 2 s) = ref_view 1 (dec_round_77 (load_key K) t0 s) := by
  rfl

theorem dec_ref_round_76 (K : threefish_key) (t0 : Nat) (s : State) :
    ref_round_inv K.key t0 76 (ref_view 1 s) = ref_view 0 (dec_round_76 (load_key K) t0 s) := by
  rcases s with ⟨b0, b1, b2, b3, b4, b5, b6, b7, b8, b9, b10, b11, b12, b13, b14, b15⟩
  simp only [ref_round_inv, ref_view, store_block, Nat.iterate, dec_round_76, load_key,
    ref_permute_cons, ref_unpermute_cons, ref_sub_subkey_cons, ref_unmix_layer_cons, ref_tweak,
    t1, t2, ref_rot, R_1024, Nat.reduceMod, Nat.reduceDiv, Nat.reduceAdd, if_true,
    List.getD_cons_zero, List.getD_cons_succ, sub64_fuse, sub64_sub64_zero]

theorem dec_ref_round_75 (K : threefish_key) (t0 : Nat) (s : State) :
    ref_round_inv K.key t0 75 (ref_view 0 s) = ref_view 3 (dec_round_75 (load_key K) t0 s) := by
  rfl

theorem dec_ref_round_74 (K : threefish_key) (t0 : Nat) (s : State) :
    ref_round_inv K.key t0 74 (ref_view 3 s) = ref_view 2 (dec_round_74 (load_key K) t0 s) := by
  rfl

theorem dec_ref_round_73 (K : threefish_key) (t0 : Nat) (s : State) :
    ref_round_inv K.key t0 73 (ref_view 2 s) = ref_view 1 (dec_round_73 (load_key K) t0 s) := by
  rfl

theorem dec_ref_round_72 (K : threefish_key) (t0 : Nat) (s : State) :
    ref_round_inv K.key t0 72 (ref_view 1 s) = ref_view 0 (dec_round_72 (load_key K) t0 s) := by
  rcases s with ⟨b0, b1, b2, b3, b4, b5, b6, b7, b8, b9, b10, b11, b12, b13, b14, b15⟩
  simp only [ref_round_inv, ref_view, store_block, Nat.iterate, dec_round_72, load_key,
    ref_permute_cons, ref_unpermute_cons, ref_sub_subkey_cons, ref_unmix_layer_cons, ref_tweak,
    t1, t2, ref_rot, R_1024, Nat.reduceMod, Nat.reduceDiv, Nat.reduceAdd, if_true,
    List.getD_cons_zero, List.getD_cons_succ, sub64_fuse, sub64_sub64_zero]

theorem dec_ref_round_71 (K : threefish_key) (t0 : Nat) (s : State) :
    ref_round_inv K.key t0 71 (ref_view 0 s) = ref_view 3 (dec_round_71 (load_key K) t0 s) := by
  rfl

theorem dec_ref_round_70 (K : threefish_key) (t0 : Nat) (s : State) :
    ref_round_inv K.key t0 70 (ref_view 3 s) = ref_view 2 (dec_round_70 (load_key K) t0 s) := by
  rfl

theorem dec_ref_round_69 (K : threefish_key) (t0 : Nat) (s : State) :
    ref_round_inv K.key t0 69 (ref_view 2 s) = ref_view 1 (dec_round_69 (load_key K) t0 s) := by
  rfl

theorem dec_ref_round_68 (K : threefish_key) (t0 : Nat) (s : State) :
    ref_round_inv K.key t0 68 (ref_view 1 s) = ref_view 0 (dec_round_68 (load_key K) t0 s) := by
  rcases s with ⟨b0, b1, b2, b3, b4, b5, b6, b7, b8, b9, b10, b11, b12, b13, b14, b15⟩
  simp only [ref_round_inv, ref_view, store_block, Nat.iterate, dec_round_68, load_key,
    ref_permute_cons, ref_unpermute_cons, ref_sub_subkey_cons, ref_unmix_layer_cons, ref_tweak,
    t1, t2, ref_rot, R_1024, Nat.reduceMod, Nat.reduceDiv, Nat.reduceAdd, if_true,
    List.getD_cons_zero, List.getD_cons_succ, sub64_fuse, sub64_sub64_zero]

theorem dec_ref_round_67 (K : threefish_key) (t0 : Nat) (s : State) :
    ref_round_inv K.key t0 67 (ref_view 0 s) = ref_view 3 (dec_round_67 (load_key K) t0 s) := by
  rfl

theorem dec_ref_round_66 (K : threefish_key) (t0 : Nat) (s : State) :
    ref_round_inv K.key t0 66 (ref_view 3 s) = ref_view 2 (dec_round_66 (load_key K) t0 s) := by
  rfl

theorem dec_ref_round_65 (K : threefish_key) (t0 : Nat) (s : State) :
    ref_round_inv K.key t0 65 (ref_view 2 s) = ref_view 1 (dec_round_65 (load_key K) t0 s) := by
  rfl

theorem dec_ref_round_64 (K : threefish_key) (t0 : Nat) (s : State) :
    ref_round_inv K.key t0 64 (ref_view 1 s) = ref_view 0 (dec_round_64 (load_key K) t0 s) := by
  rcases s with ⟨b0, b1, b2, b3, b4, b5, b6, b7, b8, b9, b10, b11, b12, b13, b14, b15⟩
  simp only [ref_round_inv, ref_view, store_block, Nat.iterate, dec_round_64, load_key,
    ref_permute_cons, ref_unpermute_cons, ref_sub_subkey_cons, ref_unmix_layer_cons, ref_tweak,
    t1, t2, ref_rot, R_1024, Nat.reduceMod, Nat.reduceDiv, Nat.reduceAdd, if_true,
    List.getD_cons_zero, List.getD_cons_succ, sub64_fuse, sub64_sub64_zero]

theorem dec_ref_round_63 (K : threefish_key) (t0 : Nat) (s : State) :
    ref_round_inv K.key t0 63 (ref_view 0 s) = ref_view 3 (dec_round_63 (load_key K) t0 s) := by
  rfl

theorem dec_ref_round_62 (K : threefish_key) (t0 : Nat) (s : State) :
    ref_round_inv K.key t0 62 (ref_view 3 s) = ref_view 2 (dec_round_62 (load_key K) t0 s) := by
  rfl

theorem dec_ref_round_61 (K : threefish_key) (t0 : Nat) (s : State) :
    ref_round_inv K.key t0 61 (ref_view 2 s) = ref_view 1 (dec_round_61 (load_key K) t0 s) := by
  rfl

theorem dec_ref_round_60 (K : threefish_key) (t0 : Nat) (s : State) :
    ref_round_inv K.key t0 60 (ref_view 1 s) = ref_view 0 (dec_round_60 (load_key K) t0 s) := by
  rcases s with ⟨b0, b1, b2, b3, b4, b5, b6, b7, b8, b9, b10, b11, b12, b13, b14, b15⟩
  simp only [ref_round_inv, ref_view, store_block, Nat.iterate, dec_round_60, load_key,
    ref_permute_cons, ref_unpermute_cons, ref_sub_subkey_cons, ref_unmix_layer_cons, ref_tweak,
    t1, t2, ref_rot, R_1024, Nat.reduceMod, Nat.reduceDiv, Nat.reduceAdd, if_true,
    List.getD_cons_zero, List.getD_cons_succ, sub64_fuse, sub64_sub64_zero]

theorem dec_ref_round_59 (K : threefish_key) (t0 : Nat) (s : State) :
    ref_round_inv K.key t0 59 (ref_view 0 s) = ref_view 3 (dec_round_59 (load_key K) t0 s) := by
  rfl

theorem dec_ref_round_58 (K : threefish_key) (t0 : Nat) (s : State) :
    ref_round_inv K.key t0 58 (ref_view 3 s) = ref_view 2 (dec_round_58 (load_key K) t0 s) := by
  rfl

theorem dec_ref_round_57 (K : threefish_key) (t0 : Nat) (s : State) :
    ref_round_inv K.key t0 57 (ref_view 2 s) = ref_view 1 (dec_round_57 (load_key K) t0 s) := by
  rfl

theorem dec_ref_round_56 (K : threefish_key) (t0 : Nat) (s : State) :
    ref_round_inv K.key t0 56 (ref_view 1 s) = ref_view 0 (dec_round_56 (load_key K) t0 s) := by
  rcases s with ⟨b0, b1, b2, b3, b4, b5, b6, b7, b8, b9, b10, b11, b12, b13, b14, b15⟩
  simp only [ref_round_inv, ref_view, store_block, Nat.iterate, dec_round_56, load_key,
    ref_permute_cons, ref_unpermute_cons, ref_sub_subkey_cons, ref_unmix_layer_cons, ref_tweak,
    t1, t2, ref_rot, R_1024, Nat.reduceMod, Nat.reduceDiv, Nat.reduceAdd, if_true,
    List.getD_cons_zero, List.getD_cons_succ, sub64_fuse, sub64_sub64_zero]

theorem dec_ref_round_55 (K : threefish_key) (t0 : Nat) (s : State) :
    ref_round_inv K.key t0 55 (ref_view 0 s) = ref_view 3 (dec_round_55 (load_key K) t0 s) := by
  rfl

theorem dec_ref_round_54 (K : threefish_key) (t0 : Nat) (s : State) :
    ref_round_inv K.key t0 54 (ref_view 3 s) = ref_view 2 (dec_round_54 (load_key K) t0 s) := by
  rfl

theorem dec_ref_round_53 (K : threefish_key) (t0 : Nat) (s : State) :
    ref_round_inv K.key t0 53 (ref_view 2 s) = ref_view 1 (dec_round_53 (load_key K) t0 s) := by
  rfl

theorem dec_ref_round_52 (K : threefish_key) (t0 : Nat) (s : State) :
    ref_round_inv K.key t0 52 (ref_view 1 s) = ref_view 0 (dec_round_52 (load_key K) t0 s) := by
  rcases s with ⟨b0, b1, b2, b3, b4, b5, b6, b7, b8, b9, b10, b11, b12, b13, b14, b15⟩
  simp only [ref_round_inv, ref_view, store_block, Nat.iterate, dec_round_52, load_key,
    ref_permute_cons, ref_unpermute_cons, ref_sub_subkey_cons, ref_unmix_layer_cons, ref_tweak,
    t1, t2, ref_rot, R_1024, Nat.reduceMod, Nat.reduceDiv, Nat.reduceAdd, if_true,
    List.getD_cons_zero, List.getD_cons_succ, sub64_fuse, sub64_sub64_zero]

theorem dec_ref_round_51 (K : threefish_key) (t0 : Nat) (s : State) :
    ref_round_inv K.key t0 51 (ref_view 0 s) = ref_view 3 (dec_round_51 (load_key K) t0 s) := by
  rfl

theorem dec_ref_round_50 (K : threefish_key) (t0 : Nat) (s : State) :
    ref_round_inv K.key t0 50 (ref_view 3 s) = ref_view 2 (dec_round_50 (load_key K) t0 s) := by
  rfl

theorem dec_ref_round_49 (K : threefish_key) (t0 : Nat) (s : State) :
    ref_round_inv K.key t0 49 (ref_view 2 s) = ref_view 1 (dec_round_49 (load_key K) t0 s) := by
  rfl

theorem dec_ref_round_48 (K : threefish_key) (t0 : Nat) (s : State) :
    ref_round_inv K.key t0 48 (ref_view 1 s) = ref_view 0 (dec_round_48 (load_key K) t0 s) := by
  rcases s with ⟨b0, b1, b2, b3, b4, b5, b6, b7, b8, b9, b10, b11, b12, b13, b14, b15⟩
  simp only [ref_round_inv, ref_view, store_block, Nat.iterate, dec_round_48, load_key,
    ref_permute_cons, ref_unpermute_cons, ref_sub_subkey_cons, ref_unmix_layer_cons, ref_tweak,
    t1, t2, ref_rot, R_1024, Nat.reduceMod, Nat.reduceDiv, Nat.reduceAdd, if_true,
    List.getD_cons_zero, List.getD_cons_succ, sub64_fuse, sub64_sub64_zero]

theorem dec_ref_round_47 (K : threefish_key) (t0 : Nat) (s : State) :
    ref_round_inv K.key t0 47 (ref_view 0 s) = ref_view 3 (dec_round_47 (load_key K) t0 s) := by
  rfl

theorem dec_ref_round_46 (K : threefish_key) (t0 : Nat) (s : State) :
    ref_round_inv K.key t0 46 (ref_view 3 s) = ref_view 2 (dec_round_46 (load_key K) t0 s) := by
  rfl

theorem dec_ref_round_45 (K : threefish_key) (t0 : Nat) (s : State) :
    ref_round_inv K.key t0 45 (ref_view 2 s) = ref_view 1 (dec_round_45 (load_key K) t0 s) := by
  rfl

theorem dec_ref_round_44 (K : threefish_key) (t0 : Nat) (s : State) :
    ref_round_inv K.key t0 44 (ref_view 1 s) = ref_view 0 (dec_round_44 (load_key K) t0 s) := by
  rcases s with ⟨b0, b1, b2, b3, b4, b5, b6, b7, b8, b9, b10, b11, b12, b13, b14, b15⟩
  simp only [ref_round_inv, ref_view, store_block, Nat.iterate, dec_round_44, load_key,
    ref_permute_cons, ref_unpermute_cons, ref_sub_subkey_cons, ref_unmix_layer_cons, ref_tweak,
    t1, t2, ref_rot, R_1024, Nat.reduceMod, Nat.reduceDiv, Nat.reduceAdd, if_true,
    List.getD_cons_zero, List.getD_cons_succ, sub64_fuse, sub64_sub64_zero]

theorem dec_ref_round_43 (K : threefish_key) (t0 : Nat) (s : State) :
    ref_round_inv K.key t0 43 (ref_view 0 s) = ref_view 3 (dec_round_43 (load_key K) t0 s) := by
  rfl

theorem dec_ref_round_42 (K : threefish_key) (t0 : Nat) (s : State) :
    ref_round_inv K.key t0 42 (ref_view 3 s) = ref_view 2 (dec_round_42 (load_key K) t0 s) := by
  rfl

theorem dec_ref_round_41 (K : threefish_key) (t0 : Nat) (s : State) :
    ref_round_inv K.key t0 41 (ref_view 2 s) = ref_view 1 (dec_round_41 (load_key K) t0 s) := by
  rfl

theorem dec_ref_round_40 (K : threefish_key) (t0 : Nat) (s : State) :
    ref_round_inv K.key t0 40 (ref_view 1 s) = ref_view 0 (dec_round_40 (load_key K) t0 s) := by
  rcases s with ⟨b0, b1, b2, b3, b4, b5, b6, b7, b8, b9, b10, b11, b12, b13, b14, b15⟩
  simp only [ref_round_inv, ref_view, store_block, Nat.iterate, dec_round_40, load_key,
    ref_permute_cons, ref_unpermute_cons, ref_sub_subkey_cons, ref_unmix_layer_cons, ref_tweak,
    t1, t2, ref_rot, R_1024, Nat.reduceMod, Nat.reduceDiv, Nat.reduceAdd, if_true,
    List.getD_cons_zero, List.getD_cons_succ, sub64_fuse, sub64_sub64_zero]

theorem dec_ref_round_39 (K : threefish_key) (t0 : Nat) (s : State) :
    ref_round_inv K.key t0 39 (ref_view 0 s) = ref_view 3 (dec_round_39 (load_key K) t0 s) := by
  rfl

theorem dec_ref_round_38 (K : threefish_key) (t0 : Nat) (s : State) :
    ref_round_inv K.key t0 38 (ref_view 3 s) = ref_view 2 (dec_round_38 (load_key K) t0 s) := by
  rfl

theorem dec_ref_round_37 (K : threefish_key) (t0 : Nat) (s : State) :
    ref_round_inv K.key t0 37 (ref_view 2 s) = ref_view 1 (dec_round_37 (load_key K) t0 s) := by
  rfl

theorem dec_ref_round_36 (K : threefish_key) (t0 : Nat) (s : State) :
    ref_round_inv K.key t0 36 (ref_view 1 s) = ref_view 0 (dec_round_36 (load_key K) t0 s) := by
  rcases s with ⟨b0, b1, b2, b3, b4, b5, b6, b7, b8, b9, b10, b11, b12, b13, b14, b15⟩
  simp only [ref_round_inv, ref_view, store_block, Nat.iterate, dec_round_36, load_key,
    ref_permute_cons, ref_unpermute_cons, ref_sub_subkey_cons, ref_unmix_layer_cons, ref_tweak,
    t1, t2, ref_rot, R_1024, Nat.reduceMod, Nat.reduceDiv, Nat.reduceAdd, if_true,
    List.getD_cons_zero, List.getD_cons_succ, sub64_fuse, sub64_sub64_zero]

theorem dec_ref_round_35 (K : threefish_key) (t0 : Nat) (s : State) :
    ref_round_inv K.key t0 35 (ref_view 0 s) = ref_view 3 (dec_round_35 (load_key K) t0 s) := by
  rfl

theorem dec_ref_round_34 (K : threefish_key) (t0 : Nat) (s : State) :
    ref_round_inv K.key t0 34 (ref_view 3 s) = ref_view 2 (dec_round_34 (load_key K) t0 s) := by
  rfl

theorem dec_ref_round_33 (K : threefish_key) (t0 : Nat) (s : State) :
    ref_round_inv K.key t0 33 (ref_view 2 s) = ref_view 1 (dec_round_33 (load_key K) t0 s) := by
  rfl

theorem dec_ref_round_32 (K : threefish_key) (t0 : Nat) (s : State) :
    ref_round_inv K.key t0 32 (ref_view 1 s) = ref_view 0 (dec_round_32 (load_key K) t0 s) := by
  rcases s with ⟨b0, b1, b2, b3, b4, b5, b6, b7, b8, b9, b10, b11, b12, b13, b14, b15⟩
  simp only [ref_round_inv, ref_view, store_block, Nat.iterate, dec_round_32, load_key,
    ref_permute_cons, ref_unpermute_cons, ref_sub_subkey_cons, ref_unmix_layer_cons, ref_tweak,
    t1, t2, ref_rot, R_1024, Nat.reduceMod, Nat.reduceDiv, Nat.reduceAdd, if_true,
    List.getD_cons_zero, List.getD_cons_succ, sub64_fuse, sub64_sub64_zero]

theorem dec_ref_round_31 (K : threefish_key) (t0 : Nat) (s : State) :
    ref_round_inv K.key t0 31 (ref_view 0 s) = ref_view 3 (dec_round_31 (load_key K) t0 s) := by
  rfl

theorem dec_ref_round_30 (K : threefish_key) (t0 : Nat) (s : State) :
    ref_round_inv K.key t0 30 (ref_view 3 s) = ref_view 2 (dec_round_30 (load_key K) t0 s) := by
  rfl

theorem dec_ref_round_29 (K : threefish_key) (t0 : Nat) (s : State) :
    ref_round_inv K.key t0 29 (ref_view 2 s) = ref_view 1 (dec_round_29 (load_key K) t0 s) := by
  rfl

theorem dec_ref_round_28 (K : threefish_key) (t0 : Nat) (s : State) :
    ref_round_inv K.key t0 28 (ref_view 1 s) = ref_view 0 (dec_round_28 (load_key K) t0 s) := by
  rcases s with ⟨b0, b1, b2, b3, b4, b5, b6, b7, b8, b9, b10, b11, b12, b13, b14, b15⟩
  simp only [ref_round_inv, ref_view, store_block, Nat.iterate, dec_round_28, load_key,
    ref_permute_cons, ref_unpermute_cons, ref_sub_subkey_cons, ref_unmix_layer_cons, ref_tweak,
    t1, t2, ref_rot, R_1024, Nat.reduceMod, Nat.reduceDiv, Nat.reduceAdd, if_true,
    List.getD_cons_zero, List.getD_cons_succ, sub64_fuse, sub64_sub64_zero]

theorem dec_ref_round_27 (K : threefish_key) (t0 : Nat) (s : State) :
    ref_round_inv K.key t0 27 (ref_view 0 s) = ref_view 3 (dec_round_27 (load_key K) t0 s) := by
  rfl

theorem dec_ref_round_26 (K : threefish_key) (t0 : Nat) (s : State) :
    ref_round_inv K.key t0 26 (ref_view 3 s) = ref_view 2 (dec_round_26 (load_key K) t0 s) := by
  rfl

theorem dec_ref_round_25 (K : threefish_key) (t0 : Nat) (s : State) :
    ref_round_inv K.key t0 25 (ref_view 2 s) = ref_view 1 (dec_round_25 (load_key K) t0 s) := by
  rfl

theorem dec_ref_round_24 (K : threefish_key) (t0 : Nat) (s : State) :
    ref_round_inv K.key t0 24 (ref_view 1 s) = ref_view 0 (dec_round_24 (load_key K) t0 s) := by
  rcases s with ⟨b0, b1, b2, b3, b4, b5, b6, b7, b8, b9, b10, b11, b12, b13, b14, b15⟩
  simp only [ref_round_inv, ref_view, store_block, Nat.iterate, dec_round_24, load_key,
    ref_permute_cons, ref_unpermute_cons, ref_sub_subkey_cons, ref_unmix_layer_cons, ref_tweak,
    t1, t2, ref_rot, R_1024, Nat.reduceMod, Nat.reduceDiv, Nat.reduceAdd, if_true,
    List.getD_cons_zero, List.getD_cons_succ, sub64_fuse, sub64_sub64_zero]

theorem dec_ref_round_23 (K : threefish_key) (t0 : Nat) (s : State) :
    ref_round_inv K.key t0 23 (ref_view 0 s) = ref_view 3 (dec_round_23 (load_key K) t0 s) := by
  rfl

theorem dec_ref_round_22 (K : threefish_key) (t0 : Nat) (s : State) :
    ref_round_inv K.key t0 22 (ref_view 3 s) = ref_view 2 (dec_round_22 (load_key K) t0 s) := by
  rfl

theorem dec_ref_round_21 (K : threefish_key) (t0 : Nat) (s : State) :
    ref_round_inv K.key t0 21 (ref_view 2 s) = ref_view 1 (dec_round_21 (load_key K) t0 s) := by
  rfl

theorem dec_ref_round_20 (K : threefish_key) (t0 : Nat) (s : State) :
    ref_round_inv K.key t0 20 (ref_view 1 s) = ref_view 0 (dec_round_20 (load_key K) t0 s) := by
  rcases s with ⟨b0, b1, b2, b3, b4, b5, b6, b7, b8, b9, b10, b11, b12, b13, b14, b15⟩
  simp only [ref_round_inv, ref_view, store_block, Nat.iterate, dec_round_20, load_key,
    ref_permute_cons, ref_unpermute_cons, ref_sub_subkey_cons, ref_unmix_layer_cons, ref_tweak,
    t1, t2, ref_rot, R_1024, Nat.reduceMod, Nat.reduceDiv, Nat.reduceAdd, if_true,
    List.getD_cons_zero, List.getD_cons_succ, sub64_fuse, sub64_sub64_zero]

theorem dec_ref_round_19 (K : threefish_key) (t0 : Nat) (s : State) :
    ref_round_inv K.key t0 19 (ref_view 0 s) = ref_view 3 (dec_round_19 (load_key K) t0 s) := by
  rfl

theorem dec_ref_round_18 (K : threefish_key) (t0 : Nat) (s : State) :
    ref_round_inv K.key t0 18 (ref_view 3 s) = ref_view 2 (dec_round_18 (load_key K) t0 s) := by
  rfl

theorem dec_ref_round_17 (K : threefish_key) (t0 : Nat) (s : State) :
    ref_round_inv K.key t0 17 (ref_view 2 s) = ref_view 1 (dec_round_17 (load_key K) t0 s) := by
  rfl

theorem dec_ref_round_16 (K : threefish_key) (t0 : Nat) (s : State) :
    ref_round_inv K.key t0 16 (ref_view 1 s) = ref_view 0 (dec_round_16 (load_key K) t0 s) := by
  rcases s with ⟨b0, b1, b2, b3, b4, b5, b6, b7, b8, b9, b10, b11, b12, b13, b14, b15⟩
  simp only [ref_round_inv, ref_view, store_block, Nat.iterate, dec_round_16, load_key,
    ref_permute_cons, ref_unpermute_cons, ref_sub_subkey_cons, ref_unmix_layer_cons, ref_tweak,
    t1, t2, ref_rot, R_1024, Nat.reduceMod, Nat.reduceDiv, Nat.reduceAdd, if_true,
    List.getD_cons_zero, List.getD_cons_succ, sub64_fuse, sub64_sub64_zero]

theorem dec_ref_round_15 (K : threefish_key) (t0 : Nat) (s : State) :
    ref_round_inv K.key t0 15 (ref_view 0 s) = ref_view 3 (dec_round_15 (load_key K) t0 s) := by
  rfl

theorem dec_ref_round_14 (K : threefish_key) (t0 : Nat) (s : State) :
    ref_round_inv K.key t0 14 (ref_view 3 s) = ref_view 2 (dec_round_14 (load_key K) t0 s) := by
  rfl

theorem dec_ref_round_13 (K : threefish_key) (t0 : Nat) (s : State) :
    ref_round_inv K.key t0 13 (ref_view 2 s) = ref_view 1 (dec_round_13 (load_key K) t0 s) := by
  rfl

theorem dec_ref_round_12 (K : threefish_key) (t0 : Nat) (s : State) :
    ref_round_inv K.key t0 12 (ref_view 1 s) = ref_view 0 (dec_round_12 (load_key K) t0 s) := by
  rcases s with ⟨b0, b1, b2, b3, b4, b5, b6, b7, b8, b9, b10, b11, b12, b13, b14, b15⟩
  simp only [ref_round_inv, ref_view, store_block, Nat.iterate, dec_round_12, load_key,
    ref_permute_cons, ref_unpermute_cons, ref_sub_subkey_cons, ref_unmix_layer_cons, ref_tweak,
    t1, t2, ref_rot, R_1024, Nat.reduceMod, Nat.reduceDiv, Nat.reduceAdd, if_true,
    List.getD_cons_zero, List.getD_cons_succ, sub64_fuse, sub64_sub64_zero]

theorem dec_ref_round_11 (K : threefish_key) (t0 : Nat) (s : State) :
    ref_round_inv K.key t0 11 (ref_view 0 s) = ref_view 3 (dec_round_11 (load_key K) t0 s) := by
  rfl

theorem dec_ref_round_10 (K : threefish_key) (t0 : Nat) (s : State) :
    ref_round_inv K.key t0 10 (ref_view 3 s) = ref_view 2 (dec_round_10 (load_key K) t0 s) := by
  rfl

theorem dec_ref_round_9 (K : threefish_key) (t0 : Nat) (s : State) :
    ref_round_inv K.key t0 9 (ref_view 2 s) = ref_view 1 (dec_round_9 (load_key K) t0 s) := by
  rfl

theorem dec_ref_round_8 (K : threefish_key) (t0 : Nat) (s : State) :
    ref_round_inv K.key t0 8 (ref_view 1 s) = ref_view 0 (dec_round_8 (load_key K) t0 s) := by
  rcases s with ⟨b0, b1, b2, b3, b4, b5, b6, b7, b8, b9, b10, b11, b12, b13, b14, b15⟩
  simp only [ref_round_inv, ref_view, store_block, Nat.iterate, dec_round_8, load_key,
    ref_permute_cons, ref_unpermute_cons, ref_sub_subkey_cons, ref_unmix_layer_cons, ref_tweak,
    t1, t2, ref_rot, R_1024, Nat.reduceMod, Nat.reduceDiv, Nat.reduceAdd, if_true,
    List.getD_cons_zero, List.getD_cons_succ, sub64_fuse, sub64_sub64_zero]

theorem dec_ref_round_7 (K : threefish_key) (t0 : Nat) (s : State) :
    ref_round_inv K.key t0 7 (ref_view 0 s) = ref_view 3 (dec_round_7 (load_key K) t0 s) := by
  rfl

theorem dec_ref_round_6 (K : threefish_key) (t0 : Nat) (s : State) :
    ref_round_inv K.key t0 6 (ref_view 3 s) = ref_view 2 (dec_round_6 (load_key K) t0 s) := by
  rfl

theorem dec_ref_round_5 (K : threefish_key) (t0 : Nat) (s : State) :
    ref_round_inv K.key t0 5 (ref_view 2 s) = ref_view 1 (dec_round_5 (load_key K) t0 s) := by
  rfl

theorem dec_ref_round_4 (K : threefish_key) (t0 : Nat) (s : State) :
    ref_round_inv K.key t0 4 (ref_view 1 s) = ref_view 0 (dec_round_4 (load_key K) t0 s) := by
  rcases s with ⟨b0, b1, b2, b3, b4, b5, b6, b7, b8, b9, b10, b11, b12, b13, b14, b15⟩
  simp only [ref_round_inv, ref_view, store_block, Nat.iterate, dec_round_4, load_key,
    ref_permute_cons, ref_unpermute_cons, ref_sub_subkey_cons, ref_unmix_layer_cons, ref_tweak,
    t1, t2, ref_rot, R_1024, Nat.reduceMod, Nat.reduceDiv, Nat.reduceAdd, if_true,
    List.getD_cons_zero, List.getD_cons_succ, sub64_fuse, sub64_sub64_zero]

theorem dec_ref_round_3 (K : threefish_key) (t0 : Nat) (s : State) :
    ref_round_inv K.key t0 3 (ref_view 0 s) = ref_view 3 (dec_round_3 (load_key K) t0 s) := by
  rfl

theorem dec_ref_round_2 (K : threefish_key) (t0 : Nat) (s : State) :
    ref_round_inv K.key t0 2 (ref_view 3 s) = ref_view 2 (dec_round_2 (load_key K) t0 s) := by
  rfl

theorem dec_ref_round_1 (K : threefish_key) (t0 : Nat) (s : State) :
    ref_round_inv K.key t0 1 (ref_view 2 s) = ref_view 1 (dec_round_1 (load_key K) t0 s) := by
  rfl

theorem dec_ref_round_0 (K : threefish_key) (t0 : Nat) (s : State) :
    ref_round_inv K.key t0 0 (ref_view 1 s) = ref_view 0 (dec_round_0 (load_key K) t0 s) := by
  rcases s with ⟨b0, b1, b2, b3, b4, b5, b6, b7, b8, b9, b10, b11, b12, b13, b14, b15⟩
  simp only [ref_round_inv, ref_view, store_block, Nat.iterate, dec_round_0, load_key,
    ref_permute_cons, ref_unpermute_cons, ref_sub_subkey_cons, ref_unmix_layer_cons, ref_tweak,
    t1, t2, ref_rot, R_1024, Nat.reduceMod, Nat.reduceDiv, Nat.reduceAdd, if_true,
    List.getD_cons_zero, List.getD_cons_succ, sub64_fuse, sub64_sub64_zero]

/-! ## The whole straight-line bodies -/

theorem dec_rounds_enc_rounds (k : Nat → Nat) (t0 : Nat) (s : State) (h : s.wf) :
    dec_rounds k t0 (enc_output k t0 (enc_rounds k t0 s)) = s := by
  simp only [dec_rounds, enc_rounds, dec_subkey_20_enc_output, h,
    enc_round_0_wf, enc_round_1_wf, enc_round_2_wf, enc_round_3_wf, enc_round_4_wf,
    enc_round_5_wf, enc_round_6_wf, enc_round_7_wf, enc_round_8_wf, enc_round_9_wf,
    enc_round_10_wf, enc_round_11_wf, enc_round_12_wf, enc_round_13_wf, enc_round_14_wf,
    enc_round_15_wf, enc_round_16_wf, enc_round_17_wf, enc_round_18_wf, enc_round_19_wf,
    enc_round_20_wf, enc_round_21_wf, enc_round_22_wf, enc_round_23_wf, enc_round_24_wf,
    enc_round_25_wf, enc_round_26_wf, enc_round_27_wf, enc_round_28_wf, enc_round_29_wf,
    enc_round_30_wf, enc_round_31_wf, enc_round_32_wf, enc_round_33_wf, enc_round_34_wf,
    enc_round_35_wf, enc_round_36_wf, enc_round_37_wf, enc_round_38_wf, enc_round_39_wf,
    enc_round_40_wf, enc_round_41_wf, enc_round_42_wf, enc_round_43_wf, enc_round_44_wf,
    enc_round_45_wf, enc_round_46_wf, enc_round_47_wf, enc_round_48_wf, enc_round_49_wf,
    enc_round_50_wf, enc_round_51_wf, enc_round_52_wf, enc_round_53_wf, enc_round_54_wf,
    enc_round_55_wf, enc_round_56_wf, enc_round_57_wf, enc_round_58_wf, enc_round_59_wf,
    enc_round_60_wf, enc_round_61_wf, enc_round_62_wf, enc_round_63_wf, enc_round_64_wf,
    enc_round_65_wf, enc_round_66_wf, enc_round_67_wf, enc_round_68_wf, enc_round_69_wf,
    enc_round_70_wf, enc_round_71_wf, enc_round_72_wf, enc_round_73_wf, enc_round_74_wf,
    enc_round_75_wf, enc_round_76_wf, enc_round_77_wf, enc_round_78_wf, enc_round_79_wf,
    dec_enc_round_0, dec_enc_round_1, dec_enc_round_2, dec_enc_round_3, dec_enc_round_4,
    dec_enc_round_5, dec_enc_round_6, dec_enc_round_7, dec_enc_round_8, dec_enc_round_9,
    dec_enc_round_10, dec_enc_round_11, dec_enc_round_12, dec_enc_round_13, dec_enc_round_14,
    dec_enc_round_15, dec_enc_round_16, dec_enc_round_17, dec_enc_round_18, dec_enc_round_19,
    dec_enc_round_20, dec_enc_round_21, dec_enc_round_22, dec_enc_round_23, dec_enc_round_24,
    dec_enc_round_25, dec_enc_round_26, dec_enc_round_27, dec_enc_round_28, dec_enc_round_29,
    dec_enc_round_30, dec_enc_round_31, dec_enc_round_32, dec_enc_round_33, dec_enc_round_34,
    dec_enc_round_35, dec_enc_round_36, dec_enc_round_37, dec_enc_round_38, dec_enc_round_39,
    dec_enc_round_40, dec_enc_round_41, dec_enc_round_42, dec_enc_round_43, dec_enc_round_44,
    dec_enc_round_45, dec_enc_round_46, dec_enc_round_47, dec_enc_round_48, dec_enc_round_49,
    dec_enc_round_50, dec_enc_round_51, dec_enc_round_52, dec_enc_round_53, dec_enc_round_54,
    dec_enc_round_55, dec_enc_round_56, dec_enc_round_57, dec_enc_round_58, dec_enc_round_59,
    dec_enc_round_60, dec_enc_round_61, dec_enc_round_62, dec_enc_round_63, dec_enc_round_64,
    dec_enc_round_65, dec_enc_round_66, dec_enc_round_67, dec_enc_round_68, dec_enc_round_69,
    dec_enc_round_70, dec_enc_round_71, dec_enc_round_72, dec_enc_round_73, dec_enc_round_74,
    dec_enc_round_75, dec_enc_round_76, dec_enc_round_77, dec_enc_round_78, dec_enc_round_79]

theorem enc_rounds_dec_rounds (k : Nat → Nat) (t0 : Nat) (s : State) (h : s.wf) :
    enc_output k t0 (enc_rounds k t0 (dec_rounds k t0 s)) = s := by
  simp only [dec_rounds, enc_rounds, enc_output_dec_subkey_20, dec_subkey_20_wf, h,
    dec_round_0_wf, dec_round_1_wf, dec_round_2_wf, dec_round_3_wf, dec_round_4_wf,
    dec_round_5_wf, dec_round_6_wf, dec_round_7_wf, dec_round_8_wf, dec_round_9_wf,
    dec_round_10_wf, dec_round_11_wf, dec_round_12_wf, dec_round_13_wf, dec_round_14_wf,
    dec_round_15_wf, dec_round_16_wf, dec_round_17_wf, dec_round_18_wf, dec_round_19_wf,
    dec_round_20_wf, dec_round_21_wf, dec_round_22_wf, dec_round_23_wf, dec_round_24_wf,
    dec_round_25_wf, dec_round_26_wf, dec_round_27_wf, dec_round_28_wf, dec_round_29_wf,
    dec_round_30_wf, dec_round_31_wf, dec_round_32_wf, dec_round_33_wf, dec_round_34_wf,
    dec_round_35_wf, dec_round_36_wf, dec_round_37_wf, dec_round_38_wf, dec_round_39_wf,
    dec_round_40_wf, dec_round_41_wf, dec_round_42_wf, dec_round_43_wf, dec_round_44_wf,
    dec_round_45_wf, dec_round_46_wf, dec_round_47_wf, dec_round_48_wf, dec_round_49_wf,
    dec_round_50_wf, dec_round_51_wf, dec_round_52_wf, dec_round_53_wf, dec_round_54_wf,
    dec_round_55_wf, dec_round_56_wf, dec_round_57_wf, dec_round_58_wf, dec_round_59_wf,
    dec_round_60_wf, dec_round_61_wf, dec_round_62_wf, dec_round_63_wf, dec_round_64_wf,
    dec_round_65_wf, dec_round_66_wf, dec_round_67_wf, dec_round_68_wf, dec_round_69_wf,
    dec_round_70_wf, dec_round_71_wf, dec_round_72_wf, dec_round_73_wf, dec_round_74_wf,
    dec_round_75_wf, dec_round_76_wf, dec_round_77_wf, dec_round_78_wf, dec_round_79_wf,
    enc_dec_round_0, enc_dec_round_1, enc_dec_round_2, enc_dec_round_3, enc_dec_round_4,
    enc_dec_round_5, enc_dec_round_6, enc_dec_round_7, enc_dec_round_8, enc_dec_round_9,
    enc_dec_round_10, enc_dec_round_11, enc_dec_round_12, enc_dec_round_13, enc_dec_round_14,
    enc_dec_round_15, enc_dec_round_16, enc_dec_round_17, enc_dec_round_18, enc_dec_round_19,
    enc_dec_round_20, enc_dec_round_21, enc_dec_round_22, enc_dec_round_23, enc_dec_round_24,
    enc_dec_round_25, enc_dec_round_26, enc_dec_round_27, enc_dec_round_28, enc_dec_round_29,
    enc_dec_round_30, enc_dec_round_31, enc_dec_round_32, enc_dec_round_33, enc_dec_round_34,
    enc_dec_round_35, enc_dec_round_36, enc_dec_round_37, enc_dec_round_38, enc_dec_round_39,
    enc_dec_round_40, enc_dec_round_41, enc_dec_round_42, enc_dec_round_43, enc_dec_round_44,
    enc_dec_round_45, enc_dec_round_46, enc_dec_round_47, enc_dec_round_48, enc_dec_round_49,
    enc_dec_round_50, enc_dec_round_51, enc_dec_round_52, enc_dec_round_53, enc_dec_round_54,
    enc_dec_round_55, enc_dec_round_56, enc_dec_round_57, enc_dec_round_58, enc_dec_round_59,
    enc_dec_round_60, enc_dec_round_61, enc_dec_round_62, enc_dec_round_63, enc_dec_round_64,
    enc_dec_round_65, enc_dec_round_66, enc_dec_round_67, enc_dec_round_68, enc_dec_round_69,
    enc_dec_round_70, enc_dec_round_71, enc_dec_round_72, enc_dec_round_73, enc_dec_round_74,
    enc_dec_round_75, enc_dec_round_76, enc_dec_round_77, enc_dec_round_78, enc_dec_round_79]

theorem range_80 : List.range 80 =
    [0, 1, 2, 3, 4, 5, 6, 7, 8, 9, 10, 11, 12, 13, 14, 15, 16, 17, 18, 19, 20, 21, 22, 23, 24, 25,
    26, 27, 28, 29, 30, 31, 32, 33, 34, 35, 36, 37, 38, 39, 40, 41, 42, 43, 44, 45, 46, 47, 48,
    49, 50, 51, 52, 53, 54, 55, 56, 57, 58, 59, 60, 61, 62, 63, 64, 65, 66, 67, 68, 69, 70, 71,
    72, 73, 74, 75, 76, 77, 78, 79] := by
  decide

theorem enc_rounds_ref (K : threefish_key) (t0 : Nat) (s : State) :
    (List.range 80).foldl (fun v d => ref_round K.key t0 d v) (ref_view 0 s) =
      ref_view 0 (enc_rounds (load_key K) t0 s) := by
  simp only [range_80, List.foldl_cons, List.foldl_nil, enc_rounds,
    enc_ref_round_0, enc_ref_round_1, enc_ref_round_2, enc_ref_round_3, enc_ref_round_4,
    enc_ref_round_5, enc_ref_round_6, enc_ref_round_7, enc_ref_round_8, enc_ref_round_9,
    enc_ref_round_10, enc_ref_round_11, enc_ref_round_12, enc_ref_round_13, enc_ref_round_14,
    enc_ref_round_15, enc_ref_round_16, enc_ref_round_17, enc_ref_round_18, enc_ref_round_19,
    enc_ref_round_20, enc_ref_round_21, enc_ref_round_22, enc_ref_round_23, enc_ref_round_24,
    enc_ref_round_25, enc_ref_round_26, enc_ref_round_27, enc_ref_round_28, enc_ref_round_29,
    enc_ref_round_30, enc_ref_round_31, enc_ref_round_32, enc_ref_round_33, enc_ref_round_34,
    enc_ref_round_35, enc_ref_round_36, enc_ref_round_37, enc_ref_round_38, enc_ref_round_39,
    enc_ref_round_40, enc_ref_round_41, enc_ref_round_42, enc_ref_round_43, enc_ref_round_44,
    enc_ref_round_45, enc_ref_round_46, enc_ref_round_47, enc_ref_round_48, enc_ref_round_49,
    enc_ref_round_50, enc_ref_round_51, enc_ref_round_52, enc_ref_round_53, enc_ref_round_54,
    enc_ref_round_55, enc_ref_round_56, enc_ref_round_57, enc_ref_round_58, enc_ref_round_59,
    enc_ref_round_60, enc_ref_round_61, enc_ref_round_62, enc_ref_round_63, enc_ref_round_64,
    enc_ref_round_65, enc_ref_round_66, enc_ref_round_67, enc_ref_round_68, enc_ref_round_69,
    enc_ref_round_70, enc_ref_round_71, enc_ref_round_72, enc_ref_round_73, enc_ref_round_74,
    enc_ref_round_75, enc_ref_round_76, enc_ref_round_77, enc_ref_round_78, enc_ref_round_79]

theorem dec_rounds_ref (K : threefish_key) (t0 : Nat) (s : State) :
    (List.range 80).foldl (fun v n => ref_round_inv K.key t0 (79 - n) v)
        (ref_sub_subkey K.key t0 20 (ref_view 0 s)) =
      ref_view 0 (dec_rounds (load_key K) t0 s) := by
  simp only [range_80, List.foldl_cons, List.foldl_nil, dec_rounds, Nat.reduceSub,
    dec_ref_subkey_20,
    dec_ref_round_0, dec_ref_round_1, dec_ref_round_2, dec_ref_round_3, dec_ref_round_4,
    dec_ref_round_5, dec_ref_round_6, dec_ref_round_7, dec_ref_round_8, dec_ref_round_9,
    dec_ref_round_10, dec_ref_round_11, dec_ref_round_12, dec_ref_round_13, dec_ref_round_14,
    dec_ref_round_15, dec_ref_round_16, dec_ref_round_17, dec_ref_round_18, dec_ref_round_19,
    dec_ref_round_20, dec_ref_round_21, dec_ref_round_22, dec_ref_round_23, dec_ref_round_24,
    dec_ref_round_25, dec_ref_round_26, dec_ref_round_27, dec_ref_round_28, dec_ref_round_29,
    dec_ref_round_30, dec_ref_round_31, dec_ref_round_32, dec_ref_round_33, dec_ref_round_34,
    dec_ref_round_35, dec_ref_round_36, dec_ref_round_37, dec_ref_round_38, dec_ref_round_39,
    dec_ref_round_40, dec_ref_round_41, dec_ref_round_42, dec_ref_round_43, dec_ref_round_44,
    dec_ref_round_45, dec_ref_round_46, dec_ref_round_47, dec_ref_round_48, dec_ref_round_49,
    dec_ref_round_50, dec_ref_round_51, dec_ref_round_52, dec_ref_round_53, dec_ref_round_54,
    dec_ref_round_55, dec_ref_round_56, dec_ref_round_57, dec_ref_round_58, dec_ref_round_59,
    dec_ref_round_60, dec_ref_round_61, dec_ref_round_62, dec_ref_round_63, dec_ref_round_64,
    dec_ref_round_65, dec_ref_round_66, dec_ref_round_67, dec_ref_round_68, dec_ref_round_69,
    dec_ref_round_70, dec_ref_round_71, dec_ref_round_72, dec_ref_round_73, dec_ref_round_74,
    dec_ref_round_75, dec_ref_round_76, dec_ref_round_77, dec_ref_round_78, dec_ref_round_79]

/-! ## Blocks and key contexts as lists -/

theorem length_succ_cases {l : List Nat} {n : Nat} (h : l.length = n + 1) :
    ∃ a t, l = a :: t ∧ t.length = n := by
  cases l with
  | nil => simp at h
  | cons a t => exact ⟨a, t, rfl, by simpa using h⟩

theorem length_16_cases {b : List Nat} (hb : b.length = 16) :
    ∃ a0 a1 a2 a3 a4 a5 a6 a7 a8 a9 a10 a11 a12 a13 a14 a15,
      b = [a0, a1, a2, a3, a4, a5, a6, a7, a8, a9, a10, a11, a12, a13, a14, a15] := by
  obtain ⟨a0, r0, e0, l0⟩ := length_succ_cases hb
  obtain ⟨a1, r1, e1, l1⟩ := length_succ_cases l0
  obtain ⟨a2, r2, e2, l2⟩ := length_succ_cases l1
  obtain ⟨a3, r3, e3, l3⟩ := length_succ_cases l2
  obtain ⟨a4, r4, e4, l4⟩ := length_succ_cases l3
  obtain ⟨a5, r5, e5, l5⟩ := length_succ_cases l4
  obtain ⟨a6, r6, e6, l6⟩ := length_succ_cases l5
  obtain ⟨a7, r7, e7, l7⟩ := length_succ_cases l6
  obtain ⟨a8, r8, e8, l8⟩ := length_succ_cases l7
  obtain ⟨a9, r9, e9, l9⟩ := length_succ_cases l8
  obtain ⟨a10, r10, e10, l10⟩ := length_succ_cases l9
  obtain ⟨a11, r11, e11, l11⟩ := length_succ_cases l10
  obtain ⟨a12, r12, e12, l12⟩ := length_succ_cases l11
  obtain ⟨a13, r13, e13, l13⟩ := length_succ_cases l12
  obtain ⟨a14, r14, e14, l14⟩ := length_succ_cases l13
  obtain ⟨a15, r15, e15, l15⟩ := length_succ_cases l14
  have e16 := List.length_eq_zero.mp l15
  subst e16 e15 e14 e13 e12 e11 e10 e9 e8 e7 e6 e5 e4 e3 e2 e1 e0
  exact ⟨a0, a1, a2, a3, a4, a5, a6, a7, a8, a9, a10, a11, a12, a13, a14, a15, rfl⟩

theorem length_17_cases {b : List Nat} (hb : b.length = 17) :
    ∃ a0 a1 a2 a3 a4 a5 a6 a7 a8 a9 a10 a11 a12 a13 a14 a15 a16,
      b = [a0, a1, a2, a3, a4, a5, a6, a7, a8, a9, a10, a11, a12, a13, a14, a15, a16] := by
  obtain ⟨a0, r0, e0, l0⟩ := length_succ_cases hb
  obtain ⟨a1, a2, a3, a4, a5, a6, a7, a8, a9, a10, a11, a12, a13, a14, a15, a16, e1⟩ :=
    length_16_cases l0
  subst e1 e0
  exact ⟨a0, a1, a2, a3, a4, a5, a6, a7, a8, a9, a10, a11, a12, a13, a14, a15, a16, rfl⟩

theorem store_load_block (b : List Nat) (hb : b.length = 16) : store_block (load_block b) = b := by
  obtain ⟨a0, a1, a2, a3, a4, a5, a6, a7, a8, a9, a10, a11, a12, a13, a14, a15, rfl⟩ :=
    length_16_cases hb
  rfl

theorem load_store_block (s : State) : load_block (store_block s) = s := by
  rcases s with ⟨b0, b1, b2, b3, b4, b5, b6, b7, b8, b9, b10, b11, b12, b13, b14, b15⟩
  rfl

theorem load_block_wf (b : List Nat) (hb : b.length = 16) (hw : ∀ w ∈ b, w < 2 ^ 64) :
    (load_block b).wf := by
  obtain ⟨a0, a1, a2, a3, a4, a5, a6, a7, a8, a9, a10, a11, a12, a13, a14, a15, rfl⟩ :=
    length_16_cases hb
  simp only [List.mem_cons, List.mem_singleton, forall_eq_or_imp, forall_eq] at hw
  simpa [State.wf, load_block] using hw

theorem map_little_in (s : State) : State.map (le64_to_cpu Host.little) s = s := by
  rcases s with ⟨b0, b1, b2, b3, b4, b5, b6, b7, b8, b9, b10, b11, b12, b13, b14, b15⟩
  rfl

theorem map_little_out (s : State) : State.map (cpu_to_le64 Host.little) s = s := by
  rcases s with ⟨b0, b1, b2, b3, b4, b5, b6, b7, b8, b9, b10, b11, b12, b13, b14, b15⟩
  rfl

theorem store_block_map (f : Nat → Nat) (s : State) :
    store_block (State.map f s) = (store_block s).map f := by
  rcases s with ⟨b0, b1, b2, b3, b4, b5, b6, b7, b8, b9, b10, b11, b12, b13, b14, b15⟩
  rfl

theorem store_map_load_block (f : Nat → Nat) (b : List Nat) (hb : b.length = 16) :
    store_block (State.map f (load_block b)) = b.map f := by
  rw [store_block_map, store_load_block b hb]

theorem map_little_in_list (b : List Nat) : b.map (le64_to_cpu Host.little) = b := by
  induction b with
  | nil => rfl
  | cons a t ih => simp only [List.map_cons, ih]; rfl

theorem map_little_out_list (b : List Nat) : b.map (cpu_to_le64 Host.little) = b := by
  induction b with
  | nil => rfl
  | cons a t ih => simp only [List.map_cons, ih]; rfl

/-! ## The key schedule in closed form -/

theorem threefishSetKey1024_loop_succ (h : Host) (kd : List Nat) (n i p : Nat) (key : List Nat)
    (hi : i ≠ 16) :
    threefishSetKey1024_loop h kd (n + 1) i p key =
      threefishSetKey1024_loop h kd n (i + 1) (p ^^^ le64_to_cpu h (kd.getD i 0))
        (key.set i (le64_to_cpu h (kd.getD i 0))) := by
  rw [threefishSetKey1024_loop]
  exact if_pos hi

theorem threefishSetKey1024_loop_exit (h : Host) (kd : List Nat) (n p : Nat) (key : List Nat) :
    threefishSetKey1024_loop h kd (n + 1) 16 p key = (16, p, key) := by
  rw [threefishSetKey1024_loop]
  exact if_neg (by decide)

theorem range_16 : List.range 16 = [0, 1, 2, 3, 4, 5, 6, 7, 8, 9, 10, 11, 12, 13, 14, 15] := by
  decide

theorem threefishSetKey1024_eq (h : Host) (keyCtx : threefish_key) (keyData : List Nat)
    (hc : keyCtx.key.length = 17) :
    threefishSetKey1024 h keyCtx keyData =
      ⟨((List.range 16).map fun i => le64_to_cpu h (keyData.getD i 0)) ++
        [((List.range 16).map fun i => le64_to_cpu h (keyData.getD i 0)).foldl
          (fun p w => p ^^^ w) KeyScheduleConst]⟩ := by
  rcases keyCtx with ⟨key⟩
  obtain ⟨c0, c1, c2, c3, c4, c5, c6, c7, c8, c9, c10, c11, c12, c13, c14, c15, c16, rfl⟩ :=
    length_17_cases hc
  have h16 : (1024 / 64 + 1 : Nat) = 16 + 1 := by decide
  simp (disch := decide) only [threefishSetKey1024, h16, range_16, threefishSetKey1024_loop_succ,
    threefishSetKey1024_loop_exit, Nat.reduceAdd, List.map_cons, List.map_nil, List.foldl_cons,
    List.foldl_nil, List.set_cons_zero, List.set_cons_succ, List.cons_append, List.nil_append]

theorem range_map_getD_16 (f : Nat → Nat) (l : List Nat) (hl : l.length = 16) :
    ((List.range 16).map fun i => f (l.getD i 0)) = l.map f := by
  obtain ⟨a0, a1, a2, a3, a4, a5, a6, a7, a8, a9, a10, a11, a12, a13, a14, a15, rfl⟩ :=
    length_16_cases hl
  rfl

theorem threefishSetKey1024_zero (h : Host) (keyCtx : threefish_key)
    (hc : keyCtx.key.length = 17) : threefishSetKey1024 h keyCtx zero_key = zero_key_ctx := by
  rw [threefishSetKey1024_eq h keyCtx zero_key hc]
  cases h <;> decide

/-! ## The two transforms as functions on the locals -/

theorem decrypt_encrypt_little (K : threefish_key) (t0 : Nat) (b : List Nat)
    (hb : b.length = 16) (hw : ∀ w ∈ b, w < 2 ^ 64) :
    threefish_decrypt_1024 K (threefish_encrypt_1024 Host.little K b t0) t0 = b := by
  simp only [threefish_decrypt_1024, threefish_encrypt_1024, map_little_in, map_little_out,
    load_store_block]
  rw [dec_rounds_enc_rounds _ _ _ (load_block_wf b hb hw), store_load_block b hb]

theorem encrypt_decrypt_little (K : threefish_key) (t0 : Nat) (b : List Nat)
    (hb : b.length = 16) (hw : ∀ w ∈ b, w < 2 ^ 64) :
    threefish_encrypt_1024 Host.little K (threefish_decrypt_1024 K b t0) t0 = b := by
  simp only [threefish_decrypt_1024, threefish_encrypt_1024, map_little_in, map_little_out,
    load_store_block]
  rw [enc_rounds_dec_rounds _ _ _ (load_block_wf b hb hw), store_load_block b hb]

theorem encrypt_eq_ref_rounds (h : Host) (K : threefish_key) (t0 : Nat) (b : List Nat)
    (hb : b.length = 16) :
    threefish_encrypt_1024 h K b t0 =
      (ref_encrypt_rounds 80 K.key t0 (b.map (le64_to_cpu h))).map (cpu_to_le64 h) := by
  have hv : b.map (le64_to_cpu h) = ref_view 0 (State.map (le64_to_cpu h) (load_block b)) :=
    (store_map_load_block _ b hb).symm
  simp only [threefish_encrypt_1024, ref_encrypt_rounds, Nat.reduceDiv, store_block_map]
  rw [hv, enc_rounds_ref, enc_ref_output]

theorem decrypt_eq_ref (K : threefish_key) (t0 : Nat) (b : List Nat) (hb : b.length = 16) :
    threefish_decrypt_1024 K b t0 = ref_decrypt K.key t0 b := by
  have hv : b = ref_view 0 (load_block b) := (store_load_block b hb).symm
  simp only [threefish_decrypt_1024, ref_decrypt]
  conv => rhs; rw [hv]
  rw [dec_rounds_ref]
  rfl

/-! ## The byte reversal -/

theorem swab64_eq (x : Nat) : swab64 x =
    (((((((x % 256) * 256 + x / 256 % 256) * 256 + x / 256 / 256 % 256) * 256 +
      x / 256 / 256 / 256 % 256) * 256 + x / 256 / 256 / 256 / 256 % 256) * 256 +
      x / 256 / 256 / 256 / 256 / 256 % 256) * 256 +
      x / 256 / 256 / 256 / 256 / 256 / 256 % 256) * 256 +
      x / 256 / 256 / 256 / 256 / 256 / 256 / 256 % 256 := by
  simp only [Nat.div_div_eq_div_mul]
  simp [swab64, List.range, List.range.loop]

theorem swab64_lt (x : Nat) : swab64 x < 2 ^ 64 := by
  rw [swab64_eq]
  omega

theorem mul_add_div_256 (q r : Nat) (hr : r < 256) : (q * 256 + r) / 256 = q := by omega

theorem mul_add_mod_256 (q r : Nat) (hr : r < 256) : (q * 256 + r) % 256 = r := by omega

theorem swab64_bytes (b0 b1 b2 b3 b4 b5 b6 b7 : Nat) (h0 : b0 < 256) (h1 : b1 < 256)
    (h2 : b2 < 256) (h3 : b3 < 256) (h4 : b4 < 256) (h5 : b5 < 256) (h6 : b6 < 256)
    (h7 : b7 < 256) :
    swab64 ((((((((b0 * 256 + b1) * 256 + b2) * 256 + b3) * 256 + b4) * 256 + b5) * 256 + b6) *
      256) + b7) =
      (((((((b7 * 256 + b6) * 256 + b5) * 256 + b4) * 256 + b3) * 256 + b2) * 256 + b1) * 256) +
        b0 := by
  rw [swab64_eq]
  simp only [mul_add_div_256, mul_add_mod_256, h0, h1, h2, h3, h4, h5, h6, h7,
    Nat.mod_eq_of_lt h0]

theorem swab64_swab64 (x : Nat) (hx : x < 2 ^ 64) : swab64 (swab64 x) = x := by
  rw [swab64_eq x, swab64_bytes _ _ _ _ _ _ _ _ (Nat.mod_lt _ (by decide))
    (Nat.mod_lt _ (by decide)) (Nat.mod_lt _ (by decide)) (Nat.mod_lt _ (by decide))
    (Nat.mod_lt _ (by decide)) (Nat.mod_lt _ (by decide)) (Nat.mod_lt _ (by decide))
    (Nat.mod_lt _ (by decide))]
  omega

/-! ## The word conversions -/

theorem cpu_to_le64_eq (h : Host) (x : Nat) : cpu_to_le64 h x = le64_to_cpu h x := by
  cases h <;> rfl

theorem le64_to_cpu_lt (h : Host) (x : Nat) (hx : x < 2 ^ 64) : le64_to_cpu h x < 2 ^ 64 := by
  cases h
  · exact hx
  · exact swab64_lt x

theorem le64_to_cpu_le64_to_cpu (h : Host) (x : Nat) (hx : x < 2 ^ 64) :
    le64_to_cpu h (le64_to_cpu h x) = x := by
  cases h
  · rfl
  · exact swab64_swab64 x hx

theorem map_le64_to_cpu_block (h : Host) (b : List Nat) (hb : is_block b) :
    is_block (b.map (le64_to_cpu h)) := by
  refine ⟨by simpa using hb.1, ?_⟩
  intro w hw
  obtain ⟨x, hx, rfl⟩ := List.mem_map.mp hw
  exact le64_to_cpu_lt h x (hb.2 x hx)

theorem map_le64_to_cpu_twice (h : Host) (b : List Nat) (hb : ∀ w ∈ b, w < 2 ^ 64) :
    (b.map (le64_to_cpu h)).map (le64_to_cpu h) = b := by
  induction b with
  | nil => rfl
  | cons a t ih =>
    simp only [List.map_cons]
    rw [le64_to_cpu_le64_to_cpu h a (hb a (List.mem_cons_self a t)),
      ih (fun w hw => hb w (List.mem_cons_of_mem a hw))]

theorem map_cpu_to_le64 (h : Host) (b : List Nat) :
    b.map (cpu_to_le64 h) = b.map (le64_to_cpu h) := by
  induction b with
  | nil => rfl
  | cons a t ih => simp only [List.map_cons, ih, cpu_to_le64_eq]

/-! ## Shape of the results -/

theorem store_block_length (s : State) : (store_block s).length = 16 := by
  rcases s with ⟨b0, b1, b2, b3, b4, b5, b6, b7, b8, b9, b10, b11, b12, b13, b14, b15⟩
  rfl

theorem store_block_lt (s : State) (h : s.wf) : ∀ w ∈ store_block s, w < 2 ^ 64 := by
  rcases s with ⟨b0, b1, b2, b3, b4, b5, b6, b7, b8, b9, b10, b11, b12, b13, b14, b15⟩
  rcases h with ⟨h0, h1, h2, h3, h4, h5, h6, h7, h8, h9, h10, h11, h12, h13, h14, h15⟩
  intro w hw
  simp only [store_block, List.mem_cons, List.mem_singleton, List.not_mem_nil, or_false] at hw
  rcases hw with rfl | rfl | rfl | rfl | rfl | rfl | rfl | rfl | rfl | rfl | rfl | rfl | rfl |
    rfl | rfl | rfl <;> assumption

theorem dec_rounds_wf (k : Nat → Nat) (t0 : Nat) (s : State) : (dec_rounds k t0 s).wf := by
  simp only [dec_rounds]
  exact dec_round_0_wf _ _ _

theorem decrypt_is_block (K : threefish_key) (t0 : Nat) (b : List Nat) :
    is_block (threefish_decrypt_1024 K b t0) := by
  simp only [threefish_decrypt_1024]
  exact ⟨store_block_length _, store_block_lt _ (dec_rounds_wf _ _ _)⟩

theorem encrypt_is_block (h : Host) (K : threefish_key) (t0 : Nat) (b : List Nat) :
    is_block (threefish_encrypt_1024 h K b t0) := by
  simp only [threefish_encrypt_1024]
  refine ⟨store_block_length _, ?_⟩
  simp only [store_block_map]
  intro w hw
  obtain ⟨x, hx, rfl⟩ := List.mem_map.mp hw
  rw [cpu_to_le64_eq]
  exact le64_to_cpu_lt h x (store_block_lt _ (enc_output_wf _ _ _) x hx)

/-! ## The transforms on either host -/

theorem encrypt_host (h : Host) (K : threefish_key) (t0 : Nat) (b : List Nat)
    (hb : b.length = 16) :
    threefish_encrypt_1024 h K b t0 =
      (threefish_encrypt_1024 Host.little K (b.map (le64_to_cpu h)) t0).map (cpu_to_le64 h) := by
  have hl : (b.map (le64_to_cpu h)).length = 16 := by simpa using hb
  have e : State.map (le64_to_cpu h) (load_block b) = load_block (b.map (le64_to_cpu h)) := by
    rw [← load_store_block (State.map (le64_to_cpu h) (load_block b)), store_map_load_block _ b hb]
  simp only [threefish_encrypt_1024, map_little_in, map_little_out, store_block_map, e]

theorem decrypt_encrypt_host (h : Host) (K : threefish_key) (t0 : Nat) (b : List Nat)
    (hb : is_block b) :
    (threefish_decrypt_1024 K ((threefish_encrypt_1024 h K b t0).map (le64_to_cpu h)) t0).map
      (le64_to_cpu h) = b := by
  have hm := map_le64_to_cpu_block h b hb
  rw [encrypt_host h K t0 b hb.1, map_cpu_to_le64,
    map_le64_to_cpu_twice h _ (encrypt_is_block Host.little K t0 _).2,
    decrypt_encrypt_little K t0 _ hm.1 hm.2, map_le64_to_cpu_twice h b hb.2]

theorem encrypt_decrypt_host (h : Host) (K : threefish_key) (t0 : Nat) (c : List Nat)
    (hc : is_block c) :
    threefish_encrypt_1024 h K
      ((threefish_decrypt_1024 K (c.map (le64_to_cpu h)) t0).map (le64_to_cpu h)) t0 = c := by
  have hm := map_le64_to_cpu_block h c hc
  have hd := decrypt_is_block K t0 (c.map (le64_to_cpu h))
  have hdm := map_le64_to_cpu_block h _ hd
  rw [encrypt_host h K t0 _ hdm.1, map_le64_to_cpu_twice h _ hd.2,
    encrypt_decrypt_little K t0 _ hm.1 hm.2, map_cpu_to_le64, map_le64_to_cpu_twice h c hc.2]

/-! ## The words the transforms read -/

theorem ref_subkey_congr (K K' : List Nat) (hK : ∀ i, i < 17 → K.getD i 0 = K'.getD i 0)
    (t0 s i : Nat) : ref_subkey K t0 s i = ref_subkey K' t0 s i := by
  unfold ref_subkey
  rw [hK _ (Nat.mod_lt _ (by decide))]

theorem ref_add_subkey_congr (K K' : List Nat) (hK : ∀ i, i < 17 → K.getD i 0 = K'.getD i 0)
    (t0 s : Nat) (v : List Nat) : ref_add_subkey K t0 s v = ref_add_subkey K' t0 s v := by
  unfold ref_add_subkey
  simp only [ref_subkey_congr K K' hK]

theorem ref_sub_subkey_congr (K K' : List Nat) (hK : ∀ i, i < 17 → K.getD i 0 = K'.getD i 0)
    (t0 s : Nat) (v : List Nat) : ref_sub_subkey K t0 s v = ref_sub_subkey K' t0 s v := by
  unfold ref_sub_subkey
  simp only [ref_subkey_congr K K' hK]

theorem ref_encrypt_rounds_congr (n : Nat) (K K' : List Nat)
    (hK : ∀ i, i < 17 → K.getD i 0 = K'.getD i 0) (t0 : Nat) (b : List Nat) :
    ref_encrypt_rounds n K t0 b = ref_encrypt_rounds n K' t0 b := by
  unfold ref_encrypt_rounds ref_round
  simp only [ref_add_subkey_congr K K' hK]

theorem ref_decrypt_congr (K K' : List Nat) (hK : ∀ i, i < 17 → K.getD i 0 = K'.getD i 0)
    (t0 : Nat) (b : List Nat) : ref_decrypt K t0 b = ref_decrypt K' t0 b := by
  unfold ref_decrypt ref_round_inv
  simp only [ref_sub_subkey_congr K K' hK]

theorem load_block_congr (b b' : List Nat) (hb : ∀ i, i < 16 → b.getD i 0 = b'.getD i 0) :
    load_block b = load_block b' := by
  simp only [load_block, hb 0 (by decide), hb 1 (by decide), hb 2 (by decide), hb 3 (by decide),
    hb 4 (by decide), hb 5 (by decide), hb 6 (by decide), hb 7 (by decide), hb 8 (by decide),
    hb 9 (by decide), hb 10 (by decide), hb 11 (by decide), hb 12 (by decide),
    hb 13 (by decide), hb 14 (by decide), hb 15 (by decide)]

theorem encrypt_first16 (h : Host) (K : threefish_key) (t0 : Nat) (b : List Nat) :
    threefish_encrypt_1024 h K b t0 =
      threefish_encrypt_1024 h K (store_block (load_block b)) t0 := by
  simp only [threefish_encrypt_1024, load_store_block]

theorem decrypt_first16 (K : threefish_key) (t0 : Nat) (b : List Nat) :
    threefish_decrypt_1024 K b t0 = threefish_decrypt_1024 K (store_block (load_block b)) t0 := by
  simp only [threefish_decrypt_1024, load_store_block]

theorem encrypt_congr (h : Host) (K K' : threefish_key) (t0 : Nat) (b b' : List Nat)
    (hK : ∀ i, i < 17 → K.key.getD i 0 = K'.key.getD i 0)
    (hb : ∀ i, i < 16 → b.getD i 0 = b'.getD i 0) :
    threefish_encrypt_1024 h K b t0 = threefish_encrypt_1024 h K' b' t0 := by
  rw [encrypt_first16 h K t0 b, encrypt_first16 h K' t0 b', load_block_congr b b' hb,
    encrypt_eq_ref_rounds h K t0 _ (store_block_length _),
    encrypt_eq_ref_rounds h K' t0 _ (store_block_length _),
    ref_encrypt_rounds_congr 80 K.key K'.key hK]

theorem decrypt_congr (K K' : threefish_key) (t0 : Nat) (b b' : List Nat)
    (hK : ∀ i, i < 17 → K.key.getD i 0 = K'.key.getD i 0)
    (hb : ∀ i, i < 16 → b.getD i 0 = b'.getD i 0) :
    threefish_decrypt_1024 K b t0 = threefish_decrypt_1024 K' b' t0 := by
  rw [decrypt_first16 K t0 b, decrypt_first16 K' t0 b', load_block_congr b b' hb,
    decrypt_eq_ref K t0 _ (store_block_length _), decrypt_eq_ref K' t0 _ (store_block_length _),
    ref_decrypt_congr K.key K'.key hK]

theorem getD_append_of_lt (l extra : List Nat) (i : Nat) (hi : i < l.length) :
    (l ++ extra).getD i 0 = l.getD i 0 :=
  List.getD_append l extra 0 i hi

theorem getD_eq_get_of_lt (l : List Nat) (i : Nat) (hi : i < l.length) :
    l.get? i = some (l.getD i 0) := by
  simp [List.getD_eq_getElem?_getD, List.getElem?_eq_getElem hi]

/-! ## States as indexed words -/

theorem State.get_set (s : State) (i x j : Nat) (hi : i < 16) :
    (s.set i x).get j = if j = i then x else s.get j := by
  have hl : ((store_block s).set i x).length = 16 := by
    rw [List.length_set]; exact store_block_length s
  unfold State.get State.set
  rw [store_load_block _ hl]
  simp only [List.getD_eq_getElem?_getD, List.getElem?_set]
  by_cases hji : j = i
  · subst hji
    simp [store_block_length, hi]
  · have hij : ¬ i = j := fun e => hji e.symm
    simp [hji, hij]

theorem State.ext_get (s s' : State) (h : ∀ i, i < 16 → s.get i = s'.get i) : s = s' := by
  have e : store_block s = store_block s' := by
    apply List.ext_getElem
    · rw [store_block_length, store_block_length]
    · intro n h1 h2
      have hn : n < 16 := by rw [store_block_length] at h1; exact h1
      have := h n hn
      simpa [State.get, List.getD_eq_getElem?_getD, List.getElem?_eq_getElem h1,
        List.getElem?_eq_getElem h2] using this
  rw [← load_store_block s, ← load_store_block s', e]

/-- The indices of a list of word pairs. -/
theorem pair_indices_cons (p : Nat × Nat) (l : List (Nat × Nat)) :
    ((p :: l).flatMap fun q => [q.1, q.2]) = p.1 :: p.2 :: (l.flatMap fun q => [q.1, q.2]) := by
  simp [List.flatMap_cons]

theorem fold_mix_on_aux (F : State → State) (s : State) :
    ∀ (l : List (Nat × Nat)) (cur : State),
      (l.flatMap fun q => [q.1, q.2]).Nodup →
      (∀ i ∈ (l.flatMap fun q => [q.1, q.2]), i < 16) →
      (∀ p ∈ l, ∀ u u' : State, u.get p.1 = u'.get p.1 → u.get p.2 = u'.get p.2 →
        (F u).get p.1 = (F u').get p.1 ∧ (F u).get p.2 = (F u').get p.2) →
      (∀ i ∈ (l.flatMap fun q => [q.1, q.2]), cur.get i = s.get i) →
      (∀ i ∈ (l.flatMap fun q => [q.1, q.2]),
        (l.foldl (fun st p => mix_on F p st) cur).get i = (F s).get i) ∧
      (∀ i, i ∉ (l.flatMap fun q => [q.1, q.2]) →
        (l.foldl (fun st p => mix_on F p st) cur).get i = cur.get i) := by
  intro l
  induction l with
  | nil =>
    intro cur _ _ _ _
    exact ⟨fun i hi => by simp at hi, fun i _ => rfl⟩
  | cons p l ih =>
    intro cur hnd hlt hloc hcur
    rw [pair_indices_cons] at hnd hlt hcur
    have h1 : p.1 < 16 := hlt _ (List.mem_cons_self _ _)
    have h2 : p.2 < 16 := hlt _ (List.mem_cons_of_mem _ (List.mem_cons_self _ _))
    have hnd2 := (List.nodup_cons.mp hnd).2
    have hp1 : p.1 ∉ p.2 :: (l.flatMap fun q => [q.1, q.2]) := (List.nodup_cons.mp hnd).1
    have hp2 : p.2 ∉ (l.flatMap fun q => [q.1, q.2]) := (List.nodup_cons.mp hnd2).1
    have hne : p.1 ≠ p.2 := fun e => hp1 (e ▸ List.mem_cons_self _ _)
    have hp1l : p.1 ∉ (l.flatMap fun q => [q.1, q.2]) :=
      fun hm => hp1 (List.mem_cons_of_mem _ hm)
    have hF := hloc p (List.mem_cons_self _ _) cur s (hcur _ (List.mem_cons_self _ _))
      (hcur _ (List.mem_cons_of_mem _ (List.mem_cons_self _ _)))
    have hget : ∀ i, (mix_on F p cur).get i =
        if i = p.2 then (F s).get p.2 else if i = p.1 then (F s).get p.1 else cur.get i := by
      intro i
      unfold mix_on
      rw [State.get_set _ _ _ _ h2, State.get_set _ _ _ _ h1, hF.1, hF.2]
    have hcur' : ∀ i ∈ (l.flatMap fun q => [q.1, q.2]), (mix_on F p cur).get i = s.get i := by
      intro i hi
      have n1 : i ≠ p.1 := fun e => hp1l (e ▸ hi)
      have n2 : i ≠ p.2 := fun e => hp2 (e ▸ hi)
      rw [hget, if_neg n2, if_neg n1]
      exact hcur i (List.mem_cons_of_mem _ (List.mem_cons_of_mem _ hi))
    have hrec := ih (mix_on F p cur) (List.nodup_cons.mp hnd2).2
      (fun i hi => hlt i (List.mem_cons_of_mem _ (List.mem_cons_of_mem _ hi)))
      (fun q hq => hloc q (List.mem_cons_of_mem _ hq)) hcur'
    rw [pair_indices_cons]
    simp only [List.foldl_cons]
    constructor
    · intro i hi
      by_cases hil : i ∈ (l.flatMap fun q => [q.1, q.2])
      · exact hrec.1 i hil
      · rw [hrec.2 i hil, hget]
        rcases List.mem_cons.mp hi with e | hi'
        · subst e
          rw [if_neg hne, if_pos rfl]
        · rcases List.mem_cons.mp hi' with e | hi''
          · subst e
            rw [if_pos rfl]
          · exact absurd hi'' hil
    · intro i hi
      have n1 : i ≠ p.1 := fun e => hi (e ▸ List.mem_cons_self _ _)
      have n2 : i ≠ p.2 := fun e => hi (e ▸ List.mem_cons_of_mem _ (List.mem_cons_self _ _))
      have hil : i ∉ (l.flatMap fun q => [q.1, q.2]) :=
        fun hm => hi (List.mem_cons_of_mem _ (List.mem_cons_of_mem _ hm))
      rw [hrec.2 i hil, hget, if_neg n2, if_neg n1]

theorem fold_mix_on (F : State → State) (P l : List (Nat × Nat))
    (hP : List.Perm (P.flatMap fun q => [q.1, q.2]) (List.range 16))
    (hloc : ∀ p ∈ P, ∀ u u' : State, u.get p.1 = u'.get p.1 → u.get p.2 = u'.get p.2 →
      (F u).get p.1 = (F u').get p.1 ∧ (F u).get p.2 = (F u').get p.2)
    (hl : List.Perm l P) (s : State) :
    l.foldl (fun st p => mix_on F p st) s = F s := by
  have hidx : List.Perm (l.flatMap fun q => [q.1, q.2]) (List.range 16) :=
    (List.Perm.flatMap_right _ hl).trans hP
  have hnd : (l.flatMap fun q => [q.1, q.2]).Nodup := hidx.nodup_iff.mpr (List.nodup_range 16)
  have hlt : ∀ i ∈ (l.flatMap fun q => [q.1, q.2]), i < 16 :=
    fun i hi => List.mem_range.mp (hidx.mem_iff.mp hi)
  have haux := fold_mix_on_aux F s l s hnd hlt (fun p hp => hloc p (hl.mem_iff.mp hp))
    (fun _ _ => rfl)
  apply State.ext_get
  intro i hi
  exact haux.1 i (hidx.mem_iff.mpr (List.mem_range.mpr hi))

/-! ## Each MIX step of a round reads and writes its own word pair only -/

theorem enc_round_0_local (k : Nat → Nat) (t0 : Nat) :
    ∀ p ∈ enc_mix_pairs 0, ∀ u u' : State, u.get p.1 = u'.get p.1 → u.get p.2 = u'.get p.2 →
      (enc_round_0 k t0 u).get p.1 = (enc_round_0 k t0 u').get p.1 ∧
      (enc_round_0 k t0 u).get p.2 = (enc_round_0 k t0 u').get p.2 := by
  intro p hp u u'
  rcases u with ⟨b0, b1, b2, b3, b4, b5, b6, b7, b8, b9, b10, b11, b12, b13, b14, b15⟩
  rcases u' with ⟨c0, c1, c2, c3, c4, c5, c6, c7, c8, c9, c10, c11, c12, c13, c14, c15⟩
  simp only [enc_mix_pairs, Nat.reduceMod, List.getD_cons_zero, List.getD_cons_succ,
    List.mem_cons, List.mem_singleton, List.not_mem_nil, or_false] at hp
  rcases hp with rfl | rfl | rfl | rfl | rfl | rfl | rfl | rfl <;>
    (simp only [State.get, store_block, enc_round_0, List.getD_cons_zero, List.getD_cons_succ]
     intro h1 h2
     subst h1 h2
     exact ⟨rfl, rfl⟩)

theorem enc_round_1_local (k : Nat → Nat) (t0 : Nat) :
    ∀ p ∈ enc_mix_pairs 1, ∀ u u' : State, u.get p.1 = u'.get p.1 → u.get p.2 = u'.get p.2 →
      (enc_round_1 k t0 u).get p.1 = (enc_round_1 k t0 u').get p.1 ∧
      (enc_round_1 k t0 u).get p.2 = (enc_round_1 k t0 u').get p.2 := by
  intro p hp u u'
  rcases u with ⟨b0, b1, b2, b3, b4, b5, b6, b7, b8, b9, b10, b11, b12, b13, b14, b15⟩
  rcases u' with ⟨c0, c1, c2, c3, c4, c5, c6, c7, c8, c9, c10, c11, c12, c13, c14, c15⟩
  simp only [enc_mix_pairs, Nat.reduceMod, List.getD_cons_zero, List.getD_cons_succ,
    List.mem_cons, List.mem_singleton, List.not_mem_nil, or_false] at hp
  rcases hp with rfl | rfl | rfl | rfl | rfl | rfl | rfl | rfl <;>
    (simp only [State.get, store_block, enc_round_1, List.getD_cons_zero, List.getD_cons_succ]
     intro h1 h2
     subst h1 h2
     exact ⟨rfl, rfl⟩)

theorem enc_round_2_local (k : Nat → Nat) (t0 : Nat) :
    ∀ p ∈ enc_mix_pairs 2, ∀ u u' : State, u.get p.1 = u'.get p.1 → u.get p.2 = u'.get p.2 →
      (enc_round_2 k t0 u).get p.1 = (enc_round_2 k t0 u').get p.1 ∧
      (enc_round_2 k t0 u).get p.2 = (enc_round_2 k t0 u').get p.2 := by
  intro p hp u u'
  rcases u with ⟨b0, b1, b2, b3, b4, b5, b6, b7, b8, b9, b10, b11, b12, b13, b14, b15⟩
  rcases u' with ⟨c0, c1, c2, c3, c4, c5, c6, c7, c8, c9, c10, c11, c12, c13, c14, c15⟩
  simp only [enc_mix_pairs, Nat.reduceMod, List.getD_cons_zero, List.getD_cons_succ,
    List.mem_cons, List.mem_singleton, List.not_mem_nil, or_false] at hp
  rcases hp with rfl | rfl | rfl | rfl | rfl | rfl | rfl | rfl <;>
    (simp only [State.get, store_block, enc_round_2, List.getD_cons_zero, List.getD_cons_succ]
     intro h1 h2
     subst h1 h2
     exact ⟨rfl, rfl⟩)

theorem enc_round_3_local (k : Nat → Nat) (t0 : Nat) :
    ∀ p ∈ enc_mix_pairs 3, ∀ u u' : State, u.get p.1 = u'.get p.1 → u.get p.2 = u'.get p.2 →
      (enc_round_3 k t0 u).get p.1 = (enc_round_3 k t0 u').get p.1 ∧
      (enc_round_3 k t0 u).get p.2 = (enc_round_3 k t0 u').get p.2 := by
  intro p hp u u'
  rcases u with ⟨b0, b1, b2, b3, b4, b5, b6, b7, b8, b9, b10, b11, b12, b13, b14, b15⟩
  rcases u' with ⟨c0, c1, c2, c3, c4, c5, c6, c7, c8, c9, c10, c11, c12, c13, c14, c15⟩
  simp only [enc_mix_pairs, Nat.reduceMod, List.getD_cons_zero, List.getD_cons_succ,
    List.mem_cons, List.mem_singleton, List.not_mem_nil, or_false] at hp
  rcases hp with rfl | rfl | rfl | rfl | rfl | rfl | rfl | rfl <;>
    (simp only [State.get, store_block, enc_round_3, List.getD_cons_zero, List.getD_cons_succ]
     intro h1 h2
     subst h1 h2
     exact ⟨rfl, rfl⟩)

theorem enc_round_4_local (k : Nat → Nat) (t0 : Nat) :
    ∀ p ∈ enc_mix_pairs 4, ∀ u u' : State, u.get p.1 = u'.get p.1 → u.get p.2 = u'.get p.2 →
      (enc_round_4 k t0 u).get p.1 = (enc_round_4 k t0 u').get p.1 ∧
      (enc_round_4 k t0 u).get p.2 = (enc_round_4 k t0 u').get p.2 := by
  intro p hp u u'
  rcases u with ⟨b0, b1, b2, b3, b4, b5, b6, b7, b8, b9, b10, b11, b12, b13, b14, b15⟩
  rcases u' with ⟨c0, c1, c2, c3, c4, c5, c6, c7, c8, c9, c10, c11, c12, c13, c14, c15⟩
  simp only [enc_mix_pairs, Nat.reduceMod, List.getD_cons_zero, List.getD_cons_succ,
    List.mem_cons, List.mem_singleton, List.not_mem_nil, or_false] at hp
  rcases hp with rfl | rfl | rfl | rfl | rfl | rfl | rfl | rfl <;>
    (simp only [State.get, store_block, enc_round_4, List.getD_cons_zero, List.getD_cons_succ]
     intro h1 h2
     subst h1 h2
     exact ⟨rfl, rfl⟩)

theorem enc_round_5_local (k : Nat → Nat) (t0 : Nat) :
    ∀ p ∈ enc_mix_pairs 5, ∀ u u' : State, u.get p.1 = u'.get p.1 → u.get p.2 = u'.get p.2 →
      (enc_round_5 k t0 u).get p.1 = (enc_round_5 k t0 u').get p.1 ∧
      (enc_round_5 k t0 u).get p.2 = (enc_round_5 k t0 u').get p.2 := by
  intro p hp u u'
  rcases u with ⟨b0, b1, b2, b3, b4, b5, b6, b7, b8, b9, b10, b11, b12, b13, b14, b15⟩
  rcases u' with ⟨c0, c1, c2, c3, c4, c5, c6, c7, c8, c9, c10, c11, c12, c13, c14, c15⟩
  simp only [enc_mix_pairs, Nat.reduceMod, List.getD_cons_zero, List.getD_cons_succ,
    List.mem_cons, List.mem_singleton, List.not_mem_nil, or_false] at hp
  rcases hp with rfl | rfl | rfl | rfl | rfl | rfl | rfl | rfl <;>
    (simp only [State.get, store_block, enc_round_5, List.getD_cons_zero, List.getD_cons_succ]
     intro h1 h2
     subst h1 h2
     exact ⟨rfl, rfl⟩)

theorem enc_round_6_local (k : Nat → Nat) (t0 : Nat) :
    ∀ p ∈ enc_mix_pairs 6, ∀ u u' : State, u.get p.1 = u'.get p.1 → u.get p.2 = u'.get p.2 →
      (enc_round_6 k t0 u).get p.1 = (enc_round_6 k t0 u').get p.1 ∧
      (enc_round_6 k t0 u).get p.2 = (enc_round_6 k t0 u').get p.2 := by
  intro p hp u u'
  rcases u with ⟨b0, b1, b2, b3, b4, b5, b6, b7, b8, b9, b10, b11, b12, b13, b14, b15⟩
  rcases u' with ⟨c0, c1, c2, c3, c4, c5, c6, c7, c8, c9, c10, c11, c12, c13, c14, c15⟩
  simp only [enc_mix_pairs, Nat.reduceMod, List.getD_cons_zero, List.getD_cons_succ,
    List.mem_cons, List.mem_singleton, List.not_mem_nil, or_false] at hp
  rcases hp with rfl | rfl | rfl | rfl | rfl | rfl | rfl | rfl <;>
    (simp only [State.get, store_block, enc_round_6, List.getD_cons_zero, List.getD_cons_succ]
     intro h1 h2
     subst h1 h2
     exact ⟨rfl, rfl⟩)

theorem enc_round_7_local (k : Nat → Nat) (t0 : Nat) :
    ∀ p ∈ enc_mix_pairs 7, ∀ u u' : State, u.get p.1 = u'.get p.1 → u.get p.2 = u'.get p.2 →
      (enc_round_7 k t0 u).get p.1 = (enc_round_7 k t0 u').get p.1 ∧
      (enc_round_7 k t0 u).get p.2 = (enc_round_7 k t0 u').get p.2 := by
  intro p hp u u'
  rcases u with ⟨b0, b1, b2, b3, b4, b5, b6, b7, b8, b9, b10, b11, b12, b13, b14, b15⟩
  rcases u' with ⟨c0, c1, c2, c3, c4, c5, c6, c7, c8, c9, c10, c11, c12, c13, c14, c15⟩
  simp only [enc_mix_pairs, Nat.reduceMod, List.getD_cons_zero, List.getD_cons_succ,
    List.mem_cons, List.mem_singleton, List.not_mem_nil, or_false] at hp
  rcases hp with rfl | rfl | rfl | rfl | rfl | rfl | rfl | rfl <;>
    (simp only [State.get, store_block, enc_round_7, List.getD_cons_zero, List.getD_cons_succ]
     intro h1 h2
     subst h1 h2
     exact ⟨rfl, rfl⟩)

theorem enc_round_8_local (k : Nat → Nat) (t0 : Nat) :
    ∀ p ∈ enc_mix_pairs 8, ∀ u u' : State, u.get p.1 = u'.get p.1 → u.get p.2 = u'.get p.2 →
      (enc_round_8 k t0 u).get p.1 = (enc_round_8 k t0 u').get p.1 ∧
      (enc_round_8 k t0 u).get p.2 = (enc_round_8 k t0 u').get p.2 := by
  intro p hp u u'
  rcases u with ⟨b0, b1, b2, b3, b4, b5, b6, b7, b8, b9, b10, b11, b12, b13, b14, b15⟩
  rcases u' with ⟨c0, c1, c2, c3, c4, c5, c6, c7, c8, c9, c10, c11, c12, c13, c14, c15⟩
  simp only [enc_mix_pairs, Nat.reduceMod, List.getD_cons_zero, List.getD_cons_succ,
    List.mem_cons, List.mem_singleton, List.not_mem_nil, or_false] at hp
  rcases hp with rfl | rfl | rfl | rfl | rfl | rfl | rfl | rfl <;>
    (simp only [State.get, store_block, enc_round_8, List.getD_cons_zero, List.getD_cons_succ]
     intro h1 h2
     subst h1 h2
     exact ⟨rfl, rfl⟩)

theorem enc_round_9_local (k : Nat → Nat) (t0 : Nat) :
    ∀ p ∈ enc_mix_pairs 9, ∀ u u' : State, u.get p.1 = u'.get p.1 → u.get p.2 = u'.get p.2 →
      (enc_round_9 k t0 u).get p.1 = (enc_round_9 k t0 u').get p.1 ∧
      (enc_round_9 k t0 u).get p.2 = (enc_round_9 k t0 u').get p.2 := by
  intro p hp u u'
  rcases u with ⟨b0, b1, b2, b3, b4, b5, b6, b7, b8, b9, b10, b11, b12, b13, b14, b15⟩
  rcases u' with ⟨c0, c1, c2, c3, c4, c5, c6, c7, c8, c9, c10, c11, c12, c13, c14, c15⟩
  simp only [enc_mix_pairs, Nat.reduceMod, List.getD_cons_zero, List.getD_cons_succ,
    List.mem_cons, List.mem_singleton, List.not_mem_nil, or_false] at hp
  rcases hp with rfl | rfl | rfl | rfl | rfl | rfl | rfl | rfl <;>
    (simp only [State.get, store_block, enc_round_9, List.getD_cons_zero, List.getD_cons_succ]
     intro h1 h2
     subst h1 h2
     exact ⟨rfl, rfl⟩)

theorem enc_round_10_local (k : Nat → Nat) (t0 : Nat) :
    ∀ p ∈ enc_mix_pairs 10, ∀ u u' : State, u.get p.1 = u'.get p.1 → u.get p.2 = u'.get p.2 →
      (enc_round_10 k t0 u).get p.1 = (enc_round_10 k t0 u').get p.1 ∧
      (enc_round_10 k t0 u).get p.2 = (enc_round_10 k t0 u').get p.2 := by
  intro p hp u u'
  rcases u with ⟨b0, b1, b2, b3, b4, b5, b6, b7, b8, b9, b10, b11, b12, b13, b14, b15⟩
  rcases u' with ⟨c0, c1, c2, c3, c4, c5, c6, c7, c8, c9, c10, c11, c12, c13, c14, c15⟩
  simp only [enc_mix_pairs, Nat.reduceMod, List.getD_cons_zero, List.getD_cons_succ,
    List.mem_cons, List.mem_singleton, List.not_mem_nil, or_false] at hp
  rcases hp with rfl | rfl | rfl | rfl | rfl | rfl | rfl | rfl <;>
    (simp only [State.get, store_block, enc_round_10, List.getD_cons_zero, List.getD_cons_succ]
     intro h1 h2
     subst h1 h2
     exact ⟨rfl, rfl⟩)

theorem enc_round_11_local (k : Nat → Nat) (t0 : Nat) :
    ∀ p ∈ enc_mix_pairs 11, ∀ u u' : State, u.get p.1 = u'.get p.1 → u.get p.2 = u'.get p.2 →
      (enc_round_11 k t0 u).get p.1 = (enc_round_11 k t0 u').get p.1 ∧
      (enc_round_11 k t0 u).get p.2 = (enc_round_11 k t0 u').get p.2 := by
  intro p hp u u'
  rcases u with ⟨b0, b1, b2, b3, b4, b5, b6, b7, b8, b9, b10, b11, b12, b13, b14, b15⟩
  rcases u' with ⟨c0, c1, c2, c3, c4, c5, c6, c7, c8, c9, c10, c11, c12, c13, c14, c15⟩
  simp only [enc_mix_pairs, Nat.reduceMod, List.getD_cons_zero, List.getD_cons_succ,
    List.mem_cons, List.mem_singleton, List.not_mem_nil, or_false] at hp
  rcases hp with rfl | rfl | rfl | rfl | rfl | rfl | rfl | rfl <;>
    (simp only [State.get, store_block, enc_round_11, List.getD_cons_zero, List.getD_cons_succ]
     intro h1 h2
     subst h1 h2
     exact ⟨rfl, rfl⟩)

theorem enc_round_12_local (k : Nat → Nat) (t0 : Nat) :
    ∀ p ∈ enc_mix_pairs 12, ∀ u u' : State, u.get p.1 = u'.get p.1 → u.get p.2 = u'.get p.2 →
      (enc_round_12 k t0 u).get p.1 = (enc_round_12 k t0 u').get p.1 ∧
      (enc_round_12 k t0 u).get p.2 = (enc_round_12 k t0 u').get p.2 := by
  intro p hp u u'
  rcases u with ⟨b0, b1, b2, b3, b4, b5, b6, b7, b8, b9, b10, b11, b12, b13, b14, b15⟩
  rcases u' with ⟨c0, c1, c2, c3, c4, c5, c6, c7, c8, c9, c10, c11, c12, c13, c14, c15⟩
  simp only [enc_mix_pairs, Nat.reduceMod, List.getD_cons_zero, List.getD_cons_succ,
    List.mem_cons, List.mem_singleton, List.not_mem_nil, or_false] at hp
  rcases hp with rfl | rfl | rfl | rfl | rfl | rfl | rfl | rfl <;>
    (simp only [State.get, store_block, enc_round_12, List.getD_cons_zero, List.getD_cons_succ]
     intro h1 h2
     subst h1 h2
     exact ⟨rfl, rfl⟩)

theorem enc_round_13_local (k : Nat → Nat) (t0 : Nat) :
    ∀ p ∈ enc_mix_pairs 13, ∀ u u' : State, u.get p.1 = u'.get p.1 → u.get p.2 = u'.get p.2 →
      (enc_round_13 k t0 u).get p.1 = (enc_round_13 k t0 u').get p.1 ∧
      (enc_round_13 k t0 u).get p.2 = (enc_round_13 k t0 u').get p.2 := by
  intro p hp u u'
  rcases u with ⟨b0, b1, b2, b3, b4, b5, b6, b7, b8, b9, b10, b11, b12, b13, b14, b15⟩
  rcases u' with ⟨c0, c1, c2, c3, c4, c5, c6, c7, c8, c9, c10, c11, c12, c13, c14, c15⟩
  simp only [enc_mix_pairs, Nat.reduceMod, List.getD_cons_zero, List.getD_cons_succ,
    List.mem_cons, List.mem_singleton, List.not_mem_nil, or_false] at hp
  rcases hp with rfl | rfl | rfl | rfl | rfl | rfl | rfl | rfl <;>
    (simp only [State.get, store_block, enc_round_13, List.getD_cons_zero, List.getD_cons_succ]
     intro h1 h2
     subst h1 h2
     exact ⟨rfl, rfl⟩)

theorem enc_round_14_local (k : Nat → Nat) (t0 : Nat) :
    ∀ p ∈ enc_mix_pairs 14, ∀ u u' : State, u.get p.1 = u'.get p.1 → u.get p.2 = u'.get p.2 →
      (enc_round_14 k t0 u).get p.1 = (enc_round_14 k t0 u').get p.1 ∧
      (enc_round_14 k t0 u).get p.2 = (enc_round_14 k t0 u').get p.2 := by
  intro p hp u u'
  rcases u with ⟨b0, b1, b2, b3, b4, b5, b6, b7, b8, b9, b10, b11, b12, b13, b14, b15⟩
  rcases u' with ⟨c0, c1, c2, c3, c4, c5, c6, c7, c8, c9, c10, c11, c12, c13, c14, c15⟩
  simp only [enc_mix_pairs, Nat.reduceMod, List.getD_cons_zero, List.getD_cons_succ,
    List.mem_cons, List.mem_singleton, List.not_mem_nil, or_false] at hp
  rcases hp with rfl | rfl | rfl | rfl | rfl | rfl | rfl | rfl <;>
    (simp only [State.get, store_block, enc_round_14, List.getD_cons_zero, List.getD_cons_succ]
     intro h1 h2
     subst h1 h2
     exact ⟨rfl, rfl⟩)

theorem enc_round_15_local (k : Nat → Nat) (t0 : Nat) :
    ∀ p ∈ enc_mix_pairs 15, ∀ u u' : State, u.get p.1 = u'.get p.1 → u.get p.2 = u'.get p.2 →
      (enc_round_15 k t0 u).get p.1 = (enc_round_15 k t0 u').get p.1 ∧
      (enc_round_15 k t0 u).get p.2 = (enc_round_15 k t0 u').get p.2 := by
  intro p hp u u'
  rcases u with ⟨b0, b1, b2, b3, b4, b5, b6, b7, b8, b9, b10, b11, b12, b13, b14, b15⟩
  rcases u' with ⟨c0, c1, c2, c3, c4, c5, c6, c7, c8, c9, c10, c11, c12, c13, c14, c15⟩
  simp only [enc_mix_pairs, Nat.reduceMod, List.getD_cons_zero, List.getD_cons_succ,
    List.mem_cons, List.mem_singleton, List.not_mem_nil, or_false] at hp
  rcases hp with rfl | rfl | rfl | rfl | rfl | rfl | rfl | rfl <;>
    (simp only [State.get, store_block, enc_round_15, List.getD_cons_zero, List.getD_cons_succ]
     intro h1 h2
     subst h1 h2
     exact ⟨rfl, rfl⟩)

theorem enc_round_16_local (k : Nat → Nat) (t0 : Nat) :
    ∀ p ∈ enc_mix_pairs 16, ∀ u u' : State, u.get p.1 = u'.get p.1 → u.get p.2 = u'.get p.2 →
      (enc_round_16 k t0 u).get p.1 = (enc_round_16 k t0 u').get p.1 ∧
      (enc_round_16 k t0 u).get p.2 = (enc_round_16 k t0 u').get p.2 := by
  intro p hp u u'
  rcases u with ⟨b0, b1, b2, b3, b4, b5, b6, b7, b8, b9, b10, b11, b12, b13, b14, b15⟩
  rcases u' with ⟨c0, c1, c2, c3, c4, c5, c6, c7, c8, c9, c10, c11, c12, c13, c14, c15⟩
  simp only [enc_mix_pairs, Nat.reduceMod, List.getD_cons_zero, List.getD_cons_succ,
    List.mem_cons, List.mem_singleton, List.not_mem_nil, or_false] at hp
  rcases hp with rfl | rfl | rfl | rfl | rfl | rfl | rfl | rfl <;>
    (simp only [State.get, store_block, enc_round_16, List.getD_cons_zero, List.getD_cons_succ]
     intro h1 h2
     subst h1 h2
     exact ⟨rfl, rfl⟩)

theorem enc_round_17_local (k : Nat → Nat) (t0 : Nat) :
    ∀ p ∈ enc_mix_pairs 17, ∀ u u' : State, u.get p.1 = u'.get p.1 → u.get p.2 = u'.get p.2 →
      (enc_round_17 k t0 u).get p.1 = (enc_round_17 k t0 u').get p.1 ∧
      (enc_round_17 k t0 u).get p.2 = (enc_round_17 k t0 u').get p.2 := by
  intro p hp u u'
  rcases u with ⟨b0, b1, b2, b3, b4, b5, b6, b7, b8, b9, b10, b11, b12, b13, b14, b15⟩
  rcases u' with ⟨c0, c1, c2, c3, c4, c5, c6, c7, c8, c9, c10, c11, c12, c13, c14, c15⟩
  simp only [enc_mix_pairs, Nat.reduceMod, List.getD_cons_zero, List.getD_cons_succ,
    List.mem_cons, List.mem_singleton, List.not_mem_nil, or_false] at hp
  rcases hp with rfl | rfl | rfl | rfl | rfl | rfl | rfl | rfl <;>
    (simp only [State.get, store_block, enc_round_17, List.getD_cons_zero, List.getD_cons_succ]
     intro h1 h2
     subst h1 h2
     exact ⟨rfl, rfl⟩)

theorem enc_round_18_local (k : Nat → Nat) (t0 : Nat) :
    ∀ p ∈ enc_mix_pairs 18, ∀ u u' : State, u.get p.1 = u'.get p.1 → u.get p.2 = u'.get p.2 →
      (enc_round_18 k t0 u).get p.1 = (enc_round_18 k t0 u').get p.1 ∧
      (enc_round_18 k t0 u).get p.2 = (enc_round_18 k t0 u').get p.2 := by
  intro p hp u u'
  rcases u with ⟨b0, b1, b2, b3, b4, b5, b6, b7, b8, b9, b10, b11, b12, b13, b14, b15⟩
  rcases u' with ⟨c0, c1, c2, c3, c4, c5, c6, c7, c8, c9, c10, c11, c12, c13, c14, c15⟩
  simp only [enc_mix_pairs, Nat.reduceMod, List.getD_cons_zero, List.getD_cons_succ,
    List.mem_cons, List.mem_singleton, List.not_mem_nil, or_false] at hp
  rcases hp with rfl | rfl | rfl | rfl | rfl | rfl | rfl | rfl <;>
    (simp only [State.get, store_block, enc_round_18, List.getD_cons_zero, List.getD_cons_succ]
     intro h1 h2
     subst h1 h2
     exact ⟨rfl, rfl⟩)

theorem enc_round_19_local (k : Nat → Nat) (t0 : Nat) :
    ∀ p ∈ enc_mix_pairs 19, ∀ u u' : State, u.get p.1 = u'.get p.1 → u.get p.2 = u'.get p.2 →
      (enc_round_19 k t0 u).get p.1 = (enc_round_19 k t0 u').get p.1 ∧
      (enc_round_19 k t0 u).get p.2 = (enc_round_19 k t0 u').get p.2 := by
  intro p hp u u'
  rcases u with ⟨b0, b1, b2, b3, b4, b5, b6, b7, b8, b9, b10, b11, b12, b13, b14, b15⟩
  rcases u' with ⟨c0, c1, c2, c3, c4, c5, c6, c7, c8, c9, c10, c11, c12, c13, c14, c15⟩
  simp only [enc_mix_pairs, Nat.reduceMod, List.getD_cons_zero, List.getD_cons_succ,
    List.mem_cons, List.mem_singleton, List.not_mem_nil, or_false] at hp
  rcases hp with rfl | rfl | rfl | rfl | rfl | rfl | rfl | rfl <;>
    (simp only [State.get, store_block, enc_round_19, List.getD_cons_zero, List.getD_cons_succ]
     intro h1 h2
     subst h1 h2
     exact ⟨rfl, rfl⟩)

theorem enc_round_20_local (k : Nat → Nat) (t0 : Nat) :
    ∀ p ∈ enc_mix_pairs 20, ∀ u u' : State, u.get p.1 = u'.get p.1 → u.get p.2 = u'.get p.2 →
      (enc_round_20 k t0 u).get p.1 = (enc_round_20 k t0 u').get p.1 ∧
      (enc_round_20 k t0 u).get p.2 = (enc_round_20 k t0 u').get p.2 := by
  intro p hp u u'
  rcases u with ⟨b0, b1, b2, b3, b4, b5, b6, b7, b8, b9, b10, b11, b12, b13, b14, b15⟩
  rcases u' with ⟨c0, c1, c2, c3, c4, c5, c6, c7, c8, c9, c10, c11, c12, c13, c14, c15⟩
  simp only [enc_mix_pairs, Nat.reduceMod, List.getD_cons_zero, List.getD_cons_succ,
    List.mem_cons, List.mem_singleton, List.not_mem_nil, or_false] at hp
  rcases hp with rfl | rfl | rfl | rfl | rfl | rfl | rfl | rfl <;>
    (simp only [State.get, store_block, enc_round_20, List.getD_cons_zero, List.getD_cons_succ]
     intro h1 h2
     subst h1 h2
     exact ⟨rfl, rfl⟩)

theorem enc_round_21_local (k : Nat → Nat) (t0 : Nat) :
    ∀ p ∈ enc_mix_pairs 21, ∀ u u' : State, u.get p.1 = u'.get p.1 → u.get p.2 = u'.get p.2 →
      (enc_round_21 k t0 u).get p.1 = (enc_round_21 k t0 u').get p.1 ∧
      (enc_round_21 k t0 u).get p.2 = (enc_round_21 k t0 u').get p.2 := by
  intro p hp u u'
  rcases u with ⟨b0, b1, b2, b3, b4, b5, b6, b7, b8, b9, b10, b11, b12, b13, b14, b15⟩
  rcases u' with ⟨c0, c1, c2, c3, c4, c5, c6, c7, c8, c9, c10, c11, c12, c13, c14, c15⟩
  simp only [enc_mix_pairs, Nat.reduceMod, List.getD_cons_zero, List.getD_cons_succ,
    List.mem_cons, List.mem_singleton, List.not_mem_nil, or_false] at hp
  rcases hp with rfl | rfl | rfl | rfl | rfl | rfl | rfl | rfl <;>
    (simp only [State.get, store_block, enc_round_21, List.getD_cons_zero, List.getD_cons_succ]
     intro h1 h2
     subst h1 h2
     exact ⟨rfl, rfl⟩)

theorem enc_round_22_local (k : Nat → Nat) (t0 : Nat) :
    ∀ p ∈ enc_mix_pairs 22, ∀ u u' : State, u.get p.1 = u'.get p.1 → u.get p.2 = u'.get p.2 →
      (enc_round_22 k t0 u).get p.1 = (enc_round_22 k t0 u').get p.1 ∧
      (enc_round_22 k t0 u).get p.2 = (enc_round_22 k t0 u').get p.2 := by
  intro p hp u u'
  rcases u with ⟨b0, b1, b2, b3, b4, b5, b6, b7, b8, b9, b10, b11, b12, b13, b14, b15⟩
  rcases u' with ⟨c0, c1, c2, c3, c4, c5, c6, c7, c8, c9, c10, c11, c12, c13, c14, c15⟩
  simp only [enc_mix_pairs, Nat.reduceMod, List.getD_cons_zero, List.getD_cons_succ,
    List.mem_cons, List.mem_singleton, List.not_mem_nil, or_false] at hp
  rcases hp with rfl | rfl | rfl | rfl | rfl | rfl | rfl | rfl <;>
    (simp only [State.get, store_block, enc_round_22, List.getD_cons_zero, List.getD_cons_succ]
     intro h1 h2
     subst h1 h2
     exact ⟨rfl, rfl⟩)

theorem enc_round_23_local (k : Nat → Nat) (t0 : Nat) :
    ∀ p ∈ enc_mix_pairs 23, ∀ u u' : State, u.get p.1 = u'.get p.1 → u.get p.2 = u'.get p.2 →
      (enc_round_23 k t0 u).get p.1 = (enc_round_23 k t0 u').get p.1 ∧
      (enc_round_23 k t0 u).get p.2 = (enc_round_23 k t0 u').get p.2 := by
  intro p hp u u'
  rcases u with ⟨b0, b1, b2, b3, b4, b5, b6, b7, b8, b9, b10, b11, b12, b13, b14, b15⟩
  rcases u' with ⟨c0, c1, c2, c3, c4, c5, c6, c7, c8, c9, c10, c11, c12, c13, c14, c15⟩
  simp only [enc_mix_pairs, Nat.reduceMod, List.getD_cons_zero, List.getD_cons_succ,
    List.mem_cons, List.mem_singleton, List.not_mem_nil, or_false] at hp
  rcases hp with rfl | rfl | rfl | rfl | rfl | rfl | rfl | rfl <;>
    (simp only [State.get, store_block, enc_round_23, List.getD_cons_zero, List.getD_cons_succ]
     intro h1 h2
     subst h1 h2
     exact ⟨rfl, rfl⟩)

theorem enc_round_24_local (k : Nat → Nat) (t0 : Nat) :
    ∀ p ∈ enc_mix_pairs 24, ∀ u u' : State, u.get p.1 = u'.get p.1 → u.get p.2 = u'.get p.2 →
      (enc_round_24 k t0 u).get p.1 = (enc_round_24 k t0 u').get p.1 ∧
      (enc_round_24 k t0 u).get p.2 = (enc_round_24 k t0 u').get p.2 := by
  intro p hp u u'
  rcases u with ⟨b0, b1, b2, b3, b4, b5, b6, b7, b8, b9, b10, b11, b12, b13, b14, b15⟩
  rcases u' with ⟨c0, c1, c2, c3, c4, c5, c6, c7, c8, c9, c10, c11, c12, c13, c14, c15⟩
  simp only [enc_mix_pairs, Nat.reduceMod, List.getD_cons_zero, List.getD_cons_succ,
    List.mem_cons, List.mem_singleton, List.not_mem_nil, or_false] at hp
  rcases hp with rfl | rfl | rfl | rfl | rfl | rfl | rfl | rfl <;>
    (simp only [State.get, store_block, enc_round_24, List.getD_cons_zero, List.getD_cons_succ]
     intro h1 h2
     subst h1 h2
     exact ⟨rfl, rfl⟩)

theorem enc_round_25_local (k : Nat → Nat) (t0 : Nat) :
    ∀ p ∈ enc_mix_pairs 25, ∀ u u' : State, u.get p.1 = u'.get p.1 → u.get p.2 = u'.get p.2 →
      (enc_round_25 k t0 u).get p.1 = (enc_round_25 k t0 u').get p.1 ∧
      (enc_round_25 k t0 u).get p.2 = (enc_round_25 k t0 u').get p.2 := by
  intro p hp u u'
  rcases u with ⟨b0, b1, b2, b3, b4, b5, b6, b7, b8, b9, b10, b11, b12, b13, b14, b15⟩
  rcases u' with ⟨c0, c1, c2, c3, c4, c5, c6, c7, c8, c9, c10, c11, c12, c13, c14, c15⟩
  simp only [enc_mix_pairs, Nat.reduceMod, List.getD_cons_zero, List.getD_cons_succ,
    List.mem_cons, List.mem_singleton, List.not_mem_nil, or_false] at hp
  rcases hp with rfl | rfl | rfl | rfl | rfl | rfl | rfl | rfl <;>
    (simp only [State.get, store_block, enc_round_25, List.getD_cons_zero, List.getD_cons_succ]
     intro h1 h2
     subst h1 h2
     exact ⟨rfl, rfl⟩)

theorem enc_round_26_local (k : Nat → Nat) (t0 : Nat) :
    ∀ p ∈ enc_mix_pairs 26, ∀ u u' : State, u.get p.1 = u'.get p.1 → u.get p.2 = u'.get p.2 →
      (enc_round_26 k t0 u).get p.1 = (enc_round_26 k t0 u').get p.1 ∧
      (enc_round_26 k t0 u).get p.2 = (enc_round_26 k t0 u').get p.2 := by
  intro p hp u u'
  rcases u with ⟨b0, b1, b2, b3, b4, b5, b6, b7, b8, b9, b10, b11, b12, b13, b14, b15⟩
  rcases u' with ⟨c0, c1, c2, c3, c4, c5, c6, c7, c8, c9, c10, c11, c12, c13, c14, c15⟩
  simp only [enc_mix_pairs, Nat.reduceMod, List.getD_cons_zero, List.getD_cons_succ,
    List.mem_cons, List.mem_singleton, List.not_mem_nil, or_false] at hp
  rcases hp with rfl | rfl | rfl | rfl | rfl | rfl | rfl | rfl <;>
    (simp only [State.get, store_block, enc_round_26, List.getD_cons_zero, List.getD_cons_succ]
     intro h1 h2
     subst h1 h2
     exact ⟨rfl, rfl⟩)

theorem enc_round_27_local (k : Nat → Nat) (t0 : Nat) :
    ∀ p ∈ enc_mix_pairs 27, ∀ u u' : State, u.get p.1 = u'.get p.1 → u.get p.2 = u'.get p.2 →
      (enc_round_27 k t0 u).get p.1 = (enc_round_27 k t0 u').get p.1 ∧
      (enc_round_27 k t0 u).get p.2 = (enc_round_27 k t0 u').get p.2 := by
  intro p hp u u'
  rcases u with ⟨b0, b1, b2, b3, b4, b5, b6, b7, b8, b9, b10, b11, b12, b13, b14, b15⟩
  rcases u' with ⟨c0, c1, c2, c3, c4, c5, c6, c7, c8, c9, c10, c11, c12, c13, c14, c15⟩
  simp only [enc_mix_pairs, Nat.reduceMod, List.getD_cons_zero, List.getD_cons_succ,
    List.mem_cons, List.mem_singleton, List.not_mem_nil, or_false] at hp
  rcases hp with rfl | rfl | rfl | rfl | rfl | rfl | rfl | rfl <;>
    (simp only [State.get, store_block, enc_round_27, List.getD_cons_zero, List.getD_cons_succ]
     intro h1 h2
     subst h1 h2
     exact ⟨rfl, rfl⟩)

theorem enc_round_28_local (k : Nat → Nat) (t0 : Nat) :
    ∀ p ∈ enc_mix_pairs 28, ∀ u u' : State, u.get p.1 = u'.get p.1 → u.get p.2 = u'.get p.2 →
      (enc_round_28 k t0 u).get p.1 = (enc_round_28 k t0 u').get p.1 ∧
      (enc_round_28 k t0 u).get p.2 = (enc_round_28 k t0 u').get p.2 := by
  intro p hp u u'
  rcases u with ⟨b0, b1, b2, b3, b4, b5, b6, b7, b8, b9, b10, b11, b12, b13, b14, b15⟩
  rcases u' with ⟨c0, c1, c2, c3, c4, c5, c6, c7, c8, c9, c10, c11, c12, c13, c14, c15⟩
  simp only [enc_mix_pairs, Nat.reduceMod, List.getD_cons_zero, List.getD_cons_succ,
    List.mem_cons, List.mem_singleton, List.not_mem_nil, or_false] at hp
  rcases hp with rfl | rfl | rfl | rfl | rfl | rfl | rfl | rfl <;>
    (simp only [State.get, store_block, enc_round_28, List.getD_cons_zero, List.getD_cons_succ]
     intro h1 h2
     subst h1 h2
     exact ⟨rfl, rfl⟩)

theorem enc_round_29_local (k : Nat → Nat) (t0 : Nat) :
    ∀ p ∈ enc_mix_pairs 29, ∀ u u' : State, u.get p.1 = u'.get p.1 → u.get p.2 = u'.get p.2 →
      (enc_round_29 k t0 u).get p.1 = (enc_round_29 k t0 u').get p.1 ∧
      (enc_round_29 k t0 u).get p.2 = (enc_round_29 k t0 u').get p.2 := by
  intro p hp u u'
  rcases u with ⟨b0, b1, b2, b3, b4, b5, b6, b7, b8, b9, b10, b11, b12, b13, b14, b15⟩
  rcases u' with ⟨c0, c1, c2, c3, c4, c5, c6, c7, c8, c9, c10, c11, c12, c13, c14, c15⟩
  simp only [enc_mix_pairs, Nat.reduceMod, List.getD_cons_zero, List.getD_cons_succ,
    List.mem_cons, List.mem_singleton, List.not_mem_nil, or_false] at hp
  rcases hp with rfl | rfl | rfl | rfl | rfl | rfl | rfl | rfl <;>
    (simp only [State.get, store_block, enc_round_29, List.getD_cons_zero, List.getD_cons_succ]
     intro h1 h2
     subst h1 h2
     exact ⟨rfl, rfl⟩)

theorem enc_round_30_local (k : Nat → Nat) (t0 : Nat) :
    ∀ p ∈ enc_mix_pairs 30, ∀ u u' : State, u.get p.1 = u'.get p.1 → u.get p.2 = u'.get p.2 →
      (enc_round_30 k t0 u).get p.1 = (enc_round_30 k t0 u').get p.1 ∧
      (enc_round_30 k t0 u).get p.2 = (enc_round_30 k t0 u').get p.2 := by
  intro p hp u u'
  rcases u with ⟨b0, b1, b2, b3, b4, b5, b6, b7, b8, b9, b10, b11, b12, b13, b14, b15⟩
  rcases u' with ⟨c0, c1, c2, c3, c4, c5, c6, c7, c8, c9, c10, c11, c12, c13, c14, c15⟩
  simp only [enc_mix_pairs, Nat.reduceMod, List.getD_cons_zero, List.getD_cons_succ,
    List.mem_cons, List.mem_singleton, List.not_mem_nil, or_false] at hp
  rcases hp with rfl | rfl | rfl | rfl | rfl | rfl | rfl | rfl <;>
    (simp only [State.get, store_block, enc_round_30, List.getD_cons_zero, List.getD_cons_succ]
     intro h1 h2
     subst h1 h2
     exact ⟨rfl, rfl⟩)

theorem enc_round_31_local (k : Nat → Nat) (t0 : Nat) :
    ∀ p ∈ enc_mix_pairs 31, ∀ u u' : State, u.get p.1 = u'.get p.1 → u.get p.2 = u'.get p.2 →
      (enc_round_31 k t0 u).get p.1 = (enc_round_31 k t0 u').get p.1 ∧
      (enc_round_31 k t0 u).get p.2 = (enc_round_31 k t0 u').get p.2 := by
  intro p hp u u'
  rcases u with ⟨b0, b1, b2, b3, b4, b5, b6, b7, b8, b9, b10, b11, b12, b13, b14, b15⟩
  rcases u' with ⟨c0, c1, c2, c3, c4, c5, c6, c7, c8, c9, c10, c11, c12, c13, c14, c15⟩
  simp only [enc_mix_pairs, Nat.reduceMod, List.getD_cons_zero, List.getD_cons_succ,
    List.mem_cons, List.mem_singleton, List.not_mem_nil, or_false] at hp
  rcases hp with rfl | rfl | rfl | rfl | rfl | rfl | rfl | rfl <;>
    (simp only [State.get, store_block, enc_round_31, List.getD_cons_zero, List.getD_cons_succ]
     intro h1 h2
     subst h1 h2
     exact ⟨rfl, rfl⟩)

theorem enc_round_32_local (k : Nat → Nat) (t0 : Nat) :
    ∀ p ∈ enc_mix_pairs 32, ∀ u u' : State, u.get p.1 = u'.get p.1 → u.get p.2 = u'.get p.2 →
      (enc_round_32 k t0 u).get p.1 = (enc_round_32 k t0 u').get p.1 ∧
      (enc_round_32 k t0 u).get p.2 = (enc_round_32 k t0 u').get p.2 := by
  intro p hp u u'
  rcases u with ⟨b0, b1, b2, b3, b4, b5, b6, b7, b8, b9, b10, b11, b12, b13, b14, b15⟩
  rcases u' with ⟨c0, c1, c2, c3, c4, c5, c6, c7, c8, c9, c10, c11, c12, c13, c14, c15⟩
  simp only [enc_mix_pairs, Nat.reduceMod, List.getD_cons_zero, List.getD_cons_succ,
    List.mem_cons, List.mem_singleton, List.not_mem_nil, or_false] at hp
  rcases hp with rfl | rfl | rfl | rfl | rfl | rfl | rfl | rfl <;>
    (simp only [State.get, store_block, enc_round_32, List.getD_cons_zero, List.getD_cons_succ]
     intro h1 h2
     subst h1 h2
     exact ⟨rfl, rfl⟩)

theorem enc_round_33_local (k : Nat → Nat) (t0 : Nat) :
    ∀ p ∈ enc_mix_pairs 33, ∀ u u' : State, u.get p.1 = u'.get p.1 → u.get p.2 = u'.get p.2 →
      (enc_round_33 k t0 u).get p.1 = (enc_round_33 k t0 u').get p.1 ∧
      (enc_round_33 k t0 u).get p.2 = (enc_round_33 k t0 u').get p.2 := by
  intro p hp u u'
  rcases u with ⟨b0, b1, b2, b3, b4, b5, b6, b7, b8, b9, b10, b11, b12, b13, b14, b15⟩
  rcases u' with ⟨c0, c1, c2, c3, c4, c5, c6, c7, c8, c9, c10, c11, c12, c13, c14, c15⟩
  simp only [enc_mix_pairs, Nat.reduceMod, List.getD_cons_zero, List.getD_cons_succ,
    List.mem_cons, List.mem_singleton, List.not_mem_nil, or_false] at hp
  rcases hp with rfl | rfl | rfl | rfl | rfl | rfl | rfl | rfl <;>
    (simp only [State.get, store_block, enc_round_33, List.getD_cons_zero, List.getD_cons_succ]
     intro h1 h2
     subst h1 h2
     exact ⟨rfl, rfl⟩)

theorem enc_round_34_local (k : Nat → Nat) (t0 : Nat) :
    ∀ p ∈ enc_mix_pairs 34, ∀ u u' : State, u.get p.1 = u'.get p.1 → u.get p.2 = u'.get p.2 →
      (enc_round_34 k t0 u).get p.1 = (enc_round_34 k t0 u').get p.1 ∧
      (enc_round_34 k t0 u).get p.2 = (enc_round_34 k t0 u').get p.2 := by
  intro p hp u u'
  rcases u with ⟨b0, b1, b2, b3, b4, b5, b6, b7, b8, b9, b10, b11, b12, b13, b14, b15⟩
  rcases u' with ⟨c0, c1, c2, c3, c4, c5, c6, c7, c8, c9, c10, c11, c12, c13, c14, c15⟩
  simp only [enc_mix_pairs, Nat.reduceMod, List.getD_cons_zero, List.getD_cons_succ,
    List.mem_cons, List.mem_singleton, List.not_mem_nil, or_false] at hp
  rcases hp with rfl | rfl | rfl | rfl | rfl | rfl | rfl | rfl <;>
    (simp only [State.get, store_block, enc_round_34, List.getD_cons_zero, List.getD_cons_succ]
     intro h1 h2
     subst h1 h2
     exact ⟨rfl, rfl⟩)

theorem enc_round_35_local (k : Nat → Nat) (t0 : Nat) :
    ∀ p ∈ enc_mix_pairs 35, ∀ u u' : State, u.get p.1 = u'.get p.1 → u.get p.2 = u'.get p.2 →
      (enc_round_35 k t0 u).get p.1 = (enc_round_35 k t0 u').get p.1 ∧
      (enc_round_35 k t0 u).get p.2 = (enc_round_35 k t0 u').get p.2 := by
  intro p hp u u'
  rcases u with ⟨b0, b1, b2, b3, b4, b5, b6, b7, b8, b9, b10, b11, b12, b13, b14, b15⟩
  rcases u' with ⟨c0, c1, c2, c3, c4, c5, c6, c7, c8, c9, c10, c11, c12, c13, c14, c15⟩
  simp only [enc_mix_pairs, Nat.reduceMod, List.getD_cons_zero, List.getD_cons_succ,
    List.mem_cons, List.mem_singleton, List.not_mem_nil, or_false] at hp
  rcases hp with rfl | rfl | rfl | rfl | rfl | rfl | rfl | rfl <;>
    (simp only [State.get, store_block, enc_round_35, List.getD_cons_zero, List.getD_cons_succ]
     intro h1 h2
     subst h1 h2
     exact ⟨rfl, rfl⟩)

theorem enc_round_36_local (k : Nat → Nat) (t0 : Nat) :
    ∀ p ∈ enc_mix_pairs 36, ∀ u u' : State, u.get p.1 = u'.get p.1 → u.get p.2 = u'.get p.2 →
      (enc_round_36 k t0 u).get p.1 = (enc_round_36 k t0 u').get p.1 ∧
      (enc_round_36 k t0 u).get p.2 = (enc_round_36 k t0 u').get p.2 := by
  intro p hp u u'
  rcases u with ⟨b0, b1, b2, b3, b4, b5, b6, b7, b8, b9, b10, b11, b12, b13, b14, b15⟩
  rcases u' with ⟨c0, c1, c2, c3, c4, c5, c6, c7, c8, c9, c10, c11, c12, c13, c14, c15⟩
  simp only [enc_mix_pairs, Nat.reduceMod, List.getD_cons_zero, List.getD_cons_succ,
    List.mem_cons, List.mem_singleton, List.not_mem_nil, or_false] at hp
  rcases hp with rfl | rfl | rfl | rfl | rfl | rfl | rfl | rfl <;>
    (simp only [State.get, store_block, enc_round_36, List.getD_cons_zero, List.getD_cons_succ]
     intro h1 h2
     subst h1 h2
     exact ⟨rfl, rfl⟩)

theorem enc_round_37_local (k : Nat → Nat) (t0 : Nat) :
    ∀ p ∈ enc_mix_pairs 37, ∀ u u' : State, u.get p.1 = u'.get p.1 → u.get p.2 = u'.get p.2 →
      (enc_round_37 k t0 u).get p.1 = (enc_round_37 k t0 u').get p.1 ∧
      (enc_round_37 k t0 u).get p.2 = (enc_round_37 k t0 u').get p.2 := by
  intro p hp u u'
  rcases u with ⟨b0, b1, b2, b3, b4, b5, b6, b7, b8, b9, b10, b11, b12, b13, b14, b15⟩
  rcases u' with ⟨c0, c1, c2, c3, c4, c5, c6, c7, c8, c9, c10, c11, c12, c13, c14, c15⟩
  simp only [enc_mix_pairs, Nat.reduceMod, List.getD_cons_zero, List.getD_cons_succ,
    List.mem_cons, List.mem_singleton, List.not_mem_nil, or_false] at hp
  rcases hp with rfl | rfl | rfl | rfl | rfl | rfl | rfl | rfl <;>
    (simp only [State.get, store_block, enc_round_37, List.getD_cons_zero, List.getD_cons_succ]
     intro h1 h2
     subst h1 h2
     exact ⟨rfl, rfl⟩)

theorem enc_round_38_local (k : Nat → Nat) (t0 : Nat) :
    ∀ p ∈ enc_mix_pairs 38, ∀ u u' : State, u.get p.1 = u'.get p.1 → u.get p.2 = u'.get p.2 →
      (enc_round_38 k t0 u).get p.1 = (enc_round_38 k t0 u').get p.1 ∧
      (enc_round_38 k t0 u).get p.2 = (enc_round_38 k t0 u').get p.2 := by
  intro p hp u u'
  rcases u with ⟨b0, b1, b2, b3, b4, b5, b6, b7, b8, b9, b10, b11, b12, b13, b14, b15⟩
  rcases u' with ⟨c0, c1, c2, c3, c4, c5, c6, c7, c8, c9, c10, c11, c12, c13, c14, c15⟩
  simp only [enc_mix_pairs, Nat.reduceMod, List.getD_cons_zero, List.getD_cons_succ,
    List.mem_cons, List.mem_singleton, List.not_mem_nil, or_false] at hp
  rcases hp with rfl | rfl | rfl | rfl | rfl | rfl | rfl | rfl <;>
    (simp only [State.get, store_block, enc_round_38, List.getD_cons_zero, List.getD_cons_succ]
     intro h1 h2
     subst h1 h2
     exact ⟨rfl, rfl⟩)

theorem enc_round_39_local (k : Nat → Nat) (t0 : Nat) :
    ∀ p ∈ enc_mix_pairs 39, ∀ u u' : State, u.get p.1 = u'.get p.1 → u.get p.2 = u'.get p.2 →
      (enc_round_39 k t0 u).get p.1 = (enc_round_39 k t0 u').get p.1 ∧
      (enc_round_39 k t0 u).get p.2 = (enc_round_39 k t0 u').get p.2 := by
  intro p hp u u'
  rcases u with ⟨b0, b1, b2, b3, b4, b5, b6, b7, b8, b9, b10, b11, b12, b13, b14, b15⟩
  rcases u' with ⟨c0, c1, c2, c3, c4, c5, c6, c7, c8, c9, c10, c11, c12, c13, c14, c15⟩
  simp only [enc_mix_pairs, Nat.reduceMod, List.getD_cons_zero, List.getD_cons_succ,
    List.mem_cons, List.mem_singleton, List.not_mem_nil, or_false] at hp
  rcases hp with rfl | rfl | rfl | rfl | rfl | rfl | rfl | rfl <;>
    (simp only [State.get, store_block, enc_round_39, List.getD_cons_zero, List.getD_cons_succ]
     intro h1 h2
     subst h1 h2
     exact ⟨rfl, rfl⟩)

theorem enc_round_40_local (k : Nat → Nat) (t0 : Nat) :
    ∀ p ∈ enc_mix_pairs 40, ∀ u u' : State, u.get p.1 = u'.get p.1 → u.get p.2 = u'.get p.2 →
      (enc_round_40 k t0 u).get p.1 = (enc_round_40 k t0 u').get p.1 ∧
      (enc_round_40 k t0 u).get p.2 = (enc_round_40 k t0 u').get p.2 := by
  intro p hp u u'
  rcases u with ⟨b0, b1, b2, b3, b4, b5, b6, b7, b8, b9, b10, b11, b12, b13, b14, b15⟩
  rcases u' with ⟨c0, c1, c2, c3, c4, c5, c6, c7, c8, c9, c10, c11, c12, c13, c14, c15⟩
  simp only [enc_mix_pairs, Nat.reduceMod, List.getD_cons_zero, List.getD_cons_succ,
    List.mem_cons, List.mem_singleton, List.not_mem_nil, or_false] at hp
  rcases hp with rfl | rfl | rfl | rfl | rfl | rfl | rfl | rfl <;>
    (simp only [State.get, store_block, enc_round_40, List.getD_cons_zero, List.getD_cons_succ]
     intro h1 h2
     subst h1 h2
     exact ⟨rfl, rfl⟩)

theorem enc_round_41_local (k : Nat → Nat) (t0 : Nat) :
    ∀ p ∈ enc_mix_pairs 41, ∀ u u' : State, u.get p.1 = u'.get p.1 → u.get p.2 = u'.get p.2 →
      (enc_round_41 k t0 u).get p.1 = (enc_round_41 k t0 u').get p.1 ∧
      (enc_round_41 k t0 u).get p.2 = (enc_round_41 k t0 u').get p.2 := by
  intro p hp u u'
  rcases u with ⟨b0, b1, b2, b3, b4, b5, b6, b7, b8, b9, b10, b11, b12, b13, b14, b15⟩
  rcases u' with ⟨c0, c1, c2, c3, c4, c5, c6, c7, c8, c9, c10, c11, c12, c13, c14, c15⟩
  simp only [enc_mix_pairs, Nat.reduceMod, List.getD_cons_zero, List.getD_cons_succ,
    List.mem_cons, List.mem_singleton, List.not_mem_nil, or_false] at hp
  rcases hp with rfl | rfl | rfl | rfl | rfl | rfl | rfl | rfl <;>
    (simp only [State.get, store_block, enc_round_41, List.getD_cons_zero, List.getD_cons_succ]
     intro h1 h2
     subst h1 h2
     exact ⟨rfl, rfl⟩)

theorem enc_round_42_local (k : Nat → Nat) (t0 : Nat) :
    ∀ p ∈ enc_mix_pairs 42, ∀ u u' : State, u.get p.1 = u'.get p.1 → u.get p.2 = u'.get p.2 →
      (enc_round_42 k t0 u).get p.1 = (enc_round_42 k t0 u').get p.1 ∧
      (enc_round_42 k t0 u).get p.2 = (enc_round_42 k t0 u').get p.2 := by
  intro p hp u u'
  rcases u with ⟨b0, b1, b2, b3, b4, b5, b6, b7, b8, b9, b10, b11, b12, b13, b14, b15⟩
  rcases u' with ⟨c0, c1, c2, c3, c4, c5, c6, c7, c8, c9, c10, c11, c12, c13, c14, c15⟩
  simp only [enc_mix_pairs, Nat.reduceMod, List.getD_cons_zero, List.getD_cons_succ,
    List.mem_cons, List.mem_singleton, List.not_mem_nil, or_false] at hp
  rcases hp with rfl | rfl | rfl | rfl | rfl | rfl | rfl | rfl <;>
    (simp only [State.get, store_block, enc_round_42, List.getD_cons_zero, List.getD_cons_succ]
     intro h1 h2
     subst h1 h2
     exact ⟨rfl, rfl⟩)

theorem enc_round_43_local (k : Nat → Nat) (t0 : Nat) :
    ∀ p ∈ enc_mix_pairs 43, ∀ u u' : State, u.get p.1 = u'.get p.1 → u.get p.2 = u'.get p.2 →
      (enc_round_43 k t0 u).get p.1 = (enc_round_43 k t0 u').get p.1 ∧
      (enc_round_43 k t0 u).get p.2 = (enc_round_43 k t0 u').get p.2 := by
  intro p hp u u'
  rcases u with ⟨b0, b1, b2, b3, b4, b5, b6, b7, b8, b9, b10, b11, b12, b13, b14, b15⟩
  rcases u' with ⟨c0, c1, c2, c3, c4, c5, c6, c7, c8, c9, c10, c11, c12, c13, c14, c15⟩
  simp only [enc_mix_pairs, Nat.reduceMod, List.getD_cons_zero, List.getD_cons_succ,
    List.mem_cons, List.mem_singleton, List.not_mem_nil, or_false] at hp
  rcases hp with rfl | rfl | rfl | rfl | rfl | rfl | rfl | rfl <;>
    (simp only [State.get, store_block, enc_round_43, List.getD_cons_zero, List.getD_cons_succ]
     intro h1 h2
     subst h1 h2
     exact ⟨rfl, rfl⟩)

theorem enc_round_44_local (k : Nat → Nat) (t0 : Nat) :
    ∀ p ∈ enc_mix_pairs 44, ∀ u u' : State, u.get p.1 = u'.get p.1 → u.get p.2 = u'.get p.2 →
      (enc_round_44 k t0 u).get p.1 = (enc_round_44 k t0 u').get p.1 ∧
      (enc_round_44 k t0 u).get p.2 = (enc_round_44 k t0 u').get p.2 := by
  intro p hp u u'
  rcases u with ⟨b0, b1, b2, b3, b4, b5, b6, b7, b8, b9, b10, b11, b12, b13, b14, b15⟩
  rcases u' with ⟨c0, c1, c2, c3, c4, c5, c6, c7, c8, c9, c10, c11, c12, c13, c14, c15⟩
  simp only [enc_mix_pairs, Nat.reduceMod, List.getD_cons_zero, List.getD_cons_succ,
    List.mem_cons, List.mem_singleton, List.not_mem_nil, or_false] at hp
  rcases hp with rfl | rfl | rfl | rfl | rfl | rfl | rfl | rfl <;>
    (simp only [State.get, store_block, enc_round_44, List.getD_cons_zero, List.getD_cons_succ]
     intro h1 h2
     subst h1 h2
     exact ⟨rfl, rfl⟩)

theorem enc_round_45_local (k : Nat → Nat) (t0 : Nat) :
    ∀ p ∈ enc_mix_pairs 45, ∀ u u' : State, u.get p.1 = u'.get p.1 → u.get p.2 = u'.get p.2 →
      (enc_round_45 k t0 u).get p.1 = (enc_round_45 k t0 u').get p.1 ∧
      (enc_round_45 k t0 u).get p.2 = (enc_round_45 k t0 u').get p.2 := by
  intro p hp u u'
  rcases u with ⟨b0, b1, b2, b3, b4, b5, b6, b7, b8, b9, b10, b11, b12, b13, b14, b15⟩
  rcases u' with ⟨c0, c1, c2, c3, c4, c5, c6, c7, c8, c9, c10, c11, c12, c13, c14, c15⟩
  simp only [enc_mix_pairs, Nat.reduceMod, List.getD_cons_zero, List.getD_cons_succ,
    List.mem_cons, List.mem_singleton, List.not_mem_nil, or_false] at hp
  rcases hp with rfl | rfl | rfl | rfl | rfl | rfl | rfl | rfl <;>
    (simp only [State.get, store_block, enc_round_45, List.getD_cons_zero, List.getD_cons_succ]
     intro h1 h2
     subst h1 h2
     exact ⟨rfl, rfl⟩)

theorem enc_round_46_local (k : Nat → Nat) (t0 : Nat) :
    ∀ p ∈ enc_mix_pairs 46, ∀ u u' : State, u.get p.1 = u'.get p.1 → u.get p.2 = u'.get p.2 →
      (enc_round_46 k t0 u).get p.1 = (enc_round_46 k t0 u').get p.1 ∧
      (enc_round_46 k t0 u).get p.2 = (enc_round_46 k t0 u').get p.2 := by
  intro p hp u u'
  rcases u with ⟨b0, b1, b2, b3, b4, b5, b6, b7, b8, b9, b10, b11, b12, b13, b14, b15⟩
  rcases u' with ⟨c0, c1, c2, c3, c4, c5, c6, c7, c8, c9, c10, c11, c12, c13, c14, c15⟩
  simp only [enc_mix_pairs, Nat.reduceMod, List.getD_cons_zero, List.getD_cons_succ,
    List.mem_cons, List.mem_singleton, List.not_mem_nil, or_false] at hp
  rcases hp with rfl | rfl | rfl | rfl | rfl | rfl | rfl | rfl <;>
    (simp only [State.get, store_block, enc_round_46, List.getD_cons_zero, List.getD_cons_succ]
     intro h1 h2
     subst h1 h2
     exact ⟨rfl, rfl⟩)

theorem enc_round_47_local (k : Nat → Nat) (t0 : Nat) :
    ∀ p ∈ enc_mix_pairs 47, ∀ u u' : State, u.get p.1 = u'.get p.1 → u.get p.2 = u'.get p.2 →
      (enc_round_47 k t0 u).get p.1 = (enc_round_47 k t0 u').get p.1 ∧
      (enc_round_47 k t0 u).get p.2 = (enc_round_47 k t0 u').get p.2 := by
  intro p hp u u'
  rcases u with ⟨b0, b1, b2, b3, b4, b5, b6, b7, b8, b9, b10, b11, b12, b13, b14, b15⟩
  rcases u' with ⟨c0, c1, c2, c3, c4, c5, c6, c7, c8, c9, c10, c11, c12, c13, c14, c15⟩
  simp only [enc_mix_pairs, Nat.reduceMod, List.getD_cons_zero, List.getD_cons_succ,
    List.mem_cons, List.mem_singleton, List.not_mem_nil, or_false] at hp
  rcases hp with rfl | rfl | rfl | rfl | rfl | rfl | rfl | rfl <;>
    (simp only [State.get, store_block, enc_round_47, List.getD_cons_zero, List.getD_cons_succ]
     intro h1 h2
     subst h1 h2
     exact ⟨rfl, rfl⟩)

theorem enc_round_48_local (k : Nat → Nat) (t0 : Nat) :
    ∀ p ∈ enc_mix_pairs 48, ∀ u u' : State, u.get p.1 = u'.get p.1 → u.get p.2 = u'.get p.2 →
      (enc_round_48 k t0 u).get p.1 = (enc_round_48 k t0 u').get p.1 ∧
      (enc_round_48 k t0 u).get p.2 = (enc_round_48 k t0 u').get p.2 := by
  intro p hp u u'
  rcases u with ⟨b0, b1, b2, b3, b4, b5, b6, b7, b8, b9, b10, b11, b12, b13, b14, b15⟩
  rcases u' with ⟨c0, c1, c2, c3, c4, c5, c6, c7, c8, c9, c10, c11, c12, c13, c14, c15⟩
  simp only [enc_mix_pairs, Nat.reduceMod, List.getD_cons_zero, List.getD_cons_succ,
    List.mem_cons, List.mem_singleton, List.not_mem_nil, or_false] at hp
  rcases hp with rfl | rfl | rfl | rfl | rfl | rfl | rfl | rfl <;>
    (simp only [State.get, store_block, enc_round_48, List.getD_cons_zero, List.getD_cons_succ]
     intro h1 h2
     subst h1 h2
     exact ⟨rfl, rfl⟩)

theorem enc_round_49_local (k : Nat → Nat) (t0 : Nat) :
    ∀ p ∈ enc_mix_pairs 49, ∀ u u' : State, u.get p.1 = u'.get p.1 → u.get p.2 = u'.get p.2 →
      (enc_round_49 k t0 u).get p.1 = (enc_round_49 k t0 u').get p.1 ∧
      (enc_round_49 k t0 u).get p.2 = (enc_round_49 k t0 u').get p.2 := by
  intro p hp u u'
  rcases u with ⟨b0, b1, b2, b3, b4, b5, b6, b7, b8, b9, b10, b11, b12, b13, b14, b15⟩
  rcases u' with ⟨c0, c1, c2, c3, c4, c5, c6, c7, c8, c9, c10, c11, c12, c13, c14, c15⟩
  simp only [enc_mix_pairs, Nat.reduceMod, List.getD_cons_zero, List.getD_cons_succ,
    List.mem_cons, List.mem_singleton, List.not_mem_nil, or_false] at hp
  rcases hp with rfl | rfl | rfl | rfl | rfl | rfl | rfl | rfl <;>
    (simp only [State.get, store_block, enc_round_49, List.getD_cons_zero, List.getD_cons_succ]
     intro h1 h2
     subst h1 h2
     exact ⟨rfl, rfl⟩)

theorem enc_round_50_local (k : Nat → Nat) (t0 : Nat) :
    ∀ p ∈ enc_mix_pairs 50, ∀ u u' : State, u.get p.1 = u'.get p.1 → u.get p.2 = u'.get p.2 →
      (enc_round_50 k t0 u).get p.1 = (enc_round_50 k t0 u').get p.1 ∧
      (enc_round_50 k t0 u).get p.2 = (enc_round_50 k t0 u').get p.2 := by
  intro p hp u u'
  rcases u with ⟨b0, b1, b2, b3, b4, b5, b6, b7, b8, b9, b10, b11, b12, b13, b14, b15⟩
  rcases u' with ⟨c0, c1, c2, c3, c4, c5, c6, c7, c8, c9, c10, c11, c12, c13, c14, c15⟩
  simp only [enc_mix_pairs, Nat.reduceMod, List.getD_cons_zero, List.getD_cons_succ,
    List.mem_cons, List.mem_singleton, List.not_mem_nil, or_false] at hp
  rcases hp with rfl | rfl | rfl | rfl | rfl | rfl | rfl | rfl <;>
    (simp only [State.get, store_block, enc_round_50, List.getD_cons_zero, List.getD_cons_succ]
     intro h1 h2
     subst h1 h2
     exact ⟨rfl, rfl⟩)

theorem enc_round_51_local (k : Nat → Nat) (t0 : Nat) :
    ∀ p ∈ enc_mix_pairs 51, ∀ u u' : State, u.get p.1 = u'.get p.1 → u.get p.2 = u'.get p.2 →
      (enc_round_51 k t0 u).get p.1 = (enc_round_51 k t0 u').get p.1 ∧
      (enc_round_51 k t0 u).get p.2 = (enc_round_51 k t0 u').get p.2 := by
  intro p hp u u'
  rcases u with ⟨b0, b1, b2, b3, b4, b5, b6, b7, b8, b9, b10, b11, b12, b13, b14, b15⟩
  rcases u' with ⟨c0, c1, c2, c3, c4, c5, c6, c7, c8, c9, c10, c11, c12, c13, c14, c15⟩
  simp only [enc_mix_pairs, Nat.reduceMod, List.getD_cons_zero, List.getD_cons_succ,
    List.mem_cons, List.mem_singleton, List.not_mem_nil, or_false] at hp
  rcases hp with rfl | rfl | rfl | rfl | rfl | rfl | rfl | rfl <;>
    (simp only [State.get, store_block, enc_round_51, List.getD_cons_zero, List.getD_cons_succ]
     intro h1 h2
     subst h1 h2
     exact ⟨rfl, rfl⟩)

theorem enc_round_52_local (k : Nat → Nat) (t0 : Nat) :
    ∀ p ∈ enc_mix_pairs 52, ∀ u u' : State, u.get p.1 = u'.get p.1 → u.get p.2 = u'.get p.2 →
      (enc_round_52 k t0 u).get p.1 = (enc_round_52 k t0 u').get p.1 ∧
      (enc_round_52 k t0 u).get p.2 = (enc_round_52 k t0 u').get p.2 := by
  intro p hp u u'
  rcases u with ⟨b0, b1, b2, b3, b4, b5, b6, b7, b8, b9, b10, b11, b12, b13, b14, b15⟩
  rcases u' with ⟨c0, c1, c2, c3, c4, c5, c6, c7, c8, c9, c10, c11, c12, c13, c14, c15⟩
  simp only [enc_mix_pairs, Nat.reduceMod, List.getD_cons_zero, List.getD_cons_succ,
    List.mem_cons, List.mem_singleton, List.not_mem_nil, or_false] at hp
  rcases hp with rfl | rfl | rfl | rfl | rfl | rfl | rfl | rfl <;>
    (simp only [State.get, store_block, enc_round_52, List.getD_cons_zero, List.getD_cons_succ]
     intro h1 h2
     subst h1 h2
     exact ⟨rfl, rfl⟩)

theorem enc_round_53_local (k : Nat → Nat) (t0 : Nat) :
    ∀ p ∈ enc_mix_pairs 53, ∀ u u' : State, u.get p.1 = u'.get p.1 → u.get p.2 = u'.get p.2 →
      (enc_round_53 k t0 u).get p.1 = (enc_round_53 k t0 u').get p.1 ∧
      (enc_round_53 k t0 u).get p.2 = (enc_round_53 k t0 u').get p.2 := by
  intro p hp u u'
  rcases u with ⟨b0, b1, b2, b3, b4, b5, b6, b7, b8, b9, b10, b11, b12, b13, b14, b15⟩
  rcases u' with ⟨c0, c1, c2, c3, c4, c5, c6, c7, c8, c9, c10, c11, c12, c13, c14, c15⟩
  simp only [enc_mix_pairs, Nat.reduceMod, List.getD_cons_zero, List.getD_cons_succ,
    List.mem_cons, List.mem_singleton, List.not_mem_nil, or_false] at hp
  rcases hp with rfl | rfl | rfl | rfl | rfl | rfl | rfl | rfl <;>
    (simp only [State.get, store_block, enc_round_53, List.getD_cons_zero, List.getD_cons_succ]
     intro h1 h2
     subst h1 h2
     exact ⟨rfl, rfl⟩)

theorem enc_round_54_local (k : Nat → Nat) (t0 : Nat) :
    ∀ p ∈ enc_mix_pairs 54, ∀ u u' : State, u.get p.1 = u'.get p.1 → u.get p.2 = u'.get p.2 →
      (enc_round_54 k t0 u).get p.1 = (enc_round_54 k t0 u').get p.1 ∧
      (enc_round_54 k t0 u).get p.2 = (enc_round_54 k t0 u').get p.2 := by
  intro p hp u u'
  rcases u with ⟨b0, b1, b2, b3, b4, b5, b6, b7, b8, b9, b10, b11, b12, b13, b14, b15⟩
  rcases u' with ⟨c0, c1, c2, c3, c4, c5, c6, c7, c8, c9, c10, c11, c12, c13, c14, c15⟩
  simp only [enc_mix_pairs, Nat.reduceMod, List.getD_cons_zero, List.getD_cons_succ,
    List.mem_cons, List.mem_singleton, List.not_mem_nil, or_false] at hp
  rcases hp with rfl | rfl | rfl | rfl | rfl | rfl | rfl | rfl <;>
    (simp only [State.get, store_block, enc_round_54, List.getD_cons_zero, List.getD_cons_succ]
     intro h1 h2
     subst h1 h2
     exact ⟨rfl, rfl⟩)

theorem enc_round_55_local (k : Nat → Nat) (t0 : Nat) :
    ∀ p ∈ enc_mix_pairs 55, ∀ u u' : State, u.get p.1 = u'.get p.1 → u.get p.2 = u'.get p.2 →
      (enc_round_55 k t0 u).get p.1 = (enc_round_55 k t0 u').get p.1 ∧
      (enc_round_55 k t0 u).get p.2 = (enc_round_55 k t0 u').get p.2 := by
  intro p hp u u'
  rcases u with ⟨b0, b1, b2, b3, b4, b5, b6, b7, b8, b9, b10, b11, b12, b13, b14, b15⟩
  rcases u' with ⟨c0, c1, c2, c3, c4, c5, c6, c7, c8, c9, c10, c11, c12, c13, c14, c15⟩
  simp only [enc_mix_pairs, Nat.reduceMod, List.getD_cons_zero, List.getD_cons_succ,
    List.mem_cons, List.mem_singleton, List.not_mem_nil, or_false] at hp
  rcases hp with rfl | rfl | rfl | rfl | rfl | rfl | rfl | rfl <;>
    (simp only [State.get, store_block, enc_round_55, List.getD_cons_zero, List.getD_cons_succ]
     intro h1 h2
     subst h1 h2
     exact ⟨rfl, rfl⟩)

theorem enc_round_56_local (k : Nat → Nat) (t0 : Nat) :
    ∀ p ∈ enc_mix_pairs 56, ∀ u u' : State, u.get p.1 = u'.get p.1 → u.get p.2 = u'.get p.2 →
      (enc_round_56 k t0 u).get p.1 = (enc_round_56 k t0 u').get p.1 ∧
      (enc_round_56 k t0 u).get p.2 = (enc_round_56 k t0 u').get p.2 := by
  intro p hp u u'
  rcases u with ⟨b0, b1, b2, b3, b4, b5, b6, b7, b8, b9, b10, b11, b12, b13, b14, b15⟩
  rcases u' with ⟨c0, c1, c2, c3, c4, c5, c6, c7, c8, c9, c10, c11, c12, c13, c14, c15⟩
  simp only [enc_mix_pairs, Nat.reduceMod, List.getD_cons_zero, List.getD_cons_succ,
    List.mem_cons, List.mem_singleton, List.not_mem_nil, or_false] at hp
  rcases hp with rfl | rfl | rfl | rfl | rfl | rfl | rfl | rfl <;>
    (simp only [State.get, store_block, enc_round_56, List.getD_cons_zero, List.getD_cons_succ]
     intro h1 h2
     subst h1 h2
     exact ⟨rfl, rfl⟩)

theorem enc_round_57_local (k : Nat → Nat) (t0 : Nat) :
    ∀ p ∈ enc_mix_pairs 57, ∀ u u' : State, u.get p.1 = u'.get p.1 → u.get p.2 = u'.get p.2 →
      (enc_round_57 k t0 u).get p.1 = (enc_round_57 k t0 u').get p.1 ∧
      (enc_round_57 k t0 u).get p.2 = (enc_round_57 k t0 u').get p.2 := by
  intro p hp u u'
  rcases u with ⟨b0, b1, b2, b3, b4, b5, b6, b7, b8, b9, b10, b11, b12, b13, b14, b15⟩
  rcases u' with ⟨c0, c1, c2, c3, c4, c5, c6, c7, c8, c9, c10, c11, c12, c13, c14, c15⟩
  simp only [enc_mix_pairs, Nat.reduceMod, List.getD_cons_zero, List.getD_cons_succ,
    List.mem_cons, List.mem_singleton, List.not_mem_nil, or_false] at hp
  rcases hp with rfl | rfl | rfl | rfl | rfl | rfl | rfl | rfl <;>
    (simp only [State.get, store_block, enc_round_57, List.getD_cons_zero, List.getD_cons_succ]
     intro h1 h2
     subst h1 h2
     exact ⟨rfl, rfl⟩)

theorem enc_round_58_local (k : Nat → Nat) (t0 : Nat) :
    ∀ p ∈ enc_mix_pairs 58, ∀ u u' : State, u.get p.1 = u'.get p.1 → u.get p.2 = u'.get p.2 →
      (enc_round_58 k t0 u).get p.1 = (enc_round_58 k t0 u').get p.1 ∧
      (enc_round_58 k t0 u).get p.2 = (enc_round_58 k t0 u').get p.2 := by
  intro p hp u u'
  rcases u with ⟨b0, b1, b2, b3, b4, b5, b6, b7, b8, b9, b10, b11, b12, b13, b14, b15⟩
  rcases u' with ⟨c0, c1, c2, c3, c4, c5, c6, c7, c8, c9, c10, c11, c12, c13, c14, c15⟩
  simp only [enc_mix_pairs, Nat.reduceMod, List.getD_cons_zero, List.getD_cons_succ,
    List.mem_cons, List.mem_singleton, List.not_mem_nil, or_false] at hp
  rcases hp with rfl | rfl | rfl | rfl | rfl | rfl | rfl | rfl <;>
    (simp only [State.get, store_block, enc_round_58, List.getD_cons_zero, List.getD_cons_succ]
     intro h1 h2
     subst h1 h2
     exact ⟨rfl, rfl⟩)

theorem enc_round_59_local (k : Nat → Nat) (t0 : Nat) :
    ∀ p ∈ enc_mix_pairs 59, ∀ u u' : State, u.get p.1 = u'.get p.1 → u.get p.2 = u'.get p.2 →
      (enc_round_59 k t0 u).get p.1 = (enc_round_59 k t0 u').get p.1 ∧
      (enc_round_59 k t0 u).get p.2 = (enc_round_59 k t0 u').get p.2 := by
  intro p hp u u'
  rcases u with ⟨b0, b1, b2, b3, b4, b5, b6, b7, b8, b9, b10, b11, b12, b13, b14, b15⟩
  rcases u' with ⟨c0, c1, c2, c3, c4, c5, c6, c7, c8, c9, c10, c11, c12, c13, c14, c15⟩
  simp only [enc_mix_pairs, Nat.reduceMod, List.getD_cons_zero, List.getD_cons_succ,
    List.mem_cons, List.mem_singleton, List.not_mem_nil, or_false] at hp
  rcases hp with rfl | rfl | rfl | rfl | rfl | rfl | rfl | rfl <;>
    (simp only [State.get, store_block, enc_round_59, List.getD_cons_zero, List.getD_cons_succ]
     intro h1 h2
     subst h1 h2
     exact ⟨rfl, rfl⟩)

theorem enc_round_60_local (k : Nat → Nat) (t0 : Nat) :
    ∀ p ∈ enc_mix_pairs 60, ∀ u u' : State, u.get p.1 = u'.get p.1 → u.get p.2 = u'.get p.2 →
      (enc_round_60 k t0 u).get p.1 = (enc_round_60 k t0 u').get p.1 ∧
      (enc_round_60 k t0 u).get p.2 = (enc_round_60 k t0 u').get p.2 := by
  intro p hp u u'
  rcases u with ⟨b0, b1, b2, b3, b4, b5, b6, b7, b8, b9, b10, b11, b12, b13, b14, b15⟩
  rcases u' with ⟨c0, c1, c2, c3, c4, c5, c6, c7, c8, c9, c10, c11, c12, c13, c14, c15⟩
  simp only [enc_mix_pairs, Nat.reduceMod, List.getD_cons_zero, List.getD_cons_succ,
    List.mem_cons, List.mem_singleton, List.not_mem_nil, or_false] at hp
  rcases hp with rfl | rfl | rfl | rfl | rfl | rfl | rfl | rfl <;>
    (simp only [State.get, store_block, enc_round_60, List.getD_cons_zero, List.getD_cons_succ]
     intro h1 h2
     subst h1 h2
     exact ⟨rfl, rfl⟩)

theorem enc_round_61_local (k : Nat → Nat) (t0 : Nat) :
    ∀ p ∈ enc_mix_pairs 61, ∀ u u' : State, u.get p.1 = u'.get p.1 → u.get p.2 = u'.get p.2 →
      (enc_round_61 k t0 u).get p.1 = (enc_round_61 k t0 u').get p.1 ∧
      (enc_round_61 k t0 u).get p.2 = (enc_round_61 k t0 u').get p.2 := by
  intro p hp u u'
  rcases u with ⟨b0, b1, b2, b3, b4, b5, b6, b7, b8, b9, b10, b11, b12, b13, b14, b15⟩
  rcases u' with ⟨c0, c1, c2, c3, c4, c5, c6, c7, c8, c9, c10, c11, c12, c13, c14, c15⟩
  simp only [enc_mix_pairs, Nat.reduceMod, List.getD_cons_zero, List.getD_cons_succ,
    List.mem_cons, List.mem_singleton, List.not_mem_nil, or_false] at hp
  rcases hp with rfl | rfl | rfl | rfl | rfl | rfl | rfl | rfl <;>
    (simp only [State.get, store_block, enc_round_61, List.getD_cons_zero, List.getD_cons_succ]
     intro h1 h2
     subst h1 h2
     exact ⟨rfl, rfl⟩)

theorem enc_round_62_local (k : Nat → Nat) (t0 : Nat) :
    ∀ p ∈ enc_mix_pairs 62, ∀ u u' : State, u.get p.1 = u'.get p.1 → u.get p.2 = u'.get p.2 →
      (enc_round_62 k t0 u).get p.1 = (enc_round_62 k t0 u').get p.1 ∧
      (enc_round_62 k t0 u).get p.2 = (enc_round_62 k t0 u').get p.2 := by
  intro p hp u u'
  rcases u with ⟨b0, b1, b2, b3, b4, b5, b6, b7, b8, b9, b10, b11, b12, b13, b14, b15⟩
  rcases u' with ⟨c0, c1, c2, c3, c4, c5, c6, c7, c8, c9, c10, c11, c12, c13, c14, c15⟩
  simp only [enc_mix_pairs, Nat.reduceMod, List.getD_cons_zero, List.getD_cons_succ,
    List.mem_cons, List.mem_singleton, List.not_mem_nil, or_false] at hp
  rcases hp with rfl | rfl | rfl | rfl | rfl | rfl | rfl | rfl <;>
    (simp only [State.get, store_block, enc_round_62, List.getD_cons_zero, List.getD_cons_succ]
     intro h1 h2
     subst h1 h2
     exact ⟨rfl, rfl⟩)

theorem enc_round_63_local (k : Nat → Nat) (t0 : Nat) :
    ∀ p ∈ enc_mix_pairs 63, ∀ u u' : State, u.get p.1 = u'.get p.1 → u.get p.2 = u'.get p.2 →
      (enc_round_63 k t0 u).get p.1 = (enc_round_63 k t0 u').get p.1 ∧
      (enc_round_63 k t0 u).get p.2 = (enc_round_63 k t0 u').get p.2 := by
  intro p hp u u'
  rcases u with ⟨b0, b1, b2, b3, b4, b5, b6, b7, b8, b9, b10, b11, b12, b13, b14, b15⟩
  rcases u' with ⟨c0, c1, c2, c3, c4, c5, c6, c7, c8, c9, c10, c11, c12, c13, c14, c15⟩
  simp only [enc_mix_pairs, Nat.reduceMod, List.getD_cons_zero, List.getD_cons_succ,
    List.mem_cons, List.mem_singleton, List.not_mem_nil, or_false] at hp
  rcases hp with rfl | rfl | rfl | rfl | rfl | rfl | rfl | rfl <;>
    (simp only [State.get, store_block, enc_round_63, List.getD_cons_zero, List.getD_cons_succ]
     intro h1 h2
     subst h1 h2
     exact ⟨rfl, rfl⟩)

theorem enc_round_64_local (k : Nat → Nat) (t0 : Nat) :
    ∀ p ∈ enc_mix_pairs 64, ∀ u u' : State, u.get p.1 = u'.get p.1 → u.get p.2 = u'.get p.2 →
      (enc_round_64 k t0 u).get p.1 = (enc_round_64 k t0 u').get p.1 ∧
      (enc_round_64 k t0 u).get p.2 = (enc_round_64 k t0 u').get p.2 := by
  intro p hp u u'
  rcases u with ⟨b0, b1, b2, b3, b4, b5, b6, b7, b8, b9, b10, b11, b12, b13, b14, b15⟩
  rcases u' with ⟨c0, c1, c2, c3, c4, c5, c6, c7, c8, c9, c10, c11, c12, c13, c14, c15⟩
  simp only [enc_mix_pairs, Nat.reduceMod, List.getD_cons_zero, List.getD_cons_succ,
    List.mem_cons, List.mem_singleton, List.not_mem_nil, or_false] at hp
  rcases hp with rfl | rfl | rfl | rfl | rfl | rfl | rfl | rfl <;>
    (simp only [State.get, store_block, enc_round_64, List.getD_cons_zero, List.getD_cons_succ]
     intro h1 h2
     subst h1 h2
     exact ⟨rfl, rfl⟩)

theorem enc_round_65_local (k : Nat → Nat) (t0 : Nat) :
    ∀ p ∈ enc_mix_pairs 65, ∀ u u' : State, u.get p.1 = u'.get p.1 → u.get p.2 = u'.get p.2 →
      (enc_round_65 k t0 u).get p.1 = (enc_round_65 k t0 u').get p.1 ∧
      (enc_round_65 k t0 u).get p.2 = (enc_round_65 k t0 u').get p.2 := by
  intro p hp u u'
  rcases u with ⟨b0, b1, b2, b3, b4, b5, b6, b7, b8, b9, b10, b11, b12, b13, b14, b15⟩
  rcases u' with ⟨c0, c1, c2, c3, c4, c5, c6, c7, c8, c9, c10, c11, c12, c13, c14, c15⟩
  simp only [enc_mix_pairs, Nat.reduceMod, List.getD_cons_zero, List.getD_cons_succ,
    List.mem_cons, List.mem_singleton, List.not_mem_nil, or_false] at hp
  rcases hp with rfl | rfl | rfl | rfl | rfl | rfl | rfl | rfl <;>
    (simp only [State.get, store_block, enc_round_65, List.getD_cons_zero, List.getD_cons_succ]
     intro h1 h2
     subst h1 h2
     exact ⟨rfl, rfl⟩)

theorem enc_round_66_local (k : Nat → Nat) (t0 : Nat) :
    ∀ p ∈ enc_mix_pairs 66, ∀ u u' : State, u.get p.1 = u'.get p.1 → u.get p.2 = u'.get p.2 →
      (enc_round_66 k t0 u).get p.1 = (enc_round_66 k t0 u').get p.1 ∧
      (enc_round_66 k t0 u).get p.2 = (enc_round_66 k t0 u').get p.2 := by
  intro p hp u u'
  rcases u with ⟨b0, b1, b2, b3, b4, b5, b6, b7, b8, b9, b10, b11, b12, b13, b14, b15⟩
  rcases u' with ⟨c0, c1, c2, c3, c4, c5, c6, c7, c8, c9, c10, c11, c12, c13, c14, c15⟩
  simp only [enc_mix_pairs, Nat.reduceMod, List.getD_cons_zero, List.getD_cons_succ,
    List.mem_cons, List.mem_singleton, List.not_mem_nil, or_false] at hp
  rcases hp with rfl | rfl | rfl | rfl | rfl | rfl | rfl | rfl <;>
    (simp only [State.get, store_block, enc_round_66, List.getD_cons_zero, List.getD_cons_succ]
     intro h1 h2
     subst h1 h2
     exact ⟨rfl, rfl⟩)

theorem enc_round_67_local (k : Nat → Nat) (t0 : Nat) :
    ∀ p ∈ enc_mix_pairs 67, ∀ u u' : State, u.get p.1 = u'.get p.1 → u.get p.2 = u'.get p.2 →
      (enc_round_67 k t0 u).get p.1 = (enc_round_67 k t0 u').get p.1 ∧
      (enc_round_67 k t0 u).get p.2 = (enc_round_67 k t0 u').get p.2 := by
  intro p hp u u'
  rcases u with ⟨b0, b1, b2, b3, b4, b5, b6, b7, b8, b9, b10, b11, b12, b13, b14, b15⟩
  rcases u' with ⟨c0, c1, c2, c3, c4, c5, c6, c7, c8, c9, c10, c11, c12, c13, c14, c15⟩
  simp only [enc_mix_pairs, Nat.reduceMod, List.getD_cons_zero, List.getD_cons_succ,
    List.mem_cons, List.mem_singleton, List.not_mem_nil, or_false] at hp
  rcases hp with rfl | rfl | rfl | rfl | rfl | rfl | rfl | rfl <;>
    (simp only [State.get, store_block, enc_round_67, List.getD_cons_zero, List.getD_cons_succ]
     intro h1 h2
     subst h1 h2
     exact ⟨rfl, rfl⟩)

theorem enc_round_68_local (k : Nat → Nat) (t0 : Nat) :
    ∀ p ∈ enc_mix_pairs 68, ∀ u u' : State, u.get p.1 = u'.get p.1 → u.get p.2 = u'.get p.2 →
      (enc_round_68 k t0 u).get p.1 = (enc_round_68 k t0 u').get p.1 ∧
      (enc_round_68 k t0 u).get p.2 = (enc_round_68 k t0 u').get p.2 := by
  intro p hp u u'
  rcases u with ⟨b0, b1, b2, b3, b4, b5, b6, b7, b8, b9, b10, b11, b12, b13, b14, b15⟩
  rcases u' with ⟨c0, c1, c2, c3, c4, c5, c6, c7, c8, c9, c10, c11, c12, c13, c14, c15⟩
  simp only [enc_mix_pairs, Nat.reduceMod, List.getD_cons_zero, List.getD_cons_succ,
    List.mem_cons, List.mem_singleton, List.not_mem_nil, or_false] at hp
  rcases hp with rfl | rfl | rfl | rfl | rfl | rfl | rfl | rfl <;>
    (simp only [State.get, store_block, enc_round_68, List.getD_cons_zero, List.getD_cons_succ]
     intro h1 h2
     subst h1 h2
     exact ⟨rfl, rfl⟩)

theorem enc_round_69_local (k : Nat → Nat) (t0 : Nat) :
    ∀ p ∈ enc_mix_pairs 69, ∀ u u' : State, u.get p.1 = u'.get p.1 → u.get p.2 = u'.get p.2 →
      (enc_round_69 k t0 u).get p.1 = (enc_round_69 k t0 u').get p.1 ∧
      (enc_round_69 k t0 u).get p.2 = (enc_round_69 k t0 u').get p.2 := by
  intro p hp u u'
  rcases u with ⟨b0, b1, b2, b3, b4, b5, b6, b7, b8, b9, b10, b11, b12, b13, b14, b15⟩
  rcases u' with ⟨c0, c1, c2, c3, c4, c5, c6, c7, c8, c9, c10, c11, c12, c13, c14, c15⟩
  simp only [enc_mix_pairs, Nat.reduceMod, List.getD_cons_zero, List.getD_cons_succ,
    List.mem_cons, List.mem_singleton, List.not_mem_nil, or_false] at hp
  rcases hp with rfl | rfl | rfl | rfl | rfl | rfl | rfl | rfl <;>
    (simp only [State.get, store_block, enc_round_69, List.getD_cons_zero, List.getD_cons_succ]
     intro h1 h2
     subst h1 h2
     exact ⟨rfl, rfl⟩)

theorem enc_round_70_local (k : Nat → Nat) (t0 : Nat) :
    ∀ p ∈ enc_mix_pairs 70, ∀ u u' : State, u.get p.1 = u'.get p.1 → u.get p.2 = u'.get p.2 →
      (enc_round_70 k t0 u).get p.1 = (enc_round_70 k t0 u').get p.1 ∧
      (enc_round_70 k t0 u).get p.2 = (enc_round_70 k t0 u').get p.2 := by
  intro p hp u u'
  rcases u with ⟨b0, b1, b2, b3, b4, b5, b6, b7, b8, b9, b10, b11, b12, b13, b14, b15⟩
  rcases u' with ⟨c0, c1, c2, c3, c4, c5, c6, c7, c8, c9, c10, c11, c12, c13, c14, c15⟩
  simp only [enc_mix_pairs, Nat.reduceMod, List.getD_cons_zero, List.getD_cons_succ,
    List.mem_cons, List.mem_singleton, List.not_mem_nil, or_false] at hp
  rcases hp with rfl | rfl | rfl | rfl | rfl | rfl | rfl | rfl <;>
    (simp only [State.get, store_block, enc_round_70, List.getD_cons_zero, List.getD_cons_succ]
     intro h1 h2
     subst h1 h2
     exact ⟨rfl, rfl⟩)

theorem enc_round_71_local (k : Nat → Nat) (t0 : Nat) :
    ∀ p ∈ enc_mix_pairs 71, ∀ u u' : State, u.get p.1 = u'.get p.1 → u.get p.2 = u'.get p.2 →
      (enc_round_71 k t0 u).get p.1 = (enc_round_71 k t0 u').get p.1 ∧
      (enc_round_71 k t0 u).get p.2 = (enc_round_71 k t0 u').get p.2 := by
  intro p hp u u'
  rcases u with ⟨b0, b1, b2, b3, b4, b5, b6, b7, b8, b9, b10, b11, b12, b13, b14, b15⟩
  rcases u' with ⟨c0, c1, c2, c3, c4, c5, c6, c7, c8, c9, c10, c11, c12, c13, c14, c15⟩
  simp only [enc_mix_pairs, Nat.reduceMod, List.getD_cons_zero, List.getD_cons_succ,
    List.mem_cons, List.mem_singleton, List.not_mem_nil, or_false] at hp
  rcases hp with rfl | rfl | rfl | rfl | rfl | rfl | rfl | rfl <;>
    (simp only [State.get, store_block, enc_round_71, List.getD_cons_zero, List.getD_cons_succ]
     intro h1 h2
     subst h1 h2
     exact ⟨rfl, rfl⟩)

theorem enc_round_72_local (k : Nat → Nat) (t0 : Nat) :
    ∀ p ∈ enc_mix_pairs 72, ∀ u u' : State, u.get p.1 = u'.get p.1 → u.get p.2 = u'.get p.2 →
      (enc_round_72 k t0 u).get p.1 = (enc_round_72 k t0 u').get p.1 ∧
      (enc_round_72 k t0 u).get p.2 = (enc_round_72 k t0 u').get p.2 := by
  intro p hp u u'
  rcases u with ⟨b0, b1, b2, b3, b4, b5, b6, b7, b8, b9, b10, b11, b12, b13, b14, b15⟩
  rcases u' with ⟨c0, c1, c2, c3, c4, c5, c6, c7, c8, c9, c10, c11, c12, c13, c14, c15⟩
  simp only [enc_mix_pairs, Nat.reduceMod, List.getD_cons_zero, List.getD_cons_succ,
    List.mem_cons, List.mem_singleton, List.not_mem_nil, or_false] at hp
  rcases hp with rfl | rfl | rfl | rfl | rfl | rfl | rfl | rfl <;>
    (simp only [State.get, store_block, enc_round_72, List.getD_cons_zero, List.getD_cons_succ]
     intro h1 h2
     subst h1 h2
     exact ⟨rfl, rfl⟩)

theorem enc_round_73_local (k : Nat → Nat) (t0 : Nat) :
    ∀ p ∈ enc_mix_pairs 73, ∀ u u' : State, u.get p.1 = u'.get p.1 → u.get p.2 = u'.get p.2 →
      (enc_round_73 k t0 u).get p.1 = (enc_round_73 k t0 u').get p.1 ∧
      (enc_round_73 k t0 u).get p.2 = (enc_round_73 k t0 u').get p.2 := by
  intro p hp u u'
  rcases u with ⟨b0, b1, b2, b3, b4, b5, b6, b7, b8, b9, b10, b11, b12, b13, b14, b15⟩
  rcases u' with ⟨c0, c1, c2, c3, c4, c5, c6, c7, c8, c9, c10, c11, c12, c13, c14, c15⟩
  simp only [enc_mix_pairs, Nat.reduceMod, List.getD_cons_zero, List.getD_cons_succ,
    List.mem_cons, List.mem_singleton, List.not_mem_nil, or_false] at hp
  rcases hp with rfl | rfl | rfl | rfl | rfl | rfl | rfl | rfl <;>
    (simp only [State.get, store_block, enc_round_73, List.getD_cons_zero, List.getD_cons_succ]
     intro h1 h2
     subst h1 h2
     exact ⟨rfl, rfl⟩)

theorem enc_round_74_local (k : Nat → Nat) (t0 : Nat) :
    ∀ p ∈ enc_mix_pairs 74, ∀ u u' : State, u.get p.1 = u'.get p.1 → u.get p.2 = u'.get p.2 →
      (enc_round_74 k t0 u).get p.1 = (enc_round_74 k t0 u').get p.1 ∧
      (enc_round_74 k t0 u).get p.2 = (enc_round_74 k t0 u').get p.2 := by
  intro p hp u u'
  rcases u with ⟨b0, b1, b2, b3, b4, b5, b6, b7, b8, b9, b10, b11, b12, b13, b14, b15⟩
  rcases u' with ⟨c0, c1, c2, c3, c4, c5, c6, c7, c8, c9, c10, c11, c12, c13, c14, c15⟩
  simp only [enc_mix_pairs, Nat.reduceMod, List.getD_cons_zero, List.getD_cons_succ,
    List.mem_cons, List.mem_singleton, List.not_mem_nil, or_false] at hp
  rcases hp with rfl | rfl | rfl | rfl | rfl | rfl | rfl | rfl <;>
    (simp only [State.get, store_block, enc_round_74, List.getD_cons_zero, List.getD_cons_succ]
     intro h1 h2
     subst h1 h2
     exact ⟨rfl, rfl⟩)

theorem enc_round_75_local (k : Nat → Nat) (t0 : Nat) :
    ∀ p ∈ enc_mix_pairs 75, ∀ u u' : State, u.get p.1 = u'.get p.1 → u.get p.2 = u'.get p.2 →
      (enc_round_75 k t0 u).get p.1 = (enc_round_75 k t0 u').get p.1 ∧
      (enc_round_75 k t0 u).get p.2 = (enc_round_75 k t0 u').get p.2 := by
  intro p hp u u'
  rcases u with ⟨b0, b1, b2, b3, b4, b5, b6, b7, b8, b9, b10, b11, b12, b13, b14, b15⟩
  rcases u' with ⟨c0, c1, c2, c3, c4, c5, c6, c7, c8, c9, c10, c11, c12, c13, c14, c15⟩
  simp only [enc_mix_pairs, Nat.reduceMod, List.getD_cons_zero, List.getD_cons_succ,
    List.mem_cons, List.mem_singleton, List.not_mem_nil, or_false] at hp
  rcases hp with rfl | rfl | rfl | rfl | rfl | rfl | rfl | rfl <;>
    (simp only [State.get, store_block, enc_round_75, List.getD_cons_zero, List.getD_cons_succ]
     intro h1 h2
     subst h1 h2
     exact ⟨rfl, rfl⟩)

theorem enc_round_76_local (k : Nat → Nat) (t0 : Nat) :
    ∀ p ∈ enc_mix_pairs 76, ∀ u u' : State, u.get p.1 = u'.get p.1 → u.get p.2 = u'.get p.2 →
      (enc_round_76 k t0 u).get p.1 = (enc_round_76 k t0 u').get p.1 ∧
      (enc_round_76 k t0 u).get p.2 = (enc_round_76 k t0 u').get p.2 := by
  intro p hp u u'
  rcases u with ⟨b0, b1, b2, b3, b4, b5, b6, b7, b8, b9, b10, b11, b12, b13, b14, b15⟩
  rcases u' with ⟨c0, c1, c2, c3, c4, c5, c6, c7, c8, c9, c10, c11, c12, c13, c14, c15⟩
  simp only [enc_mix_pairs, Nat.reduceMod, List.getD_cons_zero, List.getD_cons_succ,
    List.mem_cons, List.mem_singleton, List.not_mem_nil, or_false] at hp
  rcases hp with rfl | rfl | rfl | rfl | rfl | rfl | rfl | rfl <;>
    (simp only [State.get, store_block, enc_round_76, List.getD_cons_zero, List.getD_cons_succ]
     intro h1 h2
     subst h1 h2
     exact ⟨rfl, rfl⟩)

theorem enc_round_77_local (k : Nat → Nat) (t0 : Nat) :
    ∀ p ∈ enc_mix_pairs 77, ∀ u u' : State, u.get p.1 = u'.get p.1 → u.get p.2 = u'.get p.2 →
      (enc_round_77 k t0 u).get p.1 = (enc_round_77 k t0 u').get p.1 ∧
      (enc_round_77 k t0 u).get p.2 = (enc_round_77 k t0 u').get p.2 := by
  intro p hp u u'
  rcases u with ⟨b0, b1, b2, b3, b4, b5, b6, b7, b8, b9, b10, b11, b12, b13, b14, b15⟩
  rcases u' with ⟨c0, c1, c2, c3, c4, c5, c6, c7, c8, c9, c10, c11, c12, c13, c14, c15⟩
  simp only [enc_mix_pairs, Nat.reduceMod, List.getD_cons_zero, List.getD_cons_succ,
    List.mem_cons, List.mem_singleton, List.not_mem_nil, or_false] at hp
  rcases hp with rfl | rfl | rfl | rfl | rfl | rfl | rfl | rfl <;>
    (simp only [State.get, store_block, enc_round_77, List.getD_cons_zero, List.getD_cons_succ]
     intro h1 h2
     subst h1 h2
     exact ⟨rfl, rfl⟩)

theorem enc_round_78_local (k : Nat → Nat) (t0 : Nat) :
    ∀ p ∈ enc_mix_pairs 78, ∀ u u' : State, u.get p.1 = u'.get p.1 → u.get p.2 = u'.get p.2 →
      (enc_round_78 k t0 u).get p.1 = (enc_round_78 k t0 u').get p.1 ∧
      (enc_round_78 k t0 u).get p.2 = (enc_round_78 k t0 u').get p.2 := by
  intro p hp u u'
  rcases u with ⟨b0, b1, b2, b3, b4, b5, b6, b7, b8, b9, b10, b11, b12, b13, b14, b15⟩
  rcases u' with ⟨c0, c1, c2, c3, c4, c5, c6, c7, c8, c9, c10, c11, c12, c13, c14, c15⟩
  simp only [enc_mix_pairs, Nat.reduceMod, List.getD_cons_zero, List.getD_cons_succ,
    List.mem_cons, List.mem_singleton, List.not_mem_nil, or_false] at hp
  rcases hp with rfl | rfl | rfl | rfl | rfl | rfl | rfl | rfl <;>
    (simp only [State.get, store_block, enc_round_78, List.getD_cons_zero, List.getD_cons_succ]
     intro h1 h2
     subst h1 h2
     exact ⟨rfl, rfl⟩)

theorem enc_round_79_local (k : Nat → Nat) (t0 : Nat) :
    ∀ p ∈ enc_mix_pairs 79, ∀ u u' : State, u.get p.1 = u'.get p.1 → u.get p.2 = u'.get p.2 →
      (enc_round_79 k t0 u).get p.1 = (enc_round_79 k t0 u').get p.1 ∧
      (enc_round_79 k t0 u).get p.2 = (enc_round_79 k t0 u').get p.2 := by
  intro p hp u u'
  rcases u with ⟨b0, b1, b2, b3, b4, b5, b6, b7, b8, b9, b10, b11, b12, b13, b14, b15⟩
  rcases u' with ⟨c0, c1, c2, c3, c4, c5, c6, c7, c8, c9, c10, c11, c12, c13, c14, c15⟩
  simp only [enc_mix_pairs, Nat.reduceMod, List.getD_cons_zero, List.getD_cons_succ,
    List.mem_cons, List.mem_singleton, List.not_mem_nil, or_false] at hp
  rcases hp with rfl | rfl | rfl | rfl | rfl | rfl | rfl | rfl <;>
    (simp only [State.get, store_block, enc_round_79, List.getD_cons_zero, List.getD_cons_succ]
     intro h1 h2
     subst h1 h2
     exact ⟨rfl, rfl⟩)

theorem enc_round_local (k : Nat → Nat) (t0 d : Nat) (hd : d < 80) :
    ∀ p ∈ enc_mix_pairs d, ∀ u u' : State, u.get p.1 = u'.get p.1 → u.get p.2 = u'.get p.2 →
      (enc_round d k t0 u).get p.1 = (enc_round d k t0 u').get p.1 ∧
      (enc_round d k t0 u).get p.2 = (enc_round d k t0 u').get p.2 := by
  interval_cases d
  · exact enc_round_0_local k t0
  · exact enc_round_1_local k t0
  · exact enc_round_2_local k t0
  · exact enc_round_3_local k t0
  · exact enc_round_4_local k t0
  · exact enc_round_5_local k t0
  · exact enc_round_6_local k t0
  · exact enc_round_7_local k t0
  · exact enc_round_8_local k t0
  · exact enc_round_9_local k t0
  · exact enc_round_10_local k t0
  · exact enc_round_11_local k t0
  · exact enc_round_12_local k t0
  · exact enc_round_13_local k t0
  · exact enc_round_14_local k t0
  · exact enc_round_15_local k t0
  · exact enc_round_16_local k t0
  · exact enc_round_17_local k t0
  · exact enc_round_18_local k t0
  · exact enc_round_19_local k t0
  · exact enc_round_20_local k t0
  · exact enc_round_21_local k t0
  · exact enc_round_22_local k t0
  · exact enc_round_23_local k t0
  · exact enc_round_24_local k t0
  · exact enc_round_25_local k t0
  · exact enc_round_26_local k t0
  · exact enc_round_27_local k t0
  · exact enc_round_28_local k t0
  · exact enc_round_29_local k t0
  · exact enc_round_30_local k t0
  · exact enc_round_31_local k t0
  · exact enc_round_32_local k t0
  · exact enc_round_33_local k t0
  · exact enc_round_34_local k t0
  · exact enc_round_35_local k t0
  · exact enc_round_36_local k t0
  · exact enc_round_37_local k t0
  · exact enc_round_38_local k t0
  · exact enc_round_39_local k t0
  · exact enc_round_40_local k t0
  · exact enc_round_41_local k t0
  · exact enc_round_42_local k t0
  · exact enc_round_43_local k t0
  · exact enc_round_44_local k t0
  · exact enc_round_45_local k t0
  · exact enc_round_46_local k t0
  · exact enc_round_47_local k t0
  · exact enc_round_48_local k t0
  · exact enc_round_49_local k t0
  · exact enc_round_50_local k t0
  · exact enc_round_51_local k t0
  · exact enc_round_52_local k t0
  · exact enc_round_53_local k t0
  · exact enc_round_54_local k t0
  · exact enc_round_55_local k t0
  · exact enc_round_56_local k t0
  · exact enc_round_57_local k t0
  · exact enc_round_58_local k t0
  · exact enc_round_59_local k t0
  · exact enc_round_60_local k t0
  · exact enc_round_61_local k t0
  · exact enc_round_62_local k t0
  · exact enc_round_63_local k t0
  · exact enc_round_64_local k t0
  · exact enc_round_65_local k t0
  · exact enc_round_66_local k t0
  · exact enc_round_67_local k t0
  · exact enc_round_68_local k t0
  · exact enc_round_69_local k t0
  · exact enc_round_70_local k t0
  · exact enc_round_71_local k t0
  · exact enc_round_72_local k t0
  · exact enc_round_73_local k t0
  · exact enc_round_74_local k t0
  · exact enc_round_75_local k t0
  · exact enc_round_76_local k t0
  · exact enc_round_77_local k t0
  · exact enc_round_78_local k t0
  · exact enc_round_79_local k t0

theorem enc_mix_pairs_mod (d : Nat) : enc_mix_pairs d = enc_mix_pairs (d % 4) := by
  simp only [enc_mix_pairs, Nat.mod_mod]

theorem enc_mix_pairs_shape (d : Nat) :
    (enc_mix_pairs d).length = 8 ∧
    (∀ p ∈ enc_mix_pairs d, p.1 % 2 = 0 ∧ p.2 % 2 = 1) ∧
    List.Perm ((enc_mix_pairs d).flatMap fun p => [p.1, p.2]) (List.range 16) := by
  rw [enc_mix_pairs_mod]
  have hm : d % 4 < 4 := Nat.mod_lt _ (by decide)
  generalize d % 4 = m at hm
  interval_cases m <;> decide

/-! ## Subkey steps of the unrolled code -/

theorem ref_sub_add_subkey (K : List Nat) (t0 s : Nat) (v : List Nat) (hv : is_block v) :
    ref_sub_subkey K t0 s (ref_add_subkey K t0 s v) = v := by
  obtain ⟨hl, hw⟩ := hv
  obtain ⟨a0, a1, a2, a3, a4, a5, a6, a7, a8, a9, a10, a11, a12, a13, a14, a15, rfl⟩ :=
    length_16_cases hl
  simp only [List.mem_cons, List.mem_singleton, forall_eq_or_imp, forall_eq, List.not_mem_nil,
    false_implies, implies_true, and_true] at hw
  obtain ⟨h0, h1, h2, h3, h4, h5, h6, h7, h8, h9, h10, h11, h12, h13, h14, h15⟩ := hw
  simp (disch := assumption) only [ref_add_subkey_cons, ref_sub_subkey_cons, sub64_add64]

theorem fused_subkey_undone (a b k k' : Nat) (ha : a < 2 ^ 64) (hb : b < 2 ^ 64) :
    sub64 (add64 a (add64 (add64 b k) k')) (add64 (add64 b k) k') = a ∧
    sub64 (add64 b k) k = b :=
  ⟨sub64_add64 a _ ha, sub64_add64 b k hb⟩

theorem dec_enc_subkey_round (k : Nat → Nat) (t0 s : Nat) (hs : s < 20) (st : State)
    (h : st.wf) : dec_round (4 * s) k t0 (enc_round (4 * s) k t0 st) = st := by
  interval_cases s
  · exact dec_enc_round_0 k t0 st h
  · exact dec_enc_round_4 k t0 st h
  · exact dec_enc_round_8 k t0 st h
  · exact dec_enc_round_12 k t0 st h
  · exact dec_enc_round_16 k t0 st h
  · exact dec_enc_round_20 k t0 st h
  · exact dec_enc_round_24 k t0 st h
  · exact dec_enc_round_28 k t0 st h
  · exact dec_enc_round_32 k t0 st h
  · exact dec_enc_round_36 k t0 st h
  · exact dec_enc_round_40 k t0 st h
  · exact dec_enc_round_44 k t0 st h
  · exact dec_enc_round_48 k t0 st h
  · exact dec_enc_round_52 k t0 st h
  · exact dec_enc_round_56 k t0 st h
  · exact dec_enc_round_60 k t0 st h
  · exact dec_enc_round_64 k t0 st h
  · exact dec_enc_round_68 k t0 st h
  · exact dec_enc_round_72 k t0 st h
  · exact dec_enc_round_76 k t0 st h

theorem enc_subkey_round_ref (K : threefish_key) (t0 s : Nat) (hs : s < 20) (st : State) :
    ref_view 1 (enc_round (4 * s) (load_key K) t0 st) =
      ref_permute (ref_mix_layer (4 * s) (ref_add_subkey K.key t0 s (ref_view 0 st))) := by
  interval_cases s
  · exact (enc_ref_round_0 K t0 st).symm
  · exact (enc_ref_round_4 K t0 st).symm
  · exact (enc_ref_round_8 K t0 st).symm
  · exact (enc_ref_round_12 K t0 st).symm
  · exact (enc_ref_round_16 K t0 st).symm
  · exact (enc_ref_round_20 K t0 st).symm
  · exact (enc_ref_round_24 K t0 st).symm
  · exact (enc_ref_round_28 K t0 st).symm
  · exact (enc_ref_round_32 K t0 st).symm
  · exact (enc_ref_round_36 K t0 st).symm
  · exact (enc_ref_round_40 K t0 st).symm
  · exact (enc_ref_round_44 K t0 st).symm
  · exact (enc_ref_round_48 K t0 st).symm
  · exact (enc_ref_round_52 K t0 st).symm
  · exact (enc_ref_round_56 K t0 st).symm
  · exact (enc_ref_round_60 K t0 st).symm
  · exact (enc_ref_round_64 K t0 st).symm
  · exact (enc_ref_round_68 K t0 st).symm
  · exact (enc_ref_round_72 K t0 st).symm
  · exact (enc_ref_round_76 K t0 st).symm

theorem dec_subkey_round_ref (K : threefish_key) (t0 s : Nat) (hs : s < 20) (st : State) :
    ref_view 0 (dec_round (4 * s) (load_key K) t0 st) =
      ref_sub_subkey K.key t0 s (ref_unmix_layer (4 * s) (ref_unpermute (ref_view 1 st))) := by
  interval_cases s
  · exact (dec_ref_round_0 K t0 st).symm
  · exact (dec_ref_round_4 K t0 st).symm
  · exact (dec_ref_round_8 K t0 st).symm
  · exact (dec_ref_round_12 K t0 st).symm
  · exact (dec_ref_round_16 K t0 st).symm
  · exact (dec_ref_round_20 K t0 st).symm
  · exact (dec_ref_round_24 K t0 st).symm
  · exact (dec_ref_round_28 K t0 st).symm
  · exact (dec_ref_round_32 K t0 st).symm
  · exact (dec_ref_round_36 K t0 st).symm
  · exact (dec_ref_round_40 K t0 st).symm
  · exact (dec_ref_round_44 K t0 st).symm
  · exact (dec_ref_round_48 K t0 st).symm
  · exact (dec_ref_round_52 K t0 st).symm
  · exact (dec_ref_round_56 K t0 st).symm
  · exact (dec_ref_round_60 K t0 st).symm
  · exact (dec_ref_round_64 K t0 st).symm
  · exact (dec_ref_round_68 K t0 st).symm
  · exact (dec_ref_round_72 K t0 st).symm
  · exact (dec_ref_round_76 K t0 st).symm

/-! ## The stream walk -/

theorem length_ge_16_cases {b : List Nat} (hb : 16 ≤ b.length) :
    ∃ a0 a1 a2 a3 a4 a5 a6 a7 a8 a9 a10 a11 a12 a13 a14 a15 rest,
      b = a0 :: a1 :: a2 :: a3 :: a4 :: a5 :: a6 :: a7 :: a8 :: a9 :: a10 :: a11 :: a12 :: a13 ::
        a14 :: a15 :: rest := by
  have ht : (b.take 16).length = 16 := by simp [List.length_take]; omega
  obtain ⟨a0, a1, a2, a3, a4, a5, a6, a7, a8, a9, a10, a11, a12, a13, a14, a15, e⟩ :=
    length_16_cases ht
  refine ⟨a0, a1, a2, a3, a4, a5, a6, a7, a8, a9, a10, a11, a12, a13, a14, a15, b.drop 16, ?_⟩
  have := List.take_append_drop 16 b
  rw [e] at this
  exact this.symm

theorem split_window (mem : List Nat) (p : Nat) (hp : p + 16 ≤ mem.length) :
    ∃ A a0 a1 a2 a3 a4 a5 a6 a7 a8 a9 a10 a11 a12 a13 a14 a15 C, A.length = p ∧
      mem = A ++ (a0 :: a1 :: a2 :: a3 :: a4 :: a5 :: a6 :: a7 :: a8 :: a9 :: a10 :: a11 ::
        a12 :: a13 :: a14 :: a15 :: C) := by
  have hd : 16 ≤ (mem.drop p).length := by simp [List.length_drop]; omega
  obtain ⟨a0, a1, a2, a3, a4, a5, a6, a7, a8, a9, a10, a11, a12, a13, a14, a15, C, e⟩ :=
    length_ge_16_cases hd
  refine ⟨mem.take p, a0, a1, a2, a3, a4, a5, a6, a7, a8, a9, a10, a11, a12, a13, a14, a15, C,
    ?_, ?_⟩
  · simp [List.length_take]; omega
  · rw [← e, List.take_append_drop]

theorem set_window (A W : List Nat) (i x : Nat) :
    (A ++ W).set (A.length + i) x = A ++ W.set i x := by
  rw [List.set_append]
  simp

theorem write_block_enc (mem : List Nat) (p : Nat) (out : List Nat)
    (hp : p + 16 ≤ mem.length) (ho : out.length = 16) :
    write_block enc_store_order mem p out = mem.take p ++ (out ++ mem.drop (p + 16)) := by
  obtain ⟨A, a0, a1, a2, a3, a4, a5, a6, a7, a8, a9, a10, a11, a12, a13, a14, a15, C, hA, rfl⟩ :=
    split_window mem p hp
  obtain ⟨o0, o1, o2, o3, o4, o5, o6, o7, o8, o9, o10, o11, o12, o13, o14, o15, rfl⟩ :=
    length_16_cases ho
  subst hA
  simp only [write_block, enc_store_order, List.foldl_cons, List.foldl_nil, set_window,
    List.set_cons_zero, List.set_cons_succ, List.getD_cons_zero, List.getD_cons_succ]
  simp

theorem write_block_dec (mem : List Nat) (p : Nat) (out : List Nat)
    (hp : p + 16 ≤ mem.length) (ho : out.length = 16) :
    write_block dec_store_order mem p out = mem.take p ++ (out ++ mem.drop (p + 16)) := by
  obtain ⟨A, a0, a1, a2, a3, a4, a5, a6, a7, a8, a9, a10, a11, a12, a13, a14, a15, C, hA, rfl⟩ :=
    split_window mem p hp
  obtain ⟨o0, o1, o2, o3, o4, o5, o6, o7, o8, o9, o10, o11, o12, o13, o14, o15, rfl⟩ :=
    length_16_cases ho
  subst hA
  simp only [write_block, dec_store_order, List.foldl_cons, List.foldl_nil, set_window,
    List.set_cons_zero, List.set_cons_succ, List.getD_cons_zero, List.getD_cons_succ]
  simp

theorem read_block_window (A W C : List Nat) (hW : W.length = 16) :
    read_block (A ++ (W ++ C)) A.length = W := by
  obtain ⟨o0, o1, o2, o3, o4, o5, o6, o7, o8, o9, o10, o11, o12, o13, o14, o15, rfl⟩ :=
    length_16_cases hW
  simp [read_block, range_16, List.getD_eq_getElem?_getD, List.getElem?_append_right]

/-! ## The loop of the stream functions -/

theorem sub32_of_le (a b : Nat) (ha : a < 2 ^ 32) (hb : b ≤ a) : sub32 a b = a - b := by
  unfold sub32
  have hb2 : b % 2 ^ 32 = b := Nat.mod_eq_of_lt (by omega)
  rw [hb2]
  omega

theorem walk_loop_eq_iterate (body : walk_locals → walk_locals)
    (hbody : ∀ st, (body st).nbytes = sub32 st.nbytes 128) :
    ∀ (fuel : Nat) (st : walk_locals), st.nbytes < 2 ^ 32 → st.nbytes / 128 < fuel →
      walk_loop body 128 fuel st = Nat.iterate body (st.nbytes / 128) st := by
  intro fuel
  induction fuel with
  | zero => intro st _ hf; omega
  | succ fuel ih =>
    intro st hlt hf
    rw [walk_loop]
    by_cases hge : st.nbytes ≥ 128
    · have hn : (body st).nbytes = st.nbytes - 128 := by
        rw [hbody, sub32_of_le _ _ hlt hge]
      have hq : st.nbytes / 128 = (body st).nbytes / 128 + 1 := by rw [hn]; omega
      rw [if_pos hge, ih (body st) (by rw [hn]; omega) (by omega), hq, Function.iterate_succ_apply]
    · have hq : st.nbytes / 128 = 0 := by omega
      rw [if_neg hge, hq]
      rfl

theorem stream_blocks_succ (f : List Nat → Nat → List Nat) (src : List Nat) (v n : Nat) :
    stream_blocks f src v (n + 1) =
      stream_blocks f src v n ++ [f (read_block src (16 * n)) ((v + n) % 2 ^ 64)] := by
  simp only [stream_blocks, List.range_succ, List.map_append, List.map_cons, List.map_nil]

theorem stream_blocks_length (f : List Nat → Nat → List Nat) (hf : ∀ b t, (f b t).length = 16)
    (src : List Nat) (v n : Nat) : (stream_blocks f src v n).flatten.length = 16 * n := by
  induction n with
  | zero => rfl
  | succ n ih =>
    rw [stream_blocks_succ, List.flatten_append, List.length_append, ih]
    simp [hf]
    omega

theorem walk_body_iterate (order : List Nat) (f : List Nat → Nat → List Nat)
    (hf : ∀ b t, (f b t).length = 16)
    (horder : ∀ (mem : List Nat) (p : Nat) (out : List Nat), p + 16 ≤ mem.length →
      out.length = 16 → write_block order mem p out = mem.take p ++ (out ++ mem.drop (p + 16)))
    (src dst : List Nat) (nb v : Nat) (hnb : nb < 2 ^ 32) (hv : v < 2 ^ 64) :
    ∀ j, 128 * j ≤ nb → 16 * j ≤ dst.length →
      Nat.iterate (walk_body order f src 128) j ⟨nb, 0, 0, v, dst⟩ =
        ⟨nb - 128 * j, 16 * j, 16 * j, (v + j) % 2 ^ 64,
          (stream_blocks f src v j).flatten ++ dst.drop (16 * j)⟩ := by
  intro j
  induction j with
  | zero =>
    intro _ _
    have e : (v + 0) % 2 ^ 64 = v := Nat.mod_eq_of_lt hv
    rw [e]
    rfl
  | succ j ih =>
    intro h1 h2
    have hlen := stream_blocks_length f hf src v j
    rw [Function.iterate_succ_apply', ih (by omega) (by omega)]
    have hw : 16 * j + 16 ≤ ((stream_blocks f src v j).flatten ++ dst.drop (16 * j)).length := by
      rw [List.length_append, hlen, List.length_drop]; omega
    simp only [walk_body]
    rw [horder _ _ _ hw (hf _ _), sub32_of_le _ _ (by omega) (by omega),
      stream_blocks_succ, List.flatten_append]
    have e1 : ((stream_blocks f src v j).flatten ++ dst.drop (16 * j)).take (16 * j) =
        (stream_blocks f src v j).flatten := by
      rw [← hlen, List.take_left']
      rfl
    have e2 : ((stream_blocks f src v j).flatten ++ dst.drop (16 * j)).drop (16 * j + 16) =
        dst.drop (16 * (j + 1)) := by
      rw [List.drop_append_eq_append_drop, hlen]
      have : (stream_blocks f src v j).flatten.drop (16 * j + 16) = [] := by
        apply List.drop_eq_nil_of_le; omega
      rw [this, List.drop_drop]
      simp
      rfl
    rw [e1, e2]
    simp only [walk_locals.mk.injEq]
    refine ⟨by omega, by ring, by ring, by unfold add64; omega, ?_⟩
    simp only [List.flatten_cons, List.flatten_nil, List.append_nil, List.append_assoc]

/-! ## The stored counter -/

theorem length_8_cases {b : List Nat} (hb : b.length = 8) :
    ∃ a0 a1 a2 a3 a4 a5 a6 a7, b = [a0, a1, a2, a3, a4, a5, a6, a7] := by
  obtain ⟨a0, r0, e0, l0⟩ := length_succ_cases hb
  obtain ⟨a1, r1, e1, l1⟩ := length_succ_cases l0
  obtain ⟨a2, r2, e2, l2⟩ := length_succ_cases l1
  obtain ⟨a3, r3, e3, l3⟩ := length_succ_cases l2
  obtain ⟨a4, r4, e4, l4⟩ := length_succ_cases l3
  obtain ⟨a5, r5, e5, l5⟩ := length_succ_cases l4
  obtain ⟨a6, r6, e6, l6⟩ := length_succ_cases l5
  obtain ⟨a7, r7, e7, l7⟩ := length_succ_cases l6
  have e8 := List.length_eq_zero.mp l7
  subst e8 e7 e6 e5 e4 e3 e2 e1 e0
  exact ⟨a0, a1, a2, a3, a4, a5, a6, a7, rfl⟩

theorem range_8 : List.range 8 = [0, 1, 2, 3, 4, 5, 6, 7] := by decide

theorem be_value_8 (a0 a1 a2 a3 a4 a5 a6 a7 : Nat) :
    be_value [a0, a1, a2, a3, a4, a5, a6, a7] =
      (((((((a0 * 256 + a1) * 256 + a2) * 256 + a3) * 256 + a4) * 256 + a5) * 256 + a6) * 256) +
        a7 := by
  simp [be_value]

theorem le_value_8 (a0 a1 a2 a3 a4 a5 a6 a7 : Nat) :
    le_value [a0, a1, a2, a3, a4, a5, a6, a7] =
      (((((((a7 * 256 + a6) * 256 + a5) * 256 + a4) * 256 + a3) * 256 + a2) * 256 + a1) * 256) +
        a0 := by
  simp only [le_value, List.foldr_cons, List.foldr_nil]
  omega

theorem le_bytes_eq (x : Nat) : le_bytes x =
    [x % 256, x / 256 % 256, x / 256 / 256 % 256, x / 256 / 256 / 256 % 256,
      x / 256 / 256 / 256 / 256 % 256, x / 256 / 256 / 256 / 256 / 256 % 256,
      x / 256 / 256 / 256 / 256 / 256 / 256 % 256,
      x / 256 / 256 / 256 / 256 / 256 / 256 / 256 % 256] := by
  simp only [Nat.div_div_eq_div_mul]
  simp [le_bytes, range_8]

theorem le_bytes_8 (a0 a1 a2 a3 a4 a5 a6 a7 : Nat) (h0 : a0 < 256) (h1 : a1 < 256)
    (h2 : a2 < 256) (h3 : a3 < 256) (h4 : a4 < 256) (h5 : a5 < 256) (h6 : a6 < 256)
    (h7 : a7 < 256) :
    le_bytes ((((((((a0 * 256 + a1) * 256 + a2) * 256 + a3) * 256 + a4) * 256 + a5) * 256 + a6) *
      256) + a7) = [a7, a6, a5, a4, a3, a2, a1, a0] := by
  rw [le_bytes_eq]
  simp only [mul_add_div_256, mul_add_mod_256, h0, h1, h2, h3, h4, h5, h6, h7,
    Nat.mod_eq_of_lt h0]

theorem le_value_le_bytes (x : Nat) (hx : x < 2 ^ 64) : le_value (le_bytes x) = x := by
  rw [le_bytes_eq, le_value_8]
  omega

theorem be_value_be_bytes (x : Nat) (hx : x < 2 ^ 64) : be_value (be_bytes x) = x := by
  rw [be_bytes, le_bytes_eq]
  simp only [List.reverse_cons, List.reverse_nil, List.nil_append, List.cons_append,
    List.singleton_append]
  rw [be_value_8]
  omega

theorem be_bytes_be_value (iv : List Nat) (hiv : is_iv iv) : be_bytes (be_value iv) = iv := by
  obtain ⟨hl, hb⟩ := hiv
  obtain ⟨a0, a1, a2, a3, a4, a5, a6, a7, rfl⟩ := length_8_cases hl
  simp only [List.mem_cons, List.mem_singleton, forall_eq_or_imp, forall_eq, List.not_mem_nil,
    false_implies, implies_true, and_true] at hb
  obtain ⟨h0, h1, h2, h3, h4, h5, h6, h7⟩ := hb
  rw [be_value_8, be_bytes, le_bytes_8 _ _ _ _ _ _ _ _ h0 h1 h2 h3 h4 h5 h6 h7]
  rfl

theorem be_value_lt (iv : List Nat) (hiv : is_iv iv) : be_value iv < 2 ^ 64 := by
  obtain ⟨hl, hb⟩ := hiv
  obtain ⟨a0, a1, a2, a3, a4, a5, a6, a7, rfl⟩ := length_8_cases hl
  simp only [List.mem_cons, List.mem_singleton, forall_eq_or_imp, forall_eq, List.not_mem_nil,
    false_implies, implies_true, and_true] at hb
  obtain ⟨h0, h1, h2, h3, h4, h5, h6, h7⟩ := hb
  rw [be_value_8]
  omega

theorem be_bytes_is_iv (x : Nat) : is_iv (be_bytes x) := by
  rw [be_bytes, le_bytes_eq]
  refine ⟨rfl, ?_⟩
  intro b hb
  simp only [List.reverse_cons, List.reverse_nil, List.nil_append, List.cons_append,
    List.singleton_append, List.mem_cons, List.mem_singleton, List.not_mem_nil, or_false] at hb
  rcases hb with rfl | rfl | rfl | rfl | rfl | rfl | rfl | rfl <;> exact Nat.mod_lt _ (by decide)

theorem swab64_le_value_8 (a0 a1 a2 a3 a4 a5 a6 a7 : Nat) (h0 : a0 < 256) (h1 : a1 < 256)
    (h2 : a2 < 256) (h3 : a3 < 256) (h4 : a4 < 256) (h5 : a5 < 256) (h6 : a6 < 256)
    (h7 : a7 < 256) :
    swab64 (le_value [a0, a1, a2, a3, a4, a5, a6, a7]) =
      le_value [a7, a6, a5, a4, a3, a2, a1, a0] := by
  rw [le_value_8, le_value_8, swab64_bytes _ _ _ _ _ _ _ _ h7 h6 h5 h4 h3 h2 h1 h0]

theorem load_u64_zero_8 (h : Host) (a0 a1 a2 a3 a4 a5 a6 a7 : Nat) :
    load_u64 h [a0, a1, a2, a3, a4, a5, a6, a7] 0 =
      match h with
      | .little => le_value [a0, a1, a2, a3, a4, a5, a6, a7]
      | .big => le_value [a7, a6, a5, a4, a3, a2, a1, a0] := by
  cases h <;> simp [load_u64, range_8]

theorem read_iv (h : Host) (iv : List Nat) (hiv : is_iv iv) :
    be64_to_cpu h (load_u64 h iv 0) = be_value iv := by
  obtain ⟨hl, hb⟩ := hiv
  obtain ⟨a0, a1, a2, a3, a4, a5, a6, a7, rfl⟩ := length_8_cases hl
  simp only [List.mem_cons, List.mem_singleton, forall_eq_or_imp, forall_eq, List.not_mem_nil,
    false_implies, implies_true, and_true] at hb
  obtain ⟨h0, h1, h2, h3, h4, h5, h6, h7⟩ := hb
  rw [load_u64_zero_8]
  cases h
  · simp only [be64_to_cpu]
    rw [swab64_le_value_8 _ _ _ _ _ _ _ _ h0 h1 h2 h3 h4 h5 h6 h7, le_value_8, be_value_8]
  · simp only [be64_to_cpu]
    rw [le_value_8, be_value_8]

theorem le_bytes_swab64 (x : Nat) : le_bytes (swab64 x) = (le_bytes x).reverse := by
  rw [swab64_eq, le_bytes_8 _ _ _ _ _ _ _ _ (Nat.mod_lt _ (by decide))
    (Nat.mod_lt _ (by decide)) (Nat.mod_lt _ (by decide)) (Nat.mod_lt _ (by decide))
    (Nat.mod_lt _ (by decide)) (Nat.mod_lt _ (by decide)) (Nat.mod_lt _ (by decide))
    (Nat.mod_lt _ (by decide)), le_bytes_eq]
  rfl

theorem write_iv (h : Host) (t : Nat) : u64_bytes h (cpu_to_be64 h t) = be_bytes t := by
  cases h
  · simp only [u64_bytes, cpu_to_be64, be_bytes, le_bytes_swab64]
  · rfl

/-! ## The stream functions in closed form -/

theorem encrypt_walk_body_eq (h : Host) (ctx : threefish_key) (src : List Nat) (bsize : Nat) :
    encrypt_walk_body h ctx src bsize =
      walk_body enc_store_order (threefish_encrypt_1024 h ctx) src bsize := rfl

theorem decrypt_walk_body_eq (ctx : threefish_key) (src : List Nat) (bsize : Nat) :
    decrypt_walk_body ctx src bsize =
      walk_body dec_store_order (threefish_decrypt_1024 ctx) src bsize := rfl

theorem walk_body_nbytes (order : List Nat) (f : List Nat → Nat → List Nat) (src : List Nat)
    (st : walk_locals) : (walk_body order f src 128 st).nbytes = sub32 st.nbytes 128 := rfl

theorem walk_body_iterate_nbytes (order : List Nat) (f : List Nat → Nat → List Nat)
    (src : List Nat) (st : walk_locals) (hnb : st.nbytes < 2 ^ 32) :
    ∀ j, 128 * j ≤ st.nbytes →
      (Nat.iterate (walk_body order f src 128) j st).nbytes = st.nbytes - 128 * j := by
  intro j
  induction j with
  | zero => intro _; rfl
  | succ j ih =>
    intro h1
    rw [Function.iterate_succ_apply', walk_body_nbytes, ih (by omega),
      sub32_of_le _ _ (by omega) (by omega)]
    omega

theorem walk_body_iterate_tweak (order : List Nat) (f : List Nat → Nat → List Nat)
    (src : List Nat) (st : walk_locals) (hv : st.tweak < 2 ^ 64) :
    ∀ j, (Nat.iterate (walk_body order f src 128) j st).tweak = (st.tweak + j) % 2 ^ 64 := by
  intro j
  induction j with
  | zero => exact (Nat.mod_eq_of_lt hv).symm
  | succ j ih =>
    rw [Function.iterate_succ_apply']
    simp only [walk_body, ih]
    unfold add64
    omega

theorem walk_loop_result (order : List Nat) (f : List Nat → Nat → List Nat) (src : List Nat)
    (st : walk_locals) (hnb : st.nbytes < 2 ^ 32) :
    walk_loop (walk_body order f src 128) 128 (st.nbytes + 1) st =
      Nat.iterate (walk_body order f src 128) (st.nbytes / 128) st :=
  walk_loop_eq_iterate _ (walk_body_nbytes order f src) _ st hnb
    (Nat.lt_succ_of_le (Nat.div_le_self _ _))

theorem stream_closed_form (order : List Nat) (f : List Nat → Nat → List Nat)
    (hf : ∀ b t, (f b t).length = 16)
    (horder : ∀ (mem : List Nat) (p : Nat) (out : List Nat), p + 16 ≤ mem.length →
      out.length = 16 → write_block order mem p out = mem.take p ++ (out ++ mem.drop (p + 16)))
    (src dst : List Nat) (nb v : Nat) (hnb : nb < 2 ^ 32) (hv : v < 2 ^ 64)
    (hd : 16 * (nb / 128) ≤ dst.length) :
    walk_loop (walk_body order f src 128) 128 (nb + 1) ⟨nb, 0, 0, v, dst⟩ =
      ⟨nb % 128, 16 * (nb / 128), 16 * (nb / 128), (v + nb / 128) % 2 ^ 64,
        (stream_blocks f src v (nb / 128)).flatten ++ dst.drop (16 * (nb / 128))⟩ := by
  have h := walk_loop_result order f src ⟨nb, 0, 0, v, dst⟩ hnb
  simp only at h
  rw [h, walk_body_iterate order f hf horder src dst nb v hnb hv (nb / 128)
    (Nat.mul_div_le nb 128) hd]
  simp only [walk_locals.mk.injEq, and_self, and_true]
  omega

theorem encrypt_length (h : Host) (K : threefish_key) (b : List Nat) (t0 : Nat) :
    (threefish_encrypt_1024 h K b t0).length = 16 := (encrypt_is_block h K t0 b).1

theorem decrypt_length (K : threefish_key) (b : List Nat) (t0 : Nat) :
    (threefish_decrypt_1024 K b t0).length = 16 := (decrypt_is_block K t0 b).1

theorem iv_drop_8 (iv : List Nat) (hiv : is_iv iv) : iv.drop 8 = [] :=
  List.drop_eq_nil_of_le (by rw [hiv.1])

theorem threefish1024_encrypt_eq (h : Host) (ctx : threefish_key) (w : blkcipher_walk)
    (hnb : w.nbytes < 2 ^ 32) (hiv : is_iv w.iv) (hd : 16 * (w.nbytes / 128) ≤ w.dst.length) :
    __threefish1024_encrypt h ctx w =
      (w.nbytes % 128,
        { w with
          dst := (stream_blocks (threefish_encrypt_1024 h ctx) w.src (be_value w.iv)
            (w.nbytes / 128)).flatten ++ w.dst.drop (16 * (w.nbytes / 128))
          iv := be_bytes ((be_value w.iv + w.nbytes / 128) % 2 ^ 64) }) := by
  simp only [__threefish1024_encrypt, encrypt_walk_body_eq, read_iv h w.iv hiv]
  rw [stream_closed_form enc_store_order _ (encrypt_length h ctx) write_block_enc w.src w.dst
    w.nbytes (be_value w.iv) hnb (be_value_lt w.iv hiv) hd]
  simp only [write_iv, iv_drop_8 w.iv hiv, List.append_nil]

theorem threefish1024_decrypt_eq (h : Host) (ctx : threefish_key) (w : blkcipher_walk)
    (hnb : w.nbytes < 2 ^ 32) (hiv : is_iv w.iv) (hd : 16 * (w.nbytes / 128) ≤ w.dst.length) :
    __threefish1024_decrypt h ctx w =
      (w.nbytes % 128,
        { w with
          dst := (stream_blocks (threefish_decrypt_1024 ctx) w.src (be_value w.iv)
            (w.nbytes / 128)).flatten ++ w.dst.drop (16 * (w.nbytes / 128))
          iv := be_bytes ((be_value w.iv + w.nbytes / 128) % 2 ^ 64) }) := by
  simp only [__threefish1024_decrypt, decrypt_walk_body_eq, read_iv h w.iv hiv]
  rw [stream_closed_form dec_store_order _ (decrypt_length ctx) write_block_dec w.src w.dst
    w.nbytes (be_value w.iv) hnb (be_value_lt w.iv hiv) hd]
  simp only [write_iv, iv_drop_8 w.iv hiv, List.append_nil]

theorem stream_blocks_split (f : List Nat → Nat → List Nat) (src : List Nat) (v : Nat) :
    ∀ n j, j < n → ∃ tl, stream_blocks f src v n =
      stream_blocks f src v j ++ (f (read_block src (16 * j)) ((v + j) % 2 ^ 64) :: tl) := by
  intro n
  induction n with
  | zero => intro j hj; omega
  | succ n ih =>
    intro j hj
    rw [stream_blocks_succ]
    by_cases hjn : j = n
    · subst hjn
      exact ⟨[], rfl⟩
    · obtain ⟨tl, e⟩ := ih j (by omega)
      exact ⟨tl ++ [f (read_block src (16 * n)) ((v + n) % 2 ^ 64)], by rw [e]; simp⟩

theorem read_stream_block (f : List Nat → Nat → List Nat) (hf : ∀ b t, (f b t).length = 16)
    (src rest : List Nat) (v n j : Nat) (hj : j < n) :
    read_block ((stream_blocks f src v n).flatten ++ rest) (16 * j) =
      f (read_block src (16 * j)) ((v + j) % 2 ^ 64) := by
  obtain ⟨tl, e⟩ := stream_blocks_split f src v n j hj
  rw [e, List.flatten_append, List.flatten_cons, List.append_assoc, List.append_assoc,
    ← stream_blocks_length f hf src v j]
  exact read_block_window _ _ _ (hf _ _)

theorem read_block_drop (src : List Nat) (k p : Nat) :
    read_block (src.drop k) p = read_block src (k + p) := by
  simp only [read_block, List.getD_eq_getElem?_getD, List.getElem?_drop, Nat.add_assoc]

theorem stream_blocks_add (f : List Nat → Nat → List Nat) (src : List Nat) (v n1 n2 : Nat) :
    stream_blocks f src v (n1 + n2) =
      stream_blocks f src v n1 ++
        stream_blocks f (src.drop (16 * n1)) ((v + n1) % 2 ^ 64) n2 := by
  induction n2 with
  | zero => simp [stream_blocks]
  | succ n2 ih =>
    rw [← Nat.add_assoc, stream_blocks_succ, ih, stream_blocks_succ, read_block_drop,
      List.append_assoc]
    have e1 : 16 * n1 + 16 * n2 = 16 * (n1 + n2) := by ring
    have e2 : ((v + n1) % 2 ^ 64 + n2) % 2 ^ 64 = (v + (n1 + n2)) % 2 ^ 64 := by omega
    rw [e1, e2]

theorem flatten_read_blocks (src : List Nat) :
    ∀ n, 16 * n ≤ src.length →
      ((List.range n).map fun j => read_block src (16 * j)).flatten = src.take (16 * n) := by
  intro n
  induction n with
  | zero => intro _; simp
  | succ n ih =>
    intro hn
    have hw : 16 * n + 16 ≤ src.length := by omega
    obtain ⟨A, a0, a1, a2, a3, a4, a5, a6, a7, a8, a9, a10, a11, a12, a13, a14, a15, C, hA, e⟩ :=
      split_window src (16 * n) hw
    rw [List.range_succ, List.map_append, List.flatten_append, ih (by omega)]
    have hr : read_block src (16 * n) =
        [a0, a1, a2, a3, a4, a5, a6, a7, a8, a9, a10, a11, a12, a13, a14, a15] := by
      rw [e, ← hA]
      exact read_block_window A [a0, a1, a2, a3, a4, a5, a6, a7, a8, a9, a10, a11, a12, a13,
        a14, a15] C rfl
    simp only [List.map_cons, List.map_nil, List.flatten_cons, List.flatten_nil,
      List.append_nil, hr]
    have e16 : 16 * (n + 1) = A.length + 16 := by omega
    rw [e16, ← hA, e]
    simp [List.take_append_eq_append_take]

theorem walk_return_iv (order : List Nat) (f : List Nat → Nat → List Nat) (src dst : List Nat)
    (nb v : Nat) (hnb : nb < 2 ^ 32) (hv : v < 2 ^ 64) :
    (walk_loop (walk_body order f src 128) 128 (nb + 1) ⟨nb, 0, 0, v, dst⟩).nbytes = nb % 128 ∧
    (walk_loop (walk_body order f src 128) 128 (nb + 1) ⟨nb, 0, 0, v, dst⟩).tweak =
      (v + nb / 128) % 2 ^ 64 := by
  have h := walk_loop_result order f src ⟨nb, 0, 0, v, dst⟩ hnb
  simp only at h
  rw [h]
  have h1 := walk_body_iterate_nbytes order f src ⟨nb, 0, 0, v, dst⟩ hnb (nb / 128)
    (Nat.mul_div_le nb 128)
  have h2 := walk_body_iterate_tweak order f src ⟨nb, 0, 0, v, dst⟩ hv (nb / 128)
  simp only at h1 h2
  rw [h1, h2]
  exact ⟨by omega, rfl⟩

theorem threefish1024_encrypt_iv (h : Host) (ctx : threefish_key) (w : blkcipher_walk)
    (hnb : w.nbytes < 2 ^ 32) (hiv : is_iv w.iv) :
    (__threefish1024_encrypt h ctx w).1 = w.nbytes % 128 ∧
    (__threefish1024_encrypt h ctx w).2.iv =
      be_bytes ((be_value w.iv + w.nbytes / 128) % 2 ^ 64) := by
  have hr := walk_return_iv enc_store_order (threefish_encrypt_1024 h ctx) w.src w.dst w.nbytes
    (be_value w.iv) hnb (be_value_lt w.iv hiv)
  simp only [__threefish1024_encrypt, encrypt_walk_body_eq, read_iv h w.iv hiv, hr.1, hr.2,
    write_iv, iv_drop_8 w.iv hiv, List.append_nil, and_self]

theorem threefish1024_decrypt_iv (h : Host) (ctx : threefish_key) (w : blkcipher_walk)
    (hnb : w.nbytes < 2 ^ 32) (hiv : is_iv w.iv) :
    (__threefish1024_decrypt h ctx w).1 = w.nbytes % 128 ∧
    (__threefish1024_decrypt h ctx w).2.iv =
      be_bytes ((be_value w.iv + w.nbytes / 128) % 2 ^ 64) := by
  have hr := walk_return_iv dec_store_order (threefish_decrypt_1024 ctx) w.src w.dst w.nbytes
    (be_value w.iv) hnb (be_value_lt w.iv hiv)
  simp only [__threefish1024_decrypt, decrypt_walk_body_eq, read_iv h w.iv hiv, hr.1, hr.2,
    write_iv, iv_drop_8 w.iv hiv, List.append_nil, and_self]

theorem read_block_written (mem : List Nat) (p : Nat) (out : List Nat)
    (hp : p + 16 ≤ mem.length) (ho : out.length = 16) :
    read_block (mem.take p ++ (out ++ mem.drop (p + 16))) p = out := by
  have hl : (mem.take p).length = p := by rw [List.length_take]; omega
  have := read_block_window (mem.take p) out (mem.drop (p + 16)) ho
  rw [hl] at this
  exact this

theorem read_encrypt_at (h : Host) (K : threefish_key) (in_mem : List Nat) (inp : Nat)
    (out_mem : List Nat) (outp t0 : Nat) (hq : outp + 16 ≤ out_mem.length) :
    read_block (threefish_encrypt_1024_at h K in_mem inp out_mem outp t0) outp =
      threefish_encrypt_1024 h K (read_block in_mem inp) t0 := by
  rw [threefish_encrypt_1024_at, write_block_enc _ _ _ hq (encrypt_length h K _ t0)]
  exact read_block_written out_mem outp _ hq (encrypt_length h K _ t0)

theorem read_decrypt_at (K : threefish_key) (in_mem : List Nat) (inp : Nat)
    (out_mem : List Nat) (outp t0 : Nat) (hq : outp + 16 ≤ out_mem.length) :
    read_block (threefish_decrypt_1024_at K in_mem inp out_mem outp t0) outp =
      threefish_decrypt_1024 K (read_block in_mem inp) t0 := by
  rw [threefish_decrypt_1024_at, write_block_dec _ _ _ hq (decrypt_length K _ t0)]
  exact read_block_written out_mem outp _ hq (decrypt_length K _ t0)

theorem read_block_length (mem : List Nat) (p : Nat) : (read_block mem p).length = 16 := by
  simp [read_block]

theorem read_block_is_block (mem : List Nat) (p : Nat) (hw : ∀ w ∈ mem, w < 2 ^ 64) :
    is_block (read_block mem p) := by
  refine ⟨read_block_length mem p, ?_⟩
  intro w hm
  simp only [read_block, List.mem_map, List.mem_range] at hm
  obtain ⟨i, _, rfl⟩ := hm
  rw [List.getD_eq_getElem?_getD]
  by_cases hi : p + i < mem.length
  · rw [List.getElem?_eq_getElem hi]
    exact hw _ (List.getElem_mem hi)
  · rw [List.getElem?_eq_none (by omega)]
    decide

/-! ## The key bytes -/

theorem key_word_eq (key : List Nat) (i : Nat) :
    key_word key i = le_value ((List.range 8).map fun j => key.getD (8 * i + j) 0) := by
  simp only [key_word, range_8, List.map_cons, List.map_nil, List.sum_cons, List.sum_nil,
    le_value_8]
  norm_num
  omega

theorem le64_load_u64 (h : Host) (key : List Nat) (i : Nat)
    (hb : ∀ j, j < 8 → key.getD (8 * i + j) 0 < 256) :
    le64_to_cpu h (load_u64 h key i) = key_word key i := by
  rw [key_word_eq]
  cases h
  · rfl
  · simp only [le64_to_cpu, load_u64, range_8, List.map_cons, List.map_nil, List.reverse_cons,
      List.reverse_nil, List.nil_append, List.cons_append, List.singleton_append]
    exact swab64_le_value_8 _ _ _ _ _ _ _ _ (hb 7 (by decide)) (hb 6 (by decide))
      (hb 5 (by decide)) (hb 4 (by decide)) (hb 3 (by decide)) (hb 2 (by decide))
      (hb 1 (by decide)) (hb 0 (by decide))

theorem getD_lt_of_bytes (key : List Nat) (hk : ∀ b ∈ key, b < 256) (n : Nat) :
    key.getD n 0 < 256 := by
  rw [List.getD_eq_getElem?_getD]
  by_cases hn : n < key.length
  · rw [List.getElem?_eq_getElem hn]
    exact hk _ (List.getElem_mem hn)
  · rw [List.getElem?_eq_none (by omega)]
    decide

theorem key_words_of_bytes (h : Host) (key : List Nat) (hk : ∀ b ∈ key, b < 256) :
    ((List.range 16).map fun i =>
      le64_to_cpu h (((List.range 16).map fun i => load_u64 h key i).getD i 0)) =
      (List.range 16).map (key_word key) := by
  apply List.map_congr_left
  intro i hi
  have hi16 : i < 16 := List.mem_range.mp hi
  have e : ((List.range 16).map fun i => load_u64 h key i).getD i 0 = load_u64 h key i := by
    rw [List.getD_eq_getElem?_getD, List.getElem?_map, List.getElem?_range hi16]
    rfl
  rw [e, le64_load_u64 h key i (fun j _ => getD_lt_of_bytes key hk _)]

theorem cia_setkey_ok (h : Host) (tfm : crypto_tfm) (key : List Nat)
    (hc : tfm.ctx.key.length = 17) (hk : ∀ b ∈ key, b < 256) :
    cia_threefish1024_setkey h tfm key 128 =
      (0, { tfm with
            ctx := ⟨(List.range 16).map (key_word key) ++
              [((List.range 16).map (key_word key)).foldl (fun p w => p ^^^ w)
                KeyScheduleConst]⟩ }) := by
  simp only [cia_threefish1024_setkey, ne_eq, not_true_eq_false, if_false]
  rw [threefishSetKey1024_eq h tfm.ctx _ hc, key_words_of_bytes h key hk]

/-! ## The key schedule as a whole -/

theorem foldl_xor_init (l : List Nat) :
    ∀ a, l.foldl (fun p w => p ^^^ w) a = a ^^^ l.foldl (fun p w => p ^^^ w) 0 := by
  induction l with
  | nil => intro a; simp
  | cons x t ih =>
    intro a
    simp only [List.foldl_cons]
    rw [ih (a ^^^ x), ih (0 ^^^ x), Nat.zero_xor, Nat.xor_assoc]

theorem foldl_xor_parity (c : Nat) (ws : List Nat) :
    (ws ++ [ws.foldl (fun p w => p ^^^ w) c]).foldl (fun p w => p ^^^ w) 0 = c := by
  simp only [List.foldl_append, List.foldl_cons, List.foldl_nil]
  rw [foldl_xor_init ws c, Nat.xor_comm c, ← Nat.xor_assoc, Nat.xor_self, Nat.zero_xor]

theorem threefishSetKey1024_loop_count (h : Host) (kd : List Nat) :
    ∀ n i p key, i + n ≤ 16 → (threefishSetKey1024_loop h kd n i p key).1 = i + n := by
  intro n
  induction n with
  | zero => intro i p key _; rfl
  | succ n ih =>
    intro i p key hi
    rw [threefishSetKey1024_loop_succ h kd n i p key (by omega), ih _ _ _ (by omega)]
    omega

theorem threefishSetKey1024_loop_fuel (h : Host) (kd : List Nat) :
    ∀ n m i p key, i ≤ 16 → 16 - i < n → 16 - i < m →
      threefishSetKey1024_loop h kd n i p key = threefishSetKey1024_loop h kd m i p key := by
  intro n
  induction n with
  | zero => intro m i p key _ hn _; omega
  | succ n ih =>
    intro m i p key hi hn hm
    obtain ⟨m, rfl⟩ : ∃ k, m = k + 1 := ⟨m - 1, by omega⟩
    by_cases h16 : i = 16
    · subst h16
      rw [threefishSetKey1024_loop_exit, threefishSetKey1024_loop_exit]
    · rw [threefishSetKey1024_loop_succ h kd n i p key h16,
        threefishSetKey1024_loop_succ h kd m i p key h16]
      exact ih m (i + 1) _ _ (by omega) (by omega) (by omega)

theorem threefishSetKey1024_loop_eq (h : Host) (kd key : List Nat) (hc : key.length = 17) :
    threefishSetKey1024_loop h kd (1024 / 64 + 1) 0 KeyScheduleConst key =
      (16,
        ((List.range 16).map fun i => le64_to_cpu h (kd.getD i 0)).foldl
          (fun p w => p ^^^ w) KeyScheduleConst,
        ((List.range 16).map fun i => le64_to_cpu h (kd.getD i 0)) ++ key.drop 16) := by
  obtain ⟨c0, c1, c2, c3, c4, c5, c6, c7, c8, c9, c10, c11, c12, c13, c14, c15, c16, rfl⟩ :=
    length_17_cases hc
  have h16 : (1024 / 64 + 1 : Nat) = 16 + 1 := by decide
  simp (disch := decide) only [h16, range_16, threefishSetKey1024_loop_succ,
    threefishSetKey1024_loop_exit, Nat.reduceAdd, List.map_cons, List.map_nil, List.foldl_cons,
    List.foldl_nil, List.set_cons_zero, List.set_cons_succ, List.cons_append, List.nil_append,
    List.drop_succ_cons, List.drop_zero]

theorem threefishSetKey1024_length (h : Host) (keyCtx : threefish_key) (keyData : List Nat)
    (hc : keyCtx.key.length = 17) : (threefishSetKey1024 h keyCtx keyData).key.length = 17 := by
  rw [threefishSetKey1024_eq h keyCtx keyData hc]
  simp

theorem threefishSetKey1024_any_ctx (h : Host) (keyCtx keyCtx2 : threefish_key)
    (keyData : List Nat) (hc : keyCtx.key.length = 17) (hc2 : keyCtx2.key.length = 17) :
    threefishSetKey1024 h keyCtx2 keyData = threefishSetKey1024 h keyCtx keyData := by
  rw [threefishSetKey1024_eq h keyCtx keyData hc, threefishSetKey1024_eq h keyCtx2 keyData hc2]

theorem map_range_16_congr (f g : Nat → Nat) (hfg : ∀ i, i < 16 → f i = g i) :
    (List.range 16).map f = (List.range 16).map g := by
  apply List.map_congr_left
  intro i hi
  exact hfg i (List.mem_range.mp hi)

/-! ## Each round is eight MIX steps -/

theorem enc_round_0_mix (K : threefish_key) (t0 : Nat) :
    ∀ q ∈ enc_mix_steps 0, ∀ u : State,
      (enc_round_0 (load_key K) t0 u).get q.1.1 =
        add64 ((enc_mix_input K t0 0 u).get q.1.1) ((enc_mix_input K t0 0 u).get q.1.2) ∧
      (enc_round_0 (load_key K) t0 u).get q.1.2 =
        rol64 ((enc_mix_input K t0 0 u).get q.1.2) q.2 ^^^
          add64 ((enc_mix_input K t0 0 u).get q.1.1) ((enc_mix_input K t0 0 u).get q.1.2) := by
  intro q hq u
  rcases u with ⟨b0, b1, b2, b3, b4, b5, b6, b7, b8, b9, b10, b11, b12, b13, b14, b15⟩
  simp only [enc_mix_steps, enc_mix_pairs, R_1024, Nat.reduceMod, List.getD_cons_zero,
    List.getD_cons_succ, List.zip_cons_cons, List.zip_nil_right, List.mem_cons,
    List.mem_singleton, List.not_mem_nil, or_false] at hq
  rcases hq with rfl | rfl | rfl | rfl | rfl | rfl | rfl | rfl <;>
    (simp only [enc_mix_input, State.get, store_block, load_block, enc_round_0, load_key,
      ref_add_subkey_cons, ref_tweak, t1, t2, Nat.reduceMod, Nat.reduceDiv, Nat.reduceAdd,
      if_true, List.getD_cons_zero, List.getD_cons_succ, add64_add64_zero, add64_fuse_tweak]
     simp only [add64_fuse, and_self])

theorem enc_round_1_mix (K : threefish_key) (t0 : Nat) :
    ∀ q ∈ enc_mix_steps 1, ∀ u : State,
      (enc_round_1 (load_key K) t0 u).get q.1.1 =
        add64 ((enc_mix_input K t0 1 u).get q.1.1) ((enc_mix_input K t0 1 u).get q.1.2) ∧
      (enc_round_1 (load_key K) t0 u).get q.1.2 =
        rol64 ((enc_mix_input K t0 1 u).get q.1.2) q.2 ^^^
          add64 ((enc_mix_input K t0 1 u).get q.1.1) ((enc_mix_input K t0 1 u).get q.1.2) := by
  intro q hq u
  rcases u with ⟨b0, b1, b2, b3, b4, b5, b6, b7, b8, b9, b10, b11, b12, b13, b14, b15⟩
  simp only [enc_mix_steps, enc_mix_pairs, R_1024, Nat.reduceMod, List.getD_cons_zero,
    List.getD_cons_succ, List.zip_cons_cons, List.zip_nil_right, List.mem_cons,
    List.mem_singleton, List.not_mem_nil, or_false] at hq
  rcases hq with rfl | rfl | rfl | rfl | rfl | rfl | rfl | rfl <;> exact ⟨rfl, rfl⟩

theorem enc_round_2_mix (K : threefish_key) (t0 : Nat) :
    ∀ q ∈ enc_mix_steps 2, ∀ u : State,
      (enc_round_2 (load_key K) t0 u).get q.1.1 =
        add64 ((enc_mix_input K t0 2 u).get q.1.1) ((enc_mix_input K t0 2 u).get q.1.2) ∧
      (enc_round_2 (load_key K) t0 u).get q.1.2 =
        rol64 ((enc_mix_input K t0 2 u).get q.1.2) q.2 ^^^
          add64 ((enc_mix_input K t0 2 u).get q.1.1) ((enc_mix_input K t0 2 u).get q.1.2) := by
  intro q hq u
  rcases u with ⟨b0, b1, b2, b3, b4, b5, b6, b7, b8, b9, b10, b11, b12, b13, b14, b15⟩
  simp only [enc_mix_steps, enc_mix_pairs, R_1024, Nat.reduceMod, List.getD_cons_zero,
    List.getD_cons_succ, List.zip_cons_cons, List.zip_nil_right, List.mem_cons,
    List.mem_singleton, List.not_mem_nil, or_false] at hq
  rcases hq with rfl | rfl | rfl | rfl | rfl | rfl | rfl | rfl <;> exact ⟨rfl, rfl⟩

theorem enc_round_3_mix (K : threefish_key) (t0 : Nat) :
    ∀ q ∈ enc_mix_steps 3, ∀ u : State,
      (enc_round_3 (load_key K) t0 u).get q.1.1 =
        add64 ((enc_mix_input K t0 3 u).get q.1.1) ((enc_mix_input K t0 3 u).get q.1.2) ∧
      (enc_round_3 (load_key K) t0 u).get q.1.2 =
        rol64 ((enc_mix_input K t0 3 u).get q.1.2) q.2 ^^^
          add64 ((enc_mix_input K t0 3 u).get q.1.1) ((enc_mix_input K t0 3 u).get q.1.2) := by
  intro q hq u
  rcases u with ⟨b0, b1, b2, b3, b4, b5, b6, b7, b8, b9, b10, b11, b12, b13, b14, b15⟩
  simp only [enc_mix_steps, enc_mix_pairs, R_1024, Nat.reduceMod, List.getD_cons_zero,
    List.getD_cons_succ, List.zip_cons_cons, List.zip_nil_right, List.mem_cons,
    List.mem_singleton, List.not_mem_nil, or_false] at hq
  rcases hq with rfl | rfl | rfl | rfl | rfl | rfl | rfl | rfl <;> exact ⟨rfl, rfl⟩

theorem enc_round_4_mix (K : threefish_key) (t0 : Nat) :
    ∀ q ∈ enc_mix_steps 4, ∀ u : State,
      (enc_round_4 (load_key K) t0 u).get q.1.1 =
        add64 ((enc_mix_input K t0 4 u).get q.1.1) ((enc_mix_input K t0 4 u).get q.1.2) ∧
      (enc_round_4 (load_key K) t0 u).get q.1.2 =
        rol64 ((enc_mix_input K t0 4 u).get q.1.2) q.2 ^^^
          add64 ((enc_mix_input K t0 4 u).get q.1.1) ((enc_mix_input K t0 4 u).get q.1.2) := by
  intro q hq u
  rcases u with ⟨b0, b1, b2, b3, b4, b5, b6, b7, b8, b9, b10, b11, b12, b13, b14, b15⟩
  simp only [enc_mix_steps, enc_mix_pairs, R_1024, Nat.reduceMod, List.getD_cons_zero,
    List.getD_cons_succ, List.zip_cons_cons, List.zip_nil_right, List.mem_cons,
    List.mem_singleton, List.not_mem_nil, or_false] at hq
  rcases hq with rfl | rfl | rfl | rfl | rfl | rfl | rfl | rfl <;>
    (simp only [enc_mix_input, State.get, store_block, load_block, enc_round_4, load_key,
      ref_add_subkey_cons, ref_tweak, t1, t2, Nat.reduceMod, Nat.reduceDiv, Nat.reduceAdd,
      if_true, List.getD_cons_zero, List.getD_cons_succ, add64_add64_zero, add64_fuse_tweak]
     simp only [add64_fuse, and_self])

theorem enc_round_5_mix (K : threefish_key) (t0 : Nat) :
    ∀ q ∈ enc_mix_steps 5, ∀ u : State,
      (enc_round_5 (load_key K) t0 u).get q.1.1 =
        add64 ((enc_mix_input K t0 5 u).get q.1.1) ((enc_mix_input K t0 5 u).get q.1.2) ∧
      (enc_round_5 (load_key K) t0 u).get q.1.2 =
        rol64 ((enc_mix_input K t0 5 u).get q.1.2) q.2 ^^^
          add64 ((enc_mix_input K t0 5 u).get q.1.1) ((enc_mix_input K t0 5 u).get q.1.2) := by
  intro q hq u
  rcases u with ⟨b0, b1, b2, b3, b4, b5, b6, b7, b8, b9, b10, b11, b12, b13, b14, b15⟩
  simp only [enc_mix_steps, enc_mix_pairs, R_1024, Nat.reduceMod, List.getD_cons_zero,
    List.getD_cons_succ, List.zip_cons_cons, List.zip_nil_right, List.mem_cons,
    List.mem_singleton, List.not_mem_nil, or_false] at hq
  rcases hq with rfl | rfl | rfl | rfl | rfl | rfl | rfl | rfl <;> exact ⟨rfl, rfl⟩

theorem enc_round_6_mix (K : threefish_key) (t0 : Nat) :
    ∀ q ∈ enc_mix_steps 6, ∀ u : State,
      (enc_round_6 (load_key K) t0 u).get q.1.1 =
        add64 ((enc_mix_input K t0 6 u).get q.1.1) ((enc_mix_input K t0 6 u).get q.1.2) ∧
      (enc_round_6 (load_key K) t0 u).get q.1.2 =
        rol64 ((enc_mix_input K t0 6 u).get q.1.2) q.2 ^^^
          add64 ((enc_mix_input K t0 6 u).get q.1.1) ((enc_mix_input K t0 6 u).get q.1.2) := by
  intro q hq u
  rcases u with ⟨b0, b1, b2, b3, b4, b5, b6, b7, b8, b9, b10, b11, b12, b13, b14, b15⟩
  simp only [enc_mix_steps, enc_mix_pairs, R_1024, Nat.reduceMod, List.getD_cons_zero,
    List.getD_cons_succ, List.zip_cons_cons, List.zip_nil_right, List.mem_cons,
    List.mem_singleton, List.not_mem_nil, or_false] at hq
  rcases hq with rfl | rfl | rfl | rfl | rfl | rfl | rfl | rfl <;> exact ⟨rfl, rfl⟩

theorem enc_round_7_mix (K : threefish_key) (t0 : Nat) :
    ∀ q ∈ enc_mix_steps 7, ∀ u : State,
      (enc_round_7 (load_key K) t0 u).get q.1.1 =
        add64 ((enc_mix_input K t0 7 u).get q.1.1) ((enc_mix_input K t0 7 u).get q.1.2) ∧
      (enc_round_7 (load_key K) t0 u).get q.1.2 =
        rol64 ((enc_mix_input K t0 7 u).get q.1.2) q.2 ^^^
          add64 ((enc_mix_input K t0 7 u).get q.1.1) ((enc_mix_input K t0 7 u).get q.1.2) := by
  intro q hq u
  rcases u with ⟨b0, b1, b2, b3, b4, b5, b6, b7, b8, b9, b10, b11, b12, b13, b14, b15⟩
  simp only [enc_mix_steps, enc_mix_pairs, R_1024, Nat.reduceMod, List.getD_cons_zero,
    List.getD_cons_succ, List.zip_cons_cons, List.zip_nil_right, List.mem_cons,
    List.mem_singleton, List.not_mem_nil, or_false] at hq
  rcases hq with rfl | rfl | rfl | rfl | rfl | rfl | rfl | rfl <;> exact ⟨rfl, rfl⟩

theorem enc_round_8_mix (K : threefish_key) (t0 : Nat) :
    ∀ q ∈ enc_mix_steps 8, ∀ u : State,
      (enc_round_8 (load_key K) t0 u).get q.1.1 =
        add64 ((enc_mix_input K t0 8 u).get q.1.1) ((enc_mix_input K t0 8 u).get q.1.2) ∧
      (enc_round_8 (load_key K) t0 u).get q.1.2 =
        rol64 ((enc_mix_input K t0 8 u).get q.1.2) q.2 ^^^
          add64 ((enc_mix_input K t0 8 u).get q.1.1) ((enc_mix_input K t0 8 u).get q.1.2) := by
  intro q hq u
  rcases u with ⟨b0, b1, b2, b3, b4, b5, b6, b7, b8, b9, b10, b11, b12, b13, b14, b15⟩
  simp only [enc_mix_steps, enc_mix_pairs, R_1024, Nat.reduceMod, List.getD_cons_zero,
    List.getD_cons_succ, List.zip_cons_cons, List.zip_nil_right, List.mem_cons,
    List.mem_singleton, List.not_mem_nil, or_false] at hq
  rcases hq with rfl | rfl | rfl | rfl | rfl | rfl | rfl | rfl <;>
    (simp only [enc_mix_input, State.get, store_block, load_block, enc_round_8, load_key,
      ref_add_subkey_cons, ref_tweak, t1, t2, Nat.reduceMod, Nat.reduceDiv, Nat.reduceAdd,
      if_true, List.getD_cons_zero, List.getD_cons_succ, add64_add64_zero, add64_fuse_tweak]
     simp only [add64_fuse, and_self])

theorem enc_round_9_mix (K : threefish_key) (t0 : Nat) :
    ∀ q ∈ enc_mix_steps 9, ∀ u : State,
      (enc_round_9 (load_key K) t0 u).get q.1.1 =
        add64 ((enc_mix_input K t0 9 u).get q.1.1) ((enc_mix_input K t0 9 u).get q.1.2) ∧
      (enc_round_9 (load_key K) t0 u).get q.1.2 =
        rol64 ((enc_mix_input K t0 9 u).get q.1.2) q.2 ^^^
          add64 ((enc_mix_input K t0 9 u).get q.1.1) ((enc_mix_input K t0 9 u).get q.1.2) := by
  intro q hq u
  rcases u with ⟨b0, b1, b2, b3, b4, b5, b6, b7, b8, b9, b10, b11, b12, b13, b14, b15⟩
  simp only [enc_mix_steps, enc_mix_pairs, R_1024, Nat.reduceMod, List.getD_cons_zero,
    List.getD_cons_succ, List.zip_cons_cons, List.zip_nil_right, List.mem_cons,
    List.mem_singleton, List.not_mem_nil, or_false] at hq
  rcases hq with rfl | rfl | rfl | rfl | rfl | rfl | rfl | rfl <;> exact ⟨rfl, rfl⟩

theorem enc_round_10_mix (K : threefish_key) (t0 : Nat) :
    ∀ q ∈ enc_mix_steps 10, ∀ u : State,
      (enc_round_10 (load_key K) t0 u).get q.1.1 =
        add64 ((enc_mix_input K t0 10 u).get q.1.1) ((enc_mix_input K t0 10 u).get q.1.2) ∧
      (enc_round_10 (load_key K) t0 u).get q.1.2 =
        rol64 ((enc_mix_input K t0 10 u).get q.1.2) q.2 ^^^
          add64 ((enc_mix_input K t0 10 u).get q.1.1) ((enc_mix_input K t0 10 u).get q.1.2) := by
  intro q hq u
  rcases u with ⟨b0, b1, b2, b3, b4, b5, b6, b7, b8, b9, b10, b11, b12, b13, b14, b15⟩
  simp only [enc_mix_steps, enc_mix_pairs, R_1024, Nat.reduceMod, List.getD_cons_zero,
    List.getD_cons_succ, List.zip_cons_cons, List.zip_nil_right, List.mem_cons,
    List.mem_singleton, List.not_mem_nil, or_false] at hq
  rcases hq with rfl | rfl | rfl | rfl | rfl | rfl | rfl | rfl <;> exact ⟨rfl, rfl⟩

theorem enc_round_11_mix (K : threefish_key) (t0 : Nat) :
    ∀ q ∈ enc_mix_steps 11, ∀ u : State,
      (enc_round_11 (load_key K) t0 u).get q.1.1 =
        add64 ((enc_mix_input K t0 11 u).get q.1.1) ((enc_mix_input K t0 11 u).get q.1.2) ∧
      (enc_round_11 (load_key K) t0 u).get q.1.2 =
        rol64 ((enc_mix_input K t0 11 u).get q.1.2) q.2 ^^^
          add64 ((enc_mix_input K t0 11 u).get q.1.1) ((enc_mix_input K t0 11 u).get q.1.2) := by
  intro q hq u
  rcases u with ⟨b0, b1, b2, b3, b4, b5, b6, b7, b8, b9, b10, b11, b12, b13, b14, b15⟩
  simp only [enc_mix_steps, enc_mix_pairs, R_1024, Nat.reduceMod, List.getD_cons_zero,
    List.getD_cons_succ, List.zip_cons_cons, List.zip_nil_right, List.mem_cons,
    List.mem_singleton, List.not_mem_nil, or_false] at hq
  rcases hq with rfl | rfl | rfl | rfl | rfl | rfl | rfl | rfl <;> exact ⟨rfl, rfl⟩

theorem enc_round_12_mix (K : threefish_key) (t0 : Nat) :
    ∀ q ∈ enc_mix_steps 12, ∀ u : State,
      (enc_round_12 (load_key K) t0 u).get q.1.1 =
        add64 ((enc_mix_input K t0 12 u).get q.1.1) ((enc_mix_input K t0 12 u).get q.1.2) ∧
      (enc_round_12 (load_key K) t0 u).get q.1.2 =
        rol64 ((enc_mix_input K t0 12 u).get q.1.2) q.2 ^^^
          add64 ((enc_mix_input K t0 12 u).get q.1.1) ((enc_mix_input K t0 12 u).get q.1.2) := by
  intro q hq u
  rcases u with ⟨b0, b1, b2, b3, b4, b5, b6, b7, b8, b9, b10, b11, b12, b13, b14, b15⟩
  simp only [enc_mix_steps, enc_mix_pairs, R_1024, Nat.reduceMod, List.getD_cons_zero,
    List.getD_cons_succ, List.zip_cons_cons, List.zip_nil_right, List.mem_cons,
    List.mem_singleton, List.not_mem_nil, or_false] at hq
  rcases hq with rfl | rfl | rfl | rfl | rfl | rfl | rfl | rfl <;>
    (simp only [enc_mix_input, State.get, store_block, load_block, enc_round_12, load_key,
      ref_add_subkey_cons, ref_tweak, t1, t2, Nat.reduceMod, Nat.reduceDiv, Nat.reduceAdd,
      if_true, List.getD_cons_zero, List.getD_cons_succ, add64_add64_zero, add64_fuse_tweak]
     simp only [add64_fuse, and_self])

theorem enc_round_13_mix (K : threefish_key) (t0 : Nat) :
    ∀ q ∈ enc_mix_steps 13, ∀ u : State,
      (enc_round_13 (load_key K) t0 u).get q.1.1 =
        add64 ((enc_mix_input K t0 13 u).get q.1.1) ((enc_mix_input K t0 13 u).get q.1.2) ∧
      (enc_round_13 (load_key K) t0 u).get q.1.2 =
        rol64 ((enc_mix_input K t0 13 u).get q.1.2) q.2 ^^^
          add64 ((enc_mix_input K t0 13 u).get q.1.1) ((enc_mix_input K t0 13 u).get q.1.2) := by
  intro q hq u
  rcases u with ⟨b0, b1, b2, b3, b4, b5, b6, b7, b8, b9, b10, b11, b12, b13, b14, b15⟩
  simp only [enc_mix_steps, enc_mix_pairs, R_1024, Nat.reduceMod, List.getD_cons_zero,
    List.getD_cons_succ, List.zip_cons_cons, List.zip_nil_right, List.mem_cons,
    List.mem_singleton, List.not_mem_nil, or_false] at hq
  rcases hq with rfl | rfl | rfl | rfl | rfl | rfl | rfl | rfl <;> exact ⟨rfl, rfl⟩

theorem enc_round_14_mix (K : threefish_key) (t0 : Nat) :
    ∀ q ∈ enc_mix_steps 14, ∀ u : State,
      (enc_round_14 (load_key K) t0 u).get q.1.1 =
        add64 ((enc_mix_input K t0 14 u).get q.1.1) ((enc_mix_input K t0 14 u).get q.1.2) ∧
      (enc_round_14 (load_key K) t0 u).get q.1.2 =
        rol64 ((enc_mix_input K t0 14 u).get q.1.2) q.2 ^^^
          add64 ((enc_mix_input K t0 14 u).get q.1.1) ((enc_mix_input K t0 14 u).get q.1.2) := by
  intro q hq u
  rcases u with ⟨b0, b1, b2, b3, b4, b5, b6, b7, b8, b9, b10, b11, b12, b13, b14, b15⟩
  simp only [enc_mix_steps, enc_mix_pairs, R_1024, Nat.reduceMod, List.getD_cons_zero,
    List.getD_cons_succ, List.zip_cons_cons, List.zip_nil_right, List.mem_cons,
    List.mem_singleton, List.not_mem_nil, or_false] at hq
  rcases hq with rfl | rfl | rfl | rfl | rfl | rfl | rfl | rfl <;> exact ⟨rfl, rfl⟩

theorem enc_round_15_mix (K : threefish_key) (t0 : Nat) :
    ∀ q ∈ enc_mix_steps 15, ∀ u : State,
      (enc_round_15 (load_key K) t0 u).get q.1.1 =
        add64 ((enc_mix_input K t0 15 u).get q.1.1) ((enc_mix_input K t0 15 u).get q.1.2) ∧
      (enc_round_15 (load_key K) t0 u).get q.1.2 =
        rol64 ((enc_mix_input K t0 15 u).get q.1.2) q.2 ^^^
          add64 ((enc_mix_input K t0 15 u).get q.1.1) ((enc_mix_input K t0 15 u).get q.1.2) := by
  intro q hq u
  rcases u with ⟨b0, b1, b2, b3, b4, b5, b6, b7, b8, b9, b10, b11, b12, b13, b14, b15⟩
  simp only [enc_mix_steps, enc_mix_pairs, R_1024, Nat.reduceMod, List.getD_cons_zero,
    List.getD_cons_succ, List.zip_cons_cons, List.zip_nil_right, List.mem_cons,
    List.mem_singleton, List.not_mem_nil, or_false] at hq
  rcases hq with rfl | rfl | rfl | rfl | rfl | rfl | rfl | rfl <;> exact ⟨rfl, rfl⟩

theorem enc_round_16_mix (K : threefish_key) (t0 : Nat) :
    ∀ q ∈ enc_mix_steps 16, ∀ u : State,
      (enc_round_16 (load_key K) t0 u).get q.1.1 =
        add64 ((enc_mix_input K t0 16 u).get q.1.1) ((enc_mix_input K t0 16 u).get q.1.2) ∧
      (enc_round_16 (load_key K) t0 u).get q.1.2 =
        rol64 ((enc_mix_input K t0 16 u).get q.1.2) q.2 ^^^
          add64 ((enc_mix_input K t0 16 u).get q.1.1) ((enc_mix_input K t0 16 u).get q.1.2) := by
  intro q hq u
  rcases u with ⟨b0, b1, b2, b3, b4, b5, b6, b7, b8, b9, b10, b11, b12, b13, b14, b15⟩
  simp only [enc_mix_steps, enc_mix_pairs, R_1024, Nat.reduceMod, List.getD_cons_zero,
    List.getD_cons_succ, List.zip_cons_cons, List.zip_nil_right, List.mem_cons,
    List.mem_singleton, List.not_mem_nil, or_false] at hq
  rcases hq with rfl | rfl | rfl | rfl | rfl | rfl | rfl | rfl <;>
    (simp only [enc_mix_input, State.get, store_block, load_block, enc_round_16, load_key,
      ref_add_subkey_cons, ref_tweak, t1, t2, Nat.reduceMod, Nat.reduceDiv, Nat.reduceAdd,
      if_true, List.getD_cons_zero, List.getD_cons_succ, add64_add64_zero, add64_fuse_tweak]
     simp only [add64_fuse, and_self])

theorem enc_round_17_mix (K : threefish_key) (t0 : Nat) :
    ∀ q ∈ enc_mix_steps 17, ∀ u : State,
      (enc_round_17 (load_key K) t0 u).get q.1.1 =
        add64 ((enc_mix_input K t0 17 u).get q.1.1) ((enc_mix_input K t0 17 u).get q.1.2) ∧
      (enc_round_17 (load_key K) t0 u).get q.1.2 =
        rol64 ((enc_mix_input K t0 17 u).get q.1.2) q.2 ^^^
          add64 ((enc_mix_input K t0 17 u).get q.1.1) ((enc_mix_input K t0 17 u).get q.1.2) := by
  intro q hq u
  rcases u with ⟨b0, b1, b2, b3, b4, b5, b6, b7, b8, b9, b10, b11, b12, b13, b14, b15⟩
  simp only [enc_mix_steps, enc_mix_pairs, R_1024, Nat.reduceMod, List.getD_cons_zero,
    List.getD_cons_succ, List.zip_cons_cons, List.zip_nil_right, List.mem_cons,
    List.mem_singleton, List.not_mem_nil, or_false] at hq
  rcases hq with rfl | rfl | rfl | rfl | rfl | rfl | rfl | rfl <;> exact ⟨rfl, rfl⟩

theorem enc_round_18_mix (K : threefish_key) (t0 : Nat) :
    ∀ q ∈ enc_mix_steps 18, ∀ u : State,
      (enc_round_18 (load_key K) t0 u).get q.1.1 =
        add64 ((enc_mix_input K t0 18 u).get q.1.1) ((enc_mix_input K t0 18 u).get q.1.2) ∧
      (enc_round_18 (load_key K) t0 u).get q.1.2 =
        rol64 ((enc_mix_input K t0 18 u).get q.1.2) q.2 ^^^
          add64 ((enc_mix_input K t0 18 u).get q.1.1) ((enc_mix_input K t0 18 u).get q.1.2) := by
  intro q hq u
  rcases u with ⟨b0, b1, b2, b3, b4, b5, b6, b7, b8, b9, b10, b11, b12, b13, b14, b15⟩
  simp only [enc_mix_steps, enc_mix_pairs, R_1024, Nat.reduceMod, List.getD_cons_zero,
    List.getD_cons_succ, List.zip_cons_cons, List.zip_nil_right, List.mem_cons,
    List.mem_singleton, List.not_mem_nil, or_false] at hq
  rcases hq with rfl | rfl | rfl | rfl | rfl | rfl | rfl | rfl <;> exact ⟨rfl, rfl⟩

theorem enc_round_19_mix (K : threefish_key) (t0 : Nat) :
    ∀ q ∈ enc_mix_steps 19, ∀ u : State,
      (enc_round_19 (load_key K) t0 u).get q.1.1 =
        add64 ((enc_mix_input K t0 19 u).get q.1.1) ((enc_mix_input K t0 19 u).get q.1.2) ∧
      (enc_round_19 (load_key K) t0 u).get q.1.2 =
        rol64 ((enc_mix_input K t0 19 u).get q.1.2) q.2 ^^^
          add64 ((enc_mix_input K t0 19 u).get q.1.1) ((enc_mix_input K t0 19 u).get q.1.2) := by
  intro q hq u
  rcases u with ⟨b0, b1, b2, b3, b4, b5, b6, b7, b8, b9, b10, b11, b12, b13, b14, b15⟩
  simp only [enc_mix_steps, enc_mix_pairs, R_1024, Nat.reduceMod, List.getD_cons_zero,
    List.getD_cons_succ, List.zip_cons_cons, List.zip_nil_right, List.mem_cons,
    List.mem_singleton, List.not_mem_nil, or_false] at hq
  rcases hq with rfl | rfl | rfl | rfl | rfl | rfl | rfl | rfl <;> exact ⟨rfl, rfl⟩

theorem enc_round_20_mix (K : threefish_key) (t0 : Nat) :
    ∀ q ∈ enc_mix_steps 20, ∀ u : State,
      (enc_round_20 (load_key K) t0 u).get q.1.1 =
        add64 ((enc_mix_input K t0 20 u).get q.1.1) ((enc_mix_input K t0 20 u).get q.1.2) ∧
      (enc_round_20 (load_key K) t0 u).get q.1.2 =
        rol64 ((enc_mix_input K t0 20 u).get q.1.2) q.2 ^^^
          add64 ((enc_mix_input K t0 20 u).get q.1.1) ((enc_mix_input K t0 20 u).get q.1.2) := by
  intro q hq u
  rcases u with ⟨b0, b1, b2, b3, b4, b5, b6, b7, b8, b9, b10, b11, b12, b13, b14, b15⟩
  simp only [enc_mix_steps, enc_mix_pairs, R_1024, Nat.reduceMod, List.getD_cons_zero,
    List.getD_cons_succ, List.zip_cons_cons, List.zip_nil_right, List.mem_cons,
    List.mem_singleton, List.not_mem_nil, or_false] at hq
  rcases hq with rfl | rfl | rfl | rfl | rfl | rfl | rfl | rfl <;>
    (simp only [enc_mix_input, State.get, store_block, load_block, enc_round_20, load_key,
      ref_add_subkey_cons, ref_tweak, t1, t2, Nat.reduceMod, Nat.reduceDiv, Nat.reduceAdd,
      if_true, List.getD_cons_zero, List.getD_cons_succ, add64_add64_zero, add64_fuse_tweak]
     simp only [add64_fuse, and_self])

theorem enc_round_21_mix (K : threefish_key) (t0 : Nat) :
    ∀ q ∈ enc_mix_steps 21, ∀ u : State,
      (enc_round_21 (load_key K) t0 u).get q.1.1 =
        add64 ((enc_mix_input K t0 21 u).get q.1.1) ((enc_mix_input K t0 21 u).get q.1.2) ∧
      (enc_round_21 (load_key K) t0 u).get q.1.2 =
        rol64 ((enc_mix_input K t0 21 u).get q.1.2) q.2 ^^^
          add64 ((enc_mix_input K t0 21 u).get q.1.1) ((enc_mix_input K t0 21 u).get q.1.2) := by
  intro q hq u
  rcases u with ⟨b0, b1, b2, b3, b4, b5, b6, b7, b8, b9, b10, b11, b12, b13, b14, b15⟩
  simp only [enc_mix_steps, enc_mix_pairs, R_1024, Nat.reduceMod, List.getD_cons_zero,
    List.getD_cons_succ, List.zip_cons_cons, List.zip_nil_right, List.mem_cons,
    List.mem_singleton, List.not_mem_nil, or_false] at hq
  rcases hq with rfl | rfl | rfl | rfl | rfl | rfl | rfl | rfl <;> exact ⟨rfl, rfl⟩

theorem enc_round_22_mix (K : threefish_key) (t0 : Nat) :
    ∀ q ∈ enc_mix_steps 22, ∀ u : State,
      (enc_round_22 (load_key K) t0 u).get q.1.1 =
        add64 ((enc_mix_input K t0 22 u).get q.1.1) ((enc_mix_input K t0 22 u).get q.1.2) ∧
      (enc_round_22 (load_key K) t0 u).get q.1.2 =
        rol64 ((enc_mix_input K t0 22 u).get q.1.2) q.2 ^^^
          add64 ((enc_mix_input K t0 22 u).get q.1.1) ((enc_mix_input K t0 22 u).get q.1.2) := by
  intro q hq u
  rcases u with ⟨b0, b1, b2, b3, b4, b5, b6, b7, b8, b9, b10, b11, b12, b13, b14, b15⟩
  simp only [enc_mix_steps, enc_mix_pairs, R_1024, Nat.reduceMod, List.getD_cons_zero,
    List.getD_cons_succ, List.zip_cons_cons, List.zip_nil_right, List.mem_cons,
    List.mem_singleton, List.not_mem_nil, or_false] at hq
  rcases hq with rfl | rfl | rfl | rfl | rfl | rfl | rfl | rfl <;> exact ⟨rfl, rfl⟩

theorem enc_round_23_mix (K : threefish_key) (t0 : Nat) :
    ∀ q ∈ enc_mix_steps 23, ∀ u : State,
      (enc_round_23 (load_key K) t0 u).get q.1.1 =
        add64 ((enc_mix_input K t0 23 u).get q.1.1) ((enc_mix_input K t0 23 u).get q.1.2) ∧
      (enc_round_23 (load_key K) t0 u).get q.1.2 =
        rol64 ((enc_mix_input K t0 23 u).get q.1.2) q.2 ^^^
          add64 ((enc_mix_input K t0 23 u).get q.1.1) ((enc_mix_input K t0 23 u).get q.1.2) := by
  intro q hq u
  rcases u with ⟨b0, b1, b2, b3, b4, b5, b6, b7, b8, b9, b10, b11, b12, b13, b14, b15⟩
  simp only [enc_mix_steps, enc_mix_pairs, R_1024, Nat.reduceMod, List.getD_cons_zero,
    List.getD_cons_succ, List.zip_cons_cons, List.zip_nil_right, List.mem_cons,
    List.mem_singleton, List.not_mem_nil, or_false] at hq
  rcases hq with rfl | rfl | rfl | rfl | rfl | rfl | rfl | rfl <;> exact ⟨rfl, rfl⟩

theorem enc_round_24_mix (K : threefish_key) (t0 : Nat) :
    ∀ q ∈ enc_mix_steps 24, ∀ u : State,
      (enc_round_24 (load_key K) t0 u).get q.1.1 =
        add64 ((enc_mix_input K t0 24 u).get q.1.1) ((enc_mix_input K t0 24 u).get q.1.2) ∧
      (enc_round_24 (load_key K) t0 u).get q.1.2 =
        rol64 ((enc_mix_input K t0 24 u).get q.1.2) q.2 ^^^
          add64 ((enc_mix_input K t0 24 u).get q.1.1) ((enc_mix_input K t0 24 u).get q.1.2) := by
  intro q hq u
  rcases u with ⟨b0, b1, b2, b3, b4, b5, b6, b7, b8, b9, b10, b11, b12, b13, b14, b15⟩
  simp only [enc_mix_steps, enc_mix_pairs, R_1024, Nat.reduceMod, List.getD_cons_zero,
    List.getD_cons_succ, List.zip_cons_cons, List.zip_nil_right, List.mem_cons,
    List.mem_singleton, List.not_mem_nil, or_false] at hq
  rcases hq with rfl | rfl | rfl | rfl | rfl | rfl | rfl | rfl <;>
    (simp only [enc_mix_input, State.get, store_block, load_block, enc_round_24, load_key,
      ref_add_subkey_cons, ref_tweak, t1, t2, Nat.reduceMod, Nat.reduceDiv, Nat.reduceAdd,
      if_true, List.getD_cons_zero, List.getD_cons_succ, add64_add64_zero, add64_fuse_tweak]
     simp only [add64_fuse, and_self])

theorem enc_round_25_mix (K : threefish_key) (t0 : Nat) :
    ∀ q ∈ enc_mix_steps 25, ∀ u : State,
      (enc_round_25 (load_key K) t0 u).get q.1.1 =
        add64 ((enc_mix_input K t0 25 u).get q.1.1) ((enc_mix_input K t0 25 u).get q.1.2) ∧
      (enc_round_25 (load_key K) t0 u).get q.1.2 =
        rol64 ((enc_mix_input K t0 25 u).get q.1.2) q.2 ^^^
          add64 ((enc_mix_input K t0 25 u).get q.1.1) ((enc_mix_input K t0 25 u).get q.1.2) := by
  intro q hq u
  rcases u with ⟨b0, b1, b2, b3, b4, b5, b6, b7, b8, b9, b10, b11, b12, b13, b14, b15⟩
  simp only [enc_mix_steps, enc_mix_pairs, R_1024, Nat.reduceMod, List.getD_cons_zero,
    List.getD_cons_succ, List.zip_cons_cons, List.zip_nil_right, List.mem_cons,
    List.mem_singleton, List.not_mem_nil, or_false] at hq
  rcases hq with rfl | rfl | rfl | rfl | rfl | rfl | rfl | rfl <;> exact ⟨rfl, rfl⟩

theorem enc_round_26_mix (K : threefish_key) (t0 : Nat) :
    ∀ q ∈ enc_mix_steps 26, ∀ u : State,
      (enc_round_26 (load_key K) t0 u).get q.1.1 =
        add64 ((enc_mix_input K t0 26 u).get q.1.1) ((enc_mix_input K t0 26 u).get q.1.2) ∧
      (enc_round_26 (load_key K) t0 u).get q.1.2 =
        rol64 ((enc_mix_input K t0 26 u).get q.1.2) q.2 ^^^
          add64 ((enc_mix_input K t0 26 u).get q.1.1) ((enc_mix_input K t0 26 u).get q.1.2) := by
  intro q hq u
  rcases u with ⟨b0, b1, b2, b3, b4, b5, b6, b7, b8, b9, b10, b11, b12, b13, b14, b15⟩
  simp only [enc_mix_steps, enc_mix_pairs, R_1024, Nat.reduceMod, List.getD_cons_zero,
    List.getD_cons_succ, List.zip_cons_cons, List.zip_nil_right, List.mem_cons,
    List.mem_singleton, List.not_mem_nil, or_false] at hq
  rcases hq with rfl | rfl | rfl | rfl | rfl | rfl | rfl | rfl <;> exact ⟨rfl, rfl⟩

theorem enc_round_27_mix (K : threefish_key) (t0 : Nat) :
    ∀ q ∈ enc_mix_steps 27, ∀ u : State,
      (enc_round_27 (load_key K) t0 u).get q.1.1 =
        add64 ((enc_mix_input K t0 27 u).get q.1.1) ((enc_mix_input K t0 27 u).get q.1.2) ∧
      (enc_round_27 (load_key K) t0 u).get q.1.2 =
        rol64 ((enc_mix_input K t0 27 u).get q.1.2) q.2 ^^^
          add64 ((enc_mix_input K t0 27 u).get q.1.1) ((enc_mix_input K t0 27 u).get q.1.2) := by
  intro q hq u
  rcases u with ⟨b0, b1, b2, b3, b4, b5, b6, b7, b8, b9, b10, b11, b12, b13, b14, b15⟩
  simp only [enc_mix_steps, enc_mix_pairs, R_1024, Nat.reduceMod, List.getD_cons_zero,
    List.getD_cons_succ, List.zip_cons_cons, List.zip_nil_right, List.mem_cons,
    List.mem_singleton, List.not_mem_nil, or_false] at hq
  rcases hq with rfl | rfl | rfl | rfl | rfl | rfl | rfl | rfl <;> exact ⟨rfl, rfl⟩

theorem enc_round_28_mix (K : threefish_key) (t0 : Nat) :
    ∀ q ∈ enc_mix_steps 28, ∀ u : State,
      (enc_round_28 (load_key K) t0 u).get q.1.1 =
        add64 ((enc_mix_input K t0 28 u).get q.1.1) ((enc_mix_input K t0 28 u).get q.1.2) ∧
      (enc_round_28 (load_key K) t0 u).get q.1.2 =
        rol64 ((enc_mix_input K t0 28 u).get q.1.2) q.2 ^^^
          add64 ((enc_mix_input K t0 28 u).get q.1.1) ((enc_mix_input K t0 28 u).get q.1.2) := by
  intro q hq u
  rcases u with ⟨b0, b1, b2, b3, b4, b5, b6, b7, b8, b9, b10, b11, b12, b13, b14, b15⟩
  simp only [enc_mix_steps, enc_mix_pairs, R_1024, Nat.reduceMod, List.getD_cons_zero,
    List.getD_cons_succ, List.zip_cons_cons, List.zip_nil_right, List.mem_cons,
    List.mem_singleton, List.not_mem_nil, or_false] at hq
  rcases hq with rfl | rfl | rfl | rfl | rfl | rfl | rfl | rfl <;>
    (simp only [enc_mix_input, State.get, store_block, load_block, enc_round_28, load_key,
      ref_add_subkey_cons, ref_tweak, t1, t2, Nat.reduceMod, Nat.reduceDiv, Nat.reduceAdd,
      if_true, List.getD_cons_zero, List.getD_cons_succ, add64_add64_zero, add64_fuse_tweak]
     simp only [add64_fuse, and_self])

theorem enc_round_29_mix (K : threefish_key) (t0 : Nat) :
    ∀ q ∈ enc_mix_steps 29, ∀ u : State,
      (enc_round_29 (load_key K) t0 u).get q.1.1 =
        add64 ((enc_mix_input K t0 29 u).get q.1.1) ((enc_mix_input K t0 29 u).get q.1.2) ∧
      (enc_round_29 (load_key K) t0 u).get q.1.2 =
        rol64 ((enc_mix_input K t0 29 u).get q.1.2) q.2 ^^^
          add64 ((enc_mix_input K t0 29 u).get q.1.1) ((enc_mix_input K t0 29 u).get q.1.2) := by
  intro q hq u
  rcases u with ⟨b0, b1, b2, b3, b4, b5, b6, b7, b8, b9, b10, b11, b12, b13, b14, b15⟩
  simp only [enc_mix_steps, enc_mix_pairs, R_1024, Nat.reduceMod, List.getD_cons_zero,
    List.getD_cons_succ, List.zip_cons_cons, List.zip_nil_right, List.mem_cons,
    List.mem_singleton, List.not_mem_nil, or_false] at hq
  rcases hq with rfl | rfl | rfl | rfl | rfl | rfl | rfl | rfl <;> exact ⟨rfl, rfl⟩

theorem enc_round_30_mix (K : threefish_key) (t0 : Nat) :
    ∀ q ∈ enc_mix_steps 30, ∀ u : State,
      (enc_round_30 (load_key K) t0 u).get q.1.1 =
        add64 ((enc_mix_input K t0 30 u).get q.1.1) ((enc_mix_input K t0 30 u).get q.1.2) ∧
      (enc_round_30 (load_key K) t0 u).get q.1.2 =
        rol64 ((enc_mix_input K t0 30 u).get q.1.2) q.2 ^^^
          add64 ((enc_mix_input K t0 30 u).get q.1.1) ((enc_mix_input K t0 30 u).get q.1.2) := by
  intro q hq u
  rcases u with ⟨b0, b1, b2, b3, b4, b5, b6, b7, b8, b9, b10, b11, b12, b13, b14, b15⟩
  simp only [enc_mix_steps, enc_mix_pairs, R_1024, Nat.reduceMod, List.getD_cons_zero,
    List.getD_cons_succ, List.zip_cons_cons, List.zip_nil_right, List.mem_cons,
    List.mem_singleton, List.not_mem_nil, or_false] at hq
  rcases hq with rfl | rfl | rfl | rfl | rfl | rfl | rfl | rfl <;> exact ⟨rfl, rfl⟩

theorem enc_round_31_mix (K : threefish_key) (t0 : Nat) :
    ∀ q ∈ enc_mix_steps 31, ∀ u : State,
      (enc_round_31 (load_key K) t0 u).get q.1.1 =
        add64 ((enc_mix_input K t0 31 u).get q.1.1) ((enc_mix_input K t0 31 u).get q.1.2) ∧
      (enc_round_31 (load_key K) t0 u).get q.1.2 =
        rol64 ((enc_mix_input K t0 31 u).get q.1.2) q.2 ^^^
          add64 ((enc_mix_input K t0 31 u).get q.1.1) ((enc_mix_input K t0 31 u).get q.1.2) := by
  intro q hq u
  rcases u with ⟨b0, b1, b2, b3, b4, b5, b6, b7, b8, b9, b10, b11, b12, b13, b14, b15⟩
  simp only [enc_mix_steps, enc_mix_pairs, R_1024, Nat.reduceMod, List.getD_cons_zero,
    List.getD_cons_succ, List.zip_cons_cons, List.zip_nil_right, List.mem_cons,
    List.mem_singleton, List.not_mem_nil, or_false] at hq
  rcases hq with rfl | rfl | rfl | rfl | rfl | rfl | rfl | rfl <;> exact ⟨rfl, rfl⟩

theorem enc_round_32_mix (K : threefish_key) (t0 : Nat) :
    ∀ q ∈ enc_mix_steps 32, ∀ u : State,
      (enc_round_32 (load_key K) t0 u).get q.1.1 =
        add64 ((enc_mix_input K t0 32 u).get q.1.1) ((enc_mix_input K t0 32 u).get q.1.2) ∧
      (enc_round_32 (load_key K) t0 u).get q.1.2 =
        rol64 ((enc_mix_input K t0 32 u).get q.1.2) q.2 ^^^
          add64 ((enc_mix_input K t0 32 u).get q.1.1) ((enc_mix_input K t0 32 u).get q.1.2) := by
  intro q hq u
  rcases u with ⟨b0, b1, b2, b3, b4, b5, b6, b7, b8, b9, b10, b11, b12, b13, b14, b15⟩
  simp only [enc_mix_steps, enc_mix_pairs, R_1024, Nat.reduceMod, List.getD_cons_zero,
    List.getD_cons_succ, List.zip_cons_cons, List.zip_nil_right, List.mem_cons,
    List.mem_singleton, List.not_mem_nil, or_false] at hq
  rcases hq with rfl | rfl | rfl | rfl | rfl | rfl | rfl | rfl <;>
    (simp only [enc_mix_input, State.get, store_block, load_block, enc_round_32, load_key,
      ref_add_subkey_cons, ref_tweak, t1, t2, Nat.reduceMod, Nat.reduceDiv, Nat.reduceAdd,
      if_true, List.getD_cons_zero, List.getD_cons_succ, add64_add64_zero, add64_fuse_tweak]
     simp only [add64_fuse, and_self])

theorem enc_round_33_mix (K : threefish_key) (t0 : Nat) :
    ∀ q ∈ enc_mix_steps 33, ∀ u : State,
      (enc_round_33 (load_key K) t0 u).get q.1.1 =
        add64 ((enc_mix_input K t0 33 u).get q.1.1) ((enc_mix_input K t0 33 u).get q.1.2) ∧
      (enc_round_33 (load_key K) t0 u).get q.1.2 =
        rol64 ((enc_mix_input K t0 33 u).get q.1.2) q.2 ^^^
          add64 ((enc_mix_input K t0 33 u).get q.1.1) ((enc_mix_input K t0 33 u).get q.1.2) := by
  intro q hq u
  rcases u with ⟨b0, b1, b2, b3, b4, b5, b6, b7, b8, b9, b10, b11, b12, b13, b14, b15⟩
  simp only [enc_mix_steps, enc_mix_pairs, R_1024, Nat.reduceMod, List.getD_cons_zero,
    List.getD_cons_succ, List.zip_cons_cons, List.zip_nil_right, List.mem_cons,
    List.mem_singleton, List.not_mem_nil, or_false] at hq
  rcases hq with rfl | rfl | rfl | rfl | rfl | rfl | rfl | rfl <;> exact ⟨rfl, rfl⟩

theorem enc_round_34_mix (K : threefish_key) (t0 : Nat) :
    ∀ q ∈ enc_mix_steps 34, ∀ u : State,
      (enc_round_34 (load_key K) t0 u).get q.1.1 =
        add64 ((enc_mix_input K t0 34 u).get q.1.1) ((enc_mix_input K t0 34 u).get q.1.2) ∧
      (enc_round_34 (load_key K) t0 u).get q.1.2 =
        rol64 ((enc_mix_input K t0 34 u).get q.1.2) q.2 ^^^
          add64 ((enc_mix_input K t0 34 u).get q.1.1) ((enc_mix_input K t0 34 u).get q.1.2) := by
  intro q hq u
  rcases u with ⟨b0, b1, b2, b3, b4, b5, b6, b7, b8, b9, b10, b11, b12, b13, b14, b15⟩
  simp only [enc_mix_steps, enc_mix_pairs, R_1024, Nat.reduceMod, List.getD_cons_zero,
    List.getD_cons_succ, List.zip_cons_cons, List.zip_nil_right, List.mem_cons,
    List.mem_singleton, List.not_mem_nil, or_false] at hq
  rcases hq with rfl | rfl | rfl | rfl | rfl | rfl | rfl | rfl <;> exact ⟨rfl, rfl⟩

theorem enc_round_35_mix (K : threefish_key) (t0 : Nat) :
    ∀ q ∈ enc_mix_steps 35, ∀ u : State,
      (enc_round_35 (load_key K) t0 u).get q.1.1 =
        add64 ((enc_mix_input K t0 35 u).get q.1.1) ((enc_mix_input K t0 35 u).get q.1.2) ∧
      (enc_round_35 (load_key K) t0 u).get q.1.2 =
        rol64 ((enc_mix_input K t0 35 u).get q.1.2) q.2 ^^^
          add64 ((enc_mix_input K t0 35 u).get q.1.1) ((enc_mix_input K t0 35 u).get q.1.2) := by
  intro q hq u
  rcases u with ⟨b0, b1, b2, b3, b4, b5, b6, b7, b8, b9, b10, b11, b12, b13, b14, b15⟩
  simp only [enc_mix_steps, enc_mix_pairs, R_1024, Nat.reduceMod, List.getD_cons_zero,
    List.getD_cons_succ, List.zip_cons_cons, List.zip_nil_right, List.mem_cons,
    List.mem_singleton, List.not_mem_nil, or_false] at hq
  rcases hq with rfl | rfl | rfl | rfl | rfl | rfl | rfl | rfl <;> exact ⟨rfl, rfl⟩

theorem enc_round_36_mix (K : threefish_key) (t0 : Nat) :
    ∀ q ∈ enc_mix_steps 36, ∀ u : State,
      (enc_round_36 (load_key K) t0 u).get q.1.1 =
        add64 ((enc_mix_input K t0 36 u).get q.1.1) ((enc_mix_input K t0 36 u).get q.1.2) ∧
      (enc_round_36 (load_key K) t0 u).get q.1.2 =
        rol64 ((enc_mix_input K t0 36 u).get q.1.2) q.2 ^^^
          add64 ((enc_mix_input K t0 36 u).get q.1.1) ((enc_mix_input K t0 36 u).get q.1.2) := by
  intro q hq u
  rcases u with ⟨b0, b1, b2, b3, b4, b5, b6, b7, b8, b9, b10, b11, b12, b13, b14, b15⟩
  simp only [enc_mix_steps, enc_mix_pairs, R_1024, Nat.reduceMod, List.getD_cons_zero,
    List.getD_cons_succ, List.zip_cons_cons, List.zip_nil_right, List.mem_cons,
    List.mem_singleton, List.not_mem_nil, or_false] at hq
  rcases hq with rfl | rfl | rfl | rfl | rfl | rfl | rfl | rfl <;>
    (simp only [enc_mix_input, State.get, store_block, load_block, enc_round_36, load_key,
      ref_add_subkey_cons, ref_tweak, t1, t2, Nat.reduceMod, Nat.reduceDiv, Nat.reduceAdd,
      if_true, List.getD_cons_zero, List.getD_cons_succ, add64_add64_zero, add64_fuse_tweak]
     simp only [add64_fuse, and_self])

theorem enc_round_37_mix (K : threefish_key) (t0 : Nat) :
    ∀ q ∈ enc_mix_steps 37, ∀ u : State,
      (enc_round_37 (load_key K) t0 u).get q.1.1 =
        add64 ((enc_mix_input K t0 37 u).get q.1.1) ((enc_mix_input K t0 37 u).get q.1.2) ∧
      (enc_round_37 (load_key K) t0 u).get q.1.2 =
        rol64 ((enc_mix_input K t0 37 u).get q.1.2) q.2 ^^^
          add64 ((enc_mix_input K t0 37 u).get q.1.1) ((enc_mix_input K t0 37 u).get q.1.2) := by
  intro q hq u
  rcases u with ⟨b0, b1, b2, b3, b4, b5, b6, b7, b8, b9, b10, b11, b12, b13, b14, b15⟩
  simp only [enc_mix_steps, enc_mix_pairs, R_1024, Nat.reduceMod, List.getD_cons_zero,
    List.getD_cons_succ, List.zip_cons_cons, List.zip_nil_right, List.mem_cons,
    List.mem_singleton, List.not_mem_nil, or_false] at hq
  rcases hq with rfl | rfl | rfl | rfl | rfl | rfl | rfl | rfl <;> exact ⟨rfl, rfl⟩

theorem enc_round_38_mix (K : threefish_key) (t0 : Nat) :
    ∀ q ∈ enc_mix_steps 38, ∀ u : State,
      (enc_round_38 (load_key K) t0 u).get q.1.1 =
        add64 ((enc_mix_input K t0 38 u).get q.1.1) ((enc_mix_input K t0 38 u).get q.1.2) ∧
      (enc_round_38 (load_key K) t0 u).get q.1.2 =
        rol64 ((enc_mix_input K t0 38 u).get q.1.2) q.2 ^^^
          add64 ((enc_mix_input K t0 38 u).get q.1.1) ((enc_mix_input K t0 38 u).get q.1.2) := by
  intro q hq u
  rcases u with ⟨b0, b1, b2, b3, b4, b5, b6, b7, b8, b9, b10, b11, b12, b13, b14, b15⟩
  simp only [enc_mix_steps, enc_mix_pairs, R_1024, Nat.reduceMod, List.getD_cons_zero,
    List.getD_cons_succ, List.zip_cons_cons, List.zip_nil_right, List.mem_cons,
    List.mem_singleton, List.not_mem_nil, or_false] at hq
  rcases hq with rfl | rfl | rfl | rfl | rfl | rfl | rfl | rfl <;> exact ⟨rfl, rfl⟩

theorem enc_round_39_mix (K : threefish_key) (t0 : Nat) :
    ∀ q ∈ enc_mix_steps 39, ∀ u : State,
      (enc_round_39 (load_key K) t0 u).get q.1.1 =
        add64 ((enc_mix_input K t0 39 u).get q.1.1) ((enc_mix_input K t0 39 u).get q.1.2) ∧
      (enc_round_39 (load_key K) t0 u).get q.1.2 =
        rol64 ((enc_mix_input K t0 39 u).get q.1.2) q.2 ^^^
          add64 ((enc_mix_input K t0 39 u).get q.1.1) ((enc_mix_input K t0 39 u).get q.1.2) := by
  intro q hq u
  rcases u with ⟨b0, b1, b2, b3, b4, b5, b6, b7, b8, b9, b10, b11, b12, b13, b14, b15⟩
  simp only [enc_mix_steps, enc_mix_pairs, R_1024, Nat.reduceMod, List.getD_cons_zero,
    List.getD_cons_succ, List.zip_cons_cons, List.zip_nil_right, List.mem_cons,
    List.mem_singleton, List.not_mem_nil, or_false] at hq
  rcases hq with rfl | rfl | rfl | rfl | rfl | rfl | rfl | rfl <;> exact ⟨rfl, rfl⟩

theorem enc_round_40_mix (K : threefish_key) (t0 : Nat) :
    ∀ q ∈ enc_mix_steps 40, ∀ u : State,
      (enc_round_40 (load_key K) t0 u).get q.1.1 =
        add64 ((enc_mix_input K t0 40 u).get q.1.1) ((enc_mix_input K t0 40 u).get q.1.2) ∧
      (enc_round_40 (load_key K) t0 u).get q.1.2 =
        rol64 ((enc_mix_input K t0 40 u).get q.1.2) q.2 ^^^
          add64 ((enc_mix_input K t0 40 u).get q.1.1) ((enc_mix_input K t0 40 u).get q.1.2) := by
  intro q hq u
  rcases u with ⟨b0, b1, b2, b3, b4, b5, b6, b7, b8, b9, b10, b11, b12, b13, b14, b15⟩
  simp only [enc_mix_steps, enc_mix_pairs, R_1024, Nat.reduceMod, List.getD_cons_zero,
    List.getD_cons_succ, List.zip_cons_cons, List.zip_nil_right, List.mem_cons,
    List.mem_singleton, List.not_mem_nil, or_false] at hq
  rcases hq with rfl | rfl | rfl | rfl | rfl | rfl | rfl | rfl <;>
    (simp only [enc_mix_input, State.get, store_block, load_block, enc_round_40, load_key,
      ref_add_subkey_cons, ref_tweak, t1, t2, Nat.reduceMod, Nat.reduceDiv, Nat.reduceAdd,
      if_true, List.getD_cons_zero, List.getD_cons_succ, add64_add64_zero, add64_fuse_tweak]
     simp only [add64_fuse, and_self])

theorem enc_round_41_mix (K : threefish_key) (t0 : Nat) :
    ∀ q ∈ enc_mix_steps 41, ∀ u : State,
      (enc_round_41 (load_key K) t0 u).get q.1.1 =
        add64 ((enc_mix_input K t0 41 u).get q.1.1) ((enc_mix_input K t0 41 u).get q.1.2) ∧
      (enc_round_41 (load_key K) t0 u).get q.1.2 =
        rol64 ((enc_mix_input K t0 41 u).get q.1.2) q.2 ^^^
          add64 ((enc_mix_input K t0 41 u).get q.1.1) ((enc_mix_input K t0 41 u).get q.1.2) := by
  intro q hq u
  rcases u with ⟨b0, b1, b2, b3, b4, b5, b6, b7, b8, b9, b10, b11, b12, b13, b14, b15⟩
  simp only [enc_mix_steps, enc_mix_pairs, R_1024, Nat.reduceMod, List.getD_cons_zero,
    List.getD_cons_succ, List.zip_cons_cons, List.zip_nil_right, List.mem_cons,
    List.mem_singleton, List.not_mem_nil, or_false] at hq
  rcases hq with rfl | rfl | rfl | rfl | rfl | rfl | rfl | rfl <;> exact ⟨rfl, rfl⟩

theorem enc_round_42_mix (K : threefish_key) (t0 : Nat) :
    ∀ q ∈ enc_mix_steps 42, ∀ u : State,
      (enc_round_42 (load_key K) t0 u).get q.1.1 =
        add64 ((enc_mix_input K t0 42 u).get q.1.1) ((enc_mix_input K t0 42 u).get q.1.2) ∧
      (enc_round_42 (load_key K) t0 u).get q.1.2 =
        rol64 ((enc_mix_input K t0 42 u).get q.1.2) q.2 ^^^
          add64 ((enc_mix_input K t0 42 u).get q.1.1) ((enc_mix_input K t0 42 u).get q.1.2) := by
  intro q hq u
  rcases u with ⟨b0, b1, b2, b3, b4, b5, b6, b7, b8, b9, b10, b11, b12, b13, b14, b15⟩
  simp only [enc_mix_steps, enc_mix_pairs, R_1024, Nat.reduceMod, List.getD_cons_zero,
    List.getD_cons_succ, List.zip_cons_cons, List.zip_nil_right, List.mem_cons,
    List.mem_singleton, List.not_mem_nil, or_false] at hq
  rcases hq with rfl | rfl | rfl | rfl | rfl | rfl | rfl | rfl <;> exact ⟨rfl, rfl⟩

theorem enc_round_43_mix (K : threefish_key) (t0 : Nat) :
    ∀ q ∈ enc_mix_steps 43, ∀ u : State,
      (enc_round_43 (load_key K) t0 u).get q.1.1 =
        add64 ((enc_mix_input K t0 43 u).get q.1.1) ((enc_mix_input K t0 43 u).get q.1.2) ∧
      (enc_round_43 (load_key K) t0 u).get q.1.2 =
        rol64 ((enc_mix_input K t0 43 u).get q.1.2) q.2 ^^^
          add64 ((enc_mix_input K t0 43 u).get q.1.1) ((enc_mix_input K t0 43 u).get q.1.2) := by
  intro q hq u
  rcases u with ⟨b0, b1, b2, b3, b4, b5, b6, b7, b8, b9, b10, b11, b12, b13, b14, b15⟩
  simp only [enc_mix_steps, enc_mix_pairs, R_1024, Nat.reduceMod, List.getD_cons_zero,
    List.getD_cons_succ, List.zip_cons_cons, List.zip_nil_right, List.mem_cons,
    List.mem_singleton, List.not_mem_nil, or_false] at hq
  rcases hq with rfl | rfl | rfl | rfl | rfl | rfl | rfl | rfl <;> exact ⟨rfl, rfl⟩

theorem enc_round_44_mix (K : threefish_key) (t0 : Nat) :
    ∀ q ∈ enc_mix_steps 44, ∀ u : State,
      (enc_round_44 (load_key K) t0 u).get q.1.1 =
        add64 ((enc_mix_input K t0 44 u).get q.1.1) ((enc_mix_input K t0 44 u).get q.1.2) ∧
      (enc_round_44 (load_key K) t0 u).get q.1.2 =
        rol64 ((enc_mix_input K t0 44 u).get q.1.2) q.2 ^^^
          add64 ((enc_mix_input K t0 44 u).get q.1.1) ((enc_mix_input K t0 44 u).get q.1.2) := by
  intro q hq u
  rcases u with ⟨b0, b1, b2, b3, b4, b5, b6, b7, b8, b9, b10, b11, b12, b13, b14, b15⟩
  simp only [enc_mix_steps, enc_mix_pairs, R_1024, Nat.reduceMod, List.getD_cons_zero,
    List.getD_cons_succ, List.zip_cons_cons, List.zip_nil_right, List.mem_cons,
    List.mem_singleton, List.not_mem_nil, or_false] at hq
  rcases hq with rfl | rfl | rfl | rfl | rfl | rfl | rfl | rfl <;>
    (simp only [enc_mix_input, State.get, store_block, load_block, enc_round_44, load_key,
      ref_add_subkey_cons, ref_tweak, t1, t2, Nat.reduceMod, Nat.reduceDiv, Nat.reduceAdd,
      if_true, List.getD_cons_zero, List.getD_cons_succ, add64_add64_zero, add64_fuse_tweak]
     simp only [add64_fuse, and_self])

theorem enc_round_45_mix (K : threefish_key) (t0 : Nat) :
    ∀ q ∈ enc_mix_steps 45, ∀ u : State,
      (enc_round_45 (load_key K) t0 u).get q.1.1 =
        add64 ((enc_mix_input K t0 45 u).get q.1.1) ((enc_mix_input K t0 45 u).get q.1.2) ∧
      (enc_round_45 (load_key K) t0 u).get q.1.2 =
        rol64 ((enc_mix_input K t0 45 u).get q.1.2) q.2 ^^^
          add64 ((enc_mix_input K t0 45 u).get q.1.1) ((enc_mix_input K t0 45 u).get q.1.2) := by
  intro q hq u
  rcases u with ⟨b0, b1, b2, b3, b4, b5, b6, b7, b8, b9, b10, b11, b12, b13, b14, b15⟩
  simp only [enc_mix_steps, enc_mix_pairs, R_1024, Nat.reduceMod, List.getD_cons_zero,
    List.getD_cons_succ, List.zip_cons_cons, List.zip_nil_right, List.mem_cons,
    List.mem_singleton, List.not_mem_nil, or_false] at hq
  rcases hq with rfl | rfl | rfl | rfl | rfl | rfl | rfl | rfl <;> exact ⟨rfl, rfl⟩

theorem enc_round_46_mix (K : threefish_key) (t0 : Nat) :
    ∀ q ∈ enc_mix_steps 46, ∀ u : State,
      (enc_round_46 (load_key K) t0 u).get q.1.1 =
        add64 ((enc_mix_input K t0 46 u).get q.1.1) ((enc_mix_input K t0 46 u).get q.1.2) ∧
      (enc_round_46 (load_key K) t0 u).get q.1.2 =
        rol64 ((enc_mix_input K t0 46 u).get q.1.2) q.2 ^^^
          add64 ((enc_mix_input K t0 46 u).get q.1.1) ((enc_mix_input K t0 46 u).get q.1.2) := by
  intro q hq u
  rcases u with ⟨b0, b1, b2, b3, b4, b5, b6, b7, b8, b9, b10, b11, b12, b13, b14, b15⟩
  simp only [enc_mix_steps, enc_mix_pairs, R_1024, Nat.reduceMod, List.getD_cons_zero,
    List.getD_cons_succ, List.zip_cons_cons, List.zip_nil_right, List.mem_cons,
    List.mem_singleton, List.not_mem_nil, or_false] at hq
  rcases hq with rfl | rfl | rfl | rfl | rfl | rfl | rfl | rfl <;> exact ⟨rfl, rfl⟩

theorem enc_round_47_mix (K : threefish_key) (t0 : Nat) :
    ∀ q ∈ enc_mix_steps 47, ∀ u : State,
      (enc_round_47 (load_key K) t0 u).get q.1.1 =
        add64 ((enc_mix_input K t0 47 u).get q.1.1) ((enc_mix_input K t0 47 u).get q.1.2) ∧
      (enc_round_47 (load_key K) t0 u).get q.1.2 =
        rol64 ((enc_mix_input K t0 47 u).get q.1.2) q.2 ^^^
          add64 ((enc_mix_input K t0 47 u).get q.1.1) ((enc_mix_input K t0 47 u).get q.1.2) := by
  intro q hq u
  rcases u with ⟨b0, b1, b2, b3, b4, b5, b6, b7, b8, b9, b10, b11, b12, b13, b14, b15⟩
  simp only [enc_mix_steps, enc_mix_pairs, R_1024, Nat.reduceMod, List.getD_cons_zero,
    List.getD_cons_succ, List.zip_cons_cons, List.zip_nil_right, List.mem_cons,
    List.mem_singleton, List.not_mem_nil, or_false] at hq
  rcases hq with rfl | rfl | rfl | rfl | rfl | rfl | rfl | rfl <;> exact ⟨rfl, rfl⟩

theorem enc_round_48_mix (K : threefish_key) (t0 : Nat) :
    ∀ q ∈ enc_mix_steps 48, ∀ u : State,
      (enc_round_48 (load_key K) t0 u).get q.1.1 =
        add64 ((enc_mix_input K t0 48 u).get q.1.1) ((enc_mix_input K t0 48 u).get q.1.2) ∧
      (enc_round_48 (load_key K) t0 u).get q.1.2 =
        rol64 ((enc_mix_input K t0 48 u).get q.1.2) q.2 ^^^
          add64 ((enc_mix_input K t0 48 u).get q.1.1) ((enc_mix_input K t0 48 u).get q.1.2) := by
  intro q hq u
  rcases u with ⟨b0, b1, b2, b3, b4, b5, b6, b7, b8, b9, b10, b11, b12, b13, b14, b15⟩
  simp only [enc_mix_steps, enc_mix_pairs, R_1024, Nat.reduceMod, List.getD_cons_zero,
    List.getD_cons_succ, List.zip_cons_cons, List.zip_nil_right, List.mem_cons,
    List.mem_singleton, List.not_mem_nil, or_false] at hq
  rcases hq with rfl | rfl | rfl | rfl | rfl | rfl | rfl | rfl <;>
    (simp only [enc_mix_input, State.get, store_block, load_block, enc_round_48, load_key,
      ref_add_subkey_cons, ref_tweak, t1, t2, Nat.reduceMod, Nat.reduceDiv, Nat.reduceAdd,
      if_true, List.getD_cons_zero, List.getD_cons_succ, add64_add64_zero, add64_fuse_tweak]
     simp only [add64_fuse, and_self])

theorem enc_round_49_mix (K : threefish_key) (t0 : Nat) :
    ∀ q ∈ enc_mix_steps 49, ∀ u : State,
      (enc_round_49 (load_key K) t0 u).get q.1.1 =
        add64 ((enc_mix_input K t0 49 u).get q.1.1) ((enc_mix_input K t0 49 u).get q.1.2) ∧
      (enc_round_49 (load_key K) t0 u).get q.1.2 =
        rol64 ((enc_mix_input K t0 49 u).get q.1.2) q.2 ^^^
          add64 ((enc_mix_input K t0 49 u).get q.1.1) ((enc_mix_input K t0 49 u).get q.1.2) := by
  intro q hq u
  rcases u with ⟨b0, b1, b2, b3, b4, b5, b6, b7, b8, b9, b10, b11, b12, b13, b14, b15⟩
  simp only [enc_mix_steps, enc_mix_pairs, R_1024, Nat.reduceMod, List.getD_cons_zero,
    List.getD_cons_succ, List.zip_cons_cons, List.zip_nil_right, List.mem_cons,
    List.mem_singleton, List.not_mem_nil, or_false] at hq
  rcases hq with rfl | rfl | rfl | rfl | rfl | rfl | rfl | rfl <;> exact ⟨rfl, rfl⟩

theorem enc_round_50_mix (K : threefish_key) (t0 : Nat) :
    ∀ q ∈ enc_mix_steps 50, ∀ u : State,
      (enc_round_50 (load_key K) t0 u).get q.1.1 =
        add64 ((enc_mix_input K t0 50 u).get q.1.1) ((enc_mix_input K t0 50 u).get q.1.2) ∧
      (enc_round_50 (load_key K) t0 u).get q.1.2 =
        rol64 ((enc_mix_input K t0 50 u).get q.1.2) q.2 ^^^
          add64 ((enc_mix_input K t0 50 u).get q.1.1) ((enc_mix_input K t0 50 u).get q.1.2) := by
  intro q hq u
  rcases u with ⟨b0, b1, b2, b3, b4, b5, b6, b7, b8, b9, b10, b11, b12, b13, b14, b15⟩
  simp only [enc_mix_steps, enc_mix_pairs, R_1024, Nat.reduceMod, List.getD_cons_zero,
    List.getD_cons_succ, List.zip_cons_cons, List.zip_nil_right, List.mem_cons,
    List.mem_singleton, List.not_mem_nil, or_false] at hq
  rcases hq with rfl | rfl | rfl | rfl | rfl | rfl | rfl | rfl <;> exact ⟨rfl, rfl⟩

theorem enc_round_51_mix (K : threefish_key) (t0 : Nat) :
    ∀ q ∈ enc_mix_steps 51, ∀ u : State,
      (enc_round_51 (load_key K) t0 u).get q.1.1 =
        add64 ((enc_mix_input K t0 51 u).get q.1.1) ((enc_mix_input K t0 51 u).get q.1.2) ∧
      (enc_round_51 (load_key K) t0 u).get q.1.2 =
        rol64 ((enc_mix_input K t0 51 u).get q.1.2) q.2 ^^^
          add64 ((enc_mix_input K t0 51 u).get q.1.1) ((enc_mix_input K t0 51 u).get q.1.2) := by
  intro q hq u
  rcases u with ⟨b0, b1, b2, b3, b4, b5, b6, b7, b8, b9, b10, b11, b12, b13, b14, b15⟩
  simp only [enc_mix_steps, enc_mix_pairs, R_1024, Nat.reduceMod, List.getD_cons_zero,
    List.getD_cons_succ, List.zip_cons_cons, List.zip_nil_right, List.mem_cons,
    List.mem_singleton, List.not_mem_nil, or_false] at hq
  rcases hq with rfl | rfl | rfl | rfl | rfl | rfl | rfl | rfl <;> exact ⟨rfl, rfl⟩

theorem enc_round_52_mix (K : threefish_key) (t0 : Nat) :
    ∀ q ∈ enc_mix_steps 52, ∀ u : State,
      (enc_round_52 (load_key K) t0 u).get q.1.1 =
        add64 ((enc_mix_input K t0 52 u).get q.1.1) ((enc_mix_input K t0 52 u).get q.1.2) ∧
      (enc_round_52 (load_key K) t0 u).get q.1.2 =
        rol64 ((enc_mix_input K t0 52 u).get q.1.2) q.2 ^^^
          add64 ((enc_mix_input K t0 52 u).get q.1.1) ((enc_mix_input K t0 52 u).get q.1.2) := by
  intro q hq u
  rcases u with ⟨b0, b1, b2, b3, b4, b5, b6, b7, b8, b9, b10, b11, b12, b13, b14, b15⟩
  simp only [enc_mix_steps, enc_mix_pairs, R_1024, Nat.reduceMod, List.getD_cons_zero,
    List.getD_cons_succ, List.zip_cons_cons, List.zip_nil_right, List.mem_cons,
    List.mem_singleton, List.not_mem_nil, or_false] at hq
  rcases hq with rfl | rfl | rfl | rfl | rfl | rfl | rfl | rfl <;>
    (simp only [enc_mix_input, State.get, store_block, load_block, enc_round_52, load_key,
      ref_add_subkey_cons, ref_tweak, t1, t2, Nat.reduceMod, Nat.reduceDiv, Nat.reduceAdd,
      if_true, List.getD_cons_zero, List.getD_cons_succ, add64_add64_zero, add64_fuse_tweak]
     simp only [add64_fuse, and_self])

theorem enc_round_53_mix (K : threefish_key) (t0 : Nat) :
    ∀ q ∈ enc_mix_steps 53, ∀ u : State,
      (enc_round_53 (load_key K) t0 u).get q.1.1 =
        add64 ((enc_mix_input K t0 53 u).get q.1.1) ((enc_mix_input K t0 53 u).get q.1.2) ∧
      (enc_round_53 (load_key K) t0 u).get q.1.2 =
        rol64 ((enc_mix_input K t0 53 u).get q.1.2) q.2 ^^^
          add64 ((enc_mix_input K t0 53 u).get q.1.1) ((enc_mix_input K t0 53 u).get q.1.2) := by
  intro q hq u
  rcases u with ⟨b0, b1, b2, b3, b4, b5, b6, b7, b8, b9, b10, b11, b12, b13, b14, b15⟩
  simp only [enc_mix_steps, enc_mix_pairs, R_1024, Nat.reduceMod, List.getD_cons_zero,
    List.getD_cons_succ, List.zip_cons_cons, List.zip_nil_right, List.mem_cons,
    List.mem_singleton, List.not_mem_nil, or_false] at hq
  rcases hq with rfl | rfl | rfl | rfl | rfl | rfl | rfl | rfl <;> exact ⟨rfl, rfl⟩

theorem enc_round_54_mix (K : threefish_key) (t0 : Nat) :
    ∀ q ∈ enc_mix_steps 54, ∀ u : State,
      (enc_round_54 (load_key K) t0 u).get q.1.1 =
        add64 ((enc_mix_input K t0 54 u).get q.1.1) ((enc_mix_input K t0 54 u).get q.1.2) ∧
      (enc_round_54 (load_key K) t0 u).get q.1.2 =
        rol64 ((enc_mix_input K t0 54 u).get q.1.2) q.2 ^^^
          add64 ((enc_mix_input K t0 54 u).get q.1.1) ((enc_mix_input K t0 54 u).get q.1.2) := by
  intro q hq u
  rcases u with ⟨b0, b1, b2, b3, b4, b5, b6, b7, b8, b9, b10, b11, b12, b13, b14, b15⟩
  simp only [enc_mix_steps, enc_mix_pairs, R_1024, Nat.reduceMod, List.getD_cons_zero,
    List.getD_cons_succ, List.zip_cons_cons, List.zip_nil_right, List.mem_cons,
    List.mem_singleton, List.not_mem_nil, or_false] at hq
  rcases hq with rfl | rfl | rfl | rfl | rfl | rfl | rfl | rfl <;> exact ⟨rfl, rfl⟩

theorem enc_round_55_mix (K : threefish_key) (t0 : Nat) :
    ∀ q ∈ enc_mix_steps 55, ∀ u : State,
      (enc_round_55 (load_key K) t0 u).get q.1.1 =
        add64 ((enc_mix_input K t0 55 u).get q.1.1) ((enc_mix_input K t0 55 u).get q.1.2) ∧
      (enc_round_55 (load_key K) t0 u).get q.1.2 =
        rol64 ((enc_mix_input K t0 55 u).get q.1.2) q.2 ^^^
          add64 ((enc_mix_input K t0 55 u).get q.1.1) ((enc_mix_input K t0 55 u).get q.1.2) := by
  intro q hq u
  rcases u with ⟨b0, b1, b2, b3, b4, b5, b6, b7, b8, b9, b10, b11, b12, b13, b14, b15⟩
  simp only [enc_mix_steps, enc_mix_pairs, R_1024, Nat.reduceMod, List.getD_cons_zero,
    List.getD_cons_succ, List.zip_cons_cons, List.zip_nil_right, List.mem_cons,
    List.mem_singleton, List.not_mem_nil, or_false] at hq
  rcases hq with rfl | rfl | rfl | rfl | rfl | rfl | rfl | rfl <;> exact ⟨rfl, rfl⟩

theorem enc_round_56_mix (K : threefish_key) (t0 : Nat) :
    ∀ q ∈ enc_mix_steps 56, ∀ u : State,
      (enc_round_56 (load_key K) t0 u).get q.1.1 =
        add64 ((enc_mix_input K t0 56 u).get q.1.1) ((enc_mix_input K t0 56 u).get q.1.2) ∧
      (enc_round_56 (load_key K) t0 u).get q.1.2 =
        rol64 ((enc_mix_input K t0 56 u).get q.1.2) q.2 ^^^
          add64 ((enc_mix_input K t0 56 u).get q.1.1) ((enc_mix_input K t0 56 u).get q.1.2) := by
  intro q hq u
  rcases u with ⟨b0, b1, b2, b3, b4, b5, b6, b7, b8, b9, b10, b11, b12, b13, b14, b15⟩
  simp only [enc_mix_steps, enc_mix_pairs, R_1024, Nat.reduceMod, List.getD_cons_zero,
    List.getD_cons_succ, List.zip_cons_cons, List.zip_nil_right, List.mem_cons,
    List.mem_singleton, List.not_mem_nil, or_false] at hq
  rcases hq with rfl | rfl | rfl | rfl | rfl | rfl | rfl | rfl <;>
    (simp only [enc_mix_input, State.get, store_block, load_block, enc_round_56, load_key,
      ref_add_subkey_cons, ref_tweak, t1, t2, Nat.reduceMod, Nat.reduceDiv, Nat.reduceAdd,
      if_true, List.getD_cons_zero, List.getD_cons_succ, add64_add64_zero, add64_fuse_tweak]
     simp only [add64_fuse, and_self])

theorem enc_round_57_mix (K : threefish_key) (t0 : Nat) :
    ∀ q ∈ enc_mix_steps 57, ∀ u : State,
      (enc_round_57 (load_key K) t0 u).get q.1.1 =
        add64 ((enc_mix_input K t0 57 u).get q.1.1) ((enc_mix_input K t0 57 u).get q.1.2) ∧
      (enc_round_57 (load_key K) t0 u).get q.1.2 =
        rol64 ((enc_mix_input K t0 57 u).get q.1.2) q.2 ^^^
          add64 ((enc_mix_input K t0 57 u).get q.1.1) ((enc_mix_input K t0 57 u).get q.1.2) := by
  intro q hq u
  rcases u with ⟨b0, b1, b2, b3, b4, b5, b6, b7, b8, b9, b10, b11, b12, b13, b14, b15⟩
  simp only [enc_mix_steps, enc_mix_pairs, R_1024, Nat.reduceMod, List.getD_cons_zero,
    List.getD_cons_succ, List.zip_cons_cons, List.zip_nil_right, List.mem_cons,
    List.mem_singleton, List.not_mem_nil, or_false] at hq
  rcases hq with rfl | rfl | rfl | rfl | rfl | rfl | rfl | rfl <;> exact ⟨rfl, rfl⟩

theorem enc_round_58_mix (K : threefish_key) (t0 : Nat) :
    ∀ q ∈ enc_mix_steps 58, ∀ u : State,
      (enc_round_58 (load_key K) t0 u).get q.1.1 =
        add64 ((enc_mix_input K t0 58 u).get q.1.1) ((enc_mix_input K t0 58 u).get q.1.2) ∧
      (enc_round_58 (load_key K) t0 u).get q.1.2 =
        rol64 ((enc_mix_input K t0 58 u).get q.1.2) q.2 ^^^
          add64 ((enc_mix_input K t0 58 u).get q.1.1) ((enc_mix_input K t0 58 u).get q.1.2) := by
  intro q hq u
  rcases u with ⟨b0, b1, b2, b3, b4, b5, b6, b7, b8, b9, b10, b11, b12, b13, b14, b15⟩
  simp only [enc_mix_steps, enc_mix_pairs, R_1024, Nat.reduceMod, List.getD_cons_zero,
    List.getD_cons_succ, List.zip_cons_cons, List.zip_nil_right, List.mem_cons,
    List.mem_singleton, List.not_mem_nil, or_false] at hq
  rcases hq with rfl | rfl | rfl | rfl | rfl | rfl | rfl | rfl <;> exact ⟨rfl, rfl⟩

theorem enc_round_59_mix (K : threefish_key) (t0 : Nat) :
    ∀ q ∈ enc_mix_steps 59, ∀ u : State,
      (enc_round_59 (load_key K) t0 u).get q.1.1 =
        add64 ((enc_mix_input K t0 59 u).get q.1.1) ((enc_mix_input K t0 59 u).get q.1.2) ∧
      (enc_round_59 (load_key K) t0 u).get q.1.2 =
        rol64 ((enc_mix_input K t0 59 u).get q.1.2) q.2 ^^^
          add64 ((enc_mix_input K t0 59 u).get q.1.1) ((enc_mix_input K t0 59 u).get q.1.2) := by
  intro q hq u
  rcases u with ⟨b0, b1, b2, b3, b4, b5, b6, b7, b8, b9, b10, b11, b12, b13, b14, b15⟩
  simp only [enc_mix_steps, enc_mix_pairs, R_1024, Nat.reduceMod, List.getD_cons_zero,
    List.getD_cons_succ, List.zip_cons_cons, List.zip_nil_right, List.mem_cons,
    List.mem_singleton, List.not_mem_nil, or_false] at hq
  rcases hq with rfl | rfl | rfl | rfl | rfl | rfl | rfl | rfl <;> exact ⟨rfl, rfl⟩

theorem enc_round_60_mix (K : threefish_key) (t0 : Nat) :
    ∀ q ∈ enc_mix_steps 60, ∀ u : State,
      (enc_round_60 (load_key K) t0 u).get q.1.1 =
        add64 ((enc_mix_input K t0 60 u).get q.1.1) ((enc_mix_input K t0 60 u).get q.1.2) ∧
      (enc_round_60 (load_key K) t0 u).get q.1.2 =
        rol64 ((enc_mix_input K t0 60 u).get q.1.2) q.2 ^^^
          add64 ((enc_mix_input K t0 60 u).get q.1.1) ((enc_mix_input K t0 60 u).get q.1.2) := by
  intro q hq u
  rcases u with ⟨b0, b1, b2, b3, b4, b5, b6, b7, b8, b9, b10, b11, b12, b13, b14, b15⟩
  simp only [enc_mix_steps, enc_mix_pairs, R_1024, Nat.reduceMod, List.getD_cons_zero,
    List.getD_cons_succ, List.zip_cons_cons, List.zip_nil_right, List.mem_cons,
    List.mem_singleton, List.not_mem_nil, or_false] at hq
  rcases hq with rfl | rfl | rfl | rfl | rfl | rfl | rfl | rfl <;>
    (simp only [enc_mix_input, State.get, store_block, load_block, enc_round_60, load_key,
      ref_add_subkey_cons, ref_tweak, t1, t2, Nat.reduceMod, Nat.reduceDiv, Nat.reduceAdd,
      if_true, List.getD_cons_zero, List.getD_cons_succ, add64_add64_zero, add64_fuse_tweak]
     simp only [add64_fuse, and_self])

theorem enc_round_61_mix (K : threefish_key) (t0 : Nat) :
    ∀ q ∈ enc_mix_steps 61, ∀ u : State,
      (enc_round_61 (load_key K) t0 u).get q.1.1 =
        add64 ((enc_mix_input K t0 61 u).get q.1.1) ((enc_mix_input K t0 61 u).get q.1.2) ∧
      (enc_round_61 (load_key K) t0 u).get q.1.2 =
        rol64 ((enc_mix_input K t0 61 u).get q.1.2) q.2 ^^^
          add64 ((enc_mix_input K t0 61 u).get q.1.1) ((enc_mix_input K t0 61 u).get q.1.2) := by
  intro q hq u
  rcases u with ⟨b0, b1, b2, b3, b4, b5, b6, b7, b8, b9, b10, b11, b12, b13, b14, b15⟩
  simp only [enc_mix_steps, enc_mix_pairs, R_1024, Nat.reduceMod, List.getD_cons_zero,
    List.getD_cons_succ, List.zip_cons_cons, List.zip_nil_right, List.mem_cons,
    List.mem_singleton, List.not_mem_nil, or_false] at hq
  rcases hq with rfl | rfl | rfl | rfl | rfl | rfl | rfl | rfl <;> exact ⟨rfl, rfl⟩

theorem enc_round_62_mix (K : threefish_key) (t0 : Nat) :
    ∀ q ∈ enc_mix_steps 62, ∀ u : State,
      (enc_round_62 (load_key K) t0 u).get q.1.1 =
        add64 ((enc_mix_input K t0 62 u).get q.1.1) ((enc_mix_input K t0 62 u).get q.1.2) ∧
      (enc_round_62 (load_key K) t0 u).get q.1.2 =
        rol64 ((enc_mix_input K t0 62 u).get q.1.2) q.2 ^^^
          add64 ((enc_mix_input K t0 62 u).get q.1.1) ((enc_mix_input K t0 62 u).get q.1.2) := by
  intro q hq u
  rcases u with ⟨b0, b1, b2, b3, b4, b5, b6, b7, b8, b9, b10, b11, b12, b13, b14, b15⟩
  simp only [enc_mix_steps, enc_mix_pairs, R_1024, Nat.reduceMod, List.getD_cons_zero,
    List.getD_cons_succ, List.zip_cons_cons, List.zip_nil_right, List.mem_cons,
    List.mem_singleton, List.not_mem_nil, or_false] at hq
  rcases hq with rfl | rfl | rfl | rfl | rfl | rfl | rfl | rfl <;> exact ⟨rfl, rfl⟩

theorem enc_round_63_mix (K : threefish_key) (t0 : Nat) :
    ∀ q ∈ enc_mix_steps 63, ∀ u : State,
      (enc_round_63 (load_key K) t0 u).get q.1.1 =
        add64 ((enc_mix_input K t0 63 u).get q.1.1) ((enc_mix_input K t0 63 u).get q.1.2) ∧
      (enc_round_63 (load_key K) t0 u).get q.1.2 =
        rol64 ((enc_mix_input K t0 63 u).get q.1.2) q.2 ^^^
          add64 ((enc_mix_input K t0 63 u).get q.1.1) ((enc_mix_input K t0 63 u).get q.1.2) := by
  intro q hq u
  rcases u with ⟨b0, b1, b2, b3, b4, b5, b6, b7, b8, b9, b10, b11, b12, b13, b14, b15⟩
  simp only [enc_mix_steps, enc_mix_pairs, R_1024, Nat.reduceMod, List.getD_cons_zero,
    List.getD_cons_succ, List.zip_cons_cons, List.zip_nil_right, List.mem_cons,
    List.mem_singleton, List.not_mem_nil, or_false] at hq
  rcases hq with rfl | rfl | rfl | rfl | rfl | rfl | rfl | rfl <;> exact ⟨rfl, rfl⟩

theorem enc_round_64_mix (K : threefish_key) (t0 : Nat) :
    ∀ q ∈ enc_mix_steps 64, ∀ u : State,
      (enc_round_64 (load_key K) t0 u).get q.1.1 =
        add64 ((enc_mix_input K t0 64 u).get q.1.1) ((enc_mix_input K t0 64 u).get q.1.2) ∧
      (enc_round_64 (load_key K) t0 u).get q.1.2 =
        rol64 ((enc_mix_input K t0 64 u).get q.1.2) q.2 ^^^
          add64 ((enc_mix_input K t0 64 u).get q.1.1) ((enc_mix_input K t0 64 u).get q.1.2) := by
  intro q hq u
  rcases u with ⟨b0, b1, b2, b3, b4, b5, b6, b7, b8, b9, b10, b11, b12, b13, b14, b15⟩
  simp only [enc_mix_steps, enc_mix_pairs, R_1024, Nat.reduceMod, List.getD_cons_zero,
    List.getD_cons_succ, List.zip_cons_cons, List.zip_nil_right, List.mem_cons,
    List.mem_singleton, List.not_mem_nil, or_false] at hq
  rcases hq with rfl | rfl | rfl | rfl | rfl | rfl | rfl | rfl <;>
    (simp only [enc_mix_input, State.get, store_block, load_block, enc_round_64, load_key,
      ref_add_subkey_cons, ref_tweak, t1, t2, Nat.reduceMod, Nat.reduceDiv, Nat.reduceAdd,
      if_true, List.getD_cons_zero, List.getD_cons_succ, add64_add64_zero, add64_fuse_tweak]
     simp only [add64_fuse, and_self])

theorem enc_round_65_mix (K : threefish_key) (t0 : Nat) :
    ∀ q ∈ enc_mix_steps 65, ∀ u : State,
      (enc_round_65 (load_key K) t0 u).get q.1.1 =
        add64 ((enc_mix_input K t0 65 u).get q.1.1) ((enc_mix_input K t0 65 u).get q.1.2) ∧
      (enc_round_65 (load_key K) t0 u).get q.1.2 =
        rol64 ((enc_mix_input K t0 65 u).get q.1.2) q.2 ^^^
          add64 ((enc_mix_input K t0 65 u).get q.1.1) ((enc_mix_input K t0 65 u).get q.1.2) := by
  intro q hq u
  rcases u with ⟨b0, b1, b2, b3, b4, b5, b6, b7, b8, b9, b10, b11, b12, b13, b14, b15⟩
  simp only [enc_mix_steps, enc_mix_pairs, R_1024, Nat.reduceMod, List.getD_cons_zero,
    List.getD_cons_succ, List.zip_cons_cons, List.zip_nil_right, List.mem_cons,
    List.mem_singleton, List.not_mem_nil, or_false] at hq
  rcases hq with rfl | rfl | rfl | rfl | rfl | rfl | rfl | rfl <;> exact ⟨rfl, rfl⟩

theorem enc_round_66_mix (K : threefish_key) (t0 : Nat) :
    ∀ q ∈ enc_mix_steps 66, ∀ u : State,
      (enc_round_66 (load_key K) t0 u).get q.1.1 =
        add64 ((enc_mix_input K t0 66 u).get q.1.1) ((enc_mix_input K t0 66 u).get q.1.2) ∧
      (enc_round_66 (load_key K) t0 u).get q.1.2 =
        rol64 ((enc_mix_input K t0 66 u).get q.1.2) q.2 ^^^
          add64 ((enc_mix_input K t0 66 u).get q.1.1) ((enc_mix_input K t0 66 u).get q.1.2) := by
  intro q hq u
  rcases u with ⟨b0, b1, b2, b3, b4, b5, b6, b7, b8, b9, b10, b11, b12, b13, b14, b15⟩
  simp only [enc_mix_steps, enc_mix_pairs, R_1024, Nat.reduceMod, List.getD_cons_zero,
    List.getD_cons_succ, List.zip_cons_cons, List.zip_nil_right, List.mem_cons,
    List.mem_singleton, List.not_mem_nil, or_false] at hq
  rcases hq with rfl | rfl | rfl | rfl | rfl | rfl | rfl | rfl <;> exact ⟨rfl, rfl⟩

theorem enc_round_67_mix (K : threefish_key) (t0 : Nat) :
    ∀ q ∈ enc_mix_steps 67, ∀ u : State,
      (enc_round_67 (load_key K) t0 u).get q.1.1 =
        add64 ((enc_mix_input K t0 67 u).get q.1.1) ((enc_mix_input K t0 67 u).get q.1.2) ∧
      (enc_round_67 (load_key K) t0 u).get q.1.2 =
        rol64 ((enc_mix_input K t0 67 u).get q.1.2) q.2 ^^^
          add64 ((enc_mix_input K t0 67 u).get q.1.1) ((enc_mix_input K t0 67 u).get q.1.2) := by
  intro q hq u
  rcases u with ⟨b0, b1, b2, b3, b4, b5, b6, b7, b8, b9, b10, b11, b12, b13, b14, b15⟩
  simp only [enc_mix_steps, enc_mix_pairs, R_1024, Nat.reduceMod, List.getD_cons_zero,
    List.getD_cons_succ, List.zip_cons_cons, List.zip_nil_right, List.mem_cons,
    List.mem_singleton, List.not_mem_nil, or_false] at hq
  rcases hq with rfl | rfl | rfl | rfl | rfl | rfl | rfl | rfl <;> exact ⟨rfl, rfl⟩

theorem enc_round_68_mix (K : threefish_key) (t0 : Nat) :
    ∀ q ∈ enc_mix_steps 68, ∀ u : State,
      (enc_round_68 (load_key K) t0 u).get q.1.1 =
        add64 ((enc_mix_input K t0 68 u).get q.1.1) ((enc_mix_input K t0 68 u).get q.1.2) ∧
      (enc_round_68 (load_key K) t0 u).get q.1.2 =
        rol64 ((enc_mix_input K t0 68 u).get q.1.2) q.2 ^^^
          add64 ((enc_mix_input K t0 68 u).get q.1.1) ((enc_mix_input K t0 68 u).get q.1.2) := by
  intro q hq u
  rcases u with ⟨b0, b1, b2, b3, b4, b5, b6, b7, b8, b9, b10, b11, b12, b13, b14, b15⟩
  simp only [enc_mix_steps, enc_mix_pairs, R_1024, Nat.reduceMod, List.getD_cons_zero,
    List.getD_cons_succ, List.zip_cons_cons, List.zip_nil_right, List.mem_cons,
    List.mem_singleton, List.not_mem_nil, or_false] at hq
  rcases hq with rfl | rfl | rfl | rfl | rfl | rfl | rfl | rfl <;>
    (simp only [enc_mix_input, State.get, store_block, load_block, enc_round_68, load_key,
      ref_add_subkey_cons, ref_tweak, t1, t2, Nat.reduceMod, Nat.reduceDiv, Nat.reduceAdd,
      if_true, List.getD_cons_zero, List.getD_cons_succ, add64_add64_zero, add64_fuse_tweak]
     simp only [add64_fuse, and_self])

theorem enc_round_69_mix (K : threefish_key) (t0 : Nat) :
    ∀ q ∈ enc_mix_steps 69, ∀ u : State,
      (enc_round_69 (load_key K) t0 u).get q.1.1 =
        add64 ((enc_mix_input K t0 69 u).get q.1.1) ((enc_mix_input K t0 69 u).get q.1.2) ∧
      (enc_round_69 (load_key K) t0 u).get q.1.2 =
        rol64 ((enc_mix_input K t0 69 u).get q.1.2) q.2 ^^^
          add64 ((enc_mix_input K t0 69 u).get q.1.1) ((enc_mix_input K t0 69 u).get q.1.2) := by
  intro q hq u
  rcases u with ⟨b0, b1, b2, b3, b4, b5, b6, b7, b8, b9, b10, b11, b12, b13, b14, b15⟩
  simp only [enc_mix_steps, enc_mix_pairs, R_1024, Nat.reduceMod, List.getD_cons_zero,
    List.getD_cons_succ, List.zip_cons_cons, List.zip_nil_right, List.mem_cons,
    List.mem_singleton, List.not_mem_nil, or_false] at hq
  rcases hq with rfl | rfl | rfl | rfl | rfl | rfl | rfl | rfl <;> exact ⟨rfl, rfl⟩

theorem enc_round_70_mix (K : threefish_key) (t0 : Nat) :
    ∀ q ∈ enc_mix_steps 70, ∀ u : State,
      (enc_round_70 (load_key K) t0 u).get q.1.1 =
        add64 ((enc_mix_input K t0 70 u).get q.1.1) ((enc_mix_input K t0 70 u).get q.1.2) ∧
      (enc_round_70 (load_key K) t0 u).get q.1.2 =
        rol64 ((enc_mix_input K t0 70 u).get q.1.2) q.2 ^^^
          add64 ((enc_mix_input K t0 70 u).get q.1.1) ((enc_mix_input K t0 70 u).get q.1.2) := by
  intro q hq u
  rcases u with ⟨b0, b1, b2, b3, b4, b5, b6, b7, b8, b9, b10, b11, b12, b13, b14, b15⟩
  simp only [enc_mix_steps, enc_mix_pairs, R_1024, Nat.reduceMod, List.getD_cons_zero,
    List.getD_cons_succ, List.zip_cons_cons, List.zip_nil_right, List.mem_cons,
    List.mem_singleton, List.not_mem_nil, or_false] at hq
  rcases hq with rfl | rfl | rfl | rfl | rfl | rfl | rfl | rfl <;> exact ⟨rfl, rfl⟩

theorem enc_round_71_mix (K : threefish_key) (t0 : Nat) :
    ∀ q ∈ enc_mix_steps 71, ∀ u : State,
      (enc_round_71 (load_key K) t0 u).get q.1.1 =
        add64 ((enc_mix_input K t0 71 u).get q.1.1) ((enc_mix_input K t0 71 u).get q.1.2) ∧
      (enc_round_71 (load_key K) t0 u).get q.1.2 =
        rol64 ((enc_mix_input K t0 71 u).get q.1.2) q.2 ^^^
          add64 ((enc_mix_input K t0 71 u).get q.1.1) ((enc_mix_input K t0 71 u).get q.1.2) := by
  intro q hq u
  rcases u with ⟨b0, b1, b2, b3, b4, b5, b6, b7, b8, b9, b10, b11, b12, b13, b14, b15⟩
  simp only [enc_mix_steps, enc_mix_pairs, R_1024, Nat.reduceMod, List.getD_cons_zero,
    List.getD_cons_succ, List.zip_cons_cons, List.zip_nil_right, List.mem_cons,
    List.mem_singleton, List.not_mem_nil, or_false] at hq
  rcases hq with rfl | rfl | rfl | rfl | rfl | rfl | rfl | rfl <;> exact ⟨rfl, rfl⟩

theorem enc_round_72_mix (K : threefish_key) (t0 : Nat) :
    ∀ q ∈ enc_mix_steps 72, ∀ u : State,
      (enc_round_72 (load_key K) t0 u).get q.1.1 =
        add64 ((enc_mix_input K t0 72 u).get q.1.1) ((enc_mix_input K t0 72 u).get q.1.2) ∧
      (enc_round_72 (load_key K) t0 u).get q.1.2 =
        rol64 ((enc_mix_input K t0 72 u).get q.1.2) q.2 ^^^
          add64 ((enc_mix_input K t0 72 u).get q.1.1) ((enc_mix_input K t0 72 u).get q.1.2) := by
  intro q hq u
  rcases u with ⟨b0, b1, b2, b3, b4, b5, b6, b7, b8, b9, b10, b11, b12, b13, b14, b15⟩
  simp only [enc_mix_steps, enc_mix_pairs, R_1024, Nat.reduceMod, List.getD_cons_zero,
    List.getD_cons_succ, List.zip_cons_cons, List.zip_nil_right, List.mem_cons,
    List.mem_singleton, List.not_mem_nil, or_false] at hq
  rcases hq with rfl | rfl | rfl | rfl | rfl | rfl | rfl | rfl <;>
    (simp only [enc_mix_input, State.get, store_block, load_block, enc_round_72, load_key,
      ref_add_subkey_cons, ref_tweak, t1, t2, Nat.reduceMod, Nat.reduceDiv, Nat.reduceAdd,
      if_true, List.getD_cons_zero, List.getD_cons_succ, add64_add64_zero, add64_fuse_tweak]
     simp only [add64_fuse, and_self])

theorem enc_round_73_mix (K : threefish_key) (t0 : Nat) :
    ∀ q ∈ enc_mix_steps 73, ∀ u : State,
      (enc_round_73 (load_key K) t0 u).get q.1.1 =
        add64 ((enc_mix_input K t0 73 u).get q.1.1) ((enc_mix_input K t0 73 u).get q.1.2) ∧
      (enc_round_73 (load_key K) t0 u).get q.1.2 =
        rol64 ((enc_mix_input K t0 73 u).get q.1.2) q.2 ^^^
          add64 ((enc_mix_input K t0 73 u).get q.1.1) ((enc_mix_input K t0 73 u).get q.1.2) := by
  intro q hq u
  rcases u with ⟨b0, b1, b2, b3, b4, b5, b6, b7, b8, b9, b10, b11, b12, b13, b14, b15⟩
  simp only [enc_mix_steps, enc_mix_pairs, R_1024, Nat.reduceMod, List.getD_cons_zero,
    List.getD_cons_succ, List.zip_cons_cons, List.zip_nil_right, List.mem_cons,
    List.mem_singleton, List.not_mem_nil, or_false] at hq
  rcases hq with rfl | rfl | rfl | rfl | rfl | rfl | rfl | rfl <;> exact ⟨rfl, rfl⟩

theorem enc_round_74_mix (K : threefish_key) (t0 : Nat) :
    ∀ q ∈ enc_mix_steps 74, ∀ u : State,
      (enc_round_74 (load_key K) t0 u).get q.1.1 =
        add64 ((enc_mix_input K t0 74 u).get q.1.1) ((enc_mix_input K t0 74 u).get q.1.2) ∧
      (enc_round_74 (load_key K) t0 u).get q.1.2 =
        rol64 ((enc_mix_input K t0 74 u).get q.1.2) q.2 ^^^
          add64 ((enc_mix_input K t0 74 u).get q.1.1) ((enc_mix_input K t0 74 u).get q.1.2) := by
  intro q hq u
  rcases u with ⟨b0, b1, b2, b3, b4, b5, b6, b7, b8, b9, b10, b11, b12, b13, b14, b15⟩
  simp only [enc_mix_steps, enc_mix_pairs, R_1024, Nat.reduceMod, List.getD_cons_zero,
    List.getD_cons_succ, List.zip_cons_cons, List.zip_nil_right, List.mem_cons,
    List.mem_singleton, List.not_mem_nil, or_false] at hq
  rcases hq with rfl | rfl | rfl | rfl | rfl | rfl | rfl | rfl <;> exact ⟨rfl, rfl⟩

theorem enc_round_75_mix (K : threefish_key) (t0 : Nat) :
    ∀ q ∈ enc_mix_steps 75, ∀ u : State,
      (enc_round_75 (load_key K) t0 u).get q.1.1 =
        add64 ((enc_mix_input K t0 75 u).get q.1.1) ((enc_mix_input K t0 75 u).get q.1.2) ∧
      (enc_round_75 (load_key K) t0 u).get q.1.2 =
        rol64 ((enc_mix_input K t0 75 u).get q.1.2) q.2 ^^^
          add64 ((enc_mix_input K t0 75 u).get q.1.1) ((enc_mix_input K t0 75 u).get q.1.2) := by
  intro q hq u
  rcases u with ⟨b0, b1, b2, b3, b4, b5, b6, b7, b8, b9, b10, b11, b12, b13, b14, b15⟩
  simp only [enc_mix_steps, enc_mix_pairs, R_1024, Nat.reduceMod, List.getD_cons_zero,
    List.getD_cons_succ, List.zip_cons_cons, List.zip_nil_right, List.mem_cons,
    List.mem_singleton, List.not_mem_nil, or_false] at hq
  rcases hq with rfl | rfl | rfl | rfl | rfl | rfl | rfl | rfl <;> exact ⟨rfl, rfl⟩

theorem enc_round_76_mix (K : threefish_key) (t0 : Nat) :
    ∀ q ∈ enc_mix_steps 76, ∀ u : State,
      (enc_round_76 (load_key K) t0 u).get q.1.1 =
        add64 ((enc_mix_input K t0 76 u).get q.1.1) ((enc_mix_input K t0 76 u).get q.1.2) ∧
      (enc_round_76 (load_key K) t0 u).get q.1.2 =
        rol64 ((enc_mix_input K t0 76 u).get q.1.2) q.2 ^^^
          add64 ((enc_mix_input K t0 76 u).get q.1.1) ((enc_mix_input K t0 76 u).get q.1.2) := by
  intro q hq u
  rcases u with ⟨b0, b1, b2, b3, b4, b5, b6, b7, b8, b9, b10, b11, b12, b13, b14, b15⟩
  simp only [enc_mix_steps, enc_mix_pairs, R_1024, Nat.reduceMod, List.getD_cons_zero,
    List.getD_cons_succ, List.zip_cons_cons, List.zip_nil_right, List.mem_cons,
    List.mem_singleton, List.not_mem_nil, or_false] at hq
  rcases hq with rfl | rfl | rfl | rfl | rfl | rfl | rfl | rfl <;>
    (simp only [enc_mix_input, State.get, store_block, load_block, enc_round_76, load_key,
      ref_add_subkey_cons, ref_tweak, t1, t2, Nat.reduceMod, Nat.reduceDiv, Nat.reduceAdd,
      if_true, List.getD_cons_zero, List.getD_cons_succ, add64_add64_zero, add64_fuse_tweak]
     simp only [add64_fuse, and_self])

theorem enc_round_77_mix (K : threefish_key) (t0 : Nat) :
    ∀ q ∈ enc_mix_steps 77, ∀ u : State,
      (enc_round_77 (load_key K) t0 u).get q.1.1 =
        add64 ((enc_mix_input K t0 77 u).get q.1.1) ((enc_mix_input K t0 77 u).get q.1.2) ∧
      (enc_round_77 (load_key K) t0 u).get q.1.2 =
        rol64 ((enc_mix_input K t0 77 u).get q.1.2) q.2 ^^^
          add64 ((enc_mix_input K t0 77 u).get q.1.1) ((enc_mix_input K t0 77 u).get q.1.2) := by
  intro q hq u
  rcases u with ⟨b0, b1, b2, b3, b4, b5, b6, b7, b8, b9, b10, b11, b12, b13, b14, b15⟩
  simp only [enc_mix_steps, enc_mix_pairs, R_1024, Nat.reduceMod, List.getD_cons_zero,
    List.getD_cons_succ, List.zip_cons_cons, List.zip_nil_right, List.mem_cons,
    List.mem_singleton, List.not_mem_nil, or_false] at hq
  rcases hq with rfl | rfl | rfl | rfl | rfl | rfl | rfl | rfl <;> exact ⟨rfl, rfl⟩

theorem enc_round_78_mix (K : threefish_key) (t0 : Nat) :
    ∀ q ∈ enc_mix_steps 78, ∀ u : State,
      (enc_round_78 (load_key K) t0 u).get q.1.1 =
        add64 ((enc_mix_input K t0 78 u).get q.1.1) ((enc_mix_input K t0 78 u).get q.1.2) ∧
      (enc_round_78 (load_key K) t0 u).get q.1.2 =
        rol64 ((enc_mix_input K t0 78 u).get q.1.2) q.2 ^^^
          add64 ((enc_mix_input K t0 78 u).get q.1.1) ((enc_mix_input K t0 78 u).get q.1.2) := by
  intro q hq u
  rcases u with ⟨b0, b1, b2, b3, b4, b5, b6, b7, b8, b9, b10, b11, b12, b13, b14, b15⟩
  simp only [enc_mix_steps, enc_mix_pairs, R_1024, Nat.reduceMod, List.getD_cons_zero,
    List.getD_cons_succ, List.zip_cons_cons, List.zip_nil_right, List.mem_cons,
    List.mem_singleton, List.not_mem_nil, or_false] at hq
  rcases hq with rfl | rfl | rfl | rfl | rfl | rfl | rfl | rfl <;> exact ⟨rfl, rfl⟩

theorem enc_round_79_mix (K : threefish_key) (t0 : Nat) :
    ∀ q ∈ enc_mix_steps 79, ∀ u : State,
      (enc_round_79 (load_key K) t0 u).get q.1.1 =
        add64 ((enc_mix_input K t0 79 u).get q.1.1) ((enc_mix_input K t0 79 u).get q.1.2) ∧
      (enc_round_79 (load_key K) t0 u).get q.1.2 =
        rol64 ((enc_mix_input K t0 79 u).get q.1.2) q.2 ^^^
          add64 ((enc_mix_input K t0 79 u).get q.1.1) ((enc_mix_input K t0 79 u).get q.1.2) := by
  intro q hq u
  rcases u with ⟨b0, b1, b2, b3, b4, b5, b6, b7, b8, b9, b10, b11, b12, b13, b14, b15⟩
  simp only [enc_mix_steps, enc_mix_pairs, R_1024, Nat.reduceMod, List.getD_cons_zero,
    List.getD_cons_succ, List.zip_cons_cons, List.zip_nil_right, List.mem_cons,
    List.mem_singleton, List.not_mem_nil, or_false] at hq
  rcases hq with rfl | rfl | rfl | rfl | rfl | rfl | rfl | rfl <;> exact ⟨rfl, rfl⟩

theorem enc_round_mix (K : threefish_key) (t0 d : Nat) (hd : d < 80) :
    ∀ q ∈ enc_mix_steps d, ∀ u : State,
      (enc_round d (load_key K) t0 u).get q.1.1 =
        add64 ((enc_mix_input K t0 d u).get q.1.1) ((enc_mix_input K t0 d u).get q.1.2) ∧
      (enc_round d (load_key K) t0 u).get q.1.2 =
        rol64 ((enc_mix_input K t0 d u).get q.1.2) q.2 ^^^
          add64 ((enc_mix_input K t0 d u).get q.1.1) ((enc_mix_input K t0 d u).get q.1.2) := by
  interval_cases d
  · exact enc_round_0_mix K t0
  · exact enc_round_1_mix K t0
  · exact enc_round_2_mix K t0
  · exact enc_round_3_mix K t0
  · exact enc_round_4_mix K t0
  · exact enc_round_5_mix K t0
  · exact enc_round_6_mix K t0
  · exact enc_round_7_mix K t0
  · exact enc_round_8_mix K t0
  · exact enc_round_9_mix K t0
  · exact enc_round_10_mix K t0
  · exact enc_round_11_mix K t0
  · exact enc_round_12_mix K t0
  · exact enc_round_13_mix K t0
  · exact enc_round_14_mix K t0
  · exact enc_round_15_mix K t0
  · exact enc_round_16_mix K t0
  · exact enc_round_17_mix K t0
  · exact enc_round_18_mix K t0
  · exact enc_round_19_mix K t0
  · exact enc_round_20_mix K t0
  · exact enc_round_21_mix K t0
  · exact enc_round_22_mix K t0
  · exact enc_round_23_mix K t0
  · exact enc_round_24_mix K t0
  · exact enc_round_25_mix K t0
  · exact enc_round_26_mix K t0
  · exact enc_round_27_mix K t0
  · exact enc_round_28_mix K t0
  · exact enc_round_29_mix K t0
  · exact enc_round_30_mix K t0
  · exact enc_round_31_mix K t0
  · exact enc_round_32_mix K t0
  · exact enc_round_33_mix K t0
  · exact enc_round_34_mix K t0
  · exact enc_round_35_mix K t0
  · exact enc_round_36_mix K t0
  · exact enc_round_37_mix K t0
  · exact enc_round_38_mix K t0
  · exact enc_round_39_mix K t0
  · exact enc_round_40_mix K t0
  · exact enc_round_41_mix K t0
  · exact enc_round_42_mix K t0
  · exact enc_round_43_mix K t0
  · exact enc_round_44_mix K t0
  · exact enc_round_45_mix K t0
  · exact enc_round_46_mix K t0
  · exact enc_round_47_mix K t0
  · exact enc_round_48_mix K t0
  · exact enc_round_49_mix K t0
  · exact enc_round_50_mix K t0
  · exact enc_round_51_mix K t0
  · exact enc_round_52_mix K t0
  · exact enc_round_53_mix K t0
  · exact enc_round_54_mix K t0
  · exact enc_round_55_mix K t0
  · exact enc_round_56_mix K t0
  · exact enc_round_57_mix K t0
  · exact enc_round_58_mix K t0
  · exact enc_round_59_mix K t0
  · exact enc_round_60_mix K t0
  · exact enc_round_61_mix K t0
  · exact enc_round_62_mix K t0
  · exact enc_round_63_mix K t0
  · exact enc_round_64_mix K t0
  · exact enc_round_65_mix K t0
  · exact enc_round_66_mix K t0
  · exact enc_round_67_mix K t0
  · exact enc_round_68_mix K t0
  · exact enc_round_69_mix K t0
  · exact enc_round_70_mix K t0
  · exact enc_round_71_mix K t0
  · exact enc_round_72_mix K t0
  · exact enc_round_73_mix K t0
  · exact enc_round_74_mix K t0
  · exact enc_round_75_mix K t0
  · exact enc_round_76_mix K t0
  · exact enc_round_77_mix K t0
  · exact enc_round_78_mix K t0
  · exact enc_round_79_mix K t0

theorem enc_mix_steps_mod (d : Nat) : enc_mix_steps d = enc_mix_steps (d % 8) := by
  simp only [enc_mix_steps, enc_mix_pairs, Nat.mod_mod, Nat.mod_mod_of_dvd d (by decide : 4 ∣ 8)]

theorem enc_mix_steps_shape (d : Nat) :
    (enc_mix_steps d).length = 8 ∧
    (enc_mix_steps d).map Prod.fst = enc_mix_pairs d ∧
    (enc_mix_steps d).map Prod.snd = R_1024.getD (d % 8) [] ∧
    (∀ q ∈ enc_mix_steps d, q.2 < 64) ∧
    List.Perm ((enc_mix_steps d).flatMap fun q => [q.1.1, q.1.2]) (List.range 16) := by
  have e4 : d % 4 = d % 8 % 4 := (Nat.mod_mod_of_dvd d (by decide : 4 ∣ 8)).symm
  have e : enc_mix_pairs d = enc_mix_pairs (d % 8) := by
    simp only [enc_mix_pairs, ← e4]
  have e8 : R_1024.getD (d % 8) [] = R_1024.getD (d % 8 % 8) [] := by rw [Nat.mod_mod]
  rw [enc_mix_steps_mod, e, e8]
  have hm : d % 8 < 8 := Nat.mod_lt _ (by decide)
  generalize d % 8 = m at hm
  interval_cases m <;> decide

theorem enc_mix_input_of_ne (K : threefish_key) (t0 d : Nat) (s : State) (hd : d % 4 ≠ 0) :
    enc_mix_input K t0 d s = s := by
  unfold enc_mix_input
  exact if_neg hd

theorem enc_mix_input_get (K : threefish_key) (t0 d : Nat) (s : State) (hd : d % 4 = 0)
    (i : Nat) (hi : i < 16) :
    (enc_mix_input K t0 d s).get i = add64 (s.get i) (ref_subkey K.key t0 (d / 4) i) := by
  unfold enc_mix_input
  rw [if_pos hd]
  have hl : (ref_add_subkey K.key t0 (d / 4) (store_block s)).length = 16 := by
    simp [ref_add_subkey]
  unfold State.get
  rw [store_load_block _ hl]
  simp [ref_add_subkey, List.getD_eq_getElem?_getD, hi]

theorem mix_step_get (r : Nat) (p : Nat × Nat) (s : State) (h1 : p.1 < 16) (h2 : p.2 < 16)
    (i : Nat) :
    (mix_step r p s).get i =
      if i = p.2 then rol64 (s.get p.2) r ^^^ add64 (s.get p.1) (s.get p.2)
      else if i = p.1 then add64 (s.get p.1) (s.get p.2) else s.get i := by
  unfold mix_step
  rw [State.get_set _ _ _ _ h2, State.get_set _ _ _ _ h1]

theorem step_indices_cons (q : (Nat × Nat) × Nat) (l : List ((Nat × Nat) × Nat)) :
    ((q :: l).flatMap fun q => [q.1.1, q.1.2]) =
      q.1.1 :: q.1.2 :: (l.flatMap fun q => [q.1.1, q.1.2]) := by
  simp [List.flatMap_cons]

theorem fold_mix_step_aux (s : State) :
    ∀ (l : List ((Nat × Nat) × Nat)) (cur : State),
      (l.flatMap fun q => [q.1.1, q.1.2]).Nodup →
      (∀ i ∈ (l.flatMap fun q => [q.1.1, q.1.2]), i < 16) →
      (∀ i ∈ (l.flatMap fun q => [q.1.1, q.1.2]), cur.get i = s.get i) →
      (∀ q ∈ l,
        (l.foldl (fun st q => mix_step q.2 q.1 st) cur).get q.1.1 =
          add64 (s.get q.1.1) (s.get q.1.2) ∧
        (l.foldl (fun st q => mix_step q.2 q.1 st) cur).get q.1.2 =
          rol64 (s.get q.1.2) q.2 ^^^ add64 (s.get q.1.1) (s.get q.1.2)) ∧
      (∀ i, i ∉ (l.flatMap fun q => [q.1.1, q.1.2]) →
        (l.foldl (fun st q => mix_step q.2 q.1 st) cur).get i = cur.get i) := by
  intro l
  induction l with
  | nil =>
    intro cur _ _ _
    exact ⟨fun q hq => by simp at hq, fun i _ => rfl⟩
  | cons p l ih =>
    intro cur hnd hlt hcur
    rw [step_indices_cons] at hnd hlt hcur
    have h1 : p.1.1 < 16 := hlt _ (List.mem_cons_self _ _)
    have h2 : p.1.2 < 16 := hlt _ (List.mem_cons_of_mem _ (List.mem_cons_self _ _))
    have hnd2 := (List.nodup_cons.mp hnd).2
    have hp1 : p.1.1 ∉ p.1.2 :: (l.flatMap fun q => [q.1.1, q.1.2]) := (List.nodup_cons.mp hnd).1
    have hp2 : p.1.2 ∉ (l.flatMap fun q => [q.1.1, q.1.2]) := (List.nodup_cons.mp hnd2).1
    have hne : p.1.1 ≠ p.1.2 := fun e => hp1 (e ▸ List.mem_cons_self _ _)
    have hp1l : p.1.1 ∉ (l.flatMap fun q => [q.1.1, q.1.2]) :=
      fun hm => hp1 (List.mem_cons_of_mem _ hm)
    have c1 : cur.get p.1.1 = s.get p.1.1 := hcur _ (List.mem_cons_self _ _)
    have c2 : cur.get p.1.2 = s.get p.1.2 :=
      hcur _ (List.mem_cons_of_mem _ (List.mem_cons_self _ _))
    have hget : ∀ i, (mix_step p.2 p.1 cur).get i =
        if i = p.1.2 then rol64 (s.get p.1.2) p.2 ^^^ add64 (s.get p.1.1) (s.get p.1.2)
        else if i = p.1.1 then add64 (s.get p.1.1) (s.get p.1.2) else cur.get i := by
      intro i
      rw [mix_step_get _ _ _ h1 h2, c1, c2]
    have hcur2 : ∀ i ∈ (l.flatMap fun q => [q.1.1, q.1.2]),
        (mix_step p.2 p.1 cur).get i = s.get i := by
      intro i hi
      have n1 : i ≠ p.1.1 := fun e => hp1l (e ▸ hi)
      have n2 : i ≠ p.1.2 := fun e => hp2 (e ▸ hi)
      rw [hget, if_neg n2, if_neg n1]
      exact hcur i (List.mem_cons_of_mem _ (List.mem_cons_of_mem _ hi))
    have hrec := ih (mix_step p.2 p.1 cur) (List.nodup_cons.mp hnd2).2
      (fun i hi => hlt i (List.mem_cons_of_mem _ (List.mem_cons_of_mem _ hi))) hcur2
    rw [step_indices_cons]
    simp only [List.foldl_cons]
    constructor
    · intro q hq
      rcases List.mem_cons.mp hq with e | hq2
      · subst e
        rw [hrec.2 _ hp1l, hrec.2 _ hp2, hget, hget, if_neg hne, if_pos rfl, if_pos rfl]
        exact ⟨rfl, rfl⟩
      · exact hrec.1 q hq2
    · intro i hi
      have n1 : i ≠ p.1.1 := fun e => hi (e ▸ List.mem_cons_self _ _)
      have n2 : i ≠ p.1.2 :=
        fun e => hi (e ▸ List.mem_cons_of_mem _ (List.mem_cons_self _ _))
      have hil : i ∉ (l.flatMap fun q => [q.1.1, q.1.2]) :=
        fun hm => hi (List.mem_cons_of_mem _ (List.mem_cons_of_mem _ hm))
      rw [hrec.2 i hil, hget, if_neg n2, if_neg n1]

theorem fold_mix_step (inp res : State) (P l : List ((Nat × Nat) × Nat))
    (hP : List.Perm (P.flatMap fun q => [q.1.1, q.1.2]) (List.range 16))
    (hF : ∀ q ∈ P,
      res.get q.1.1 = add64 (inp.get q.1.1) (inp.get q.1.2) ∧
      res.get q.1.2 = rol64 (inp.get q.1.2) q.2 ^^^ add64 (inp.get q.1.1) (inp.get q.1.2))
    (hl : List.Perm l P) :
    l.foldl (fun st q => mix_step q.2 q.1 st) inp = res := by
  have hidx : List.Perm (l.flatMap fun q => [q.1.1, q.1.2]) (List.range 16) :=
    (List.Perm.flatMap_right _ hl).trans hP
  have hnd : (l.flatMap fun q => [q.1.1, q.1.2]).Nodup :=
    hidx.nodup_iff.mpr (List.nodup_range 16)
  have hlt : ∀ i ∈ (l.flatMap fun q => [q.1.1, q.1.2]), i < 16 :=
    fun i hi => List.mem_range.mp (hidx.mem_iff.mp hi)
  have haux := fold_mix_step_aux inp l inp hnd hlt (fun _ _ => rfl)
  apply State.ext_get
  intro i hi
  have hmem := hidx.mem_iff.mpr (List.mem_range.mpr hi)
  obtain ⟨q, hq, hiq⟩ := List.mem_flatMap.mp hmem
  have hq2 := hF q (hl.mem_iff.mp hq)
  simp only [List.mem_cons, List.mem_singleton, List.not_mem_nil, or_false] at hiq
  rcases hiq with e | e
  · rw [e, (haux.1 q hq).1, hq2.1]
  · rw [e, (haux.1 q hq).2, hq2.2]

theorem enc_rounds_eq_fold (k : Nat → Nat) (t0 : Nat) (s : State) :
    enc_rounds k t0 s = (List.range 80).foldl (fun st n => enc_round n k t0 st) s := by
  simp only [range_80, List.foldl_cons, List.foldl_nil, enc_round, enc_round_blocks,
    List.getD_cons_zero, List.getD_cons_succ, enc_rounds]

/-! ## The properties of the specification -/

/-- Claim C1: on a little-endian host decryption undoes encryption.  For every 16-word key, with
the context `threefishSetKey1024` writes for it, every counter `t0` and every block of sixteen
64-bit words, decrypting the encrypted block gives the block back. -/
theorem threefish_decrypt_encrypt (keyCtx : threefish_key) (keyData : List Nat) (t0 : Nat)
    (b : List Nat) (hb : b.length = 16) (hw : ∀ w ∈ b, w < 2 ^ 64) :
    threefish_decrypt_1024 (threefishSetKey1024 Host.little keyCtx keyData)
      (threefish_encrypt_1024 Host.little (threefishSetKey1024 Host.little keyCtx keyData) b t0)
      t0 = b :=
  decrypt_encrypt_little _ t0 b hb hw

/-- Witness for C1: the round trip at the sample key, counter `2 ^ 64 - 1` and the sample
block. -/
theorem threefish_decrypt_encrypt_witness :
    sample_block.length = 16 ∧ (∀ w ∈ sample_block, w < 2 ^ 64) ∧
    threefish_decrypt_1024 (threefishSetKey1024 Host.little blank_ctx sample_key)
      (threefish_encrypt_1024 Host.little (threefishSetKey1024 Host.little blank_ctx sample_key)
        sample_block 0xFFFFFFFFFFFFFFFF)
      0xFFFFFFFFFFFFFFFF = sample_block :=
  ⟨by decide, by decide,
    threefish_decrypt_encrypt blank_ctx sample_key 0xFFFFFFFFFFFFFFFF sample_block (by decide)
      (by decide)⟩

/-- Claim C2: on a little-endian host encryption undoes decryption.  For every 16-word key, with
the context `threefishSetKey1024` writes for it, every counter `t0` and every block of sixteen
64-bit words, encrypting the decrypted block gives the block back. -/
theorem threefish_encrypt_decrypt (keyCtx : threefish_key) (keyData : List Nat) (t0 : Nat)
    (b : List Nat) (hb : b.length = 16) (hw : ∀ w ∈ b, w < 2 ^ 64) :
    threefish_encrypt_1024 Host.little (threefishSetKey1024 Host.little keyCtx keyData)
      (threefish_decrypt_1024 (threefishSetKey1024 Host.little keyCtx keyData) b t0) t0 = b :=
  encrypt_decrypt_little _ t0 b hb hw

/-- Witness for C2: the round trip at the sample key, counter 7 and the sample block. -/
theorem threefish_encrypt_decrypt_witness :
    sample_block.length = 16 ∧ (∀ w ∈ sample_block, w < 2 ^ 64) ∧
    threefish_encrypt_1024 Host.little (threefishSetKey1024 Host.little blank_ctx sample_key)
      (threefish_decrypt_1024 (threefishSetKey1024 Host.little blank_ctx sample_key)
        sample_block 7) 7 = sample_block :=
  ⟨by decide, by decide,
    threefish_encrypt_decrypt blank_ctx sample_key 7 sample_block (by decide) (by decide)⟩

set_option maxRecDepth 100000 in
/-- Claim C3: the known answer.  With the context `threefishSetKey1024` builds from the all-zero
key, counter 0 and the all-zero block, the 128 bytes `threefish_encrypt_1024` leaves in the
output array are the published Threefish-1024 ciphertext, on either host. -/
theorem threefish_known_answer (h : Host) (keyCtx : threefish_key)
    (hc : keyCtx.key.length = 17) :
    (threefish_encrypt_1024 h (threefishSetKey1024 h keyCtx zero_key) zero_block 0).flatMap
      (u64_bytes h) = kat_zero_bytes := by
  rw [threefishSetKey1024_zero h keyCtx hc]
  cases h <;> decide

/-- Witness for C3: the known answer from a blank context on a little-endian host. -/
theorem threefish_known_answer_witness :
    blank_ctx.key.length = 17 ∧
    (threefish_encrypt_1024 Host.little (threefishSetKey1024 Host.little blank_ctx zero_key)
      zero_block 0).flatMap (u64_bytes Host.little) = kat_zero_bytes :=
  ⟨by decide, threefish_known_answer Host.little blank_ctx (by decide)⟩

/-- Claim C4: the unrolled `threefish_encrypt_1024` is the table-driven reference
Threefish-1024 (80 rounds, rotation table indexed by the round modulo 8, the word permutation
after each round, subkey `s` before round `4 s` and subkey 20 at the end, tweak words
`(t0, 0, t0)`): on a little-endian host the outputs are equal, and on any host they are equal up
to the word conversion of the input and the output. -/
theorem threefish_encrypt_1024_eq_ref (K : threefish_key) (t0 : Nat) (b : List Nat)
    (hb : b.length = 16) :
    threefish_encrypt_1024 Host.little K b t0 = ref_encrypt K.key t0 b ∧
    ∀ h : Host, threefish_encrypt_1024 h K b t0 =
      (ref_encrypt K.key t0 (b.map (le64_to_cpu h))).map (cpu_to_le64 h) := by
  refine ⟨?_, fun h => encrypt_eq_ref_rounds h K t0 b hb⟩
  rw [encrypt_eq_ref_rounds Host.little K t0 b hb, map_little_in_list, map_little_out_list]
  rfl

/-- Witness for C4: the equality with the reference at the context of the all-zero key, counter
5 and the sample block. -/
theorem threefish_encrypt_1024_eq_ref_witness :
    sample_block.length = 16 ∧
    threefish_encrypt_1024 Host.little zero_key_ctx sample_block 5 =
      ref_encrypt zero_key_ctx.key 5 sample_block :=
  ⟨by decide, (threefish_encrypt_1024_eq_ref zero_key_ctx 5 sample_block (by decide)).1⟩

/-- Claim C5: `threefish_decrypt_1024` is the reference inverse: subkey 20 is subtracted, then
rounds 79 down to 0 are undone, each by the inverse permutation, the inverse MIX
`b_pre = ror(b XOR a, r)`, `a_pre = a - b_pre` with the rotation of the forward round, and the
subtraction of the subkey the forward round added. -/
theorem threefish_decrypt_1024_eq_ref (K : threefish_key) (t0 : Nat) (b : List Nat)
    (hb : b.length = 16) :
    threefish_decrypt_1024 K b t0 = ref_decrypt K.key t0 b :=
  decrypt_eq_ref K t0 b hb

/-- Witness for C5: the equality with the reference inverse at the context of the all-zero key,
counter 5 and the sample block. -/
theorem threefish_decrypt_1024_eq_ref_witness :
    sample_block.length = 16 ∧
    threefish_decrypt_1024 zero_key_ctx sample_block 5 =
      ref_decrypt zero_key_ctx.key 5 sample_block :=
  ⟨by decide, threefish_decrypt_1024_eq_ref zero_key_ctx 5 sample_block (by decide)⟩

/-- Claim C6: the parity word.  Word 16 of the context `threefishSetKey1024` writes is
`KeyScheduleConst` XOR-ed with the sixteen key words (their little-endian values, which on a
little-endian host are the words of `keyData` themselves); for the all-zero key it is
`0x1BD11BDAA9FC1A22`. -/
theorem threefishSetKey1024_parity (h : Host) (keyCtx : threefish_key) (keyData : List Nat)
    (hc : keyCtx.key.length = 17) (hk : keyData.length = 16) :
    (threefishSetKey1024 h keyCtx keyData).key.getD 16 0 =
        (keyData.map (le64_to_cpu h)).foldl (fun p w => p ^^^ w) 0x1BD11BDAA9FC1A22 ∧
    (threefishSetKey1024 Host.little keyCtx keyData).key.getD 16 0 =
        keyData.foldl (fun p w => p ^^^ w) 0x1BD11BDAA9FC1A22 ∧
    (threefishSetKey1024 h keyCtx zero_key).key.getD 16 0 = 0x1BD11BDAA9FC1A22 := by
  refine ⟨?_, ?_, ?_⟩
  · rw [threefishSetKey1024_eq h keyCtx keyData hc, range_map_getD_16 _ keyData hk]
    simp [List.getD_append_right, hk, KeyScheduleConst]
  · rw [threefishSetKey1024_eq Host.little keyCtx keyData hc, range_map_getD_16 _ keyData hk,
      map_little_in_list]
    simp [List.getD_append_right, hk, KeyScheduleConst]
  · rw [threefishSetKey1024_zero h keyCtx hc]
    decide

/-- Witness for C6: the parity word of the sample key set into a blank context. -/
theorem threefishSetKey1024_parity_witness :
    blank_ctx.key.length = 17 ∧ sample_key.length = 16 ∧
    (threefishSetKey1024 Host.big blank_ctx sample_key).key.getD 16 0 =
        (sample_key.map (le64_to_cpu Host.big)).foldl (fun p w => p ^^^ w) 0x1BD11BDAA9FC1A22 :=
  ⟨by decide, by decide,
    (threefishSetKey1024_parity Host.big blank_ctx sample_key (by decide) (by decide)).1⟩

/-- Claim C7: the key words are copied unchanged.  For `i` in `0..15`, word `i` of the context
`threefishSetKey1024` writes is the little-endian value of key word `i` (on a little-endian
host `keyData[i]` itself), and the context has exactly 17 words: the sixteen key words in order
followed by the parity word. -/
theorem threefishSetKey1024_words (h : Host) (keyCtx : threefish_key) (keyData : List Nat)
    (hc : keyCtx.key.length = 17) (hk : keyData.length = 16) :
    (∀ i, i < 16 →
      (threefishSetKey1024 h keyCtx keyData).key.getD i 0 = le64_to_cpu h (keyData.getD i 0)) ∧
    (∀ i, i < 16 →
      (threefishSetKey1024 Host.little keyCtx keyData).key.getD i 0 = keyData.getD i 0) ∧
    (threefishSetKey1024 h keyCtx keyData).key.length = 17 ∧
    (threefishSetKey1024 h keyCtx keyData).key =
      keyData.map (le64_to_cpu h) ++ [(threefishSetKey1024 h keyCtx keyData).key.getD 16 0] := by
  have hlist : (threefishSetKey1024 h keyCtx keyData).key =
      keyData.map (le64_to_cpu h) ++ [(threefishSetKey1024 h keyCtx keyData).key.getD 16 0] := by
    rw [threefishSetKey1024_eq h keyCtx keyData hc, range_map_getD_16 _ keyData hk]
    simp [List.getD_append_right, hk]
  have hget : ∀ (g : Host) (i : Nat), i < 16 →
      (threefishSetKey1024 g keyCtx keyData).key.getD i 0 = le64_to_cpu g (keyData.getD i 0) := by
    intro g i hi
    rw [threefishSetKey1024_eq g keyCtx keyData hc, range_map_getD_16 _ keyData hk]
    have hi2 : i < (keyData.map (le64_to_cpu g)).length := by simpa [hk] using hi
    rw [List.getD_append _ _ _ _ hi2]
    simp [List.getD_eq_getElem?_getD, hk, hi]
  refine ⟨hget h, fun i hi => hget Host.little i hi, ?_, hlist⟩
  rw [hlist]
  simp [hk]

/-- Witness for C7: the words of the sample key set into a blank context. -/
theorem threefishSetKey1024_words_witness :
    blank_ctx.key.length = 17 ∧ sample_key.length = 16 ∧
    (threefishSetKey1024 Host.little blank_ctx sample_key).key.length = 17 :=
  ⟨by decide, by decide,
    (threefishSetKey1024_words Host.little blank_ctx sample_key (by decide) (by decide)).2.2.1⟩

/-- Claim C8: key-length validation.  `cia_threefish1024_setkey` returns `-EINVAL` exactly
when `key_len` is not 128; it rejects the lengths 0, 8, 120, 136 and 256 and returns 0 for the
length 128. -/
theorem cia_threefish1024_setkey_einval (h : Host) (tfm : crypto_tfm) (key : List Nat)
    (key_len : Nat) :
    ((cia_threefish1024_setkey h tfm key key_len).1 = -EINVAL ↔ key_len ≠ 128) ∧
    (∀ n ∈ [0, 8, 120, 136, 256], (cia_threefish1024_setkey h tfm key n).1 = -EINVAL) ∧
    (cia_threefish1024_setkey h tfm key 128).1 = 0 := by
  refine ⟨?_, ?_, ?_⟩
  · unfold cia_threefish1024_setkey
    by_cases hk : key_len = 128
    · simp [hk, EINVAL]
    · simp [hk]
  · intro n hn
    unfold cia_threefish1024_setkey
    have hne : n ≠ 128 := by
      simp only [List.mem_cons, List.mem_singleton, List.not_mem_nil, or_false] at hn
      omega
    simp [hne]
  · simp [cia_threefish1024_setkey]

/-- Claim C9: a rejected key leaves no partial key schedule.  When `key_len` is not 128 the
key context after `cia_threefish1024_setkey` is the one before the call, word for word; the
only change is the flag `CRYPTO_TFM_RES_BAD_KEY_LEN` set in `crt_flags`. -/
theorem cia_threefish1024_setkey_rejected (h : Host) (tfm : crypto_tfm) (key : List Nat)
    (key_len : Nat) (hk : key_len ≠ 128) :
    (cia_threefish1024_setkey h tfm key key_len).2.ctx = tfm.ctx ∧
    (∀ i, (cia_threefish1024_setkey h tfm key key_len).2.ctx.key.getD i 0 =
      tfm.ctx.key.getD i 0) ∧
    (cia_threefish1024_setkey h tfm key key_len).2.crt_flags =
      tfm.crt_flags ||| CRYPTO_TFM_RES_BAD_KEY_LEN := by
  simp [cia_threefish1024_setkey, hk]

/-- Witness for C9: a 120-byte key offered to a transform holding the context of the all-zero
key. -/
theorem cia_threefish1024_setkey_rejected_witness :
    (120 : Nat) ≠ 128 ∧
    (cia_threefish1024_setkey Host.little ⟨0, zero_key_ctx⟩ (List.replicate 120 0xAB) 120).2.ctx =
      zero_key_ctx :=
  ⟨by decide,
    (cia_threefish1024_setkey_rejected Host.little ⟨0, zero_key_ctx⟩ (List.replicate 120 0xAB)
      120 (by decide)).1⟩

set_option maxRecDepth 100000 in
/-- Counterexample for C10 as stated: at the context of the all-zero key, counter 0 and the
all-zero block the output is not that of the 20-round reference with injection steps 0..5. -/
theorem threefish_encrypt_1024_not_twenty_rounds :
    threefish_encrypt_1024 Host.little zero_key_ctx zero_block 0 ≠
      ref_encrypt_rounds 20 zero_key_ctx.key 0 zero_block := by
  decide

/-- Claim C10, amended: `threefish_encrypt_1024` consists of 80 rounds with a subkey injection
before rounds 0, 4, .., 76 (20 injections) and a 21st, final injection folded into the output:
on a little-endian host its output is that of the 80-round reference with injection steps
0..20. -/
theorem threefish_encrypt_1024_eighty_rounds (K : threefish_key) (t0 : Nat) (b : List Nat)
    (hb : b.length = 16) :
    threefish_encrypt_1024 Host.little K b t0 = ref_encrypt_rounds 80 K.key t0 b := by
  rw [encrypt_eq_ref_rounds Host.little K t0 b hb, map_little_in_list, map_little_out_list]

/-- Witness for C10, amended: the equality with the 80-round reference at the context of the
all-zero key, counter 0 and the all-zero block. -/
theorem threefish_encrypt_1024_eighty_rounds_witness :
    zero_block.length = 16 ∧
    threefish_encrypt_1024 Host.little zero_key_ctx zero_block 0 =
      ref_encrypt_rounds 80 zero_key_ctx.key 0 zero_block :=
  ⟨by decide, threefish_encrypt_1024_eighty_rounds zero_key_ctx 0 zero_block (by decide)⟩

set_option maxRecDepth 100000 in
/-- Claim C11, the code at the failing input: on a big-endian host, with the context of the
all-zero key and counter 0, decrypting the encryption of the sample block does not give the
sample block back, because only `threefish_encrypt_1024` converts its words. -/
theorem threefish_roundtrip_big_endian :
    threefish_decrypt_1024 zero_key_ctx
      (threefish_encrypt_1024 Host.big zero_key_ctx sample_block 0) 0 ≠ sample_block := by
  decide

/-- Claim C14: for every key context and counter, `threefish_encrypt_1024` is a permutation of
the blocks of sixteen 64-bit words, on either host: it maps blocks to blocks, two different
blocks never have the same image, and every block is the image of a block. -/
theorem threefish_encrypt_1024_bijective (h : Host) (K : threefish_key) (t0 : Nat) :
    (∀ b, is_block b → is_block (threefish_encrypt_1024 h K b t0)) ∧
    (∀ b1 b2, is_block b1 → is_block b2 →
      threefish_encrypt_1024 h K b1 t0 = threefish_encrypt_1024 h K b2 t0 → b1 = b2) ∧
    (∀ c, is_block c → ∃ b, is_block b ∧ threefish_encrypt_1024 h K b t0 = c) := by
  refine ⟨fun b _ => encrypt_is_block h K t0 b, ?_, ?_⟩
  · intro b1 b2 h1 h2 e
    rw [← decrypt_encrypt_host h K t0 b1 h1, ← decrypt_encrypt_host h K t0 b2 h2, e]
  · intro c hc
    exact ⟨_, map_le64_to_cpu_block h _ (decrypt_is_block K t0 _), encrypt_decrypt_host h K t0 c hc⟩

set_option maxRecDepth 100000 in
/-- Claim C15: the counter changes the transform.  With the context of the all-zero key and the
all-zero block, the counters 0 and 1 give different ciphertext blocks, so there are a key
context, a block and two different counters with different outputs. -/
theorem threefish_counter_changes_output :
    threefish_encrypt_1024 Host.little (threefishSetKey1024 Host.little blank_ctx zero_key)
        zero_block 0 ≠
      threefish_encrypt_1024 Host.little (threefishSetKey1024 Host.little blank_ctx zero_key)
        zero_block 1 ∧
    ∃ (K : threefish_key) (b : List Nat) (c1 c2 : Nat), is_block b ∧ c1 ≠ c2 ∧
      threefish_encrypt_1024 Host.little K b c1 ≠ threefish_encrypt_1024 Host.little K b c2 := by
  have hne : threefish_encrypt_1024 Host.little
      (threefishSetKey1024 Host.little blank_ctx zero_key) zero_block 0 ≠
      threefish_encrypt_1024 Host.little (threefishSetKey1024 Host.little blank_ctx zero_key)
        zero_block 1 := by decide
  exact ⟨hne, _, zero_block, 0, 1, ⟨by decide, by decide⟩, by decide, hne⟩

set_option maxRecDepth 100000 in
/-- Claim C17: the cipher is not the identity.  With the context `threefishSetKey1024` builds
from the all-zero key and counter 0, the encryption of the all-zero block is not the all-zero
block, on either host. -/
theorem threefish_encrypt_1024_not_identity (h : Host) (keyCtx : threefish_key)
    (hc : keyCtx.key.length = 17) :
    threefish_encrypt_1024 h (threefishSetKey1024 h keyCtx zero_key) zero_block 0 ≠
      zero_block := by
  rw [threefishSetKey1024_zero h keyCtx hc]
  cases h <;> decide

/-- Witness for C17: the all-zero key set into a blank context on a little-endian host. -/
theorem threefish_encrypt_1024_not_identity_witness :
    blank_ctx.key.length = 17 ∧
    threefish_encrypt_1024 Host.little (threefishSetKey1024 Host.little blank_ctx zero_key)
      zero_block 0 ≠ zero_block :=
  ⟨by decide, threefish_encrypt_1024_not_identity Host.little blank_ctx (by decide)⟩

/-- Claim C18: MIX and its inverse.  For 64-bit words `a`, `b` and a rotation `k` in `0..63`,
the forward MIX `a' = a + b`, `b' = rol(b, k) XOR a'` is undone by `b_pre = ror(b' XOR a', k)`,
`a_pre = a' - b_pre`; and the forward MIX applied to the result of the inverse MIX gives back
the words the inverse MIX started from. -/
theorem mix_inverse (a b k : Nat) (ha : a < 2 ^ 64) (hb : b < 2 ^ 64) (hk : k < 64) :
    (ror64 ((rol64 b k ^^^ add64 a b) ^^^ add64 a b) k = b ∧
      sub64 (add64 a b) (ror64 ((rol64 b k ^^^ add64 a b) ^^^ add64 a b) k) = a) ∧
    (add64 (sub64 a (ror64 (b ^^^ a) k)) (ror64 (b ^^^ a) k) = a ∧
      rol64 (ror64 (b ^^^ a) k) k ^^^
        add64 (sub64 a (ror64 (b ^^^ a) k)) (ror64 (b ^^^ a) k) = b) ∧
    ref_unmix k (ref_mix k a b).1 (ref_mix k a b).2 = (a, b) ∧
    ref_mix k (ref_unmix k a b).1 (ref_unmix k a b).2 = (a, b) := by
  have e1 : ror64 ((rol64 b k ^^^ add64 a b) ^^^ add64 a b) k = b := ror64_rol64_xor b k _ hb hk
  have e2 : add64 (sub64 a (ror64 (b ^^^ a) k)) (ror64 (b ^^^ a) k) = a := add64_sub64 a _ ha
  have e3 : rol64 (ror64 (b ^^^ a) k) k ^^^ a = b := by
    rw [rol64_ror64 _ k (xor_lt64 hb ha) hk, xor_xor_cancel]
  refine ⟨⟨e1, ?_⟩, ⟨e2, ?_⟩, ?_, ?_⟩
  · rw [e1, sub64_add64 a b ha]
  · rw [e2, e3]
  · simp only [ref_unmix, ref_mix, e1, sub64_add64 a b ha]
  · simp only [ref_unmix, ref_mix, e2, e3]

/-- Witness for C18: a MIX whose sum wraps around, with rotation 63. -/
theorem mix_inverse_witness :
    (0xFFFFFFFFFFFFFFFF : Nat) < 2 ^ 64 ∧ (0x8000000000000001 : Nat) < 2 ^ 64 ∧ (63 : Nat) < 64 ∧
    ref_unmix 63 (ref_mix 63 0xFFFFFFFFFFFFFFFF 0x8000000000000001).1
      (ref_mix 63 0xFFFFFFFFFFFFFFFF 0x8000000000000001).2 =
      (0xFFFFFFFFFFFFFFFF, 0x8000000000000001) :=
  ⟨by decide, by decide, by decide,
    (mix_inverse 0xFFFFFFFFFFFFFFFF 0x8000000000000001 63 (by decide) (by decide)
      (by decide)).2.2.1⟩

/-- Claim C13: totality.  Given a key context of 17 words and an input of 16 words,
`threefish_encrypt_1024` and `threefish_decrypt_1024` return a block of sixteen 64-bit words for
every counter; every word they load exists (key indices `0..16`, input indices `0..15`), and no
word outside these ranges is read: words appended to the key context or to the input leave the
result unchanged. -/
theorem threefish_total (h : Host) (K : threefish_key) (t0 : Nat) (b : List Nat)
    (hK : K.key.length = 17) (hb : b.length = 16) :
    is_block (threefish_encrypt_1024 h K b t0) ∧
    is_block (threefish_decrypt_1024 K b t0) ∧
    (∀ i, i < 17 → K.key.get? i = some (load_key K i)) ∧
    (∀ i, i < 16 → b.get? i = some ((store_block (load_block b)).getD i 0)) ∧
    (∀ moreK moreB : List Nat,
      threefish_encrypt_1024 h ⟨K.key ++ moreK⟩ (b ++ moreB) t0 =
        threefish_encrypt_1024 h K b t0 ∧
      threefish_decrypt_1024 ⟨K.key ++ moreK⟩ (b ++ moreB) t0 =
        threefish_decrypt_1024 K b t0) := by
  have hk : ∀ (moreK : List Nat) (i : Nat), i < 17 →
      (K.key ++ moreK).getD i 0 = K.key.getD i 0 :=
    fun moreK i hi => getD_append_of_lt K.key moreK i (by omega)
  have hbb : ∀ (moreB : List Nat) (i : Nat), i < 16 → (b ++ moreB).getD i 0 = b.getD i 0 :=
    fun moreB i hi => getD_append_of_lt b moreB i (by omega)
  refine ⟨encrypt_is_block h K t0 b, decrypt_is_block K t0 b, ?_, ?_, ?_⟩
  · intro i hi
    exact getD_eq_get_of_lt K.key i (by omega)
  · intro i hi
    rw [store_load_block b hb]
    exact getD_eq_get_of_lt b i (by omega)
  · intro moreK moreB
    exact ⟨encrypt_congr h _ K t0 _ b (hk moreK) (hbb moreB),
      decrypt_congr _ K t0 _ b (hk moreK) (hbb moreB)⟩

/-- Witness for C13: the context of the all-zero key and the sample block on a big-endian
host, with counter `2 ^ 64 - 1`. -/
theorem threefish_total_witness :
    zero_key_ctx.key.length = 17 ∧ sample_block.length = 16 ∧
    is_block (threefish_encrypt_1024 Host.big zero_key_ctx sample_block 0xFFFFFFFFFFFFFFFF) ∧
    is_block (threefish_decrypt_1024 zero_key_ctx sample_block 0xFFFFFFFFFFFFFFFF) :=
  ⟨by decide, by decide,
    (threefish_total Host.big zero_key_ctx 0xFFFFFFFFFFFFFFFF sample_block (by decide)
      (by decide)).1,
    (threefish_total Host.big zero_key_ctx 0xFFFFFFFFFFFFFFFF sample_block (by decide)
      (by decide)).2.1⟩

/-- Claim C16: determinism.  The outputs of `threefish_encrypt_1024` and of
`threefish_decrypt_1024` are functions of the 17 key-context words, the 16 input words and the
counter only: two calls whose key contexts agree on words `0..16`, whose inputs agree on words
`0..15` and whose counters are equal return equal blocks. -/
theorem threefish_deterministic (h : Host) (K K' : threefish_key) (t0 t0' : Nat)
    (b b' : List Nat) (hK : ∀ i, i < 17 → K.key.getD i 0 = K'.key.getD i 0)
    (hb : ∀ i, i < 16 → b.getD i 0 = b'.getD i 0) (ht : t0 = t0') :
    threefish_encrypt_1024 h K b t0 = threefish_encrypt_1024 h K' b' t0' ∧
    threefish_decrypt_1024 K b t0 = threefish_decrypt_1024 K' b' t0' := by
  subst ht
  exact ⟨encrypt_congr h K K' t0 b b' hK hb, decrypt_congr K K' t0 b b' hK hb⟩

/-- Witness for C16: two calls on the context of the all-zero key and the sample block, the
second with an eighteenth word in the context and a seventeenth word in the input. -/
theorem threefish_deterministic_witness :
    (∀ i, i < 17 → zero_key_ctx.key.getD i 0 = (zero_key_ctx.key ++ [7]).getD i 0) ∧
    (∀ i, i < 16 → sample_block.getD i 0 = (sample_block ++ [9]).getD i 0) ∧
    threefish_encrypt_1024 Host.little zero_key_ctx sample_block 5 =
      threefish_encrypt_1024 Host.little ⟨zero_key_ctx.key ++ [7]⟩ (sample_block ++ [9]) 5 :=
  ⟨by decide, by decide,
    (threefish_deterministic Host.little zero_key_ctx ⟨zero_key_ctx.key ++ [7]⟩ 5 5 sample_block
      (sample_block ++ [9]) (by decide) (by decide) rfl).1⟩

/-- Claim C19: subkey injection is undone exactly under wrap-around arithmetic.  For every
step `s`, subtracting subkey `s` from the state obtained by adding it returns the state, with
no condition on overflow; this holds for the fused form `b_odd += k; b_even += b_odd + k'`
undone by `b_even -= b_odd + k'; b_odd -= k`; and in the code, for each step `s` in `0..19`
the block of round `4 s` adds exactly subkey `s` before its MIX layer, the matching block of
the decryption subtracts it after its inverse MIX layer and undoes the block, and for step 20
`dec_subkey_20` subtracts what `enc_output` added. -/
theorem subkey_injection_undone (K : threefish_key) (t0 : Nat) :
    (∀ s v, is_block v → ref_sub_subkey K.key t0 s (ref_add_subkey K.key t0 s v) = v) ∧
    (∀ a b k k', a < 2 ^ 64 → b < 2 ^ 64 →
      sub64 (add64 a (add64 (add64 b k) k')) (add64 (add64 b k) k') = a ∧
      sub64 (add64 b k) k = b) ∧
    (∀ s, s < 20 → ∀ st : State, st.wf →
      ref_view 1 (enc_round (4 * s) (load_key K) t0 st) =
        ref_permute (ref_mix_layer (4 * s) (ref_add_subkey K.key t0 s (ref_view 0 st))) ∧
      ref_view 0 (dec_round (4 * s) (load_key K) t0 st) =
        ref_sub_subkey K.key t0 s (ref_unmix_layer (4 * s) (ref_unpermute (ref_view 1 st))) ∧
      dec_round (4 * s) (load_key K) t0 (enc_round (4 * s) (load_key K) t0 st) = st) ∧
    (∀ st : State, st.wf →
      store_block (enc_output (load_key K) t0 st) = ref_add_subkey K.key t0 20 (store_block st) ∧
      store_block (dec_subkey_20 (load_key K) t0 st) =
        ref_sub_subkey K.key t0 20 (store_block st) ∧
      dec_subkey_20 (load_key K) t0 (enc_output (load_key K) t0 st) = st) :=
  ⟨fun s v hv => ref_sub_add_subkey K.key t0 s v hv,
    fun a b k k' ha hb => fused_subkey_undone a b k k' ha hb,
    fun s hs st h => ⟨enc_subkey_round_ref K t0 s hs st, dec_subkey_round_ref K t0 s hs st,
      dec_enc_subkey_round (load_key K) t0 s hs st h⟩,
    fun st h => ⟨(enc_ref_output K t0 st).symm, (dec_ref_subkey_20 K t0 st).symm,
      dec_subkey_20_enc_output (load_key K) t0 st h⟩⟩

/-- Claim C20: each round is eight MIX steps covering the whole state.  The body of
`threefish_encrypt_1024` is the rounds `0..79` in order.  In every round `d` there are eight
MIX steps on eight word pairs, each an even-indexed sum word and an odd-indexed rotated word,
which together are the sixteen state words without repetition.  The round leaves in the sum
word of a pair the sum `a + b` and in the rotated word the value `rol64(b, r) XOR (a + b)`,
with `r < 64` the rotation amount of the step and `a`, `b` the two words the round starts from
(in the rounds `4 s` the locals after the addition of subkey `s`, which the source fuses into
the MIX statements, in the other rounds the locals themselves).  So each word is updated by
exactly one MIX, its new value depends on the two words of its pair only, and the eight MIX
steps applied one at a time in any order give the result of the round. -/
theorem enc_round_mix_pairs (K : threefish_key) (k : Nat → Nat) (t0 d : Nat) (hd : d < 80) :
    (∀ s : State,
      enc_rounds k t0 s = (List.range 80).foldl (fun st n => enc_round n k t0 st) s) ∧
    (enc_mix_pairs d).length = 8 ∧
    (∀ p ∈ enc_mix_pairs d, p.1 % 2 = 0 ∧ p.2 % 2 = 1) ∧
    List.Perm ((enc_mix_pairs d).flatMap fun p => [p.1, p.2]) (List.range 16) ∧
    (enc_mix_steps d).map Prod.fst = enc_mix_pairs d ∧
    (enc_mix_steps d).map Prod.snd = R_1024.getD (d % 8) [] ∧
    (∀ q ∈ enc_mix_steps d, q.2 < 64) ∧
    (d % 4 ≠ 0 → ∀ u : State, enc_mix_input K t0 d u = u) ∧
    (d % 4 = 0 → ∀ (u : State) (i : Nat), i < 16 →
      (enc_mix_input K t0 d u).get i = add64 (u.get i) (ref_subkey K.key t0 (d / 4) i)) ∧
    (∀ q ∈ enc_mix_steps d, ∀ u : State,
      (enc_round d (load_key K) t0 u).get q.1.1 =
        add64 ((enc_mix_input K t0 d u).get q.1.1) ((enc_mix_input K t0 d u).get q.1.2) ∧
      (enc_round d (load_key K) t0 u).get q.1.2 =
        rol64 ((enc_mix_input K t0 d u).get q.1.2) q.2 ^^^
          add64 ((enc_mix_input K t0 d u).get q.1.1) ((enc_mix_input K t0 d u).get q.1.2)) ∧
    (∀ p ∈ enc_mix_pairs d, ∀ u u' : State, u.get p.1 = u'.get p.1 → u.get p.2 = u'.get p.2 →
      (enc_round d k t0 u).get p.1 = (enc_round d k t0 u').get p.1 ∧
      (enc_round d k t0 u).get p.2 = (enc_round d k t0 u').get p.2) ∧
    (∀ l, List.Perm l (enc_mix_pairs d) → ∀ s : State,
      l.foldl (fun st p => mix_on (enc_round d k t0) p st) s = enc_round d k t0 s) ∧
    (∀ l, List.Perm l (enc_mix_steps d) → ∀ s : State,
      l.foldl (fun st q => mix_step q.2 q.1 st) (enc_mix_input K t0 d s) =
        enc_round d (load_key K) t0 s) :=
  ⟨enc_rounds_eq_fold k t0,
    (enc_mix_pairs_shape d).1, (enc_mix_pairs_shape d).2.1, (enc_mix_pairs_shape d).2.2,
    (enc_mix_steps_shape d).2.1, (enc_mix_steps_shape d).2.2.1, (enc_mix_steps_shape d).2.2.2.1,
    fun h4 u => enc_mix_input_of_ne K t0 d u h4,
    fun h4 u i hi => enc_mix_input_get K t0 d u h4 i hi,
    enc_round_mix K t0 d hd,
    enc_round_local k t0 d hd,
    fun l hl s => fold_mix_on (enc_round d k t0) (enc_mix_pairs d) l (enc_mix_pairs_shape d).2.2
      (enc_round_local k t0 d hd) hl s,
    fun l hl s => fold_mix_step (enc_mix_input K t0 d s) (enc_round d (load_key K) t0 s)
      (enc_mix_steps d) l (enc_mix_steps_shape d).2.2.2.2
      (fun q hq => enc_round_mix K t0 d hd q hq s) hl⟩

/-- Witness for C20: round 4 with the key words of the all-zero key and counter 7: its eight
MIX steps, applied in the reverse of the source order to the sample block with subkey 1 added,
give the result of the round. -/
theorem enc_round_mix_pairs_witness :
    (4 : Nat) < 80 ∧
    (enc_mix_steps 4).reverse.foldl (fun st q => mix_step q.2 q.1 st)
        (enc_mix_input zero_key_ctx 7 4 (load_block sample_block)) =
      enc_round 4 (load_key zero_key_ctx) 7 (load_block sample_block) :=
  ⟨by decide,
    (enc_round_mix_pairs zero_key_ctx (load_key zero_key_ctx) 7 4
      (by decide)).2.2.2.2.2.2.2.2.2.2.2.2 _ (List.reverse_perm _) _⟩

/-- Claim C21: stream encryption advances the counter by exactly 1 per block.  For a walk of
`nbytes = 128 n + r` bytes (`r < 128`) over a source of at least `n` blocks, with a stored
counter whose big-endian value is `v`, `__threefish1024_encrypt` leaves in output block `j`,
for every `j < n`, `threefish_encrypt_1024` of source block `j` with counter
`(v + j) mod 2 ^ 64` (the first block with `v` itself), leaves the destination past block `n`
and the source as they were, and returns `r`. -/
theorem stream_encrypt_blocks (h : Host) (ctx : threefish_key) (w : blkcipher_walk)
    (hnb : w.nbytes < 2 ^ 32) (hiv : is_iv w.iv) (hs : 16 * (w.nbytes / 128) ≤ w.src.length)
    (hd : 16 * (w.nbytes / 128) ≤ w.dst.length) :
    (∀ j, j < w.nbytes / 128 →
      read_block (__threefish1024_encrypt h ctx w).2.dst (16 * j) =
        threefish_encrypt_1024 h ctx (read_block w.src (16 * j))
          ((be_value w.iv + j) % 2 ^ 64)) ∧
    (0 < w.nbytes / 128 →
      read_block (__threefish1024_encrypt h ctx w).2.dst 0 =
        threefish_encrypt_1024 h ctx (read_block w.src 0) (be_value w.iv)) ∧
    (__threefish1024_encrypt h ctx w).2.dst.drop (16 * (w.nbytes / 128)) =
      w.dst.drop (16 * (w.nbytes / 128)) ∧
    (__threefish1024_encrypt h ctx w).2.dst.length = w.dst.length ∧
    (__threefish1024_encrypt h ctx w).2.src = w.src ∧
    (__threefish1024_encrypt h ctx w).1 = w.nbytes % 128 ∧
    w.nbytes = 128 * (w.nbytes / 128) + (__threefish1024_encrypt h ctx w).1 := by
  have hf := encrypt_length h ctx
  have hlen := stream_blocks_length (threefish_encrypt_1024 h ctx) (fun b t => hf b t) w.src
    (be_value w.iv) (w.nbytes / 128)
  have hblk : ∀ j, j < w.nbytes / 128 →
      read_block (__threefish1024_encrypt h ctx w).2.dst (16 * j) =
        threefish_encrypt_1024 h ctx (read_block w.src (16 * j))
          ((be_value w.iv + j) % 2 ^ 64) := by
    intro j hj
    rw [threefish1024_encrypt_eq h ctx w hnb hiv hd]
    exact read_stream_block _ (fun b t => hf b t) _ _ _ _ j hj
  refine ⟨hblk, ?_, ?_, ?_, ?_, ?_, ?_⟩
  · intro hn
    have := hblk 0 hn
    rw [Nat.mul_zero, Nat.add_zero, Nat.mod_eq_of_lt (be_value_lt w.iv hiv)] at this
    exact this
  · rw [threefish1024_encrypt_eq h ctx w hnb hiv hd]
    exact List.drop_left' hlen
  · rw [threefish1024_encrypt_eq h ctx w hnb hiv hd]
    simp only [List.length_append, hlen, List.length_drop]
    omega
  · rw [threefish1024_encrypt_eq h ctx w hnb hiv hd]
  · exact (threefish1024_encrypt_iv h ctx w hnb hiv).1
  · rw [(threefish1024_encrypt_iv h ctx w hnb hiv).1]
    omega

/-- Witness for C21: the sample walk (two blocks and 44 bytes, stored counter
`2 ^ 64 - 1`): its second output block is encrypted with the counter 0. -/
theorem stream_encrypt_blocks_witness :
    sample_walk.nbytes < 2 ^ 32 ∧ is_iv sample_walk.iv ∧
    16 * (sample_walk.nbytes / 128) ≤ sample_walk.src.length ∧
    16 * (sample_walk.nbytes / 128) ≤ sample_walk.dst.length ∧
    read_block (__threefish1024_encrypt Host.little zero_key_ctx sample_walk).2.dst (16 * 1) =
      threefish_encrypt_1024 Host.little zero_key_ctx (read_block sample_walk.src (16 * 1))
        ((be_value sample_walk.iv + 1) % 2 ^ 64) :=
  ⟨by decide, ⟨by decide, by decide⟩, by decide, by decide,
    (stream_encrypt_blocks Host.little zero_key_ctx sample_walk (by decide)
      ⟨by decide, by decide⟩ (by decide) (by decide)).1 1 (by decide)⟩

/-- Claim C22: the stored counter is big-endian and is written back advanced by the number of
blocks processed.  `__threefish1024_encrypt` and `__threefish1024_decrypt` read the eight
counter bytes as the big-endian integer `v` and store the big-endian bytes of
`(v + n) mod 2 ^ 64`, `n = nbytes / 128`, on either host; the counter is unchanged when
`nbytes < 128` and wraps to 0 after `2 ^ 64 - 1`. -/
theorem stream_counter_written_back (h : Host) (ctx : threefish_key) (w : blkcipher_walk)
    (hnb : w.nbytes < 2 ^ 32) (hiv : is_iv w.iv) :
    be64_to_cpu h (load_u64 h w.iv 0) = be_value w.iv ∧
    (__threefish1024_encrypt h ctx w).2.iv =
      be_bytes ((be_value w.iv + w.nbytes / 128) % 2 ^ 64) ∧
    (__threefish1024_decrypt h ctx w).2.iv =
      be_bytes ((be_value w.iv + w.nbytes / 128) % 2 ^ 64) ∧
    be_value (__threefish1024_encrypt h ctx w).2.iv = (be_value w.iv + w.nbytes / 128) % 2 ^ 64 ∧
    be_value (__threefish1024_decrypt h ctx w).2.iv = (be_value w.iv + w.nbytes / 128) % 2 ^ 64 ∧
    (w.nbytes < 128 → (__threefish1024_encrypt h ctx w).2.iv = w.iv ∧
      (__threefish1024_decrypt h ctx w).2.iv = w.iv) ∧
    (be_value w.iv = 0xFFFFFFFFFFFFFFFF → w.nbytes / 128 = 1 →
      (__threefish1024_encrypt h ctx w).2.iv = [0, 0, 0, 0, 0, 0, 0, 0] ∧
      (__threefish1024_decrypt h ctx w).2.iv = [0, 0, 0, 0, 0, 0, 0, 0]) := by
  have he := (threefish1024_encrypt_iv h ctx w hnb hiv).2
  have hd := (threefish1024_decrypt_iv h ctx w hnb hiv).2
  have hlt : (be_value w.iv + w.nbytes / 128) % 2 ^ 64 < 2 ^ 64 := Nat.mod_lt _ (by decide)
  refine ⟨read_iv h w.iv hiv, he, hd, ?_, ?_, ?_, ?_⟩
  · rw [he, be_value_be_bytes _ hlt]
  · rw [hd, be_value_be_bytes _ hlt]
  · intro hsmall
    have h0 : w.nbytes / 128 = 0 := by omega
    have e : (be_value w.iv + w.nbytes / 128) % 2 ^ 64 = be_value w.iv := by
      rw [h0, Nat.add_zero, Nat.mod_eq_of_lt (be_value_lt w.iv hiv)]
    rw [he, hd, e, be_bytes_be_value w.iv hiv]
    exact ⟨rfl, rfl⟩
  · intro hv hn
    have e : (be_value w.iv + w.nbytes / 128) % 2 ^ 64 = 0 := by rw [hv, hn]; decide
    rw [he, hd, e]
    exact ⟨by decide, by decide⟩

/-- Witness for C22: the sample walk on a big-endian host: the stored counter `2 ^ 64 - 1`
advanced by two blocks is 1. -/
theorem stream_counter_written_back_witness :
    sample_walk.nbytes < 2 ^ 32 ∧ is_iv sample_walk.iv ∧
    (__threefish1024_encrypt Host.big zero_key_ctx sample_walk).2.iv =
      be_bytes ((be_value sample_walk.iv + sample_walk.nbytes / 128) % 2 ^ 64) :=
  ⟨by decide, ⟨by decide, by decide⟩,
    (stream_counter_written_back Host.big zero_key_ctx sample_walk (by decide)
      ⟨by decide, by decide⟩).2.1⟩

/-- Claim C24: in-place use is safe.  `threefish_encrypt_1024` and `threefish_decrypt_1024`
load their sixteen input words before they store any output word, so a call whose output is
the storage of its input leaves in it the sixteen words a call with a separate output array
leaves there, and no other word of the array changes; the same holds for
`cia_threefish1024_encrypt` and `cia_threefish1024_decrypt`. -/
theorem threefish_in_place (h : Host) (K : threefish_key) (mem : List Nat) (p t0 : Nat)
    (hp : p + 16 ≤ mem.length) :
    read_block (threefish_encrypt_1024_at h K mem p mem p t0) p =
      threefish_encrypt_1024 h K (read_block mem p) t0 ∧
    read_block (threefish_decrypt_1024_at K mem p mem p t0) p =
      threefish_decrypt_1024 K (read_block mem p) t0 ∧
    (∀ (out_mem : List Nat) (q : Nat), q + 16 ≤ out_mem.length →
      read_block (threefish_encrypt_1024_at h K mem p out_mem q t0) q =
        read_block (threefish_encrypt_1024_at h K mem p mem p t0) p ∧
      read_block (threefish_decrypt_1024_at K mem p out_mem q t0) q =
        read_block (threefish_decrypt_1024_at K mem p mem p t0) p) ∧
    (threefish_encrypt_1024_at h K mem p mem p t0 =
      mem.take p ++ (threefish_encrypt_1024 h K (read_block mem p) t0 ++ mem.drop (p + 16))) ∧
    (threefish_decrypt_1024_at K mem p mem p t0 =
      mem.take p ++ (threefish_decrypt_1024 K (read_block mem p) t0 ++ mem.drop (p + 16))) ∧
    (∀ tfm : crypto_tfm,
      read_block (cia_threefish1024_encrypt h tfm mem p mem p) p =
        threefish_encrypt_1024 h tfm.ctx (read_block mem p) 0 ∧
      read_block (cia_threefish1024_decrypt tfm mem p mem p) p =
        threefish_decrypt_1024 tfm.ctx (read_block mem p) 0) := by
  refine ⟨read_encrypt_at h K mem p mem p t0 hp, read_decrypt_at K mem p mem p t0 hp, ?_, ?_, ?_,
    ?_⟩
  · intro out_mem q hq
    rw [read_encrypt_at h K mem p out_mem q t0 hq, read_encrypt_at h K mem p mem p t0 hp,
      read_decrypt_at K mem p out_mem q t0 hq, read_decrypt_at K mem p mem p t0 hp]
    exact ⟨rfl, rfl⟩
  · rw [threefish_encrypt_1024_at, write_block_enc _ _ _ hp (encrypt_length h K _ t0)]
  · rw [threefish_decrypt_1024_at, write_block_dec _ _ _ hp (decrypt_length K _ t0)]
  · intro tfm
    exact ⟨read_encrypt_at h tfm.ctx mem p mem p 0 hp, read_decrypt_at tfm.ctx mem p mem p 0 hp⟩

/-- Witness for C24: the second block of the source of the sample walk encrypted in place. -/
theorem threefish_in_place_witness :
    16 + 16 ≤ sample_walk.src.length ∧
    read_block (threefish_encrypt_1024_at Host.little zero_key_ctx sample_walk.src 16
      sample_walk.src 16 9) 16 =
      threefish_encrypt_1024 Host.little zero_key_ctx (read_block sample_walk.src 16) 9 :=
  ⟨by decide, (threefish_in_place Host.little zero_key_ctx sample_walk.src 16 9 (by decide)).1⟩

/-- Claim C25: a successful key-set stores the expansion of the little-endian key words.  For
a key of 128 bytes, `cia_threefish1024_setkey` with `key_len = 128` returns 0 and leaves a
context whose word `i`, `i` in `0..15`, is the sum over `j` in `0..7` of
`key[8 i + j] * 256 ^ j` and whose word 16 is `KeyScheduleConst` XOR-ed with these sixteen
words, on either host. -/
theorem cia_threefish1024_setkey_expands (h : Host) (tfm : crypto_tfm) (key : List Nat)
    (hc : tfm.ctx.key.length = 17) (hl : key.length = 128) (hk : ∀ b ∈ key, b < 256) :
    (cia_threefish1024_setkey h tfm key 128).1 = 0 ∧
    (∀ i, i < 16 → (cia_threefish1024_setkey h tfm key 128).2.ctx.key.getD i 0 =
      ((List.range 8).map fun j => key.getD (8 * i + j) 0 * 256 ^ j).sum) ∧
    (cia_threefish1024_setkey h tfm key 128).2.ctx.key.getD 16 0 =
      ((List.range 16).map (key_word key)).foldl (fun p w => p ^^^ w) 0x1BD11BDAA9FC1A22 ∧
    (cia_threefish1024_setkey h tfm key 128).2.ctx.key.length = 17 ∧
    cia_threefish1024_setkey Host.little tfm key 128 =
      cia_threefish1024_setkey Host.big tfm key 128 := by
  rw [cia_setkey_ok h tfm key hc hk, cia_setkey_ok Host.little tfm key hc hk,
    cia_setkey_ok Host.big tfm key hc hk]
  refine ⟨rfl, ?_, ?_, ?_, rfl⟩
  · intro i hi
    have hi2 : i < ((List.range 16).map (key_word key)).length := by simpa using hi
    simp only
    rw [List.getD_append _ _ _ _ hi2]
    simp [List.getD_eq_getElem?_getD, hi, key_word]
  · simp [List.getD_append_right, KeyScheduleConst]
  · simp

set_option maxRecDepth 100000 in
/-- Witness for C25: the key bytes `0, 1, .., 127` set on a big-endian host into a transform
holding a blank context. -/
theorem cia_threefish1024_setkey_expands_witness :
    blank_ctx.key.length = 17 ∧ sample_key_bytes.length = 128 ∧
    (∀ b ∈ sample_key_bytes, b < 256) ∧
    (cia_threefish1024_setkey Host.big ⟨0, blank_ctx⟩ sample_key_bytes 128).1 = 0 :=
  ⟨by decide, by decide, by decide,
    (cia_threefish1024_setkey_expands Host.big ⟨0, blank_ctx⟩ sample_key_bytes (by decide)
      (by decide) (by decide)).1⟩

/-- Claim C26: stream decryption undoes stream encryption.  On a little-endian host, for a walk
of `nbytes` bytes over a source of `n = nbytes / 128` blocks of 64-bit words with a stored
counter `v`, running `__threefish1024_decrypt` with the same stored counter on the
destination `__threefish1024_encrypt` wrote gives the source blocks back; both calls return
the same leftover byte count and leave the same stored counter. -/
theorem stream_decrypt_encrypt (ctx : threefish_key) (w : blkcipher_walk) (dst2 : List Nat)
    (hnb : w.nbytes < 2 ^ 32) (hiv : is_iv w.iv) (hs : 16 * (w.nbytes / 128) ≤ w.src.length)
    (hw : ∀ x ∈ w.src, x < 2 ^ 64) (hd : 16 * (w.nbytes / 128) ≤ w.dst.length)
    (hd2 : 16 * (w.nbytes / 128) ≤ dst2.length) :
    (__threefish1024_decrypt Host.little ctx
      { nbytes := w.nbytes, src := (__threefish1024_encrypt Host.little ctx w).2.dst,
        dst := dst2, iv := w.iv }).2.dst.take (16 * (w.nbytes / 128)) =
      w.src.take (16 * (w.nbytes / 128)) ∧
    (__threefish1024_decrypt Host.little ctx
      { nbytes := w.nbytes, src := (__threefish1024_encrypt Host.little ctx w).2.dst,
        dst := dst2, iv := w.iv }).1 = (__threefish1024_encrypt Host.little ctx w).1 ∧
    (__threefish1024_decrypt Host.little ctx
      { nbytes := w.nbytes, src := (__threefish1024_encrypt Host.little ctx w).2.dst,
        dst := dst2, iv := w.iv }).2.iv = (__threefish1024_encrypt Host.little ctx w).2.iv := by
  have hfe := encrypt_length Host.little ctx
  have hfd := decrypt_length ctx
  rw [threefish1024_encrypt_eq Host.little ctx w hnb hiv hd]
  simp only
  rw [threefish1024_decrypt_eq Host.little ctx
    ⟨w.nbytes, (stream_blocks (threefish_encrypt_1024 Host.little ctx) w.src (be_value w.iv)
      (w.nbytes / 128)).flatten ++ w.dst.drop (16 * (w.nbytes / 128)), dst2, w.iv⟩ hnb hiv hd2]
  refine ⟨?_, rfl, rfl⟩
  simp only
  have hblocks : stream_blocks (threefish_decrypt_1024 ctx)
      ((stream_blocks (threefish_encrypt_1024 Host.little ctx) w.src (be_value w.iv)
        (w.nbytes / 128)).flatten ++ w.dst.drop (16 * (w.nbytes / 128))) (be_value w.iv)
        (w.nbytes / 128) =
      (List.range (w.nbytes / 128)).map fun j => read_block w.src (16 * j) := by
    unfold stream_blocks
    apply List.map_congr_left
    intro j hj
    have hjn : j < w.nbytes / 128 := List.mem_range.mp hj
    have hr := read_stream_block (threefish_encrypt_1024 Host.little ctx) (fun b t => hfe b t)
      w.src (w.dst.drop (16 * (w.nbytes / 128))) (be_value w.iv) (w.nbytes / 128) j hjn
    unfold stream_blocks at hr
    rw [hr]
    have hb := read_block_is_block w.src (16 * j) hw
    exact decrypt_encrypt_little ctx _ _ hb.1 hb.2
  have hlen := stream_blocks_length (threefish_decrypt_1024 ctx) (fun b t => hfd b t)
    ((stream_blocks (threefish_encrypt_1024 Host.little ctx) w.src (be_value w.iv)
      (w.nbytes / 128)).flatten ++ w.dst.drop (16 * (w.nbytes / 128))) (be_value w.iv)
    (w.nbytes / 128)
  rw [List.take_left' hlen, hblocks, flatten_read_blocks w.src _ hs]

/-- Witness for C26: the sample walk decrypted into a fresh destination of 32 words. -/
theorem stream_decrypt_encrypt_witness :
    sample_walk.nbytes < 2 ^ 32 ∧ is_iv sample_walk.iv ∧
    (∀ x ∈ sample_walk.src, x < 2 ^ 64) ∧
    (__threefish1024_decrypt Host.little zero_key_ctx
      { nbytes := sample_walk.nbytes,
        src := (__threefish1024_encrypt Host.little zero_key_ctx sample_walk).2.dst,
        dst := List.replicate 32 0, iv := sample_walk.iv }).2.dst.take
          (16 * (sample_walk.nbytes / 128)) =
      sample_walk.src.take (16 * (sample_walk.nbytes / 128)) :=
  ⟨by decide, ⟨by decide, by decide⟩, by decide,
    (stream_decrypt_encrypt zero_key_ctx sample_walk (List.replicate 32 0) (by decide)
      ⟨by decide, by decide⟩ (by decide) (by decide) (by decide) (by decide)).1⟩

/-- Claim C27: splitting a stream into chunks does not change the result.  Running
`__threefish1024_encrypt` on the first `n1` blocks and then, with the counter it stored, on
the next `n2` blocks gives the same `n1 + n2` output blocks and the same stored counter as one
call on all `n1 + n2` blocks. -/
theorem stream_encrypt_chunks (h : Host) (ctx : threefish_key) (src dst iv : List Nat)
    (n1 n2 : Nat) (hn : 128 * (n1 + n2) < 2 ^ 32) (hiv : is_iv iv)
    (hs : 16 * (n1 + n2) ≤ src.length) (hd : 16 * (n1 + n2) ≤ dst.length) :
    ((__threefish1024_encrypt h ctx ⟨128 * n1, src, dst, iv⟩).2.dst.take (16 * n1) ++
      (__threefish1024_encrypt h ctx
        ⟨128 * n2, src.drop (16 * n1),
          (__threefish1024_encrypt h ctx ⟨128 * n1, src, dst, iv⟩).2.dst.drop (16 * n1),
          (__threefish1024_encrypt h ctx ⟨128 * n1, src, dst, iv⟩).2.iv⟩).2.dst =
      (__threefish1024_encrypt h ctx ⟨128 * (n1 + n2), src, dst, iv⟩).2.dst) ∧
    (__threefish1024_encrypt h ctx
        ⟨128 * n2, src.drop (16 * n1),
          (__threefish1024_encrypt h ctx ⟨128 * n1, src, dst, iv⟩).2.dst.drop (16 * n1),
          (__threefish1024_encrypt h ctx ⟨128 * n1, src, dst, iv⟩).2.iv⟩).2.iv =
      (__threefish1024_encrypt h ctx ⟨128 * (n1 + n2), src, dst, iv⟩).2.iv := by
  have hf := encrypt_length h ctx
  have q1 : 128 * n1 / 128 = n1 := Nat.mul_div_cancel_left n1 (by decide)
  have q2 : 128 * n2 / 128 = n2 := Nat.mul_div_cancel_left n2 (by decide)
  have q3 : 128 * (n1 + n2) / 128 = n1 + n2 := Nat.mul_div_cancel_left _ (by decide)
  have hlen1 := stream_blocks_length (threefish_encrypt_1024 h ctx) (fun b t => hf b t) src
    (be_value iv) n1
  have e1 := threefish1024_encrypt_eq h ctx ⟨128 * n1, src, dst, iv⟩ (by simp only; omega) hiv
    (by simp only; rw [q1]; omega)
  simp only [q1] at e1
  rw [e1]
  simp only
  have hdrop : ((stream_blocks (threefish_encrypt_1024 h ctx) src (be_value iv) n1).flatten ++
      dst.drop (16 * n1)).drop (16 * n1) = dst.drop (16 * n1) := List.drop_left' hlen1
  have htake : ((stream_blocks (threefish_encrypt_1024 h ctx) src (be_value iv) n1).flatten ++
      dst.drop (16 * n1)).take (16 * n1) =
      (stream_blocks (threefish_encrypt_1024 h ctx) src (be_value iv) n1).flatten :=
    List.take_left' hlen1
  have hv1 : be_value (be_bytes ((be_value iv + n1) % 2 ^ 64)) = (be_value iv + n1) % 2 ^ 64 :=
    be_value_be_bytes _ (Nat.mod_lt _ (by decide))
  have e2 := threefish1024_encrypt_eq h ctx
    ⟨128 * n2, src.drop (16 * n1), dst.drop (16 * n1), be_bytes ((be_value iv + n1) % 2 ^ 64)⟩
    (by simp only; omega) (be_bytes_is_iv _)
    (by simp only; rw [q2, List.length_drop]; omega)
  simp only [q2, hv1] at e2
  have e3 := threefish1024_encrypt_eq h ctx ⟨128 * (n1 + n2), src, dst, iv⟩ (by simp only; omega)
    hiv (by simp only; rw [q3]; omega)
  simp only [q3] at e3
  rw [hdrop, htake, e2, e3]
  simp only
  constructor
  · rw [stream_blocks_add, List.flatten_append, List.append_assoc, List.drop_drop]
    congr 3
    ring
  · congr 1
    omega

/-- Witness for C27: the two blocks of the sample walk encrypted one at a time. -/
theorem stream_encrypt_chunks_witness :
    128 * (1 + 1) < 2 ^ 32 ∧ is_iv sample_walk.iv ∧
    (__threefish1024_encrypt Host.little zero_key_ctx
        ⟨128 * 1, sample_walk.src.drop (16 * 1),
          (__threefish1024_encrypt Host.little zero_key_ctx
            ⟨128 * 1, sample_walk.src, sample_walk.dst, sample_walk.iv⟩).2.dst.drop (16 * 1),
          (__threefish1024_encrypt Host.little zero_key_ctx
            ⟨128 * 1, sample_walk.src, sample_walk.dst, sample_walk.iv⟩).2.iv⟩).2.iv =
      (__threefish1024_encrypt Host.little zero_key_ctx
        ⟨128 * (1 + 1), sample_walk.src, sample_walk.dst, sample_walk.iv⟩).2.iv :=
  ⟨by decide, ⟨by decide, by decide⟩,
    (stream_encrypt_chunks Host.little zero_key_ctx sample_walk.src sample_walk.dst
      sample_walk.iv 1 1 (by decide) ⟨by decide, by decide⟩ (by decide) (by decide)).2⟩

/-- Claim C28: the block-walking loop terminates without underflow.  For every 32-bit
`nbytes`, the loops of `__threefish1024_encrypt` and `__threefish1024_decrypt` make exactly
`nbytes / 128` passes whenever the loop condition may be tested more than `nbytes / 128`
times; before each pass `nbytes` is at least 128, so the subtraction does not wrap; after the
last pass it is `nbytes mod 128`, which is what the functions return and is below 128. -/
theorem stream_loop_terminates (h : Host) (ctx : threefish_key) (w : blkcipher_walk)
    (hnb : w.nbytes < 2 ^ 32) :
    (∀ fuel, w.nbytes / 128 < fuel →
      walk_loop (encrypt_walk_body h ctx w.src 128) 128 fuel (encrypt_walk_locals h ctx w 0) =
        encrypt_walk_locals h ctx w (w.nbytes / 128) ∧
      walk_loop (decrypt_walk_body ctx w.src 128) 128 fuel (decrypt_walk_locals h ctx w 0) =
        decrypt_walk_locals h ctx w (w.nbytes / 128)) ∧
    (∀ j, j < w.nbytes / 128 →
      128 ≤ (encrypt_walk_locals h ctx w j).nbytes ∧
      (encrypt_walk_locals h ctx w (j + 1)).nbytes + 128 = (encrypt_walk_locals h ctx w j).nbytes ∧
      128 ≤ (decrypt_walk_locals h ctx w j).nbytes ∧
      (decrypt_walk_locals h ctx w (j + 1)).nbytes + 128 =
        (decrypt_walk_locals h ctx w j).nbytes) ∧
    (encrypt_walk_locals h ctx w (w.nbytes / 128)).nbytes = w.nbytes % 128 ∧
    (decrypt_walk_locals h ctx w (w.nbytes / 128)).nbytes = w.nbytes % 128 ∧
    (__threefish1024_encrypt h ctx w).1 = w.nbytes % 128 ∧
    (__threefish1024_decrypt h ctx w).1 = w.nbytes % 128 ∧
    w.nbytes % 128 < 128 := by
  have hne : ∀ j, 128 * j ≤ w.nbytes →
      (encrypt_walk_locals h ctx w j).nbytes = w.nbytes - 128 * j := fun j hj =>
    walk_body_iterate_nbytes enc_store_order (threefish_encrypt_1024 h ctx) w.src
      ⟨w.nbytes, 0, 0, be64_to_cpu h (load_u64 h w.iv 0), w.dst⟩ hnb j hj
  have hnd : ∀ j, 128 * j ≤ w.nbytes →
      (decrypt_walk_locals h ctx w j).nbytes = w.nbytes - 128 * j := fun j hj =>
    walk_body_iterate_nbytes dec_store_order (threefish_decrypt_1024 ctx) w.src
      ⟨w.nbytes, 0, 0, be64_to_cpu h (load_u64 h w.iv 0), w.dst⟩ hnb j hj
  have hle : ∀ fuel, w.nbytes / 128 < fuel →
      walk_loop (encrypt_walk_body h ctx w.src 128) 128 fuel (encrypt_walk_locals h ctx w 0) =
        encrypt_walk_locals h ctx w (w.nbytes / 128) := fun fuel hf =>
    walk_loop_eq_iterate _ (walk_body_nbytes enc_store_order (threefish_encrypt_1024 h ctx) w.src)
      fuel ⟨w.nbytes, 0, 0, be64_to_cpu h (load_u64 h w.iv 0), w.dst⟩ hnb hf
  have hld : ∀ fuel, w.nbytes / 128 < fuel →
      walk_loop (decrypt_walk_body ctx w.src 128) 128 fuel (decrypt_walk_locals h ctx w 0) =
        decrypt_walk_locals h ctx w (w.nbytes / 128) := fun fuel hf =>
    walk_loop_eq_iterate _ (walk_body_nbytes dec_store_order (threefish_decrypt_1024 ctx) w.src)
      fuel ⟨w.nbytes, 0, 0, be64_to_cpu h (load_u64 h w.iv 0), w.dst⟩ hnb hf
  have hfuel : w.nbytes / 128 < w.nbytes + 1 := Nat.lt_succ_of_le (Nat.div_le_self _ _)
  have hdiv := Nat.mul_div_le w.nbytes 128
  refine ⟨fun fuel hf => ⟨hle fuel hf, hld fuel hf⟩, ?_, ?_, ?_, ?_, ?_, Nat.mod_lt _ (by decide)⟩
  · intro j hj
    rw [hne j (by omega), hne (j + 1) (by omega), hnd j (by omega), hnd (j + 1) (by omega)]
    omega
  · rw [hne _ hdiv]
    omega
  · rw [hnd _ hdiv]
    omega
  · have e : (__threefish1024_encrypt h ctx w).1 =
        (walk_loop (encrypt_walk_body h ctx w.src 128) 128 (w.nbytes + 1)
          (encrypt_walk_locals h ctx w 0)).nbytes := rfl
    rw [e, hle _ hfuel, hne _ hdiv]
    omega
  · have e : (__threefish1024_decrypt h ctx w).1 =
        (walk_loop (decrypt_walk_body ctx w.src 128) 128 (w.nbytes + 1)
          (decrypt_walk_locals h ctx w 0)).nbytes := rfl
    rw [e, hld _ hfuel, hnd _ hdiv]
    omega

/-- Witness for C28: the sample walk of 300 bytes. -/
theorem stream_loop_terminates_witness :
    sample_walk.nbytes < 2 ^ 32 ∧
    (__threefish1024_encrypt Host.little zero_key_ctx sample_walk).1 = sample_walk.nbytes % 128 :=
  ⟨by decide,
    (stream_loop_terminates Host.little zero_key_ctx sample_walk (by decide)).2.2.2.2.1⟩

/-- Claim C29: the single-block cipher interface uses counter 0.  The block
`cia_threefish1024_encrypt` leaves at `out` is `threefish_encrypt_1024` of the block at `in`
with counter 0, and likewise for `cia_threefish1024_decrypt`; on a little-endian host
`cia_threefish1024_decrypt` applied to the result of `cia_threefish1024_encrypt` gives the
block back; and the encrypted block is the first output block of a stream encryption whose
stored counter is 0. -/
theorem cia_single_block (h : Host) (tfm : crypto_tfm) (in_mem : List Nat) (inp : Nat)
    (out_mem : List Nat) (outp : Nat) (hq : outp + 16 ≤ out_mem.length) :
    read_block (cia_threefish1024_encrypt h tfm out_mem outp in_mem inp) outp =
      threefish_encrypt_1024 h tfm.ctx (read_block in_mem inp) 0 ∧
    read_block (cia_threefish1024_decrypt tfm out_mem outp in_mem inp) outp =
      threefish_decrypt_1024 tfm.ctx (read_block in_mem inp) 0 ∧
    ((∀ x ∈ in_mem, x < 2 ^ 64) → ∀ (mem2 : List Nat) (q : Nat), q + 16 ≤ mem2.length →
      read_block (cia_threefish1024_decrypt tfm mem2 q
        (cia_threefish1024_encrypt Host.little tfm out_mem outp in_mem inp) outp) q =
        read_block in_mem inp) ∧
    (∀ w : blkcipher_walk, w.nbytes < 2 ^ 32 → 128 ≤ w.nbytes → is_iv w.iv →
      be_value w.iv = 0 → 16 * (w.nbytes / 128) ≤ w.dst.length →
      read_block (__threefish1024_encrypt h tfm.ctx w).2.dst 0 =
        read_block (cia_threefish1024_encrypt h tfm w.dst 0 w.src 0) 0) := by
  refine ⟨read_encrypt_at h tfm.ctx in_mem inp out_mem outp 0 hq,
    read_decrypt_at tfm.ctx in_mem inp out_mem outp 0 hq, ?_, ?_⟩
  · intro hw mem2 q hq2
    have hb := read_block_is_block in_mem inp hw
    simp only [cia_threefish1024_decrypt, cia_threefish1024_encrypt]
    rw [read_decrypt_at tfm.ctx _ outp mem2 q 0 hq2,
      read_encrypt_at Host.little tfm.ctx in_mem inp out_mem outp 0 hq]
    exact decrypt_encrypt_little tfm.ctx 0 _ hb.1 hb.2
  · intro w hnb hge hiv hv hd
    have hn : 0 < w.nbytes / 128 := by omega
    have hd0 : 0 + 16 ≤ w.dst.length := by omega
    simp only [cia_threefish1024_encrypt]
    rw [read_encrypt_at h tfm.ctx w.src 0 w.dst 0 0 hd0,
      threefish1024_encrypt_eq h tfm.ctx w hnb hiv hd]
    have hr := read_stream_block (threefish_encrypt_1024 h tfm.ctx)
      (fun b t => encrypt_length h tfm.ctx b t) w.src (w.dst.drop (16 * (w.nbytes / 128)))
      (be_value w.iv) (w.nbytes / 128) 0 hn
    rw [Nat.mul_zero, hv, Nat.add_zero, Nat.zero_mod] at hr
    simp only
    rw [hv]
    exact hr

/-- Witness for C29: the first block of the source of the sample walk encrypted into its
destination. -/
theorem cia_single_block_witness :
    0 + 16 ≤ sample_walk.dst.length ∧
    read_block (cia_threefish1024_encrypt Host.little (crypto_tfm.mk 0 zero_key_ctx)
      sample_walk.dst 0 sample_walk.src 0) 0 =
      threefish_encrypt_1024 Host.little (crypto_tfm.mk 0 zero_key_ctx).ctx
        (read_block sample_walk.src 0) 0 :=
  ⟨by decide,
    (cia_single_block Host.little (crypto_tfm.mk 0 zero_key_ctx) sample_walk.src 0
      sample_walk.dst 0 (by decide)).1⟩

/-- Claim C30: the round trip does not need a valid parity word.  On a little-endian host, for
every key context, whatever its word 16, every counter and every block of sixteen 64-bit
words, decryption undoes encryption and encryption undoes decryption. -/
theorem threefish_roundtrip_any_context (K : threefish_key) (t0 : Nat) (b : List Nat)
    (hb : b.length = 16) (hw : ∀ w ∈ b, w < 2 ^ 64) :
    threefish_decrypt_1024 K (threefish_encrypt_1024 Host.little K b t0) t0 = b ∧
    threefish_encrypt_1024 Host.little K (threefish_decrypt_1024 K b t0) t0 = b :=
  ⟨decrypt_encrypt_little K t0 b hb hw, encrypt_decrypt_little K t0 b hb hw⟩

/-- Witness for C30: the blank context, whose word 16 is 0 and not the parity
`0x1BD11BDAA9FC1A22` of its sixteen zero words. -/
theorem threefish_roundtrip_any_context_witness :
    sample_block.length = 16 ∧ (∀ w ∈ sample_block, w < 2 ^ 64) ∧
    blank_ctx.key.getD 16 0 ≠
      (blank_ctx.key.take 16).foldl (fun p w => p ^^^ w) 0x1BD11BDAA9FC1A22 ∧
    threefish_decrypt_1024 blank_ctx
      (threefish_encrypt_1024 Host.little blank_ctx sample_block 77) 77 = sample_block :=
  ⟨by decide, by decide, by decide,
    (threefish_roundtrip_any_context blank_ctx 77 sample_block (by decide) (by decide)).1⟩

/-- Claim C31: invariant of every key context `threefishSetKey1024` produces.  For every key of
sixteen words, on either host, the context written has 17 words and the XOR of all 17 is
`KeyScheduleConst = 0x1BD11BDAA9FC1A22`; the same holds for the context a successful
`cia_threefish1024_setkey` leaves. -/
theorem threefishSetKey1024_xor_invariant (h : Host) (keyCtx : threefish_key)
    (keyData : List Nat) (hc : keyCtx.key.length = 17) (hk : keyData.length = 16) :
    (threefishSetKey1024 h keyCtx keyData).key.length = 17 ∧
    (threefishSetKey1024 h keyCtx keyData).key.foldl (fun p w => p ^^^ w) 0 =
      0x1BD11BDAA9FC1A22 ∧
    ((List.range 17).map fun i => (threefishSetKey1024 h keyCtx keyData).key.getD i 0).foldl
      (fun p w => p ^^^ w) 0 = KeyScheduleConst ∧
    (∀ (tfm : crypto_tfm) (key : List Nat), tfm.ctx.key.length = 17 →
      (cia_threefish1024_setkey h tfm key 128).2.ctx.key.foldl (fun p w => p ^^^ w) 0 =
        0x1BD11BDAA9FC1A22) := by
  have hx : ∀ (c : threefish_key) (kd : List Nat), c.key.length = 17 →
      (threefishSetKey1024 h c kd).key.foldl (fun p w => p ^^^ w) 0 = KeyScheduleConst := by
    intro c kd hcl
    rw [threefishSetKey1024_eq h c kd hcl]
    exact foldl_xor_parity _ _
  refine ⟨threefishSetKey1024_length h keyCtx keyData hc, hx keyCtx keyData hc, ?_, ?_⟩
  · have hl := threefishSetKey1024_length h keyCtx keyData hc
    have hm : ((List.range 17).map fun i =>
        (threefishSetKey1024 h keyCtx keyData).key.getD i 0) =
        (threefishSetKey1024 h keyCtx keyData).key := by
      obtain ⟨c0, c1, c2, c3, c4, c5, c6, c7, c8, c9, c10, c11, c12, c13, c14, c15, c16, e⟩ :=
        length_17_cases hl
      rw [e]
      rfl
    rw [hm]
    exact hx keyCtx keyData hc
  · intro tfm key ht
    have e : (cia_threefish1024_setkey h tfm key 128).2.ctx =
        threefishSetKey1024 h tfm.ctx ((List.range 16).map fun i => load_u64 h key i) := by
      simp [cia_threefish1024_setkey]
    rw [e]
    exact hx _ _ ht

/-- Witness for C31: the sample key set on a big-endian host into a blank context. -/
theorem threefishSetKey1024_xor_invariant_witness :
    blank_ctx.key.length = 17 ∧ sample_key.length = 16 ∧
    (threefishSetKey1024 Host.big blank_ctx sample_key).key.foldl (fun p w => p ^^^ w) 0 =
      0x1BD11BDAA9FC1A22 :=
  ⟨by decide, by decide,
    (threefishSetKey1024_xor_invariant Host.big blank_ctx sample_key (by decide)
      (by decide)).2.1⟩

/-- Claim C32: re-keying replaces the whole schedule.  The loop of `threefishSetKey1024` makes
exactly 16 passes and is left with `i = 16`, having written words 0..15 of the context; word 16
is written after it.  So the 17-word context after the call depends on key words 0..15 only,
not on what the context held before, and setting key `A` and then key `B` leaves the context
that setting `B` alone leaves. -/
theorem threefishSetKey1024_rekey (h : Host) (keyCtx : threefish_key) (A B : List Nat)
    (hc : keyCtx.key.length = 17) :
    (∀ j, j ≤ 16 → (threefishSetKey1024_loop h B j 0 KeyScheduleConst keyCtx.key).1 = j) ∧
    (∀ fuel, 16 < fuel →
      threefishSetKey1024_loop h B fuel 0 KeyScheduleConst keyCtx.key =
        threefishSetKey1024_loop h B (1024 / 64 + 1) 0 KeyScheduleConst keyCtx.key) ∧
    (threefishSetKey1024_loop h B (1024 / 64 + 1) 0 KeyScheduleConst keyCtx.key).1 = 16 ∧
    (threefishSetKey1024_loop h B (1024 / 64 + 1) 0 KeyScheduleConst keyCtx.key).2.2 =
      ((List.range 16).map fun i => le64_to_cpu h (B.getD i 0)) ++ keyCtx.key.drop 16 ∧
    (threefishSetKey1024 h keyCtx B).key.length = 17 ∧
    (∀ i, i < 16 → (threefishSetKey1024 h keyCtx B).key.getD i 0 = le64_to_cpu h (B.getD i 0)) ∧
    (threefishSetKey1024 h keyCtx B).key.getD 16 0 =
      ((List.range 16).map fun i => le64_to_cpu h (B.getD i 0)).foldl (fun p w => p ^^^ w)
        KeyScheduleConst ∧
    (∀ keyCtx2 : threefish_key, keyCtx2.key.length = 17 →
      threefishSetKey1024 h keyCtx2 B = threefishSetKey1024 h keyCtx B) ∧
    (∀ B2 : List Nat, (∀ i, i < 16 → B2.getD i 0 = B.getD i 0) →
      threefishSetKey1024 h keyCtx B2 = threefishSetKey1024 h keyCtx B) ∧
    threefishSetKey1024 h (threefishSetKey1024 h keyCtx A) B = threefishSetKey1024 h keyCtx B := by
  have hloop := threefishSetKey1024_loop_eq h B keyCtx.key hc
  refine ⟨?_, ?_, ?_, ?_, threefishSetKey1024_length h keyCtx B hc, ?_, ?_, ?_, ?_, ?_⟩
  · intro j hj
    rw [threefishSetKey1024_loop_count h B j 0 _ _ (by omega)]
    omega
  · intro fuel hf
    exact threefishSetKey1024_loop_fuel h B fuel (1024 / 64 + 1) 0 _ _ (by omega) (by omega)
      (by decide)
  · rw [hloop]
  · rw [hloop]
  · intro i hi
    rw [threefishSetKey1024_eq h keyCtx B hc]
    have hi2 : i < ((List.range 16).map fun i => le64_to_cpu h (B.getD i 0)).length := by
      simpa using hi
    simp only
    rw [List.getD_append _ _ _ _ hi2]
    simp [List.getD_eq_getElem?_getD, hi]
  · rw [threefishSetKey1024_eq h keyCtx B hc]
    simp [List.getD_append_right]
  · intro keyCtx2 hc2
    exact threefishSetKey1024_any_ctx h keyCtx keyCtx2 B hc hc2
  · intro B2 hB
    rw [threefishSetKey1024_eq h keyCtx B hc, threefishSetKey1024_eq h keyCtx B2 hc,
      map_range_16_congr (fun i => le64_to_cpu h (B2.getD i 0))
        (fun i => le64_to_cpu h (B.getD i 0)) (fun i hi => by simp only; rw [hB i hi])]
  · exact threefishSetKey1024_any_ctx h keyCtx _ B hc (threefishSetKey1024_length h keyCtx A hc)

/-- Witness for C32: the all-zero key set over the context of the sample key, itself set over
the context of the all-zero key, whose word 16 is not 0. -/
theorem threefishSetKey1024_rekey_witness :
    zero_key_ctx.key.length = 17 ∧
    threefishSetKey1024 Host.little (threefishSetKey1024 Host.little zero_key_ctx sample_key)
      zero_key = threefishSetKey1024 Host.little zero_key_ctx zero_key :=
  ⟨by decide,
    (threefishSetKey1024_rekey Host.little zero_key_ctx sample_key zero_key
      (by decide)).2.2.2.2.2.2.2.2.2⟩

end Threefish1024
